import Mathlib

/-!
# Verification of the `calendario` calendar generator

Shallow embedding of `src/packages/core/calendario` (domain model, holiday
classifier, constraint predicates, decision policy, schedule builder,
validator, top-level generator) together with theorems settling the frozen
claims about the natural-language specification.

Python's `datetime.date` is modelled by a `Date` structure carrying the
year, month and day; date ordering, day arithmetic, weekdays and ISO week
numbers are derived from the proleptic Gregorian calendar exactly as the
standard library computes them (Rata Die day 1 = 0001-01-01 = a Monday).
The `random.Random` source is modelled as an injected stream of naturals:
`choice` over a list of length `n` consumes one draw and picks the draw
modulo `n`, so every sequence of uniform choices is represented by some
stream.  Python `while` loops are embedded with explicit fuel; exhausted
fuel surfaces as the distinguished `GenError.outOfFuel`, which the
termination theorems prove unreachable.
-/

namespace Calendario

/-- Gregorian leap-year test, as `calendar.isleap` / `datetime` use it. -/
def isLeap (y : Nat) : Bool :=
  y % 4 == 0 && (y % 100 != 0 || y % 400 == 0)

/-- Number of days in year `y` (365, or 366 in leap years). -/
def daysInYear (y : Nat) : Nat :=
  if isLeap y then 366 else 365

/-- Number of days of month `m` in year `y` (0 for out-of-range months). -/
def monthLen (y : Nat) (m : Nat) : Nat :=
  match m with
  | 1 => 31
  | 2 => if isLeap y then 29 else 28
  | 3 => 31
  | 4 => 30
  | 5 => 31
  | 6 => 30
  | 7 => 31
  | 8 => 31
  | 9 => 30
  | 10 => 31
  | 11 => 30
  | 12 => 31
  | _ => 0

/-- Days of year `y` that precede month `m` (0 for out-of-range months). -/
def daysBeforeMonth (y : Nat) (m : Nat) : Nat :=
  let lp : Nat := if isLeap y then 1 else 0
  match m with
  | 1 => 0
  | 2 => 31
  | 3 => 59 + lp
  | 4 => 90 + lp
  | 5 => 120 + lp
  | 6 => 151 + lp
  | 7 => 181 + lp
  | 8 => 212 + lp
  | 9 => 243 + lp
  | 10 => 273 + lp
  | 11 => 304 + lp
  | 12 => 334 + lp
  | _ => 0

/-- Days strictly before January 1 of year `y` in the proleptic Gregorian
calendar (so `daysBeforeYear 1 = 0` and Rata Die 1 is 0001-01-01). -/
def daysBeforeYear (y : Nat) : Nat :=
  365 * (y - 1) + (y - 1) / 4 - (y - 1) / 100 + (y - 1) / 400

/-- A calendar date, mirroring Python's `datetime.date` value. -/
structure Date where
  year : Nat
  month : Nat
  day : Nat
deriving DecidableEq, Repr

/-- A `Date` that `datetime.date` would actually construct (no upper year
bound is imposed; the generator only ever builds dates from year `1` on). -/
def Date.Valid (d : Date) : Prop :=
  1 ≤ d.year ∧ 1 ≤ d.month ∧ d.month ≤ 12 ∧ 1 ≤ d.day ∧ d.day ≤ monthLen d.year d.month

instance (d : Date) : Decidable d.Valid := by
  unfold Date.Valid; infer_instance

/-- Rata Die number of a date (`date.toordinal()` in Python). -/
def Date.toRD (d : Date) : Nat :=
  daysBeforeYear d.year + daysBeforeMonth d.year d.month + d.day

/-- `date.weekday()`: Monday = 0, …, Sunday = 6. -/
def Date.weekday (d : Date) : Nat :=
  (d.toRD + 6) % 7

/-- Ordinal day within the year, 1-based. -/
def Date.dayOfYear (d : Date) : Nat :=
  daysBeforeMonth d.year d.month + d.day

/-- ISO weekday: Monday = 1, …, Sunday = 7. -/
def Date.isoWeekday (d : Date) : Nat :=
  d.weekday + 1

/-- Number of ISO weeks in year `y` (52 or 53). -/
def isoWeeksInYear (y : Nat) : Nat :=
  let jan1 : Date := ⟨y, 1, 1⟩
  if jan1.weekday == 3 || (isLeap y && jan1.weekday == 2) then 53 else 52

/-- The week component of `date.isocalendar()`. -/
def Date.isoWeek (d : Date) : Nat :=
  let n := (d.dayOfYear + 10 - d.isoWeekday) / 7
  if n == 0 then isoWeeksInYear (d.year - 1)
  else if n == 53 && isoWeeksInYear d.year != 53 then 1
  else n

/-- Date strict comparison, the lexicographic order Python uses on `date`. -/
def Date.lexLt (a b : Date) : Bool :=
  a.year < b.year ||
    (a.year == b.year &&
      (a.month < b.month || (a.month == b.month && a.day < b.day)))

/-- The next calendar day (`d + timedelta(days=1)`). -/
def Date.next (d : Date) : Date :=
  if d.day < monthLen d.year d.month then ⟨d.year, d.month, d.day + 1⟩
  else if d.month < 12 then ⟨d.year, d.month + 1, 1⟩
  else ⟨d.year + 1, 1, 1⟩

/-- The previous calendar day (`d - timedelta(days=1)`). -/
def Date.prev (d : Date) : Date :=
  if 1 < d.day then ⟨d.year, d.month, d.day - 1⟩
  else if 1 < d.month then ⟨d.year, d.month - 1, monthLen d.year (d.month - 1)⟩
  else ⟨d.year - 1, 12, 31⟩

/-- `d + timedelta(days=n)`. -/
def Date.addDays : Date → Nat → Date
  | d, 0 => d
  | d, n + 1 => (d.addDays n).next

/-- `d - timedelta(days=n)`. -/
def Date.subDays : Date → Nat → Date
  | d, 0 => d
  | d, n + 1 => (d.subDays n).prev

/-- `(a - b).days` for dates (`timedelta` difference, possibly negative). -/
def Date.diff (a b : Date) : Int :=
  (a.toRD : Int) - (b.toRD : Int)

/-! ## Domain model (`calendario/domain.py`) -/

/-- `DayType`: the five kinds of days in the calendar. -/
inductive DayType
  | WORK
  | REST
  | ORDERING
  | HOLIDAY
  | WORKING_HOLIDAY
deriving DecidableEq, Repr

/-- A single day in the calendar with its type. -/
structure Day where
  date : Date
  day_type : DayType
deriving DecidableEq, Repr

/-- `Day.is_work_day`: WORK, ORDERING and WORKING_HOLIDAY count as work. -/
def Day.is_work_day (d : Day) : Bool :=
  d.day_type == .WORK || d.day_type == .ORDERING || d.day_type == .WORKING_HOLIDAY

/-- `Day.is_rest_day`: REST and HOLIDAY count as rest. -/
def Day.is_rest_day (d : Day) : Bool :=
  d.day_type == .REST || d.day_type == .HOLIDAY

/-- Placeholder day used only as a `getD` default under list heads that are
provably nonempty (mirrors Python's `block[0]`, which would raise on `[]`). -/
def dummyDay : Day := ⟨⟨0, 1, 1⟩, .WORK⟩

/-- A complete year calendar with all its days.  The `_index` dict of the
Python dataclass is modelled by `Calendar.get_day?` below. -/
structure Calendar where
  year : Nat
  days : List Day
deriving DecidableEq, Repr

/-- One structured validation error, standing for the corresponding
human-readable error string a rule in `validation/rules.py` appends. -/
inductive Violation
  | firstOfPairNotWorkingHoliday (d : Date)
  | secondOfPairNotHoliday (d : Date)
  | isolatedNotHoliday (d : Date)
  | restBlockWrongLength (d : Date) (len : Nat)
  | expectedOrdering (d : Date) (got : DayType)
  | workBlockTooShort (d : Date) (len : Nat)
  | workBlockTooLong (d : Date) (len : Nat)
  | monthWeekendCount (month : Nat) (count : Nat)
  | weekRestCount (week : Nat) (count : Nat)
  | sundayMondayRest (d : Date)
deriving DecidableEq, Repr

/-- Failure conditions of the pipeline.  Each constructor stands for one of
the `ValueError` / `ValidationError` messages the Python code raises;
`outOfFuel` is the embedding's marker for exhausted loop fuel and has no
Python counterpart (the termination theorems show it is never returned). -/
inductive GenError
  | invalidYear (year : Int)
  | holidaysWrongYear
  | duplicateHolidays
  | holidayBlockTooLarge (len : Nat)
  | sundayMondayHoliday (d1 d2 : Date)
  | noValidWorkLength (d : Date)
  | cannotPlaceRest (d : Date)
  | calendarEmpty
  | calendarWrongYear
  | validationFailed (errors : List Violation)
  | outOfFuel
deriving DecidableEq, Repr

deriving instance DecidableEq for Except

/-- `Calendar.__post_init__`: reject empty day lists and days from another
year; every other day list — unordered, duplicated or gappy — is accepted. -/
def mkCalendar (y : Nat) (days : List Day) : Except GenError Calendar :=
  if days.isEmpty then .error .calendarEmpty
  else if !(days.all (fun d => d.date.year == y)) then .error .calendarWrongYear
  else .ok ⟨y, days⟩

/-- `Calendar.get_day` via the date index; `none` is a Python `KeyError`.
The dict is built front to back, so a later duplicate date overrides an
earlier one, which the fold reproduces. -/
def Calendar.get_day? (c : Calendar) (d : Date) : Option Day :=
  c.days.foldl (fun acc day => if day.date == d then some day else acc) none

/-- `Calendar.get_month_days` (callers only pass months 1..12, for which the
Python range guard is a no-op). -/
def Calendar.get_month_days (c : Calendar) (m : Nat) : List Day :=
  c.days.filter (fun d => d.date.month == m)

/-- Shared accumulator loop of `get_work_blocks` / `get_rest_blocks`:
group maximal runs of days satisfying `p`, dropping the gaps. -/
def blocksByAux (p : Day → Bool) : List Day → List Day → List (List Day)
  | cur, [] => if cur.isEmpty then [] else [cur.reverse]
  | cur, d :: rest =>
    if p d then blocksByAux p (d :: cur) rest
    else if cur.isEmpty then blocksByAux p [] rest
    else cur.reverse :: blocksByAux p [] rest

/-- `Calendar.get_work_blocks`: maximal runs of is-work-day entries. -/
def Calendar.get_work_blocks (c : Calendar) : List (List Day) :=
  blocksByAux (·.is_work_day) [] c.days

/-- `Calendar.get_rest_blocks`: maximal runs of `REST` entries (holiday
kinds are not included). -/
def Calendar.get_rest_blocks (c : Calendar) : List (List Day) :=
  blocksByAux (fun d => d.day_type == DayType.REST) [] c.days

/-! ## Holiday classifier (`generation/holidays.py`) -/

/-- The holiday map `dict[date, DayType]`, as an association list in
insertion order with unique keys. -/
abbrev HolidayMap := List (Date × DayType)

/-- `d in holiday_map`. -/
def hmContains (hm : HolidayMap) (d : Date) : Bool :=
  hm.any (fun p => p.1 == d)

/-- `holiday_map.get(d)` / `holiday_map[d]`. -/
def hmGet? (hm : HolidayMap) (d : Date) : Option DayType :=
  (hm.find? (fun p => p.1 == d)).map (·.2)

/-- Insert into a sorted date list, preserving order. -/
def insertSorted (d : Date) : List Date → List Date
  | [] => [d]
  | x :: xs => if d.lexLt x then d :: x :: xs else x :: insertSorted d xs

/-- `sorted(...)` on dates (Python sorts dates lexicographically). -/
def sortDates (l : List Date) : List Date :=
  l.foldr insertSorted []

/-- Tail of `_group_consecutive_holidays`: `last` is the final element of
the current block, `curRev` the current block reversed. -/
def groupConsecutiveFrom (last : Date) (curRev : List Date) :
    List Date → List (List Date)
  | [] => [curRev.reverse]
  | h :: t =>
    if Date.diff h last == 1 then groupConsecutiveFrom h (h :: curRev) t
    else curRev.reverse :: groupConsecutiveFrom h [h] t

/-- `_group_consecutive_holidays` on an already sorted, deduplicated list. -/
def group_consecutive_holidays : List Date → List (List Date)
  | [] => []
  | h :: t => groupConsecutiveFrom h [h] t

/-- Per-block classification loop of `process_holidays`; raises at the
first offending block, in sorted order. -/
def processBlocks : List (List Date) → Except GenError HolidayMap
  | [] => .ok []
  | b :: bs =>
    match b with
    | [d] =>
      match processBlocks bs with
      | .error e => .error e
      | .ok rest => .ok ((d, DayType.HOLIDAY) :: rest)
    | [d1, d2] =>
      if d1.weekday == 6 && d2.weekday == 0 then
        .error (.sundayMondayHoliday d1 d2)
      else
        match processBlocks bs with
        | .error e => .error e
        | .ok rest => .ok ((d1, DayType.WORKING_HOLIDAY) :: (d2, DayType.HOLIDAY) :: rest)
    | _ => .error (.holidayBlockTooLarge b.length)

/-- `process_holidays`: dedup, sort, group into consecutive runs and
classify each run. -/
def process_holidays (holidays : List Date) : Except GenError HolidayMap :=
  if holidays.isEmpty then .ok []
  else processBlocks (group_consecutive_holidays (sortDates holidays.eraseDups))

/-! ## Constraint predicates (`generation/constraints.py`) -/

/-- Immutable state during calendar generation. -/
structure ScheduleState where
  current_date : Date
  days_so_far : List Day
  weeks_with_rest : List Nat
  months_with_weekend : List Nat
deriving Repr

/-- `ScheduleState.last_day`. -/
def ScheduleState.last_day (s : ScheduleState) : Option Day :=
  s.days_so_far.getLast?

/-- `ScheduleState.current_work_streak`: trailing is-work-day entries. -/
def ScheduleState.current_work_streak (s : ScheduleState) : Nat :=
  (s.days_so_far.reverse.takeWhile (·.is_work_day)).length

/-- `frozenset` insertion (`s | {x}`): membership is all that matters. -/
def insertNat (s : List Nat) (x : Nat) : List Nat :=
  if s.contains x then s else x :: s

/-- `needs_rest_this_week`. -/
def needs_rest_this_week (s : ScheduleState) (current_date : Date) : Bool :=
  !(s.weeks_with_rest.contains current_date.isoWeek)

/-- `needs_weekend_this_month`. -/
def needs_weekend_this_month (s : ScheduleState) (current_date : Date) : Bool :=
  !(s.months_with_weekend.contains current_date.month)

/-- `would_create_sunday_monday_rest`. -/
def would_create_sunday_monday_rest (start_date : Date) : Bool :=
  start_date.weekday == 6

/-- `can_place_rest_at`: not Sunday, not on holidays, and not directly
before a `HOLIDAY` (which would merge into a 3-day rest). -/
def can_place_rest_at (start_date : Date) (hm : HolidayMap) : Bool :=
  if would_create_sunday_monday_rest start_date then false
  else
    let end_date := start_date.next
    if hmContains hm start_date || hmContains hm end_date then false
    else
      let next_day := end_date.next
      !(hmGet? hm next_day == some DayType.HOLIDAY)

/-- `is_saturday`. -/
def is_saturday (d : Date) : Bool :=
  d.weekday == 5

/-- `max_work_days_remaining` (in Python `7 - streak` can go negative and
then yields an empty candidate range; truncated `Nat` subtraction produces
the same empty range). -/
def max_work_days_remaining (s : ScheduleState) : Nat :=
  7 - s.current_work_streak

/-! ## Decision policy (`generation/decisions.py`) -/

/-- The injected random source: a stream of naturals.  `random.choice` over
a list of length `n` consumes one draw and takes it modulo `n`; every
sequence of choices of a Python `Random` is represented by some stream. -/
def Rng := Nat → Nat

/-- One `rng.choice(l)` draw over a nonempty list of lengths. -/
def rngChoice (r : Rng) (l : List Nat) : Nat × Rng :=
  (l.getD (r 0 % l.length) 0, fun n => r (n + 1))

/-- The `while work_days_placed < length` loop of `simulate_work_placement`,
with explicit fuel. -/
def simulate_work_placement_loop (fuel : Nat) (current : Date) (placed len : Nat)
    (hm : HolidayMap) : Except GenError Date :=
  match fuel with
  | 0 => .error .outOfFuel
  | fuel + 1 =>
    if placed < len then
      let placed' := if hmContains hm current then placed else placed + 1
      simulate_work_placement_loop fuel current.next placed' len hm
    else .ok current

/-- Fuel that always suffices for the simulate loop: each step either
counts a work day or burns one of the finitely many holiday dates. -/
def simulateFuel (len : Nat) (hm : HolidayMap) : Nat :=
  len + hm.length + 1

/-- `simulate_work_placement`: where the rest block would start after
placing `len` work days from `start_date`, skipping holidays. -/
def simulate_work_placement (start_date : Date) (len : Nat) (hm : HolidayMap) :
    Except GenError Date :=
  simulate_work_placement_loop (simulateFuel len hm) start_date 0 len hm

/-- `lands_on_friday`. -/
def lands_on_friday (start_date : Date) (work_length : Nat) (hm : HolidayMap) :
    Except GenError Bool :=
  match simulate_work_placement start_date work_length hm with
  | .error e => .error e
  | .ok rest_start => .ok (rest_start.weekday == 4)

/-- `is_valid_work_length`. -/
def is_valid_work_length (s : ScheduleState) (start_date : Date) (len : Nat)
    (hm : HolidayMap) : Except GenError Bool :=
  if s.current_work_streak + len > 7 then .ok false
  else
    match simulate_work_placement start_date len hm with
    | .error e => .error e
    | .ok rest_start =>
      if rest_start.year != start_date.year then .ok false
      else if !can_place_rest_at rest_start hm then .ok false
      else if needs_rest_this_week s start_date then
        .ok (rest_start.isoWeek == start_date.isoWeek)
      else .ok true

/-- Effectful filter used for `valid_lengths` and `friday_landing`. -/
def filterEx (p : Nat → Except GenError Bool) : List Nat → Except GenError (List Nat)
  | [] => .ok []
  | x :: xs =>
    match p x with
    | .error e => .error e
    | .ok b =>
      match filterEx p xs with
      | .error e => .error e
      | .ok rest => .ok (if b then x :: rest else rest)

/-- `decide_work_block_length`: candidate lengths `3..min 7 (7-streak)`,
filtered by validity, steered toward Friday rest starts while the month
still needs its weekend; exactly one random draw is consumed. -/
def decide_work_block_length (s : ScheduleState) (current_date : Date)
    (hm : HolidayMap) (rng : Rng) : Except GenError (Nat × Rng) :=
  let max_length := min 7 (max_work_days_remaining s)
  let lengths := List.range' 3 (max_length + 1 - 3)
  match filterEx (fun len => is_valid_work_length s current_date len hm) lengths with
  | .error e => .error e
  | .ok valid_lengths =>
    if valid_lengths.isEmpty then .error (.noValidWorkLength current_date)
    else if needs_weekend_this_month s current_date then
      match filterEx (fun len => lands_on_friday current_date len hm) valid_lengths with
      | .error e => .error e
      | .ok friday_landing =>
        if !friday_landing.isEmpty then .ok (rngChoice rng friday_landing)
        else .ok (rngChoice rng valid_lengths)
    else .ok (rngChoice rng valid_lengths)

/-! ## Schedule builder (`generation/schedule.py`) -/

/-- `place_holiday`: place the holiday at the cursor and advance one day. -/
def place_holiday (s : ScheduleState) (hm : HolidayMap) : ScheduleState :=
  let day : Day := ⟨s.current_date, (hmGet? hm s.current_date).getD .HOLIDAY⟩
  ⟨s.current_date.next, s.days_so_far ++ [day], s.weeks_with_rest, s.months_with_weekend⟩

/-- The emit loop of `place_work_block`: skip holiday dates without
emitting them, emit `ORDERING`/`WORK` for the rest, stop at the year
boundary. -/
def place_work_block_loop (fuel : Nat) (startYear : Nat) (hm : HolidayMap)
    (work_length : Nat) (is_first_after_rest : Bool) (current : Date)
    (placed : Nat) (acc : List Day) : Except GenError (Date × List Day) :=
  match fuel with
  | 0 => .error .outOfFuel
  | fuel + 1 =>
    if placed < work_length && current.year == startYear then
      if hmContains hm current then
        place_work_block_loop fuel startYear hm work_length is_first_after_rest
          current.next placed acc
      else
        let day_type := if placed == 0 && is_first_after_rest then DayType.ORDERING
          else DayType.WORK
        place_work_block_loop fuel startYear hm work_length is_first_after_rest
          current.next (placed + 1) (acc ++ [⟨current, day_type⟩])
    else .ok (current, acc)

/-- `place_work_block`. -/
def place_work_block (s : ScheduleState) (hm : HolidayMap) (rng : Rng) :
    Except GenError (ScheduleState × Rng) :=
  match decide_work_block_length s s.current_date hm rng with
  | .error e => .error e
  | .ok (work_length, rng') =>
    let is_first_after_rest := match s.last_day with
      | some d => d.is_rest_day
      | none => false
    match place_work_block_loop (daysInYear s.current_date.year + 2)
        s.current_date.year hm work_length is_first_after_rest s.current_date 0 [] with
    | .error e => .error e
    | .ok (current, new_days) =>
      .ok (⟨current, s.days_so_far ++ new_days, s.weeks_with_rest, s.months_with_weekend⟩, rng')

/-- `place_rest_block`: 2-day rest block, truncated to one day at the year
boundary; updates the weekly and monthly bookkeeping. -/
def place_rest_block (s : ScheduleState) (hm : HolidayMap) :
    Except GenError ScheduleState :=
  if !can_place_rest_at s.current_date hm then .error (.cannotPlaceRest s.current_date)
  else
    let day1 : Day := ⟨s.current_date, .REST⟩
    let day2_date := s.current_date.next
    let new_days := if day2_date.year == s.current_date.year then
        [day1, ⟨day2_date, .REST⟩]
      else [day1]
    let new_weeks := insertNat s.weeks_with_rest s.current_date.isoWeek
    let new_months := if s.current_date.weekday == 5 then
        insertNat s.months_with_weekend s.current_date.month
      else s.months_with_weekend
    .ok ⟨day2_date.next, s.days_so_far ++ new_days, new_weeks, new_months⟩

/-- The `while current_date.year == year` loop of `build_schedule`. -/
def build_loop (fuel : Nat) (year : Nat) (hm : HolidayMap) (s : ScheduleState)
    (rng : Rng) : Except GenError (List Day) :=
  match fuel with
  | 0 => .error .outOfFuel
  | fuel + 1 =>
    if s.current_date.year == year then
      if hmContains hm s.current_date then
        build_loop fuel year hm (place_holiday s hm) rng
      else
        match place_work_block s hm rng with
        | .error e => .error e
        | .ok (s2, rng') =>
          if s2.current_date.year == year then
            match place_rest_block s2 hm with
            | .error e => .error e
            | .ok s3 => build_loop fuel year hm s3 rng'
          else build_loop fuel year hm s2 rng'
    else .ok s.days_so_far

/-- `build_schedule`: walk the year from January 1. -/
def build_schedule (year : Nat) (hm : HolidayMap) (rng : Rng) :
    Except GenError (List Day) :=
  build_loop (daysInYear year + 2) year hm ⟨⟨year, 1, 1⟩, [], [], []⟩ rng

/-! ## Validator (`validation/rules.py`, `validation/validator.py`) -/

/-- The index walk of `validate_holiday_pairing` over the holiday-kind
days: consecutive-by-date pairs advance by two, isolated days by one. -/
def holidayPairingAux : List Day → List Violation
  | [] => []
  | [c] => if c.day_type != DayType.HOLIDAY then [.isolatedNotHoliday c.date] else []
  | c :: n :: rest =>
    if Date.diff n.date c.date == 1 then
      (if c.day_type != DayType.WORKING_HOLIDAY then
        [Violation.firstOfPairNotWorkingHoliday c.date] else []) ++
      (if n.day_type != DayType.HOLIDAY then
        [Violation.secondOfPairNotHoliday n.date] else []) ++
      holidayPairingAux rest
    else
      (if c.day_type != DayType.HOLIDAY then
        [Violation.isolatedNotHoliday c.date] else []) ++
      holidayPairingAux (n :: rest)

/-- REQ1: `validate_holiday_pairing`. -/
def validate_holiday_pairing (c : Calendar) : List Violation :=
  holidayPairingAux (c.days.filter
    (fun d => d.day_type == DayType.HOLIDAY || d.day_type == DayType.WORKING_HOLIDAY))

/-- REQ2: `validate_rest_blocks` — all REST blocks must be exactly 2 days. -/
def validate_rest_blocks (c : Calendar) : List Violation :=
  c.get_rest_blocks.filterMap (fun block =>
    if block.length != 2 then
      some (.restBlockWrongLength (block.headD dummyDay).date block.length)
    else none)

/-- Pairwise walk of `validate_ordering_placement`. -/
def orderingAux : List Day → List Violation
  | prev :: curr :: rest =>
    (if prev.is_rest_day && curr.is_work_day && curr.day_type != DayType.ORDERING then
      [Violation.expectedOrdering curr.date curr.day_type] else []) ++
    orderingAux (curr :: rest)
  | _ => []

/-- REQ3: `validate_ordering_placement`. -/
def validate_ordering_placement (c : Calendar) : List Violation :=
  orderingAux c.days

/-- REQ4: `validate_work_block_lengths` — work blocks must be 3–7 days. -/
def validate_work_block_lengths (c : Calendar) : List Violation :=
  c.get_work_blocks.filterMap (fun block =>
    if block.length < 3 then
      some (.workBlockTooShort (block.headD dummyDay).date block.length)
    else if block.length > 7 then
      some (.workBlockTooLong (block.headD dummyDay).date block.length)
    else none)

/-- The inner pair count of `validate_monthly_weekends` over one month's
days: adjacent entries that are a Saturday REST followed by a Sunday REST. -/
def countFreeWeekends : List Day → Nat
  | d1 :: d2 :: rest =>
    (if d1.date.weekday == 5 && d2.date.weekday == 6 &&
        d1.day_type == DayType.REST && d2.day_type == DayType.REST then 1 else 0) +
    countFreeWeekends (d2 :: rest)
  | _ => 0

/-- REQ5: `validate_monthly_weekends` — each month exactly one free weekend. -/
def validate_monthly_weekends (c : Calendar) : List Violation :=
  (List.range' 1 12).filterMap (fun month =>
    let cnt := countFreeWeekends (c.get_month_days month)
    if cnt != 1 then some (.monthWeekendCount month cnt) else none)

/-- `_get_all_iso_weeks` with its Jan-1 / Dec-31 boundary handling. -/
def get_all_iso_weeks (year : Nat) : List Nat :=
  let start_week := (⟨year, 1, 1⟩ : Date).isoWeek
  let end_week := (⟨year, 12, 31⟩ : Date).isoWeek
  let start_week := if start_week > 50 then 1 else start_week
  let end_week := if end_week == 1 then (⟨year, 12, 28⟩ : Date).isoWeek else end_week
  List.range' start_week (end_week + 1 - start_week)

/-- `_get_week_dates`: the seven dates of ISO week `week_number` anchored
at January 4, filtered to the target year. -/
def get_week_dates (year : Nat) (week_number : Nat) : List Date :=
  let jan4 : Date := ⟨year, 1, 4⟩
  let week_start := (jan4.subDays jan4.weekday).addDays (7 * (week_number - 1))
  ((List.range 7).map (fun i => week_start.addDays i)).filter (fun d => d.year == year)

/-- Whether the calendar has date `d` and it is a `REST` day; a missing
date (`KeyError` in Python, caught by the rule) counts as not-REST. -/
def weekDateIsRest (c : Calendar) (d : Date) : Bool :=
  match c.get_day? d with
  | some day => day.day_type == DayType.REST
  | none => false

/-- The rest-block scan of `validate_weekly_rest` over one week's dates:
two adjacent REST lookups count one block and skip both, anything else
(including a `KeyError`) advances by one. -/
def countWeekRestBlocks (c : Calendar) : List Date → Nat
  | d :: d2 :: rest =>
    if weekDateIsRest c d && weekDateIsRest c d2 then
      1 + countWeekRestBlocks c rest
    else countWeekRestBlocks c (d2 :: rest)
  | _ => 0

/-- REQ6: `validate_weekly_rest` — each ISO week exactly one rest block. -/
def validate_weekly_rest (c : Calendar) : List Violation :=
  (get_all_iso_weeks c.year).filterMap (fun week =>
    let cnt := countWeekRestBlocks c (get_week_dates c.year week)
    if cnt != 1 then some (.weekRestCount week cnt) else none)

/-- Pairwise walk of `validate_no_sunday_monday_rest`. -/
def sundayMondayAux : List Day → List Violation
  | d1 :: d2 :: rest =>
    (if d1.day_type == DayType.REST && d2.day_type == DayType.REST &&
        d1.date.weekday == 6 && d2.date.weekday == 0 then
      [Violation.sundayMondayRest d1.date] else []) ++
    sundayMondayAux (d2 :: rest)
  | _ => []

/-- REQ7: `validate_no_sunday_monday_rest`. -/
def validate_no_sunday_monday_rest (c : Calendar) : List Violation :=
  sundayMondayAux c.days

/-- The aggregated error list of `validate_calendar`, in rule order. -/
def validation_errors (c : Calendar) : List Violation :=
  validate_holiday_pairing c ++ validate_rest_blocks c ++
  validate_ordering_placement c ++ validate_work_block_lengths c ++
  validate_monthly_weekends c ++ validate_weekly_rest c ++
  validate_no_sunday_monday_rest c

/-- `validate_calendar`: raise `ValidationError` iff any rule failed. -/
def validate_calendar (c : Calendar) : Except GenError Unit :=
  let errors := validation_errors c
  if errors.isEmpty then .ok () else .error (.validationFailed errors)

/-! ## Top-level generator (`generation/generator.py`) -/

/-- The body of `generate_calendar` after its three input checks:
classify holidays, build the schedule, wrap it in a `Calendar`, validate. -/
def generate_pipeline (y : Nat) (holidays : List Date) (rng : Rng) :
    Except GenError Calendar :=
  match process_holidays holidays with
  | .error e => .error e
  | .ok holiday_map =>
    match build_schedule y holiday_map rng with
    | .error e => .error e
    | .ok days =>
      match mkCalendar y days with
      | .error e => .error e
      | .ok calendar =>
        match validate_calendar calendar with
        | .error e => .error e
        | .ok _ => .ok calendar

/-- `generate_calendar`: input validation, then the pipeline. -/
def generate_calendar (year : Int) (holidays : List Date) (rng : Rng) :
    Except GenError Calendar :=
  if year < 1 then .error (.invalidYear year)
  else
    let y := year.toNat
    if !holidays.isEmpty && !(holidays.all (fun h => h.year == y)) then
      .error .holidaysWrongYear
    else if holidays.length != holidays.eraseDups.length then
      .error .duplicateHolidays
    else generate_pipeline y holidays rng

/-- Models `random.Random(seed)`: a deterministic stream computed from the
seed alone.  The exact distribution is irrelevant to every claim — only
that equal seeds give equal streams, which any pure function provides. -/
def mkRandom (seed : Nat) : Rng :=
  fun n => (seed + n + 1) * 2654435761 % 4294967296

/-- `generate_calendar(year, holidays, seed=s)` with an explicit seed. -/
def generate_calendar_seeded (year : Int) (holidays : List Date) (seed : Nat) :
    Except GenError Calendar :=
  generate_calendar year holidays (mkRandom seed)

/-! ## Concrete witness data

Streams and calendars used by the claim theorems below.  `witnessRng`
realises one particular sequence of `random.choice` draws (by positional
index); `zeroRng` always picks the first element. -/

/-- A stream that replays a fixed list of draws (0 past its end). -/
def rngOfList (l : List Nat) : Rng :=
  fun n => l.getD n 0

/-- The stream that always draws 0 (always the first candidate). -/
def zeroRng : Rng :=
  fun _ => 0

/-- Choice indices of one run of the builder on 2025 that passes the
validator (found by exhaustive search over the decision tree). -/
def witnessSeq : List Nat :=
  [0, 0, 0, 3, 4, 0, 0, 3, 4, 0, 0, 1, 3, 4, 0, 0, 3, 4, 0, 0, 1, 3, 4, 0, 0,
   3, 4, 0, 0, 3, 4, 0, 0, 1, 3, 4, 0, 0, 3, 4, 0, 0, 3, 4, 0, 0, 1, 3, 4, 0,
   0, 0, 2]

/-- The witness stream. -/
def witnessRng : Rng :=
  rngOfList witnessSeq

/-- 2025-01-07, a Tuesday: an isolated holiday that a work block starting
2025-01-06 traverses. -/
def holidayJan7 : Date := ⟨2025, 1, 7⟩

/-- Shorthand for a day of 2025. -/
def mkD (m d : Nat) (t : DayType) : Day := ⟨⟨2025, m, d⟩, t⟩

/-- The 364-day calendar `generate_calendar 2025 [holidayJan7] witnessRng`
returns: 2025-01-07 is missing. -/
def cal2025h : Calendar := ⟨2025, [ mkD 1 1 .WORK, mkD 1 2 .WORK, mkD 1 3 .WORK, mkD 1 4 .REST, mkD 1 5 .REST, mkD 1 6 .ORDERING, mkD 1 8 .WORK, mkD 1 9 .WORK, mkD 1 10 .REST, mkD 1 11 .REST, mkD 1 12 .ORDERING, mkD 1 13 .WORK, mkD 1 14 .WORK, mkD 1 15 .REST, mkD 1 16 .REST, mkD 1 17 .ORDERING, mkD 1 18 .WORK, mkD 1 19 .WORK, mkD 1 20 .WORK, mkD 1 21 .WORK, mkD 1 22 .WORK, mkD 1 23 .REST, mkD 1 24 .REST, mkD 1 25 .ORDERING, mkD 1 26 .WORK, mkD 1 27 .WORK, mkD 1 28 .WORK, mkD 1 29 .WORK, mkD 1 30 .WORK, mkD 1 31 .WORK, mkD 2 1 .REST, mkD 2 2 .REST, mkD 2 3 .ORDERING, mkD 2 4 .WORK, mkD 2 5 .WORK, mkD 2 6 .REST, mkD 2 7 .REST, mkD 2 8 .ORDERING, mkD 2 9 .WORK, mkD 2 10 .WORK, mkD 2 11 .REST, mkD 2 12 .REST, mkD 2 13 .ORDERING, mkD 2 14 .WORK, mkD 2 15 .WORK, mkD 2 16 .WORK, mkD 2 17 .WORK, mkD 2 18 .WORK, mkD 2 19 .WORK, mkD 2 20 .REST, mkD 2 21 .REST, mkD 2 22 .ORDERING, mkD 2 23 .WORK, mkD 2 24 .WORK, mkD 2 25 .WORK, mkD 2 26 .WORK, mkD 2 27 .WORK, mkD 2 28 .WORK, mkD 3 1 .REST, mkD 3 2 .REST, mkD 3 3 .ORDERING, mkD 3 4 .WORK, mkD 3 5 .WORK, mkD 3 6 .REST, mkD 3 7 .REST, mkD 3 8 .ORDERING, mkD 3 9 .WORK, mkD 3 10 .WORK, mkD 3 11 .REST, mkD 3 12 .REST, mkD 3 13 .ORDERING, mkD 3 14 .WORK, mkD 3 15 .WORK, mkD 3 16 .WORK, mkD 3 17 .WORK, mkD 3 18 .REST, mkD 3 19 .REST, mkD 3 20 .ORDERING, mkD 3 21 .WORK, mkD 3 22 .WORK, mkD 3 23 .WORK, mkD 3 24 .WORK, mkD 3 25 .WORK, mkD 3 26 .WORK, mkD 3 27 .REST, mkD 3 28 .REST, mkD 3 29 .ORDERING, mkD 3 30 .WORK, mkD 3 31 .WORK, mkD 4 1 .WORK, mkD 4 2 .WORK, mkD 4 3 .WORK, mkD 4 4 .WORK, mkD 4 5 .REST, mkD 4 6 .REST, mkD 4 7 .ORDERING, mkD 4 8 .WORK, mkD 4 9 .WORK, mkD 4 10 .REST, mkD 4 11 .REST, mkD 4 12 .ORDERING, mkD 4 13 .WORK, mkD 4 14 .WORK, mkD 4 15 .REST, mkD 4 16 .REST, mkD 4 17 .ORDERING, mkD 4 18 .WORK, mkD 4 19 .WORK, mkD 4 20 .WORK, mkD 4 21 .WORK, mkD 4 22 .WORK, mkD 4 23 .WORK, mkD 4 24 .REST, mkD 4 25 .REST, mkD 4 26 .ORDERING, mkD 4 27 .WORK, mkD 4 28 .WORK, mkD 4 29 .WORK, mkD 4 30 .WORK, mkD 5 1 .WORK, mkD 5 2 .WORK, mkD 5 3 .REST, mkD 5 4 .REST, mkD 5 5 .ORDERING, mkD 5 6 .WORK, mkD 5 7 .WORK, mkD 5 8 .REST, mkD 5 9 .REST, mkD 5 10 .ORDERING, mkD 5 11 .WORK, mkD 5 12 .WORK, mkD 5 13 .REST, mkD 5 14 .REST, mkD 5 15 .ORDERING, mkD 5 16 .WORK, mkD 5 17 .WORK, mkD 5 18 .WORK, mkD 5 19 .WORK, mkD 5 20 .REST, mkD 5 21 .REST, mkD 5 22 .ORDERING, mkD 5 23 .WORK, mkD 5 24 .WORK, mkD 5 25 .WORK, mkD 5 26 .WORK, mkD 5 27 .WORK, mkD 5 28 .WORK, mkD 5 29 .REST, mkD 5 30 .REST, mkD 5 31 .ORDERING, mkD 6 1 .WORK, mkD 6 2 .WORK, mkD 6 3 .WORK, mkD 6 4 .WORK, mkD 6 5 .WORK, mkD 6 6 .WORK, mkD 6 7 .REST, mkD 6 8 .REST, mkD 6 9 .ORDERING, mkD 6 10 .WORK, mkD 6 11 .WORK, mkD 6 12 .REST, mkD 6 13 .REST, mkD 6 14 .ORDERING, mkD 6 15 .WORK, mkD 6 16 .WORK, mkD 6 17 .REST, mkD 6 18 .REST, mkD 6 19 .ORDERING, mkD 6 20 .WORK, mkD 6 21 .WORK, mkD 6 22 .WORK, mkD 6 23 .WORK, mkD 6 24 .WORK, mkD 6 25 .WORK, mkD 6 26 .REST, mkD 6 27 .REST, mkD 6 28 .ORDERING, mkD 6 29 .WORK, mkD 6 30 .WORK, mkD 7 1 .WORK, mkD 7 2 .WORK, mkD 7 3 .WORK, mkD 7 4 .WORK, mkD 7 5 .REST, mkD 7 6 .REST, mkD 7 7 .ORDERING, mkD 7 8 .WORK, mkD 7 9 .WORK, mkD 7 10 .REST, mkD 7 11 .REST, mkD 7 12 .ORDERING, mkD 7 13 .WORK, mkD 7 14 .WORK, mkD 7 15 .REST, mkD 7 16 .REST, mkD 7 17 .ORDERING, mkD 7 18 .WORK, mkD 7 19 .WORK, mkD 7 20 .WORK, mkD 7 21 .WORK, mkD 7 22 .WORK, mkD 7 23 .WORK, mkD 7 24 .REST, mkD 7 25 .REST, mkD 7 26 .ORDERING, mkD 7 27 .WORK, mkD 7 28 .WORK, mkD 7 29 .WORK, mkD 7 30 .WORK, mkD 7 31 .WORK, mkD 8 1 .WORK, mkD 8 2 .REST, mkD 8 3 .REST, mkD 8 4 .ORDERING, mkD 8 5 .WORK, mkD 8 6 .WORK, mkD 8 7 .REST, mkD 8 8 .REST, mkD 8 9 .ORDERING, mkD 8 10 .WORK, mkD 8 11 .WORK, mkD 8 12 .REST, mkD 8 13 .REST, mkD 8 14 .ORDERING, mkD 8 15 .WORK, mkD 8 16 .WORK, mkD 8 17 .WORK, mkD 8 18 .WORK, mkD 8 19 .REST, mkD 8 20 .REST, mkD 8 21 .ORDERING, mkD 8 22 .WORK, mkD 8 23 .WORK, mkD 8 24 .WORK, mkD 8 25 .WORK, mkD 8 26 .WORK, mkD 8 27 .WORK, mkD 8 28 .REST, mkD 8 29 .REST, mkD 8 30 .ORDERING, mkD 8 31 .WORK, mkD 9 1 .WORK, mkD 9 2 .WORK, mkD 9 3 .WORK, mkD 9 4 .WORK, mkD 9 5 .WORK, mkD 9 6 .REST, mkD 9 7 .REST, mkD 9 8 .ORDERING, mkD 9 9 .WORK, mkD 9 10 .WORK, mkD 9 11 .REST, mkD 9 12 .REST, mkD 9 13 .ORDERING, mkD 9 14 .WORK, mkD 9 15 .WORK, mkD 9 16 .REST, mkD 9 17 .REST, mkD 9 18 .ORDERING, mkD 9 19 .WORK, mkD 9 20 .WORK, mkD 9 21 .WORK, mkD 9 22 .WORK, mkD 9 23 .WORK, mkD 9 24 .WORK, mkD 9 25 .REST, mkD 9 26 .REST, mkD 9 27 .ORDERING, mkD 9 28 .WORK, mkD 9 29 .WORK, mkD 9 30 .WORK, mkD 10 1 .WORK, mkD 10 2 .WORK, mkD 10 3 .WORK, mkD 10 4 .REST, mkD 10 5 .REST, mkD 10 6 .ORDERING, mkD 10 7 .WORK, mkD 10 8 .WORK, mkD 10 9 .REST, mkD 10 10 .REST, mkD 10 11 .ORDERING, mkD 10 12 .WORK, mkD 10 13 .WORK, mkD 10 14 .REST, mkD 10 15 .REST, mkD 10 16 .ORDERING, mkD 10 17 .WORK, mkD 10 18 .WORK, mkD 10 19 .WORK, mkD 10 20 .WORK, mkD 10 21 .WORK, mkD 10 22 .WORK, mkD 10 23 .REST, mkD 10 24 .REST, mkD 10 25 .ORDERING, mkD 10 26 .WORK, mkD 10 27 .WORK, mkD 10 28 .WORK, mkD 10 29 .WORK, mkD 10 30 .WORK, mkD 10 31 .WORK, mkD 11 1 .REST, mkD 11 2 .REST, mkD 11 3 .ORDERING, mkD 11 4 .WORK, mkD 11 5 .WORK, mkD 11 6 .REST, mkD 11 7 .REST, mkD 11 8 .ORDERING, mkD 11 9 .WORK, mkD 11 10 .WORK, mkD 11 11 .REST, mkD 11 12 .REST, mkD 11 13 .ORDERING, mkD 11 14 .WORK, mkD 11 15 .WORK, mkD 11 16 .WORK, mkD 11 17 .WORK, mkD 11 18 .REST, mkD 11 19 .REST, mkD 11 20 .ORDERING, mkD 11 21 .WORK, mkD 11 22 .WORK, mkD 11 23 .WORK, mkD 11 24 .WORK, mkD 11 25 .WORK, mkD 11 26 .WORK, mkD 11 27 .REST, mkD 11 28 .REST, mkD 11 29 .ORDERING, mkD 11 30 .WORK, mkD 12 1 .WORK, mkD 12 2 .WORK, mkD 12 3 .WORK, mkD 12 4 .WORK, mkD 12 5 .WORK, mkD 12 6 .REST, mkD 12 7 .REST, mkD 12 8 .ORDERING, mkD 12 9 .WORK, mkD 12 10 .WORK, mkD 12 11 .REST, mkD 12 12 .REST, mkD 12 13 .ORDERING, mkD 12 14 .WORK, mkD 12 15 .WORK, mkD 12 16 .REST, mkD 12 17 .REST, mkD 12 18 .ORDERING, mkD 12 19 .WORK, mkD 12 20 .WORK, mkD 12 21 .WORK, mkD 12 22 .REST, mkD 12 23 .REST, mkD 12 24 .ORDERING, mkD 12 25 .WORK, mkD 12 26 .WORK, mkD 12 27 .WORK, mkD 12 28 .WORK, mkD 12 29 .WORK, mkD 12 30 .REST, mkD 12 31 .REST ]⟩

/-! ## Witness-run builder states

The intermediate `ScheduleState`s of the run `build_schedule 2025 hmJan7
witnessRng`, one per build-loop iteration (`bst`) and one after each work
block (`bmid`), used to step the loop one iteration at a time. -/

/-- The classified holiday map of the witness run. -/
def hmJan7 : HolidayMap := [(holidayJan7, DayType.HOLIDAY)]

/-- Builder state of the witness run before iteration 0. -/
def bst0 : ScheduleState := ⟨⟨2025, 1, 1⟩,
  [],
  [], []⟩

/-- Builder state of iteration 0 after its work block. -/
def bmid0 : ScheduleState := ⟨⟨2025, 1, 4⟩,
  [mkD 1 1 .WORK, mkD 1 2 .WORK, mkD 1 3 .WORK],
  [], []⟩

/-- Builder state of the witness run before iteration 1. -/
def bst1 : ScheduleState := ⟨⟨2025, 1, 6⟩,
  [mkD 1 1 .WORK, mkD 1 2 .WORK, mkD 1 3 .WORK, mkD 1 4 .REST, mkD 1 5 .REST],
  [1], [1]⟩

/-- Builder state of iteration 1 after its work block. -/
def bmid1 : ScheduleState := ⟨⟨2025, 1, 10⟩,
  [mkD 1 1 .WORK, mkD 1 2 .WORK, mkD 1 3 .WORK, mkD 1 4 .REST, mkD 1 5 .REST, mkD 1 6 .ORDERING,
    mkD 1 8 .WORK, mkD 1 9 .WORK],
  [1], [1]⟩

/-- Builder state of the witness run before iteration 2. -/
def bst2 : ScheduleState := ⟨⟨2025, 1, 12⟩,
  [mkD 1 1 .WORK, mkD 1 2 .WORK, mkD 1 3 .WORK, mkD 1 4 .REST, mkD 1 5 .REST, mkD 1 6 .ORDERING,
    mkD 1 8 .WORK, mkD 1 9 .WORK, mkD 1 10 .REST, mkD 1 11 .REST],
  [2, 1], [1]⟩

/-- Builder state of iteration 2 after its work block. -/
def bmid2 : ScheduleState := ⟨⟨2025, 1, 15⟩,
  [mkD 1 1 .WORK, mkD 1 2 .WORK, mkD 1 3 .WORK, mkD 1 4 .REST, mkD 1 5 .REST, mkD 1 6 .ORDERING,
    mkD 1 8 .WORK, mkD 1 9 .WORK, mkD 1 10 .REST, mkD 1 11 .REST, mkD 1 12 .ORDERING,
    mkD 1 13 .WORK, mkD 1 14 .WORK],
  [2, 1], [1]⟩

/-- Builder state of the witness run before iteration 3. -/
def bst3 : ScheduleState := ⟨⟨2025, 1, 17⟩,
  [mkD 1 1 .WORK, mkD 1 2 .WORK, mkD 1 3 .WORK, mkD 1 4 .REST, mkD 1 5 .REST, mkD 1 6 .ORDERING,
    mkD 1 8 .WORK, mkD 1 9 .WORK, mkD 1 10 .REST, mkD 1 11 .REST, mkD 1 12 .ORDERING,
    mkD 1 13 .WORK, mkD 1 14 .WORK, mkD 1 15 .REST, mkD 1 16 .REST],
  [3, 2, 1], [1]⟩

/-- Builder state of iteration 3 after its work block. -/
def bmid3 : ScheduleState := ⟨⟨2025, 1, 23⟩,
  [mkD 1 1 .WORK, mkD 1 2 .WORK, mkD 1 3 .WORK, mkD 1 4 .REST, mkD 1 5 .REST, mkD 1 6 .ORDERING,
    mkD 1 8 .WORK, mkD 1 9 .WORK, mkD 1 10 .REST, mkD 1 11 .REST, mkD 1 12 .ORDERING,
    mkD 1 13 .WORK, mkD 1 14 .WORK, mkD 1 15 .REST, mkD 1 16 .REST, mkD 1 17 .ORDERING,
    mkD 1 18 .WORK, mkD 1 19 .WORK, mkD 1 20 .WORK, mkD 1 21 .WORK, mkD 1 22 .WORK],
  [3, 2, 1], [1]⟩

/-- Builder state of the witness run before iteration 4. -/
def bst4 : ScheduleState := ⟨⟨2025, 1, 25⟩,
  [mkD 1 1 .WORK, mkD 1 2 .WORK, mkD 1 3 .WORK, mkD 1 4 .REST, mkD 1 5 .REST, mkD 1 6 .ORDERING,
    mkD 1 8 .WORK, mkD 1 9 .WORK, mkD 1 10 .REST, mkD 1 11 .REST, mkD 1 12 .ORDERING,
    mkD 1 13 .WORK, mkD 1 14 .WORK, mkD 1 15 .REST, mkD 1 16 .REST, mkD 1 17 .ORDERING,
    mkD 1 18 .WORK, mkD 1 19 .WORK, mkD 1 20 .WORK, mkD 1 21 .WORK, mkD 1 22 .WORK,
    mkD 1 23 .REST, mkD 1 24 .REST],
  [4, 3, 2, 1], [1]⟩

/-- Builder state of iteration 4 after its work block. -/
def bmid4 : ScheduleState := ⟨⟨2025, 2, 1⟩,
  [mkD 1 1 .WORK, mkD 1 2 .WORK, mkD 1 3 .WORK, mkD 1 4 .REST, mkD 1 5 .REST, mkD 1 6 .ORDERING,
    mkD 1 8 .WORK, mkD 1 9 .WORK, mkD 1 10 .REST, mkD 1 11 .REST, mkD 1 12 .ORDERING,
    mkD 1 13 .WORK, mkD 1 14 .WORK, mkD 1 15 .REST, mkD 1 16 .REST, mkD 1 17 .ORDERING,
    mkD 1 18 .WORK, mkD 1 19 .WORK, mkD 1 20 .WORK, mkD 1 21 .WORK, mkD 1 22 .WORK,
    mkD 1 23 .REST, mkD 1 24 .REST, mkD 1 25 .ORDERING, mkD 1 26 .WORK, mkD 1 27 .WORK,
    mkD 1 28 .WORK, mkD 1 29 .WORK, mkD 1 30 .WORK, mkD 1 31 .WORK],
  [4, 3, 2, 1], [1]⟩

/-- Builder state of the witness run before iteration 5. -/
def bst5 : ScheduleState := ⟨⟨2025, 2, 3⟩,
  [mkD 1 1 .WORK, mkD 1 2 .WORK, mkD 1 3 .WORK, mkD 1 4 .REST, mkD 1 5 .REST, mkD 1 6 .ORDERING,
    mkD 1 8 .WORK, mkD 1 9 .WORK, mkD 1 10 .REST, mkD 1 11 .REST, mkD 1 12 .ORDERING,
    mkD 1 13 .WORK, mkD 1 14 .WORK, mkD 1 15 .REST, mkD 1 16 .REST, mkD 1 17 .ORDERING,
    mkD 1 18 .WORK, mkD 1 19 .WORK, mkD 1 20 .WORK, mkD 1 21 .WORK, mkD 1 22 .WORK,
    mkD 1 23 .REST, mkD 1 24 .REST, mkD 1 25 .ORDERING, mkD 1 26 .WORK, mkD 1 27 .WORK,
    mkD 1 28 .WORK, mkD 1 29 .WORK, mkD 1 30 .WORK, mkD 1 31 .WORK, mkD 2 1 .REST, mkD 2 2 .REST],
  [5, 4, 3, 2, 1], [2, 1]⟩

/-- Builder state of iteration 5 after its work block. -/
def bmid5 : ScheduleState := ⟨⟨2025, 2, 6⟩,
  [mkD 1 1 .WORK, mkD 1 2 .WORK, mkD 1 3 .WORK, mkD 1 4 .REST, mkD 1 5 .REST, mkD 1 6 .ORDERING,
    mkD 1 8 .WORK, mkD 1 9 .WORK, mkD 1 10 .REST, mkD 1 11 .REST, mkD 1 12 .ORDERING,
    mkD 1 13 .WORK, mkD 1 14 .WORK, mkD 1 15 .REST, mkD 1 16 .REST, mkD 1 17 .ORDERING,
    mkD 1 18 .WORK, mkD 1 19 .WORK, mkD 1 20 .WORK, mkD 1 21 .WORK, mkD 1 22 .WORK,
    mkD 1 23 .REST, mkD 1 24 .REST, mkD 1 25 .ORDERING, mkD 1 26 .WORK, mkD 1 27 .WORK,
    mkD 1 28 .WORK, mkD 1 29 .WORK, mkD 1 30 .WORK, mkD 1 31 .WORK, mkD 2 1 .REST, mkD 2 2 .REST,
    mkD 2 3 .ORDERING, mkD 2 4 .WORK, mkD 2 5 .WORK],
  [5, 4, 3, 2, 1], [2, 1]⟩

/-- Builder state of the witness run before iteration 6. -/
def bst6 : ScheduleState := ⟨⟨2025, 2, 8⟩,
  [mkD 1 1 .WORK, mkD 1 2 .WORK, mkD 1 3 .WORK, mkD 1 4 .REST, mkD 1 5 .REST, mkD 1 6 .ORDERING,
    mkD 1 8 .WORK, mkD 1 9 .WORK, mkD 1 10 .REST, mkD 1 11 .REST, mkD 1 12 .ORDERING,
    mkD 1 13 .WORK, mkD 1 14 .WORK, mkD 1 15 .REST, mkD 1 16 .REST, mkD 1 17 .ORDERING,
    mkD 1 18 .WORK, mkD 1 19 .WORK, mkD 1 20 .WORK, mkD 1 21 .WORK, mkD 1 22 .WORK,
    mkD 1 23 .REST, mkD 1 24 .REST, mkD 1 25 .ORDERING, mkD 1 26 .WORK, mkD 1 27 .WORK,
    mkD 1 28 .WORK, mkD 1 29 .WORK, mkD 1 30 .WORK, mkD 1 31 .WORK, mkD 2 1 .REST, mkD 2 2 .REST,
    mkD 2 3 .ORDERING, mkD 2 4 .WORK, mkD 2 5 .WORK, mkD 2 6 .REST, mkD 2 7 .REST],
  [6, 5, 4, 3, 2, 1], [2, 1]⟩

/-- Builder state of iteration 6 after its work block. -/
def bmid6 : ScheduleState := ⟨⟨2025, 2, 11⟩,
  [mkD 1 1 .WORK, mkD 1 2 .WORK, mkD 1 3 .WORK, mkD 1 4 .REST, mkD 1 5 .REST, mkD 1 6 .ORDERING,
    mkD 1 8 .WORK, mkD 1 9 .WORK, mkD 1 10 .REST, mkD 1 11 .REST, mkD 1 12 .ORDERING,
    mkD 1 13 .WORK, mkD 1 14 .WORK, mkD 1 15 .REST, mkD 1 16 .REST, mkD 1 17 .ORDERING,
    mkD 1 18 .WORK, mkD 1 19 .WORK, mkD 1 20 .WORK, mkD 1 21 .WORK, mkD 1 22 .WORK,
    mkD 1 23 .REST, mkD 1 24 .REST, mkD 1 25 .ORDERING, mkD 1 26 .WORK, mkD 1 27 .WORK,
    mkD 1 28 .WORK, mkD 1 29 .WORK, mkD 1 30 .WORK, mkD 1 31 .WORK, mkD 2 1 .REST, mkD 2 2 .REST,
    mkD 2 3 .ORDERING, mkD 2 4 .WORK, mkD 2 5 .WORK, mkD 2 6 .REST, mkD 2 7 .REST,
    mkD 2 8 .ORDERING, mkD 2 9 .WORK, mkD 2 10 .WORK],
  [6, 5, 4, 3, 2, 1], [2, 1]⟩

/-- Builder state of the witness run before iteration 7. -/
def bst7 : ScheduleState := ⟨⟨2025, 2, 13⟩,
  [mkD 1 1 .WORK, mkD 1 2 .WORK, mkD 1 3 .WORK, mkD 1 4 .REST, mkD 1 5 .REST, mkD 1 6 .ORDERING,
    mkD 1 8 .WORK, mkD 1 9 .WORK, mkD 1 10 .REST, mkD 1 11 .REST, mkD 1 12 .ORDERING,
    mkD 1 13 .WORK, mkD 1 14 .WORK, mkD 1 15 .REST, mkD 1 16 .REST, mkD 1 17 .ORDERING,
    mkD 1 18 .WORK, mkD 1 19 .WORK, mkD 1 20 .WORK, mkD 1 21 .WORK, mkD 1 22 .WORK,
    mkD 1 23 .REST, mkD 1 24 .REST, mkD 1 25 .ORDERING, mkD 1 26 .WORK, mkD 1 27 .WORK,
    mkD 1 28 .WORK, mkD 1 29 .WORK, mkD 1 30 .WORK, mkD 1 31 .WORK, mkD 2 1 .REST, mkD 2 2 .REST,
    mkD 2 3 .ORDERING, mkD 2 4 .WORK, mkD 2 5 .WORK, mkD 2 6 .REST, mkD 2 7 .REST,
    mkD 2 8 .ORDERING, mkD 2 9 .WORK, mkD 2 10 .WORK, mkD 2 11 .REST, mkD 2 12 .REST],
  [7, 6, 5, 4, 3, 2, 1], [2, 1]⟩

/-- Builder state of iteration 7 after its work block. -/
def bmid7 : ScheduleState := ⟨⟨2025, 2, 20⟩,
  [mkD 1 1 .WORK, mkD 1 2 .WORK, mkD 1 3 .WORK, mkD 1 4 .REST, mkD 1 5 .REST, mkD 1 6 .ORDERING,
    mkD 1 8 .WORK, mkD 1 9 .WORK, mkD 1 10 .REST, mkD 1 11 .REST, mkD 1 12 .ORDERING,
    mkD 1 13 .WORK, mkD 1 14 .WORK, mkD 1 15 .REST, mkD 1 16 .REST, mkD 1 17 .ORDERING,
    mkD 1 18 .WORK, mkD 1 19 .WORK, mkD 1 20 .WORK, mkD 1 21 .WORK, mkD 1 22 .WORK,
    mkD 1 23 .REST, mkD 1 24 .REST, mkD 1 25 .ORDERING, mkD 1 26 .WORK, mkD 1 27 .WORK,
    mkD 1 28 .WORK, mkD 1 29 .WORK, mkD 1 30 .WORK, mkD 1 31 .WORK, mkD 2 1 .REST, mkD 2 2 .REST,
    mkD 2 3 .ORDERING, mkD 2 4 .WORK, mkD 2 5 .WORK, mkD 2 6 .REST, mkD 2 7 .REST,
    mkD 2 8 .ORDERING, mkD 2 9 .WORK, mkD 2 10 .WORK, mkD 2 11 .REST, mkD 2 12 .REST,
    mkD 2 13 .ORDERING, mkD 2 14 .WORK, mkD 2 15 .WORK, mkD 2 16 .WORK, mkD 2 17 .WORK,
    mkD 2 18 .WORK, mkD 2 19 .WORK],
  [7, 6, 5, 4, 3, 2, 1], [2, 1]⟩

/-- Builder state of the witness run before iteration 8. -/
def bst8 : ScheduleState := ⟨⟨2025, 2, 22⟩,
  [mkD 1 1 .WORK, mkD 1 2 .WORK, mkD 1 3 .WORK, mkD 1 4 .REST, mkD 1 5 .REST, mkD 1 6 .ORDERING,
    mkD 1 8 .WORK, mkD 1 9 .WORK, mkD 1 10 .REST, mkD 1 11 .REST, mkD 1 12 .ORDERING,
    mkD 1 13 .WORK, mkD 1 14 .WORK, mkD 1 15 .REST, mkD 1 16 .REST, mkD 1 17 .ORDERING,
    mkD 1 18 .WORK, mkD 1 19 .WORK, mkD 1 20 .WORK, mkD 1 21 .WORK, mkD 1 22 .WORK,
    mkD 1 23 .REST, mkD 1 24 .REST, mkD 1 25 .ORDERING, mkD 1 26 .WORK, mkD 1 27 .WORK,
    mkD 1 28 .WORK, mkD 1 29 .WORK, mkD 1 30 .WORK, mkD 1 31 .WORK, mkD 2 1 .REST, mkD 2 2 .REST,
    mkD 2 3 .ORDERING, mkD 2 4 .WORK, mkD 2 5 .WORK, mkD 2 6 .REST, mkD 2 7 .REST,
    mkD 2 8 .ORDERING, mkD 2 9 .WORK, mkD 2 10 .WORK, mkD 2 11 .REST, mkD 2 12 .REST,
    mkD 2 13 .ORDERING, mkD 2 14 .WORK, mkD 2 15 .WORK, mkD 2 16 .WORK, mkD 2 17 .WORK,
    mkD 2 18 .WORK, mkD 2 19 .WORK, mkD 2 20 .REST, mkD 2 21 .REST],
  [8, 7, 6, 5, 4, 3, 2, 1], [2, 1]⟩

/-- Builder state of iteration 8 after its work block. -/
def bmid8 : ScheduleState := ⟨⟨2025, 3, 1⟩,
  [mkD 1 1 .WORK, mkD 1 2 .WORK, mkD 1 3 .WORK, mkD 1 4 .REST, mkD 1 5 .REST, mkD 1 6 .ORDERING,
    mkD 1 8 .WORK, mkD 1 9 .WORK, mkD 1 10 .REST, mkD 1 11 .REST, mkD 1 12 .ORDERING,
    mkD 1 13 .WORK, mkD 1 14 .WORK, mkD 1 15 .REST, mkD 1 16 .REST, mkD 1 17 .ORDERING,
    mkD 1 18 .WORK, mkD 1 19 .WORK, mkD 1 20 .WORK, mkD 1 21 .WORK, mkD 1 22 .WORK,
    mkD 1 23 .REST, mkD 1 24 .REST, mkD 1 25 .ORDERING, mkD 1 26 .WORK, mkD 1 27 .WORK,
    mkD 1 28 .WORK, mkD 1 29 .WORK, mkD 1 30 .WORK, mkD 1 31 .WORK, mkD 2 1 .REST, mkD 2 2 .REST,
    mkD 2 3 .ORDERING, mkD 2 4 .WORK, mkD 2 5 .WORK, mkD 2 6 .REST, mkD 2 7 .REST,
    mkD 2 8 .ORDERING, mkD 2 9 .WORK, mkD 2 10 .WORK, mkD 2 11 .REST, mkD 2 12 .REST,
    mkD 2 13 .ORDERING, mkD 2 14 .WORK, mkD 2 15 .WORK, mkD 2 16 .WORK, mkD 2 17 .WORK,
    mkD 2 18 .WORK, mkD 2 19 .WORK, mkD 2 20 .REST, mkD 2 21 .REST, mkD 2 22 .ORDERING,
    mkD 2 23 .WORK, mkD 2 24 .WORK, mkD 2 25 .WORK, mkD 2 26 .WORK, mkD 2 27 .WORK,
    mkD 2 28 .WORK],
  [8, 7, 6, 5, 4, 3, 2, 1], [2, 1]⟩

/-- Builder state of the witness run before iteration 9. -/
def bst9 : ScheduleState := ⟨⟨2025, 3, 3⟩,
  [mkD 1 1 .WORK, mkD 1 2 .WORK, mkD 1 3 .WORK, mkD 1 4 .REST, mkD 1 5 .REST, mkD 1 6 .ORDERING,
    mkD 1 8 .WORK, mkD 1 9 .WORK, mkD 1 10 .REST, mkD 1 11 .REST, mkD 1 12 .ORDERING,
    mkD 1 13 .WORK, mkD 1 14 .WORK, mkD 1 15 .REST, mkD 1 16 .REST, mkD 1 17 .ORDERING,
    mkD 1 18 .WORK, mkD 1 19 .WORK, mkD 1 20 .WORK, mkD 1 21 .WORK, mkD 1 22 .WORK,
    mkD 1 23 .REST, mkD 1 24 .REST, mkD 1 25 .ORDERING, mkD 1 26 .WORK, mkD 1 27 .WORK,
    mkD 1 28 .WORK, mkD 1 29 .WORK, mkD 1 30 .WORK, mkD 1 31 .WORK, mkD 2 1 .REST, mkD 2 2 .REST,
    mkD 2 3 .ORDERING, mkD 2 4 .WORK, mkD 2 5 .WORK, mkD 2 6 .REST, mkD 2 7 .REST,
    mkD 2 8 .ORDERING, mkD 2 9 .WORK, mkD 2 10 .WORK, mkD 2 11 .REST, mkD 2 12 .REST,
    mkD 2 13 .ORDERING, mkD 2 14 .WORK, mkD 2 15 .WORK, mkD 2 16 .WORK, mkD 2 17 .WORK,
    mkD 2 18 .WORK, mkD 2 19 .WORK, mkD 2 20 .REST, mkD 2 21 .REST, mkD 2 22 .ORDERING,
    mkD 2 23 .WORK, mkD 2 24 .WORK, mkD 2 25 .WORK, mkD 2 26 .WORK, mkD 2 27 .WORK,
    mkD 2 28 .WORK, mkD 3 1 .REST, mkD 3 2 .REST],
  [9, 8, 7, 6, 5, 4, 3, 2, 1], [3, 2, 1]⟩

/-- Builder state of iteration 9 after its work block. -/
def bmid9 : ScheduleState := ⟨⟨2025, 3, 6⟩,
  [mkD 1 1 .WORK, mkD 1 2 .WORK, mkD 1 3 .WORK, mkD 1 4 .REST, mkD 1 5 .REST, mkD 1 6 .ORDERING,
    mkD 1 8 .WORK, mkD 1 9 .WORK, mkD 1 10 .REST, mkD 1 11 .REST, mkD 1 12 .ORDERING,
    mkD 1 13 .WORK, mkD 1 14 .WORK, mkD 1 15 .REST, mkD 1 16 .REST, mkD 1 17 .ORDERING,
    mkD 1 18 .WORK, mkD 1 19 .WORK, mkD 1 20 .WORK, mkD 1 21 .WORK, mkD 1 22 .WORK,
    mkD 1 23 .REST, mkD 1 24 .REST, mkD 1 25 .ORDERING, mkD 1 26 .WORK, mkD 1 27 .WORK,
    mkD 1 28 .WORK, mkD 1 29 .WORK, mkD 1 30 .WORK, mkD 1 31 .WORK, mkD 2 1 .REST, mkD 2 2 .REST,
    mkD 2 3 .ORDERING, mkD 2 4 .WORK, mkD 2 5 .WORK, mkD 2 6 .REST, mkD 2 7 .REST,
    mkD 2 8 .ORDERING, mkD 2 9 .WORK, mkD 2 10 .WORK, mkD 2 11 .REST, mkD 2 12 .REST,
    mkD 2 13 .ORDERING, mkD 2 14 .WORK, mkD 2 15 .WORK, mkD 2 16 .WORK, mkD 2 17 .WORK,
    mkD 2 18 .WORK, mkD 2 19 .WORK, mkD 2 20 .REST, mkD 2 21 .REST, mkD 2 22 .ORDERING,
    mkD 2 23 .WORK, mkD 2 24 .WORK, mkD 2 25 .WORK, mkD 2 26 .WORK, mkD 2 27 .WORK,
    mkD 2 28 .WORK, mkD 3 1 .REST, mkD 3 2 .REST, mkD 3 3 .ORDERING, mkD 3 4 .WORK, mkD 3 5 .WORK],
  [9, 8, 7, 6, 5, 4, 3, 2, 1], [3, 2, 1]⟩

/-- Builder state of the witness run before iteration 10. -/
def bst10 : ScheduleState := ⟨⟨2025, 3, 8⟩,
  [mkD 1 1 .WORK, mkD 1 2 .WORK, mkD 1 3 .WORK, mkD 1 4 .REST, mkD 1 5 .REST, mkD 1 6 .ORDERING,
    mkD 1 8 .WORK, mkD 1 9 .WORK, mkD 1 10 .REST, mkD 1 11 .REST, mkD 1 12 .ORDERING,
    mkD 1 13 .WORK, mkD 1 14 .WORK, mkD 1 15 .REST, mkD 1 16 .REST, mkD 1 17 .ORDERING,
    mkD 1 18 .WORK, mkD 1 19 .WORK, mkD 1 20 .WORK, mkD 1 21 .WORK, mkD 1 22 .WORK,
    mkD 1 23 .REST, mkD 1 24 .REST, mkD 1 25 .ORDERING, mkD 1 26 .WORK, mkD 1 27 .WORK,
    mkD 1 28 .WORK, mkD 1 29 .WORK, mkD 1 30 .WORK, mkD 1 31 .WORK, mkD 2 1 .REST, mkD 2 2 .REST,
    mkD 2 3 .ORDERING, mkD 2 4 .WORK, mkD 2 5 .WORK, mkD 2 6 .REST, mkD 2 7 .REST,
    mkD 2 8 .ORDERING, mkD 2 9 .WORK, mkD 2 10 .WORK, mkD 2 11 .REST, mkD 2 12 .REST,
    mkD 2 13 .ORDERING, mkD 2 14 .WORK, mkD 2 15 .WORK, mkD 2 16 .WORK, mkD 2 17 .WORK,
    mkD 2 18 .WORK, mkD 2 19 .WORK, mkD 2 20 .REST, mkD 2 21 .REST, mkD 2 22 .ORDERING,
    mkD 2 23 .WORK, mkD 2 24 .WORK, mkD 2 25 .WORK, mkD 2 26 .WORK, mkD 2 27 .WORK,
    mkD 2 28 .WORK, mkD 3 1 .REST, mkD 3 2 .REST, mkD 3 3 .ORDERING, mkD 3 4 .WORK, mkD 3 5 .WORK,
    mkD 3 6 .REST, mkD 3 7 .REST],
  [10, 9, 8, 7, 6, 5, 4, 3, 2, 1], [3, 2, 1]⟩

/-- Builder state of iteration 10 after its work block. -/
def bmid10 : ScheduleState := ⟨⟨2025, 3, 11⟩,
  [mkD 1 1 .WORK, mkD 1 2 .WORK, mkD 1 3 .WORK, mkD 1 4 .REST, mkD 1 5 .REST, mkD 1 6 .ORDERING,
    mkD 1 8 .WORK, mkD 1 9 .WORK, mkD 1 10 .REST, mkD 1 11 .REST, mkD 1 12 .ORDERING,
    mkD 1 13 .WORK, mkD 1 14 .WORK, mkD 1 15 .REST, mkD 1 16 .REST, mkD 1 17 .ORDERING,
    mkD 1 18 .WORK, mkD 1 19 .WORK, mkD 1 20 .WORK, mkD 1 21 .WORK, mkD 1 22 .WORK,
    mkD 1 23 .REST, mkD 1 24 .REST, mkD 1 25 .ORDERING, mkD 1 26 .WORK, mkD 1 27 .WORK,
    mkD 1 28 .WORK, mkD 1 29 .WORK, mkD 1 30 .WORK, mkD 1 31 .WORK, mkD 2 1 .REST, mkD 2 2 .REST,
    mkD 2 3 .ORDERING, mkD 2 4 .WORK, mkD 2 5 .WORK, mkD 2 6 .REST, mkD 2 7 .REST,
    mkD 2 8 .ORDERING, mkD 2 9 .WORK, mkD 2 10 .WORK, mkD 2 11 .REST, mkD 2 12 .REST,
    mkD 2 13 .ORDERING, mkD 2 14 .WORK, mkD 2 15 .WORK, mkD 2 16 .WORK, mkD 2 17 .WORK,
    mkD 2 18 .WORK, mkD 2 19 .WORK, mkD 2 20 .REST, mkD 2 21 .REST, mkD 2 22 .ORDERING,
    mkD 2 23 .WORK, mkD 2 24 .WORK, mkD 2 25 .WORK, mkD 2 26 .WORK, mkD 2 27 .WORK,
    mkD 2 28 .WORK, mkD 3 1 .REST, mkD 3 2 .REST, mkD 3 3 .ORDERING, mkD 3 4 .WORK, mkD 3 5 .WORK,
    mkD 3 6 .REST, mkD 3 7 .REST, mkD 3 8 .ORDERING, mkD 3 9 .WORK, mkD 3 10 .WORK],
  [10, 9, 8, 7, 6, 5, 4, 3, 2, 1], [3, 2, 1]⟩

/-- Builder state of the witness run before iteration 11. -/
def bst11 : ScheduleState := ⟨⟨2025, 3, 13⟩,
  [mkD 1 1 .WORK, mkD 1 2 .WORK, mkD 1 3 .WORK, mkD 1 4 .REST, mkD 1 5 .REST, mkD 1 6 .ORDERING,
    mkD 1 8 .WORK, mkD 1 9 .WORK, mkD 1 10 .REST, mkD 1 11 .REST, mkD 1 12 .ORDERING,
    mkD 1 13 .WORK, mkD 1 14 .WORK, mkD 1 15 .REST, mkD 1 16 .REST, mkD 1 17 .ORDERING,
    mkD 1 18 .WORK, mkD 1 19 .WORK, mkD 1 20 .WORK, mkD 1 21 .WORK, mkD 1 22 .WORK,
    mkD 1 23 .REST, mkD 1 24 .REST, mkD 1 25 .ORDERING, mkD 1 26 .WORK, mkD 1 27 .WORK,
    mkD 1 28 .WORK, mkD 1 29 .WORK, mkD 1 30 .WORK, mkD 1 31 .WORK, mkD 2 1 .REST, mkD 2 2 .REST,
    mkD 2 3 .ORDERING, mkD 2 4 .WORK, mkD 2 5 .WORK, mkD 2 6 .REST, mkD 2 7 .REST,
    mkD 2 8 .ORDERING, mkD 2 9 .WORK, mkD 2 10 .WORK, mkD 2 11 .REST, mkD 2 12 .REST,
    mkD 2 13 .ORDERING, mkD 2 14 .WORK, mkD 2 15 .WORK, mkD 2 16 .WORK, mkD 2 17 .WORK,
    mkD 2 18 .WORK, mkD 2 19 .WORK, mkD 2 20 .REST, mkD 2 21 .REST, mkD 2 22 .ORDERING,
    mkD 2 23 .WORK, mkD 2 24 .WORK, mkD 2 25 .WORK, mkD 2 26 .WORK, mkD 2 27 .WORK,
    mkD 2 28 .WORK, mkD 3 1 .REST, mkD 3 2 .REST, mkD 3 3 .ORDERING, mkD 3 4 .WORK, mkD 3 5 .WORK,
    mkD 3 6 .REST, mkD 3 7 .REST, mkD 3 8 .ORDERING, mkD 3 9 .WORK, mkD 3 10 .WORK,
    mkD 3 11 .REST, mkD 3 12 .REST],
  [11, 10, 9, 8, 7, 6, 5, 4, 3, 2, 1], [3, 2, 1]⟩

/-- Builder state of iteration 11 after its work block. -/
def bmid11 : ScheduleState := ⟨⟨2025, 3, 18⟩,
  [mkD 1 1 .WORK, mkD 1 2 .WORK, mkD 1 3 .WORK, mkD 1 4 .REST, mkD 1 5 .REST, mkD 1 6 .ORDERING,
    mkD 1 8 .WORK, mkD 1 9 .WORK, mkD 1 10 .REST, mkD 1 11 .REST, mkD 1 12 .ORDERING,
    mkD 1 13 .WORK, mkD 1 14 .WORK, mkD 1 15 .REST, mkD 1 16 .REST, mkD 1 17 .ORDERING,
    mkD 1 18 .WORK, mkD 1 19 .WORK, mkD 1 20 .WORK, mkD 1 21 .WORK, mkD 1 22 .WORK,
    mkD 1 23 .REST, mkD 1 24 .REST, mkD 1 25 .ORDERING, mkD 1 26 .WORK, mkD 1 27 .WORK,
    mkD 1 28 .WORK, mkD 1 29 .WORK, mkD 1 30 .WORK, mkD 1 31 .WORK, mkD 2 1 .REST, mkD 2 2 .REST,
    mkD 2 3 .ORDERING, mkD 2 4 .WORK, mkD 2 5 .WORK, mkD 2 6 .REST, mkD 2 7 .REST,
    mkD 2 8 .ORDERING, mkD 2 9 .WORK, mkD 2 10 .WORK, mkD 2 11 .REST, mkD 2 12 .REST,
    mkD 2 13 .ORDERING, mkD 2 14 .WORK, mkD 2 15 .WORK, mkD 2 16 .WORK, mkD 2 17 .WORK,
    mkD 2 18 .WORK, mkD 2 19 .WORK, mkD 2 20 .REST, mkD 2 21 .REST, mkD 2 22 .ORDERING,
    mkD 2 23 .WORK, mkD 2 24 .WORK, mkD 2 25 .WORK, mkD 2 26 .WORK, mkD 2 27 .WORK,
    mkD 2 28 .WORK, mkD 3 1 .REST, mkD 3 2 .REST, mkD 3 3 .ORDERING, mkD 3 4 .WORK, mkD 3 5 .WORK,
    mkD 3 6 .REST, mkD 3 7 .REST, mkD 3 8 .ORDERING, mkD 3 9 .WORK, mkD 3 10 .WORK,
    mkD 3 11 .REST, mkD 3 12 .REST, mkD 3 13 .ORDERING, mkD 3 14 .WORK, mkD 3 15 .WORK,
    mkD 3 16 .WORK, mkD 3 17 .WORK],
  [11, 10, 9, 8, 7, 6, 5, 4, 3, 2, 1], [3, 2, 1]⟩

/-- Builder state of the witness run before iteration 12. -/
def bst12 : ScheduleState := ⟨⟨2025, 3, 20⟩,
  [mkD 1 1 .WORK, mkD 1 2 .WORK, mkD 1 3 .WORK, mkD 1 4 .REST, mkD 1 5 .REST, mkD 1 6 .ORDERING,
    mkD 1 8 .WORK, mkD 1 9 .WORK, mkD 1 10 .REST, mkD 1 11 .REST, mkD 1 12 .ORDERING,
    mkD 1 13 .WORK, mkD 1 14 .WORK, mkD 1 15 .REST, mkD 1 16 .REST, mkD 1 17 .ORDERING,
    mkD 1 18 .WORK, mkD 1 19 .WORK, mkD 1 20 .WORK, mkD 1 21 .WORK, mkD 1 22 .WORK,
    mkD 1 23 .REST, mkD 1 24 .REST, mkD 1 25 .ORDERING, mkD 1 26 .WORK, mkD 1 27 .WORK,
    mkD 1 28 .WORK, mkD 1 29 .WORK, mkD 1 30 .WORK, mkD 1 31 .WORK, mkD 2 1 .REST, mkD 2 2 .REST,
    mkD 2 3 .ORDERING, mkD 2 4 .WORK, mkD 2 5 .WORK, mkD 2 6 .REST, mkD 2 7 .REST,
    mkD 2 8 .ORDERING, mkD 2 9 .WORK, mkD 2 10 .WORK, mkD 2 11 .REST, mkD 2 12 .REST,
    mkD 2 13 .ORDERING, mkD 2 14 .WORK, mkD 2 15 .WORK, mkD 2 16 .WORK, mkD 2 17 .WORK,
    mkD 2 18 .WORK, mkD 2 19 .WORK, mkD 2 20 .REST, mkD 2 21 .REST, mkD 2 22 .ORDERING,
    mkD 2 23 .WORK, mkD 2 24 .WORK, mkD 2 25 .WORK, mkD 2 26 .WORK, mkD 2 27 .WORK,
    mkD 2 28 .WORK, mkD 3 1 .REST, mkD 3 2 .REST, mkD 3 3 .ORDERING, mkD 3 4 .WORK, mkD 3 5 .WORK,
    mkD 3 6 .REST, mkD 3 7 .REST, mkD 3 8 .ORDERING, mkD 3 9 .WORK, mkD 3 10 .WORK,
    mkD 3 11 .REST, mkD 3 12 .REST, mkD 3 13 .ORDERING, mkD 3 14 .WORK, mkD 3 15 .WORK,
    mkD 3 16 .WORK, mkD 3 17 .WORK, mkD 3 18 .REST, mkD 3 19 .REST],
  [12, 11, 10, 9, 8, 7, 6, 5, 4, 3, 2, 1], [3, 2, 1]⟩

/-- Builder state of iteration 12 after its work block. -/
def bmid12 : ScheduleState := ⟨⟨2025, 3, 27⟩,
  [mkD 1 1 .WORK, mkD 1 2 .WORK, mkD 1 3 .WORK, mkD 1 4 .REST, mkD 1 5 .REST, mkD 1 6 .ORDERING,
    mkD 1 8 .WORK, mkD 1 9 .WORK, mkD 1 10 .REST, mkD 1 11 .REST, mkD 1 12 .ORDERING,
    mkD 1 13 .WORK, mkD 1 14 .WORK, mkD 1 15 .REST, mkD 1 16 .REST, mkD 1 17 .ORDERING,
    mkD 1 18 .WORK, mkD 1 19 .WORK, mkD 1 20 .WORK, mkD 1 21 .WORK, mkD 1 22 .WORK,
    mkD 1 23 .REST, mkD 1 24 .REST, mkD 1 25 .ORDERING, mkD 1 26 .WORK, mkD 1 27 .WORK,
    mkD 1 28 .WORK, mkD 1 29 .WORK, mkD 1 30 .WORK, mkD 1 31 .WORK, mkD 2 1 .REST, mkD 2 2 .REST,
    mkD 2 3 .ORDERING, mkD 2 4 .WORK, mkD 2 5 .WORK, mkD 2 6 .REST, mkD 2 7 .REST,
    mkD 2 8 .ORDERING, mkD 2 9 .WORK, mkD 2 10 .WORK, mkD 2 11 .REST, mkD 2 12 .REST,
    mkD 2 13 .ORDERING, mkD 2 14 .WORK, mkD 2 15 .WORK, mkD 2 16 .WORK, mkD 2 17 .WORK,
    mkD 2 18 .WORK, mkD 2 19 .WORK, mkD 2 20 .REST, mkD 2 21 .REST, mkD 2 22 .ORDERING,
    mkD 2 23 .WORK, mkD 2 24 .WORK, mkD 2 25 .WORK, mkD 2 26 .WORK, mkD 2 27 .WORK,
    mkD 2 28 .WORK, mkD 3 1 .REST, mkD 3 2 .REST, mkD 3 3 .ORDERING, mkD 3 4 .WORK, mkD 3 5 .WORK,
    mkD 3 6 .REST, mkD 3 7 .REST, mkD 3 8 .ORDERING, mkD 3 9 .WORK, mkD 3 10 .WORK,
    mkD 3 11 .REST, mkD 3 12 .REST, mkD 3 13 .ORDERING, mkD 3 14 .WORK, mkD 3 15 .WORK,
    mkD 3 16 .WORK, mkD 3 17 .WORK, mkD 3 18 .REST, mkD 3 19 .REST, mkD 3 20 .ORDERING,
    mkD 3 21 .WORK, mkD 3 22 .WORK, mkD 3 23 .WORK, mkD 3 24 .WORK, mkD 3 25 .WORK,
    mkD 3 26 .WORK],
  [12, 11, 10, 9, 8, 7, 6, 5, 4, 3, 2, 1], [3, 2, 1]⟩

/-- Builder state of the witness run before iteration 13. -/
def bst13 : ScheduleState := ⟨⟨2025, 3, 29⟩,
  [mkD 1 1 .WORK, mkD 1 2 .WORK, mkD 1 3 .WORK, mkD 1 4 .REST, mkD 1 5 .REST, mkD 1 6 .ORDERING,
    mkD 1 8 .WORK, mkD 1 9 .WORK, mkD 1 10 .REST, mkD 1 11 .REST, mkD 1 12 .ORDERING,
    mkD 1 13 .WORK, mkD 1 14 .WORK, mkD 1 15 .REST, mkD 1 16 .REST, mkD 1 17 .ORDERING,
    mkD 1 18 .WORK, mkD 1 19 .WORK, mkD 1 20 .WORK, mkD 1 21 .WORK, mkD 1 22 .WORK,
    mkD 1 23 .REST, mkD 1 24 .REST, mkD 1 25 .ORDERING, mkD 1 26 .WORK, mkD 1 27 .WORK,
    mkD 1 28 .WORK, mkD 1 29 .WORK, mkD 1 30 .WORK, mkD 1 31 .WORK, mkD 2 1 .REST, mkD 2 2 .REST,
    mkD 2 3 .ORDERING, mkD 2 4 .WORK, mkD 2 5 .WORK, mkD 2 6 .REST, mkD 2 7 .REST,
    mkD 2 8 .ORDERING, mkD 2 9 .WORK, mkD 2 10 .WORK, mkD 2 11 .REST, mkD 2 12 .REST,
    mkD 2 13 .ORDERING, mkD 2 14 .WORK, mkD 2 15 .WORK, mkD 2 16 .WORK, mkD 2 17 .WORK,
    mkD 2 18 .WORK, mkD 2 19 .WORK, mkD 2 20 .REST, mkD 2 21 .REST, mkD 2 22 .ORDERING,
    mkD 2 23 .WORK, mkD 2 24 .WORK, mkD 2 25 .WORK, mkD 2 26 .WORK, mkD 2 27 .WORK,
    mkD 2 28 .WORK, mkD 3 1 .REST, mkD 3 2 .REST, mkD 3 3 .ORDERING, mkD 3 4 .WORK, mkD 3 5 .WORK,
    mkD 3 6 .REST, mkD 3 7 .REST, mkD 3 8 .ORDERING, mkD 3 9 .WORK, mkD 3 10 .WORK,
    mkD 3 11 .REST, mkD 3 12 .REST, mkD 3 13 .ORDERING, mkD 3 14 .WORK, mkD 3 15 .WORK,
    mkD 3 16 .WORK, mkD 3 17 .WORK, mkD 3 18 .REST, mkD 3 19 .REST, mkD 3 20 .ORDERING,
    mkD 3 21 .WORK, mkD 3 22 .WORK, mkD 3 23 .WORK, mkD 3 24 .WORK, mkD 3 25 .WORK,
    mkD 3 26 .WORK, mkD 3 27 .REST, mkD 3 28 .REST],
  [13, 12, 11, 10, 9, 8, 7, 6, 5, 4, 3, 2, 1], [3, 2, 1]⟩

/-- Builder state of iteration 13 after its work block. -/
def bmid13 : ScheduleState := ⟨⟨2025, 4, 5⟩,
  [mkD 1 1 .WORK, mkD 1 2 .WORK, mkD 1 3 .WORK, mkD 1 4 .REST, mkD 1 5 .REST, mkD 1 6 .ORDERING,
    mkD 1 8 .WORK, mkD 1 9 .WORK, mkD 1 10 .REST, mkD 1 11 .REST, mkD 1 12 .ORDERING,
    mkD 1 13 .WORK, mkD 1 14 .WORK, mkD 1 15 .REST, mkD 1 16 .REST, mkD 1 17 .ORDERING,
    mkD 1 18 .WORK, mkD 1 19 .WORK, mkD 1 20 .WORK, mkD 1 21 .WORK, mkD 1 22 .WORK,
    mkD 1 23 .REST, mkD 1 24 .REST, mkD 1 25 .ORDERING, mkD 1 26 .WORK, mkD 1 27 .WORK,
    mkD 1 28 .WORK, mkD 1 29 .WORK, mkD 1 30 .WORK, mkD 1 31 .WORK, mkD 2 1 .REST, mkD 2 2 .REST,
    mkD 2 3 .ORDERING, mkD 2 4 .WORK, mkD 2 5 .WORK, mkD 2 6 .REST, mkD 2 7 .REST,
    mkD 2 8 .ORDERING, mkD 2 9 .WORK, mkD 2 10 .WORK, mkD 2 11 .REST, mkD 2 12 .REST,
    mkD 2 13 .ORDERING, mkD 2 14 .WORK, mkD 2 15 .WORK, mkD 2 16 .WORK, mkD 2 17 .WORK,
    mkD 2 18 .WORK, mkD 2 19 .WORK, mkD 2 20 .REST, mkD 2 21 .REST, mkD 2 22 .ORDERING,
    mkD 2 23 .WORK, mkD 2 24 .WORK, mkD 2 25 .WORK, mkD 2 26 .WORK, mkD 2 27 .WORK,
    mkD 2 28 .WORK, mkD 3 1 .REST, mkD 3 2 .REST, mkD 3 3 .ORDERING, mkD 3 4 .WORK, mkD 3 5 .WORK,
    mkD 3 6 .REST, mkD 3 7 .REST, mkD 3 8 .ORDERING, mkD 3 9 .WORK, mkD 3 10 .WORK,
    mkD 3 11 .REST, mkD 3 12 .REST, mkD 3 13 .ORDERING, mkD 3 14 .WORK, mkD 3 15 .WORK,
    mkD 3 16 .WORK, mkD 3 17 .WORK, mkD 3 18 .REST, mkD 3 19 .REST, mkD 3 20 .ORDERING,
    mkD 3 21 .WORK, mkD 3 22 .WORK, mkD 3 23 .WORK, mkD 3 24 .WORK, mkD 3 25 .WORK,
    mkD 3 26 .WORK, mkD 3 27 .REST, mkD 3 28 .REST, mkD 3 29 .ORDERING, mkD 3 30 .WORK,
    mkD 3 31 .WORK, mkD 4 1 .WORK, mkD 4 2 .WORK, mkD 4 3 .WORK, mkD 4 4 .WORK],
  [13, 12, 11, 10, 9, 8, 7, 6, 5, 4, 3, 2, 1], [3, 2, 1]⟩

/-- Builder state of the witness run before iteration 14. -/
def bst14 : ScheduleState := ⟨⟨2025, 4, 7⟩,
  [mkD 1 1 .WORK, mkD 1 2 .WORK, mkD 1 3 .WORK, mkD 1 4 .REST, mkD 1 5 .REST, mkD 1 6 .ORDERING,
    mkD 1 8 .WORK, mkD 1 9 .WORK, mkD 1 10 .REST, mkD 1 11 .REST, mkD 1 12 .ORDERING,
    mkD 1 13 .WORK, mkD 1 14 .WORK, mkD 1 15 .REST, mkD 1 16 .REST, mkD 1 17 .ORDERING,
    mkD 1 18 .WORK, mkD 1 19 .WORK, mkD 1 20 .WORK, mkD 1 21 .WORK, mkD 1 22 .WORK,
    mkD 1 23 .REST, mkD 1 24 .REST, mkD 1 25 .ORDERING, mkD 1 26 .WORK, mkD 1 27 .WORK,
    mkD 1 28 .WORK, mkD 1 29 .WORK, mkD 1 30 .WORK, mkD 1 31 .WORK, mkD 2 1 .REST, mkD 2 2 .REST,
    mkD 2 3 .ORDERING, mkD 2 4 .WORK, mkD 2 5 .WORK, mkD 2 6 .REST, mkD 2 7 .REST,
    mkD 2 8 .ORDERING, mkD 2 9 .WORK, mkD 2 10 .WORK, mkD 2 11 .REST, mkD 2 12 .REST,
    mkD 2 13 .ORDERING, mkD 2 14 .WORK, mkD 2 15 .WORK, mkD 2 16 .WORK, mkD 2 17 .WORK,
    mkD 2 18 .WORK, mkD 2 19 .WORK, mkD 2 20 .REST, mkD 2 21 .REST, mkD 2 22 .ORDERING,
    mkD 2 23 .WORK, mkD 2 24 .WORK, mkD 2 25 .WORK, mkD 2 26 .WORK, mkD 2 27 .WORK,
    mkD 2 28 .WORK, mkD 3 1 .REST, mkD 3 2 .REST, mkD 3 3 .ORDERING, mkD 3 4 .WORK, mkD 3 5 .WORK,
    mkD 3 6 .REST, mkD 3 7 .REST, mkD 3 8 .ORDERING, mkD 3 9 .WORK, mkD 3 10 .WORK,
    mkD 3 11 .REST, mkD 3 12 .REST, mkD 3 13 .ORDERING, mkD 3 14 .WORK, mkD 3 15 .WORK,
    mkD 3 16 .WORK, mkD 3 17 .WORK, mkD 3 18 .REST, mkD 3 19 .REST, mkD 3 20 .ORDERING,
    mkD 3 21 .WORK, mkD 3 22 .WORK, mkD 3 23 .WORK, mkD 3 24 .WORK, mkD 3 25 .WORK,
    mkD 3 26 .WORK, mkD 3 27 .REST, mkD 3 28 .REST, mkD 3 29 .ORDERING, mkD 3 30 .WORK,
    mkD 3 31 .WORK, mkD 4 1 .WORK, mkD 4 2 .WORK, mkD 4 3 .WORK, mkD 4 4 .WORK, mkD 4 5 .REST,
    mkD 4 6 .REST],
  [14, 13, 12, 11, 10, 9, 8, 7, 6, 5, 4, 3, 2, 1], [4, 3, 2, 1]⟩

/-- Builder state of iteration 14 after its work block. -/
def bmid14 : ScheduleState := ⟨⟨2025, 4, 10⟩,
  [mkD 1 1 .WORK, mkD 1 2 .WORK, mkD 1 3 .WORK, mkD 1 4 .REST, mkD 1 5 .REST, mkD 1 6 .ORDERING,
    mkD 1 8 .WORK, mkD 1 9 .WORK, mkD 1 10 .REST, mkD 1 11 .REST, mkD 1 12 .ORDERING,
    mkD 1 13 .WORK, mkD 1 14 .WORK, mkD 1 15 .REST, mkD 1 16 .REST, mkD 1 17 .ORDERING,
    mkD 1 18 .WORK, mkD 1 19 .WORK, mkD 1 20 .WORK, mkD 1 21 .WORK, mkD 1 22 .WORK,
    mkD 1 23 .REST, mkD 1 24 .REST, mkD 1 25 .ORDERING, mkD 1 26 .WORK, mkD 1 27 .WORK,
    mkD 1 28 .WORK, mkD 1 29 .WORK, mkD 1 30 .WORK, mkD 1 31 .WORK, mkD 2 1 .REST, mkD 2 2 .REST,
    mkD 2 3 .ORDERING, mkD 2 4 .WORK, mkD 2 5 .WORK, mkD 2 6 .REST, mkD 2 7 .REST,
    mkD 2 8 .ORDERING, mkD 2 9 .WORK, mkD 2 10 .WORK, mkD 2 11 .REST, mkD 2 12 .REST,
    mkD 2 13 .ORDERING, mkD 2 14 .WORK, mkD 2 15 .WORK, mkD 2 16 .WORK, mkD 2 17 .WORK,
    mkD 2 18 .WORK, mkD 2 19 .WORK, mkD 2 20 .REST, mkD 2 21 .REST, mkD 2 22 .ORDERING,
    mkD 2 23 .WORK, mkD 2 24 .WORK, mkD 2 25 .WORK, mkD 2 26 .WORK, mkD 2 27 .WORK,
    mkD 2 28 .WORK, mkD 3 1 .REST, mkD 3 2 .REST, mkD 3 3 .ORDERING, mkD 3 4 .WORK, mkD 3 5 .WORK,
    mkD 3 6 .REST, mkD 3 7 .REST, mkD 3 8 .ORDERING, mkD 3 9 .WORK, mkD 3 10 .WORK,
    mkD 3 11 .REST, mkD 3 12 .REST, mkD 3 13 .ORDERING, mkD 3 14 .WORK, mkD 3 15 .WORK,
    mkD 3 16 .WORK, mkD 3 17 .WORK, mkD 3 18 .REST, mkD 3 19 .REST, mkD 3 20 .ORDERING,
    mkD 3 21 .WORK, mkD 3 22 .WORK, mkD 3 23 .WORK, mkD 3 24 .WORK, mkD 3 25 .WORK,
    mkD 3 26 .WORK, mkD 3 27 .REST, mkD 3 28 .REST, mkD 3 29 .ORDERING, mkD 3 30 .WORK,
    mkD 3 31 .WORK, mkD 4 1 .WORK, mkD 4 2 .WORK, mkD 4 3 .WORK, mkD 4 4 .WORK, mkD 4 5 .REST,
    mkD 4 6 .REST, mkD 4 7 .ORDERING, mkD 4 8 .WORK, mkD 4 9 .WORK],
  [14, 13, 12, 11, 10, 9, 8, 7, 6, 5, 4, 3, 2, 1], [4, 3, 2, 1]⟩

/-- Builder state of the witness run before iteration 15. -/
def bst15 : ScheduleState := ⟨⟨2025, 4, 12⟩,
  [mkD 1 1 .WORK, mkD 1 2 .WORK, mkD 1 3 .WORK, mkD 1 4 .REST, mkD 1 5 .REST, mkD 1 6 .ORDERING,
    mkD 1 8 .WORK, mkD 1 9 .WORK, mkD 1 10 .REST, mkD 1 11 .REST, mkD 1 12 .ORDERING,
    mkD 1 13 .WORK, mkD 1 14 .WORK, mkD 1 15 .REST, mkD 1 16 .REST, mkD 1 17 .ORDERING,
    mkD 1 18 .WORK, mkD 1 19 .WORK, mkD 1 20 .WORK, mkD 1 21 .WORK, mkD 1 22 .WORK,
    mkD 1 23 .REST, mkD 1 24 .REST, mkD 1 25 .ORDERING, mkD 1 26 .WORK, mkD 1 27 .WORK,
    mkD 1 28 .WORK, mkD 1 29 .WORK, mkD 1 30 .WORK, mkD 1 31 .WORK, mkD 2 1 .REST, mkD 2 2 .REST,
    mkD 2 3 .ORDERING, mkD 2 4 .WORK, mkD 2 5 .WORK, mkD 2 6 .REST, mkD 2 7 .REST,
    mkD 2 8 .ORDERING, mkD 2 9 .WORK, mkD 2 10 .WORK, mkD 2 11 .REST, mkD 2 12 .REST,
    mkD 2 13 .ORDERING, mkD 2 14 .WORK, mkD 2 15 .WORK, mkD 2 16 .WORK, mkD 2 17 .WORK,
    mkD 2 18 .WORK, mkD 2 19 .WORK, mkD 2 20 .REST, mkD 2 21 .REST, mkD 2 22 .ORDERING,
    mkD 2 23 .WORK, mkD 2 24 .WORK, mkD 2 25 .WORK, mkD 2 26 .WORK, mkD 2 27 .WORK,
    mkD 2 28 .WORK, mkD 3 1 .REST, mkD 3 2 .REST, mkD 3 3 .ORDERING, mkD 3 4 .WORK, mkD 3 5 .WORK,
    mkD 3 6 .REST, mkD 3 7 .REST, mkD 3 8 .ORDERING, mkD 3 9 .WORK, mkD 3 10 .WORK,
    mkD 3 11 .REST, mkD 3 12 .REST, mkD 3 13 .ORDERING, mkD 3 14 .WORK, mkD 3 15 .WORK,
    mkD 3 16 .WORK, mkD 3 17 .WORK, mkD 3 18 .REST, mkD 3 19 .REST, mkD 3 20 .ORDERING,
    mkD 3 21 .WORK, mkD 3 22 .WORK, mkD 3 23 .WORK, mkD 3 24 .WORK, mkD 3 25 .WORK,
    mkD 3 26 .WORK, mkD 3 27 .REST, mkD 3 28 .REST, mkD 3 29 .ORDERING, mkD 3 30 .WORK,
    mkD 3 31 .WORK, mkD 4 1 .WORK, mkD 4 2 .WORK, mkD 4 3 .WORK, mkD 4 4 .WORK, mkD 4 5 .REST,
    mkD 4 6 .REST, mkD 4 7 .ORDERING, mkD 4 8 .WORK, mkD 4 9 .WORK, mkD 4 10 .REST,
    mkD 4 11 .REST],
  [15, 14, 13, 12, 11, 10, 9, 8, 7, 6, 5, 4, 3, 2, 1], [4, 3, 2, 1]⟩

/-- Builder state of iteration 15 after its work block. -/
def bmid15 : ScheduleState := ⟨⟨2025, 4, 15⟩,
  [mkD 1 1 .WORK, mkD 1 2 .WORK, mkD 1 3 .WORK, mkD 1 4 .REST, mkD 1 5 .REST, mkD 1 6 .ORDERING,
    mkD 1 8 .WORK, mkD 1 9 .WORK, mkD 1 10 .REST, mkD 1 11 .REST, mkD 1 12 .ORDERING,
    mkD 1 13 .WORK, mkD 1 14 .WORK, mkD 1 15 .REST, mkD 1 16 .REST, mkD 1 17 .ORDERING,
    mkD 1 18 .WORK, mkD 1 19 .WORK, mkD 1 20 .WORK, mkD 1 21 .WORK, mkD 1 22 .WORK,
    mkD 1 23 .REST, mkD 1 24 .REST, mkD 1 25 .ORDERING, mkD 1 26 .WORK, mkD 1 27 .WORK,
    mkD 1 28 .WORK, mkD 1 29 .WORK, mkD 1 30 .WORK, mkD 1 31 .WORK, mkD 2 1 .REST, mkD 2 2 .REST,
    mkD 2 3 .ORDERING, mkD 2 4 .WORK, mkD 2 5 .WORK, mkD 2 6 .REST, mkD 2 7 .REST,
    mkD 2 8 .ORDERING, mkD 2 9 .WORK, mkD 2 10 .WORK, mkD 2 11 .REST, mkD 2 12 .REST,
    mkD 2 13 .ORDERING, mkD 2 14 .WORK, mkD 2 15 .WORK, mkD 2 16 .WORK, mkD 2 17 .WORK,
    mkD 2 18 .WORK, mkD 2 19 .WORK, mkD 2 20 .REST, mkD 2 21 .REST, mkD 2 22 .ORDERING,
    mkD 2 23 .WORK, mkD 2 24 .WORK, mkD 2 25 .WORK, mkD 2 26 .WORK, mkD 2 27 .WORK,
    mkD 2 28 .WORK, mkD 3 1 .REST, mkD 3 2 .REST, mkD 3 3 .ORDERING, mkD 3 4 .WORK, mkD 3 5 .WORK,
    mkD 3 6 .REST, mkD 3 7 .REST, mkD 3 8 .ORDERING, mkD 3 9 .WORK, mkD 3 10 .WORK,
    mkD 3 11 .REST, mkD 3 12 .REST, mkD 3 13 .ORDERING, mkD 3 14 .WORK, mkD 3 15 .WORK,
    mkD 3 16 .WORK, mkD 3 17 .WORK, mkD 3 18 .REST, mkD 3 19 .REST, mkD 3 20 .ORDERING,
    mkD 3 21 .WORK, mkD 3 22 .WORK, mkD 3 23 .WORK, mkD 3 24 .WORK, mkD 3 25 .WORK,
    mkD 3 26 .WORK, mkD 3 27 .REST, mkD 3 28 .REST, mkD 3 29 .ORDERING, mkD 3 30 .WORK,
    mkD 3 31 .WORK, mkD 4 1 .WORK, mkD 4 2 .WORK, mkD 4 3 .WORK, mkD 4 4 .WORK, mkD 4 5 .REST,
    mkD 4 6 .REST, mkD 4 7 .ORDERING, mkD 4 8 .WORK, mkD 4 9 .WORK, mkD 4 10 .REST,
    mkD 4 11 .REST, mkD 4 12 .ORDERING, mkD 4 13 .WORK, mkD 4 14 .WORK],
  [15, 14, 13, 12, 11, 10, 9, 8, 7, 6, 5, 4, 3, 2, 1], [4, 3, 2, 1]⟩

/-- Builder state of the witness run before iteration 16. -/
def bst16 : ScheduleState := ⟨⟨2025, 4, 17⟩,
  [mkD 1 1 .WORK, mkD 1 2 .WORK, mkD 1 3 .WORK, mkD 1 4 .REST, mkD 1 5 .REST, mkD 1 6 .ORDERING,
    mkD 1 8 .WORK, mkD 1 9 .WORK, mkD 1 10 .REST, mkD 1 11 .REST, mkD 1 12 .ORDERING,
    mkD 1 13 .WORK, mkD 1 14 .WORK, mkD 1 15 .REST, mkD 1 16 .REST, mkD 1 17 .ORDERING,
    mkD 1 18 .WORK, mkD 1 19 .WORK, mkD 1 20 .WORK, mkD 1 21 .WORK, mkD 1 22 .WORK,
    mkD 1 23 .REST, mkD 1 24 .REST, mkD 1 25 .ORDERING, mkD 1 26 .WORK, mkD 1 27 .WORK,
    mkD 1 28 .WORK, mkD 1 29 .WORK, mkD 1 30 .WORK, mkD 1 31 .WORK, mkD 2 1 .REST, mkD 2 2 .REST,
    mkD 2 3 .ORDERING, mkD 2 4 .WORK, mkD 2 5 .WORK, mkD 2 6 .REST, mkD 2 7 .REST,
    mkD 2 8 .ORDERING, mkD 2 9 .WORK, mkD 2 10 .WORK, mkD 2 11 .REST, mkD 2 12 .REST,
    mkD 2 13 .ORDERING, mkD 2 14 .WORK, mkD 2 15 .WORK, mkD 2 16 .WORK, mkD 2 17 .WORK,
    mkD 2 18 .WORK, mkD 2 19 .WORK, mkD 2 20 .REST, mkD 2 21 .REST, mkD 2 22 .ORDERING,
    mkD 2 23 .WORK, mkD 2 24 .WORK, mkD 2 25 .WORK, mkD 2 26 .WORK, mkD 2 27 .WORK,
    mkD 2 28 .WORK, mkD 3 1 .REST, mkD 3 2 .REST, mkD 3 3 .ORDERING, mkD 3 4 .WORK, mkD 3 5 .WORK,
    mkD 3 6 .REST, mkD 3 7 .REST, mkD 3 8 .ORDERING, mkD 3 9 .WORK, mkD 3 10 .WORK,
    mkD 3 11 .REST, mkD 3 12 .REST, mkD 3 13 .ORDERING, mkD 3 14 .WORK, mkD 3 15 .WORK,
    mkD 3 16 .WORK, mkD 3 17 .WORK, mkD 3 18 .REST, mkD 3 19 .REST, mkD 3 20 .ORDERING,
    mkD 3 21 .WORK, mkD 3 22 .WORK, mkD 3 23 .WORK, mkD 3 24 .WORK, mkD 3 25 .WORK,
    mkD 3 26 .WORK, mkD 3 27 .REST, mkD 3 28 .REST, mkD 3 29 .ORDERING, mkD 3 30 .WORK,
    mkD 3 31 .WORK, mkD 4 1 .WORK, mkD 4 2 .WORK, mkD 4 3 .WORK, mkD 4 4 .WORK, mkD 4 5 .REST,
    mkD 4 6 .REST, mkD 4 7 .ORDERING, mkD 4 8 .WORK, mkD 4 9 .WORK, mkD 4 10 .REST,
    mkD 4 11 .REST, mkD 4 12 .ORDERING, mkD 4 13 .WORK, mkD 4 14 .WORK, mkD 4 15 .REST,
    mkD 4 16 .REST],
  [16, 15, 14, 13, 12, 11, 10, 9, 8, 7, 6, 5, 4, 3, 2, 1], [4, 3, 2, 1]⟩

/-- Builder state of iteration 16 after its work block. -/
def bmid16 : ScheduleState := ⟨⟨2025, 4, 24⟩,
  [mkD 1 1 .WORK, mkD 1 2 .WORK, mkD 1 3 .WORK, mkD 1 4 .REST, mkD 1 5 .REST, mkD 1 6 .ORDERING,
    mkD 1 8 .WORK, mkD 1 9 .WORK, mkD 1 10 .REST, mkD 1 11 .REST, mkD 1 12 .ORDERING,
    mkD 1 13 .WORK, mkD 1 14 .WORK, mkD 1 15 .REST, mkD 1 16 .REST, mkD 1 17 .ORDERING,
    mkD 1 18 .WORK, mkD 1 19 .WORK, mkD 1 20 .WORK, mkD 1 21 .WORK, mkD 1 22 .WORK,
    mkD 1 23 .REST, mkD 1 24 .REST, mkD 1 25 .ORDERING, mkD 1 26 .WORK, mkD 1 27 .WORK,
    mkD 1 28 .WORK, mkD 1 29 .WORK, mkD 1 30 .WORK, mkD 1 31 .WORK, mkD 2 1 .REST, mkD 2 2 .REST,
    mkD 2 3 .ORDERING, mkD 2 4 .WORK, mkD 2 5 .WORK, mkD 2 6 .REST, mkD 2 7 .REST,
    mkD 2 8 .ORDERING, mkD 2 9 .WORK, mkD 2 10 .WORK, mkD 2 11 .REST, mkD 2 12 .REST,
    mkD 2 13 .ORDERING, mkD 2 14 .WORK, mkD 2 15 .WORK, mkD 2 16 .WORK, mkD 2 17 .WORK,
    mkD 2 18 .WORK, mkD 2 19 .WORK, mkD 2 20 .REST, mkD 2 21 .REST, mkD 2 22 .ORDERING,
    mkD 2 23 .WORK, mkD 2 24 .WORK, mkD 2 25 .WORK, mkD 2 26 .WORK, mkD 2 27 .WORK,
    mkD 2 28 .WORK, mkD 3 1 .REST, mkD 3 2 .REST, mkD 3 3 .ORDERING, mkD 3 4 .WORK, mkD 3 5 .WORK,
    mkD 3 6 .REST, mkD 3 7 .REST, mkD 3 8 .ORDERING, mkD 3 9 .WORK, mkD 3 10 .WORK,
    mkD 3 11 .REST, mkD 3 12 .REST, mkD 3 13 .ORDERING, mkD 3 14 .WORK, mkD 3 15 .WORK,
    mkD 3 16 .WORK, mkD 3 17 .WORK, mkD 3 18 .REST, mkD 3 19 .REST, mkD 3 20 .ORDERING,
    mkD 3 21 .WORK, mkD 3 22 .WORK, mkD 3 23 .WORK, mkD 3 24 .WORK, mkD 3 25 .WORK,
    mkD 3 26 .WORK, mkD 3 27 .REST, mkD 3 28 .REST, mkD 3 29 .ORDERING, mkD 3 30 .WORK,
    mkD 3 31 .WORK, mkD 4 1 .WORK, mkD 4 2 .WORK, mkD 4 3 .WORK, mkD 4 4 .WORK, mkD 4 5 .REST,
    mkD 4 6 .REST, mkD 4 7 .ORDERING, mkD 4 8 .WORK, mkD 4 9 .WORK, mkD 4 10 .REST,
    mkD 4 11 .REST, mkD 4 12 .ORDERING, mkD 4 13 .WORK, mkD 4 14 .WORK, mkD 4 15 .REST,
    mkD 4 16 .REST, mkD 4 17 .ORDERING, mkD 4 18 .WORK, mkD 4 19 .WORK, mkD 4 20 .WORK,
    mkD 4 21 .WORK, mkD 4 22 .WORK, mkD 4 23 .WORK],
  [16, 15, 14, 13, 12, 11, 10, 9, 8, 7, 6, 5, 4, 3, 2, 1], [4, 3, 2, 1]⟩

/-- Builder state of the witness run before iteration 17. -/
def bst17 : ScheduleState := ⟨⟨2025, 4, 26⟩,
  [mkD 1 1 .WORK, mkD 1 2 .WORK, mkD 1 3 .WORK, mkD 1 4 .REST, mkD 1 5 .REST, mkD 1 6 .ORDERING,
    mkD 1 8 .WORK, mkD 1 9 .WORK, mkD 1 10 .REST, mkD 1 11 .REST, mkD 1 12 .ORDERING,
    mkD 1 13 .WORK, mkD 1 14 .WORK, mkD 1 15 .REST, mkD 1 16 .REST, mkD 1 17 .ORDERING,
    mkD 1 18 .WORK, mkD 1 19 .WORK, mkD 1 20 .WORK, mkD 1 21 .WORK, mkD 1 22 .WORK,
    mkD 1 23 .REST, mkD 1 24 .REST, mkD 1 25 .ORDERING, mkD 1 26 .WORK, mkD 1 27 .WORK,
    mkD 1 28 .WORK, mkD 1 29 .WORK, mkD 1 30 .WORK, mkD 1 31 .WORK, mkD 2 1 .REST, mkD 2 2 .REST,
    mkD 2 3 .ORDERING, mkD 2 4 .WORK, mkD 2 5 .WORK, mkD 2 6 .REST, mkD 2 7 .REST,
    mkD 2 8 .ORDERING, mkD 2 9 .WORK, mkD 2 10 .WORK, mkD 2 11 .REST, mkD 2 12 .REST,
    mkD 2 13 .ORDERING, mkD 2 14 .WORK, mkD 2 15 .WORK, mkD 2 16 .WORK, mkD 2 17 .WORK,
    mkD 2 18 .WORK, mkD 2 19 .WORK, mkD 2 20 .REST, mkD 2 21 .REST, mkD 2 22 .ORDERING,
    mkD 2 23 .WORK, mkD 2 24 .WORK, mkD 2 25 .WORK, mkD 2 26 .WORK, mkD 2 27 .WORK,
    mkD 2 28 .WORK, mkD 3 1 .REST, mkD 3 2 .REST, mkD 3 3 .ORDERING, mkD 3 4 .WORK, mkD 3 5 .WORK,
    mkD 3 6 .REST, mkD 3 7 .REST, mkD 3 8 .ORDERING, mkD 3 9 .WORK, mkD 3 10 .WORK,
    mkD 3 11 .REST, mkD 3 12 .REST, mkD 3 13 .ORDERING, mkD 3 14 .WORK, mkD 3 15 .WORK,
    mkD 3 16 .WORK, mkD 3 17 .WORK, mkD 3 18 .REST, mkD 3 19 .REST, mkD 3 20 .ORDERING,
    mkD 3 21 .WORK, mkD 3 22 .WORK, mkD 3 23 .WORK, mkD 3 24 .WORK, mkD 3 25 .WORK,
    mkD 3 26 .WORK, mkD 3 27 .REST, mkD 3 28 .REST, mkD 3 29 .ORDERING, mkD 3 30 .WORK,
    mkD 3 31 .WORK, mkD 4 1 .WORK, mkD 4 2 .WORK, mkD 4 3 .WORK, mkD 4 4 .WORK, mkD 4 5 .REST,
    mkD 4 6 .REST, mkD 4 7 .ORDERING, mkD 4 8 .WORK, mkD 4 9 .WORK, mkD 4 10 .REST,
    mkD 4 11 .REST, mkD 4 12 .ORDERING, mkD 4 13 .WORK, mkD 4 14 .WORK, mkD 4 15 .REST,
    mkD 4 16 .REST, mkD 4 17 .ORDERING, mkD 4 18 .WORK, mkD 4 19 .WORK, mkD 4 20 .WORK,
    mkD 4 21 .WORK, mkD 4 22 .WORK, mkD 4 23 .WORK, mkD 4 24 .REST, mkD 4 25 .REST],
  [17, 16, 15, 14, 13, 12, 11, 10, 9, 8, 7, 6, 5, 4, 3, 2, 1], [4, 3, 2, 1]⟩

/-- Builder state of iteration 17 after its work block. -/
def bmid17 : ScheduleState := ⟨⟨2025, 5, 3⟩,
  [mkD 1 1 .WORK, mkD 1 2 .WORK, mkD 1 3 .WORK, mkD 1 4 .REST, mkD 1 5 .REST, mkD 1 6 .ORDERING,
    mkD 1 8 .WORK, mkD 1 9 .WORK, mkD 1 10 .REST, mkD 1 11 .REST, mkD 1 12 .ORDERING,
    mkD 1 13 .WORK, mkD 1 14 .WORK, mkD 1 15 .REST, mkD 1 16 .REST, mkD 1 17 .ORDERING,
    mkD 1 18 .WORK, mkD 1 19 .WORK, mkD 1 20 .WORK, mkD 1 21 .WORK, mkD 1 22 .WORK,
    mkD 1 23 .REST, mkD 1 24 .REST, mkD 1 25 .ORDERING, mkD 1 26 .WORK, mkD 1 27 .WORK,
    mkD 1 28 .WORK, mkD 1 29 .WORK, mkD 1 30 .WORK, mkD 1 31 .WORK, mkD 2 1 .REST, mkD 2 2 .REST,
    mkD 2 3 .ORDERING, mkD 2 4 .WORK, mkD 2 5 .WORK, mkD 2 6 .REST, mkD 2 7 .REST,
    mkD 2 8 .ORDERING, mkD 2 9 .WORK, mkD 2 10 .WORK, mkD 2 11 .REST, mkD 2 12 .REST,
    mkD 2 13 .ORDERING, mkD 2 14 .WORK, mkD 2 15 .WORK, mkD 2 16 .WORK, mkD 2 17 .WORK,
    mkD 2 18 .WORK, mkD 2 19 .WORK, mkD 2 20 .REST, mkD 2 21 .REST, mkD 2 22 .ORDERING,
    mkD 2 23 .WORK, mkD 2 24 .WORK, mkD 2 25 .WORK, mkD 2 26 .WORK, mkD 2 27 .WORK,
    mkD 2 28 .WORK, mkD 3 1 .REST, mkD 3 2 .REST, mkD 3 3 .ORDERING, mkD 3 4 .WORK, mkD 3 5 .WORK,
    mkD 3 6 .REST, mkD 3 7 .REST, mkD 3 8 .ORDERING, mkD 3 9 .WORK, mkD 3 10 .WORK,
    mkD 3 11 .REST, mkD 3 12 .REST, mkD 3 13 .ORDERING, mkD 3 14 .WORK, mkD 3 15 .WORK,
    mkD 3 16 .WORK, mkD 3 17 .WORK, mkD 3 18 .REST, mkD 3 19 .REST, mkD 3 20 .ORDERING,
    mkD 3 21 .WORK, mkD 3 22 .WORK, mkD 3 23 .WORK, mkD 3 24 .WORK, mkD 3 25 .WORK,
    mkD 3 26 .WORK, mkD 3 27 .REST, mkD 3 28 .REST, mkD 3 29 .ORDERING, mkD 3 30 .WORK,
    mkD 3 31 .WORK, mkD 4 1 .WORK, mkD 4 2 .WORK, mkD 4 3 .WORK, mkD 4 4 .WORK, mkD 4 5 .REST,
    mkD 4 6 .REST, mkD 4 7 .ORDERING, mkD 4 8 .WORK, mkD 4 9 .WORK, mkD 4 10 .REST,
    mkD 4 11 .REST, mkD 4 12 .ORDERING, mkD 4 13 .WORK, mkD 4 14 .WORK, mkD 4 15 .REST,
    mkD 4 16 .REST, mkD 4 17 .ORDERING, mkD 4 18 .WORK, mkD 4 19 .WORK, mkD 4 20 .WORK,
    mkD 4 21 .WORK, mkD 4 22 .WORK, mkD 4 23 .WORK, mkD 4 24 .REST, mkD 4 25 .REST,
    mkD 4 26 .ORDERING, mkD 4 27 .WORK, mkD 4 28 .WORK, mkD 4 29 .WORK, mkD 4 30 .WORK,
    mkD 5 1 .WORK, mkD 5 2 .WORK],
  [17, 16, 15, 14, 13, 12, 11, 10, 9, 8, 7, 6, 5, 4, 3, 2, 1], [4, 3, 2, 1]⟩

/-- Builder state of the witness run before iteration 18. -/
def bst18 : ScheduleState := ⟨⟨2025, 5, 5⟩,
  [mkD 1 1 .WORK, mkD 1 2 .WORK, mkD 1 3 .WORK, mkD 1 4 .REST, mkD 1 5 .REST, mkD 1 6 .ORDERING,
    mkD 1 8 .WORK, mkD 1 9 .WORK, mkD 1 10 .REST, mkD 1 11 .REST, mkD 1 12 .ORDERING,
    mkD 1 13 .WORK, mkD 1 14 .WORK, mkD 1 15 .REST, mkD 1 16 .REST, mkD 1 17 .ORDERING,
    mkD 1 18 .WORK, mkD 1 19 .WORK, mkD 1 20 .WORK, mkD 1 21 .WORK, mkD 1 22 .WORK,
    mkD 1 23 .REST, mkD 1 24 .REST, mkD 1 25 .ORDERING, mkD 1 26 .WORK, mkD 1 27 .WORK,
    mkD 1 28 .WORK, mkD 1 29 .WORK, mkD 1 30 .WORK, mkD 1 31 .WORK, mkD 2 1 .REST, mkD 2 2 .REST,
    mkD 2 3 .ORDERING, mkD 2 4 .WORK, mkD 2 5 .WORK, mkD 2 6 .REST, mkD 2 7 .REST,
    mkD 2 8 .ORDERING, mkD 2 9 .WORK, mkD 2 10 .WORK, mkD 2 11 .REST, mkD 2 12 .REST,
    mkD 2 13 .ORDERING, mkD 2 14 .WORK, mkD 2 15 .WORK, mkD 2 16 .WORK, mkD 2 17 .WORK,
    mkD 2 18 .WORK, mkD 2 19 .WORK, mkD 2 20 .REST, mkD 2 21 .REST, mkD 2 22 .ORDERING,
    mkD 2 23 .WORK, mkD 2 24 .WORK, mkD 2 25 .WORK, mkD 2 26 .WORK, mkD 2 27 .WORK,
    mkD 2 28 .WORK, mkD 3 1 .REST, mkD 3 2 .REST, mkD 3 3 .ORDERING, mkD 3 4 .WORK, mkD 3 5 .WORK,
    mkD 3 6 .REST, mkD 3 7 .REST, mkD 3 8 .ORDERING, mkD 3 9 .WORK, mkD 3 10 .WORK,
    mkD 3 11 .REST, mkD 3 12 .REST, mkD 3 13 .ORDERING, mkD 3 14 .WORK, mkD 3 15 .WORK,
    mkD 3 16 .WORK, mkD 3 17 .WORK, mkD 3 18 .REST, mkD 3 19 .REST, mkD 3 20 .ORDERING,
    mkD 3 21 .WORK, mkD 3 22 .WORK, mkD 3 23 .WORK, mkD 3 24 .WORK, mkD 3 25 .WORK,
    mkD 3 26 .WORK, mkD 3 27 .REST, mkD 3 28 .REST, mkD 3 29 .ORDERING, mkD 3 30 .WORK,
    mkD 3 31 .WORK, mkD 4 1 .WORK, mkD 4 2 .WORK, mkD 4 3 .WORK, mkD 4 4 .WORK, mkD 4 5 .REST,
    mkD 4 6 .REST, mkD 4 7 .ORDERING, mkD 4 8 .WORK, mkD 4 9 .WORK, mkD 4 10 .REST,
    mkD 4 11 .REST, mkD 4 12 .ORDERING, mkD 4 13 .WORK, mkD 4 14 .WORK, mkD 4 15 .REST,
    mkD 4 16 .REST, mkD 4 17 .ORDERING, mkD 4 18 .WORK, mkD 4 19 .WORK, mkD 4 20 .WORK,
    mkD 4 21 .WORK, mkD 4 22 .WORK, mkD 4 23 .WORK, mkD 4 24 .REST, mkD 4 25 .REST,
    mkD 4 26 .ORDERING, mkD 4 27 .WORK, mkD 4 28 .WORK, mkD 4 29 .WORK, mkD 4 30 .WORK,
    mkD 5 1 .WORK, mkD 5 2 .WORK, mkD 5 3 .REST, mkD 5 4 .REST],
  [18, 17, 16, 15, 14, 13, 12, 11, 10, 9, 8, 7, 6, 5, 4, 3, 2, 1], [5, 4, 3, 2, 1]⟩

/-- Builder state of iteration 18 after its work block. -/
def bmid18 : ScheduleState := ⟨⟨2025, 5, 8⟩,
  [mkD 1 1 .WORK, mkD 1 2 .WORK, mkD 1 3 .WORK, mkD 1 4 .REST, mkD 1 5 .REST, mkD 1 6 .ORDERING,
    mkD 1 8 .WORK, mkD 1 9 .WORK, mkD 1 10 .REST, mkD 1 11 .REST, mkD 1 12 .ORDERING,
    mkD 1 13 .WORK, mkD 1 14 .WORK, mkD 1 15 .REST, mkD 1 16 .REST, mkD 1 17 .ORDERING,
    mkD 1 18 .WORK, mkD 1 19 .WORK, mkD 1 20 .WORK, mkD 1 21 .WORK, mkD 1 22 .WORK,
    mkD 1 23 .REST, mkD 1 24 .REST, mkD 1 25 .ORDERING, mkD 1 26 .WORK, mkD 1 27 .WORK,
    mkD 1 28 .WORK, mkD 1 29 .WORK, mkD 1 30 .WORK, mkD 1 31 .WORK, mkD 2 1 .REST, mkD 2 2 .REST,
    mkD 2 3 .ORDERING, mkD 2 4 .WORK, mkD 2 5 .WORK, mkD 2 6 .REST, mkD 2 7 .REST,
    mkD 2 8 .ORDERING, mkD 2 9 .WORK, mkD 2 10 .WORK, mkD 2 11 .REST, mkD 2 12 .REST,
    mkD 2 13 .ORDERING, mkD 2 14 .WORK, mkD 2 15 .WORK, mkD 2 16 .WORK, mkD 2 17 .WORK,
    mkD 2 18 .WORK, mkD 2 19 .WORK, mkD 2 20 .REST, mkD 2 21 .REST, mkD 2 22 .ORDERING,
    mkD 2 23 .WORK, mkD 2 24 .WORK, mkD 2 25 .WORK, mkD 2 26 .WORK, mkD 2 27 .WORK,
    mkD 2 28 .WORK, mkD 3 1 .REST, mkD 3 2 .REST, mkD 3 3 .ORDERING, mkD 3 4 .WORK, mkD 3 5 .WORK,
    mkD 3 6 .REST, mkD 3 7 .REST, mkD 3 8 .ORDERING, mkD 3 9 .WORK, mkD 3 10 .WORK,
    mkD 3 11 .REST, mkD 3 12 .REST, mkD 3 13 .ORDERING, mkD 3 14 .WORK, mkD 3 15 .WORK,
    mkD 3 16 .WORK, mkD 3 17 .WORK, mkD 3 18 .REST, mkD 3 19 .REST, mkD 3 20 .ORDERING,
    mkD 3 21 .WORK, mkD 3 22 .WORK, mkD 3 23 .WORK, mkD 3 24 .WORK, mkD 3 25 .WORK,
    mkD 3 26 .WORK, mkD 3 27 .REST, mkD 3 28 .REST, mkD 3 29 .ORDERING, mkD 3 30 .WORK,
    mkD 3 31 .WORK, mkD 4 1 .WORK, mkD 4 2 .WORK, mkD 4 3 .WORK, mkD 4 4 .WORK, mkD 4 5 .REST,
    mkD 4 6 .REST, mkD 4 7 .ORDERING, mkD 4 8 .WORK, mkD 4 9 .WORK, mkD 4 10 .REST,
    mkD 4 11 .REST, mkD 4 12 .ORDERING, mkD 4 13 .WORK, mkD 4 14 .WORK, mkD 4 15 .REST,
    mkD 4 16 .REST, mkD 4 17 .ORDERING, mkD 4 18 .WORK, mkD 4 19 .WORK, mkD 4 20 .WORK,
    mkD 4 21 .WORK, mkD 4 22 .WORK, mkD 4 23 .WORK, mkD 4 24 .REST, mkD 4 25 .REST,
    mkD 4 26 .ORDERING, mkD 4 27 .WORK, mkD 4 28 .WORK, mkD 4 29 .WORK, mkD 4 30 .WORK,
    mkD 5 1 .WORK, mkD 5 2 .WORK, mkD 5 3 .REST, mkD 5 4 .REST, mkD 5 5 .ORDERING, mkD 5 6 .WORK,
    mkD 5 7 .WORK],
  [18, 17, 16, 15, 14, 13, 12, 11, 10, 9, 8, 7, 6, 5, 4, 3, 2, 1], [5, 4, 3, 2, 1]⟩

/-- Builder state of the witness run before iteration 19. -/
def bst19 : ScheduleState := ⟨⟨2025, 5, 10⟩,
  [mkD 1 1 .WORK, mkD 1 2 .WORK, mkD 1 3 .WORK, mkD 1 4 .REST, mkD 1 5 .REST, mkD 1 6 .ORDERING,
    mkD 1 8 .WORK, mkD 1 9 .WORK, mkD 1 10 .REST, mkD 1 11 .REST, mkD 1 12 .ORDERING,
    mkD 1 13 .WORK, mkD 1 14 .WORK, mkD 1 15 .REST, mkD 1 16 .REST, mkD 1 17 .ORDERING,
    mkD 1 18 .WORK, mkD 1 19 .WORK, mkD 1 20 .WORK, mkD 1 21 .WORK, mkD 1 22 .WORK,
    mkD 1 23 .REST, mkD 1 24 .REST, mkD 1 25 .ORDERING, mkD 1 26 .WORK, mkD 1 27 .WORK,
    mkD 1 28 .WORK, mkD 1 29 .WORK, mkD 1 30 .WORK, mkD 1 31 .WORK, mkD 2 1 .REST, mkD 2 2 .REST,
    mkD 2 3 .ORDERING, mkD 2 4 .WORK, mkD 2 5 .WORK, mkD 2 6 .REST, mkD 2 7 .REST,
    mkD 2 8 .ORDERING, mkD 2 9 .WORK, mkD 2 10 .WORK, mkD 2 11 .REST, mkD 2 12 .REST,
    mkD 2 13 .ORDERING, mkD 2 14 .WORK, mkD 2 15 .WORK, mkD 2 16 .WORK, mkD 2 17 .WORK,
    mkD 2 18 .WORK, mkD 2 19 .WORK, mkD 2 20 .REST, mkD 2 21 .REST, mkD 2 22 .ORDERING,
    mkD 2 23 .WORK, mkD 2 24 .WORK, mkD 2 25 .WORK, mkD 2 26 .WORK, mkD 2 27 .WORK,
    mkD 2 28 .WORK, mkD 3 1 .REST, mkD 3 2 .REST, mkD 3 3 .ORDERING, mkD 3 4 .WORK, mkD 3 5 .WORK,
    mkD 3 6 .REST, mkD 3 7 .REST, mkD 3 8 .ORDERING, mkD 3 9 .WORK, mkD 3 10 .WORK,
    mkD 3 11 .REST, mkD 3 12 .REST, mkD 3 13 .ORDERING, mkD 3 14 .WORK, mkD 3 15 .WORK,
    mkD 3 16 .WORK, mkD 3 17 .WORK, mkD 3 18 .REST, mkD 3 19 .REST, mkD 3 20 .ORDERING,
    mkD 3 21 .WORK, mkD 3 22 .WORK, mkD 3 23 .WORK, mkD 3 24 .WORK, mkD 3 25 .WORK,
    mkD 3 26 .WORK, mkD 3 27 .REST, mkD 3 28 .REST, mkD 3 29 .ORDERING, mkD 3 30 .WORK,
    mkD 3 31 .WORK, mkD 4 1 .WORK, mkD 4 2 .WORK, mkD 4 3 .WORK, mkD 4 4 .WORK, mkD 4 5 .REST,
    mkD 4 6 .REST, mkD 4 7 .ORDERING, mkD 4 8 .WORK, mkD 4 9 .WORK, mkD 4 10 .REST,
    mkD 4 11 .REST, mkD 4 12 .ORDERING, mkD 4 13 .WORK, mkD 4 14 .WORK, mkD 4 15 .REST,
    mkD 4 16 .REST, mkD 4 17 .ORDERING, mkD 4 18 .WORK, mkD 4 19 .WORK, mkD 4 20 .WORK,
    mkD 4 21 .WORK, mkD 4 22 .WORK, mkD 4 23 .WORK, mkD 4 24 .REST, mkD 4 25 .REST,
    mkD 4 26 .ORDERING, mkD 4 27 .WORK, mkD 4 28 .WORK, mkD 4 29 .WORK, mkD 4 30 .WORK,
    mkD 5 1 .WORK, mkD 5 2 .WORK, mkD 5 3 .REST, mkD 5 4 .REST, mkD 5 5 .ORDERING, mkD 5 6 .WORK,
    mkD 5 7 .WORK, mkD 5 8 .REST, mkD 5 9 .REST],
  [19, 18, 17, 16, 15, 14, 13, 12, 11, 10, 9, 8, 7, 6, 5, 4, 3, 2, 1], [5, 4, 3, 2, 1]⟩

/-- Builder state of iteration 19 after its work block. -/
def bmid19 : ScheduleState := ⟨⟨2025, 5, 13⟩,
  [mkD 1 1 .WORK, mkD 1 2 .WORK, mkD 1 3 .WORK, mkD 1 4 .REST, mkD 1 5 .REST, mkD 1 6 .ORDERING,
    mkD 1 8 .WORK, mkD 1 9 .WORK, mkD 1 10 .REST, mkD 1 11 .REST, mkD 1 12 .ORDERING,
    mkD 1 13 .WORK, mkD 1 14 .WORK, mkD 1 15 .REST, mkD 1 16 .REST, mkD 1 17 .ORDERING,
    mkD 1 18 .WORK, mkD 1 19 .WORK, mkD 1 20 .WORK, mkD 1 21 .WORK, mkD 1 22 .WORK,
    mkD 1 23 .REST, mkD 1 24 .REST, mkD 1 25 .ORDERING, mkD 1 26 .WORK, mkD 1 27 .WORK,
    mkD 1 28 .WORK, mkD 1 29 .WORK, mkD 1 30 .WORK, mkD 1 31 .WORK, mkD 2 1 .REST, mkD 2 2 .REST,
    mkD 2 3 .ORDERING, mkD 2 4 .WORK, mkD 2 5 .WORK, mkD 2 6 .REST, mkD 2 7 .REST,
    mkD 2 8 .ORDERING, mkD 2 9 .WORK, mkD 2 10 .WORK, mkD 2 11 .REST, mkD 2 12 .REST,
    mkD 2 13 .ORDERING, mkD 2 14 .WORK, mkD 2 15 .WORK, mkD 2 16 .WORK, mkD 2 17 .WORK,
    mkD 2 18 .WORK, mkD 2 19 .WORK, mkD 2 20 .REST, mkD 2 21 .REST, mkD 2 22 .ORDERING,
    mkD 2 23 .WORK, mkD 2 24 .WORK, mkD 2 25 .WORK, mkD 2 26 .WORK, mkD 2 27 .WORK,
    mkD 2 28 .WORK, mkD 3 1 .REST, mkD 3 2 .REST, mkD 3 3 .ORDERING, mkD 3 4 .WORK, mkD 3 5 .WORK,
    mkD 3 6 .REST, mkD 3 7 .REST, mkD 3 8 .ORDERING, mkD 3 9 .WORK, mkD 3 10 .WORK,
    mkD 3 11 .REST, mkD 3 12 .REST, mkD 3 13 .ORDERING, mkD 3 14 .WORK, mkD 3 15 .WORK,
    mkD 3 16 .WORK, mkD 3 17 .WORK, mkD 3 18 .REST, mkD 3 19 .REST, mkD 3 20 .ORDERING,
    mkD 3 21 .WORK, mkD 3 22 .WORK, mkD 3 23 .WORK, mkD 3 24 .WORK, mkD 3 25 .WORK,
    mkD 3 26 .WORK, mkD 3 27 .REST, mkD 3 28 .REST, mkD 3 29 .ORDERING, mkD 3 30 .WORK,
    mkD 3 31 .WORK, mkD 4 1 .WORK, mkD 4 2 .WORK, mkD 4 3 .WORK, mkD 4 4 .WORK, mkD 4 5 .REST,
    mkD 4 6 .REST, mkD 4 7 .ORDERING, mkD 4 8 .WORK, mkD 4 9 .WORK, mkD 4 10 .REST,
    mkD 4 11 .REST, mkD 4 12 .ORDERING, mkD 4 13 .WORK, mkD 4 14 .WORK, mkD 4 15 .REST,
    mkD 4 16 .REST, mkD 4 17 .ORDERING, mkD 4 18 .WORK, mkD 4 19 .WORK, mkD 4 20 .WORK,
    mkD 4 21 .WORK, mkD 4 22 .WORK, mkD 4 23 .WORK, mkD 4 24 .REST, mkD 4 25 .REST,
    mkD 4 26 .ORDERING, mkD 4 27 .WORK, mkD 4 28 .WORK, mkD 4 29 .WORK, mkD 4 30 .WORK,
    mkD 5 1 .WORK, mkD 5 2 .WORK, mkD 5 3 .REST, mkD 5 4 .REST, mkD 5 5 .ORDERING, mkD 5 6 .WORK,
    mkD 5 7 .WORK, mkD 5 8 .REST, mkD 5 9 .REST, mkD 5 10 .ORDERING, mkD 5 11 .WORK,
    mkD 5 12 .WORK],
  [19, 18, 17, 16, 15, 14, 13, 12, 11, 10, 9, 8, 7, 6, 5, 4, 3, 2, 1], [5, 4, 3, 2, 1]⟩

/-- Builder state of the witness run before iteration 20. -/
def bst20 : ScheduleState := ⟨⟨2025, 5, 15⟩,
  [mkD 1 1 .WORK, mkD 1 2 .WORK, mkD 1 3 .WORK, mkD 1 4 .REST, mkD 1 5 .REST, mkD 1 6 .ORDERING,
    mkD 1 8 .WORK, mkD 1 9 .WORK, mkD 1 10 .REST, mkD 1 11 .REST, mkD 1 12 .ORDERING,
    mkD 1 13 .WORK, mkD 1 14 .WORK, mkD 1 15 .REST, mkD 1 16 .REST, mkD 1 17 .ORDERING,
    mkD 1 18 .WORK, mkD 1 19 .WORK, mkD 1 20 .WORK, mkD 1 21 .WORK, mkD 1 22 .WORK,
    mkD 1 23 .REST, mkD 1 24 .REST, mkD 1 25 .ORDERING, mkD 1 26 .WORK, mkD 1 27 .WORK,
    mkD 1 28 .WORK, mkD 1 29 .WORK, mkD 1 30 .WORK, mkD 1 31 .WORK, mkD 2 1 .REST, mkD 2 2 .REST,
    mkD 2 3 .ORDERING, mkD 2 4 .WORK, mkD 2 5 .WORK, mkD 2 6 .REST, mkD 2 7 .REST,
    mkD 2 8 .ORDERING, mkD 2 9 .WORK, mkD 2 10 .WORK, mkD 2 11 .REST, mkD 2 12 .REST,
    mkD 2 13 .ORDERING, mkD 2 14 .WORK, mkD 2 15 .WORK, mkD 2 16 .WORK, mkD 2 17 .WORK,
    mkD 2 18 .WORK, mkD 2 19 .WORK, mkD 2 20 .REST, mkD 2 21 .REST, mkD 2 22 .ORDERING,
    mkD 2 23 .WORK, mkD 2 24 .WORK, mkD 2 25 .WORK, mkD 2 26 .WORK, mkD 2 27 .WORK,
    mkD 2 28 .WORK, mkD 3 1 .REST, mkD 3 2 .REST, mkD 3 3 .ORDERING, mkD 3 4 .WORK, mkD 3 5 .WORK,
    mkD 3 6 .REST, mkD 3 7 .REST, mkD 3 8 .ORDERING, mkD 3 9 .WORK, mkD 3 10 .WORK,
    mkD 3 11 .REST, mkD 3 12 .REST, mkD 3 13 .ORDERING, mkD 3 14 .WORK, mkD 3 15 .WORK,
    mkD 3 16 .WORK, mkD 3 17 .WORK, mkD 3 18 .REST, mkD 3 19 .REST, mkD 3 20 .ORDERING,
    mkD 3 21 .WORK, mkD 3 22 .WORK, mkD 3 23 .WORK, mkD 3 24 .WORK, mkD 3 25 .WORK,
    mkD 3 26 .WORK, mkD 3 27 .REST, mkD 3 28 .REST, mkD 3 29 .ORDERING, mkD 3 30 .WORK,
    mkD 3 31 .WORK, mkD 4 1 .WORK, mkD 4 2 .WORK, mkD 4 3 .WORK, mkD 4 4 .WORK, mkD 4 5 .REST,
    mkD 4 6 .REST, mkD 4 7 .ORDERING, mkD 4 8 .WORK, mkD 4 9 .WORK, mkD 4 10 .REST,
    mkD 4 11 .REST, mkD 4 12 .ORDERING, mkD 4 13 .WORK, mkD 4 14 .WORK, mkD 4 15 .REST,
    mkD 4 16 .REST, mkD 4 17 .ORDERING, mkD 4 18 .WORK, mkD 4 19 .WORK, mkD 4 20 .WORK,
    mkD 4 21 .WORK, mkD 4 22 .WORK, mkD 4 23 .WORK, mkD 4 24 .REST, mkD 4 25 .REST,
    mkD 4 26 .ORDERING, mkD 4 27 .WORK, mkD 4 28 .WORK, mkD 4 29 .WORK, mkD 4 30 .WORK,
    mkD 5 1 .WORK, mkD 5 2 .WORK, mkD 5 3 .REST, mkD 5 4 .REST, mkD 5 5 .ORDERING, mkD 5 6 .WORK,
    mkD 5 7 .WORK, mkD 5 8 .REST, mkD 5 9 .REST, mkD 5 10 .ORDERING, mkD 5 11 .WORK,
    mkD 5 12 .WORK, mkD 5 13 .REST, mkD 5 14 .REST],
  [20, 19, 18, 17, 16, 15, 14, 13, 12, 11, 10, 9, 8, 7, 6, 5, 4, 3, 2, 1], [5, 4, 3, 2, 1]⟩

/-- Builder state of iteration 20 after its work block. -/
def bmid20 : ScheduleState := ⟨⟨2025, 5, 20⟩,
  [mkD 1 1 .WORK, mkD 1 2 .WORK, mkD 1 3 .WORK, mkD 1 4 .REST, mkD 1 5 .REST, mkD 1 6 .ORDERING,
    mkD 1 8 .WORK, mkD 1 9 .WORK, mkD 1 10 .REST, mkD 1 11 .REST, mkD 1 12 .ORDERING,
    mkD 1 13 .WORK, mkD 1 14 .WORK, mkD 1 15 .REST, mkD 1 16 .REST, mkD 1 17 .ORDERING,
    mkD 1 18 .WORK, mkD 1 19 .WORK, mkD 1 20 .WORK, mkD 1 21 .WORK, mkD 1 22 .WORK,
    mkD 1 23 .REST, mkD 1 24 .REST, mkD 1 25 .ORDERING, mkD 1 26 .WORK, mkD 1 27 .WORK,
    mkD 1 28 .WORK, mkD 1 29 .WORK, mkD 1 30 .WORK, mkD 1 31 .WORK, mkD 2 1 .REST, mkD 2 2 .REST,
    mkD 2 3 .ORDERING, mkD 2 4 .WORK, mkD 2 5 .WORK, mkD 2 6 .REST, mkD 2 7 .REST,
    mkD 2 8 .ORDERING, mkD 2 9 .WORK, mkD 2 10 .WORK, mkD 2 11 .REST, mkD 2 12 .REST,
    mkD 2 13 .ORDERING, mkD 2 14 .WORK, mkD 2 15 .WORK, mkD 2 16 .WORK, mkD 2 17 .WORK,
    mkD 2 18 .WORK, mkD 2 19 .WORK, mkD 2 20 .REST, mkD 2 21 .REST, mkD 2 22 .ORDERING,
    mkD 2 23 .WORK, mkD 2 24 .WORK, mkD 2 25 .WORK, mkD 2 26 .WORK, mkD 2 27 .WORK,
    mkD 2 28 .WORK, mkD 3 1 .REST, mkD 3 2 .REST, mkD 3 3 .ORDERING, mkD 3 4 .WORK, mkD 3 5 .WORK,
    mkD 3 6 .REST, mkD 3 7 .REST, mkD 3 8 .ORDERING, mkD 3 9 .WORK, mkD 3 10 .WORK,
    mkD 3 11 .REST, mkD 3 12 .REST, mkD 3 13 .ORDERING, mkD 3 14 .WORK, mkD 3 15 .WORK,
    mkD 3 16 .WORK, mkD 3 17 .WORK, mkD 3 18 .REST, mkD 3 19 .REST, mkD 3 20 .ORDERING,
    mkD 3 21 .WORK, mkD 3 22 .WORK, mkD 3 23 .WORK, mkD 3 24 .WORK, mkD 3 25 .WORK,
    mkD 3 26 .WORK, mkD 3 27 .REST, mkD 3 28 .REST, mkD 3 29 .ORDERING, mkD 3 30 .WORK,
    mkD 3 31 .WORK, mkD 4 1 .WORK, mkD 4 2 .WORK, mkD 4 3 .WORK, mkD 4 4 .WORK, mkD 4 5 .REST,
    mkD 4 6 .REST, mkD 4 7 .ORDERING, mkD 4 8 .WORK, mkD 4 9 .WORK, mkD 4 10 .REST,
    mkD 4 11 .REST, mkD 4 12 .ORDERING, mkD 4 13 .WORK, mkD 4 14 .WORK, mkD 4 15 .REST,
    mkD 4 16 .REST, mkD 4 17 .ORDERING, mkD 4 18 .WORK, mkD 4 19 .WORK, mkD 4 20 .WORK,
    mkD 4 21 .WORK, mkD 4 22 .WORK, mkD 4 23 .WORK, mkD 4 24 .REST, mkD 4 25 .REST,
    mkD 4 26 .ORDERING, mkD 4 27 .WORK, mkD 4 28 .WORK, mkD 4 29 .WORK, mkD 4 30 .WORK,
    mkD 5 1 .WORK, mkD 5 2 .WORK, mkD 5 3 .REST, mkD 5 4 .REST, mkD 5 5 .ORDERING, mkD 5 6 .WORK,
    mkD 5 7 .WORK, mkD 5 8 .REST, mkD 5 9 .REST, mkD 5 10 .ORDERING, mkD 5 11 .WORK,
    mkD 5 12 .WORK, mkD 5 13 .REST, mkD 5 14 .REST, mkD 5 15 .ORDERING, mkD 5 16 .WORK,
    mkD 5 17 .WORK, mkD 5 18 .WORK, mkD 5 19 .WORK],
  [20, 19, 18, 17, 16, 15, 14, 13, 12, 11, 10, 9, 8, 7, 6, 5, 4, 3, 2, 1], [5, 4, 3, 2, 1]⟩

/-- Builder state of the witness run before iteration 21. -/
def bst21 : ScheduleState := ⟨⟨2025, 5, 22⟩,
  [mkD 1 1 .WORK, mkD 1 2 .WORK, mkD 1 3 .WORK, mkD 1 4 .REST, mkD 1 5 .REST, mkD 1 6 .ORDERING,
    mkD 1 8 .WORK, mkD 1 9 .WORK, mkD 1 10 .REST, mkD 1 11 .REST, mkD 1 12 .ORDERING,
    mkD 1 13 .WORK, mkD 1 14 .WORK, mkD 1 15 .REST, mkD 1 16 .REST, mkD 1 17 .ORDERING,
    mkD 1 18 .WORK, mkD 1 19 .WORK, mkD 1 20 .WORK, mkD 1 21 .WORK, mkD 1 22 .WORK,
    mkD 1 23 .REST, mkD 1 24 .REST, mkD 1 25 .ORDERING, mkD 1 26 .WORK, mkD 1 27 .WORK,
    mkD 1 28 .WORK, mkD 1 29 .WORK, mkD 1 30 .WORK, mkD 1 31 .WORK, mkD 2 1 .REST, mkD 2 2 .REST,
    mkD 2 3 .ORDERING, mkD 2 4 .WORK, mkD 2 5 .WORK, mkD 2 6 .REST, mkD 2 7 .REST,
    mkD 2 8 .ORDERING, mkD 2 9 .WORK, mkD 2 10 .WORK, mkD 2 11 .REST, mkD 2 12 .REST,
    mkD 2 13 .ORDERING, mkD 2 14 .WORK, mkD 2 15 .WORK, mkD 2 16 .WORK, mkD 2 17 .WORK,
    mkD 2 18 .WORK, mkD 2 19 .WORK, mkD 2 20 .REST, mkD 2 21 .REST, mkD 2 22 .ORDERING,
    mkD 2 23 .WORK, mkD 2 24 .WORK, mkD 2 25 .WORK, mkD 2 26 .WORK, mkD 2 27 .WORK,
    mkD 2 28 .WORK, mkD 3 1 .REST, mkD 3 2 .REST, mkD 3 3 .ORDERING, mkD 3 4 .WORK, mkD 3 5 .WORK,
    mkD 3 6 .REST, mkD 3 7 .REST, mkD 3 8 .ORDERING, mkD 3 9 .WORK, mkD 3 10 .WORK,
    mkD 3 11 .REST, mkD 3 12 .REST, mkD 3 13 .ORDERING, mkD 3 14 .WORK, mkD 3 15 .WORK,
    mkD 3 16 .WORK, mkD 3 17 .WORK, mkD 3 18 .REST, mkD 3 19 .REST, mkD 3 20 .ORDERING,
    mkD 3 21 .WORK, mkD 3 22 .WORK, mkD 3 23 .WORK, mkD 3 24 .WORK, mkD 3 25 .WORK,
    mkD 3 26 .WORK, mkD 3 27 .REST, mkD 3 28 .REST, mkD 3 29 .ORDERING, mkD 3 30 .WORK,
    mkD 3 31 .WORK, mkD 4 1 .WORK, mkD 4 2 .WORK, mkD 4 3 .WORK, mkD 4 4 .WORK, mkD 4 5 .REST,
    mkD 4 6 .REST, mkD 4 7 .ORDERING, mkD 4 8 .WORK, mkD 4 9 .WORK, mkD 4 10 .REST,
    mkD 4 11 .REST, mkD 4 12 .ORDERING, mkD 4 13 .WORK, mkD 4 14 .WORK, mkD 4 15 .REST,
    mkD 4 16 .REST, mkD 4 17 .ORDERING, mkD 4 18 .WORK, mkD 4 19 .WORK, mkD 4 20 .WORK,
    mkD 4 21 .WORK, mkD 4 22 .WORK, mkD 4 23 .WORK, mkD 4 24 .REST, mkD 4 25 .REST,
    mkD 4 26 .ORDERING, mkD 4 27 .WORK, mkD 4 28 .WORK, mkD 4 29 .WORK, mkD 4 30 .WORK,
    mkD 5 1 .WORK, mkD 5 2 .WORK, mkD 5 3 .REST, mkD 5 4 .REST, mkD 5 5 .ORDERING, mkD 5 6 .WORK,
    mkD 5 7 .WORK, mkD 5 8 .REST, mkD 5 9 .REST, mkD 5 10 .ORDERING, mkD 5 11 .WORK,
    mkD 5 12 .WORK, mkD 5 13 .REST, mkD 5 14 .REST, mkD 5 15 .ORDERING, mkD 5 16 .WORK,
    mkD 5 17 .WORK, mkD 5 18 .WORK, mkD 5 19 .WORK, mkD 5 20 .REST, mkD 5 21 .REST],
  [21, 20, 19, 18, 17, 16, 15, 14, 13, 12, 11, 10, 9, 8, 7, 6, 5, 4, 3, 2, 1], [5, 4, 3, 2, 1]⟩

/-- Builder state of iteration 21 after its work block. -/
def bmid21 : ScheduleState := ⟨⟨2025, 5, 29⟩,
  [mkD 1 1 .WORK, mkD 1 2 .WORK, mkD 1 3 .WORK, mkD 1 4 .REST, mkD 1 5 .REST, mkD 1 6 .ORDERING,
    mkD 1 8 .WORK, mkD 1 9 .WORK, mkD 1 10 .REST, mkD 1 11 .REST, mkD 1 12 .ORDERING,
    mkD 1 13 .WORK, mkD 1 14 .WORK, mkD 1 15 .REST, mkD 1 16 .REST, mkD 1 17 .ORDERING,
    mkD 1 18 .WORK, mkD 1 19 .WORK, mkD 1 20 .WORK, mkD 1 21 .WORK, mkD 1 22 .WORK,
    mkD 1 23 .REST, mkD 1 24 .REST, mkD 1 25 .ORDERING, mkD 1 26 .WORK, mkD 1 27 .WORK,
    mkD 1 28 .WORK, mkD 1 29 .WORK, mkD 1 30 .WORK, mkD 1 31 .WORK, mkD 2 1 .REST, mkD 2 2 .REST,
    mkD 2 3 .ORDERING, mkD 2 4 .WORK, mkD 2 5 .WORK, mkD 2 6 .REST, mkD 2 7 .REST,
    mkD 2 8 .ORDERING, mkD 2 9 .WORK, mkD 2 10 .WORK, mkD 2 11 .REST, mkD 2 12 .REST,
    mkD 2 13 .ORDERING, mkD 2 14 .WORK, mkD 2 15 .WORK, mkD 2 16 .WORK, mkD 2 17 .WORK,
    mkD 2 18 .WORK, mkD 2 19 .WORK, mkD 2 20 .REST, mkD 2 21 .REST, mkD 2 22 .ORDERING,
    mkD 2 23 .WORK, mkD 2 24 .WORK, mkD 2 25 .WORK, mkD 2 26 .WORK, mkD 2 27 .WORK,
    mkD 2 28 .WORK, mkD 3 1 .REST, mkD 3 2 .REST, mkD 3 3 .ORDERING, mkD 3 4 .WORK, mkD 3 5 .WORK,
    mkD 3 6 .REST, mkD 3 7 .REST, mkD 3 8 .ORDERING, mkD 3 9 .WORK, mkD 3 10 .WORK,
    mkD 3 11 .REST, mkD 3 12 .REST, mkD 3 13 .ORDERING, mkD 3 14 .WORK, mkD 3 15 .WORK,
    mkD 3 16 .WORK, mkD 3 17 .WORK, mkD 3 18 .REST, mkD 3 19 .REST, mkD 3 20 .ORDERING,
    mkD 3 21 .WORK, mkD 3 22 .WORK, mkD 3 23 .WORK, mkD 3 24 .WORK, mkD 3 25 .WORK,
    mkD 3 26 .WORK, mkD 3 27 .REST, mkD 3 28 .REST, mkD 3 29 .ORDERING, mkD 3 30 .WORK,
    mkD 3 31 .WORK, mkD 4 1 .WORK, mkD 4 2 .WORK, mkD 4 3 .WORK, mkD 4 4 .WORK, mkD 4 5 .REST,
    mkD 4 6 .REST, mkD 4 7 .ORDERING, mkD 4 8 .WORK, mkD 4 9 .WORK, mkD 4 10 .REST,
    mkD 4 11 .REST, mkD 4 12 .ORDERING, mkD 4 13 .WORK, mkD 4 14 .WORK, mkD 4 15 .REST,
    mkD 4 16 .REST, mkD 4 17 .ORDERING, mkD 4 18 .WORK, mkD 4 19 .WORK, mkD 4 20 .WORK,
    mkD 4 21 .WORK, mkD 4 22 .WORK, mkD 4 23 .WORK, mkD 4 24 .REST, mkD 4 25 .REST,
    mkD 4 26 .ORDERING, mkD 4 27 .WORK, mkD 4 28 .WORK, mkD 4 29 .WORK, mkD 4 30 .WORK,
    mkD 5 1 .WORK, mkD 5 2 .WORK, mkD 5 3 .REST, mkD 5 4 .REST, mkD 5 5 .ORDERING, mkD 5 6 .WORK,
    mkD 5 7 .WORK, mkD 5 8 .REST, mkD 5 9 .REST, mkD 5 10 .ORDERING, mkD 5 11 .WORK,
    mkD 5 12 .WORK, mkD 5 13 .REST, mkD 5 14 .REST, mkD 5 15 .ORDERING, mkD 5 16 .WORK,
    mkD 5 17 .WORK, mkD 5 18 .WORK, mkD 5 19 .WORK, mkD 5 20 .REST, mkD 5 21 .REST,
    mkD 5 22 .ORDERING, mkD 5 23 .WORK, mkD 5 24 .WORK, mkD 5 25 .WORK, mkD 5 26 .WORK,
    mkD 5 27 .WORK, mkD 5 28 .WORK],
  [21, 20, 19, 18, 17, 16, 15, 14, 13, 12, 11, 10, 9, 8, 7, 6, 5, 4, 3, 2, 1], [5, 4, 3, 2, 1]⟩

/-- Builder state of the witness run before iteration 22. -/
def bst22 : ScheduleState := ⟨⟨2025, 5, 31⟩,
  [mkD 1 1 .WORK, mkD 1 2 .WORK, mkD 1 3 .WORK, mkD 1 4 .REST, mkD 1 5 .REST, mkD 1 6 .ORDERING,
    mkD 1 8 .WORK, mkD 1 9 .WORK, mkD 1 10 .REST, mkD 1 11 .REST, mkD 1 12 .ORDERING,
    mkD 1 13 .WORK, mkD 1 14 .WORK, mkD 1 15 .REST, mkD 1 16 .REST, mkD 1 17 .ORDERING,
    mkD 1 18 .WORK, mkD 1 19 .WORK, mkD 1 20 .WORK, mkD 1 21 .WORK, mkD 1 22 .WORK,
    mkD 1 23 .REST, mkD 1 24 .REST, mkD 1 25 .ORDERING, mkD 1 26 .WORK, mkD 1 27 .WORK,
    mkD 1 28 .WORK, mkD 1 29 .WORK, mkD 1 30 .WORK, mkD 1 31 .WORK, mkD 2 1 .REST, mkD 2 2 .REST,
    mkD 2 3 .ORDERING, mkD 2 4 .WORK, mkD 2 5 .WORK, mkD 2 6 .REST, mkD 2 7 .REST,
    mkD 2 8 .ORDERING, mkD 2 9 .WORK, mkD 2 10 .WORK, mkD 2 11 .REST, mkD 2 12 .REST,
    mkD 2 13 .ORDERING, mkD 2 14 .WORK, mkD 2 15 .WORK, mkD 2 16 .WORK, mkD 2 17 .WORK,
    mkD 2 18 .WORK, mkD 2 19 .WORK, mkD 2 20 .REST, mkD 2 21 .REST, mkD 2 22 .ORDERING,
    mkD 2 23 .WORK, mkD 2 24 .WORK, mkD 2 25 .WORK, mkD 2 26 .WORK, mkD 2 27 .WORK,
    mkD 2 28 .WORK, mkD 3 1 .REST, mkD 3 2 .REST, mkD 3 3 .ORDERING, mkD 3 4 .WORK, mkD 3 5 .WORK,
    mkD 3 6 .REST, mkD 3 7 .REST, mkD 3 8 .ORDERING, mkD 3 9 .WORK, mkD 3 10 .WORK,
    mkD 3 11 .REST, mkD 3 12 .REST, mkD 3 13 .ORDERING, mkD 3 14 .WORK, mkD 3 15 .WORK,
    mkD 3 16 .WORK, mkD 3 17 .WORK, mkD 3 18 .REST, mkD 3 19 .REST, mkD 3 20 .ORDERING,
    mkD 3 21 .WORK, mkD 3 22 .WORK, mkD 3 23 .WORK, mkD 3 24 .WORK, mkD 3 25 .WORK,
    mkD 3 26 .WORK, mkD 3 27 .REST, mkD 3 28 .REST, mkD 3 29 .ORDERING, mkD 3 30 .WORK,
    mkD 3 31 .WORK, mkD 4 1 .WORK, mkD 4 2 .WORK, mkD 4 3 .WORK, mkD 4 4 .WORK, mkD 4 5 .REST,
    mkD 4 6 .REST, mkD 4 7 .ORDERING, mkD 4 8 .WORK, mkD 4 9 .WORK, mkD 4 10 .REST,
    mkD 4 11 .REST, mkD 4 12 .ORDERING, mkD 4 13 .WORK, mkD 4 14 .WORK, mkD 4 15 .REST,
    mkD 4 16 .REST, mkD 4 17 .ORDERING, mkD 4 18 .WORK, mkD 4 19 .WORK, mkD 4 20 .WORK,
    mkD 4 21 .WORK, mkD 4 22 .WORK, mkD 4 23 .WORK, mkD 4 24 .REST, mkD 4 25 .REST,
    mkD 4 26 .ORDERING, mkD 4 27 .WORK, mkD 4 28 .WORK, mkD 4 29 .WORK, mkD 4 30 .WORK,
    mkD 5 1 .WORK, mkD 5 2 .WORK, mkD 5 3 .REST, mkD 5 4 .REST, mkD 5 5 .ORDERING, mkD 5 6 .WORK,
    mkD 5 7 .WORK, mkD 5 8 .REST, mkD 5 9 .REST, mkD 5 10 .ORDERING, mkD 5 11 .WORK,
    mkD 5 12 .WORK, mkD 5 13 .REST, mkD 5 14 .REST, mkD 5 15 .ORDERING, mkD 5 16 .WORK,
    mkD 5 17 .WORK, mkD 5 18 .WORK, mkD 5 19 .WORK, mkD 5 20 .REST, mkD 5 21 .REST,
    mkD 5 22 .ORDERING, mkD 5 23 .WORK, mkD 5 24 .WORK, mkD 5 25 .WORK, mkD 5 26 .WORK,
    mkD 5 27 .WORK, mkD 5 28 .WORK, mkD 5 29 .REST, mkD 5 30 .REST],
  [22, 21, 20, 19, 18, 17, 16, 15, 14, 13, 12, 11, 10, 9, 8, 7, 6, 5, 4, 3, 2, 1], [5, 4, 3, 2, 1]⟩

/-- Builder state of iteration 22 after its work block. -/
def bmid22 : ScheduleState := ⟨⟨2025, 6, 7⟩,
  [mkD 1 1 .WORK, mkD 1 2 .WORK, mkD 1 3 .WORK, mkD 1 4 .REST, mkD 1 5 .REST, mkD 1 6 .ORDERING,
    mkD 1 8 .WORK, mkD 1 9 .WORK, mkD 1 10 .REST, mkD 1 11 .REST, mkD 1 12 .ORDERING,
    mkD 1 13 .WORK, mkD 1 14 .WORK, mkD 1 15 .REST, mkD 1 16 .REST, mkD 1 17 .ORDERING,
    mkD 1 18 .WORK, mkD 1 19 .WORK, mkD 1 20 .WORK, mkD 1 21 .WORK, mkD 1 22 .WORK,
    mkD 1 23 .REST, mkD 1 24 .REST, mkD 1 25 .ORDERING, mkD 1 26 .WORK, mkD 1 27 .WORK,
    mkD 1 28 .WORK, mkD 1 29 .WORK, mkD 1 30 .WORK, mkD 1 31 .WORK, mkD 2 1 .REST, mkD 2 2 .REST,
    mkD 2 3 .ORDERING, mkD 2 4 .WORK, mkD 2 5 .WORK, mkD 2 6 .REST, mkD 2 7 .REST,
    mkD 2 8 .ORDERING, mkD 2 9 .WORK, mkD 2 10 .WORK, mkD 2 11 .REST, mkD 2 12 .REST,
    mkD 2 13 .ORDERING, mkD 2 14 .WORK, mkD 2 15 .WORK, mkD 2 16 .WORK, mkD 2 17 .WORK,
    mkD 2 18 .WORK, mkD 2 19 .WORK, mkD 2 20 .REST, mkD 2 21 .REST, mkD 2 22 .ORDERING,
    mkD 2 23 .WORK, mkD 2 24 .WORK, mkD 2 25 .WORK, mkD 2 26 .WORK, mkD 2 27 .WORK,
    mkD 2 28 .WORK, mkD 3 1 .REST, mkD 3 2 .REST, mkD 3 3 .ORDERING, mkD 3 4 .WORK, mkD 3 5 .WORK,
    mkD 3 6 .REST, mkD 3 7 .REST, mkD 3 8 .ORDERING, mkD 3 9 .WORK, mkD 3 10 .WORK,
    mkD 3 11 .REST, mkD 3 12 .REST, mkD 3 13 .ORDERING, mkD 3 14 .WORK, mkD 3 15 .WORK,
    mkD 3 16 .WORK, mkD 3 17 .WORK, mkD 3 18 .REST, mkD 3 19 .REST, mkD 3 20 .ORDERING,
    mkD 3 21 .WORK, mkD 3 22 .WORK, mkD 3 23 .WORK, mkD 3 24 .WORK, mkD 3 25 .WORK,
    mkD 3 26 .WORK, mkD 3 27 .REST, mkD 3 28 .REST, mkD 3 29 .ORDERING, mkD 3 30 .WORK,
    mkD 3 31 .WORK, mkD 4 1 .WORK, mkD 4 2 .WORK, mkD 4 3 .WORK, mkD 4 4 .WORK, mkD 4 5 .REST,
    mkD 4 6 .REST, mkD 4 7 .ORDERING, mkD 4 8 .WORK, mkD 4 9 .WORK, mkD 4 10 .REST,
    mkD 4 11 .REST, mkD 4 12 .ORDERING, mkD 4 13 .WORK, mkD 4 14 .WORK, mkD 4 15 .REST,
    mkD 4 16 .REST, mkD 4 17 .ORDERING, mkD 4 18 .WORK, mkD 4 19 .WORK, mkD 4 20 .WORK,
    mkD 4 21 .WORK, mkD 4 22 .WORK, mkD 4 23 .WORK, mkD 4 24 .REST, mkD 4 25 .REST,
    mkD 4 26 .ORDERING, mkD 4 27 .WORK, mkD 4 28 .WORK, mkD 4 29 .WORK, mkD 4 30 .WORK,
    mkD 5 1 .WORK, mkD 5 2 .WORK, mkD 5 3 .REST, mkD 5 4 .REST, mkD 5 5 .ORDERING, mkD 5 6 .WORK,
    mkD 5 7 .WORK, mkD 5 8 .REST, mkD 5 9 .REST, mkD 5 10 .ORDERING, mkD 5 11 .WORK,
    mkD 5 12 .WORK, mkD 5 13 .REST, mkD 5 14 .REST, mkD 5 15 .ORDERING, mkD 5 16 .WORK,
    mkD 5 17 .WORK, mkD 5 18 .WORK, mkD 5 19 .WORK, mkD 5 20 .REST, mkD 5 21 .REST,
    mkD 5 22 .ORDERING, mkD 5 23 .WORK, mkD 5 24 .WORK, mkD 5 25 .WORK, mkD 5 26 .WORK,
    mkD 5 27 .WORK, mkD 5 28 .WORK, mkD 5 29 .REST, mkD 5 30 .REST, mkD 5 31 .ORDERING,
    mkD 6 1 .WORK, mkD 6 2 .WORK, mkD 6 3 .WORK, mkD 6 4 .WORK, mkD 6 5 .WORK, mkD 6 6 .WORK],
  [22, 21, 20, 19, 18, 17, 16, 15, 14, 13, 12, 11, 10, 9, 8, 7, 6, 5, 4, 3, 2, 1], [5, 4, 3, 2, 1]⟩

/-- Builder state of the witness run before iteration 23. -/
def bst23 : ScheduleState := ⟨⟨2025, 6, 9⟩,
  [mkD 1 1 .WORK, mkD 1 2 .WORK, mkD 1 3 .WORK, mkD 1 4 .REST, mkD 1 5 .REST, mkD 1 6 .ORDERING,
    mkD 1 8 .WORK, mkD 1 9 .WORK, mkD 1 10 .REST, mkD 1 11 .REST, mkD 1 12 .ORDERING,
    mkD 1 13 .WORK, mkD 1 14 .WORK, mkD 1 15 .REST, mkD 1 16 .REST, mkD 1 17 .ORDERING,
    mkD 1 18 .WORK, mkD 1 19 .WORK, mkD 1 20 .WORK, mkD 1 21 .WORK, mkD 1 22 .WORK,
    mkD 1 23 .REST, mkD 1 24 .REST, mkD 1 25 .ORDERING, mkD 1 26 .WORK, mkD 1 27 .WORK,
    mkD 1 28 .WORK, mkD 1 29 .WORK, mkD 1 30 .WORK, mkD 1 31 .WORK, mkD 2 1 .REST, mkD 2 2 .REST,
    mkD 2 3 .ORDERING, mkD 2 4 .WORK, mkD 2 5 .WORK, mkD 2 6 .REST, mkD 2 7 .REST,
    mkD 2 8 .ORDERING, mkD 2 9 .WORK, mkD 2 10 .WORK, mkD 2 11 .REST, mkD 2 12 .REST,
    mkD 2 13 .ORDERING, mkD 2 14 .WORK, mkD 2 15 .WORK, mkD 2 16 .WORK, mkD 2 17 .WORK,
    mkD 2 18 .WORK, mkD 2 19 .WORK, mkD 2 20 .REST, mkD 2 21 .REST, mkD 2 22 .ORDERING,
    mkD 2 23 .WORK, mkD 2 24 .WORK, mkD 2 25 .WORK, mkD 2 26 .WORK, mkD 2 27 .WORK,
    mkD 2 28 .WORK, mkD 3 1 .REST, mkD 3 2 .REST, mkD 3 3 .ORDERING, mkD 3 4 .WORK, mkD 3 5 .WORK,
    mkD 3 6 .REST, mkD 3 7 .REST, mkD 3 8 .ORDERING, mkD 3 9 .WORK, mkD 3 10 .WORK,
    mkD 3 11 .REST, mkD 3 12 .REST, mkD 3 13 .ORDERING, mkD 3 14 .WORK, mkD 3 15 .WORK,
    mkD 3 16 .WORK, mkD 3 17 .WORK, mkD 3 18 .REST, mkD 3 19 .REST, mkD 3 20 .ORDERING,
    mkD 3 21 .WORK, mkD 3 22 .WORK, mkD 3 23 .WORK, mkD 3 24 .WORK, mkD 3 25 .WORK,
    mkD 3 26 .WORK, mkD 3 27 .REST, mkD 3 28 .REST, mkD 3 29 .ORDERING, mkD 3 30 .WORK,
    mkD 3 31 .WORK, mkD 4 1 .WORK, mkD 4 2 .WORK, mkD 4 3 .WORK, mkD 4 4 .WORK, mkD 4 5 .REST,
    mkD 4 6 .REST, mkD 4 7 .ORDERING, mkD 4 8 .WORK, mkD 4 9 .WORK, mkD 4 10 .REST,
    mkD 4 11 .REST, mkD 4 12 .ORDERING, mkD 4 13 .WORK, mkD 4 14 .WORK, mkD 4 15 .REST,
    mkD 4 16 .REST, mkD 4 17 .ORDERING, mkD 4 18 .WORK, mkD 4 19 .WORK, mkD 4 20 .WORK,
    mkD 4 21 .WORK, mkD 4 22 .WORK, mkD 4 23 .WORK, mkD 4 24 .REST, mkD 4 25 .REST,
    mkD 4 26 .ORDERING, mkD 4 27 .WORK, mkD 4 28 .WORK, mkD 4 29 .WORK, mkD 4 30 .WORK,
    mkD 5 1 .WORK, mkD 5 2 .WORK, mkD 5 3 .REST, mkD 5 4 .REST, mkD 5 5 .ORDERING, mkD 5 6 .WORK,
    mkD 5 7 .WORK, mkD 5 8 .REST, mkD 5 9 .REST, mkD 5 10 .ORDERING, mkD 5 11 .WORK,
    mkD 5 12 .WORK, mkD 5 13 .REST, mkD 5 14 .REST, mkD 5 15 .ORDERING, mkD 5 16 .WORK,
    mkD 5 17 .WORK, mkD 5 18 .WORK, mkD 5 19 .WORK, mkD 5 20 .REST, mkD 5 21 .REST,
    mkD 5 22 .ORDERING, mkD 5 23 .WORK, mkD 5 24 .WORK, mkD 5 25 .WORK, mkD 5 26 .WORK,
    mkD 5 27 .WORK, mkD 5 28 .WORK, mkD 5 29 .REST, mkD 5 30 .REST, mkD 5 31 .ORDERING,
    mkD 6 1 .WORK, mkD 6 2 .WORK, mkD 6 3 .WORK, mkD 6 4 .WORK, mkD 6 5 .WORK, mkD 6 6 .WORK,
    mkD 6 7 .REST, mkD 6 8 .REST],
  [23, 22, 21, 20, 19, 18, 17, 16, 15, 14, 13, 12, 11, 10, 9, 8, 7, 6, 5, 4, 3, 2, 1], [6, 5, 4, 3, 2, 1]⟩

/-- Builder state of iteration 23 after its work block. -/
def bmid23 : ScheduleState := ⟨⟨2025, 6, 12⟩,
  [mkD 1 1 .WORK, mkD 1 2 .WORK, mkD 1 3 .WORK, mkD 1 4 .REST, mkD 1 5 .REST, mkD 1 6 .ORDERING,
    mkD 1 8 .WORK, mkD 1 9 .WORK, mkD 1 10 .REST, mkD 1 11 .REST, mkD 1 12 .ORDERING,
    mkD 1 13 .WORK, mkD 1 14 .WORK, mkD 1 15 .REST, mkD 1 16 .REST, mkD 1 17 .ORDERING,
    mkD 1 18 .WORK, mkD 1 19 .WORK, mkD 1 20 .WORK, mkD 1 21 .WORK, mkD 1 22 .WORK,
    mkD 1 23 .REST, mkD 1 24 .REST, mkD 1 25 .ORDERING, mkD 1 26 .WORK, mkD 1 27 .WORK,
    mkD 1 28 .WORK, mkD 1 29 .WORK, mkD 1 30 .WORK, mkD 1 31 .WORK, mkD 2 1 .REST, mkD 2 2 .REST,
    mkD 2 3 .ORDERING, mkD 2 4 .WORK, mkD 2 5 .WORK, mkD 2 6 .REST, mkD 2 7 .REST,
    mkD 2 8 .ORDERING, mkD 2 9 .WORK, mkD 2 10 .WORK, mkD 2 11 .REST, mkD 2 12 .REST,
    mkD 2 13 .ORDERING, mkD 2 14 .WORK, mkD 2 15 .WORK, mkD 2 16 .WORK, mkD 2 17 .WORK,
    mkD 2 18 .WORK, mkD 2 19 .WORK, mkD 2 20 .REST, mkD 2 21 .REST, mkD 2 22 .ORDERING,
    mkD 2 23 .WORK, mkD 2 24 .WORK, mkD 2 25 .WORK, mkD 2 26 .WORK, mkD 2 27 .WORK,
    mkD 2 28 .WORK, mkD 3 1 .REST, mkD 3 2 .REST, mkD 3 3 .ORDERING, mkD 3 4 .WORK, mkD 3 5 .WORK,
    mkD 3 6 .REST, mkD 3 7 .REST, mkD 3 8 .ORDERING, mkD 3 9 .WORK, mkD 3 10 .WORK,
    mkD 3 11 .REST, mkD 3 12 .REST, mkD 3 13 .ORDERING, mkD 3 14 .WORK, mkD 3 15 .WORK,
    mkD 3 16 .WORK, mkD 3 17 .WORK, mkD 3 18 .REST, mkD 3 19 .REST, mkD 3 20 .ORDERING,
    mkD 3 21 .WORK, mkD 3 22 .WORK, mkD 3 23 .WORK, mkD 3 24 .WORK, mkD 3 25 .WORK,
    mkD 3 26 .WORK, mkD 3 27 .REST, mkD 3 28 .REST, mkD 3 29 .ORDERING, mkD 3 30 .WORK,
    mkD 3 31 .WORK, mkD 4 1 .WORK, mkD 4 2 .WORK, mkD 4 3 .WORK, mkD 4 4 .WORK, mkD 4 5 .REST,
    mkD 4 6 .REST, mkD 4 7 .ORDERING, mkD 4 8 .WORK, mkD 4 9 .WORK, mkD 4 10 .REST,
    mkD 4 11 .REST, mkD 4 12 .ORDERING, mkD 4 13 .WORK, mkD 4 14 .WORK, mkD 4 15 .REST,
    mkD 4 16 .REST, mkD 4 17 .ORDERING, mkD 4 18 .WORK, mkD 4 19 .WORK, mkD 4 20 .WORK,
    mkD 4 21 .WORK, mkD 4 22 .WORK, mkD 4 23 .WORK, mkD 4 24 .REST, mkD 4 25 .REST,
    mkD 4 26 .ORDERING, mkD 4 27 .WORK, mkD 4 28 .WORK, mkD 4 29 .WORK, mkD 4 30 .WORK,
    mkD 5 1 .WORK, mkD 5 2 .WORK, mkD 5 3 .REST, mkD 5 4 .REST, mkD 5 5 .ORDERING, mkD 5 6 .WORK,
    mkD 5 7 .WORK, mkD 5 8 .REST, mkD 5 9 .REST, mkD 5 10 .ORDERING, mkD 5 11 .WORK,
    mkD 5 12 .WORK, mkD 5 13 .REST, mkD 5 14 .REST, mkD 5 15 .ORDERING, mkD 5 16 .WORK,
    mkD 5 17 .WORK, mkD 5 18 .WORK, mkD 5 19 .WORK, mkD 5 20 .REST, mkD 5 21 .REST,
    mkD 5 22 .ORDERING, mkD 5 23 .WORK, mkD 5 24 .WORK, mkD 5 25 .WORK, mkD 5 26 .WORK,
    mkD 5 27 .WORK, mkD 5 28 .WORK, mkD 5 29 .REST, mkD 5 30 .REST, mkD 5 31 .ORDERING,
    mkD 6 1 .WORK, mkD 6 2 .WORK, mkD 6 3 .WORK, mkD 6 4 .WORK, mkD 6 5 .WORK, mkD 6 6 .WORK,
    mkD 6 7 .REST, mkD 6 8 .REST, mkD 6 9 .ORDERING, mkD 6 10 .WORK, mkD 6 11 .WORK],
  [23, 22, 21, 20, 19, 18, 17, 16, 15, 14, 13, 12, 11, 10, 9, 8, 7, 6, 5, 4, 3, 2, 1], [6, 5, 4, 3, 2, 1]⟩

/-- Builder state of the witness run before iteration 24. -/
def bst24 : ScheduleState := ⟨⟨2025, 6, 14⟩,
  [mkD 1 1 .WORK, mkD 1 2 .WORK, mkD 1 3 .WORK, mkD 1 4 .REST, mkD 1 5 .REST, mkD 1 6 .ORDERING,
    mkD 1 8 .WORK, mkD 1 9 .WORK, mkD 1 10 .REST, mkD 1 11 .REST, mkD 1 12 .ORDERING,
    mkD 1 13 .WORK, mkD 1 14 .WORK, mkD 1 15 .REST, mkD 1 16 .REST, mkD 1 17 .ORDERING,
    mkD 1 18 .WORK, mkD 1 19 .WORK, mkD 1 20 .WORK, mkD 1 21 .WORK, mkD 1 22 .WORK,
    mkD 1 23 .REST, mkD 1 24 .REST, mkD 1 25 .ORDERING, mkD 1 26 .WORK, mkD 1 27 .WORK,
    mkD 1 28 .WORK, mkD 1 29 .WORK, mkD 1 30 .WORK, mkD 1 31 .WORK, mkD 2 1 .REST, mkD 2 2 .REST,
    mkD 2 3 .ORDERING, mkD 2 4 .WORK, mkD 2 5 .WORK, mkD 2 6 .REST, mkD 2 7 .REST,
    mkD 2 8 .ORDERING, mkD 2 9 .WORK, mkD 2 10 .WORK, mkD 2 11 .REST, mkD 2 12 .REST,
    mkD 2 13 .ORDERING, mkD 2 14 .WORK, mkD 2 15 .WORK, mkD 2 16 .WORK, mkD 2 17 .WORK,
    mkD 2 18 .WORK, mkD 2 19 .WORK, mkD 2 20 .REST, mkD 2 21 .REST, mkD 2 22 .ORDERING,
    mkD 2 23 .WORK, mkD 2 24 .WORK, mkD 2 25 .WORK, mkD 2 26 .WORK, mkD 2 27 .WORK,
    mkD 2 28 .WORK, mkD 3 1 .REST, mkD 3 2 .REST, mkD 3 3 .ORDERING, mkD 3 4 .WORK, mkD 3 5 .WORK,
    mkD 3 6 .REST, mkD 3 7 .REST, mkD 3 8 .ORDERING, mkD 3 9 .WORK, mkD 3 10 .WORK,
    mkD 3 11 .REST, mkD 3 12 .REST, mkD 3 13 .ORDERING, mkD 3 14 .WORK, mkD 3 15 .WORK,
    mkD 3 16 .WORK, mkD 3 17 .WORK, mkD 3 18 .REST, mkD 3 19 .REST, mkD 3 20 .ORDERING,
    mkD 3 21 .WORK, mkD 3 22 .WORK, mkD 3 23 .WORK, mkD 3 24 .WORK, mkD 3 25 .WORK,
    mkD 3 26 .WORK, mkD 3 27 .REST, mkD 3 28 .REST, mkD 3 29 .ORDERING, mkD 3 30 .WORK,
    mkD 3 31 .WORK, mkD 4 1 .WORK, mkD 4 2 .WORK, mkD 4 3 .WORK, mkD 4 4 .WORK, mkD 4 5 .REST,
    mkD 4 6 .REST, mkD 4 7 .ORDERING, mkD 4 8 .WORK, mkD 4 9 .WORK, mkD 4 10 .REST,
    mkD 4 11 .REST, mkD 4 12 .ORDERING, mkD 4 13 .WORK, mkD 4 14 .WORK, mkD 4 15 .REST,
    mkD 4 16 .REST, mkD 4 17 .ORDERING, mkD 4 18 .WORK, mkD 4 19 .WORK, mkD 4 20 .WORK,
    mkD 4 21 .WORK, mkD 4 22 .WORK, mkD 4 23 .WORK, mkD 4 24 .REST, mkD 4 25 .REST,
    mkD 4 26 .ORDERING, mkD 4 27 .WORK, mkD 4 28 .WORK, mkD 4 29 .WORK, mkD 4 30 .WORK,
    mkD 5 1 .WORK, mkD 5 2 .WORK, mkD 5 3 .REST, mkD 5 4 .REST, mkD 5 5 .ORDERING, mkD 5 6 .WORK,
    mkD 5 7 .WORK, mkD 5 8 .REST, mkD 5 9 .REST, mkD 5 10 .ORDERING, mkD 5 11 .WORK,
    mkD 5 12 .WORK, mkD 5 13 .REST, mkD 5 14 .REST, mkD 5 15 .ORDERING, mkD 5 16 .WORK,
    mkD 5 17 .WORK, mkD 5 18 .WORK, mkD 5 19 .WORK, mkD 5 20 .REST, mkD 5 21 .REST,
    mkD 5 22 .ORDERING, mkD 5 23 .WORK, mkD 5 24 .WORK, mkD 5 25 .WORK, mkD 5 26 .WORK,
    mkD 5 27 .WORK, mkD 5 28 .WORK, mkD 5 29 .REST, mkD 5 30 .REST, mkD 5 31 .ORDERING,
    mkD 6 1 .WORK, mkD 6 2 .WORK, mkD 6 3 .WORK, mkD 6 4 .WORK, mkD 6 5 .WORK, mkD 6 6 .WORK,
    mkD 6 7 .REST, mkD 6 8 .REST, mkD 6 9 .ORDERING, mkD 6 10 .WORK, mkD 6 11 .WORK,
    mkD 6 12 .REST, mkD 6 13 .REST],
  [24, 23, 22, 21, 20, 19, 18, 17, 16, 15, 14, 13, 12, 11, 10, 9, 8, 7, 6, 5, 4, 3, 2, 1], [6, 5, 4, 3, 2, 1]⟩

/-- Builder state of iteration 24 after its work block. -/
def bmid24 : ScheduleState := ⟨⟨2025, 6, 17⟩,
  [mkD 1 1 .WORK, mkD 1 2 .WORK, mkD 1 3 .WORK, mkD 1 4 .REST, mkD 1 5 .REST, mkD 1 6 .ORDERING,
    mkD 1 8 .WORK, mkD 1 9 .WORK, mkD 1 10 .REST, mkD 1 11 .REST, mkD 1 12 .ORDERING,
    mkD 1 13 .WORK, mkD 1 14 .WORK, mkD 1 15 .REST, mkD 1 16 .REST, mkD 1 17 .ORDERING,
    mkD 1 18 .WORK, mkD 1 19 .WORK, mkD 1 20 .WORK, mkD 1 21 .WORK, mkD 1 22 .WORK,
    mkD 1 23 .REST, mkD 1 24 .REST, mkD 1 25 .ORDERING, mkD 1 26 .WORK, mkD 1 27 .WORK,
    mkD 1 28 .WORK, mkD 1 29 .WORK, mkD 1 30 .WORK, mkD 1 31 .WORK, mkD 2 1 .REST, mkD 2 2 .REST,
    mkD 2 3 .ORDERING, mkD 2 4 .WORK, mkD 2 5 .WORK, mkD 2 6 .REST, mkD 2 7 .REST,
    mkD 2 8 .ORDERING, mkD 2 9 .WORK, mkD 2 10 .WORK, mkD 2 11 .REST, mkD 2 12 .REST,
    mkD 2 13 .ORDERING, mkD 2 14 .WORK, mkD 2 15 .WORK, mkD 2 16 .WORK, mkD 2 17 .WORK,
    mkD 2 18 .WORK, mkD 2 19 .WORK, mkD 2 20 .REST, mkD 2 21 .REST, mkD 2 22 .ORDERING,
    mkD 2 23 .WORK, mkD 2 24 .WORK, mkD 2 25 .WORK, mkD 2 26 .WORK, mkD 2 27 .WORK,
    mkD 2 28 .WORK, mkD 3 1 .REST, mkD 3 2 .REST, mkD 3 3 .ORDERING, mkD 3 4 .WORK, mkD 3 5 .WORK,
    mkD 3 6 .REST, mkD 3 7 .REST, mkD 3 8 .ORDERING, mkD 3 9 .WORK, mkD 3 10 .WORK,
    mkD 3 11 .REST, mkD 3 12 .REST, mkD 3 13 .ORDERING, mkD 3 14 .WORK, mkD 3 15 .WORK,
    mkD 3 16 .WORK, mkD 3 17 .WORK, mkD 3 18 .REST, mkD 3 19 .REST, mkD 3 20 .ORDERING,
    mkD 3 21 .WORK, mkD 3 22 .WORK, mkD 3 23 .WORK, mkD 3 24 .WORK, mkD 3 25 .WORK,
    mkD 3 26 .WORK, mkD 3 27 .REST, mkD 3 28 .REST, mkD 3 29 .ORDERING, mkD 3 30 .WORK,
    mkD 3 31 .WORK, mkD 4 1 .WORK, mkD 4 2 .WORK, mkD 4 3 .WORK, mkD 4 4 .WORK, mkD 4 5 .REST,
    mkD 4 6 .REST, mkD 4 7 .ORDERING, mkD 4 8 .WORK, mkD 4 9 .WORK, mkD 4 10 .REST,
    mkD 4 11 .REST, mkD 4 12 .ORDERING, mkD 4 13 .WORK, mkD 4 14 .WORK, mkD 4 15 .REST,
    mkD 4 16 .REST, mkD 4 17 .ORDERING, mkD 4 18 .WORK, mkD 4 19 .WORK, mkD 4 20 .WORK,
    mkD 4 21 .WORK, mkD 4 22 .WORK, mkD 4 23 .WORK, mkD 4 24 .REST, mkD 4 25 .REST,
    mkD 4 26 .ORDERING, mkD 4 27 .WORK, mkD 4 28 .WORK, mkD 4 29 .WORK, mkD 4 30 .WORK,
    mkD 5 1 .WORK, mkD 5 2 .WORK, mkD 5 3 .REST, mkD 5 4 .REST, mkD 5 5 .ORDERING, mkD 5 6 .WORK,
    mkD 5 7 .WORK, mkD 5 8 .REST, mkD 5 9 .REST, mkD 5 10 .ORDERING, mkD 5 11 .WORK,
    mkD 5 12 .WORK, mkD 5 13 .REST, mkD 5 14 .REST, mkD 5 15 .ORDERING, mkD 5 16 .WORK,
    mkD 5 17 .WORK, mkD 5 18 .WORK, mkD 5 19 .WORK, mkD 5 20 .REST, mkD 5 21 .REST,
    mkD 5 22 .ORDERING, mkD 5 23 .WORK, mkD 5 24 .WORK, mkD 5 25 .WORK, mkD 5 26 .WORK,
    mkD 5 27 .WORK, mkD 5 28 .WORK, mkD 5 29 .REST, mkD 5 30 .REST, mkD 5 31 .ORDERING,
    mkD 6 1 .WORK, mkD 6 2 .WORK, mkD 6 3 .WORK, mkD 6 4 .WORK, mkD 6 5 .WORK, mkD 6 6 .WORK,
    mkD 6 7 .REST, mkD 6 8 .REST, mkD 6 9 .ORDERING, mkD 6 10 .WORK, mkD 6 11 .WORK,
    mkD 6 12 .REST, mkD 6 13 .REST, mkD 6 14 .ORDERING, mkD 6 15 .WORK, mkD 6 16 .WORK],
  [24, 23, 22, 21, 20, 19, 18, 17, 16, 15, 14, 13, 12, 11, 10, 9, 8, 7, 6, 5, 4, 3, 2, 1], [6, 5, 4, 3, 2, 1]⟩

/-- Builder state of the witness run before iteration 25. -/
def bst25 : ScheduleState := ⟨⟨2025, 6, 19⟩,
  [mkD 1 1 .WORK, mkD 1 2 .WORK, mkD 1 3 .WORK, mkD 1 4 .REST, mkD 1 5 .REST, mkD 1 6 .ORDERING,
    mkD 1 8 .WORK, mkD 1 9 .WORK, mkD 1 10 .REST, mkD 1 11 .REST, mkD 1 12 .ORDERING,
    mkD 1 13 .WORK, mkD 1 14 .WORK, mkD 1 15 .REST, mkD 1 16 .REST, mkD 1 17 .ORDERING,
    mkD 1 18 .WORK, mkD 1 19 .WORK, mkD 1 20 .WORK, mkD 1 21 .WORK, mkD 1 22 .WORK,
    mkD 1 23 .REST, mkD 1 24 .REST, mkD 1 25 .ORDERING, mkD 1 26 .WORK, mkD 1 27 .WORK,
    mkD 1 28 .WORK, mkD 1 29 .WORK, mkD 1 30 .WORK, mkD 1 31 .WORK, mkD 2 1 .REST, mkD 2 2 .REST,
    mkD 2 3 .ORDERING, mkD 2 4 .WORK, mkD 2 5 .WORK, mkD 2 6 .REST, mkD 2 7 .REST,
    mkD 2 8 .ORDERING, mkD 2 9 .WORK, mkD 2 10 .WORK, mkD 2 11 .REST, mkD 2 12 .REST,
    mkD 2 13 .ORDERING, mkD 2 14 .WORK, mkD 2 15 .WORK, mkD 2 16 .WORK, mkD 2 17 .WORK,
    mkD 2 18 .WORK, mkD 2 19 .WORK, mkD 2 20 .REST, mkD 2 21 .REST, mkD 2 22 .ORDERING,
    mkD 2 23 .WORK, mkD 2 24 .WORK, mkD 2 25 .WORK, mkD 2 26 .WORK, mkD 2 27 .WORK,
    mkD 2 28 .WORK, mkD 3 1 .REST, mkD 3 2 .REST, mkD 3 3 .ORDERING, mkD 3 4 .WORK, mkD 3 5 .WORK,
    mkD 3 6 .REST, mkD 3 7 .REST, mkD 3 8 .ORDERING, mkD 3 9 .WORK, mkD 3 10 .WORK,
    mkD 3 11 .REST, mkD 3 12 .REST, mkD 3 13 .ORDERING, mkD 3 14 .WORK, mkD 3 15 .WORK,
    mkD 3 16 .WORK, mkD 3 17 .WORK, mkD 3 18 .REST, mkD 3 19 .REST, mkD 3 20 .ORDERING,
    mkD 3 21 .WORK, mkD 3 22 .WORK, mkD 3 23 .WORK, mkD 3 24 .WORK, mkD 3 25 .WORK,
    mkD 3 26 .WORK, mkD 3 27 .REST, mkD 3 28 .REST, mkD 3 29 .ORDERING, mkD 3 30 .WORK,
    mkD 3 31 .WORK, mkD 4 1 .WORK, mkD 4 2 .WORK, mkD 4 3 .WORK, mkD 4 4 .WORK, mkD 4 5 .REST,
    mkD 4 6 .REST, mkD 4 7 .ORDERING, mkD 4 8 .WORK, mkD 4 9 .WORK, mkD 4 10 .REST,
    mkD 4 11 .REST, mkD 4 12 .ORDERING, mkD 4 13 .WORK, mkD 4 14 .WORK, mkD 4 15 .REST,
    mkD 4 16 .REST, mkD 4 17 .ORDERING, mkD 4 18 .WORK, mkD 4 19 .WORK, mkD 4 20 .WORK,
    mkD 4 21 .WORK, mkD 4 22 .WORK, mkD 4 23 .WORK, mkD 4 24 .REST, mkD 4 25 .REST,
    mkD 4 26 .ORDERING, mkD 4 27 .WORK, mkD 4 28 .WORK, mkD 4 29 .WORK, mkD 4 30 .WORK,
    mkD 5 1 .WORK, mkD 5 2 .WORK, mkD 5 3 .REST, mkD 5 4 .REST, mkD 5 5 .ORDERING, mkD 5 6 .WORK,
    mkD 5 7 .WORK, mkD 5 8 .REST, mkD 5 9 .REST, mkD 5 10 .ORDERING, mkD 5 11 .WORK,
    mkD 5 12 .WORK, mkD 5 13 .REST, mkD 5 14 .REST, mkD 5 15 .ORDERING, mkD 5 16 .WORK,
    mkD 5 17 .WORK, mkD 5 18 .WORK, mkD 5 19 .WORK, mkD 5 20 .REST, mkD 5 21 .REST,
    mkD 5 22 .ORDERING, mkD 5 23 .WORK, mkD 5 24 .WORK, mkD 5 25 .WORK, mkD 5 26 .WORK,
    mkD 5 27 .WORK, mkD 5 28 .WORK, mkD 5 29 .REST, mkD 5 30 .REST, mkD 5 31 .ORDERING,
    mkD 6 1 .WORK, mkD 6 2 .WORK, mkD 6 3 .WORK, mkD 6 4 .WORK, mkD 6 5 .WORK, mkD 6 6 .WORK,
    mkD 6 7 .REST, mkD 6 8 .REST, mkD 6 9 .ORDERING, mkD 6 10 .WORK, mkD 6 11 .WORK,
    mkD 6 12 .REST, mkD 6 13 .REST, mkD 6 14 .ORDERING, mkD 6 15 .WORK, mkD 6 16 .WORK,
    mkD 6 17 .REST, mkD 6 18 .REST],
  [25, 24, 23, 22, 21, 20, 19, 18, 17, 16, 15, 14, 13, 12, 11, 10, 9, 8, 7, 6, 5, 4, 3, 2, 1], [6, 5, 4, 3, 2, 1]⟩

/-- Builder state of iteration 25 after its work block. -/
def bmid25 : ScheduleState := ⟨⟨2025, 6, 26⟩,
  [mkD 1 1 .WORK, mkD 1 2 .WORK, mkD 1 3 .WORK, mkD 1 4 .REST, mkD 1 5 .REST, mkD 1 6 .ORDERING,
    mkD 1 8 .WORK, mkD 1 9 .WORK, mkD 1 10 .REST, mkD 1 11 .REST, mkD 1 12 .ORDERING,
    mkD 1 13 .WORK, mkD 1 14 .WORK, mkD 1 15 .REST, mkD 1 16 .REST, mkD 1 17 .ORDERING,
    mkD 1 18 .WORK, mkD 1 19 .WORK, mkD 1 20 .WORK, mkD 1 21 .WORK, mkD 1 22 .WORK,
    mkD 1 23 .REST, mkD 1 24 .REST, mkD 1 25 .ORDERING, mkD 1 26 .WORK, mkD 1 27 .WORK,
    mkD 1 28 .WORK, mkD 1 29 .WORK, mkD 1 30 .WORK, mkD 1 31 .WORK, mkD 2 1 .REST, mkD 2 2 .REST,
    mkD 2 3 .ORDERING, mkD 2 4 .WORK, mkD 2 5 .WORK, mkD 2 6 .REST, mkD 2 7 .REST,
    mkD 2 8 .ORDERING, mkD 2 9 .WORK, mkD 2 10 .WORK, mkD 2 11 .REST, mkD 2 12 .REST,
    mkD 2 13 .ORDERING, mkD 2 14 .WORK, mkD 2 15 .WORK, mkD 2 16 .WORK, mkD 2 17 .WORK,
    mkD 2 18 .WORK, mkD 2 19 .WORK, mkD 2 20 .REST, mkD 2 21 .REST, mkD 2 22 .ORDERING,
    mkD 2 23 .WORK, mkD 2 24 .WORK, mkD 2 25 .WORK, mkD 2 26 .WORK, mkD 2 27 .WORK,
    mkD 2 28 .WORK, mkD 3 1 .REST, mkD 3 2 .REST, mkD 3 3 .ORDERING, mkD 3 4 .WORK, mkD 3 5 .WORK,
    mkD 3 6 .REST, mkD 3 7 .REST, mkD 3 8 .ORDERING, mkD 3 9 .WORK, mkD 3 10 .WORK,
    mkD 3 11 .REST, mkD 3 12 .REST, mkD 3 13 .ORDERING, mkD 3 14 .WORK, mkD 3 15 .WORK,
    mkD 3 16 .WORK, mkD 3 17 .WORK, mkD 3 18 .REST, mkD 3 19 .REST, mkD 3 20 .ORDERING,
    mkD 3 21 .WORK, mkD 3 22 .WORK, mkD 3 23 .WORK, mkD 3 24 .WORK, mkD 3 25 .WORK,
    mkD 3 26 .WORK, mkD 3 27 .REST, mkD 3 28 .REST, mkD 3 29 .ORDERING, mkD 3 30 .WORK,
    mkD 3 31 .WORK, mkD 4 1 .WORK, mkD 4 2 .WORK, mkD 4 3 .WORK, mkD 4 4 .WORK, mkD 4 5 .REST,
    mkD 4 6 .REST, mkD 4 7 .ORDERING, mkD 4 8 .WORK, mkD 4 9 .WORK, mkD 4 10 .REST,
    mkD 4 11 .REST, mkD 4 12 .ORDERING, mkD 4 13 .WORK, mkD 4 14 .WORK, mkD 4 15 .REST,
    mkD 4 16 .REST, mkD 4 17 .ORDERING, mkD 4 18 .WORK, mkD 4 19 .WORK, mkD 4 20 .WORK,
    mkD 4 21 .WORK, mkD 4 22 .WORK, mkD 4 23 .WORK, mkD 4 24 .REST, mkD 4 25 .REST,
    mkD 4 26 .ORDERING, mkD 4 27 .WORK, mkD 4 28 .WORK, mkD 4 29 .WORK, mkD 4 30 .WORK,
    mkD 5 1 .WORK, mkD 5 2 .WORK, mkD 5 3 .REST, mkD 5 4 .REST, mkD 5 5 .ORDERING, mkD 5 6 .WORK,
    mkD 5 7 .WORK, mkD 5 8 .REST, mkD 5 9 .REST, mkD 5 10 .ORDERING, mkD 5 11 .WORK,
    mkD 5 12 .WORK, mkD 5 13 .REST, mkD 5 14 .REST, mkD 5 15 .ORDERING, mkD 5 16 .WORK,
    mkD 5 17 .WORK, mkD 5 18 .WORK, mkD 5 19 .WORK, mkD 5 20 .REST, mkD 5 21 .REST,
    mkD 5 22 .ORDERING, mkD 5 23 .WORK, mkD 5 24 .WORK, mkD 5 25 .WORK, mkD 5 26 .WORK,
    mkD 5 27 .WORK, mkD 5 28 .WORK, mkD 5 29 .REST, mkD 5 30 .REST, mkD 5 31 .ORDERING,
    mkD 6 1 .WORK, mkD 6 2 .WORK, mkD 6 3 .WORK, mkD 6 4 .WORK, mkD 6 5 .WORK, mkD 6 6 .WORK,
    mkD 6 7 .REST, mkD 6 8 .REST, mkD 6 9 .ORDERING, mkD 6 10 .WORK, mkD 6 11 .WORK,
    mkD 6 12 .REST, mkD 6 13 .REST, mkD 6 14 .ORDERING, mkD 6 15 .WORK, mkD 6 16 .WORK,
    mkD 6 17 .REST, mkD 6 18 .REST, mkD 6 19 .ORDERING, mkD 6 20 .WORK, mkD 6 21 .WORK,
    mkD 6 22 .WORK, mkD 6 23 .WORK, mkD 6 24 .WORK, mkD 6 25 .WORK],
  [25, 24, 23, 22, 21, 20, 19, 18, 17, 16, 15, 14, 13, 12, 11, 10, 9, 8, 7, 6, 5, 4, 3, 2, 1], [6, 5, 4, 3, 2, 1]⟩

/-- Builder state of the witness run before iteration 26. -/
def bst26 : ScheduleState := ⟨⟨2025, 6, 28⟩,
  [mkD 1 1 .WORK, mkD 1 2 .WORK, mkD 1 3 .WORK, mkD 1 4 .REST, mkD 1 5 .REST, mkD 1 6 .ORDERING,
    mkD 1 8 .WORK, mkD 1 9 .WORK, mkD 1 10 .REST, mkD 1 11 .REST, mkD 1 12 .ORDERING,
    mkD 1 13 .WORK, mkD 1 14 .WORK, mkD 1 15 .REST, mkD 1 16 .REST, mkD 1 17 .ORDERING,
    mkD 1 18 .WORK, mkD 1 19 .WORK, mkD 1 20 .WORK, mkD 1 21 .WORK, mkD 1 22 .WORK,
    mkD 1 23 .REST, mkD 1 24 .REST, mkD 1 25 .ORDERING, mkD 1 26 .WORK, mkD 1 27 .WORK,
    mkD 1 28 .WORK, mkD 1 29 .WORK, mkD 1 30 .WORK, mkD 1 31 .WORK, mkD 2 1 .REST, mkD 2 2 .REST,
    mkD 2 3 .ORDERING, mkD 2 4 .WORK, mkD 2 5 .WORK, mkD 2 6 .REST, mkD 2 7 .REST,
    mkD 2 8 .ORDERING, mkD 2 9 .WORK, mkD 2 10 .WORK, mkD 2 11 .REST, mkD 2 12 .REST,
    mkD 2 13 .ORDERING, mkD 2 14 .WORK, mkD 2 15 .WORK, mkD 2 16 .WORK, mkD 2 17 .WORK,
    mkD 2 18 .WORK, mkD 2 19 .WORK, mkD 2 20 .REST, mkD 2 21 .REST, mkD 2 22 .ORDERING,
    mkD 2 23 .WORK, mkD 2 24 .WORK, mkD 2 25 .WORK, mkD 2 26 .WORK, mkD 2 27 .WORK,
    mkD 2 28 .WORK, mkD 3 1 .REST, mkD 3 2 .REST, mkD 3 3 .ORDERING, mkD 3 4 .WORK, mkD 3 5 .WORK,
    mkD 3 6 .REST, mkD 3 7 .REST, mkD 3 8 .ORDERING, mkD 3 9 .WORK, mkD 3 10 .WORK,
    mkD 3 11 .REST, mkD 3 12 .REST, mkD 3 13 .ORDERING, mkD 3 14 .WORK, mkD 3 15 .WORK,
    mkD 3 16 .WORK, mkD 3 17 .WORK, mkD 3 18 .REST, mkD 3 19 .REST, mkD 3 20 .ORDERING,
    mkD 3 21 .WORK, mkD 3 22 .WORK, mkD 3 23 .WORK, mkD 3 24 .WORK, mkD 3 25 .WORK,
    mkD 3 26 .WORK, mkD 3 27 .REST, mkD 3 28 .REST, mkD 3 29 .ORDERING, mkD 3 30 .WORK,
    mkD 3 31 .WORK, mkD 4 1 .WORK, mkD 4 2 .WORK, mkD 4 3 .WORK, mkD 4 4 .WORK, mkD 4 5 .REST,
    mkD 4 6 .REST, mkD 4 7 .ORDERING, mkD 4 8 .WORK, mkD 4 9 .WORK, mkD 4 10 .REST,
    mkD 4 11 .REST, mkD 4 12 .ORDERING, mkD 4 13 .WORK, mkD 4 14 .WORK, mkD 4 15 .REST,
    mkD 4 16 .REST, mkD 4 17 .ORDERING, mkD 4 18 .WORK, mkD 4 19 .WORK, mkD 4 20 .WORK,
    mkD 4 21 .WORK, mkD 4 22 .WORK, mkD 4 23 .WORK, mkD 4 24 .REST, mkD 4 25 .REST,
    mkD 4 26 .ORDERING, mkD 4 27 .WORK, mkD 4 28 .WORK, mkD 4 29 .WORK, mkD 4 30 .WORK,
    mkD 5 1 .WORK, mkD 5 2 .WORK, mkD 5 3 .REST, mkD 5 4 .REST, mkD 5 5 .ORDERING, mkD 5 6 .WORK,
    mkD 5 7 .WORK, mkD 5 8 .REST, mkD 5 9 .REST, mkD 5 10 .ORDERING, mkD 5 11 .WORK,
    mkD 5 12 .WORK, mkD 5 13 .REST, mkD 5 14 .REST, mkD 5 15 .ORDERING, mkD 5 16 .WORK,
    mkD 5 17 .WORK, mkD 5 18 .WORK, mkD 5 19 .WORK, mkD 5 20 .REST, mkD 5 21 .REST,
    mkD 5 22 .ORDERING, mkD 5 23 .WORK, mkD 5 24 .WORK, mkD 5 25 .WORK, mkD 5 26 .WORK,
    mkD 5 27 .WORK, mkD 5 28 .WORK, mkD 5 29 .REST, mkD 5 30 .REST, mkD 5 31 .ORDERING,
    mkD 6 1 .WORK, mkD 6 2 .WORK, mkD 6 3 .WORK, mkD 6 4 .WORK, mkD 6 5 .WORK, mkD 6 6 .WORK,
    mkD 6 7 .REST, mkD 6 8 .REST, mkD 6 9 .ORDERING, mkD 6 10 .WORK, mkD 6 11 .WORK,
    mkD 6 12 .REST, mkD 6 13 .REST, mkD 6 14 .ORDERING, mkD 6 15 .WORK, mkD 6 16 .WORK,
    mkD 6 17 .REST, mkD 6 18 .REST, mkD 6 19 .ORDERING, mkD 6 20 .WORK, mkD 6 21 .WORK,
    mkD 6 22 .WORK, mkD 6 23 .WORK, mkD 6 24 .WORK, mkD 6 25 .WORK, mkD 6 26 .REST,
    mkD 6 27 .REST],
  [26, 25, 24, 23, 22, 21, 20, 19, 18, 17, 16, 15, 14, 13, 12, 11, 10, 9, 8, 7, 6, 5, 4, 3, 2, 1], [6, 5, 4, 3, 2, 1]⟩

/-- Builder state of iteration 26 after its work block. -/
def bmid26 : ScheduleState := ⟨⟨2025, 7, 5⟩,
  [mkD 1 1 .WORK, mkD 1 2 .WORK, mkD 1 3 .WORK, mkD 1 4 .REST, mkD 1 5 .REST, mkD 1 6 .ORDERING,
    mkD 1 8 .WORK, mkD 1 9 .WORK, mkD 1 10 .REST, mkD 1 11 .REST, mkD 1 12 .ORDERING,
    mkD 1 13 .WORK, mkD 1 14 .WORK, mkD 1 15 .REST, mkD 1 16 .REST, mkD 1 17 .ORDERING,
    mkD 1 18 .WORK, mkD 1 19 .WORK, mkD 1 20 .WORK, mkD 1 21 .WORK, mkD 1 22 .WORK,
    mkD 1 23 .REST, mkD 1 24 .REST, mkD 1 25 .ORDERING, mkD 1 26 .WORK, mkD 1 27 .WORK,
    mkD 1 28 .WORK, mkD 1 29 .WORK, mkD 1 30 .WORK, mkD 1 31 .WORK, mkD 2 1 .REST, mkD 2 2 .REST,
    mkD 2 3 .ORDERING, mkD 2 4 .WORK, mkD 2 5 .WORK, mkD 2 6 .REST, mkD 2 7 .REST,
    mkD 2 8 .ORDERING, mkD 2 9 .WORK, mkD 2 10 .WORK, mkD 2 11 .REST, mkD 2 12 .REST,
    mkD 2 13 .ORDERING, mkD 2 14 .WORK, mkD 2 15 .WORK, mkD 2 16 .WORK, mkD 2 17 .WORK,
    mkD 2 18 .WORK, mkD 2 19 .WORK, mkD 2 20 .REST, mkD 2 21 .REST, mkD 2 22 .ORDERING,
    mkD 2 23 .WORK, mkD 2 24 .WORK, mkD 2 25 .WORK, mkD 2 26 .WORK, mkD 2 27 .WORK,
    mkD 2 28 .WORK, mkD 3 1 .REST, mkD 3 2 .REST, mkD 3 3 .ORDERING, mkD 3 4 .WORK, mkD 3 5 .WORK,
    mkD 3 6 .REST, mkD 3 7 .REST, mkD 3 8 .ORDERING, mkD 3 9 .WORK, mkD 3 10 .WORK,
    mkD 3 11 .REST, mkD 3 12 .REST, mkD 3 13 .ORDERING, mkD 3 14 .WORK, mkD 3 15 .WORK,
    mkD 3 16 .WORK, mkD 3 17 .WORK, mkD 3 18 .REST, mkD 3 19 .REST, mkD 3 20 .ORDERING,
    mkD 3 21 .WORK, mkD 3 22 .WORK, mkD 3 23 .WORK, mkD 3 24 .WORK, mkD 3 25 .WORK,
    mkD 3 26 .WORK, mkD 3 27 .REST, mkD 3 28 .REST, mkD 3 29 .ORDERING, mkD 3 30 .WORK,
    mkD 3 31 .WORK, mkD 4 1 .WORK, mkD 4 2 .WORK, mkD 4 3 .WORK, mkD 4 4 .WORK, mkD 4 5 .REST,
    mkD 4 6 .REST, mkD 4 7 .ORDERING, mkD 4 8 .WORK, mkD 4 9 .WORK, mkD 4 10 .REST,
    mkD 4 11 .REST, mkD 4 12 .ORDERING, mkD 4 13 .WORK, mkD 4 14 .WORK, mkD 4 15 .REST,
    mkD 4 16 .REST, mkD 4 17 .ORDERING, mkD 4 18 .WORK, mkD 4 19 .WORK, mkD 4 20 .WORK,
    mkD 4 21 .WORK, mkD 4 22 .WORK, mkD 4 23 .WORK, mkD 4 24 .REST, mkD 4 25 .REST,
    mkD 4 26 .ORDERING, mkD 4 27 .WORK, mkD 4 28 .WORK, mkD 4 29 .WORK, mkD 4 30 .WORK,
    mkD 5 1 .WORK, mkD 5 2 .WORK, mkD 5 3 .REST, mkD 5 4 .REST, mkD 5 5 .ORDERING, mkD 5 6 .WORK,
    mkD 5 7 .WORK, mkD 5 8 .REST, mkD 5 9 .REST, mkD 5 10 .ORDERING, mkD 5 11 .WORK,
    mkD 5 12 .WORK, mkD 5 13 .REST, mkD 5 14 .REST, mkD 5 15 .ORDERING, mkD 5 16 .WORK,
    mkD 5 17 .WORK, mkD 5 18 .WORK, mkD 5 19 .WORK, mkD 5 20 .REST, mkD 5 21 .REST,
    mkD 5 22 .ORDERING, mkD 5 23 .WORK, mkD 5 24 .WORK, mkD 5 25 .WORK, mkD 5 26 .WORK,
    mkD 5 27 .WORK, mkD 5 28 .WORK, mkD 5 29 .REST, mkD 5 30 .REST, mkD 5 31 .ORDERING,
    mkD 6 1 .WORK, mkD 6 2 .WORK, mkD 6 3 .WORK, mkD 6 4 .WORK, mkD 6 5 .WORK, mkD 6 6 .WORK,
    mkD 6 7 .REST, mkD 6 8 .REST, mkD 6 9 .ORDERING, mkD 6 10 .WORK, mkD 6 11 .WORK,
    mkD 6 12 .REST, mkD 6 13 .REST, mkD 6 14 .ORDERING, mkD 6 15 .WORK, mkD 6 16 .WORK,
    mkD 6 17 .REST, mkD 6 18 .REST, mkD 6 19 .ORDERING, mkD 6 20 .WORK, mkD 6 21 .WORK,
    mkD 6 22 .WORK, mkD 6 23 .WORK, mkD 6 24 .WORK, mkD 6 25 .WORK, mkD 6 26 .REST,
    mkD 6 27 .REST, mkD 6 28 .ORDERING, mkD 6 29 .WORK, mkD 6 30 .WORK, mkD 7 1 .WORK,
    mkD 7 2 .WORK, mkD 7 3 .WORK, mkD 7 4 .WORK],
  [26, 25, 24, 23, 22, 21, 20, 19, 18, 17, 16, 15, 14, 13, 12, 11, 10, 9, 8, 7, 6, 5, 4, 3, 2, 1], [6, 5, 4, 3, 2, 1]⟩

/-- Builder state of the witness run before iteration 27. -/
def bst27 : ScheduleState := ⟨⟨2025, 7, 7⟩,
  [mkD 1 1 .WORK, mkD 1 2 .WORK, mkD 1 3 .WORK, mkD 1 4 .REST, mkD 1 5 .REST, mkD 1 6 .ORDERING,
    mkD 1 8 .WORK, mkD 1 9 .WORK, mkD 1 10 .REST, mkD 1 11 .REST, mkD 1 12 .ORDERING,
    mkD 1 13 .WORK, mkD 1 14 .WORK, mkD 1 15 .REST, mkD 1 16 .REST, mkD 1 17 .ORDERING,
    mkD 1 18 .WORK, mkD 1 19 .WORK, mkD 1 20 .WORK, mkD 1 21 .WORK, mkD 1 22 .WORK,
    mkD 1 23 .REST, mkD 1 24 .REST, mkD 1 25 .ORDERING, mkD 1 26 .WORK, mkD 1 27 .WORK,
    mkD 1 28 .WORK, mkD 1 29 .WORK, mkD 1 30 .WORK, mkD 1 31 .WORK, mkD 2 1 .REST, mkD 2 2 .REST,
    mkD 2 3 .ORDERING, mkD 2 4 .WORK, mkD 2 5 .WORK, mkD 2 6 .REST, mkD 2 7 .REST,
    mkD 2 8 .ORDERING, mkD 2 9 .WORK, mkD 2 10 .WORK, mkD 2 11 .REST, mkD 2 12 .REST,
    mkD 2 13 .ORDERING, mkD 2 14 .WORK, mkD 2 15 .WORK, mkD 2 16 .WORK, mkD 2 17 .WORK,
    mkD 2 18 .WORK, mkD 2 19 .WORK, mkD 2 20 .REST, mkD 2 21 .REST, mkD 2 22 .ORDERING,
    mkD 2 23 .WORK, mkD 2 24 .WORK, mkD 2 25 .WORK, mkD 2 26 .WORK, mkD 2 27 .WORK,
    mkD 2 28 .WORK, mkD 3 1 .REST, mkD 3 2 .REST, mkD 3 3 .ORDERING, mkD 3 4 .WORK, mkD 3 5 .WORK,
    mkD 3 6 .REST, mkD 3 7 .REST, mkD 3 8 .ORDERING, mkD 3 9 .WORK, mkD 3 10 .WORK,
    mkD 3 11 .REST, mkD 3 12 .REST, mkD 3 13 .ORDERING, mkD 3 14 .WORK, mkD 3 15 .WORK,
    mkD 3 16 .WORK, mkD 3 17 .WORK, mkD 3 18 .REST, mkD 3 19 .REST, mkD 3 20 .ORDERING,
    mkD 3 21 .WORK, mkD 3 22 .WORK, mkD 3 23 .WORK, mkD 3 24 .WORK, mkD 3 25 .WORK,
    mkD 3 26 .WORK, mkD 3 27 .REST, mkD 3 28 .REST, mkD 3 29 .ORDERING, mkD 3 30 .WORK,
    mkD 3 31 .WORK, mkD 4 1 .WORK, mkD 4 2 .WORK, mkD 4 3 .WORK, mkD 4 4 .WORK, mkD 4 5 .REST,
    mkD 4 6 .REST, mkD 4 7 .ORDERING, mkD 4 8 .WORK, mkD 4 9 .WORK, mkD 4 10 .REST,
    mkD 4 11 .REST, mkD 4 12 .ORDERING, mkD 4 13 .WORK, mkD 4 14 .WORK, mkD 4 15 .REST,
    mkD 4 16 .REST, mkD 4 17 .ORDERING, mkD 4 18 .WORK, mkD 4 19 .WORK, mkD 4 20 .WORK,
    mkD 4 21 .WORK, mkD 4 22 .WORK, mkD 4 23 .WORK, mkD 4 24 .REST, mkD 4 25 .REST,
    mkD 4 26 .ORDERING, mkD 4 27 .WORK, mkD 4 28 .WORK, mkD 4 29 .WORK, mkD 4 30 .WORK,
    mkD 5 1 .WORK, mkD 5 2 .WORK, mkD 5 3 .REST, mkD 5 4 .REST, mkD 5 5 .ORDERING, mkD 5 6 .WORK,
    mkD 5 7 .WORK, mkD 5 8 .REST, mkD 5 9 .REST, mkD 5 10 .ORDERING, mkD 5 11 .WORK,
    mkD 5 12 .WORK, mkD 5 13 .REST, mkD 5 14 .REST, mkD 5 15 .ORDERING, mkD 5 16 .WORK,
    mkD 5 17 .WORK, mkD 5 18 .WORK, mkD 5 19 .WORK, mkD 5 20 .REST, mkD 5 21 .REST,
    mkD 5 22 .ORDERING, mkD 5 23 .WORK, mkD 5 24 .WORK, mkD 5 25 .WORK, mkD 5 26 .WORK,
    mkD 5 27 .WORK, mkD 5 28 .WORK, mkD 5 29 .REST, mkD 5 30 .REST, mkD 5 31 .ORDERING,
    mkD 6 1 .WORK, mkD 6 2 .WORK, mkD 6 3 .WORK, mkD 6 4 .WORK, mkD 6 5 .WORK, mkD 6 6 .WORK,
    mkD 6 7 .REST, mkD 6 8 .REST, mkD 6 9 .ORDERING, mkD 6 10 .WORK, mkD 6 11 .WORK,
    mkD 6 12 .REST, mkD 6 13 .REST, mkD 6 14 .ORDERING, mkD 6 15 .WORK, mkD 6 16 .WORK,
    mkD 6 17 .REST, mkD 6 18 .REST, mkD 6 19 .ORDERING, mkD 6 20 .WORK, mkD 6 21 .WORK,
    mkD 6 22 .WORK, mkD 6 23 .WORK, mkD 6 24 .WORK, mkD 6 25 .WORK, mkD 6 26 .REST,
    mkD 6 27 .REST, mkD 6 28 .ORDERING, mkD 6 29 .WORK, mkD 6 30 .WORK, mkD 7 1 .WORK,
    mkD 7 2 .WORK, mkD 7 3 .WORK, mkD 7 4 .WORK, mkD 7 5 .REST, mkD 7 6 .REST],
  [27, 26, 25, 24, 23, 22, 21, 20, 19, 18, 17, 16, 15, 14, 13, 12, 11, 10, 9, 8, 7, 6, 5, 4, 3, 2, 1], [7, 6, 5, 4, 3, 2, 1]⟩

/-- Builder state of iteration 27 after its work block. -/
def bmid27 : ScheduleState := ⟨⟨2025, 7, 10⟩,
  [mkD 1 1 .WORK, mkD 1 2 .WORK, mkD 1 3 .WORK, mkD 1 4 .REST, mkD 1 5 .REST, mkD 1 6 .ORDERING,
    mkD 1 8 .WORK, mkD 1 9 .WORK, mkD 1 10 .REST, mkD 1 11 .REST, mkD 1 12 .ORDERING,
    mkD 1 13 .WORK, mkD 1 14 .WORK, mkD 1 15 .REST, mkD 1 16 .REST, mkD 1 17 .ORDERING,
    mkD 1 18 .WORK, mkD 1 19 .WORK, mkD 1 20 .WORK, mkD 1 21 .WORK, mkD 1 22 .WORK,
    mkD 1 23 .REST, mkD 1 24 .REST, mkD 1 25 .ORDERING, mkD 1 26 .WORK, mkD 1 27 .WORK,
    mkD 1 28 .WORK, mkD 1 29 .WORK, mkD 1 30 .WORK, mkD 1 31 .WORK, mkD 2 1 .REST, mkD 2 2 .REST,
    mkD 2 3 .ORDERING, mkD 2 4 .WORK, mkD 2 5 .WORK, mkD 2 6 .REST, mkD 2 7 .REST,
    mkD 2 8 .ORDERING, mkD 2 9 .WORK, mkD 2 10 .WORK, mkD 2 11 .REST, mkD 2 12 .REST,
    mkD 2 13 .ORDERING, mkD 2 14 .WORK, mkD 2 15 .WORK, mkD 2 16 .WORK, mkD 2 17 .WORK,
    mkD 2 18 .WORK, mkD 2 19 .WORK, mkD 2 20 .REST, mkD 2 21 .REST, mkD 2 22 .ORDERING,
    mkD 2 23 .WORK, mkD 2 24 .WORK, mkD 2 25 .WORK, mkD 2 26 .WORK, mkD 2 27 .WORK,
    mkD 2 28 .WORK, mkD 3 1 .REST, mkD 3 2 .REST, mkD 3 3 .ORDERING, mkD 3 4 .WORK, mkD 3 5 .WORK,
    mkD 3 6 .REST, mkD 3 7 .REST, mkD 3 8 .ORDERING, mkD 3 9 .WORK, mkD 3 10 .WORK,
    mkD 3 11 .REST, mkD 3 12 .REST, mkD 3 13 .ORDERING, mkD 3 14 .WORK, mkD 3 15 .WORK,
    mkD 3 16 .WORK, mkD 3 17 .WORK, mkD 3 18 .REST, mkD 3 19 .REST, mkD 3 20 .ORDERING,
    mkD 3 21 .WORK, mkD 3 22 .WORK, mkD 3 23 .WORK, mkD 3 24 .WORK, mkD 3 25 .WORK,
    mkD 3 26 .WORK, mkD 3 27 .REST, mkD 3 28 .REST, mkD 3 29 .ORDERING, mkD 3 30 .WORK,
    mkD 3 31 .WORK, mkD 4 1 .WORK, mkD 4 2 .WORK, mkD 4 3 .WORK, mkD 4 4 .WORK, mkD 4 5 .REST,
    mkD 4 6 .REST, mkD 4 7 .ORDERING, mkD 4 8 .WORK, mkD 4 9 .WORK, mkD 4 10 .REST,
    mkD 4 11 .REST, mkD 4 12 .ORDERING, mkD 4 13 .WORK, mkD 4 14 .WORK, mkD 4 15 .REST,
    mkD 4 16 .REST, mkD 4 17 .ORDERING, mkD 4 18 .WORK, mkD 4 19 .WORK, mkD 4 20 .WORK,
    mkD 4 21 .WORK, mkD 4 22 .WORK, mkD 4 23 .WORK, mkD 4 24 .REST, mkD 4 25 .REST,
    mkD 4 26 .ORDERING, mkD 4 27 .WORK, mkD 4 28 .WORK, mkD 4 29 .WORK, mkD 4 30 .WORK,
    mkD 5 1 .WORK, mkD 5 2 .WORK, mkD 5 3 .REST, mkD 5 4 .REST, mkD 5 5 .ORDERING, mkD 5 6 .WORK,
    mkD 5 7 .WORK, mkD 5 8 .REST, mkD 5 9 .REST, mkD 5 10 .ORDERING, mkD 5 11 .WORK,
    mkD 5 12 .WORK, mkD 5 13 .REST, mkD 5 14 .REST, mkD 5 15 .ORDERING, mkD 5 16 .WORK,
    mkD 5 17 .WORK, mkD 5 18 .WORK, mkD 5 19 .WORK, mkD 5 20 .REST, mkD 5 21 .REST,
    mkD 5 22 .ORDERING, mkD 5 23 .WORK, mkD 5 24 .WORK, mkD 5 25 .WORK, mkD 5 26 .WORK,
    mkD 5 27 .WORK, mkD 5 28 .WORK, mkD 5 29 .REST, mkD 5 30 .REST, mkD 5 31 .ORDERING,
    mkD 6 1 .WORK, mkD 6 2 .WORK, mkD 6 3 .WORK, mkD 6 4 .WORK, mkD 6 5 .WORK, mkD 6 6 .WORK,
    mkD 6 7 .REST, mkD 6 8 .REST, mkD 6 9 .ORDERING, mkD 6 10 .WORK, mkD 6 11 .WORK,
    mkD 6 12 .REST, mkD 6 13 .REST, mkD 6 14 .ORDERING, mkD 6 15 .WORK, mkD 6 16 .WORK,
    mkD 6 17 .REST, mkD 6 18 .REST, mkD 6 19 .ORDERING, mkD 6 20 .WORK, mkD 6 21 .WORK,
    mkD 6 22 .WORK, mkD 6 23 .WORK, mkD 6 24 .WORK, mkD 6 25 .WORK, mkD 6 26 .REST,
    mkD 6 27 .REST, mkD 6 28 .ORDERING, mkD 6 29 .WORK, mkD 6 30 .WORK, mkD 7 1 .WORK,
    mkD 7 2 .WORK, mkD 7 3 .WORK, mkD 7 4 .WORK, mkD 7 5 .REST, mkD 7 6 .REST, mkD 7 7 .ORDERING,
    mkD 7 8 .WORK, mkD 7 9 .WORK],
  [27, 26, 25, 24, 23, 22, 21, 20, 19, 18, 17, 16, 15, 14, 13, 12, 11, 10, 9, 8, 7, 6, 5, 4, 3, 2, 1], [7, 6, 5, 4, 3, 2, 1]⟩

/-- Builder state of the witness run before iteration 28. -/
def bst28 : ScheduleState := ⟨⟨2025, 7, 12⟩,
  [mkD 1 1 .WORK, mkD 1 2 .WORK, mkD 1 3 .WORK, mkD 1 4 .REST, mkD 1 5 .REST, mkD 1 6 .ORDERING,
    mkD 1 8 .WORK, mkD 1 9 .WORK, mkD 1 10 .REST, mkD 1 11 .REST, mkD 1 12 .ORDERING,
    mkD 1 13 .WORK, mkD 1 14 .WORK, mkD 1 15 .REST, mkD 1 16 .REST, mkD 1 17 .ORDERING,
    mkD 1 18 .WORK, mkD 1 19 .WORK, mkD 1 20 .WORK, mkD 1 21 .WORK, mkD 1 22 .WORK,
    mkD 1 23 .REST, mkD 1 24 .REST, mkD 1 25 .ORDERING, mkD 1 26 .WORK, mkD 1 27 .WORK,
    mkD 1 28 .WORK, mkD 1 29 .WORK, mkD 1 30 .WORK, mkD 1 31 .WORK, mkD 2 1 .REST, mkD 2 2 .REST,
    mkD 2 3 .ORDERING, mkD 2 4 .WORK, mkD 2 5 .WORK, mkD 2 6 .REST, mkD 2 7 .REST,
    mkD 2 8 .ORDERING, mkD 2 9 .WORK, mkD 2 10 .WORK, mkD 2 11 .REST, mkD 2 12 .REST,
    mkD 2 13 .ORDERING, mkD 2 14 .WORK, mkD 2 15 .WORK, mkD 2 16 .WORK, mkD 2 17 .WORK,
    mkD 2 18 .WORK, mkD 2 19 .WORK, mkD 2 20 .REST, mkD 2 21 .REST, mkD 2 22 .ORDERING,
    mkD 2 23 .WORK, mkD 2 24 .WORK, mkD 2 25 .WORK, mkD 2 26 .WORK, mkD 2 27 .WORK,
    mkD 2 28 .WORK, mkD 3 1 .REST, mkD 3 2 .REST, mkD 3 3 .ORDERING, mkD 3 4 .WORK, mkD 3 5 .WORK,
    mkD 3 6 .REST, mkD 3 7 .REST, mkD 3 8 .ORDERING, mkD 3 9 .WORK, mkD 3 10 .WORK,
    mkD 3 11 .REST, mkD 3 12 .REST, mkD 3 13 .ORDERING, mkD 3 14 .WORK, mkD 3 15 .WORK,
    mkD 3 16 .WORK, mkD 3 17 .WORK, mkD 3 18 .REST, mkD 3 19 .REST, mkD 3 20 .ORDERING,
    mkD 3 21 .WORK, mkD 3 22 .WORK, mkD 3 23 .WORK, mkD 3 24 .WORK, mkD 3 25 .WORK,
    mkD 3 26 .WORK, mkD 3 27 .REST, mkD 3 28 .REST, mkD 3 29 .ORDERING, mkD 3 30 .WORK,
    mkD 3 31 .WORK, mkD 4 1 .WORK, mkD 4 2 .WORK, mkD 4 3 .WORK, mkD 4 4 .WORK, mkD 4 5 .REST,
    mkD 4 6 .REST, mkD 4 7 .ORDERING, mkD 4 8 .WORK, mkD 4 9 .WORK, mkD 4 10 .REST,
    mkD 4 11 .REST, mkD 4 12 .ORDERING, mkD 4 13 .WORK, mkD 4 14 .WORK, mkD 4 15 .REST,
    mkD 4 16 .REST, mkD 4 17 .ORDERING, mkD 4 18 .WORK, mkD 4 19 .WORK, mkD 4 20 .WORK,
    mkD 4 21 .WORK, mkD 4 22 .WORK, mkD 4 23 .WORK, mkD 4 24 .REST, mkD 4 25 .REST,
    mkD 4 26 .ORDERING, mkD 4 27 .WORK, mkD 4 28 .WORK, mkD 4 29 .WORK, mkD 4 30 .WORK,
    mkD 5 1 .WORK, mkD 5 2 .WORK, mkD 5 3 .REST, mkD 5 4 .REST, mkD 5 5 .ORDERING, mkD 5 6 .WORK,
    mkD 5 7 .WORK, mkD 5 8 .REST, mkD 5 9 .REST, mkD 5 10 .ORDERING, mkD 5 11 .WORK,
    mkD 5 12 .WORK, mkD 5 13 .REST, mkD 5 14 .REST, mkD 5 15 .ORDERING, mkD 5 16 .WORK,
    mkD 5 17 .WORK, mkD 5 18 .WORK, mkD 5 19 .WORK, mkD 5 20 .REST, mkD 5 21 .REST,
    mkD 5 22 .ORDERING, mkD 5 23 .WORK, mkD 5 24 .WORK, mkD 5 25 .WORK, mkD 5 26 .WORK,
    mkD 5 27 .WORK, mkD 5 28 .WORK, mkD 5 29 .REST, mkD 5 30 .REST, mkD 5 31 .ORDERING,
    mkD 6 1 .WORK, mkD 6 2 .WORK, mkD 6 3 .WORK, mkD 6 4 .WORK, mkD 6 5 .WORK, mkD 6 6 .WORK,
    mkD 6 7 .REST, mkD 6 8 .REST, mkD 6 9 .ORDERING, mkD 6 10 .WORK, mkD 6 11 .WORK,
    mkD 6 12 .REST, mkD 6 13 .REST, mkD 6 14 .ORDERING, mkD 6 15 .WORK, mkD 6 16 .WORK,
    mkD 6 17 .REST, mkD 6 18 .REST, mkD 6 19 .ORDERING, mkD 6 20 .WORK, mkD 6 21 .WORK,
    mkD 6 22 .WORK, mkD 6 23 .WORK, mkD 6 24 .WORK, mkD 6 25 .WORK, mkD 6 26 .REST,
    mkD 6 27 .REST, mkD 6 28 .ORDERING, mkD 6 29 .WORK, mkD 6 30 .WORK, mkD 7 1 .WORK,
    mkD 7 2 .WORK, mkD 7 3 .WORK, mkD 7 4 .WORK, mkD 7 5 .REST, mkD 7 6 .REST, mkD 7 7 .ORDERING,
    mkD 7 8 .WORK, mkD 7 9 .WORK, mkD 7 10 .REST, mkD 7 11 .REST],
  [28, 27, 26, 25, 24, 23, 22, 21, 20, 19, 18, 17, 16, 15, 14, 13, 12, 11, 10, 9, 8, 7, 6, 5, 4, 3, 2, 1], [7, 6, 5, 4, 3, 2, 1]⟩

/-- Builder state of iteration 28 after its work block. -/
def bmid28 : ScheduleState := ⟨⟨2025, 7, 15⟩,
  [mkD 1 1 .WORK, mkD 1 2 .WORK, mkD 1 3 .WORK, mkD 1 4 .REST, mkD 1 5 .REST, mkD 1 6 .ORDERING,
    mkD 1 8 .WORK, mkD 1 9 .WORK, mkD 1 10 .REST, mkD 1 11 .REST, mkD 1 12 .ORDERING,
    mkD 1 13 .WORK, mkD 1 14 .WORK, mkD 1 15 .REST, mkD 1 16 .REST, mkD 1 17 .ORDERING,
    mkD 1 18 .WORK, mkD 1 19 .WORK, mkD 1 20 .WORK, mkD 1 21 .WORK, mkD 1 22 .WORK,
    mkD 1 23 .REST, mkD 1 24 .REST, mkD 1 25 .ORDERING, mkD 1 26 .WORK, mkD 1 27 .WORK,
    mkD 1 28 .WORK, mkD 1 29 .WORK, mkD 1 30 .WORK, mkD 1 31 .WORK, mkD 2 1 .REST, mkD 2 2 .REST,
    mkD 2 3 .ORDERING, mkD 2 4 .WORK, mkD 2 5 .WORK, mkD 2 6 .REST, mkD 2 7 .REST,
    mkD 2 8 .ORDERING, mkD 2 9 .WORK, mkD 2 10 .WORK, mkD 2 11 .REST, mkD 2 12 .REST,
    mkD 2 13 .ORDERING, mkD 2 14 .WORK, mkD 2 15 .WORK, mkD 2 16 .WORK, mkD 2 17 .WORK,
    mkD 2 18 .WORK, mkD 2 19 .WORK, mkD 2 20 .REST, mkD 2 21 .REST, mkD 2 22 .ORDERING,
    mkD 2 23 .WORK, mkD 2 24 .WORK, mkD 2 25 .WORK, mkD 2 26 .WORK, mkD 2 27 .WORK,
    mkD 2 28 .WORK, mkD 3 1 .REST, mkD 3 2 .REST, mkD 3 3 .ORDERING, mkD 3 4 .WORK, mkD 3 5 .WORK,
    mkD 3 6 .REST, mkD 3 7 .REST, mkD 3 8 .ORDERING, mkD 3 9 .WORK, mkD 3 10 .WORK,
    mkD 3 11 .REST, mkD 3 12 .REST, mkD 3 13 .ORDERING, mkD 3 14 .WORK, mkD 3 15 .WORK,
    mkD 3 16 .WORK, mkD 3 17 .WORK, mkD 3 18 .REST, mkD 3 19 .REST, mkD 3 20 .ORDERING,
    mkD 3 21 .WORK, mkD 3 22 .WORK, mkD 3 23 .WORK, mkD 3 24 .WORK, mkD 3 25 .WORK,
    mkD 3 26 .WORK, mkD 3 27 .REST, mkD 3 28 .REST, mkD 3 29 .ORDERING, mkD 3 30 .WORK,
    mkD 3 31 .WORK, mkD 4 1 .WORK, mkD 4 2 .WORK, mkD 4 3 .WORK, mkD 4 4 .WORK, mkD 4 5 .REST,
    mkD 4 6 .REST, mkD 4 7 .ORDERING, mkD 4 8 .WORK, mkD 4 9 .WORK, mkD 4 10 .REST,
    mkD 4 11 .REST, mkD 4 12 .ORDERING, mkD 4 13 .WORK, mkD 4 14 .WORK, mkD 4 15 .REST,
    mkD 4 16 .REST, mkD 4 17 .ORDERING, mkD 4 18 .WORK, mkD 4 19 .WORK, mkD 4 20 .WORK,
    mkD 4 21 .WORK, mkD 4 22 .WORK, mkD 4 23 .WORK, mkD 4 24 .REST, mkD 4 25 .REST,
    mkD 4 26 .ORDERING, mkD 4 27 .WORK, mkD 4 28 .WORK, mkD 4 29 .WORK, mkD 4 30 .WORK,
    mkD 5 1 .WORK, mkD 5 2 .WORK, mkD 5 3 .REST, mkD 5 4 .REST, mkD 5 5 .ORDERING, mkD 5 6 .WORK,
    mkD 5 7 .WORK, mkD 5 8 .REST, mkD 5 9 .REST, mkD 5 10 .ORDERING, mkD 5 11 .WORK,
    mkD 5 12 .WORK, mkD 5 13 .REST, mkD 5 14 .REST, mkD 5 15 .ORDERING, mkD 5 16 .WORK,
    mkD 5 17 .WORK, mkD 5 18 .WORK, mkD 5 19 .WORK, mkD 5 20 .REST, mkD 5 21 .REST,
    mkD 5 22 .ORDERING, mkD 5 23 .WORK, mkD 5 24 .WORK, mkD 5 25 .WORK, mkD 5 26 .WORK,
    mkD 5 27 .WORK, mkD 5 28 .WORK, mkD 5 29 .REST, mkD 5 30 .REST, mkD 5 31 .ORDERING,
    mkD 6 1 .WORK, mkD 6 2 .WORK, mkD 6 3 .WORK, mkD 6 4 .WORK, mkD 6 5 .WORK, mkD 6 6 .WORK,
    mkD 6 7 .REST, mkD 6 8 .REST, mkD 6 9 .ORDERING, mkD 6 10 .WORK, mkD 6 11 .WORK,
    mkD 6 12 .REST, mkD 6 13 .REST, mkD 6 14 .ORDERING, mkD 6 15 .WORK, mkD 6 16 .WORK,
    mkD 6 17 .REST, mkD 6 18 .REST, mkD 6 19 .ORDERING, mkD 6 20 .WORK, mkD 6 21 .WORK,
    mkD 6 22 .WORK, mkD 6 23 .WORK, mkD 6 24 .WORK, mkD 6 25 .WORK, mkD 6 26 .REST,
    mkD 6 27 .REST, mkD 6 28 .ORDERING, mkD 6 29 .WORK, mkD 6 30 .WORK, mkD 7 1 .WORK,
    mkD 7 2 .WORK, mkD 7 3 .WORK, mkD 7 4 .WORK, mkD 7 5 .REST, mkD 7 6 .REST, mkD 7 7 .ORDERING,
    mkD 7 8 .WORK, mkD 7 9 .WORK, mkD 7 10 .REST, mkD 7 11 .REST, mkD 7 12 .ORDERING,
    mkD 7 13 .WORK, mkD 7 14 .WORK],
  [28, 27, 26, 25, 24, 23, 22, 21, 20, 19, 18, 17, 16, 15, 14, 13, 12, 11, 10, 9, 8, 7, 6, 5, 4, 3, 2, 1], [7, 6, 5, 4, 3, 2, 1]⟩

/-- Builder state of the witness run before iteration 29. -/
def bst29 : ScheduleState := ⟨⟨2025, 7, 17⟩,
  [mkD 1 1 .WORK, mkD 1 2 .WORK, mkD 1 3 .WORK, mkD 1 4 .REST, mkD 1 5 .REST, mkD 1 6 .ORDERING,
    mkD 1 8 .WORK, mkD 1 9 .WORK, mkD 1 10 .REST, mkD 1 11 .REST, mkD 1 12 .ORDERING,
    mkD 1 13 .WORK, mkD 1 14 .WORK, mkD 1 15 .REST, mkD 1 16 .REST, mkD 1 17 .ORDERING,
    mkD 1 18 .WORK, mkD 1 19 .WORK, mkD 1 20 .WORK, mkD 1 21 .WORK, mkD 1 22 .WORK,
    mkD 1 23 .REST, mkD 1 24 .REST, mkD 1 25 .ORDERING, mkD 1 26 .WORK, mkD 1 27 .WORK,
    mkD 1 28 .WORK, mkD 1 29 .WORK, mkD 1 30 .WORK, mkD 1 31 .WORK, mkD 2 1 .REST, mkD 2 2 .REST,
    mkD 2 3 .ORDERING, mkD 2 4 .WORK, mkD 2 5 .WORK, mkD 2 6 .REST, mkD 2 7 .REST,
    mkD 2 8 .ORDERING, mkD 2 9 .WORK, mkD 2 10 .WORK, mkD 2 11 .REST, mkD 2 12 .REST,
    mkD 2 13 .ORDERING, mkD 2 14 .WORK, mkD 2 15 .WORK, mkD 2 16 .WORK, mkD 2 17 .WORK,
    mkD 2 18 .WORK, mkD 2 19 .WORK, mkD 2 20 .REST, mkD 2 21 .REST, mkD 2 22 .ORDERING,
    mkD 2 23 .WORK, mkD 2 24 .WORK, mkD 2 25 .WORK, mkD 2 26 .WORK, mkD 2 27 .WORK,
    mkD 2 28 .WORK, mkD 3 1 .REST, mkD 3 2 .REST, mkD 3 3 .ORDERING, mkD 3 4 .WORK, mkD 3 5 .WORK,
    mkD 3 6 .REST, mkD 3 7 .REST, mkD 3 8 .ORDERING, mkD 3 9 .WORK, mkD 3 10 .WORK,
    mkD 3 11 .REST, mkD 3 12 .REST, mkD 3 13 .ORDERING, mkD 3 14 .WORK, mkD 3 15 .WORK,
    mkD 3 16 .WORK, mkD 3 17 .WORK, mkD 3 18 .REST, mkD 3 19 .REST, mkD 3 20 .ORDERING,
    mkD 3 21 .WORK, mkD 3 22 .WORK, mkD 3 23 .WORK, mkD 3 24 .WORK, mkD 3 25 .WORK,
    mkD 3 26 .WORK, mkD 3 27 .REST, mkD 3 28 .REST, mkD 3 29 .ORDERING, mkD 3 30 .WORK,
    mkD 3 31 .WORK, mkD 4 1 .WORK, mkD 4 2 .WORK, mkD 4 3 .WORK, mkD 4 4 .WORK, mkD 4 5 .REST,
    mkD 4 6 .REST, mkD 4 7 .ORDERING, mkD 4 8 .WORK, mkD 4 9 .WORK, mkD 4 10 .REST,
    mkD 4 11 .REST, mkD 4 12 .ORDERING, mkD 4 13 .WORK, mkD 4 14 .WORK, mkD 4 15 .REST,
    mkD 4 16 .REST, mkD 4 17 .ORDERING, mkD 4 18 .WORK, mkD 4 19 .WORK, mkD 4 20 .WORK,
    mkD 4 21 .WORK, mkD 4 22 .WORK, mkD 4 23 .WORK, mkD 4 24 .REST, mkD 4 25 .REST,
    mkD 4 26 .ORDERING, mkD 4 27 .WORK, mkD 4 28 .WORK, mkD 4 29 .WORK, mkD 4 30 .WORK,
    mkD 5 1 .WORK, mkD 5 2 .WORK, mkD 5 3 .REST, mkD 5 4 .REST, mkD 5 5 .ORDERING, mkD 5 6 .WORK,
    mkD 5 7 .WORK, mkD 5 8 .REST, mkD 5 9 .REST, mkD 5 10 .ORDERING, mkD 5 11 .WORK,
    mkD 5 12 .WORK, mkD 5 13 .REST, mkD 5 14 .REST, mkD 5 15 .ORDERING, mkD 5 16 .WORK,
    mkD 5 17 .WORK, mkD 5 18 .WORK, mkD 5 19 .WORK, mkD 5 20 .REST, mkD 5 21 .REST,
    mkD 5 22 .ORDERING, mkD 5 23 .WORK, mkD 5 24 .WORK, mkD 5 25 .WORK, mkD 5 26 .WORK,
    mkD 5 27 .WORK, mkD 5 28 .WORK, mkD 5 29 .REST, mkD 5 30 .REST, mkD 5 31 .ORDERING,
    mkD 6 1 .WORK, mkD 6 2 .WORK, mkD 6 3 .WORK, mkD 6 4 .WORK, mkD 6 5 .WORK, mkD 6 6 .WORK,
    mkD 6 7 .REST, mkD 6 8 .REST, mkD 6 9 .ORDERING, mkD 6 10 .WORK, mkD 6 11 .WORK,
    mkD 6 12 .REST, mkD 6 13 .REST, mkD 6 14 .ORDERING, mkD 6 15 .WORK, mkD 6 16 .WORK,
    mkD 6 17 .REST, mkD 6 18 .REST, mkD 6 19 .ORDERING, mkD 6 20 .WORK, mkD 6 21 .WORK,
    mkD 6 22 .WORK, mkD 6 23 .WORK, mkD 6 24 .WORK, mkD 6 25 .WORK, mkD 6 26 .REST,
    mkD 6 27 .REST, mkD 6 28 .ORDERING, mkD 6 29 .WORK, mkD 6 30 .WORK, mkD 7 1 .WORK,
    mkD 7 2 .WORK, mkD 7 3 .WORK, mkD 7 4 .WORK, mkD 7 5 .REST, mkD 7 6 .REST, mkD 7 7 .ORDERING,
    mkD 7 8 .WORK, mkD 7 9 .WORK, mkD 7 10 .REST, mkD 7 11 .REST, mkD 7 12 .ORDERING,
    mkD 7 13 .WORK, mkD 7 14 .WORK, mkD 7 15 .REST, mkD 7 16 .REST],
  [29, 28, 27, 26, 25, 24, 23, 22, 21, 20, 19, 18, 17, 16, 15, 14, 13, 12, 11, 10, 9, 8, 7, 6, 5, 4, 3, 2, 1], [7, 6, 5, 4, 3, 2, 1]⟩

/-- Builder state of iteration 29 after its work block. -/
def bmid29 : ScheduleState := ⟨⟨2025, 7, 24⟩,
  [mkD 1 1 .WORK, mkD 1 2 .WORK, mkD 1 3 .WORK, mkD 1 4 .REST, mkD 1 5 .REST, mkD 1 6 .ORDERING,
    mkD 1 8 .WORK, mkD 1 9 .WORK, mkD 1 10 .REST, mkD 1 11 .REST, mkD 1 12 .ORDERING,
    mkD 1 13 .WORK, mkD 1 14 .WORK, mkD 1 15 .REST, mkD 1 16 .REST, mkD 1 17 .ORDERING,
    mkD 1 18 .WORK, mkD 1 19 .WORK, mkD 1 20 .WORK, mkD 1 21 .WORK, mkD 1 22 .WORK,
    mkD 1 23 .REST, mkD 1 24 .REST, mkD 1 25 .ORDERING, mkD 1 26 .WORK, mkD 1 27 .WORK,
    mkD 1 28 .WORK, mkD 1 29 .WORK, mkD 1 30 .WORK, mkD 1 31 .WORK, mkD 2 1 .REST, mkD 2 2 .REST,
    mkD 2 3 .ORDERING, mkD 2 4 .WORK, mkD 2 5 .WORK, mkD 2 6 .REST, mkD 2 7 .REST,
    mkD 2 8 .ORDERING, mkD 2 9 .WORK, mkD 2 10 .WORK, mkD 2 11 .REST, mkD 2 12 .REST,
    mkD 2 13 .ORDERING, mkD 2 14 .WORK, mkD 2 15 .WORK, mkD 2 16 .WORK, mkD 2 17 .WORK,
    mkD 2 18 .WORK, mkD 2 19 .WORK, mkD 2 20 .REST, mkD 2 21 .REST, mkD 2 22 .ORDERING,
    mkD 2 23 .WORK, mkD 2 24 .WORK, mkD 2 25 .WORK, mkD 2 26 .WORK, mkD 2 27 .WORK,
    mkD 2 28 .WORK, mkD 3 1 .REST, mkD 3 2 .REST, mkD 3 3 .ORDERING, mkD 3 4 .WORK, mkD 3 5 .WORK,
    mkD 3 6 .REST, mkD 3 7 .REST, mkD 3 8 .ORDERING, mkD 3 9 .WORK, mkD 3 10 .WORK,
    mkD 3 11 .REST, mkD 3 12 .REST, mkD 3 13 .ORDERING, mkD 3 14 .WORK, mkD 3 15 .WORK,
    mkD 3 16 .WORK, mkD 3 17 .WORK, mkD 3 18 .REST, mkD 3 19 .REST, mkD 3 20 .ORDERING,
    mkD 3 21 .WORK, mkD 3 22 .WORK, mkD 3 23 .WORK, mkD 3 24 .WORK, mkD 3 25 .WORK,
    mkD 3 26 .WORK, mkD 3 27 .REST, mkD 3 28 .REST, mkD 3 29 .ORDERING, mkD 3 30 .WORK,
    mkD 3 31 .WORK, mkD 4 1 .WORK, mkD 4 2 .WORK, mkD 4 3 .WORK, mkD 4 4 .WORK, mkD 4 5 .REST,
    mkD 4 6 .REST, mkD 4 7 .ORDERING, mkD 4 8 .WORK, mkD 4 9 .WORK, mkD 4 10 .REST,
    mkD 4 11 .REST, mkD 4 12 .ORDERING, mkD 4 13 .WORK, mkD 4 14 .WORK, mkD 4 15 .REST,
    mkD 4 16 .REST, mkD 4 17 .ORDERING, mkD 4 18 .WORK, mkD 4 19 .WORK, mkD 4 20 .WORK,
    mkD 4 21 .WORK, mkD 4 22 .WORK, mkD 4 23 .WORK, mkD 4 24 .REST, mkD 4 25 .REST,
    mkD 4 26 .ORDERING, mkD 4 27 .WORK, mkD 4 28 .WORK, mkD 4 29 .WORK, mkD 4 30 .WORK,
    mkD 5 1 .WORK, mkD 5 2 .WORK, mkD 5 3 .REST, mkD 5 4 .REST, mkD 5 5 .ORDERING, mkD 5 6 .WORK,
    mkD 5 7 .WORK, mkD 5 8 .REST, mkD 5 9 .REST, mkD 5 10 .ORDERING, mkD 5 11 .WORK,
    mkD 5 12 .WORK, mkD 5 13 .REST, mkD 5 14 .REST, mkD 5 15 .ORDERING, mkD 5 16 .WORK,
    mkD 5 17 .WORK, mkD 5 18 .WORK, mkD 5 19 .WORK, mkD 5 20 .REST, mkD 5 21 .REST,
    mkD 5 22 .ORDERING, mkD 5 23 .WORK, mkD 5 24 .WORK, mkD 5 25 .WORK, mkD 5 26 .WORK,
    mkD 5 27 .WORK, mkD 5 28 .WORK, mkD 5 29 .REST, mkD 5 30 .REST, mkD 5 31 .ORDERING,
    mkD 6 1 .WORK, mkD 6 2 .WORK, mkD 6 3 .WORK, mkD 6 4 .WORK, mkD 6 5 .WORK, mkD 6 6 .WORK,
    mkD 6 7 .REST, mkD 6 8 .REST, mkD 6 9 .ORDERING, mkD 6 10 .WORK, mkD 6 11 .WORK,
    mkD 6 12 .REST, mkD 6 13 .REST, mkD 6 14 .ORDERING, mkD 6 15 .WORK, mkD 6 16 .WORK,
    mkD 6 17 .REST, mkD 6 18 .REST, mkD 6 19 .ORDERING, mkD 6 20 .WORK, mkD 6 21 .WORK,
    mkD 6 22 .WORK, mkD 6 23 .WORK, mkD 6 24 .WORK, mkD 6 25 .WORK, mkD 6 26 .REST,
    mkD 6 27 .REST, mkD 6 28 .ORDERING, mkD 6 29 .WORK, mkD 6 30 .WORK, mkD 7 1 .WORK,
    mkD 7 2 .WORK, mkD 7 3 .WORK, mkD 7 4 .WORK, mkD 7 5 .REST, mkD 7 6 .REST, mkD 7 7 .ORDERING,
    mkD 7 8 .WORK, mkD 7 9 .WORK, mkD 7 10 .REST, mkD 7 11 .REST, mkD 7 12 .ORDERING,
    mkD 7 13 .WORK, mkD 7 14 .WORK, mkD 7 15 .REST, mkD 7 16 .REST, mkD 7 17 .ORDERING,
    mkD 7 18 .WORK, mkD 7 19 .WORK, mkD 7 20 .WORK, mkD 7 21 .WORK, mkD 7 22 .WORK,
    mkD 7 23 .WORK],
  [29, 28, 27, 26, 25, 24, 23, 22, 21, 20, 19, 18, 17, 16, 15, 14, 13, 12, 11, 10, 9, 8, 7, 6, 5, 4, 3, 2, 1], [7, 6, 5, 4, 3, 2, 1]⟩

/-- Builder state of the witness run before iteration 30. -/
def bst30 : ScheduleState := ⟨⟨2025, 7, 26⟩,
  [mkD 1 1 .WORK, mkD 1 2 .WORK, mkD 1 3 .WORK, mkD 1 4 .REST, mkD 1 5 .REST, mkD 1 6 .ORDERING,
    mkD 1 8 .WORK, mkD 1 9 .WORK, mkD 1 10 .REST, mkD 1 11 .REST, mkD 1 12 .ORDERING,
    mkD 1 13 .WORK, mkD 1 14 .WORK, mkD 1 15 .REST, mkD 1 16 .REST, mkD 1 17 .ORDERING,
    mkD 1 18 .WORK, mkD 1 19 .WORK, mkD 1 20 .WORK, mkD 1 21 .WORK, mkD 1 22 .WORK,
    mkD 1 23 .REST, mkD 1 24 .REST, mkD 1 25 .ORDERING, mkD 1 26 .WORK, mkD 1 27 .WORK,
    mkD 1 28 .WORK, mkD 1 29 .WORK, mkD 1 30 .WORK, mkD 1 31 .WORK, mkD 2 1 .REST, mkD 2 2 .REST,
    mkD 2 3 .ORDERING, mkD 2 4 .WORK, mkD 2 5 .WORK, mkD 2 6 .REST, mkD 2 7 .REST,
    mkD 2 8 .ORDERING, mkD 2 9 .WORK, mkD 2 10 .WORK, mkD 2 11 .REST, mkD 2 12 .REST,
    mkD 2 13 .ORDERING, mkD 2 14 .WORK, mkD 2 15 .WORK, mkD 2 16 .WORK, mkD 2 17 .WORK,
    mkD 2 18 .WORK, mkD 2 19 .WORK, mkD 2 20 .REST, mkD 2 21 .REST, mkD 2 22 .ORDERING,
    mkD 2 23 .WORK, mkD 2 24 .WORK, mkD 2 25 .WORK, mkD 2 26 .WORK, mkD 2 27 .WORK,
    mkD 2 28 .WORK, mkD 3 1 .REST, mkD 3 2 .REST, mkD 3 3 .ORDERING, mkD 3 4 .WORK, mkD 3 5 .WORK,
    mkD 3 6 .REST, mkD 3 7 .REST, mkD 3 8 .ORDERING, mkD 3 9 .WORK, mkD 3 10 .WORK,
    mkD 3 11 .REST, mkD 3 12 .REST, mkD 3 13 .ORDERING, mkD 3 14 .WORK, mkD 3 15 .WORK,
    mkD 3 16 .WORK, mkD 3 17 .WORK, mkD 3 18 .REST, mkD 3 19 .REST, mkD 3 20 .ORDERING,
    mkD 3 21 .WORK, mkD 3 22 .WORK, mkD 3 23 .WORK, mkD 3 24 .WORK, mkD 3 25 .WORK,
    mkD 3 26 .WORK, mkD 3 27 .REST, mkD 3 28 .REST, mkD 3 29 .ORDERING, mkD 3 30 .WORK,
    mkD 3 31 .WORK, mkD 4 1 .WORK, mkD 4 2 .WORK, mkD 4 3 .WORK, mkD 4 4 .WORK, mkD 4 5 .REST,
    mkD 4 6 .REST, mkD 4 7 .ORDERING, mkD 4 8 .WORK, mkD 4 9 .WORK, mkD 4 10 .REST,
    mkD 4 11 .REST, mkD 4 12 .ORDERING, mkD 4 13 .WORK, mkD 4 14 .WORK, mkD 4 15 .REST,
    mkD 4 16 .REST, mkD 4 17 .ORDERING, mkD 4 18 .WORK, mkD 4 19 .WORK, mkD 4 20 .WORK,
    mkD 4 21 .WORK, mkD 4 22 .WORK, mkD 4 23 .WORK, mkD 4 24 .REST, mkD 4 25 .REST,
    mkD 4 26 .ORDERING, mkD 4 27 .WORK, mkD 4 28 .WORK, mkD 4 29 .WORK, mkD 4 30 .WORK,
    mkD 5 1 .WORK, mkD 5 2 .WORK, mkD 5 3 .REST, mkD 5 4 .REST, mkD 5 5 .ORDERING, mkD 5 6 .WORK,
    mkD 5 7 .WORK, mkD 5 8 .REST, mkD 5 9 .REST, mkD 5 10 .ORDERING, mkD 5 11 .WORK,
    mkD 5 12 .WORK, mkD 5 13 .REST, mkD 5 14 .REST, mkD 5 15 .ORDERING, mkD 5 16 .WORK,
    mkD 5 17 .WORK, mkD 5 18 .WORK, mkD 5 19 .WORK, mkD 5 20 .REST, mkD 5 21 .REST,
    mkD 5 22 .ORDERING, mkD 5 23 .WORK, mkD 5 24 .WORK, mkD 5 25 .WORK, mkD 5 26 .WORK,
    mkD 5 27 .WORK, mkD 5 28 .WORK, mkD 5 29 .REST, mkD 5 30 .REST, mkD 5 31 .ORDERING,
    mkD 6 1 .WORK, mkD 6 2 .WORK, mkD 6 3 .WORK, mkD 6 4 .WORK, mkD 6 5 .WORK, mkD 6 6 .WORK,
    mkD 6 7 .REST, mkD 6 8 .REST, mkD 6 9 .ORDERING, mkD 6 10 .WORK, mkD 6 11 .WORK,
    mkD 6 12 .REST, mkD 6 13 .REST, mkD 6 14 .ORDERING, mkD 6 15 .WORK, mkD 6 16 .WORK,
    mkD 6 17 .REST, mkD 6 18 .REST, mkD 6 19 .ORDERING, mkD 6 20 .WORK, mkD 6 21 .WORK,
    mkD 6 22 .WORK, mkD 6 23 .WORK, mkD 6 24 .WORK, mkD 6 25 .WORK, mkD 6 26 .REST,
    mkD 6 27 .REST, mkD 6 28 .ORDERING, mkD 6 29 .WORK, mkD 6 30 .WORK, mkD 7 1 .WORK,
    mkD 7 2 .WORK, mkD 7 3 .WORK, mkD 7 4 .WORK, mkD 7 5 .REST, mkD 7 6 .REST, mkD 7 7 .ORDERING,
    mkD 7 8 .WORK, mkD 7 9 .WORK, mkD 7 10 .REST, mkD 7 11 .REST, mkD 7 12 .ORDERING,
    mkD 7 13 .WORK, mkD 7 14 .WORK, mkD 7 15 .REST, mkD 7 16 .REST, mkD 7 17 .ORDERING,
    mkD 7 18 .WORK, mkD 7 19 .WORK, mkD 7 20 .WORK, mkD 7 21 .WORK, mkD 7 22 .WORK,
    mkD 7 23 .WORK, mkD 7 24 .REST, mkD 7 25 .REST],
  [30, 29, 28, 27, 26, 25, 24, 23, 22, 21, 20, 19, 18, 17, 16, 15, 14, 13, 12, 11, 10, 9, 8, 7, 6, 5, 4, 3, 2, 1], [7, 6, 5, 4, 3, 2, 1]⟩

/-- Builder state of iteration 30 after its work block. -/
def bmid30 : ScheduleState := ⟨⟨2025, 8, 2⟩,
  [mkD 1 1 .WORK, mkD 1 2 .WORK, mkD 1 3 .WORK, mkD 1 4 .REST, mkD 1 5 .REST, mkD 1 6 .ORDERING,
    mkD 1 8 .WORK, mkD 1 9 .WORK, mkD 1 10 .REST, mkD 1 11 .REST, mkD 1 12 .ORDERING,
    mkD 1 13 .WORK, mkD 1 14 .WORK, mkD 1 15 .REST, mkD 1 16 .REST, mkD 1 17 .ORDERING,
    mkD 1 18 .WORK, mkD 1 19 .WORK, mkD 1 20 .WORK, mkD 1 21 .WORK, mkD 1 22 .WORK,
    mkD 1 23 .REST, mkD 1 24 .REST, mkD 1 25 .ORDERING, mkD 1 26 .WORK, mkD 1 27 .WORK,
    mkD 1 28 .WORK, mkD 1 29 .WORK, mkD 1 30 .WORK, mkD 1 31 .WORK, mkD 2 1 .REST, mkD 2 2 .REST,
    mkD 2 3 .ORDERING, mkD 2 4 .WORK, mkD 2 5 .WORK, mkD 2 6 .REST, mkD 2 7 .REST,
    mkD 2 8 .ORDERING, mkD 2 9 .WORK, mkD 2 10 .WORK, mkD 2 11 .REST, mkD 2 12 .REST,
    mkD 2 13 .ORDERING, mkD 2 14 .WORK, mkD 2 15 .WORK, mkD 2 16 .WORK, mkD 2 17 .WORK,
    mkD 2 18 .WORK, mkD 2 19 .WORK, mkD 2 20 .REST, mkD 2 21 .REST, mkD 2 22 .ORDERING,
    mkD 2 23 .WORK, mkD 2 24 .WORK, mkD 2 25 .WORK, mkD 2 26 .WORK, mkD 2 27 .WORK,
    mkD 2 28 .WORK, mkD 3 1 .REST, mkD 3 2 .REST, mkD 3 3 .ORDERING, mkD 3 4 .WORK, mkD 3 5 .WORK,
    mkD 3 6 .REST, mkD 3 7 .REST, mkD 3 8 .ORDERING, mkD 3 9 .WORK, mkD 3 10 .WORK,
    mkD 3 11 .REST, mkD 3 12 .REST, mkD 3 13 .ORDERING, mkD 3 14 .WORK, mkD 3 15 .WORK,
    mkD 3 16 .WORK, mkD 3 17 .WORK, mkD 3 18 .REST, mkD 3 19 .REST, mkD 3 20 .ORDERING,
    mkD 3 21 .WORK, mkD 3 22 .WORK, mkD 3 23 .WORK, mkD 3 24 .WORK, mkD 3 25 .WORK,
    mkD 3 26 .WORK, mkD 3 27 .REST, mkD 3 28 .REST, mkD 3 29 .ORDERING, mkD 3 30 .WORK,
    mkD 3 31 .WORK, mkD 4 1 .WORK, mkD 4 2 .WORK, mkD 4 3 .WORK, mkD 4 4 .WORK, mkD 4 5 .REST,
    mkD 4 6 .REST, mkD 4 7 .ORDERING, mkD 4 8 .WORK, mkD 4 9 .WORK, mkD 4 10 .REST,
    mkD 4 11 .REST, mkD 4 12 .ORDERING, mkD 4 13 .WORK, mkD 4 14 .WORK, mkD 4 15 .REST,
    mkD 4 16 .REST, mkD 4 17 .ORDERING, mkD 4 18 .WORK, mkD 4 19 .WORK, mkD 4 20 .WORK,
    mkD 4 21 .WORK, mkD 4 22 .WORK, mkD 4 23 .WORK, mkD 4 24 .REST, mkD 4 25 .REST,
    mkD 4 26 .ORDERING, mkD 4 27 .WORK, mkD 4 28 .WORK, mkD 4 29 .WORK, mkD 4 30 .WORK,
    mkD 5 1 .WORK, mkD 5 2 .WORK, mkD 5 3 .REST, mkD 5 4 .REST, mkD 5 5 .ORDERING, mkD 5 6 .WORK,
    mkD 5 7 .WORK, mkD 5 8 .REST, mkD 5 9 .REST, mkD 5 10 .ORDERING, mkD 5 11 .WORK,
    mkD 5 12 .WORK, mkD 5 13 .REST, mkD 5 14 .REST, mkD 5 15 .ORDERING, mkD 5 16 .WORK,
    mkD 5 17 .WORK, mkD 5 18 .WORK, mkD 5 19 .WORK, mkD 5 20 .REST, mkD 5 21 .REST,
    mkD 5 22 .ORDERING, mkD 5 23 .WORK, mkD 5 24 .WORK, mkD 5 25 .WORK, mkD 5 26 .WORK,
    mkD 5 27 .WORK, mkD 5 28 .WORK, mkD 5 29 .REST, mkD 5 30 .REST, mkD 5 31 .ORDERING,
    mkD 6 1 .WORK, mkD 6 2 .WORK, mkD 6 3 .WORK, mkD 6 4 .WORK, mkD 6 5 .WORK, mkD 6 6 .WORK,
    mkD 6 7 .REST, mkD 6 8 .REST, mkD 6 9 .ORDERING, mkD 6 10 .WORK, mkD 6 11 .WORK,
    mkD 6 12 .REST, mkD 6 13 .REST, mkD 6 14 .ORDERING, mkD 6 15 .WORK, mkD 6 16 .WORK,
    mkD 6 17 .REST, mkD 6 18 .REST, mkD 6 19 .ORDERING, mkD 6 20 .WORK, mkD 6 21 .WORK,
    mkD 6 22 .WORK, mkD 6 23 .WORK, mkD 6 24 .WORK, mkD 6 25 .WORK, mkD 6 26 .REST,
    mkD 6 27 .REST, mkD 6 28 .ORDERING, mkD 6 29 .WORK, mkD 6 30 .WORK, mkD 7 1 .WORK,
    mkD 7 2 .WORK, mkD 7 3 .WORK, mkD 7 4 .WORK, mkD 7 5 .REST, mkD 7 6 .REST, mkD 7 7 .ORDERING,
    mkD 7 8 .WORK, mkD 7 9 .WORK, mkD 7 10 .REST, mkD 7 11 .REST, mkD 7 12 .ORDERING,
    mkD 7 13 .WORK, mkD 7 14 .WORK, mkD 7 15 .REST, mkD 7 16 .REST, mkD 7 17 .ORDERING,
    mkD 7 18 .WORK, mkD 7 19 .WORK, mkD 7 20 .WORK, mkD 7 21 .WORK, mkD 7 22 .WORK,
    mkD 7 23 .WORK, mkD 7 24 .REST, mkD 7 25 .REST, mkD 7 26 .ORDERING, mkD 7 27 .WORK,
    mkD 7 28 .WORK, mkD 7 29 .WORK, mkD 7 30 .WORK, mkD 7 31 .WORK, mkD 8 1 .WORK],
  [30, 29, 28, 27, 26, 25, 24, 23, 22, 21, 20, 19, 18, 17, 16, 15, 14, 13, 12, 11, 10, 9, 8, 7, 6, 5, 4, 3, 2, 1], [7, 6, 5, 4, 3, 2, 1]⟩

/-- Builder state of the witness run before iteration 31. -/
def bst31 : ScheduleState := ⟨⟨2025, 8, 4⟩,
  [mkD 1 1 .WORK, mkD 1 2 .WORK, mkD 1 3 .WORK, mkD 1 4 .REST, mkD 1 5 .REST, mkD 1 6 .ORDERING,
    mkD 1 8 .WORK, mkD 1 9 .WORK, mkD 1 10 .REST, mkD 1 11 .REST, mkD 1 12 .ORDERING,
    mkD 1 13 .WORK, mkD 1 14 .WORK, mkD 1 15 .REST, mkD 1 16 .REST, mkD 1 17 .ORDERING,
    mkD 1 18 .WORK, mkD 1 19 .WORK, mkD 1 20 .WORK, mkD 1 21 .WORK, mkD 1 22 .WORK,
    mkD 1 23 .REST, mkD 1 24 .REST, mkD 1 25 .ORDERING, mkD 1 26 .WORK, mkD 1 27 .WORK,
    mkD 1 28 .WORK, mkD 1 29 .WORK, mkD 1 30 .WORK, mkD 1 31 .WORK, mkD 2 1 .REST, mkD 2 2 .REST,
    mkD 2 3 .ORDERING, mkD 2 4 .WORK, mkD 2 5 .WORK, mkD 2 6 .REST, mkD 2 7 .REST,
    mkD 2 8 .ORDERING, mkD 2 9 .WORK, mkD 2 10 .WORK, mkD 2 11 .REST, mkD 2 12 .REST,
    mkD 2 13 .ORDERING, mkD 2 14 .WORK, mkD 2 15 .WORK, mkD 2 16 .WORK, mkD 2 17 .WORK,
    mkD 2 18 .WORK, mkD 2 19 .WORK, mkD 2 20 .REST, mkD 2 21 .REST, mkD 2 22 .ORDERING,
    mkD 2 23 .WORK, mkD 2 24 .WORK, mkD 2 25 .WORK, mkD 2 26 .WORK, mkD 2 27 .WORK,
    mkD 2 28 .WORK, mkD 3 1 .REST, mkD 3 2 .REST, mkD 3 3 .ORDERING, mkD 3 4 .WORK, mkD 3 5 .WORK,
    mkD 3 6 .REST, mkD 3 7 .REST, mkD 3 8 .ORDERING, mkD 3 9 .WORK, mkD 3 10 .WORK,
    mkD 3 11 .REST, mkD 3 12 .REST, mkD 3 13 .ORDERING, mkD 3 14 .WORK, mkD 3 15 .WORK,
    mkD 3 16 .WORK, mkD 3 17 .WORK, mkD 3 18 .REST, mkD 3 19 .REST, mkD 3 20 .ORDERING,
    mkD 3 21 .WORK, mkD 3 22 .WORK, mkD 3 23 .WORK, mkD 3 24 .WORK, mkD 3 25 .WORK,
    mkD 3 26 .WORK, mkD 3 27 .REST, mkD 3 28 .REST, mkD 3 29 .ORDERING, mkD 3 30 .WORK,
    mkD 3 31 .WORK, mkD 4 1 .WORK, mkD 4 2 .WORK, mkD 4 3 .WORK, mkD 4 4 .WORK, mkD 4 5 .REST,
    mkD 4 6 .REST, mkD 4 7 .ORDERING, mkD 4 8 .WORK, mkD 4 9 .WORK, mkD 4 10 .REST,
    mkD 4 11 .REST, mkD 4 12 .ORDERING, mkD 4 13 .WORK, mkD 4 14 .WORK, mkD 4 15 .REST,
    mkD 4 16 .REST, mkD 4 17 .ORDERING, mkD 4 18 .WORK, mkD 4 19 .WORK, mkD 4 20 .WORK,
    mkD 4 21 .WORK, mkD 4 22 .WORK, mkD 4 23 .WORK, mkD 4 24 .REST, mkD 4 25 .REST,
    mkD 4 26 .ORDERING, mkD 4 27 .WORK, mkD 4 28 .WORK, mkD 4 29 .WORK, mkD 4 30 .WORK,
    mkD 5 1 .WORK, mkD 5 2 .WORK, mkD 5 3 .REST, mkD 5 4 .REST, mkD 5 5 .ORDERING, mkD 5 6 .WORK,
    mkD 5 7 .WORK, mkD 5 8 .REST, mkD 5 9 .REST, mkD 5 10 .ORDERING, mkD 5 11 .WORK,
    mkD 5 12 .WORK, mkD 5 13 .REST, mkD 5 14 .REST, mkD 5 15 .ORDERING, mkD 5 16 .WORK,
    mkD 5 17 .WORK, mkD 5 18 .WORK, mkD 5 19 .WORK, mkD 5 20 .REST, mkD 5 21 .REST,
    mkD 5 22 .ORDERING, mkD 5 23 .WORK, mkD 5 24 .WORK, mkD 5 25 .WORK, mkD 5 26 .WORK,
    mkD 5 27 .WORK, mkD 5 28 .WORK, mkD 5 29 .REST, mkD 5 30 .REST, mkD 5 31 .ORDERING,
    mkD 6 1 .WORK, mkD 6 2 .WORK, mkD 6 3 .WORK, mkD 6 4 .WORK, mkD 6 5 .WORK, mkD 6 6 .WORK,
    mkD 6 7 .REST, mkD 6 8 .REST, mkD 6 9 .ORDERING, mkD 6 10 .WORK, mkD 6 11 .WORK,
    mkD 6 12 .REST, mkD 6 13 .REST, mkD 6 14 .ORDERING, mkD 6 15 .WORK, mkD 6 16 .WORK,
    mkD 6 17 .REST, mkD 6 18 .REST, mkD 6 19 .ORDERING, mkD 6 20 .WORK, mkD 6 21 .WORK,
    mkD 6 22 .WORK, mkD 6 23 .WORK, mkD 6 24 .WORK, mkD 6 25 .WORK, mkD 6 26 .REST,
    mkD 6 27 .REST, mkD 6 28 .ORDERING, mkD 6 29 .WORK, mkD 6 30 .WORK, mkD 7 1 .WORK,
    mkD 7 2 .WORK, mkD 7 3 .WORK, mkD 7 4 .WORK, mkD 7 5 .REST, mkD 7 6 .REST, mkD 7 7 .ORDERING,
    mkD 7 8 .WORK, mkD 7 9 .WORK, mkD 7 10 .REST, mkD 7 11 .REST, mkD 7 12 .ORDERING,
    mkD 7 13 .WORK, mkD 7 14 .WORK, mkD 7 15 .REST, mkD 7 16 .REST, mkD 7 17 .ORDERING,
    mkD 7 18 .WORK, mkD 7 19 .WORK, mkD 7 20 .WORK, mkD 7 21 .WORK, mkD 7 22 .WORK,
    mkD 7 23 .WORK, mkD 7 24 .REST, mkD 7 25 .REST, mkD 7 26 .ORDERING, mkD 7 27 .WORK,
    mkD 7 28 .WORK, mkD 7 29 .WORK, mkD 7 30 .WORK, mkD 7 31 .WORK, mkD 8 1 .WORK, mkD 8 2 .REST,
    mkD 8 3 .REST],
  [31, 30, 29, 28, 27, 26, 25, 24, 23, 22, 21, 20, 19, 18, 17, 16, 15, 14, 13, 12, 11, 10, 9, 8, 7, 6, 5, 4, 3, 2, 1], [8, 7, 6, 5, 4, 3, 2, 1]⟩

/-- Builder state of iteration 31 after its work block. -/
def bmid31 : ScheduleState := ⟨⟨2025, 8, 7⟩,
  [mkD 1 1 .WORK, mkD 1 2 .WORK, mkD 1 3 .WORK, mkD 1 4 .REST, mkD 1 5 .REST, mkD 1 6 .ORDERING,
    mkD 1 8 .WORK, mkD 1 9 .WORK, mkD 1 10 .REST, mkD 1 11 .REST, mkD 1 12 .ORDERING,
    mkD 1 13 .WORK, mkD 1 14 .WORK, mkD 1 15 .REST, mkD 1 16 .REST, mkD 1 17 .ORDERING,
    mkD 1 18 .WORK, mkD 1 19 .WORK, mkD 1 20 .WORK, mkD 1 21 .WORK, mkD 1 22 .WORK,
    mkD 1 23 .REST, mkD 1 24 .REST, mkD 1 25 .ORDERING, mkD 1 26 .WORK, mkD 1 27 .WORK,
    mkD 1 28 .WORK, mkD 1 29 .WORK, mkD 1 30 .WORK, mkD 1 31 .WORK, mkD 2 1 .REST, mkD 2 2 .REST,
    mkD 2 3 .ORDERING, mkD 2 4 .WORK, mkD 2 5 .WORK, mkD 2 6 .REST, mkD 2 7 .REST,
    mkD 2 8 .ORDERING, mkD 2 9 .WORK, mkD 2 10 .WORK, mkD 2 11 .REST, mkD 2 12 .REST,
    mkD 2 13 .ORDERING, mkD 2 14 .WORK, mkD 2 15 .WORK, mkD 2 16 .WORK, mkD 2 17 .WORK,
    mkD 2 18 .WORK, mkD 2 19 .WORK, mkD 2 20 .REST, mkD 2 21 .REST, mkD 2 22 .ORDERING,
    mkD 2 23 .WORK, mkD 2 24 .WORK, mkD 2 25 .WORK, mkD 2 26 .WORK, mkD 2 27 .WORK,
    mkD 2 28 .WORK, mkD 3 1 .REST, mkD 3 2 .REST, mkD 3 3 .ORDERING, mkD 3 4 .WORK, mkD 3 5 .WORK,
    mkD 3 6 .REST, mkD 3 7 .REST, mkD 3 8 .ORDERING, mkD 3 9 .WORK, mkD 3 10 .WORK,
    mkD 3 11 .REST, mkD 3 12 .REST, mkD 3 13 .ORDERING, mkD 3 14 .WORK, mkD 3 15 .WORK,
    mkD 3 16 .WORK, mkD 3 17 .WORK, mkD 3 18 .REST, mkD 3 19 .REST, mkD 3 20 .ORDERING,
    mkD 3 21 .WORK, mkD 3 22 .WORK, mkD 3 23 .WORK, mkD 3 24 .WORK, mkD 3 25 .WORK,
    mkD 3 26 .WORK, mkD 3 27 .REST, mkD 3 28 .REST, mkD 3 29 .ORDERING, mkD 3 30 .WORK,
    mkD 3 31 .WORK, mkD 4 1 .WORK, mkD 4 2 .WORK, mkD 4 3 .WORK, mkD 4 4 .WORK, mkD 4 5 .REST,
    mkD 4 6 .REST, mkD 4 7 .ORDERING, mkD 4 8 .WORK, mkD 4 9 .WORK, mkD 4 10 .REST,
    mkD 4 11 .REST, mkD 4 12 .ORDERING, mkD 4 13 .WORK, mkD 4 14 .WORK, mkD 4 15 .REST,
    mkD 4 16 .REST, mkD 4 17 .ORDERING, mkD 4 18 .WORK, mkD 4 19 .WORK, mkD 4 20 .WORK,
    mkD 4 21 .WORK, mkD 4 22 .WORK, mkD 4 23 .WORK, mkD 4 24 .REST, mkD 4 25 .REST,
    mkD 4 26 .ORDERING, mkD 4 27 .WORK, mkD 4 28 .WORK, mkD 4 29 .WORK, mkD 4 30 .WORK,
    mkD 5 1 .WORK, mkD 5 2 .WORK, mkD 5 3 .REST, mkD 5 4 .REST, mkD 5 5 .ORDERING, mkD 5 6 .WORK,
    mkD 5 7 .WORK, mkD 5 8 .REST, mkD 5 9 .REST, mkD 5 10 .ORDERING, mkD 5 11 .WORK,
    mkD 5 12 .WORK, mkD 5 13 .REST, mkD 5 14 .REST, mkD 5 15 .ORDERING, mkD 5 16 .WORK,
    mkD 5 17 .WORK, mkD 5 18 .WORK, mkD 5 19 .WORK, mkD 5 20 .REST, mkD 5 21 .REST,
    mkD 5 22 .ORDERING, mkD 5 23 .WORK, mkD 5 24 .WORK, mkD 5 25 .WORK, mkD 5 26 .WORK,
    mkD 5 27 .WORK, mkD 5 28 .WORK, mkD 5 29 .REST, mkD 5 30 .REST, mkD 5 31 .ORDERING,
    mkD 6 1 .WORK, mkD 6 2 .WORK, mkD 6 3 .WORK, mkD 6 4 .WORK, mkD 6 5 .WORK, mkD 6 6 .WORK,
    mkD 6 7 .REST, mkD 6 8 .REST, mkD 6 9 .ORDERING, mkD 6 10 .WORK, mkD 6 11 .WORK,
    mkD 6 12 .REST, mkD 6 13 .REST, mkD 6 14 .ORDERING, mkD 6 15 .WORK, mkD 6 16 .WORK,
    mkD 6 17 .REST, mkD 6 18 .REST, mkD 6 19 .ORDERING, mkD 6 20 .WORK, mkD 6 21 .WORK,
    mkD 6 22 .WORK, mkD 6 23 .WORK, mkD 6 24 .WORK, mkD 6 25 .WORK, mkD 6 26 .REST,
    mkD 6 27 .REST, mkD 6 28 .ORDERING, mkD 6 29 .WORK, mkD 6 30 .WORK, mkD 7 1 .WORK,
    mkD 7 2 .WORK, mkD 7 3 .WORK, mkD 7 4 .WORK, mkD 7 5 .REST, mkD 7 6 .REST, mkD 7 7 .ORDERING,
    mkD 7 8 .WORK, mkD 7 9 .WORK, mkD 7 10 .REST, mkD 7 11 .REST, mkD 7 12 .ORDERING,
    mkD 7 13 .WORK, mkD 7 14 .WORK, mkD 7 15 .REST, mkD 7 16 .REST, mkD 7 17 .ORDERING,
    mkD 7 18 .WORK, mkD 7 19 .WORK, mkD 7 20 .WORK, mkD 7 21 .WORK, mkD 7 22 .WORK,
    mkD 7 23 .WORK, mkD 7 24 .REST, mkD 7 25 .REST, mkD 7 26 .ORDERING, mkD 7 27 .WORK,
    mkD 7 28 .WORK, mkD 7 29 .WORK, mkD 7 30 .WORK, mkD 7 31 .WORK, mkD 8 1 .WORK, mkD 8 2 .REST,
    mkD 8 3 .REST, mkD 8 4 .ORDERING, mkD 8 5 .WORK, mkD 8 6 .WORK],
  [31, 30, 29, 28, 27, 26, 25, 24, 23, 22, 21, 20, 19, 18, 17, 16, 15, 14, 13, 12, 11, 10, 9, 8, 7, 6, 5, 4, 3, 2, 1], [8, 7, 6, 5, 4, 3, 2, 1]⟩

/-- Builder state of the witness run before iteration 32. -/
def bst32 : ScheduleState := ⟨⟨2025, 8, 9⟩,
  [mkD 1 1 .WORK, mkD 1 2 .WORK, mkD 1 3 .WORK, mkD 1 4 .REST, mkD 1 5 .REST, mkD 1 6 .ORDERING,
    mkD 1 8 .WORK, mkD 1 9 .WORK, mkD 1 10 .REST, mkD 1 11 .REST, mkD 1 12 .ORDERING,
    mkD 1 13 .WORK, mkD 1 14 .WORK, mkD 1 15 .REST, mkD 1 16 .REST, mkD 1 17 .ORDERING,
    mkD 1 18 .WORK, mkD 1 19 .WORK, mkD 1 20 .WORK, mkD 1 21 .WORK, mkD 1 22 .WORK,
    mkD 1 23 .REST, mkD 1 24 .REST, mkD 1 25 .ORDERING, mkD 1 26 .WORK, mkD 1 27 .WORK,
    mkD 1 28 .WORK, mkD 1 29 .WORK, mkD 1 30 .WORK, mkD 1 31 .WORK, mkD 2 1 .REST, mkD 2 2 .REST,
    mkD 2 3 .ORDERING, mkD 2 4 .WORK, mkD 2 5 .WORK, mkD 2 6 .REST, mkD 2 7 .REST,
    mkD 2 8 .ORDERING, mkD 2 9 .WORK, mkD 2 10 .WORK, mkD 2 11 .REST, mkD 2 12 .REST,
    mkD 2 13 .ORDERING, mkD 2 14 .WORK, mkD 2 15 .WORK, mkD 2 16 .WORK, mkD 2 17 .WORK,
    mkD 2 18 .WORK, mkD 2 19 .WORK, mkD 2 20 .REST, mkD 2 21 .REST, mkD 2 22 .ORDERING,
    mkD 2 23 .WORK, mkD 2 24 .WORK, mkD 2 25 .WORK, mkD 2 26 .WORK, mkD 2 27 .WORK,
    mkD 2 28 .WORK, mkD 3 1 .REST, mkD 3 2 .REST, mkD 3 3 .ORDERING, mkD 3 4 .WORK, mkD 3 5 .WORK,
    mkD 3 6 .REST, mkD 3 7 .REST, mkD 3 8 .ORDERING, mkD 3 9 .WORK, mkD 3 10 .WORK,
    mkD 3 11 .REST, mkD 3 12 .REST, mkD 3 13 .ORDERING, mkD 3 14 .WORK, mkD 3 15 .WORK,
    mkD 3 16 .WORK, mkD 3 17 .WORK, mkD 3 18 .REST, mkD 3 19 .REST, mkD 3 20 .ORDERING,
    mkD 3 21 .WORK, mkD 3 22 .WORK, mkD 3 23 .WORK, mkD 3 24 .WORK, mkD 3 25 .WORK,
    mkD 3 26 .WORK, mkD 3 27 .REST, mkD 3 28 .REST, mkD 3 29 .ORDERING, mkD 3 30 .WORK,
    mkD 3 31 .WORK, mkD 4 1 .WORK, mkD 4 2 .WORK, mkD 4 3 .WORK, mkD 4 4 .WORK, mkD 4 5 .REST,
    mkD 4 6 .REST, mkD 4 7 .ORDERING, mkD 4 8 .WORK, mkD 4 9 .WORK, mkD 4 10 .REST,
    mkD 4 11 .REST, mkD 4 12 .ORDERING, mkD 4 13 .WORK, mkD 4 14 .WORK, mkD 4 15 .REST,
    mkD 4 16 .REST, mkD 4 17 .ORDERING, mkD 4 18 .WORK, mkD 4 19 .WORK, mkD 4 20 .WORK,
    mkD 4 21 .WORK, mkD 4 22 .WORK, mkD 4 23 .WORK, mkD 4 24 .REST, mkD 4 25 .REST,
    mkD 4 26 .ORDERING, mkD 4 27 .WORK, mkD 4 28 .WORK, mkD 4 29 .WORK, mkD 4 30 .WORK,
    mkD 5 1 .WORK, mkD 5 2 .WORK, mkD 5 3 .REST, mkD 5 4 .REST, mkD 5 5 .ORDERING, mkD 5 6 .WORK,
    mkD 5 7 .WORK, mkD 5 8 .REST, mkD 5 9 .REST, mkD 5 10 .ORDERING, mkD 5 11 .WORK,
    mkD 5 12 .WORK, mkD 5 13 .REST, mkD 5 14 .REST, mkD 5 15 .ORDERING, mkD 5 16 .WORK,
    mkD 5 17 .WORK, mkD 5 18 .WORK, mkD 5 19 .WORK, mkD 5 20 .REST, mkD 5 21 .REST,
    mkD 5 22 .ORDERING, mkD 5 23 .WORK, mkD 5 24 .WORK, mkD 5 25 .WORK, mkD 5 26 .WORK,
    mkD 5 27 .WORK, mkD 5 28 .WORK, mkD 5 29 .REST, mkD 5 30 .REST, mkD 5 31 .ORDERING,
    mkD 6 1 .WORK, mkD 6 2 .WORK, mkD 6 3 .WORK, mkD 6 4 .WORK, mkD 6 5 .WORK, mkD 6 6 .WORK,
    mkD 6 7 .REST, mkD 6 8 .REST, mkD 6 9 .ORDERING, mkD 6 10 .WORK, mkD 6 11 .WORK,
    mkD 6 12 .REST, mkD 6 13 .REST, mkD 6 14 .ORDERING, mkD 6 15 .WORK, mkD 6 16 .WORK,
    mkD 6 17 .REST, mkD 6 18 .REST, mkD 6 19 .ORDERING, mkD 6 20 .WORK, mkD 6 21 .WORK,
    mkD 6 22 .WORK, mkD 6 23 .WORK, mkD 6 24 .WORK, mkD 6 25 .WORK, mkD 6 26 .REST,
    mkD 6 27 .REST, mkD 6 28 .ORDERING, mkD 6 29 .WORK, mkD 6 30 .WORK, mkD 7 1 .WORK,
    mkD 7 2 .WORK, mkD 7 3 .WORK, mkD 7 4 .WORK, mkD 7 5 .REST, mkD 7 6 .REST, mkD 7 7 .ORDERING,
    mkD 7 8 .WORK, mkD 7 9 .WORK, mkD 7 10 .REST, mkD 7 11 .REST, mkD 7 12 .ORDERING,
    mkD 7 13 .WORK, mkD 7 14 .WORK, mkD 7 15 .REST, mkD 7 16 .REST, mkD 7 17 .ORDERING,
    mkD 7 18 .WORK, mkD 7 19 .WORK, mkD 7 20 .WORK, mkD 7 21 .WORK, mkD 7 22 .WORK,
    mkD 7 23 .WORK, mkD 7 24 .REST, mkD 7 25 .REST, mkD 7 26 .ORDERING, mkD 7 27 .WORK,
    mkD 7 28 .WORK, mkD 7 29 .WORK, mkD 7 30 .WORK, mkD 7 31 .WORK, mkD 8 1 .WORK, mkD 8 2 .REST,
    mkD 8 3 .REST, mkD 8 4 .ORDERING, mkD 8 5 .WORK, mkD 8 6 .WORK, mkD 8 7 .REST, mkD 8 8 .REST],
  [32, 31, 30, 29, 28, 27, 26, 25, 24, 23, 22, 21, 20, 19, 18, 17, 16, 15, 14, 13, 12, 11, 10, 9, 8, 7, 6, 5, 4, 3, 2, 1], [8, 7, 6, 5, 4, 3, 2, 1]⟩

/-- Builder state of iteration 32 after its work block. -/
def bmid32 : ScheduleState := ⟨⟨2025, 8, 12⟩,
  [mkD 1 1 .WORK, mkD 1 2 .WORK, mkD 1 3 .WORK, mkD 1 4 .REST, mkD 1 5 .REST, mkD 1 6 .ORDERING,
    mkD 1 8 .WORK, mkD 1 9 .WORK, mkD 1 10 .REST, mkD 1 11 .REST, mkD 1 12 .ORDERING,
    mkD 1 13 .WORK, mkD 1 14 .WORK, mkD 1 15 .REST, mkD 1 16 .REST, mkD 1 17 .ORDERING,
    mkD 1 18 .WORK, mkD 1 19 .WORK, mkD 1 20 .WORK, mkD 1 21 .WORK, mkD 1 22 .WORK,
    mkD 1 23 .REST, mkD 1 24 .REST, mkD 1 25 .ORDERING, mkD 1 26 .WORK, mkD 1 27 .WORK,
    mkD 1 28 .WORK, mkD 1 29 .WORK, mkD 1 30 .WORK, mkD 1 31 .WORK, mkD 2 1 .REST, mkD 2 2 .REST,
    mkD 2 3 .ORDERING, mkD 2 4 .WORK, mkD 2 5 .WORK, mkD 2 6 .REST, mkD 2 7 .REST,
    mkD 2 8 .ORDERING, mkD 2 9 .WORK, mkD 2 10 .WORK, mkD 2 11 .REST, mkD 2 12 .REST,
    mkD 2 13 .ORDERING, mkD 2 14 .WORK, mkD 2 15 .WORK, mkD 2 16 .WORK, mkD 2 17 .WORK,
    mkD 2 18 .WORK, mkD 2 19 .WORK, mkD 2 20 .REST, mkD 2 21 .REST, mkD 2 22 .ORDERING,
    mkD 2 23 .WORK, mkD 2 24 .WORK, mkD 2 25 .WORK, mkD 2 26 .WORK, mkD 2 27 .WORK,
    mkD 2 28 .WORK, mkD 3 1 .REST, mkD 3 2 .REST, mkD 3 3 .ORDERING, mkD 3 4 .WORK, mkD 3 5 .WORK,
    mkD 3 6 .REST, mkD 3 7 .REST, mkD 3 8 .ORDERING, mkD 3 9 .WORK, mkD 3 10 .WORK,
    mkD 3 11 .REST, mkD 3 12 .REST, mkD 3 13 .ORDERING, mkD 3 14 .WORK, mkD 3 15 .WORK,
    mkD 3 16 .WORK, mkD 3 17 .WORK, mkD 3 18 .REST, mkD 3 19 .REST, mkD 3 20 .ORDERING,
    mkD 3 21 .WORK, mkD 3 22 .WORK, mkD 3 23 .WORK, mkD 3 24 .WORK, mkD 3 25 .WORK,
    mkD 3 26 .WORK, mkD 3 27 .REST, mkD 3 28 .REST, mkD 3 29 .ORDERING, mkD 3 30 .WORK,
    mkD 3 31 .WORK, mkD 4 1 .WORK, mkD 4 2 .WORK, mkD 4 3 .WORK, mkD 4 4 .WORK, mkD 4 5 .REST,
    mkD 4 6 .REST, mkD 4 7 .ORDERING, mkD 4 8 .WORK, mkD 4 9 .WORK, mkD 4 10 .REST,
    mkD 4 11 .REST, mkD 4 12 .ORDERING, mkD 4 13 .WORK, mkD 4 14 .WORK, mkD 4 15 .REST,
    mkD 4 16 .REST, mkD 4 17 .ORDERING, mkD 4 18 .WORK, mkD 4 19 .WORK, mkD 4 20 .WORK,
    mkD 4 21 .WORK, mkD 4 22 .WORK, mkD 4 23 .WORK, mkD 4 24 .REST, mkD 4 25 .REST,
    mkD 4 26 .ORDERING, mkD 4 27 .WORK, mkD 4 28 .WORK, mkD 4 29 .WORK, mkD 4 30 .WORK,
    mkD 5 1 .WORK, mkD 5 2 .WORK, mkD 5 3 .REST, mkD 5 4 .REST, mkD 5 5 .ORDERING, mkD 5 6 .WORK,
    mkD 5 7 .WORK, mkD 5 8 .REST, mkD 5 9 .REST, mkD 5 10 .ORDERING, mkD 5 11 .WORK,
    mkD 5 12 .WORK, mkD 5 13 .REST, mkD 5 14 .REST, mkD 5 15 .ORDERING, mkD 5 16 .WORK,
    mkD 5 17 .WORK, mkD 5 18 .WORK, mkD 5 19 .WORK, mkD 5 20 .REST, mkD 5 21 .REST,
    mkD 5 22 .ORDERING, mkD 5 23 .WORK, mkD 5 24 .WORK, mkD 5 25 .WORK, mkD 5 26 .WORK,
    mkD 5 27 .WORK, mkD 5 28 .WORK, mkD 5 29 .REST, mkD 5 30 .REST, mkD 5 31 .ORDERING,
    mkD 6 1 .WORK, mkD 6 2 .WORK, mkD 6 3 .WORK, mkD 6 4 .WORK, mkD 6 5 .WORK, mkD 6 6 .WORK,
    mkD 6 7 .REST, mkD 6 8 .REST, mkD 6 9 .ORDERING, mkD 6 10 .WORK, mkD 6 11 .WORK,
    mkD 6 12 .REST, mkD 6 13 .REST, mkD 6 14 .ORDERING, mkD 6 15 .WORK, mkD 6 16 .WORK,
    mkD 6 17 .REST, mkD 6 18 .REST, mkD 6 19 .ORDERING, mkD 6 20 .WORK, mkD 6 21 .WORK,
    mkD 6 22 .WORK, mkD 6 23 .WORK, mkD 6 24 .WORK, mkD 6 25 .WORK, mkD 6 26 .REST,
    mkD 6 27 .REST, mkD 6 28 .ORDERING, mkD 6 29 .WORK, mkD 6 30 .WORK, mkD 7 1 .WORK,
    mkD 7 2 .WORK, mkD 7 3 .WORK, mkD 7 4 .WORK, mkD 7 5 .REST, mkD 7 6 .REST, mkD 7 7 .ORDERING,
    mkD 7 8 .WORK, mkD 7 9 .WORK, mkD 7 10 .REST, mkD 7 11 .REST, mkD 7 12 .ORDERING,
    mkD 7 13 .WORK, mkD 7 14 .WORK, mkD 7 15 .REST, mkD 7 16 .REST, mkD 7 17 .ORDERING,
    mkD 7 18 .WORK, mkD 7 19 .WORK, mkD 7 20 .WORK, mkD 7 21 .WORK, mkD 7 22 .WORK,
    mkD 7 23 .WORK, mkD 7 24 .REST, mkD 7 25 .REST, mkD 7 26 .ORDERING, mkD 7 27 .WORK,
    mkD 7 28 .WORK, mkD 7 29 .WORK, mkD 7 30 .WORK, mkD 7 31 .WORK, mkD 8 1 .WORK, mkD 8 2 .REST,
    mkD 8 3 .REST, mkD 8 4 .ORDERING, mkD 8 5 .WORK, mkD 8 6 .WORK, mkD 8 7 .REST, mkD 8 8 .REST,
    mkD 8 9 .ORDERING, mkD 8 10 .WORK, mkD 8 11 .WORK],
  [32, 31, 30, 29, 28, 27, 26, 25, 24, 23, 22, 21, 20, 19, 18, 17, 16, 15, 14, 13, 12, 11, 10, 9, 8, 7, 6, 5, 4, 3, 2, 1], [8, 7, 6, 5, 4, 3, 2, 1]⟩

/-- Builder state of the witness run before iteration 33. -/
def bst33 : ScheduleState := ⟨⟨2025, 8, 14⟩,
  [mkD 1 1 .WORK, mkD 1 2 .WORK, mkD 1 3 .WORK, mkD 1 4 .REST, mkD 1 5 .REST, mkD 1 6 .ORDERING,
    mkD 1 8 .WORK, mkD 1 9 .WORK, mkD 1 10 .REST, mkD 1 11 .REST, mkD 1 12 .ORDERING,
    mkD 1 13 .WORK, mkD 1 14 .WORK, mkD 1 15 .REST, mkD 1 16 .REST, mkD 1 17 .ORDERING,
    mkD 1 18 .WORK, mkD 1 19 .WORK, mkD 1 20 .WORK, mkD 1 21 .WORK, mkD 1 22 .WORK,
    mkD 1 23 .REST, mkD 1 24 .REST, mkD 1 25 .ORDERING, mkD 1 26 .WORK, mkD 1 27 .WORK,
    mkD 1 28 .WORK, mkD 1 29 .WORK, mkD 1 30 .WORK, mkD 1 31 .WORK, mkD 2 1 .REST, mkD 2 2 .REST,
    mkD 2 3 .ORDERING, mkD 2 4 .WORK, mkD 2 5 .WORK, mkD 2 6 .REST, mkD 2 7 .REST,
    mkD 2 8 .ORDERING, mkD 2 9 .WORK, mkD 2 10 .WORK, mkD 2 11 .REST, mkD 2 12 .REST,
    mkD 2 13 .ORDERING, mkD 2 14 .WORK, mkD 2 15 .WORK, mkD 2 16 .WORK, mkD 2 17 .WORK,
    mkD 2 18 .WORK, mkD 2 19 .WORK, mkD 2 20 .REST, mkD 2 21 .REST, mkD 2 22 .ORDERING,
    mkD 2 23 .WORK, mkD 2 24 .WORK, mkD 2 25 .WORK, mkD 2 26 .WORK, mkD 2 27 .WORK,
    mkD 2 28 .WORK, mkD 3 1 .REST, mkD 3 2 .REST, mkD 3 3 .ORDERING, mkD 3 4 .WORK, mkD 3 5 .WORK,
    mkD 3 6 .REST, mkD 3 7 .REST, mkD 3 8 .ORDERING, mkD 3 9 .WORK, mkD 3 10 .WORK,
    mkD 3 11 .REST, mkD 3 12 .REST, mkD 3 13 .ORDERING, mkD 3 14 .WORK, mkD 3 15 .WORK,
    mkD 3 16 .WORK, mkD 3 17 .WORK, mkD 3 18 .REST, mkD 3 19 .REST, mkD 3 20 .ORDERING,
    mkD 3 21 .WORK, mkD 3 22 .WORK, mkD 3 23 .WORK, mkD 3 24 .WORK, mkD 3 25 .WORK,
    mkD 3 26 .WORK, mkD 3 27 .REST, mkD 3 28 .REST, mkD 3 29 .ORDERING, mkD 3 30 .WORK,
    mkD 3 31 .WORK, mkD 4 1 .WORK, mkD 4 2 .WORK, mkD 4 3 .WORK, mkD 4 4 .WORK, mkD 4 5 .REST,
    mkD 4 6 .REST, mkD 4 7 .ORDERING, mkD 4 8 .WORK, mkD 4 9 .WORK, mkD 4 10 .REST,
    mkD 4 11 .REST, mkD 4 12 .ORDERING, mkD 4 13 .WORK, mkD 4 14 .WORK, mkD 4 15 .REST,
    mkD 4 16 .REST, mkD 4 17 .ORDERING, mkD 4 18 .WORK, mkD 4 19 .WORK, mkD 4 20 .WORK,
    mkD 4 21 .WORK, mkD 4 22 .WORK, mkD 4 23 .WORK, mkD 4 24 .REST, mkD 4 25 .REST,
    mkD 4 26 .ORDERING, mkD 4 27 .WORK, mkD 4 28 .WORK, mkD 4 29 .WORK, mkD 4 30 .WORK,
    mkD 5 1 .WORK, mkD 5 2 .WORK, mkD 5 3 .REST, mkD 5 4 .REST, mkD 5 5 .ORDERING, mkD 5 6 .WORK,
    mkD 5 7 .WORK, mkD 5 8 .REST, mkD 5 9 .REST, mkD 5 10 .ORDERING, mkD 5 11 .WORK,
    mkD 5 12 .WORK, mkD 5 13 .REST, mkD 5 14 .REST, mkD 5 15 .ORDERING, mkD 5 16 .WORK,
    mkD 5 17 .WORK, mkD 5 18 .WORK, mkD 5 19 .WORK, mkD 5 20 .REST, mkD 5 21 .REST,
    mkD 5 22 .ORDERING, mkD 5 23 .WORK, mkD 5 24 .WORK, mkD 5 25 .WORK, mkD 5 26 .WORK,
    mkD 5 27 .WORK, mkD 5 28 .WORK, mkD 5 29 .REST, mkD 5 30 .REST, mkD 5 31 .ORDERING,
    mkD 6 1 .WORK, mkD 6 2 .WORK, mkD 6 3 .WORK, mkD 6 4 .WORK, mkD 6 5 .WORK, mkD 6 6 .WORK,
    mkD 6 7 .REST, mkD 6 8 .REST, mkD 6 9 .ORDERING, mkD 6 10 .WORK, mkD 6 11 .WORK,
    mkD 6 12 .REST, mkD 6 13 .REST, mkD 6 14 .ORDERING, mkD 6 15 .WORK, mkD 6 16 .WORK,
    mkD 6 17 .REST, mkD 6 18 .REST, mkD 6 19 .ORDERING, mkD 6 20 .WORK, mkD 6 21 .WORK,
    mkD 6 22 .WORK, mkD 6 23 .WORK, mkD 6 24 .WORK, mkD 6 25 .WORK, mkD 6 26 .REST,
    mkD 6 27 .REST, mkD 6 28 .ORDERING, mkD 6 29 .WORK, mkD 6 30 .WORK, mkD 7 1 .WORK,
    mkD 7 2 .WORK, mkD 7 3 .WORK, mkD 7 4 .WORK, mkD 7 5 .REST, mkD 7 6 .REST, mkD 7 7 .ORDERING,
    mkD 7 8 .WORK, mkD 7 9 .WORK, mkD 7 10 .REST, mkD 7 11 .REST, mkD 7 12 .ORDERING,
    mkD 7 13 .WORK, mkD 7 14 .WORK, mkD 7 15 .REST, mkD 7 16 .REST, mkD 7 17 .ORDERING,
    mkD 7 18 .WORK, mkD 7 19 .WORK, mkD 7 20 .WORK, mkD 7 21 .WORK, mkD 7 22 .WORK,
    mkD 7 23 .WORK, mkD 7 24 .REST, mkD 7 25 .REST, mkD 7 26 .ORDERING, mkD 7 27 .WORK,
    mkD 7 28 .WORK, mkD 7 29 .WORK, mkD 7 30 .WORK, mkD 7 31 .WORK, mkD 8 1 .WORK, mkD 8 2 .REST,
    mkD 8 3 .REST, mkD 8 4 .ORDERING, mkD 8 5 .WORK, mkD 8 6 .WORK, mkD 8 7 .REST, mkD 8 8 .REST,
    mkD 8 9 .ORDERING, mkD 8 10 .WORK, mkD 8 11 .WORK, mkD 8 12 .REST, mkD 8 13 .REST],
  [33, 32, 31, 30, 29, 28, 27, 26, 25, 24, 23, 22, 21, 20, 19, 18, 17, 16, 15, 14, 13, 12, 11, 10, 9, 8, 7, 6, 5, 4, 3, 2, 1], [8, 7, 6, 5, 4, 3, 2, 1]⟩

/-- Builder state of iteration 33 after its work block. -/
def bmid33 : ScheduleState := ⟨⟨2025, 8, 19⟩,
  [mkD 1 1 .WORK, mkD 1 2 .WORK, mkD 1 3 .WORK, mkD 1 4 .REST, mkD 1 5 .REST, mkD 1 6 .ORDERING,
    mkD 1 8 .WORK, mkD 1 9 .WORK, mkD 1 10 .REST, mkD 1 11 .REST, mkD 1 12 .ORDERING,
    mkD 1 13 .WORK, mkD 1 14 .WORK, mkD 1 15 .REST, mkD 1 16 .REST, mkD 1 17 .ORDERING,
    mkD 1 18 .WORK, mkD 1 19 .WORK, mkD 1 20 .WORK, mkD 1 21 .WORK, mkD 1 22 .WORK,
    mkD 1 23 .REST, mkD 1 24 .REST, mkD 1 25 .ORDERING, mkD 1 26 .WORK, mkD 1 27 .WORK,
    mkD 1 28 .WORK, mkD 1 29 .WORK, mkD 1 30 .WORK, mkD 1 31 .WORK, mkD 2 1 .REST, mkD 2 2 .REST,
    mkD 2 3 .ORDERING, mkD 2 4 .WORK, mkD 2 5 .WORK, mkD 2 6 .REST, mkD 2 7 .REST,
    mkD 2 8 .ORDERING, mkD 2 9 .WORK, mkD 2 10 .WORK, mkD 2 11 .REST, mkD 2 12 .REST,
    mkD 2 13 .ORDERING, mkD 2 14 .WORK, mkD 2 15 .WORK, mkD 2 16 .WORK, mkD 2 17 .WORK,
    mkD 2 18 .WORK, mkD 2 19 .WORK, mkD 2 20 .REST, mkD 2 21 .REST, mkD 2 22 .ORDERING,
    mkD 2 23 .WORK, mkD 2 24 .WORK, mkD 2 25 .WORK, mkD 2 26 .WORK, mkD 2 27 .WORK,
    mkD 2 28 .WORK, mkD 3 1 .REST, mkD 3 2 .REST, mkD 3 3 .ORDERING, mkD 3 4 .WORK, mkD 3 5 .WORK,
    mkD 3 6 .REST, mkD 3 7 .REST, mkD 3 8 .ORDERING, mkD 3 9 .WORK, mkD 3 10 .WORK,
    mkD 3 11 .REST, mkD 3 12 .REST, mkD 3 13 .ORDERING, mkD 3 14 .WORK, mkD 3 15 .WORK,
    mkD 3 16 .WORK, mkD 3 17 .WORK, mkD 3 18 .REST, mkD 3 19 .REST, mkD 3 20 .ORDERING,
    mkD 3 21 .WORK, mkD 3 22 .WORK, mkD 3 23 .WORK, mkD 3 24 .WORK, mkD 3 25 .WORK,
    mkD 3 26 .WORK, mkD 3 27 .REST, mkD 3 28 .REST, mkD 3 29 .ORDERING, mkD 3 30 .WORK,
    mkD 3 31 .WORK, mkD 4 1 .WORK, mkD 4 2 .WORK, mkD 4 3 .WORK, mkD 4 4 .WORK, mkD 4 5 .REST,
    mkD 4 6 .REST, mkD 4 7 .ORDERING, mkD 4 8 .WORK, mkD 4 9 .WORK, mkD 4 10 .REST,
    mkD 4 11 .REST, mkD 4 12 .ORDERING, mkD 4 13 .WORK, mkD 4 14 .WORK, mkD 4 15 .REST,
    mkD 4 16 .REST, mkD 4 17 .ORDERING, mkD 4 18 .WORK, mkD 4 19 .WORK, mkD 4 20 .WORK,
    mkD 4 21 .WORK, mkD 4 22 .WORK, mkD 4 23 .WORK, mkD 4 24 .REST, mkD 4 25 .REST,
    mkD 4 26 .ORDERING, mkD 4 27 .WORK, mkD 4 28 .WORK, mkD 4 29 .WORK, mkD 4 30 .WORK,
    mkD 5 1 .WORK, mkD 5 2 .WORK, mkD 5 3 .REST, mkD 5 4 .REST, mkD 5 5 .ORDERING, mkD 5 6 .WORK,
    mkD 5 7 .WORK, mkD 5 8 .REST, mkD 5 9 .REST, mkD 5 10 .ORDERING, mkD 5 11 .WORK,
    mkD 5 12 .WORK, mkD 5 13 .REST, mkD 5 14 .REST, mkD 5 15 .ORDERING, mkD 5 16 .WORK,
    mkD 5 17 .WORK, mkD 5 18 .WORK, mkD 5 19 .WORK, mkD 5 20 .REST, mkD 5 21 .REST,
    mkD 5 22 .ORDERING, mkD 5 23 .WORK, mkD 5 24 .WORK, mkD 5 25 .WORK, mkD 5 26 .WORK,
    mkD 5 27 .WORK, mkD 5 28 .WORK, mkD 5 29 .REST, mkD 5 30 .REST, mkD 5 31 .ORDERING,
    mkD 6 1 .WORK, mkD 6 2 .WORK, mkD 6 3 .WORK, mkD 6 4 .WORK, mkD 6 5 .WORK, mkD 6 6 .WORK,
    mkD 6 7 .REST, mkD 6 8 .REST, mkD 6 9 .ORDERING, mkD 6 10 .WORK, mkD 6 11 .WORK,
    mkD 6 12 .REST, mkD 6 13 .REST, mkD 6 14 .ORDERING, mkD 6 15 .WORK, mkD 6 16 .WORK,
    mkD 6 17 .REST, mkD 6 18 .REST, mkD 6 19 .ORDERING, mkD 6 20 .WORK, mkD 6 21 .WORK,
    mkD 6 22 .WORK, mkD 6 23 .WORK, mkD 6 24 .WORK, mkD 6 25 .WORK, mkD 6 26 .REST,
    mkD 6 27 .REST, mkD 6 28 .ORDERING, mkD 6 29 .WORK, mkD 6 30 .WORK, mkD 7 1 .WORK,
    mkD 7 2 .WORK, mkD 7 3 .WORK, mkD 7 4 .WORK, mkD 7 5 .REST, mkD 7 6 .REST, mkD 7 7 .ORDERING,
    mkD 7 8 .WORK, mkD 7 9 .WORK, mkD 7 10 .REST, mkD 7 11 .REST, mkD 7 12 .ORDERING,
    mkD 7 13 .WORK, mkD 7 14 .WORK, mkD 7 15 .REST, mkD 7 16 .REST, mkD 7 17 .ORDERING,
    mkD 7 18 .WORK, mkD 7 19 .WORK, mkD 7 20 .WORK, mkD 7 21 .WORK, mkD 7 22 .WORK,
    mkD 7 23 .WORK, mkD 7 24 .REST, mkD 7 25 .REST, mkD 7 26 .ORDERING, mkD 7 27 .WORK,
    mkD 7 28 .WORK, mkD 7 29 .WORK, mkD 7 30 .WORK, mkD 7 31 .WORK, mkD 8 1 .WORK, mkD 8 2 .REST,
    mkD 8 3 .REST, mkD 8 4 .ORDERING, mkD 8 5 .WORK, mkD 8 6 .WORK, mkD 8 7 .REST, mkD 8 8 .REST,
    mkD 8 9 .ORDERING, mkD 8 10 .WORK, mkD 8 11 .WORK, mkD 8 12 .REST, mkD 8 13 .REST,
    mkD 8 14 .ORDERING, mkD 8 15 .WORK, mkD 8 16 .WORK, mkD 8 17 .WORK, mkD 8 18 .WORK],
  [33, 32, 31, 30, 29, 28, 27, 26, 25, 24, 23, 22, 21, 20, 19, 18, 17, 16, 15, 14, 13, 12, 11, 10, 9, 8, 7, 6, 5, 4, 3, 2, 1], [8, 7, 6, 5, 4, 3, 2, 1]⟩

/-- Builder state of the witness run before iteration 34. -/
def bst34 : ScheduleState := ⟨⟨2025, 8, 21⟩,
  [mkD 1 1 .WORK, mkD 1 2 .WORK, mkD 1 3 .WORK, mkD 1 4 .REST, mkD 1 5 .REST, mkD 1 6 .ORDERING,
    mkD 1 8 .WORK, mkD 1 9 .WORK, mkD 1 10 .REST, mkD 1 11 .REST, mkD 1 12 .ORDERING,
    mkD 1 13 .WORK, mkD 1 14 .WORK, mkD 1 15 .REST, mkD 1 16 .REST, mkD 1 17 .ORDERING,
    mkD 1 18 .WORK, mkD 1 19 .WORK, mkD 1 20 .WORK, mkD 1 21 .WORK, mkD 1 22 .WORK,
    mkD 1 23 .REST, mkD 1 24 .REST, mkD 1 25 .ORDERING, mkD 1 26 .WORK, mkD 1 27 .WORK,
    mkD 1 28 .WORK, mkD 1 29 .WORK, mkD 1 30 .WORK, mkD 1 31 .WORK, mkD 2 1 .REST, mkD 2 2 .REST,
    mkD 2 3 .ORDERING, mkD 2 4 .WORK, mkD 2 5 .WORK, mkD 2 6 .REST, mkD 2 7 .REST,
    mkD 2 8 .ORDERING, mkD 2 9 .WORK, mkD 2 10 .WORK, mkD 2 11 .REST, mkD 2 12 .REST,
    mkD 2 13 .ORDERING, mkD 2 14 .WORK, mkD 2 15 .WORK, mkD 2 16 .WORK, mkD 2 17 .WORK,
    mkD 2 18 .WORK, mkD 2 19 .WORK, mkD 2 20 .REST, mkD 2 21 .REST, mkD 2 22 .ORDERING,
    mkD 2 23 .WORK, mkD 2 24 .WORK, mkD 2 25 .WORK, mkD 2 26 .WORK, mkD 2 27 .WORK,
    mkD 2 28 .WORK, mkD 3 1 .REST, mkD 3 2 .REST, mkD 3 3 .ORDERING, mkD 3 4 .WORK, mkD 3 5 .WORK,
    mkD 3 6 .REST, mkD 3 7 .REST, mkD 3 8 .ORDERING, mkD 3 9 .WORK, mkD 3 10 .WORK,
    mkD 3 11 .REST, mkD 3 12 .REST, mkD 3 13 .ORDERING, mkD 3 14 .WORK, mkD 3 15 .WORK,
    mkD 3 16 .WORK, mkD 3 17 .WORK, mkD 3 18 .REST, mkD 3 19 .REST, mkD 3 20 .ORDERING,
    mkD 3 21 .WORK, mkD 3 22 .WORK, mkD 3 23 .WORK, mkD 3 24 .WORK, mkD 3 25 .WORK,
    mkD 3 26 .WORK, mkD 3 27 .REST, mkD 3 28 .REST, mkD 3 29 .ORDERING, mkD 3 30 .WORK,
    mkD 3 31 .WORK, mkD 4 1 .WORK, mkD 4 2 .WORK, mkD 4 3 .WORK, mkD 4 4 .WORK, mkD 4 5 .REST,
    mkD 4 6 .REST, mkD 4 7 .ORDERING, mkD 4 8 .WORK, mkD 4 9 .WORK, mkD 4 10 .REST,
    mkD 4 11 .REST, mkD 4 12 .ORDERING, mkD 4 13 .WORK, mkD 4 14 .WORK, mkD 4 15 .REST,
    mkD 4 16 .REST, mkD 4 17 .ORDERING, mkD 4 18 .WORK, mkD 4 19 .WORK, mkD 4 20 .WORK,
    mkD 4 21 .WORK, mkD 4 22 .WORK, mkD 4 23 .WORK, mkD 4 24 .REST, mkD 4 25 .REST,
    mkD 4 26 .ORDERING, mkD 4 27 .WORK, mkD 4 28 .WORK, mkD 4 29 .WORK, mkD 4 30 .WORK,
    mkD 5 1 .WORK, mkD 5 2 .WORK, mkD 5 3 .REST, mkD 5 4 .REST, mkD 5 5 .ORDERING, mkD 5 6 .WORK,
    mkD 5 7 .WORK, mkD 5 8 .REST, mkD 5 9 .REST, mkD 5 10 .ORDERING, mkD 5 11 .WORK,
    mkD 5 12 .WORK, mkD 5 13 .REST, mkD 5 14 .REST, mkD 5 15 .ORDERING, mkD 5 16 .WORK,
    mkD 5 17 .WORK, mkD 5 18 .WORK, mkD 5 19 .WORK, mkD 5 20 .REST, mkD 5 21 .REST,
    mkD 5 22 .ORDERING, mkD 5 23 .WORK, mkD 5 24 .WORK, mkD 5 25 .WORK, mkD 5 26 .WORK,
    mkD 5 27 .WORK, mkD 5 28 .WORK, mkD 5 29 .REST, mkD 5 30 .REST, mkD 5 31 .ORDERING,
    mkD 6 1 .WORK, mkD 6 2 .WORK, mkD 6 3 .WORK, mkD 6 4 .WORK, mkD 6 5 .WORK, mkD 6 6 .WORK,
    mkD 6 7 .REST, mkD 6 8 .REST, mkD 6 9 .ORDERING, mkD 6 10 .WORK, mkD 6 11 .WORK,
    mkD 6 12 .REST, mkD 6 13 .REST, mkD 6 14 .ORDERING, mkD 6 15 .WORK, mkD 6 16 .WORK,
    mkD 6 17 .REST, mkD 6 18 .REST, mkD 6 19 .ORDERING, mkD 6 20 .WORK, mkD 6 21 .WORK,
    mkD 6 22 .WORK, mkD 6 23 .WORK, mkD 6 24 .WORK, mkD 6 25 .WORK, mkD 6 26 .REST,
    mkD 6 27 .REST, mkD 6 28 .ORDERING, mkD 6 29 .WORK, mkD 6 30 .WORK, mkD 7 1 .WORK,
    mkD 7 2 .WORK, mkD 7 3 .WORK, mkD 7 4 .WORK, mkD 7 5 .REST, mkD 7 6 .REST, mkD 7 7 .ORDERING,
    mkD 7 8 .WORK, mkD 7 9 .WORK, mkD 7 10 .REST, mkD 7 11 .REST, mkD 7 12 .ORDERING,
    mkD 7 13 .WORK, mkD 7 14 .WORK, mkD 7 15 .REST, mkD 7 16 .REST, mkD 7 17 .ORDERING,
    mkD 7 18 .WORK, mkD 7 19 .WORK, mkD 7 20 .WORK, mkD 7 21 .WORK, mkD 7 22 .WORK,
    mkD 7 23 .WORK, mkD 7 24 .REST, mkD 7 25 .REST, mkD 7 26 .ORDERING, mkD 7 27 .WORK,
    mkD 7 28 .WORK, mkD 7 29 .WORK, mkD 7 30 .WORK, mkD 7 31 .WORK, mkD 8 1 .WORK, mkD 8 2 .REST,
    mkD 8 3 .REST, mkD 8 4 .ORDERING, mkD 8 5 .WORK, mkD 8 6 .WORK, mkD 8 7 .REST, mkD 8 8 .REST,
    mkD 8 9 .ORDERING, mkD 8 10 .WORK, mkD 8 11 .WORK, mkD 8 12 .REST, mkD 8 13 .REST,
    mkD 8 14 .ORDERING, mkD 8 15 .WORK, mkD 8 16 .WORK, mkD 8 17 .WORK, mkD 8 18 .WORK,
    mkD 8 19 .REST, mkD 8 20 .REST],
  [34, 33, 32, 31, 30, 29, 28, 27, 26, 25, 24, 23, 22, 21, 20, 19, 18, 17, 16, 15, 14, 13, 12, 11, 10, 9, 8, 7, 6, 5, 4, 3, 2, 1], [8, 7, 6, 5, 4, 3, 2, 1]⟩

/-- Builder state of iteration 34 after its work block. -/
def bmid34 : ScheduleState := ⟨⟨2025, 8, 28⟩,
  [mkD 1 1 .WORK, mkD 1 2 .WORK, mkD 1 3 .WORK, mkD 1 4 .REST, mkD 1 5 .REST, mkD 1 6 .ORDERING,
    mkD 1 8 .WORK, mkD 1 9 .WORK, mkD 1 10 .REST, mkD 1 11 .REST, mkD 1 12 .ORDERING,
    mkD 1 13 .WORK, mkD 1 14 .WORK, mkD 1 15 .REST, mkD 1 16 .REST, mkD 1 17 .ORDERING,
    mkD 1 18 .WORK, mkD 1 19 .WORK, mkD 1 20 .WORK, mkD 1 21 .WORK, mkD 1 22 .WORK,
    mkD 1 23 .REST, mkD 1 24 .REST, mkD 1 25 .ORDERING, mkD 1 26 .WORK, mkD 1 27 .WORK,
    mkD 1 28 .WORK, mkD 1 29 .WORK, mkD 1 30 .WORK, mkD 1 31 .WORK, mkD 2 1 .REST, mkD 2 2 .REST,
    mkD 2 3 .ORDERING, mkD 2 4 .WORK, mkD 2 5 .WORK, mkD 2 6 .REST, mkD 2 7 .REST,
    mkD 2 8 .ORDERING, mkD 2 9 .WORK, mkD 2 10 .WORK, mkD 2 11 .REST, mkD 2 12 .REST,
    mkD 2 13 .ORDERING, mkD 2 14 .WORK, mkD 2 15 .WORK, mkD 2 16 .WORK, mkD 2 17 .WORK,
    mkD 2 18 .WORK, mkD 2 19 .WORK, mkD 2 20 .REST, mkD 2 21 .REST, mkD 2 22 .ORDERING,
    mkD 2 23 .WORK, mkD 2 24 .WORK, mkD 2 25 .WORK, mkD 2 26 .WORK, mkD 2 27 .WORK,
    mkD 2 28 .WORK, mkD 3 1 .REST, mkD 3 2 .REST, mkD 3 3 .ORDERING, mkD 3 4 .WORK, mkD 3 5 .WORK,
    mkD 3 6 .REST, mkD 3 7 .REST, mkD 3 8 .ORDERING, mkD 3 9 .WORK, mkD 3 10 .WORK,
    mkD 3 11 .REST, mkD 3 12 .REST, mkD 3 13 .ORDERING, mkD 3 14 .WORK, mkD 3 15 .WORK,
    mkD 3 16 .WORK, mkD 3 17 .WORK, mkD 3 18 .REST, mkD 3 19 .REST, mkD 3 20 .ORDERING,
    mkD 3 21 .WORK, mkD 3 22 .WORK, mkD 3 23 .WORK, mkD 3 24 .WORK, mkD 3 25 .WORK,
    mkD 3 26 .WORK, mkD 3 27 .REST, mkD 3 28 .REST, mkD 3 29 .ORDERING, mkD 3 30 .WORK,
    mkD 3 31 .WORK, mkD 4 1 .WORK, mkD 4 2 .WORK, mkD 4 3 .WORK, mkD 4 4 .WORK, mkD 4 5 .REST,
    mkD 4 6 .REST, mkD 4 7 .ORDERING, mkD 4 8 .WORK, mkD 4 9 .WORK, mkD 4 10 .REST,
    mkD 4 11 .REST, mkD 4 12 .ORDERING, mkD 4 13 .WORK, mkD 4 14 .WORK, mkD 4 15 .REST,
    mkD 4 16 .REST, mkD 4 17 .ORDERING, mkD 4 18 .WORK, mkD 4 19 .WORK, mkD 4 20 .WORK,
    mkD 4 21 .WORK, mkD 4 22 .WORK, mkD 4 23 .WORK, mkD 4 24 .REST, mkD 4 25 .REST,
    mkD 4 26 .ORDERING, mkD 4 27 .WORK, mkD 4 28 .WORK, mkD 4 29 .WORK, mkD 4 30 .WORK,
    mkD 5 1 .WORK, mkD 5 2 .WORK, mkD 5 3 .REST, mkD 5 4 .REST, mkD 5 5 .ORDERING, mkD 5 6 .WORK,
    mkD 5 7 .WORK, mkD 5 8 .REST, mkD 5 9 .REST, mkD 5 10 .ORDERING, mkD 5 11 .WORK,
    mkD 5 12 .WORK, mkD 5 13 .REST, mkD 5 14 .REST, mkD 5 15 .ORDERING, mkD 5 16 .WORK,
    mkD 5 17 .WORK, mkD 5 18 .WORK, mkD 5 19 .WORK, mkD 5 20 .REST, mkD 5 21 .REST,
    mkD 5 22 .ORDERING, mkD 5 23 .WORK, mkD 5 24 .WORK, mkD 5 25 .WORK, mkD 5 26 .WORK,
    mkD 5 27 .WORK, mkD 5 28 .WORK, mkD 5 29 .REST, mkD 5 30 .REST, mkD 5 31 .ORDERING,
    mkD 6 1 .WORK, mkD 6 2 .WORK, mkD 6 3 .WORK, mkD 6 4 .WORK, mkD 6 5 .WORK, mkD 6 6 .WORK,
    mkD 6 7 .REST, mkD 6 8 .REST, mkD 6 9 .ORDERING, mkD 6 10 .WORK, mkD 6 11 .WORK,
    mkD 6 12 .REST, mkD 6 13 .REST, mkD 6 14 .ORDERING, mkD 6 15 .WORK, mkD 6 16 .WORK,
    mkD 6 17 .REST, mkD 6 18 .REST, mkD 6 19 .ORDERING, mkD 6 20 .WORK, mkD 6 21 .WORK,
    mkD 6 22 .WORK, mkD 6 23 .WORK, mkD 6 24 .WORK, mkD 6 25 .WORK, mkD 6 26 .REST,
    mkD 6 27 .REST, mkD 6 28 .ORDERING, mkD 6 29 .WORK, mkD 6 30 .WORK, mkD 7 1 .WORK,
    mkD 7 2 .WORK, mkD 7 3 .WORK, mkD 7 4 .WORK, mkD 7 5 .REST, mkD 7 6 .REST, mkD 7 7 .ORDERING,
    mkD 7 8 .WORK, mkD 7 9 .WORK, mkD 7 10 .REST, mkD 7 11 .REST, mkD 7 12 .ORDERING,
    mkD 7 13 .WORK, mkD 7 14 .WORK, mkD 7 15 .REST, mkD 7 16 .REST, mkD 7 17 .ORDERING,
    mkD 7 18 .WORK, mkD 7 19 .WORK, mkD 7 20 .WORK, mkD 7 21 .WORK, mkD 7 22 .WORK,
    mkD 7 23 .WORK, mkD 7 24 .REST, mkD 7 25 .REST, mkD 7 26 .ORDERING, mkD 7 27 .WORK,
    mkD 7 28 .WORK, mkD 7 29 .WORK, mkD 7 30 .WORK, mkD 7 31 .WORK, mkD 8 1 .WORK, mkD 8 2 .REST,
    mkD 8 3 .REST, mkD 8 4 .ORDERING, mkD 8 5 .WORK, mkD 8 6 .WORK, mkD 8 7 .REST, mkD 8 8 .REST,
    mkD 8 9 .ORDERING, mkD 8 10 .WORK, mkD 8 11 .WORK, mkD 8 12 .REST, mkD 8 13 .REST,
    mkD 8 14 .ORDERING, mkD 8 15 .WORK, mkD 8 16 .WORK, mkD 8 17 .WORK, mkD 8 18 .WORK,
    mkD 8 19 .REST, mkD 8 20 .REST, mkD 8 21 .ORDERING, mkD 8 22 .WORK, mkD 8 23 .WORK,
    mkD 8 24 .WORK, mkD 8 25 .WORK, mkD 8 26 .WORK, mkD 8 27 .WORK],
  [34, 33, 32, 31, 30, 29, 28, 27, 26, 25, 24, 23, 22, 21, 20, 19, 18, 17, 16, 15, 14, 13, 12, 11, 10, 9, 8, 7, 6, 5, 4, 3, 2, 1], [8, 7, 6, 5, 4, 3, 2, 1]⟩

/-- Builder state of the witness run before iteration 35. -/
def bst35 : ScheduleState := ⟨⟨2025, 8, 30⟩,
  [mkD 1 1 .WORK, mkD 1 2 .WORK, mkD 1 3 .WORK, mkD 1 4 .REST, mkD 1 5 .REST, mkD 1 6 .ORDERING,
    mkD 1 8 .WORK, mkD 1 9 .WORK, mkD 1 10 .REST, mkD 1 11 .REST, mkD 1 12 .ORDERING,
    mkD 1 13 .WORK, mkD 1 14 .WORK, mkD 1 15 .REST, mkD 1 16 .REST, mkD 1 17 .ORDERING,
    mkD 1 18 .WORK, mkD 1 19 .WORK, mkD 1 20 .WORK, mkD 1 21 .WORK, mkD 1 22 .WORK,
    mkD 1 23 .REST, mkD 1 24 .REST, mkD 1 25 .ORDERING, mkD 1 26 .WORK, mkD 1 27 .WORK,
    mkD 1 28 .WORK, mkD 1 29 .WORK, mkD 1 30 .WORK, mkD 1 31 .WORK, mkD 2 1 .REST, mkD 2 2 .REST,
    mkD 2 3 .ORDERING, mkD 2 4 .WORK, mkD 2 5 .WORK, mkD 2 6 .REST, mkD 2 7 .REST,
    mkD 2 8 .ORDERING, mkD 2 9 .WORK, mkD 2 10 .WORK, mkD 2 11 .REST, mkD 2 12 .REST,
    mkD 2 13 .ORDERING, mkD 2 14 .WORK, mkD 2 15 .WORK, mkD 2 16 .WORK, mkD 2 17 .WORK,
    mkD 2 18 .WORK, mkD 2 19 .WORK, mkD 2 20 .REST, mkD 2 21 .REST, mkD 2 22 .ORDERING,
    mkD 2 23 .WORK, mkD 2 24 .WORK, mkD 2 25 .WORK, mkD 2 26 .WORK, mkD 2 27 .WORK,
    mkD 2 28 .WORK, mkD 3 1 .REST, mkD 3 2 .REST, mkD 3 3 .ORDERING, mkD 3 4 .WORK, mkD 3 5 .WORK,
    mkD 3 6 .REST, mkD 3 7 .REST, mkD 3 8 .ORDERING, mkD 3 9 .WORK, mkD 3 10 .WORK,
    mkD 3 11 .REST, mkD 3 12 .REST, mkD 3 13 .ORDERING, mkD 3 14 .WORK, mkD 3 15 .WORK,
    mkD 3 16 .WORK, mkD 3 17 .WORK, mkD 3 18 .REST, mkD 3 19 .REST, mkD 3 20 .ORDERING,
    mkD 3 21 .WORK, mkD 3 22 .WORK, mkD 3 23 .WORK, mkD 3 24 .WORK, mkD 3 25 .WORK,
    mkD 3 26 .WORK, mkD 3 27 .REST, mkD 3 28 .REST, mkD 3 29 .ORDERING, mkD 3 30 .WORK,
    mkD 3 31 .WORK, mkD 4 1 .WORK, mkD 4 2 .WORK, mkD 4 3 .WORK, mkD 4 4 .WORK, mkD 4 5 .REST,
    mkD 4 6 .REST, mkD 4 7 .ORDERING, mkD 4 8 .WORK, mkD 4 9 .WORK, mkD 4 10 .REST,
    mkD 4 11 .REST, mkD 4 12 .ORDERING, mkD 4 13 .WORK, mkD 4 14 .WORK, mkD 4 15 .REST,
    mkD 4 16 .REST, mkD 4 17 .ORDERING, mkD 4 18 .WORK, mkD 4 19 .WORK, mkD 4 20 .WORK,
    mkD 4 21 .WORK, mkD 4 22 .WORK, mkD 4 23 .WORK, mkD 4 24 .REST, mkD 4 25 .REST,
    mkD 4 26 .ORDERING, mkD 4 27 .WORK, mkD 4 28 .WORK, mkD 4 29 .WORK, mkD 4 30 .WORK,
    mkD 5 1 .WORK, mkD 5 2 .WORK, mkD 5 3 .REST, mkD 5 4 .REST, mkD 5 5 .ORDERING, mkD 5 6 .WORK,
    mkD 5 7 .WORK, mkD 5 8 .REST, mkD 5 9 .REST, mkD 5 10 .ORDERING, mkD 5 11 .WORK,
    mkD 5 12 .WORK, mkD 5 13 .REST, mkD 5 14 .REST, mkD 5 15 .ORDERING, mkD 5 16 .WORK,
    mkD 5 17 .WORK, mkD 5 18 .WORK, mkD 5 19 .WORK, mkD 5 20 .REST, mkD 5 21 .REST,
    mkD 5 22 .ORDERING, mkD 5 23 .WORK, mkD 5 24 .WORK, mkD 5 25 .WORK, mkD 5 26 .WORK,
    mkD 5 27 .WORK, mkD 5 28 .WORK, mkD 5 29 .REST, mkD 5 30 .REST, mkD 5 31 .ORDERING,
    mkD 6 1 .WORK, mkD 6 2 .WORK, mkD 6 3 .WORK, mkD 6 4 .WORK, mkD 6 5 .WORK, mkD 6 6 .WORK,
    mkD 6 7 .REST, mkD 6 8 .REST, mkD 6 9 .ORDERING, mkD 6 10 .WORK, mkD 6 11 .WORK,
    mkD 6 12 .REST, mkD 6 13 .REST, mkD 6 14 .ORDERING, mkD 6 15 .WORK, mkD 6 16 .WORK,
    mkD 6 17 .REST, mkD 6 18 .REST, mkD 6 19 .ORDERING, mkD 6 20 .WORK, mkD 6 21 .WORK,
    mkD 6 22 .WORK, mkD 6 23 .WORK, mkD 6 24 .WORK, mkD 6 25 .WORK, mkD 6 26 .REST,
    mkD 6 27 .REST, mkD 6 28 .ORDERING, mkD 6 29 .WORK, mkD 6 30 .WORK, mkD 7 1 .WORK,
    mkD 7 2 .WORK, mkD 7 3 .WORK, mkD 7 4 .WORK, mkD 7 5 .REST, mkD 7 6 .REST, mkD 7 7 .ORDERING,
    mkD 7 8 .WORK, mkD 7 9 .WORK, mkD 7 10 .REST, mkD 7 11 .REST, mkD 7 12 .ORDERING,
    mkD 7 13 .WORK, mkD 7 14 .WORK, mkD 7 15 .REST, mkD 7 16 .REST, mkD 7 17 .ORDERING,
    mkD 7 18 .WORK, mkD 7 19 .WORK, mkD 7 20 .WORK, mkD 7 21 .WORK, mkD 7 22 .WORK,
    mkD 7 23 .WORK, mkD 7 24 .REST, mkD 7 25 .REST, mkD 7 26 .ORDERING, mkD 7 27 .WORK,
    mkD 7 28 .WORK, mkD 7 29 .WORK, mkD 7 30 .WORK, mkD 7 31 .WORK, mkD 8 1 .WORK, mkD 8 2 .REST,
    mkD 8 3 .REST, mkD 8 4 .ORDERING, mkD 8 5 .WORK, mkD 8 6 .WORK, mkD 8 7 .REST, mkD 8 8 .REST,
    mkD 8 9 .ORDERING, mkD 8 10 .WORK, mkD 8 11 .WORK, mkD 8 12 .REST, mkD 8 13 .REST,
    mkD 8 14 .ORDERING, mkD 8 15 .WORK, mkD 8 16 .WORK, mkD 8 17 .WORK, mkD 8 18 .WORK,
    mkD 8 19 .REST, mkD 8 20 .REST, mkD 8 21 .ORDERING, mkD 8 22 .WORK, mkD 8 23 .WORK,
    mkD 8 24 .WORK, mkD 8 25 .WORK, mkD 8 26 .WORK, mkD 8 27 .WORK, mkD 8 28 .REST,
    mkD 8 29 .REST],
  [35, 34, 33, 32, 31, 30, 29, 28, 27, 26, 25, 24, 23, 22, 21, 20, 19, 18, 17, 16, 15, 14, 13, 12, 11, 10, 9, 8, 7, 6, 5, 4, 3, 2, 1], [8, 7, 6, 5, 4, 3, 2, 1]⟩

/-- Builder state of iteration 35 after its work block. -/
def bmid35 : ScheduleState := ⟨⟨2025, 9, 6⟩,
  [mkD 1 1 .WORK, mkD 1 2 .WORK, mkD 1 3 .WORK, mkD 1 4 .REST, mkD 1 5 .REST, mkD 1 6 .ORDERING,
    mkD 1 8 .WORK, mkD 1 9 .WORK, mkD 1 10 .REST, mkD 1 11 .REST, mkD 1 12 .ORDERING,
    mkD 1 13 .WORK, mkD 1 14 .WORK, mkD 1 15 .REST, mkD 1 16 .REST, mkD 1 17 .ORDERING,
    mkD 1 18 .WORK, mkD 1 19 .WORK, mkD 1 20 .WORK, mkD 1 21 .WORK, mkD 1 22 .WORK,
    mkD 1 23 .REST, mkD 1 24 .REST, mkD 1 25 .ORDERING, mkD 1 26 .WORK, mkD 1 27 .WORK,
    mkD 1 28 .WORK, mkD 1 29 .WORK, mkD 1 30 .WORK, mkD 1 31 .WORK, mkD 2 1 .REST, mkD 2 2 .REST,
    mkD 2 3 .ORDERING, mkD 2 4 .WORK, mkD 2 5 .WORK, mkD 2 6 .REST, mkD 2 7 .REST,
    mkD 2 8 .ORDERING, mkD 2 9 .WORK, mkD 2 10 .WORK, mkD 2 11 .REST, mkD 2 12 .REST,
    mkD 2 13 .ORDERING, mkD 2 14 .WORK, mkD 2 15 .WORK, mkD 2 16 .WORK, mkD 2 17 .WORK,
    mkD 2 18 .WORK, mkD 2 19 .WORK, mkD 2 20 .REST, mkD 2 21 .REST, mkD 2 22 .ORDERING,
    mkD 2 23 .WORK, mkD 2 24 .WORK, mkD 2 25 .WORK, mkD 2 26 .WORK, mkD 2 27 .WORK,
    mkD 2 28 .WORK, mkD 3 1 .REST, mkD 3 2 .REST, mkD 3 3 .ORDERING, mkD 3 4 .WORK, mkD 3 5 .WORK,
    mkD 3 6 .REST, mkD 3 7 .REST, mkD 3 8 .ORDERING, mkD 3 9 .WORK, mkD 3 10 .WORK,
    mkD 3 11 .REST, mkD 3 12 .REST, mkD 3 13 .ORDERING, mkD 3 14 .WORK, mkD 3 15 .WORK,
    mkD 3 16 .WORK, mkD 3 17 .WORK, mkD 3 18 .REST, mkD 3 19 .REST, mkD 3 20 .ORDERING,
    mkD 3 21 .WORK, mkD 3 22 .WORK, mkD 3 23 .WORK, mkD 3 24 .WORK, mkD 3 25 .WORK,
    mkD 3 26 .WORK, mkD 3 27 .REST, mkD 3 28 .REST, mkD 3 29 .ORDERING, mkD 3 30 .WORK,
    mkD 3 31 .WORK, mkD 4 1 .WORK, mkD 4 2 .WORK, mkD 4 3 .WORK, mkD 4 4 .WORK, mkD 4 5 .REST,
    mkD 4 6 .REST, mkD 4 7 .ORDERING, mkD 4 8 .WORK, mkD 4 9 .WORK, mkD 4 10 .REST,
    mkD 4 11 .REST, mkD 4 12 .ORDERING, mkD 4 13 .WORK, mkD 4 14 .WORK, mkD 4 15 .REST,
    mkD 4 16 .REST, mkD 4 17 .ORDERING, mkD 4 18 .WORK, mkD 4 19 .WORK, mkD 4 20 .WORK,
    mkD 4 21 .WORK, mkD 4 22 .WORK, mkD 4 23 .WORK, mkD 4 24 .REST, mkD 4 25 .REST,
    mkD 4 26 .ORDERING, mkD 4 27 .WORK, mkD 4 28 .WORK, mkD 4 29 .WORK, mkD 4 30 .WORK,
    mkD 5 1 .WORK, mkD 5 2 .WORK, mkD 5 3 .REST, mkD 5 4 .REST, mkD 5 5 .ORDERING, mkD 5 6 .WORK,
    mkD 5 7 .WORK, mkD 5 8 .REST, mkD 5 9 .REST, mkD 5 10 .ORDERING, mkD 5 11 .WORK,
    mkD 5 12 .WORK, mkD 5 13 .REST, mkD 5 14 .REST, mkD 5 15 .ORDERING, mkD 5 16 .WORK,
    mkD 5 17 .WORK, mkD 5 18 .WORK, mkD 5 19 .WORK, mkD 5 20 .REST, mkD 5 21 .REST,
    mkD 5 22 .ORDERING, mkD 5 23 .WORK, mkD 5 24 .WORK, mkD 5 25 .WORK, mkD 5 26 .WORK,
    mkD 5 27 .WORK, mkD 5 28 .WORK, mkD 5 29 .REST, mkD 5 30 .REST, mkD 5 31 .ORDERING,
    mkD 6 1 .WORK, mkD 6 2 .WORK, mkD 6 3 .WORK, mkD 6 4 .WORK, mkD 6 5 .WORK, mkD 6 6 .WORK,
    mkD 6 7 .REST, mkD 6 8 .REST, mkD 6 9 .ORDERING, mkD 6 10 .WORK, mkD 6 11 .WORK,
    mkD 6 12 .REST, mkD 6 13 .REST, mkD 6 14 .ORDERING, mkD 6 15 .WORK, mkD 6 16 .WORK,
    mkD 6 17 .REST, mkD 6 18 .REST, mkD 6 19 .ORDERING, mkD 6 20 .WORK, mkD 6 21 .WORK,
    mkD 6 22 .WORK, mkD 6 23 .WORK, mkD 6 24 .WORK, mkD 6 25 .WORK, mkD 6 26 .REST,
    mkD 6 27 .REST, mkD 6 28 .ORDERING, mkD 6 29 .WORK, mkD 6 30 .WORK, mkD 7 1 .WORK,
    mkD 7 2 .WORK, mkD 7 3 .WORK, mkD 7 4 .WORK, mkD 7 5 .REST, mkD 7 6 .REST, mkD 7 7 .ORDERING,
    mkD 7 8 .WORK, mkD 7 9 .WORK, mkD 7 10 .REST, mkD 7 11 .REST, mkD 7 12 .ORDERING,
    mkD 7 13 .WORK, mkD 7 14 .WORK, mkD 7 15 .REST, mkD 7 16 .REST, mkD 7 17 .ORDERING,
    mkD 7 18 .WORK, mkD 7 19 .WORK, mkD 7 20 .WORK, mkD 7 21 .WORK, mkD 7 22 .WORK,
    mkD 7 23 .WORK, mkD 7 24 .REST, mkD 7 25 .REST, mkD 7 26 .ORDERING, mkD 7 27 .WORK,
    mkD 7 28 .WORK, mkD 7 29 .WORK, mkD 7 30 .WORK, mkD 7 31 .WORK, mkD 8 1 .WORK, mkD 8 2 .REST,
    mkD 8 3 .REST, mkD 8 4 .ORDERING, mkD 8 5 .WORK, mkD 8 6 .WORK, mkD 8 7 .REST, mkD 8 8 .REST,
    mkD 8 9 .ORDERING, mkD 8 10 .WORK, mkD 8 11 .WORK, mkD 8 12 .REST, mkD 8 13 .REST,
    mkD 8 14 .ORDERING, mkD 8 15 .WORK, mkD 8 16 .WORK, mkD 8 17 .WORK, mkD 8 18 .WORK,
    mkD 8 19 .REST, mkD 8 20 .REST, mkD 8 21 .ORDERING, mkD 8 22 .WORK, mkD 8 23 .WORK,
    mkD 8 24 .WORK, mkD 8 25 .WORK, mkD 8 26 .WORK, mkD 8 27 .WORK, mkD 8 28 .REST,
    mkD 8 29 .REST, mkD 8 30 .ORDERING, mkD 8 31 .WORK, mkD 9 1 .WORK, mkD 9 2 .WORK,
    mkD 9 3 .WORK, mkD 9 4 .WORK, mkD 9 5 .WORK],
  [35, 34, 33, 32, 31, 30, 29, 28, 27, 26, 25, 24, 23, 22, 21, 20, 19, 18, 17, 16, 15, 14, 13, 12, 11, 10, 9, 8, 7, 6, 5, 4, 3, 2, 1], [8, 7, 6, 5, 4, 3, 2, 1]⟩

/-- Builder state of the witness run before iteration 36. -/
def bst36 : ScheduleState := ⟨⟨2025, 9, 8⟩,
  [mkD 1 1 .WORK, mkD 1 2 .WORK, mkD 1 3 .WORK, mkD 1 4 .REST, mkD 1 5 .REST, mkD 1 6 .ORDERING,
    mkD 1 8 .WORK, mkD 1 9 .WORK, mkD 1 10 .REST, mkD 1 11 .REST, mkD 1 12 .ORDERING,
    mkD 1 13 .WORK, mkD 1 14 .WORK, mkD 1 15 .REST, mkD 1 16 .REST, mkD 1 17 .ORDERING,
    mkD 1 18 .WORK, mkD 1 19 .WORK, mkD 1 20 .WORK, mkD 1 21 .WORK, mkD 1 22 .WORK,
    mkD 1 23 .REST, mkD 1 24 .REST, mkD 1 25 .ORDERING, mkD 1 26 .WORK, mkD 1 27 .WORK,
    mkD 1 28 .WORK, mkD 1 29 .WORK, mkD 1 30 .WORK, mkD 1 31 .WORK, mkD 2 1 .REST, mkD 2 2 .REST,
    mkD 2 3 .ORDERING, mkD 2 4 .WORK, mkD 2 5 .WORK, mkD 2 6 .REST, mkD 2 7 .REST,
    mkD 2 8 .ORDERING, mkD 2 9 .WORK, mkD 2 10 .WORK, mkD 2 11 .REST, mkD 2 12 .REST,
    mkD 2 13 .ORDERING, mkD 2 14 .WORK, mkD 2 15 .WORK, mkD 2 16 .WORK, mkD 2 17 .WORK,
    mkD 2 18 .WORK, mkD 2 19 .WORK, mkD 2 20 .REST, mkD 2 21 .REST, mkD 2 22 .ORDERING,
    mkD 2 23 .WORK, mkD 2 24 .WORK, mkD 2 25 .WORK, mkD 2 26 .WORK, mkD 2 27 .WORK,
    mkD 2 28 .WORK, mkD 3 1 .REST, mkD 3 2 .REST, mkD 3 3 .ORDERING, mkD 3 4 .WORK, mkD 3 5 .WORK,
    mkD 3 6 .REST, mkD 3 7 .REST, mkD 3 8 .ORDERING, mkD 3 9 .WORK, mkD 3 10 .WORK,
    mkD 3 11 .REST, mkD 3 12 .REST, mkD 3 13 .ORDERING, mkD 3 14 .WORK, mkD 3 15 .WORK,
    mkD 3 16 .WORK, mkD 3 17 .WORK, mkD 3 18 .REST, mkD 3 19 .REST, mkD 3 20 .ORDERING,
    mkD 3 21 .WORK, mkD 3 22 .WORK, mkD 3 23 .WORK, mkD 3 24 .WORK, mkD 3 25 .WORK,
    mkD 3 26 .WORK, mkD 3 27 .REST, mkD 3 28 .REST, mkD 3 29 .ORDERING, mkD 3 30 .WORK,
    mkD 3 31 .WORK, mkD 4 1 .WORK, mkD 4 2 .WORK, mkD 4 3 .WORK, mkD 4 4 .WORK, mkD 4 5 .REST,
    mkD 4 6 .REST, mkD 4 7 .ORDERING, mkD 4 8 .WORK, mkD 4 9 .WORK, mkD 4 10 .REST,
    mkD 4 11 .REST, mkD 4 12 .ORDERING, mkD 4 13 .WORK, mkD 4 14 .WORK, mkD 4 15 .REST,
    mkD 4 16 .REST, mkD 4 17 .ORDERING, mkD 4 18 .WORK, mkD 4 19 .WORK, mkD 4 20 .WORK,
    mkD 4 21 .WORK, mkD 4 22 .WORK, mkD 4 23 .WORK, mkD 4 24 .REST, mkD 4 25 .REST,
    mkD 4 26 .ORDERING, mkD 4 27 .WORK, mkD 4 28 .WORK, mkD 4 29 .WORK, mkD 4 30 .WORK,
    mkD 5 1 .WORK, mkD 5 2 .WORK, mkD 5 3 .REST, mkD 5 4 .REST, mkD 5 5 .ORDERING, mkD 5 6 .WORK,
    mkD 5 7 .WORK, mkD 5 8 .REST, mkD 5 9 .REST, mkD 5 10 .ORDERING, mkD 5 11 .WORK,
    mkD 5 12 .WORK, mkD 5 13 .REST, mkD 5 14 .REST, mkD 5 15 .ORDERING, mkD 5 16 .WORK,
    mkD 5 17 .WORK, mkD 5 18 .WORK, mkD 5 19 .WORK, mkD 5 20 .REST, mkD 5 21 .REST,
    mkD 5 22 .ORDERING, mkD 5 23 .WORK, mkD 5 24 .WORK, mkD 5 25 .WORK, mkD 5 26 .WORK,
    mkD 5 27 .WORK, mkD 5 28 .WORK, mkD 5 29 .REST, mkD 5 30 .REST, mkD 5 31 .ORDERING,
    mkD 6 1 .WORK, mkD 6 2 .WORK, mkD 6 3 .WORK, mkD 6 4 .WORK, mkD 6 5 .WORK, mkD 6 6 .WORK,
    mkD 6 7 .REST, mkD 6 8 .REST, mkD 6 9 .ORDERING, mkD 6 10 .WORK, mkD 6 11 .WORK,
    mkD 6 12 .REST, mkD 6 13 .REST, mkD 6 14 .ORDERING, mkD 6 15 .WORK, mkD 6 16 .WORK,
    mkD 6 17 .REST, mkD 6 18 .REST, mkD 6 19 .ORDERING, mkD 6 20 .WORK, mkD 6 21 .WORK,
    mkD 6 22 .WORK, mkD 6 23 .WORK, mkD 6 24 .WORK, mkD 6 25 .WORK, mkD 6 26 .REST,
    mkD 6 27 .REST, mkD 6 28 .ORDERING, mkD 6 29 .WORK, mkD 6 30 .WORK, mkD 7 1 .WORK,
    mkD 7 2 .WORK, mkD 7 3 .WORK, mkD 7 4 .WORK, mkD 7 5 .REST, mkD 7 6 .REST, mkD 7 7 .ORDERING,
    mkD 7 8 .WORK, mkD 7 9 .WORK, mkD 7 10 .REST, mkD 7 11 .REST, mkD 7 12 .ORDERING,
    mkD 7 13 .WORK, mkD 7 14 .WORK, mkD 7 15 .REST, mkD 7 16 .REST, mkD 7 17 .ORDERING,
    mkD 7 18 .WORK, mkD 7 19 .WORK, mkD 7 20 .WORK, mkD 7 21 .WORK, mkD 7 22 .WORK,
    mkD 7 23 .WORK, mkD 7 24 .REST, mkD 7 25 .REST, mkD 7 26 .ORDERING, mkD 7 27 .WORK,
    mkD 7 28 .WORK, mkD 7 29 .WORK, mkD 7 30 .WORK, mkD 7 31 .WORK, mkD 8 1 .WORK, mkD 8 2 .REST,
    mkD 8 3 .REST, mkD 8 4 .ORDERING, mkD 8 5 .WORK, mkD 8 6 .WORK, mkD 8 7 .REST, mkD 8 8 .REST,
    mkD 8 9 .ORDERING, mkD 8 10 .WORK, mkD 8 11 .WORK, mkD 8 12 .REST, mkD 8 13 .REST,
    mkD 8 14 .ORDERING, mkD 8 15 .WORK, mkD 8 16 .WORK, mkD 8 17 .WORK, mkD 8 18 .WORK,
    mkD 8 19 .REST, mkD 8 20 .REST, mkD 8 21 .ORDERING, mkD 8 22 .WORK, mkD 8 23 .WORK,
    mkD 8 24 .WORK, mkD 8 25 .WORK, mkD 8 26 .WORK, mkD 8 27 .WORK, mkD 8 28 .REST,
    mkD 8 29 .REST, mkD 8 30 .ORDERING, mkD 8 31 .WORK, mkD 9 1 .WORK, mkD 9 2 .WORK,
    mkD 9 3 .WORK, mkD 9 4 .WORK, mkD 9 5 .WORK, mkD 9 6 .REST, mkD 9 7 .REST],
  [36, 35, 34, 33, 32, 31, 30, 29, 28, 27, 26, 25, 24, 23, 22, 21, 20, 19, 18, 17, 16, 15, 14, 13, 12, 11, 10, 9, 8, 7, 6, 5, 4, 3, 2, 1], [9, 8, 7, 6, 5, 4, 3, 2, 1]⟩

/-- Builder state of iteration 36 after its work block. -/
def bmid36 : ScheduleState := ⟨⟨2025, 9, 11⟩,
  [mkD 1 1 .WORK, mkD 1 2 .WORK, mkD 1 3 .WORK, mkD 1 4 .REST, mkD 1 5 .REST, mkD 1 6 .ORDERING,
    mkD 1 8 .WORK, mkD 1 9 .WORK, mkD 1 10 .REST, mkD 1 11 .REST, mkD 1 12 .ORDERING,
    mkD 1 13 .WORK, mkD 1 14 .WORK, mkD 1 15 .REST, mkD 1 16 .REST, mkD 1 17 .ORDERING,
    mkD 1 18 .WORK, mkD 1 19 .WORK, mkD 1 20 .WORK, mkD 1 21 .WORK, mkD 1 22 .WORK,
    mkD 1 23 .REST, mkD 1 24 .REST, mkD 1 25 .ORDERING, mkD 1 26 .WORK, mkD 1 27 .WORK,
    mkD 1 28 .WORK, mkD 1 29 .WORK, mkD 1 30 .WORK, mkD 1 31 .WORK, mkD 2 1 .REST, mkD 2 2 .REST,
    mkD 2 3 .ORDERING, mkD 2 4 .WORK, mkD 2 5 .WORK, mkD 2 6 .REST, mkD 2 7 .REST,
    mkD 2 8 .ORDERING, mkD 2 9 .WORK, mkD 2 10 .WORK, mkD 2 11 .REST, mkD 2 12 .REST,
    mkD 2 13 .ORDERING, mkD 2 14 .WORK, mkD 2 15 .WORK, mkD 2 16 .WORK, mkD 2 17 .WORK,
    mkD 2 18 .WORK, mkD 2 19 .WORK, mkD 2 20 .REST, mkD 2 21 .REST, mkD 2 22 .ORDERING,
    mkD 2 23 .WORK, mkD 2 24 .WORK, mkD 2 25 .WORK, mkD 2 26 .WORK, mkD 2 27 .WORK,
    mkD 2 28 .WORK, mkD 3 1 .REST, mkD 3 2 .REST, mkD 3 3 .ORDERING, mkD 3 4 .WORK, mkD 3 5 .WORK,
    mkD 3 6 .REST, mkD 3 7 .REST, mkD 3 8 .ORDERING, mkD 3 9 .WORK, mkD 3 10 .WORK,
    mkD 3 11 .REST, mkD 3 12 .REST, mkD 3 13 .ORDERING, mkD 3 14 .WORK, mkD 3 15 .WORK,
    mkD 3 16 .WORK, mkD 3 17 .WORK, mkD 3 18 .REST, mkD 3 19 .REST, mkD 3 20 .ORDERING,
    mkD 3 21 .WORK, mkD 3 22 .WORK, mkD 3 23 .WORK, mkD 3 24 .WORK, mkD 3 25 .WORK,
    mkD 3 26 .WORK, mkD 3 27 .REST, mkD 3 28 .REST, mkD 3 29 .ORDERING, mkD 3 30 .WORK,
    mkD 3 31 .WORK, mkD 4 1 .WORK, mkD 4 2 .WORK, mkD 4 3 .WORK, mkD 4 4 .WORK, mkD 4 5 .REST,
    mkD 4 6 .REST, mkD 4 7 .ORDERING, mkD 4 8 .WORK, mkD 4 9 .WORK, mkD 4 10 .REST,
    mkD 4 11 .REST, mkD 4 12 .ORDERING, mkD 4 13 .WORK, mkD 4 14 .WORK, mkD 4 15 .REST,
    mkD 4 16 .REST, mkD 4 17 .ORDERING, mkD 4 18 .WORK, mkD 4 19 .WORK, mkD 4 20 .WORK,
    mkD 4 21 .WORK, mkD 4 22 .WORK, mkD 4 23 .WORK, mkD 4 24 .REST, mkD 4 25 .REST,
    mkD 4 26 .ORDERING, mkD 4 27 .WORK, mkD 4 28 .WORK, mkD 4 29 .WORK, mkD 4 30 .WORK,
    mkD 5 1 .WORK, mkD 5 2 .WORK, mkD 5 3 .REST, mkD 5 4 .REST, mkD 5 5 .ORDERING, mkD 5 6 .WORK,
    mkD 5 7 .WORK, mkD 5 8 .REST, mkD 5 9 .REST, mkD 5 10 .ORDERING, mkD 5 11 .WORK,
    mkD 5 12 .WORK, mkD 5 13 .REST, mkD 5 14 .REST, mkD 5 15 .ORDERING, mkD 5 16 .WORK,
    mkD 5 17 .WORK, mkD 5 18 .WORK, mkD 5 19 .WORK, mkD 5 20 .REST, mkD 5 21 .REST,
    mkD 5 22 .ORDERING, mkD 5 23 .WORK, mkD 5 24 .WORK, mkD 5 25 .WORK, mkD 5 26 .WORK,
    mkD 5 27 .WORK, mkD 5 28 .WORK, mkD 5 29 .REST, mkD 5 30 .REST, mkD 5 31 .ORDERING,
    mkD 6 1 .WORK, mkD 6 2 .WORK, mkD 6 3 .WORK, mkD 6 4 .WORK, mkD 6 5 .WORK, mkD 6 6 .WORK,
    mkD 6 7 .REST, mkD 6 8 .REST, mkD 6 9 .ORDERING, mkD 6 10 .WORK, mkD 6 11 .WORK,
    mkD 6 12 .REST, mkD 6 13 .REST, mkD 6 14 .ORDERING, mkD 6 15 .WORK, mkD 6 16 .WORK,
    mkD 6 17 .REST, mkD 6 18 .REST, mkD 6 19 .ORDERING, mkD 6 20 .WORK, mkD 6 21 .WORK,
    mkD 6 22 .WORK, mkD 6 23 .WORK, mkD 6 24 .WORK, mkD 6 25 .WORK, mkD 6 26 .REST,
    mkD 6 27 .REST, mkD 6 28 .ORDERING, mkD 6 29 .WORK, mkD 6 30 .WORK, mkD 7 1 .WORK,
    mkD 7 2 .WORK, mkD 7 3 .WORK, mkD 7 4 .WORK, mkD 7 5 .REST, mkD 7 6 .REST, mkD 7 7 .ORDERING,
    mkD 7 8 .WORK, mkD 7 9 .WORK, mkD 7 10 .REST, mkD 7 11 .REST, mkD 7 12 .ORDERING,
    mkD 7 13 .WORK, mkD 7 14 .WORK, mkD 7 15 .REST, mkD 7 16 .REST, mkD 7 17 .ORDERING,
    mkD 7 18 .WORK, mkD 7 19 .WORK, mkD 7 20 .WORK, mkD 7 21 .WORK, mkD 7 22 .WORK,
    mkD 7 23 .WORK, mkD 7 24 .REST, mkD 7 25 .REST, mkD 7 26 .ORDERING, mkD 7 27 .WORK,
    mkD 7 28 .WORK, mkD 7 29 .WORK, mkD 7 30 .WORK, mkD 7 31 .WORK, mkD 8 1 .WORK, mkD 8 2 .REST,
    mkD 8 3 .REST, mkD 8 4 .ORDERING, mkD 8 5 .WORK, mkD 8 6 .WORK, mkD 8 7 .REST, mkD 8 8 .REST,
    mkD 8 9 .ORDERING, mkD 8 10 .WORK, mkD 8 11 .WORK, mkD 8 12 .REST, mkD 8 13 .REST,
    mkD 8 14 .ORDERING, mkD 8 15 .WORK, mkD 8 16 .WORK, mkD 8 17 .WORK, mkD 8 18 .WORK,
    mkD 8 19 .REST, mkD 8 20 .REST, mkD 8 21 .ORDERING, mkD 8 22 .WORK, mkD 8 23 .WORK,
    mkD 8 24 .WORK, mkD 8 25 .WORK, mkD 8 26 .WORK, mkD 8 27 .WORK, mkD 8 28 .REST,
    mkD 8 29 .REST, mkD 8 30 .ORDERING, mkD 8 31 .WORK, mkD 9 1 .WORK, mkD 9 2 .WORK,
    mkD 9 3 .WORK, mkD 9 4 .WORK, mkD 9 5 .WORK, mkD 9 6 .REST, mkD 9 7 .REST, mkD 9 8 .ORDERING,
    mkD 9 9 .WORK, mkD 9 10 .WORK],
  [36, 35, 34, 33, 32, 31, 30, 29, 28, 27, 26, 25, 24, 23, 22, 21, 20, 19, 18, 17, 16, 15, 14, 13, 12, 11, 10, 9, 8, 7, 6, 5, 4, 3, 2, 1], [9, 8, 7, 6, 5, 4, 3, 2, 1]⟩

/-- Builder state of the witness run before iteration 37. -/
def bst37 : ScheduleState := ⟨⟨2025, 9, 13⟩,
  [mkD 1 1 .WORK, mkD 1 2 .WORK, mkD 1 3 .WORK, mkD 1 4 .REST, mkD 1 5 .REST, mkD 1 6 .ORDERING,
    mkD 1 8 .WORK, mkD 1 9 .WORK, mkD 1 10 .REST, mkD 1 11 .REST, mkD 1 12 .ORDERING,
    mkD 1 13 .WORK, mkD 1 14 .WORK, mkD 1 15 .REST, mkD 1 16 .REST, mkD 1 17 .ORDERING,
    mkD 1 18 .WORK, mkD 1 19 .WORK, mkD 1 20 .WORK, mkD 1 21 .WORK, mkD 1 22 .WORK,
    mkD 1 23 .REST, mkD 1 24 .REST, mkD 1 25 .ORDERING, mkD 1 26 .WORK, mkD 1 27 .WORK,
    mkD 1 28 .WORK, mkD 1 29 .WORK, mkD 1 30 .WORK, mkD 1 31 .WORK, mkD 2 1 .REST, mkD 2 2 .REST,
    mkD 2 3 .ORDERING, mkD 2 4 .WORK, mkD 2 5 .WORK, mkD 2 6 .REST, mkD 2 7 .REST,
    mkD 2 8 .ORDERING, mkD 2 9 .WORK, mkD 2 10 .WORK, mkD 2 11 .REST, mkD 2 12 .REST,
    mkD 2 13 .ORDERING, mkD 2 14 .WORK, mkD 2 15 .WORK, mkD 2 16 .WORK, mkD 2 17 .WORK,
    mkD 2 18 .WORK, mkD 2 19 .WORK, mkD 2 20 .REST, mkD 2 21 .REST, mkD 2 22 .ORDERING,
    mkD 2 23 .WORK, mkD 2 24 .WORK, mkD 2 25 .WORK, mkD 2 26 .WORK, mkD 2 27 .WORK,
    mkD 2 28 .WORK, mkD 3 1 .REST, mkD 3 2 .REST, mkD 3 3 .ORDERING, mkD 3 4 .WORK, mkD 3 5 .WORK,
    mkD 3 6 .REST, mkD 3 7 .REST, mkD 3 8 .ORDERING, mkD 3 9 .WORK, mkD 3 10 .WORK,
    mkD 3 11 .REST, mkD 3 12 .REST, mkD 3 13 .ORDERING, mkD 3 14 .WORK, mkD 3 15 .WORK,
    mkD 3 16 .WORK, mkD 3 17 .WORK, mkD 3 18 .REST, mkD 3 19 .REST, mkD 3 20 .ORDERING,
    mkD 3 21 .WORK, mkD 3 22 .WORK, mkD 3 23 .WORK, mkD 3 24 .WORK, mkD 3 25 .WORK,
    mkD 3 26 .WORK, mkD 3 27 .REST, mkD 3 28 .REST, mkD 3 29 .ORDERING, mkD 3 30 .WORK,
    mkD 3 31 .WORK, mkD 4 1 .WORK, mkD 4 2 .WORK, mkD 4 3 .WORK, mkD 4 4 .WORK, mkD 4 5 .REST,
    mkD 4 6 .REST, mkD 4 7 .ORDERING, mkD 4 8 .WORK, mkD 4 9 .WORK, mkD 4 10 .REST,
    mkD 4 11 .REST, mkD 4 12 .ORDERING, mkD 4 13 .WORK, mkD 4 14 .WORK, mkD 4 15 .REST,
    mkD 4 16 .REST, mkD 4 17 .ORDERING, mkD 4 18 .WORK, mkD 4 19 .WORK, mkD 4 20 .WORK,
    mkD 4 21 .WORK, mkD 4 22 .WORK, mkD 4 23 .WORK, mkD 4 24 .REST, mkD 4 25 .REST,
    mkD 4 26 .ORDERING, mkD 4 27 .WORK, mkD 4 28 .WORK, mkD 4 29 .WORK, mkD 4 30 .WORK,
    mkD 5 1 .WORK, mkD 5 2 .WORK, mkD 5 3 .REST, mkD 5 4 .REST, mkD 5 5 .ORDERING, mkD 5 6 .WORK,
    mkD 5 7 .WORK, mkD 5 8 .REST, mkD 5 9 .REST, mkD 5 10 .ORDERING, mkD 5 11 .WORK,
    mkD 5 12 .WORK, mkD 5 13 .REST, mkD 5 14 .REST, mkD 5 15 .ORDERING, mkD 5 16 .WORK,
    mkD 5 17 .WORK, mkD 5 18 .WORK, mkD 5 19 .WORK, mkD 5 20 .REST, mkD 5 21 .REST,
    mkD 5 22 .ORDERING, mkD 5 23 .WORK, mkD 5 24 .WORK, mkD 5 25 .WORK, mkD 5 26 .WORK,
    mkD 5 27 .WORK, mkD 5 28 .WORK, mkD 5 29 .REST, mkD 5 30 .REST, mkD 5 31 .ORDERING,
    mkD 6 1 .WORK, mkD 6 2 .WORK, mkD 6 3 .WORK, mkD 6 4 .WORK, mkD 6 5 .WORK, mkD 6 6 .WORK,
    mkD 6 7 .REST, mkD 6 8 .REST, mkD 6 9 .ORDERING, mkD 6 10 .WORK, mkD 6 11 .WORK,
    mkD 6 12 .REST, mkD 6 13 .REST, mkD 6 14 .ORDERING, mkD 6 15 .WORK, mkD 6 16 .WORK,
    mkD 6 17 .REST, mkD 6 18 .REST, mkD 6 19 .ORDERING, mkD 6 20 .WORK, mkD 6 21 .WORK,
    mkD 6 22 .WORK, mkD 6 23 .WORK, mkD 6 24 .WORK, mkD 6 25 .WORK, mkD 6 26 .REST,
    mkD 6 27 .REST, mkD 6 28 .ORDERING, mkD 6 29 .WORK, mkD 6 30 .WORK, mkD 7 1 .WORK,
    mkD 7 2 .WORK, mkD 7 3 .WORK, mkD 7 4 .WORK, mkD 7 5 .REST, mkD 7 6 .REST, mkD 7 7 .ORDERING,
    mkD 7 8 .WORK, mkD 7 9 .WORK, mkD 7 10 .REST, mkD 7 11 .REST, mkD 7 12 .ORDERING,
    mkD 7 13 .WORK, mkD 7 14 .WORK, mkD 7 15 .REST, mkD 7 16 .REST, mkD 7 17 .ORDERING,
    mkD 7 18 .WORK, mkD 7 19 .WORK, mkD 7 20 .WORK, mkD 7 21 .WORK, mkD 7 22 .WORK,
    mkD 7 23 .WORK, mkD 7 24 .REST, mkD 7 25 .REST, mkD 7 26 .ORDERING, mkD 7 27 .WORK,
    mkD 7 28 .WORK, mkD 7 29 .WORK, mkD 7 30 .WORK, mkD 7 31 .WORK, mkD 8 1 .WORK, mkD 8 2 .REST,
    mkD 8 3 .REST, mkD 8 4 .ORDERING, mkD 8 5 .WORK, mkD 8 6 .WORK, mkD 8 7 .REST, mkD 8 8 .REST,
    mkD 8 9 .ORDERING, mkD 8 10 .WORK, mkD 8 11 .WORK, mkD 8 12 .REST, mkD 8 13 .REST,
    mkD 8 14 .ORDERING, mkD 8 15 .WORK, mkD 8 16 .WORK, mkD 8 17 .WORK, mkD 8 18 .WORK,
    mkD 8 19 .REST, mkD 8 20 .REST, mkD 8 21 .ORDERING, mkD 8 22 .WORK, mkD 8 23 .WORK,
    mkD 8 24 .WORK, mkD 8 25 .WORK, mkD 8 26 .WORK, mkD 8 27 .WORK, mkD 8 28 .REST,
    mkD 8 29 .REST, mkD 8 30 .ORDERING, mkD 8 31 .WORK, mkD 9 1 .WORK, mkD 9 2 .WORK,
    mkD 9 3 .WORK, mkD 9 4 .WORK, mkD 9 5 .WORK, mkD 9 6 .REST, mkD 9 7 .REST, mkD 9 8 .ORDERING,
    mkD 9 9 .WORK, mkD 9 10 .WORK, mkD 9 11 .REST, mkD 9 12 .REST],
  [37, 36, 35, 34, 33, 32, 31, 30, 29, 28, 27, 26, 25, 24, 23, 22, 21, 20, 19, 18, 17, 16, 15, 14, 13, 12, 11, 10, 9, 8, 7, 6, 5, 4, 3, 2, 1], [9, 8, 7, 6, 5, 4, 3, 2, 1]⟩

/-- Builder state of iteration 37 after its work block. -/
def bmid37 : ScheduleState := ⟨⟨2025, 9, 16⟩,
  [mkD 1 1 .WORK, mkD 1 2 .WORK, mkD 1 3 .WORK, mkD 1 4 .REST, mkD 1 5 .REST, mkD 1 6 .ORDERING,
    mkD 1 8 .WORK, mkD 1 9 .WORK, mkD 1 10 .REST, mkD 1 11 .REST, mkD 1 12 .ORDERING,
    mkD 1 13 .WORK, mkD 1 14 .WORK, mkD 1 15 .REST, mkD 1 16 .REST, mkD 1 17 .ORDERING,
    mkD 1 18 .WORK, mkD 1 19 .WORK, mkD 1 20 .WORK, mkD 1 21 .WORK, mkD 1 22 .WORK,
    mkD 1 23 .REST, mkD 1 24 .REST, mkD 1 25 .ORDERING, mkD 1 26 .WORK, mkD 1 27 .WORK,
    mkD 1 28 .WORK, mkD 1 29 .WORK, mkD 1 30 .WORK, mkD 1 31 .WORK, mkD 2 1 .REST, mkD 2 2 .REST,
    mkD 2 3 .ORDERING, mkD 2 4 .WORK, mkD 2 5 .WORK, mkD 2 6 .REST, mkD 2 7 .REST,
    mkD 2 8 .ORDERING, mkD 2 9 .WORK, mkD 2 10 .WORK, mkD 2 11 .REST, mkD 2 12 .REST,
    mkD 2 13 .ORDERING, mkD 2 14 .WORK, mkD 2 15 .WORK, mkD 2 16 .WORK, mkD 2 17 .WORK,
    mkD 2 18 .WORK, mkD 2 19 .WORK, mkD 2 20 .REST, mkD 2 21 .REST, mkD 2 22 .ORDERING,
    mkD 2 23 .WORK, mkD 2 24 .WORK, mkD 2 25 .WORK, mkD 2 26 .WORK, mkD 2 27 .WORK,
    mkD 2 28 .WORK, mkD 3 1 .REST, mkD 3 2 .REST, mkD 3 3 .ORDERING, mkD 3 4 .WORK, mkD 3 5 .WORK,
    mkD 3 6 .REST, mkD 3 7 .REST, mkD 3 8 .ORDERING, mkD 3 9 .WORK, mkD 3 10 .WORK,
    mkD 3 11 .REST, mkD 3 12 .REST, mkD 3 13 .ORDERING, mkD 3 14 .WORK, mkD 3 15 .WORK,
    mkD 3 16 .WORK, mkD 3 17 .WORK, mkD 3 18 .REST, mkD 3 19 .REST, mkD 3 20 .ORDERING,
    mkD 3 21 .WORK, mkD 3 22 .WORK, mkD 3 23 .WORK, mkD 3 24 .WORK, mkD 3 25 .WORK,
    mkD 3 26 .WORK, mkD 3 27 .REST, mkD 3 28 .REST, mkD 3 29 .ORDERING, mkD 3 30 .WORK,
    mkD 3 31 .WORK, mkD 4 1 .WORK, mkD 4 2 .WORK, mkD 4 3 .WORK, mkD 4 4 .WORK, mkD 4 5 .REST,
    mkD 4 6 .REST, mkD 4 7 .ORDERING, mkD 4 8 .WORK, mkD 4 9 .WORK, mkD 4 10 .REST,
    mkD 4 11 .REST, mkD 4 12 .ORDERING, mkD 4 13 .WORK, mkD 4 14 .WORK, mkD 4 15 .REST,
    mkD 4 16 .REST, mkD 4 17 .ORDERING, mkD 4 18 .WORK, mkD 4 19 .WORK, mkD 4 20 .WORK,
    mkD 4 21 .WORK, mkD 4 22 .WORK, mkD 4 23 .WORK, mkD 4 24 .REST, mkD 4 25 .REST,
    mkD 4 26 .ORDERING, mkD 4 27 .WORK, mkD 4 28 .WORK, mkD 4 29 .WORK, mkD 4 30 .WORK,
    mkD 5 1 .WORK, mkD 5 2 .WORK, mkD 5 3 .REST, mkD 5 4 .REST, mkD 5 5 .ORDERING, mkD 5 6 .WORK,
    mkD 5 7 .WORK, mkD 5 8 .REST, mkD 5 9 .REST, mkD 5 10 .ORDERING, mkD 5 11 .WORK,
    mkD 5 12 .WORK, mkD 5 13 .REST, mkD 5 14 .REST, mkD 5 15 .ORDERING, mkD 5 16 .WORK,
    mkD 5 17 .WORK, mkD 5 18 .WORK, mkD 5 19 .WORK, mkD 5 20 .REST, mkD 5 21 .REST,
    mkD 5 22 .ORDERING, mkD 5 23 .WORK, mkD 5 24 .WORK, mkD 5 25 .WORK, mkD 5 26 .WORK,
    mkD 5 27 .WORK, mkD 5 28 .WORK, mkD 5 29 .REST, mkD 5 30 .REST, mkD 5 31 .ORDERING,
    mkD 6 1 .WORK, mkD 6 2 .WORK, mkD 6 3 .WORK, mkD 6 4 .WORK, mkD 6 5 .WORK, mkD 6 6 .WORK,
    mkD 6 7 .REST, mkD 6 8 .REST, mkD 6 9 .ORDERING, mkD 6 10 .WORK, mkD 6 11 .WORK,
    mkD 6 12 .REST, mkD 6 13 .REST, mkD 6 14 .ORDERING, mkD 6 15 .WORK, mkD 6 16 .WORK,
    mkD 6 17 .REST, mkD 6 18 .REST, mkD 6 19 .ORDERING, mkD 6 20 .WORK, mkD 6 21 .WORK,
    mkD 6 22 .WORK, mkD 6 23 .WORK, mkD 6 24 .WORK, mkD 6 25 .WORK, mkD 6 26 .REST,
    mkD 6 27 .REST, mkD 6 28 .ORDERING, mkD 6 29 .WORK, mkD 6 30 .WORK, mkD 7 1 .WORK,
    mkD 7 2 .WORK, mkD 7 3 .WORK, mkD 7 4 .WORK, mkD 7 5 .REST, mkD 7 6 .REST, mkD 7 7 .ORDERING,
    mkD 7 8 .WORK, mkD 7 9 .WORK, mkD 7 10 .REST, mkD 7 11 .REST, mkD 7 12 .ORDERING,
    mkD 7 13 .WORK, mkD 7 14 .WORK, mkD 7 15 .REST, mkD 7 16 .REST, mkD 7 17 .ORDERING,
    mkD 7 18 .WORK, mkD 7 19 .WORK, mkD 7 20 .WORK, mkD 7 21 .WORK, mkD 7 22 .WORK,
    mkD 7 23 .WORK, mkD 7 24 .REST, mkD 7 25 .REST, mkD 7 26 .ORDERING, mkD 7 27 .WORK,
    mkD 7 28 .WORK, mkD 7 29 .WORK, mkD 7 30 .WORK, mkD 7 31 .WORK, mkD 8 1 .WORK, mkD 8 2 .REST,
    mkD 8 3 .REST, mkD 8 4 .ORDERING, mkD 8 5 .WORK, mkD 8 6 .WORK, mkD 8 7 .REST, mkD 8 8 .REST,
    mkD 8 9 .ORDERING, mkD 8 10 .WORK, mkD 8 11 .WORK, mkD 8 12 .REST, mkD 8 13 .REST,
    mkD 8 14 .ORDERING, mkD 8 15 .WORK, mkD 8 16 .WORK, mkD 8 17 .WORK, mkD 8 18 .WORK,
    mkD 8 19 .REST, mkD 8 20 .REST, mkD 8 21 .ORDERING, mkD 8 22 .WORK, mkD 8 23 .WORK,
    mkD 8 24 .WORK, mkD 8 25 .WORK, mkD 8 26 .WORK, mkD 8 27 .WORK, mkD 8 28 .REST,
    mkD 8 29 .REST, mkD 8 30 .ORDERING, mkD 8 31 .WORK, mkD 9 1 .WORK, mkD 9 2 .WORK,
    mkD 9 3 .WORK, mkD 9 4 .WORK, mkD 9 5 .WORK, mkD 9 6 .REST, mkD 9 7 .REST, mkD 9 8 .ORDERING,
    mkD 9 9 .WORK, mkD 9 10 .WORK, mkD 9 11 .REST, mkD 9 12 .REST, mkD 9 13 .ORDERING,
    mkD 9 14 .WORK, mkD 9 15 .WORK],
  [37, 36, 35, 34, 33, 32, 31, 30, 29, 28, 27, 26, 25, 24, 23, 22, 21, 20, 19, 18, 17, 16, 15, 14, 13, 12, 11, 10, 9, 8, 7, 6, 5, 4, 3, 2, 1], [9, 8, 7, 6, 5, 4, 3, 2, 1]⟩

/-- Builder state of the witness run before iteration 38. -/
def bst38 : ScheduleState := ⟨⟨2025, 9, 18⟩,
  [mkD 1 1 .WORK, mkD 1 2 .WORK, mkD 1 3 .WORK, mkD 1 4 .REST, mkD 1 5 .REST, mkD 1 6 .ORDERING,
    mkD 1 8 .WORK, mkD 1 9 .WORK, mkD 1 10 .REST, mkD 1 11 .REST, mkD 1 12 .ORDERING,
    mkD 1 13 .WORK, mkD 1 14 .WORK, mkD 1 15 .REST, mkD 1 16 .REST, mkD 1 17 .ORDERING,
    mkD 1 18 .WORK, mkD 1 19 .WORK, mkD 1 20 .WORK, mkD 1 21 .WORK, mkD 1 22 .WORK,
    mkD 1 23 .REST, mkD 1 24 .REST, mkD 1 25 .ORDERING, mkD 1 26 .WORK, mkD 1 27 .WORK,
    mkD 1 28 .WORK, mkD 1 29 .WORK, mkD 1 30 .WORK, mkD 1 31 .WORK, mkD 2 1 .REST, mkD 2 2 .REST,
    mkD 2 3 .ORDERING, mkD 2 4 .WORK, mkD 2 5 .WORK, mkD 2 6 .REST, mkD 2 7 .REST,
    mkD 2 8 .ORDERING, mkD 2 9 .WORK, mkD 2 10 .WORK, mkD 2 11 .REST, mkD 2 12 .REST,
    mkD 2 13 .ORDERING, mkD 2 14 .WORK, mkD 2 15 .WORK, mkD 2 16 .WORK, mkD 2 17 .WORK,
    mkD 2 18 .WORK, mkD 2 19 .WORK, mkD 2 20 .REST, mkD 2 21 .REST, mkD 2 22 .ORDERING,
    mkD 2 23 .WORK, mkD 2 24 .WORK, mkD 2 25 .WORK, mkD 2 26 .WORK, mkD 2 27 .WORK,
    mkD 2 28 .WORK, mkD 3 1 .REST, mkD 3 2 .REST, mkD 3 3 .ORDERING, mkD 3 4 .WORK, mkD 3 5 .WORK,
    mkD 3 6 .REST, mkD 3 7 .REST, mkD 3 8 .ORDERING, mkD 3 9 .WORK, mkD 3 10 .WORK,
    mkD 3 11 .REST, mkD 3 12 .REST, mkD 3 13 .ORDERING, mkD 3 14 .WORK, mkD 3 15 .WORK,
    mkD 3 16 .WORK, mkD 3 17 .WORK, mkD 3 18 .REST, mkD 3 19 .REST, mkD 3 20 .ORDERING,
    mkD 3 21 .WORK, mkD 3 22 .WORK, mkD 3 23 .WORK, mkD 3 24 .WORK, mkD 3 25 .WORK,
    mkD 3 26 .WORK, mkD 3 27 .REST, mkD 3 28 .REST, mkD 3 29 .ORDERING, mkD 3 30 .WORK,
    mkD 3 31 .WORK, mkD 4 1 .WORK, mkD 4 2 .WORK, mkD 4 3 .WORK, mkD 4 4 .WORK, mkD 4 5 .REST,
    mkD 4 6 .REST, mkD 4 7 .ORDERING, mkD 4 8 .WORK, mkD 4 9 .WORK, mkD 4 10 .REST,
    mkD 4 11 .REST, mkD 4 12 .ORDERING, mkD 4 13 .WORK, mkD 4 14 .WORK, mkD 4 15 .REST,
    mkD 4 16 .REST, mkD 4 17 .ORDERING, mkD 4 18 .WORK, mkD 4 19 .WORK, mkD 4 20 .WORK,
    mkD 4 21 .WORK, mkD 4 22 .WORK, mkD 4 23 .WORK, mkD 4 24 .REST, mkD 4 25 .REST,
    mkD 4 26 .ORDERING, mkD 4 27 .WORK, mkD 4 28 .WORK, mkD 4 29 .WORK, mkD 4 30 .WORK,
    mkD 5 1 .WORK, mkD 5 2 .WORK, mkD 5 3 .REST, mkD 5 4 .REST, mkD 5 5 .ORDERING, mkD 5 6 .WORK,
    mkD 5 7 .WORK, mkD 5 8 .REST, mkD 5 9 .REST, mkD 5 10 .ORDERING, mkD 5 11 .WORK,
    mkD 5 12 .WORK, mkD 5 13 .REST, mkD 5 14 .REST, mkD 5 15 .ORDERING, mkD 5 16 .WORK,
    mkD 5 17 .WORK, mkD 5 18 .WORK, mkD 5 19 .WORK, mkD 5 20 .REST, mkD 5 21 .REST,
    mkD 5 22 .ORDERING, mkD 5 23 .WORK, mkD 5 24 .WORK, mkD 5 25 .WORK, mkD 5 26 .WORK,
    mkD 5 27 .WORK, mkD 5 28 .WORK, mkD 5 29 .REST, mkD 5 30 .REST, mkD 5 31 .ORDERING,
    mkD 6 1 .WORK, mkD 6 2 .WORK, mkD 6 3 .WORK, mkD 6 4 .WORK, mkD 6 5 .WORK, mkD 6 6 .WORK,
    mkD 6 7 .REST, mkD 6 8 .REST, mkD 6 9 .ORDERING, mkD 6 10 .WORK, mkD 6 11 .WORK,
    mkD 6 12 .REST, mkD 6 13 .REST, mkD 6 14 .ORDERING, mkD 6 15 .WORK, mkD 6 16 .WORK,
    mkD 6 17 .REST, mkD 6 18 .REST, mkD 6 19 .ORDERING, mkD 6 20 .WORK, mkD 6 21 .WORK,
    mkD 6 22 .WORK, mkD 6 23 .WORK, mkD 6 24 .WORK, mkD 6 25 .WORK, mkD 6 26 .REST,
    mkD 6 27 .REST, mkD 6 28 .ORDERING, mkD 6 29 .WORK, mkD 6 30 .WORK, mkD 7 1 .WORK,
    mkD 7 2 .WORK, mkD 7 3 .WORK, mkD 7 4 .WORK, mkD 7 5 .REST, mkD 7 6 .REST, mkD 7 7 .ORDERING,
    mkD 7 8 .WORK, mkD 7 9 .WORK, mkD 7 10 .REST, mkD 7 11 .REST, mkD 7 12 .ORDERING,
    mkD 7 13 .WORK, mkD 7 14 .WORK, mkD 7 15 .REST, mkD 7 16 .REST, mkD 7 17 .ORDERING,
    mkD 7 18 .WORK, mkD 7 19 .WORK, mkD 7 20 .WORK, mkD 7 21 .WORK, mkD 7 22 .WORK,
    mkD 7 23 .WORK, mkD 7 24 .REST, mkD 7 25 .REST, mkD 7 26 .ORDERING, mkD 7 27 .WORK,
    mkD 7 28 .WORK, mkD 7 29 .WORK, mkD 7 30 .WORK, mkD 7 31 .WORK, mkD 8 1 .WORK, mkD 8 2 .REST,
    mkD 8 3 .REST, mkD 8 4 .ORDERING, mkD 8 5 .WORK, mkD 8 6 .WORK, mkD 8 7 .REST, mkD 8 8 .REST,
    mkD 8 9 .ORDERING, mkD 8 10 .WORK, mkD 8 11 .WORK, mkD 8 12 .REST, mkD 8 13 .REST,
    mkD 8 14 .ORDERING, mkD 8 15 .WORK, mkD 8 16 .WORK, mkD 8 17 .WORK, mkD 8 18 .WORK,
    mkD 8 19 .REST, mkD 8 20 .REST, mkD 8 21 .ORDERING, mkD 8 22 .WORK, mkD 8 23 .WORK,
    mkD 8 24 .WORK, mkD 8 25 .WORK, mkD 8 26 .WORK, mkD 8 27 .WORK, mkD 8 28 .REST,
    mkD 8 29 .REST, mkD 8 30 .ORDERING, mkD 8 31 .WORK, mkD 9 1 .WORK, mkD 9 2 .WORK,
    mkD 9 3 .WORK, mkD 9 4 .WORK, mkD 9 5 .WORK, mkD 9 6 .REST, mkD 9 7 .REST, mkD 9 8 .ORDERING,
    mkD 9 9 .WORK, mkD 9 10 .WORK, mkD 9 11 .REST, mkD 9 12 .REST, mkD 9 13 .ORDERING,
    mkD 9 14 .WORK, mkD 9 15 .WORK, mkD 9 16 .REST, mkD 9 17 .REST],
  [38, 37, 36, 35, 34, 33, 32, 31, 30, 29, 28, 27, 26, 25, 24, 23, 22, 21, 20, 19, 18, 17, 16, 15, 14, 13, 12, 11, 10, 9, 8, 7, 6, 5, 4, 3, 2, 1], [9, 8, 7, 6, 5, 4, 3, 2, 1]⟩

/-- Builder state of iteration 38 after its work block. -/
def bmid38 : ScheduleState := ⟨⟨2025, 9, 25⟩,
  [mkD 1 1 .WORK, mkD 1 2 .WORK, mkD 1 3 .WORK, mkD 1 4 .REST, mkD 1 5 .REST, mkD 1 6 .ORDERING,
    mkD 1 8 .WORK, mkD 1 9 .WORK, mkD 1 10 .REST, mkD 1 11 .REST, mkD 1 12 .ORDERING,
    mkD 1 13 .WORK, mkD 1 14 .WORK, mkD 1 15 .REST, mkD 1 16 .REST, mkD 1 17 .ORDERING,
    mkD 1 18 .WORK, mkD 1 19 .WORK, mkD 1 20 .WORK, mkD 1 21 .WORK, mkD 1 22 .WORK,
    mkD 1 23 .REST, mkD 1 24 .REST, mkD 1 25 .ORDERING, mkD 1 26 .WORK, mkD 1 27 .WORK,
    mkD 1 28 .WORK, mkD 1 29 .WORK, mkD 1 30 .WORK, mkD 1 31 .WORK, mkD 2 1 .REST, mkD 2 2 .REST,
    mkD 2 3 .ORDERING, mkD 2 4 .WORK, mkD 2 5 .WORK, mkD 2 6 .REST, mkD 2 7 .REST,
    mkD 2 8 .ORDERING, mkD 2 9 .WORK, mkD 2 10 .WORK, mkD 2 11 .REST, mkD 2 12 .REST,
    mkD 2 13 .ORDERING, mkD 2 14 .WORK, mkD 2 15 .WORK, mkD 2 16 .WORK, mkD 2 17 .WORK,
    mkD 2 18 .WORK, mkD 2 19 .WORK, mkD 2 20 .REST, mkD 2 21 .REST, mkD 2 22 .ORDERING,
    mkD 2 23 .WORK, mkD 2 24 .WORK, mkD 2 25 .WORK, mkD 2 26 .WORK, mkD 2 27 .WORK,
    mkD 2 28 .WORK, mkD 3 1 .REST, mkD 3 2 .REST, mkD 3 3 .ORDERING, mkD 3 4 .WORK, mkD 3 5 .WORK,
    mkD 3 6 .REST, mkD 3 7 .REST, mkD 3 8 .ORDERING, mkD 3 9 .WORK, mkD 3 10 .WORK,
    mkD 3 11 .REST, mkD 3 12 .REST, mkD 3 13 .ORDERING, mkD 3 14 .WORK, mkD 3 15 .WORK,
    mkD 3 16 .WORK, mkD 3 17 .WORK, mkD 3 18 .REST, mkD 3 19 .REST, mkD 3 20 .ORDERING,
    mkD 3 21 .WORK, mkD 3 22 .WORK, mkD 3 23 .WORK, mkD 3 24 .WORK, mkD 3 25 .WORK,
    mkD 3 26 .WORK, mkD 3 27 .REST, mkD 3 28 .REST, mkD 3 29 .ORDERING, mkD 3 30 .WORK,
    mkD 3 31 .WORK, mkD 4 1 .WORK, mkD 4 2 .WORK, mkD 4 3 .WORK, mkD 4 4 .WORK, mkD 4 5 .REST,
    mkD 4 6 .REST, mkD 4 7 .ORDERING, mkD 4 8 .WORK, mkD 4 9 .WORK, mkD 4 10 .REST,
    mkD 4 11 .REST, mkD 4 12 .ORDERING, mkD 4 13 .WORK, mkD 4 14 .WORK, mkD 4 15 .REST,
    mkD 4 16 .REST, mkD 4 17 .ORDERING, mkD 4 18 .WORK, mkD 4 19 .WORK, mkD 4 20 .WORK,
    mkD 4 21 .WORK, mkD 4 22 .WORK, mkD 4 23 .WORK, mkD 4 24 .REST, mkD 4 25 .REST,
    mkD 4 26 .ORDERING, mkD 4 27 .WORK, mkD 4 28 .WORK, mkD 4 29 .WORK, mkD 4 30 .WORK,
    mkD 5 1 .WORK, mkD 5 2 .WORK, mkD 5 3 .REST, mkD 5 4 .REST, mkD 5 5 .ORDERING, mkD 5 6 .WORK,
    mkD 5 7 .WORK, mkD 5 8 .REST, mkD 5 9 .REST, mkD 5 10 .ORDERING, mkD 5 11 .WORK,
    mkD 5 12 .WORK, mkD 5 13 .REST, mkD 5 14 .REST, mkD 5 15 .ORDERING, mkD 5 16 .WORK,
    mkD 5 17 .WORK, mkD 5 18 .WORK, mkD 5 19 .WORK, mkD 5 20 .REST, mkD 5 21 .REST,
    mkD 5 22 .ORDERING, mkD 5 23 .WORK, mkD 5 24 .WORK, mkD 5 25 .WORK, mkD 5 26 .WORK,
    mkD 5 27 .WORK, mkD 5 28 .WORK, mkD 5 29 .REST, mkD 5 30 .REST, mkD 5 31 .ORDERING,
    mkD 6 1 .WORK, mkD 6 2 .WORK, mkD 6 3 .WORK, mkD 6 4 .WORK, mkD 6 5 .WORK, mkD 6 6 .WORK,
    mkD 6 7 .REST, mkD 6 8 .REST, mkD 6 9 .ORDERING, mkD 6 10 .WORK, mkD 6 11 .WORK,
    mkD 6 12 .REST, mkD 6 13 .REST, mkD 6 14 .ORDERING, mkD 6 15 .WORK, mkD 6 16 .WORK,
    mkD 6 17 .REST, mkD 6 18 .REST, mkD 6 19 .ORDERING, mkD 6 20 .WORK, mkD 6 21 .WORK,
    mkD 6 22 .WORK, mkD 6 23 .WORK, mkD 6 24 .WORK, mkD 6 25 .WORK, mkD 6 26 .REST,
    mkD 6 27 .REST, mkD 6 28 .ORDERING, mkD 6 29 .WORK, mkD 6 30 .WORK, mkD 7 1 .WORK,
    mkD 7 2 .WORK, mkD 7 3 .WORK, mkD 7 4 .WORK, mkD 7 5 .REST, mkD 7 6 .REST, mkD 7 7 .ORDERING,
    mkD 7 8 .WORK, mkD 7 9 .WORK, mkD 7 10 .REST, mkD 7 11 .REST, mkD 7 12 .ORDERING,
    mkD 7 13 .WORK, mkD 7 14 .WORK, mkD 7 15 .REST, mkD 7 16 .REST, mkD 7 17 .ORDERING,
    mkD 7 18 .WORK, mkD 7 19 .WORK, mkD 7 20 .WORK, mkD 7 21 .WORK, mkD 7 22 .WORK,
    mkD 7 23 .WORK, mkD 7 24 .REST, mkD 7 25 .REST, mkD 7 26 .ORDERING, mkD 7 27 .WORK,
    mkD 7 28 .WORK, mkD 7 29 .WORK, mkD 7 30 .WORK, mkD 7 31 .WORK, mkD 8 1 .WORK, mkD 8 2 .REST,
    mkD 8 3 .REST, mkD 8 4 .ORDERING, mkD 8 5 .WORK, mkD 8 6 .WORK, mkD 8 7 .REST, mkD 8 8 .REST,
    mkD 8 9 .ORDERING, mkD 8 10 .WORK, mkD 8 11 .WORK, mkD 8 12 .REST, mkD 8 13 .REST,
    mkD 8 14 .ORDERING, mkD 8 15 .WORK, mkD 8 16 .WORK, mkD 8 17 .WORK, mkD 8 18 .WORK,
    mkD 8 19 .REST, mkD 8 20 .REST, mkD 8 21 .ORDERING, mkD 8 22 .WORK, mkD 8 23 .WORK,
    mkD 8 24 .WORK, mkD 8 25 .WORK, mkD 8 26 .WORK, mkD 8 27 .WORK, mkD 8 28 .REST,
    mkD 8 29 .REST, mkD 8 30 .ORDERING, mkD 8 31 .WORK, mkD 9 1 .WORK, mkD 9 2 .WORK,
    mkD 9 3 .WORK, mkD 9 4 .WORK, mkD 9 5 .WORK, mkD 9 6 .REST, mkD 9 7 .REST, mkD 9 8 .ORDERING,
    mkD 9 9 .WORK, mkD 9 10 .WORK, mkD 9 11 .REST, mkD 9 12 .REST, mkD 9 13 .ORDERING,
    mkD 9 14 .WORK, mkD 9 15 .WORK, mkD 9 16 .REST, mkD 9 17 .REST, mkD 9 18 .ORDERING,
    mkD 9 19 .WORK, mkD 9 20 .WORK, mkD 9 21 .WORK, mkD 9 22 .WORK, mkD 9 23 .WORK,
    mkD 9 24 .WORK],
  [38, 37, 36, 35, 34, 33, 32, 31, 30, 29, 28, 27, 26, 25, 24, 23, 22, 21, 20, 19, 18, 17, 16, 15, 14, 13, 12, 11, 10, 9, 8, 7, 6, 5, 4, 3, 2, 1], [9, 8, 7, 6, 5, 4, 3, 2, 1]⟩

/-- Builder state of the witness run before iteration 39. -/
def bst39 : ScheduleState := ⟨⟨2025, 9, 27⟩,
  [mkD 1 1 .WORK, mkD 1 2 .WORK, mkD 1 3 .WORK, mkD 1 4 .REST, mkD 1 5 .REST, mkD 1 6 .ORDERING,
    mkD 1 8 .WORK, mkD 1 9 .WORK, mkD 1 10 .REST, mkD 1 11 .REST, mkD 1 12 .ORDERING,
    mkD 1 13 .WORK, mkD 1 14 .WORK, mkD 1 15 .REST, mkD 1 16 .REST, mkD 1 17 .ORDERING,
    mkD 1 18 .WORK, mkD 1 19 .WORK, mkD 1 20 .WORK, mkD 1 21 .WORK, mkD 1 22 .WORK,
    mkD 1 23 .REST, mkD 1 24 .REST, mkD 1 25 .ORDERING, mkD 1 26 .WORK, mkD 1 27 .WORK,
    mkD 1 28 .WORK, mkD 1 29 .WORK, mkD 1 30 .WORK, mkD 1 31 .WORK, mkD 2 1 .REST, mkD 2 2 .REST,
    mkD 2 3 .ORDERING, mkD 2 4 .WORK, mkD 2 5 .WORK, mkD 2 6 .REST, mkD 2 7 .REST,
    mkD 2 8 .ORDERING, mkD 2 9 .WORK, mkD 2 10 .WORK, mkD 2 11 .REST, mkD 2 12 .REST,
    mkD 2 13 .ORDERING, mkD 2 14 .WORK, mkD 2 15 .WORK, mkD 2 16 .WORK, mkD 2 17 .WORK,
    mkD 2 18 .WORK, mkD 2 19 .WORK, mkD 2 20 .REST, mkD 2 21 .REST, mkD 2 22 .ORDERING,
    mkD 2 23 .WORK, mkD 2 24 .WORK, mkD 2 25 .WORK, mkD 2 26 .WORK, mkD 2 27 .WORK,
    mkD 2 28 .WORK, mkD 3 1 .REST, mkD 3 2 .REST, mkD 3 3 .ORDERING, mkD 3 4 .WORK, mkD 3 5 .WORK,
    mkD 3 6 .REST, mkD 3 7 .REST, mkD 3 8 .ORDERING, mkD 3 9 .WORK, mkD 3 10 .WORK,
    mkD 3 11 .REST, mkD 3 12 .REST, mkD 3 13 .ORDERING, mkD 3 14 .WORK, mkD 3 15 .WORK,
    mkD 3 16 .WORK, mkD 3 17 .WORK, mkD 3 18 .REST, mkD 3 19 .REST, mkD 3 20 .ORDERING,
    mkD 3 21 .WORK, mkD 3 22 .WORK, mkD 3 23 .WORK, mkD 3 24 .WORK, mkD 3 25 .WORK,
    mkD 3 26 .WORK, mkD 3 27 .REST, mkD 3 28 .REST, mkD 3 29 .ORDERING, mkD 3 30 .WORK,
    mkD 3 31 .WORK, mkD 4 1 .WORK, mkD 4 2 .WORK, mkD 4 3 .WORK, mkD 4 4 .WORK, mkD 4 5 .REST,
    mkD 4 6 .REST, mkD 4 7 .ORDERING, mkD 4 8 .WORK, mkD 4 9 .WORK, mkD 4 10 .REST,
    mkD 4 11 .REST, mkD 4 12 .ORDERING, mkD 4 13 .WORK, mkD 4 14 .WORK, mkD 4 15 .REST,
    mkD 4 16 .REST, mkD 4 17 .ORDERING, mkD 4 18 .WORK, mkD 4 19 .WORK, mkD 4 20 .WORK,
    mkD 4 21 .WORK, mkD 4 22 .WORK, mkD 4 23 .WORK, mkD 4 24 .REST, mkD 4 25 .REST,
    mkD 4 26 .ORDERING, mkD 4 27 .WORK, mkD 4 28 .WORK, mkD 4 29 .WORK, mkD 4 30 .WORK,
    mkD 5 1 .WORK, mkD 5 2 .WORK, mkD 5 3 .REST, mkD 5 4 .REST, mkD 5 5 .ORDERING, mkD 5 6 .WORK,
    mkD 5 7 .WORK, mkD 5 8 .REST, mkD 5 9 .REST, mkD 5 10 .ORDERING, mkD 5 11 .WORK,
    mkD 5 12 .WORK, mkD 5 13 .REST, mkD 5 14 .REST, mkD 5 15 .ORDERING, mkD 5 16 .WORK,
    mkD 5 17 .WORK, mkD 5 18 .WORK, mkD 5 19 .WORK, mkD 5 20 .REST, mkD 5 21 .REST,
    mkD 5 22 .ORDERING, mkD 5 23 .WORK, mkD 5 24 .WORK, mkD 5 25 .WORK, mkD 5 26 .WORK,
    mkD 5 27 .WORK, mkD 5 28 .WORK, mkD 5 29 .REST, mkD 5 30 .REST, mkD 5 31 .ORDERING,
    mkD 6 1 .WORK, mkD 6 2 .WORK, mkD 6 3 .WORK, mkD 6 4 .WORK, mkD 6 5 .WORK, mkD 6 6 .WORK,
    mkD 6 7 .REST, mkD 6 8 .REST, mkD 6 9 .ORDERING, mkD 6 10 .WORK, mkD 6 11 .WORK,
    mkD 6 12 .REST, mkD 6 13 .REST, mkD 6 14 .ORDERING, mkD 6 15 .WORK, mkD 6 16 .WORK,
    mkD 6 17 .REST, mkD 6 18 .REST, mkD 6 19 .ORDERING, mkD 6 20 .WORK, mkD 6 21 .WORK,
    mkD 6 22 .WORK, mkD 6 23 .WORK, mkD 6 24 .WORK, mkD 6 25 .WORK, mkD 6 26 .REST,
    mkD 6 27 .REST, mkD 6 28 .ORDERING, mkD 6 29 .WORK, mkD 6 30 .WORK, mkD 7 1 .WORK,
    mkD 7 2 .WORK, mkD 7 3 .WORK, mkD 7 4 .WORK, mkD 7 5 .REST, mkD 7 6 .REST, mkD 7 7 .ORDERING,
    mkD 7 8 .WORK, mkD 7 9 .WORK, mkD 7 10 .REST, mkD 7 11 .REST, mkD 7 12 .ORDERING,
    mkD 7 13 .WORK, mkD 7 14 .WORK, mkD 7 15 .REST, mkD 7 16 .REST, mkD 7 17 .ORDERING,
    mkD 7 18 .WORK, mkD 7 19 .WORK, mkD 7 20 .WORK, mkD 7 21 .WORK, mkD 7 22 .WORK,
    mkD 7 23 .WORK, mkD 7 24 .REST, mkD 7 25 .REST, mkD 7 26 .ORDERING, mkD 7 27 .WORK,
    mkD 7 28 .WORK, mkD 7 29 .WORK, mkD 7 30 .WORK, mkD 7 31 .WORK, mkD 8 1 .WORK, mkD 8 2 .REST,
    mkD 8 3 .REST, mkD 8 4 .ORDERING, mkD 8 5 .WORK, mkD 8 6 .WORK, mkD 8 7 .REST, mkD 8 8 .REST,
    mkD 8 9 .ORDERING, mkD 8 10 .WORK, mkD 8 11 .WORK, mkD 8 12 .REST, mkD 8 13 .REST,
    mkD 8 14 .ORDERING, mkD 8 15 .WORK, mkD 8 16 .WORK, mkD 8 17 .WORK, mkD 8 18 .WORK,
    mkD 8 19 .REST, mkD 8 20 .REST, mkD 8 21 .ORDERING, mkD 8 22 .WORK, mkD 8 23 .WORK,
    mkD 8 24 .WORK, mkD 8 25 .WORK, mkD 8 26 .WORK, mkD 8 27 .WORK, mkD 8 28 .REST,
    mkD 8 29 .REST, mkD 8 30 .ORDERING, mkD 8 31 .WORK, mkD 9 1 .WORK, mkD 9 2 .WORK,
    mkD 9 3 .WORK, mkD 9 4 .WORK, mkD 9 5 .WORK, mkD 9 6 .REST, mkD 9 7 .REST, mkD 9 8 .ORDERING,
    mkD 9 9 .WORK, mkD 9 10 .WORK, mkD 9 11 .REST, mkD 9 12 .REST, mkD 9 13 .ORDERING,
    mkD 9 14 .WORK, mkD 9 15 .WORK, mkD 9 16 .REST, mkD 9 17 .REST, mkD 9 18 .ORDERING,
    mkD 9 19 .WORK, mkD 9 20 .WORK, mkD 9 21 .WORK, mkD 9 22 .WORK, mkD 9 23 .WORK,
    mkD 9 24 .WORK, mkD 9 25 .REST, mkD 9 26 .REST],
  [39, 38, 37, 36, 35, 34, 33, 32, 31, 30, 29, 28, 27, 26, 25, 24, 23, 22, 21, 20, 19, 18, 17, 16, 15, 14, 13, 12, 11, 10, 9, 8, 7, 6, 5, 4, 3, 2, 1], [9, 8, 7, 6, 5, 4, 3, 2, 1]⟩

/-- Builder state of iteration 39 after its work block. -/
def bmid39 : ScheduleState := ⟨⟨2025, 10, 4⟩,
  [mkD 1 1 .WORK, mkD 1 2 .WORK, mkD 1 3 .WORK, mkD 1 4 .REST, mkD 1 5 .REST, mkD 1 6 .ORDERING,
    mkD 1 8 .WORK, mkD 1 9 .WORK, mkD 1 10 .REST, mkD 1 11 .REST, mkD 1 12 .ORDERING,
    mkD 1 13 .WORK, mkD 1 14 .WORK, mkD 1 15 .REST, mkD 1 16 .REST, mkD 1 17 .ORDERING,
    mkD 1 18 .WORK, mkD 1 19 .WORK, mkD 1 20 .WORK, mkD 1 21 .WORK, mkD 1 22 .WORK,
    mkD 1 23 .REST, mkD 1 24 .REST, mkD 1 25 .ORDERING, mkD 1 26 .WORK, mkD 1 27 .WORK,
    mkD 1 28 .WORK, mkD 1 29 .WORK, mkD 1 30 .WORK, mkD 1 31 .WORK, mkD 2 1 .REST, mkD 2 2 .REST,
    mkD 2 3 .ORDERING, mkD 2 4 .WORK, mkD 2 5 .WORK, mkD 2 6 .REST, mkD 2 7 .REST,
    mkD 2 8 .ORDERING, mkD 2 9 .WORK, mkD 2 10 .WORK, mkD 2 11 .REST, mkD 2 12 .REST,
    mkD 2 13 .ORDERING, mkD 2 14 .WORK, mkD 2 15 .WORK, mkD 2 16 .WORK, mkD 2 17 .WORK,
    mkD 2 18 .WORK, mkD 2 19 .WORK, mkD 2 20 .REST, mkD 2 21 .REST, mkD 2 22 .ORDERING,
    mkD 2 23 .WORK, mkD 2 24 .WORK, mkD 2 25 .WORK, mkD 2 26 .WORK, mkD 2 27 .WORK,
    mkD 2 28 .WORK, mkD 3 1 .REST, mkD 3 2 .REST, mkD 3 3 .ORDERING, mkD 3 4 .WORK, mkD 3 5 .WORK,
    mkD 3 6 .REST, mkD 3 7 .REST, mkD 3 8 .ORDERING, mkD 3 9 .WORK, mkD 3 10 .WORK,
    mkD 3 11 .REST, mkD 3 12 .REST, mkD 3 13 .ORDERING, mkD 3 14 .WORK, mkD 3 15 .WORK,
    mkD 3 16 .WORK, mkD 3 17 .WORK, mkD 3 18 .REST, mkD 3 19 .REST, mkD 3 20 .ORDERING,
    mkD 3 21 .WORK, mkD 3 22 .WORK, mkD 3 23 .WORK, mkD 3 24 .WORK, mkD 3 25 .WORK,
    mkD 3 26 .WORK, mkD 3 27 .REST, mkD 3 28 .REST, mkD 3 29 .ORDERING, mkD 3 30 .WORK,
    mkD 3 31 .WORK, mkD 4 1 .WORK, mkD 4 2 .WORK, mkD 4 3 .WORK, mkD 4 4 .WORK, mkD 4 5 .REST,
    mkD 4 6 .REST, mkD 4 7 .ORDERING, mkD 4 8 .WORK, mkD 4 9 .WORK, mkD 4 10 .REST,
    mkD 4 11 .REST, mkD 4 12 .ORDERING, mkD 4 13 .WORK, mkD 4 14 .WORK, mkD 4 15 .REST,
    mkD 4 16 .REST, mkD 4 17 .ORDERING, mkD 4 18 .WORK, mkD 4 19 .WORK, mkD 4 20 .WORK,
    mkD 4 21 .WORK, mkD 4 22 .WORK, mkD 4 23 .WORK, mkD 4 24 .REST, mkD 4 25 .REST,
    mkD 4 26 .ORDERING, mkD 4 27 .WORK, mkD 4 28 .WORK, mkD 4 29 .WORK, mkD 4 30 .WORK,
    mkD 5 1 .WORK, mkD 5 2 .WORK, mkD 5 3 .REST, mkD 5 4 .REST, mkD 5 5 .ORDERING, mkD 5 6 .WORK,
    mkD 5 7 .WORK, mkD 5 8 .REST, mkD 5 9 .REST, mkD 5 10 .ORDERING, mkD 5 11 .WORK,
    mkD 5 12 .WORK, mkD 5 13 .REST, mkD 5 14 .REST, mkD 5 15 .ORDERING, mkD 5 16 .WORK,
    mkD 5 17 .WORK, mkD 5 18 .WORK, mkD 5 19 .WORK, mkD 5 20 .REST, mkD 5 21 .REST,
    mkD 5 22 .ORDERING, mkD 5 23 .WORK, mkD 5 24 .WORK, mkD 5 25 .WORK, mkD 5 26 .WORK,
    mkD 5 27 .WORK, mkD 5 28 .WORK, mkD 5 29 .REST, mkD 5 30 .REST, mkD 5 31 .ORDERING,
    mkD 6 1 .WORK, mkD 6 2 .WORK, mkD 6 3 .WORK, mkD 6 4 .WORK, mkD 6 5 .WORK, mkD 6 6 .WORK,
    mkD 6 7 .REST, mkD 6 8 .REST, mkD 6 9 .ORDERING, mkD 6 10 .WORK, mkD 6 11 .WORK,
    mkD 6 12 .REST, mkD 6 13 .REST, mkD 6 14 .ORDERING, mkD 6 15 .WORK, mkD 6 16 .WORK,
    mkD 6 17 .REST, mkD 6 18 .REST, mkD 6 19 .ORDERING, mkD 6 20 .WORK, mkD 6 21 .WORK,
    mkD 6 22 .WORK, mkD 6 23 .WORK, mkD 6 24 .WORK, mkD 6 25 .WORK, mkD 6 26 .REST,
    mkD 6 27 .REST, mkD 6 28 .ORDERING, mkD 6 29 .WORK, mkD 6 30 .WORK, mkD 7 1 .WORK,
    mkD 7 2 .WORK, mkD 7 3 .WORK, mkD 7 4 .WORK, mkD 7 5 .REST, mkD 7 6 .REST, mkD 7 7 .ORDERING,
    mkD 7 8 .WORK, mkD 7 9 .WORK, mkD 7 10 .REST, mkD 7 11 .REST, mkD 7 12 .ORDERING,
    mkD 7 13 .WORK, mkD 7 14 .WORK, mkD 7 15 .REST, mkD 7 16 .REST, mkD 7 17 .ORDERING,
    mkD 7 18 .WORK, mkD 7 19 .WORK, mkD 7 20 .WORK, mkD 7 21 .WORK, mkD 7 22 .WORK,
    mkD 7 23 .WORK, mkD 7 24 .REST, mkD 7 25 .REST, mkD 7 26 .ORDERING, mkD 7 27 .WORK,
    mkD 7 28 .WORK, mkD 7 29 .WORK, mkD 7 30 .WORK, mkD 7 31 .WORK, mkD 8 1 .WORK, mkD 8 2 .REST,
    mkD 8 3 .REST, mkD 8 4 .ORDERING, mkD 8 5 .WORK, mkD 8 6 .WORK, mkD 8 7 .REST, mkD 8 8 .REST,
    mkD 8 9 .ORDERING, mkD 8 10 .WORK, mkD 8 11 .WORK, mkD 8 12 .REST, mkD 8 13 .REST,
    mkD 8 14 .ORDERING, mkD 8 15 .WORK, mkD 8 16 .WORK, mkD 8 17 .WORK, mkD 8 18 .WORK,
    mkD 8 19 .REST, mkD 8 20 .REST, mkD 8 21 .ORDERING, mkD 8 22 .WORK, mkD 8 23 .WORK,
    mkD 8 24 .WORK, mkD 8 25 .WORK, mkD 8 26 .WORK, mkD 8 27 .WORK, mkD 8 28 .REST,
    mkD 8 29 .REST, mkD 8 30 .ORDERING, mkD 8 31 .WORK, mkD 9 1 .WORK, mkD 9 2 .WORK,
    mkD 9 3 .WORK, mkD 9 4 .WORK, mkD 9 5 .WORK, mkD 9 6 .REST, mkD 9 7 .REST, mkD 9 8 .ORDERING,
    mkD 9 9 .WORK, mkD 9 10 .WORK, mkD 9 11 .REST, mkD 9 12 .REST, mkD 9 13 .ORDERING,
    mkD 9 14 .WORK, mkD 9 15 .WORK, mkD 9 16 .REST, mkD 9 17 .REST, mkD 9 18 .ORDERING,
    mkD 9 19 .WORK, mkD 9 20 .WORK, mkD 9 21 .WORK, mkD 9 22 .WORK, mkD 9 23 .WORK,
    mkD 9 24 .WORK, mkD 9 25 .REST, mkD 9 26 .REST, mkD 9 27 .ORDERING, mkD 9 28 .WORK,
    mkD 9 29 .WORK, mkD 9 30 .WORK, mkD 10 1 .WORK, mkD 10 2 .WORK, mkD 10 3 .WORK],
  [39, 38, 37, 36, 35, 34, 33, 32, 31, 30, 29, 28, 27, 26, 25, 24, 23, 22, 21, 20, 19, 18, 17, 16, 15, 14, 13, 12, 11, 10, 9, 8, 7, 6, 5, 4, 3, 2, 1], [9, 8, 7, 6, 5, 4, 3, 2, 1]⟩

/-- Builder state of the witness run before iteration 40. -/
def bst40 : ScheduleState := ⟨⟨2025, 10, 6⟩,
  [mkD 1 1 .WORK, mkD 1 2 .WORK, mkD 1 3 .WORK, mkD 1 4 .REST, mkD 1 5 .REST, mkD 1 6 .ORDERING,
    mkD 1 8 .WORK, mkD 1 9 .WORK, mkD 1 10 .REST, mkD 1 11 .REST, mkD 1 12 .ORDERING,
    mkD 1 13 .WORK, mkD 1 14 .WORK, mkD 1 15 .REST, mkD 1 16 .REST, mkD 1 17 .ORDERING,
    mkD 1 18 .WORK, mkD 1 19 .WORK, mkD 1 20 .WORK, mkD 1 21 .WORK, mkD 1 22 .WORK,
    mkD 1 23 .REST, mkD 1 24 .REST, mkD 1 25 .ORDERING, mkD 1 26 .WORK, mkD 1 27 .WORK,
    mkD 1 28 .WORK, mkD 1 29 .WORK, mkD 1 30 .WORK, mkD 1 31 .WORK, mkD 2 1 .REST, mkD 2 2 .REST,
    mkD 2 3 .ORDERING, mkD 2 4 .WORK, mkD 2 5 .WORK, mkD 2 6 .REST, mkD 2 7 .REST,
    mkD 2 8 .ORDERING, mkD 2 9 .WORK, mkD 2 10 .WORK, mkD 2 11 .REST, mkD 2 12 .REST,
    mkD 2 13 .ORDERING, mkD 2 14 .WORK, mkD 2 15 .WORK, mkD 2 16 .WORK, mkD 2 17 .WORK,
    mkD 2 18 .WORK, mkD 2 19 .WORK, mkD 2 20 .REST, mkD 2 21 .REST, mkD 2 22 .ORDERING,
    mkD 2 23 .WORK, mkD 2 24 .WORK, mkD 2 25 .WORK, mkD 2 26 .WORK, mkD 2 27 .WORK,
    mkD 2 28 .WORK, mkD 3 1 .REST, mkD 3 2 .REST, mkD 3 3 .ORDERING, mkD 3 4 .WORK, mkD 3 5 .WORK,
    mkD 3 6 .REST, mkD 3 7 .REST, mkD 3 8 .ORDERING, mkD 3 9 .WORK, mkD 3 10 .WORK,
    mkD 3 11 .REST, mkD 3 12 .REST, mkD 3 13 .ORDERING, mkD 3 14 .WORK, mkD 3 15 .WORK,
    mkD 3 16 .WORK, mkD 3 17 .WORK, mkD 3 18 .REST, mkD 3 19 .REST, mkD 3 20 .ORDERING,
    mkD 3 21 .WORK, mkD 3 22 .WORK, mkD 3 23 .WORK, mkD 3 24 .WORK, mkD 3 25 .WORK,
    mkD 3 26 .WORK, mkD 3 27 .REST, mkD 3 28 .REST, mkD 3 29 .ORDERING, mkD 3 30 .WORK,
    mkD 3 31 .WORK, mkD 4 1 .WORK, mkD 4 2 .WORK, mkD 4 3 .WORK, mkD 4 4 .WORK, mkD 4 5 .REST,
    mkD 4 6 .REST, mkD 4 7 .ORDERING, mkD 4 8 .WORK, mkD 4 9 .WORK, mkD 4 10 .REST,
    mkD 4 11 .REST, mkD 4 12 .ORDERING, mkD 4 13 .WORK, mkD 4 14 .WORK, mkD 4 15 .REST,
    mkD 4 16 .REST, mkD 4 17 .ORDERING, mkD 4 18 .WORK, mkD 4 19 .WORK, mkD 4 20 .WORK,
    mkD 4 21 .WORK, mkD 4 22 .WORK, mkD 4 23 .WORK, mkD 4 24 .REST, mkD 4 25 .REST,
    mkD 4 26 .ORDERING, mkD 4 27 .WORK, mkD 4 28 .WORK, mkD 4 29 .WORK, mkD 4 30 .WORK,
    mkD 5 1 .WORK, mkD 5 2 .WORK, mkD 5 3 .REST, mkD 5 4 .REST, mkD 5 5 .ORDERING, mkD 5 6 .WORK,
    mkD 5 7 .WORK, mkD 5 8 .REST, mkD 5 9 .REST, mkD 5 10 .ORDERING, mkD 5 11 .WORK,
    mkD 5 12 .WORK, mkD 5 13 .REST, mkD 5 14 .REST, mkD 5 15 .ORDERING, mkD 5 16 .WORK,
    mkD 5 17 .WORK, mkD 5 18 .WORK, mkD 5 19 .WORK, mkD 5 20 .REST, mkD 5 21 .REST,
    mkD 5 22 .ORDERING, mkD 5 23 .WORK, mkD 5 24 .WORK, mkD 5 25 .WORK, mkD 5 26 .WORK,
    mkD 5 27 .WORK, mkD 5 28 .WORK, mkD 5 29 .REST, mkD 5 30 .REST, mkD 5 31 .ORDERING,
    mkD 6 1 .WORK, mkD 6 2 .WORK, mkD 6 3 .WORK, mkD 6 4 .WORK, mkD 6 5 .WORK, mkD 6 6 .WORK,
    mkD 6 7 .REST, mkD 6 8 .REST, mkD 6 9 .ORDERING, mkD 6 10 .WORK, mkD 6 11 .WORK,
    mkD 6 12 .REST, mkD 6 13 .REST, mkD 6 14 .ORDERING, mkD 6 15 .WORK, mkD 6 16 .WORK,
    mkD 6 17 .REST, mkD 6 18 .REST, mkD 6 19 .ORDERING, mkD 6 20 .WORK, mkD 6 21 .WORK,
    mkD 6 22 .WORK, mkD 6 23 .WORK, mkD 6 24 .WORK, mkD 6 25 .WORK, mkD 6 26 .REST,
    mkD 6 27 .REST, mkD 6 28 .ORDERING, mkD 6 29 .WORK, mkD 6 30 .WORK, mkD 7 1 .WORK,
    mkD 7 2 .WORK, mkD 7 3 .WORK, mkD 7 4 .WORK, mkD 7 5 .REST, mkD 7 6 .REST, mkD 7 7 .ORDERING,
    mkD 7 8 .WORK, mkD 7 9 .WORK, mkD 7 10 .REST, mkD 7 11 .REST, mkD 7 12 .ORDERING,
    mkD 7 13 .WORK, mkD 7 14 .WORK, mkD 7 15 .REST, mkD 7 16 .REST, mkD 7 17 .ORDERING,
    mkD 7 18 .WORK, mkD 7 19 .WORK, mkD 7 20 .WORK, mkD 7 21 .WORK, mkD 7 22 .WORK,
    mkD 7 23 .WORK, mkD 7 24 .REST, mkD 7 25 .REST, mkD 7 26 .ORDERING, mkD 7 27 .WORK,
    mkD 7 28 .WORK, mkD 7 29 .WORK, mkD 7 30 .WORK, mkD 7 31 .WORK, mkD 8 1 .WORK, mkD 8 2 .REST,
    mkD 8 3 .REST, mkD 8 4 .ORDERING, mkD 8 5 .WORK, mkD 8 6 .WORK, mkD 8 7 .REST, mkD 8 8 .REST,
    mkD 8 9 .ORDERING, mkD 8 10 .WORK, mkD 8 11 .WORK, mkD 8 12 .REST, mkD 8 13 .REST,
    mkD 8 14 .ORDERING, mkD 8 15 .WORK, mkD 8 16 .WORK, mkD 8 17 .WORK, mkD 8 18 .WORK,
    mkD 8 19 .REST, mkD 8 20 .REST, mkD 8 21 .ORDERING, mkD 8 22 .WORK, mkD 8 23 .WORK,
    mkD 8 24 .WORK, mkD 8 25 .WORK, mkD 8 26 .WORK, mkD 8 27 .WORK, mkD 8 28 .REST,
    mkD 8 29 .REST, mkD 8 30 .ORDERING, mkD 8 31 .WORK, mkD 9 1 .WORK, mkD 9 2 .WORK,
    mkD 9 3 .WORK, mkD 9 4 .WORK, mkD 9 5 .WORK, mkD 9 6 .REST, mkD 9 7 .REST, mkD 9 8 .ORDERING,
    mkD 9 9 .WORK, mkD 9 10 .WORK, mkD 9 11 .REST, mkD 9 12 .REST, mkD 9 13 .ORDERING,
    mkD 9 14 .WORK, mkD 9 15 .WORK, mkD 9 16 .REST, mkD 9 17 .REST, mkD 9 18 .ORDERING,
    mkD 9 19 .WORK, mkD 9 20 .WORK, mkD 9 21 .WORK, mkD 9 22 .WORK, mkD 9 23 .WORK,
    mkD 9 24 .WORK, mkD 9 25 .REST, mkD 9 26 .REST, mkD 9 27 .ORDERING, mkD 9 28 .WORK,
    mkD 9 29 .WORK, mkD 9 30 .WORK, mkD 10 1 .WORK, mkD 10 2 .WORK, mkD 10 3 .WORK,
    mkD 10 4 .REST, mkD 10 5 .REST],
  [40, 39, 38, 37, 36, 35, 34, 33, 32, 31, 30, 29, 28, 27, 26, 25, 24, 23, 22, 21, 20, 19, 18, 17, 16, 15, 14, 13, 12, 11, 10, 9, 8, 7, 6, 5, 4, 3, 2, 1], [10, 9, 8, 7, 6, 5, 4, 3, 2, 1]⟩

/-- Builder state of iteration 40 after its work block. -/
def bmid40 : ScheduleState := ⟨⟨2025, 10, 9⟩,
  [mkD 1 1 .WORK, mkD 1 2 .WORK, mkD 1 3 .WORK, mkD 1 4 .REST, mkD 1 5 .REST, mkD 1 6 .ORDERING,
    mkD 1 8 .WORK, mkD 1 9 .WORK, mkD 1 10 .REST, mkD 1 11 .REST, mkD 1 12 .ORDERING,
    mkD 1 13 .WORK, mkD 1 14 .WORK, mkD 1 15 .REST, mkD 1 16 .REST, mkD 1 17 .ORDERING,
    mkD 1 18 .WORK, mkD 1 19 .WORK, mkD 1 20 .WORK, mkD 1 21 .WORK, mkD 1 22 .WORK,
    mkD 1 23 .REST, mkD 1 24 .REST, mkD 1 25 .ORDERING, mkD 1 26 .WORK, mkD 1 27 .WORK,
    mkD 1 28 .WORK, mkD 1 29 .WORK, mkD 1 30 .WORK, mkD 1 31 .WORK, mkD 2 1 .REST, mkD 2 2 .REST,
    mkD 2 3 .ORDERING, mkD 2 4 .WORK, mkD 2 5 .WORK, mkD 2 6 .REST, mkD 2 7 .REST,
    mkD 2 8 .ORDERING, mkD 2 9 .WORK, mkD 2 10 .WORK, mkD 2 11 .REST, mkD 2 12 .REST,
    mkD 2 13 .ORDERING, mkD 2 14 .WORK, mkD 2 15 .WORK, mkD 2 16 .WORK, mkD 2 17 .WORK,
    mkD 2 18 .WORK, mkD 2 19 .WORK, mkD 2 20 .REST, mkD 2 21 .REST, mkD 2 22 .ORDERING,
    mkD 2 23 .WORK, mkD 2 24 .WORK, mkD 2 25 .WORK, mkD 2 26 .WORK, mkD 2 27 .WORK,
    mkD 2 28 .WORK, mkD 3 1 .REST, mkD 3 2 .REST, mkD 3 3 .ORDERING, mkD 3 4 .WORK, mkD 3 5 .WORK,
    mkD 3 6 .REST, mkD 3 7 .REST, mkD 3 8 .ORDERING, mkD 3 9 .WORK, mkD 3 10 .WORK,
    mkD 3 11 .REST, mkD 3 12 .REST, mkD 3 13 .ORDERING, mkD 3 14 .WORK, mkD 3 15 .WORK,
    mkD 3 16 .WORK, mkD 3 17 .WORK, mkD 3 18 .REST, mkD 3 19 .REST, mkD 3 20 .ORDERING,
    mkD 3 21 .WORK, mkD 3 22 .WORK, mkD 3 23 .WORK, mkD 3 24 .WORK, mkD 3 25 .WORK,
    mkD 3 26 .WORK, mkD 3 27 .REST, mkD 3 28 .REST, mkD 3 29 .ORDERING, mkD 3 30 .WORK,
    mkD 3 31 .WORK, mkD 4 1 .WORK, mkD 4 2 .WORK, mkD 4 3 .WORK, mkD 4 4 .WORK, mkD 4 5 .REST,
    mkD 4 6 .REST, mkD 4 7 .ORDERING, mkD 4 8 .WORK, mkD 4 9 .WORK, mkD 4 10 .REST,
    mkD 4 11 .REST, mkD 4 12 .ORDERING, mkD 4 13 .WORK, mkD 4 14 .WORK, mkD 4 15 .REST,
    mkD 4 16 .REST, mkD 4 17 .ORDERING, mkD 4 18 .WORK, mkD 4 19 .WORK, mkD 4 20 .WORK,
    mkD 4 21 .WORK, mkD 4 22 .WORK, mkD 4 23 .WORK, mkD 4 24 .REST, mkD 4 25 .REST,
    mkD 4 26 .ORDERING, mkD 4 27 .WORK, mkD 4 28 .WORK, mkD 4 29 .WORK, mkD 4 30 .WORK,
    mkD 5 1 .WORK, mkD 5 2 .WORK, mkD 5 3 .REST, mkD 5 4 .REST, mkD 5 5 .ORDERING, mkD 5 6 .WORK,
    mkD 5 7 .WORK, mkD 5 8 .REST, mkD 5 9 .REST, mkD 5 10 .ORDERING, mkD 5 11 .WORK,
    mkD 5 12 .WORK, mkD 5 13 .REST, mkD 5 14 .REST, mkD 5 15 .ORDERING, mkD 5 16 .WORK,
    mkD 5 17 .WORK, mkD 5 18 .WORK, mkD 5 19 .WORK, mkD 5 20 .REST, mkD 5 21 .REST,
    mkD 5 22 .ORDERING, mkD 5 23 .WORK, mkD 5 24 .WORK, mkD 5 25 .WORK, mkD 5 26 .WORK,
    mkD 5 27 .WORK, mkD 5 28 .WORK, mkD 5 29 .REST, mkD 5 30 .REST, mkD 5 31 .ORDERING,
    mkD 6 1 .WORK, mkD 6 2 .WORK, mkD 6 3 .WORK, mkD 6 4 .WORK, mkD 6 5 .WORK, mkD 6 6 .WORK,
    mkD 6 7 .REST, mkD 6 8 .REST, mkD 6 9 .ORDERING, mkD 6 10 .WORK, mkD 6 11 .WORK,
    mkD 6 12 .REST, mkD 6 13 .REST, mkD 6 14 .ORDERING, mkD 6 15 .WORK, mkD 6 16 .WORK,
    mkD 6 17 .REST, mkD 6 18 .REST, mkD 6 19 .ORDERING, mkD 6 20 .WORK, mkD 6 21 .WORK,
    mkD 6 22 .WORK, mkD 6 23 .WORK, mkD 6 24 .WORK, mkD 6 25 .WORK, mkD 6 26 .REST,
    mkD 6 27 .REST, mkD 6 28 .ORDERING, mkD 6 29 .WORK, mkD 6 30 .WORK, mkD 7 1 .WORK,
    mkD 7 2 .WORK, mkD 7 3 .WORK, mkD 7 4 .WORK, mkD 7 5 .REST, mkD 7 6 .REST, mkD 7 7 .ORDERING,
    mkD 7 8 .WORK, mkD 7 9 .WORK, mkD 7 10 .REST, mkD 7 11 .REST, mkD 7 12 .ORDERING,
    mkD 7 13 .WORK, mkD 7 14 .WORK, mkD 7 15 .REST, mkD 7 16 .REST, mkD 7 17 .ORDERING,
    mkD 7 18 .WORK, mkD 7 19 .WORK, mkD 7 20 .WORK, mkD 7 21 .WORK, mkD 7 22 .WORK,
    mkD 7 23 .WORK, mkD 7 24 .REST, mkD 7 25 .REST, mkD 7 26 .ORDERING, mkD 7 27 .WORK,
    mkD 7 28 .WORK, mkD 7 29 .WORK, mkD 7 30 .WORK, mkD 7 31 .WORK, mkD 8 1 .WORK, mkD 8 2 .REST,
    mkD 8 3 .REST, mkD 8 4 .ORDERING, mkD 8 5 .WORK, mkD 8 6 .WORK, mkD 8 7 .REST, mkD 8 8 .REST,
    mkD 8 9 .ORDERING, mkD 8 10 .WORK, mkD 8 11 .WORK, mkD 8 12 .REST, mkD 8 13 .REST,
    mkD 8 14 .ORDERING, mkD 8 15 .WORK, mkD 8 16 .WORK, mkD 8 17 .WORK, mkD 8 18 .WORK,
    mkD 8 19 .REST, mkD 8 20 .REST, mkD 8 21 .ORDERING, mkD 8 22 .WORK, mkD 8 23 .WORK,
    mkD 8 24 .WORK, mkD 8 25 .WORK, mkD 8 26 .WORK, mkD 8 27 .WORK, mkD 8 28 .REST,
    mkD 8 29 .REST, mkD 8 30 .ORDERING, mkD 8 31 .WORK, mkD 9 1 .WORK, mkD 9 2 .WORK,
    mkD 9 3 .WORK, mkD 9 4 .WORK, mkD 9 5 .WORK, mkD 9 6 .REST, mkD 9 7 .REST, mkD 9 8 .ORDERING,
    mkD 9 9 .WORK, mkD 9 10 .WORK, mkD 9 11 .REST, mkD 9 12 .REST, mkD 9 13 .ORDERING,
    mkD 9 14 .WORK, mkD 9 15 .WORK, mkD 9 16 .REST, mkD 9 17 .REST, mkD 9 18 .ORDERING,
    mkD 9 19 .WORK, mkD 9 20 .WORK, mkD 9 21 .WORK, mkD 9 22 .WORK, mkD 9 23 .WORK,
    mkD 9 24 .WORK, mkD 9 25 .REST, mkD 9 26 .REST, mkD 9 27 .ORDERING, mkD 9 28 .WORK,
    mkD 9 29 .WORK, mkD 9 30 .WORK, mkD 10 1 .WORK, mkD 10 2 .WORK, mkD 10 3 .WORK,
    mkD 10 4 .REST, mkD 10 5 .REST, mkD 10 6 .ORDERING, mkD 10 7 .WORK, mkD 10 8 .WORK],
  [40, 39, 38, 37, 36, 35, 34, 33, 32, 31, 30, 29, 28, 27, 26, 25, 24, 23, 22, 21, 20, 19, 18, 17, 16, 15, 14, 13, 12, 11, 10, 9, 8, 7, 6, 5, 4, 3, 2, 1], [10, 9, 8, 7, 6, 5, 4, 3, 2, 1]⟩

/-- Builder state of the witness run before iteration 41. -/
def bst41 : ScheduleState := ⟨⟨2025, 10, 11⟩,
  [mkD 1 1 .WORK, mkD 1 2 .WORK, mkD 1 3 .WORK, mkD 1 4 .REST, mkD 1 5 .REST, mkD 1 6 .ORDERING,
    mkD 1 8 .WORK, mkD 1 9 .WORK, mkD 1 10 .REST, mkD 1 11 .REST, mkD 1 12 .ORDERING,
    mkD 1 13 .WORK, mkD 1 14 .WORK, mkD 1 15 .REST, mkD 1 16 .REST, mkD 1 17 .ORDERING,
    mkD 1 18 .WORK, mkD 1 19 .WORK, mkD 1 20 .WORK, mkD 1 21 .WORK, mkD 1 22 .WORK,
    mkD 1 23 .REST, mkD 1 24 .REST, mkD 1 25 .ORDERING, mkD 1 26 .WORK, mkD 1 27 .WORK,
    mkD 1 28 .WORK, mkD 1 29 .WORK, mkD 1 30 .WORK, mkD 1 31 .WORK, mkD 2 1 .REST, mkD 2 2 .REST,
    mkD 2 3 .ORDERING, mkD 2 4 .WORK, mkD 2 5 .WORK, mkD 2 6 .REST, mkD 2 7 .REST,
    mkD 2 8 .ORDERING, mkD 2 9 .WORK, mkD 2 10 .WORK, mkD 2 11 .REST, mkD 2 12 .REST,
    mkD 2 13 .ORDERING, mkD 2 14 .WORK, mkD 2 15 .WORK, mkD 2 16 .WORK, mkD 2 17 .WORK,
    mkD 2 18 .WORK, mkD 2 19 .WORK, mkD 2 20 .REST, mkD 2 21 .REST, mkD 2 22 .ORDERING,
    mkD 2 23 .WORK, mkD 2 24 .WORK, mkD 2 25 .WORK, mkD 2 26 .WORK, mkD 2 27 .WORK,
    mkD 2 28 .WORK, mkD 3 1 .REST, mkD 3 2 .REST, mkD 3 3 .ORDERING, mkD 3 4 .WORK, mkD 3 5 .WORK,
    mkD 3 6 .REST, mkD 3 7 .REST, mkD 3 8 .ORDERING, mkD 3 9 .WORK, mkD 3 10 .WORK,
    mkD 3 11 .REST, mkD 3 12 .REST, mkD 3 13 .ORDERING, mkD 3 14 .WORK, mkD 3 15 .WORK,
    mkD 3 16 .WORK, mkD 3 17 .WORK, mkD 3 18 .REST, mkD 3 19 .REST, mkD 3 20 .ORDERING,
    mkD 3 21 .WORK, mkD 3 22 .WORK, mkD 3 23 .WORK, mkD 3 24 .WORK, mkD 3 25 .WORK,
    mkD 3 26 .WORK, mkD 3 27 .REST, mkD 3 28 .REST, mkD 3 29 .ORDERING, mkD 3 30 .WORK,
    mkD 3 31 .WORK, mkD 4 1 .WORK, mkD 4 2 .WORK, mkD 4 3 .WORK, mkD 4 4 .WORK, mkD 4 5 .REST,
    mkD 4 6 .REST, mkD 4 7 .ORDERING, mkD 4 8 .WORK, mkD 4 9 .WORK, mkD 4 10 .REST,
    mkD 4 11 .REST, mkD 4 12 .ORDERING, mkD 4 13 .WORK, mkD 4 14 .WORK, mkD 4 15 .REST,
    mkD 4 16 .REST, mkD 4 17 .ORDERING, mkD 4 18 .WORK, mkD 4 19 .WORK, mkD 4 20 .WORK,
    mkD 4 21 .WORK, mkD 4 22 .WORK, mkD 4 23 .WORK, mkD 4 24 .REST, mkD 4 25 .REST,
    mkD 4 26 .ORDERING, mkD 4 27 .WORK, mkD 4 28 .WORK, mkD 4 29 .WORK, mkD 4 30 .WORK,
    mkD 5 1 .WORK, mkD 5 2 .WORK, mkD 5 3 .REST, mkD 5 4 .REST, mkD 5 5 .ORDERING, mkD 5 6 .WORK,
    mkD 5 7 .WORK, mkD 5 8 .REST, mkD 5 9 .REST, mkD 5 10 .ORDERING, mkD 5 11 .WORK,
    mkD 5 12 .WORK, mkD 5 13 .REST, mkD 5 14 .REST, mkD 5 15 .ORDERING, mkD 5 16 .WORK,
    mkD 5 17 .WORK, mkD 5 18 .WORK, mkD 5 19 .WORK, mkD 5 20 .REST, mkD 5 21 .REST,
    mkD 5 22 .ORDERING, mkD 5 23 .WORK, mkD 5 24 .WORK, mkD 5 25 .WORK, mkD 5 26 .WORK,
    mkD 5 27 .WORK, mkD 5 28 .WORK, mkD 5 29 .REST, mkD 5 30 .REST, mkD 5 31 .ORDERING,
    mkD 6 1 .WORK, mkD 6 2 .WORK, mkD 6 3 .WORK, mkD 6 4 .WORK, mkD 6 5 .WORK, mkD 6 6 .WORK,
    mkD 6 7 .REST, mkD 6 8 .REST, mkD 6 9 .ORDERING, mkD 6 10 .WORK, mkD 6 11 .WORK,
    mkD 6 12 .REST, mkD 6 13 .REST, mkD 6 14 .ORDERING, mkD 6 15 .WORK, mkD 6 16 .WORK,
    mkD 6 17 .REST, mkD 6 18 .REST, mkD 6 19 .ORDERING, mkD 6 20 .WORK, mkD 6 21 .WORK,
    mkD 6 22 .WORK, mkD 6 23 .WORK, mkD 6 24 .WORK, mkD 6 25 .WORK, mkD 6 26 .REST,
    mkD 6 27 .REST, mkD 6 28 .ORDERING, mkD 6 29 .WORK, mkD 6 30 .WORK, mkD 7 1 .WORK,
    mkD 7 2 .WORK, mkD 7 3 .WORK, mkD 7 4 .WORK, mkD 7 5 .REST, mkD 7 6 .REST, mkD 7 7 .ORDERING,
    mkD 7 8 .WORK, mkD 7 9 .WORK, mkD 7 10 .REST, mkD 7 11 .REST, mkD 7 12 .ORDERING,
    mkD 7 13 .WORK, mkD 7 14 .WORK, mkD 7 15 .REST, mkD 7 16 .REST, mkD 7 17 .ORDERING,
    mkD 7 18 .WORK, mkD 7 19 .WORK, mkD 7 20 .WORK, mkD 7 21 .WORK, mkD 7 22 .WORK,
    mkD 7 23 .WORK, mkD 7 24 .REST, mkD 7 25 .REST, mkD 7 26 .ORDERING, mkD 7 27 .WORK,
    mkD 7 28 .WORK, mkD 7 29 .WORK, mkD 7 30 .WORK, mkD 7 31 .WORK, mkD 8 1 .WORK, mkD 8 2 .REST,
    mkD 8 3 .REST, mkD 8 4 .ORDERING, mkD 8 5 .WORK, mkD 8 6 .WORK, mkD 8 7 .REST, mkD 8 8 .REST,
    mkD 8 9 .ORDERING, mkD 8 10 .WORK, mkD 8 11 .WORK, mkD 8 12 .REST, mkD 8 13 .REST,
    mkD 8 14 .ORDERING, mkD 8 15 .WORK, mkD 8 16 .WORK, mkD 8 17 .WORK, mkD 8 18 .WORK,
    mkD 8 19 .REST, mkD 8 20 .REST, mkD 8 21 .ORDERING, mkD 8 22 .WORK, mkD 8 23 .WORK,
    mkD 8 24 .WORK, mkD 8 25 .WORK, mkD 8 26 .WORK, mkD 8 27 .WORK, mkD 8 28 .REST,
    mkD 8 29 .REST, mkD 8 30 .ORDERING, mkD 8 31 .WORK, mkD 9 1 .WORK, mkD 9 2 .WORK,
    mkD 9 3 .WORK, mkD 9 4 .WORK, mkD 9 5 .WORK, mkD 9 6 .REST, mkD 9 7 .REST, mkD 9 8 .ORDERING,
    mkD 9 9 .WORK, mkD 9 10 .WORK, mkD 9 11 .REST, mkD 9 12 .REST, mkD 9 13 .ORDERING,
    mkD 9 14 .WORK, mkD 9 15 .WORK, mkD 9 16 .REST, mkD 9 17 .REST, mkD 9 18 .ORDERING,
    mkD 9 19 .WORK, mkD 9 20 .WORK, mkD 9 21 .WORK, mkD 9 22 .WORK, mkD 9 23 .WORK,
    mkD 9 24 .WORK, mkD 9 25 .REST, mkD 9 26 .REST, mkD 9 27 .ORDERING, mkD 9 28 .WORK,
    mkD 9 29 .WORK, mkD 9 30 .WORK, mkD 10 1 .WORK, mkD 10 2 .WORK, mkD 10 3 .WORK,
    mkD 10 4 .REST, mkD 10 5 .REST, mkD 10 6 .ORDERING, mkD 10 7 .WORK, mkD 10 8 .WORK,
    mkD 10 9 .REST, mkD 10 10 .REST],
  [41, 40, 39, 38, 37, 36, 35, 34, 33, 32, 31, 30, 29, 28, 27, 26, 25, 24, 23, 22, 21, 20, 19, 18, 17, 16, 15, 14, 13, 12, 11, 10, 9, 8, 7, 6, 5, 4, 3, 2, 1], [10, 9, 8, 7, 6, 5, 4, 3, 2, 1]⟩

/-- Builder state of iteration 41 after its work block. -/
def bmid41 : ScheduleState := ⟨⟨2025, 10, 14⟩,
  [mkD 1 1 .WORK, mkD 1 2 .WORK, mkD 1 3 .WORK, mkD 1 4 .REST, mkD 1 5 .REST, mkD 1 6 .ORDERING,
    mkD 1 8 .WORK, mkD 1 9 .WORK, mkD 1 10 .REST, mkD 1 11 .REST, mkD 1 12 .ORDERING,
    mkD 1 13 .WORK, mkD 1 14 .WORK, mkD 1 15 .REST, mkD 1 16 .REST, mkD 1 17 .ORDERING,
    mkD 1 18 .WORK, mkD 1 19 .WORK, mkD 1 20 .WORK, mkD 1 21 .WORK, mkD 1 22 .WORK,
    mkD 1 23 .REST, mkD 1 24 .REST, mkD 1 25 .ORDERING, mkD 1 26 .WORK, mkD 1 27 .WORK,
    mkD 1 28 .WORK, mkD 1 29 .WORK, mkD 1 30 .WORK, mkD 1 31 .WORK, mkD 2 1 .REST, mkD 2 2 .REST,
    mkD 2 3 .ORDERING, mkD 2 4 .WORK, mkD 2 5 .WORK, mkD 2 6 .REST, mkD 2 7 .REST,
    mkD 2 8 .ORDERING, mkD 2 9 .WORK, mkD 2 10 .WORK, mkD 2 11 .REST, mkD 2 12 .REST,
    mkD 2 13 .ORDERING, mkD 2 14 .WORK, mkD 2 15 .WORK, mkD 2 16 .WORK, mkD 2 17 .WORK,
    mkD 2 18 .WORK, mkD 2 19 .WORK, mkD 2 20 .REST, mkD 2 21 .REST, mkD 2 22 .ORDERING,
    mkD 2 23 .WORK, mkD 2 24 .WORK, mkD 2 25 .WORK, mkD 2 26 .WORK, mkD 2 27 .WORK,
    mkD 2 28 .WORK, mkD 3 1 .REST, mkD 3 2 .REST, mkD 3 3 .ORDERING, mkD 3 4 .WORK, mkD 3 5 .WORK,
    mkD 3 6 .REST, mkD 3 7 .REST, mkD 3 8 .ORDERING, mkD 3 9 .WORK, mkD 3 10 .WORK,
    mkD 3 11 .REST, mkD 3 12 .REST, mkD 3 13 .ORDERING, mkD 3 14 .WORK, mkD 3 15 .WORK,
    mkD 3 16 .WORK, mkD 3 17 .WORK, mkD 3 18 .REST, mkD 3 19 .REST, mkD 3 20 .ORDERING,
    mkD 3 21 .WORK, mkD 3 22 .WORK, mkD 3 23 .WORK, mkD 3 24 .WORK, mkD 3 25 .WORK,
    mkD 3 26 .WORK, mkD 3 27 .REST, mkD 3 28 .REST, mkD 3 29 .ORDERING, mkD 3 30 .WORK,
    mkD 3 31 .WORK, mkD 4 1 .WORK, mkD 4 2 .WORK, mkD 4 3 .WORK, mkD 4 4 .WORK, mkD 4 5 .REST,
    mkD 4 6 .REST, mkD 4 7 .ORDERING, mkD 4 8 .WORK, mkD 4 9 .WORK, mkD 4 10 .REST,
    mkD 4 11 .REST, mkD 4 12 .ORDERING, mkD 4 13 .WORK, mkD 4 14 .WORK, mkD 4 15 .REST,
    mkD 4 16 .REST, mkD 4 17 .ORDERING, mkD 4 18 .WORK, mkD 4 19 .WORK, mkD 4 20 .WORK,
    mkD 4 21 .WORK, mkD 4 22 .WORK, mkD 4 23 .WORK, mkD 4 24 .REST, mkD 4 25 .REST,
    mkD 4 26 .ORDERING, mkD 4 27 .WORK, mkD 4 28 .WORK, mkD 4 29 .WORK, mkD 4 30 .WORK,
    mkD 5 1 .WORK, mkD 5 2 .WORK, mkD 5 3 .REST, mkD 5 4 .REST, mkD 5 5 .ORDERING, mkD 5 6 .WORK,
    mkD 5 7 .WORK, mkD 5 8 .REST, mkD 5 9 .REST, mkD 5 10 .ORDERING, mkD 5 11 .WORK,
    mkD 5 12 .WORK, mkD 5 13 .REST, mkD 5 14 .REST, mkD 5 15 .ORDERING, mkD 5 16 .WORK,
    mkD 5 17 .WORK, mkD 5 18 .WORK, mkD 5 19 .WORK, mkD 5 20 .REST, mkD 5 21 .REST,
    mkD 5 22 .ORDERING, mkD 5 23 .WORK, mkD 5 24 .WORK, mkD 5 25 .WORK, mkD 5 26 .WORK,
    mkD 5 27 .WORK, mkD 5 28 .WORK, mkD 5 29 .REST, mkD 5 30 .REST, mkD 5 31 .ORDERING,
    mkD 6 1 .WORK, mkD 6 2 .WORK, mkD 6 3 .WORK, mkD 6 4 .WORK, mkD 6 5 .WORK, mkD 6 6 .WORK,
    mkD 6 7 .REST, mkD 6 8 .REST, mkD 6 9 .ORDERING, mkD 6 10 .WORK, mkD 6 11 .WORK,
    mkD 6 12 .REST, mkD 6 13 .REST, mkD 6 14 .ORDERING, mkD 6 15 .WORK, mkD 6 16 .WORK,
    mkD 6 17 .REST, mkD 6 18 .REST, mkD 6 19 .ORDERING, mkD 6 20 .WORK, mkD 6 21 .WORK,
    mkD 6 22 .WORK, mkD 6 23 .WORK, mkD 6 24 .WORK, mkD 6 25 .WORK, mkD 6 26 .REST,
    mkD 6 27 .REST, mkD 6 28 .ORDERING, mkD 6 29 .WORK, mkD 6 30 .WORK, mkD 7 1 .WORK,
    mkD 7 2 .WORK, mkD 7 3 .WORK, mkD 7 4 .WORK, mkD 7 5 .REST, mkD 7 6 .REST, mkD 7 7 .ORDERING,
    mkD 7 8 .WORK, mkD 7 9 .WORK, mkD 7 10 .REST, mkD 7 11 .REST, mkD 7 12 .ORDERING,
    mkD 7 13 .WORK, mkD 7 14 .WORK, mkD 7 15 .REST, mkD 7 16 .REST, mkD 7 17 .ORDERING,
    mkD 7 18 .WORK, mkD 7 19 .WORK, mkD 7 20 .WORK, mkD 7 21 .WORK, mkD 7 22 .WORK,
    mkD 7 23 .WORK, mkD 7 24 .REST, mkD 7 25 .REST, mkD 7 26 .ORDERING, mkD 7 27 .WORK,
    mkD 7 28 .WORK, mkD 7 29 .WORK, mkD 7 30 .WORK, mkD 7 31 .WORK, mkD 8 1 .WORK, mkD 8 2 .REST,
    mkD 8 3 .REST, mkD 8 4 .ORDERING, mkD 8 5 .WORK, mkD 8 6 .WORK, mkD 8 7 .REST, mkD 8 8 .REST,
    mkD 8 9 .ORDERING, mkD 8 10 .WORK, mkD 8 11 .WORK, mkD 8 12 .REST, mkD 8 13 .REST,
    mkD 8 14 .ORDERING, mkD 8 15 .WORK, mkD 8 16 .WORK, mkD 8 17 .WORK, mkD 8 18 .WORK,
    mkD 8 19 .REST, mkD 8 20 .REST, mkD 8 21 .ORDERING, mkD 8 22 .WORK, mkD 8 23 .WORK,
    mkD 8 24 .WORK, mkD 8 25 .WORK, mkD 8 26 .WORK, mkD 8 27 .WORK, mkD 8 28 .REST,
    mkD 8 29 .REST, mkD 8 30 .ORDERING, mkD 8 31 .WORK, mkD 9 1 .WORK, mkD 9 2 .WORK,
    mkD 9 3 .WORK, mkD 9 4 .WORK, mkD 9 5 .WORK, mkD 9 6 .REST, mkD 9 7 .REST, mkD 9 8 .ORDERING,
    mkD 9 9 .WORK, mkD 9 10 .WORK, mkD 9 11 .REST, mkD 9 12 .REST, mkD 9 13 .ORDERING,
    mkD 9 14 .WORK, mkD 9 15 .WORK, mkD 9 16 .REST, mkD 9 17 .REST, mkD 9 18 .ORDERING,
    mkD 9 19 .WORK, mkD 9 20 .WORK, mkD 9 21 .WORK, mkD 9 22 .WORK, mkD 9 23 .WORK,
    mkD 9 24 .WORK, mkD 9 25 .REST, mkD 9 26 .REST, mkD 9 27 .ORDERING, mkD 9 28 .WORK,
    mkD 9 29 .WORK, mkD 9 30 .WORK, mkD 10 1 .WORK, mkD 10 2 .WORK, mkD 10 3 .WORK,
    mkD 10 4 .REST, mkD 10 5 .REST, mkD 10 6 .ORDERING, mkD 10 7 .WORK, mkD 10 8 .WORK,
    mkD 10 9 .REST, mkD 10 10 .REST, mkD 10 11 .ORDERING, mkD 10 12 .WORK, mkD 10 13 .WORK],
  [41, 40, 39, 38, 37, 36, 35, 34, 33, 32, 31, 30, 29, 28, 27, 26, 25, 24, 23, 22, 21, 20, 19, 18, 17, 16, 15, 14, 13, 12, 11, 10, 9, 8, 7, 6, 5, 4, 3, 2, 1], [10, 9, 8, 7, 6, 5, 4, 3, 2, 1]⟩

/-- Builder state of the witness run before iteration 42. -/
def bst42 : ScheduleState := ⟨⟨2025, 10, 16⟩,
  [mkD 1 1 .WORK, mkD 1 2 .WORK, mkD 1 3 .WORK, mkD 1 4 .REST, mkD 1 5 .REST, mkD 1 6 .ORDERING,
    mkD 1 8 .WORK, mkD 1 9 .WORK, mkD 1 10 .REST, mkD 1 11 .REST, mkD 1 12 .ORDERING,
    mkD 1 13 .WORK, mkD 1 14 .WORK, mkD 1 15 .REST, mkD 1 16 .REST, mkD 1 17 .ORDERING,
    mkD 1 18 .WORK, mkD 1 19 .WORK, mkD 1 20 .WORK, mkD 1 21 .WORK, mkD 1 22 .WORK,
    mkD 1 23 .REST, mkD 1 24 .REST, mkD 1 25 .ORDERING, mkD 1 26 .WORK, mkD 1 27 .WORK,
    mkD 1 28 .WORK, mkD 1 29 .WORK, mkD 1 30 .WORK, mkD 1 31 .WORK, mkD 2 1 .REST, mkD 2 2 .REST,
    mkD 2 3 .ORDERING, mkD 2 4 .WORK, mkD 2 5 .WORK, mkD 2 6 .REST, mkD 2 7 .REST,
    mkD 2 8 .ORDERING, mkD 2 9 .WORK, mkD 2 10 .WORK, mkD 2 11 .REST, mkD 2 12 .REST,
    mkD 2 13 .ORDERING, mkD 2 14 .WORK, mkD 2 15 .WORK, mkD 2 16 .WORK, mkD 2 17 .WORK,
    mkD 2 18 .WORK, mkD 2 19 .WORK, mkD 2 20 .REST, mkD 2 21 .REST, mkD 2 22 .ORDERING,
    mkD 2 23 .WORK, mkD 2 24 .WORK, mkD 2 25 .WORK, mkD 2 26 .WORK, mkD 2 27 .WORK,
    mkD 2 28 .WORK, mkD 3 1 .REST, mkD 3 2 .REST, mkD 3 3 .ORDERING, mkD 3 4 .WORK, mkD 3 5 .WORK,
    mkD 3 6 .REST, mkD 3 7 .REST, mkD 3 8 .ORDERING, mkD 3 9 .WORK, mkD 3 10 .WORK,
    mkD 3 11 .REST, mkD 3 12 .REST, mkD 3 13 .ORDERING, mkD 3 14 .WORK, mkD 3 15 .WORK,
    mkD 3 16 .WORK, mkD 3 17 .WORK, mkD 3 18 .REST, mkD 3 19 .REST, mkD 3 20 .ORDERING,
    mkD 3 21 .WORK, mkD 3 22 .WORK, mkD 3 23 .WORK, mkD 3 24 .WORK, mkD 3 25 .WORK,
    mkD 3 26 .WORK, mkD 3 27 .REST, mkD 3 28 .REST, mkD 3 29 .ORDERING, mkD 3 30 .WORK,
    mkD 3 31 .WORK, mkD 4 1 .WORK, mkD 4 2 .WORK, mkD 4 3 .WORK, mkD 4 4 .WORK, mkD 4 5 .REST,
    mkD 4 6 .REST, mkD 4 7 .ORDERING, mkD 4 8 .WORK, mkD 4 9 .WORK, mkD 4 10 .REST,
    mkD 4 11 .REST, mkD 4 12 .ORDERING, mkD 4 13 .WORK, mkD 4 14 .WORK, mkD 4 15 .REST,
    mkD 4 16 .REST, mkD 4 17 .ORDERING, mkD 4 18 .WORK, mkD 4 19 .WORK, mkD 4 20 .WORK,
    mkD 4 21 .WORK, mkD 4 22 .WORK, mkD 4 23 .WORK, mkD 4 24 .REST, mkD 4 25 .REST,
    mkD 4 26 .ORDERING, mkD 4 27 .WORK, mkD 4 28 .WORK, mkD 4 29 .WORK, mkD 4 30 .WORK,
    mkD 5 1 .WORK, mkD 5 2 .WORK, mkD 5 3 .REST, mkD 5 4 .REST, mkD 5 5 .ORDERING, mkD 5 6 .WORK,
    mkD 5 7 .WORK, mkD 5 8 .REST, mkD 5 9 .REST, mkD 5 10 .ORDERING, mkD 5 11 .WORK,
    mkD 5 12 .WORK, mkD 5 13 .REST, mkD 5 14 .REST, mkD 5 15 .ORDERING, mkD 5 16 .WORK,
    mkD 5 17 .WORK, mkD 5 18 .WORK, mkD 5 19 .WORK, mkD 5 20 .REST, mkD 5 21 .REST,
    mkD 5 22 .ORDERING, mkD 5 23 .WORK, mkD 5 24 .WORK, mkD 5 25 .WORK, mkD 5 26 .WORK,
    mkD 5 27 .WORK, mkD 5 28 .WORK, mkD 5 29 .REST, mkD 5 30 .REST, mkD 5 31 .ORDERING,
    mkD 6 1 .WORK, mkD 6 2 .WORK, mkD 6 3 .WORK, mkD 6 4 .WORK, mkD 6 5 .WORK, mkD 6 6 .WORK,
    mkD 6 7 .REST, mkD 6 8 .REST, mkD 6 9 .ORDERING, mkD 6 10 .WORK, mkD 6 11 .WORK,
    mkD 6 12 .REST, mkD 6 13 .REST, mkD 6 14 .ORDERING, mkD 6 15 .WORK, mkD 6 16 .WORK,
    mkD 6 17 .REST, mkD 6 18 .REST, mkD 6 19 .ORDERING, mkD 6 20 .WORK, mkD 6 21 .WORK,
    mkD 6 22 .WORK, mkD 6 23 .WORK, mkD 6 24 .WORK, mkD 6 25 .WORK, mkD 6 26 .REST,
    mkD 6 27 .REST, mkD 6 28 .ORDERING, mkD 6 29 .WORK, mkD 6 30 .WORK, mkD 7 1 .WORK,
    mkD 7 2 .WORK, mkD 7 3 .WORK, mkD 7 4 .WORK, mkD 7 5 .REST, mkD 7 6 .REST, mkD 7 7 .ORDERING,
    mkD 7 8 .WORK, mkD 7 9 .WORK, mkD 7 10 .REST, mkD 7 11 .REST, mkD 7 12 .ORDERING,
    mkD 7 13 .WORK, mkD 7 14 .WORK, mkD 7 15 .REST, mkD 7 16 .REST, mkD 7 17 .ORDERING,
    mkD 7 18 .WORK, mkD 7 19 .WORK, mkD 7 20 .WORK, mkD 7 21 .WORK, mkD 7 22 .WORK,
    mkD 7 23 .WORK, mkD 7 24 .REST, mkD 7 25 .REST, mkD 7 26 .ORDERING, mkD 7 27 .WORK,
    mkD 7 28 .WORK, mkD 7 29 .WORK, mkD 7 30 .WORK, mkD 7 31 .WORK, mkD 8 1 .WORK, mkD 8 2 .REST,
    mkD 8 3 .REST, mkD 8 4 .ORDERING, mkD 8 5 .WORK, mkD 8 6 .WORK, mkD 8 7 .REST, mkD 8 8 .REST,
    mkD 8 9 .ORDERING, mkD 8 10 .WORK, mkD 8 11 .WORK, mkD 8 12 .REST, mkD 8 13 .REST,
    mkD 8 14 .ORDERING, mkD 8 15 .WORK, mkD 8 16 .WORK, mkD 8 17 .WORK, mkD 8 18 .WORK,
    mkD 8 19 .REST, mkD 8 20 .REST, mkD 8 21 .ORDERING, mkD 8 22 .WORK, mkD 8 23 .WORK,
    mkD 8 24 .WORK, mkD 8 25 .WORK, mkD 8 26 .WORK, mkD 8 27 .WORK, mkD 8 28 .REST,
    mkD 8 29 .REST, mkD 8 30 .ORDERING, mkD 8 31 .WORK, mkD 9 1 .WORK, mkD 9 2 .WORK,
    mkD 9 3 .WORK, mkD 9 4 .WORK, mkD 9 5 .WORK, mkD 9 6 .REST, mkD 9 7 .REST, mkD 9 8 .ORDERING,
    mkD 9 9 .WORK, mkD 9 10 .WORK, mkD 9 11 .REST, mkD 9 12 .REST, mkD 9 13 .ORDERING,
    mkD 9 14 .WORK, mkD 9 15 .WORK, mkD 9 16 .REST, mkD 9 17 .REST, mkD 9 18 .ORDERING,
    mkD 9 19 .WORK, mkD 9 20 .WORK, mkD 9 21 .WORK, mkD 9 22 .WORK, mkD 9 23 .WORK,
    mkD 9 24 .WORK, mkD 9 25 .REST, mkD 9 26 .REST, mkD 9 27 .ORDERING, mkD 9 28 .WORK,
    mkD 9 29 .WORK, mkD 9 30 .WORK, mkD 10 1 .WORK, mkD 10 2 .WORK, mkD 10 3 .WORK,
    mkD 10 4 .REST, mkD 10 5 .REST, mkD 10 6 .ORDERING, mkD 10 7 .WORK, mkD 10 8 .WORK,
    mkD 10 9 .REST, mkD 10 10 .REST, mkD 10 11 .ORDERING, mkD 10 12 .WORK, mkD 10 13 .WORK,
    mkD 10 14 .REST, mkD 10 15 .REST],
  [42, 41, 40, 39, 38, 37, 36, 35, 34, 33, 32, 31, 30, 29, 28, 27, 26, 25, 24, 23, 22, 21, 20, 19, 18, 17, 16, 15, 14, 13, 12, 11, 10, 9, 8, 7, 6, 5, 4, 3, 2, 1], [10, 9, 8, 7, 6, 5, 4, 3, 2, 1]⟩

/-- Builder state of iteration 42 after its work block. -/
def bmid42 : ScheduleState := ⟨⟨2025, 10, 23⟩,
  [mkD 1 1 .WORK, mkD 1 2 .WORK, mkD 1 3 .WORK, mkD 1 4 .REST, mkD 1 5 .REST, mkD 1 6 .ORDERING,
    mkD 1 8 .WORK, mkD 1 9 .WORK, mkD 1 10 .REST, mkD 1 11 .REST, mkD 1 12 .ORDERING,
    mkD 1 13 .WORK, mkD 1 14 .WORK, mkD 1 15 .REST, mkD 1 16 .REST, mkD 1 17 .ORDERING,
    mkD 1 18 .WORK, mkD 1 19 .WORK, mkD 1 20 .WORK, mkD 1 21 .WORK, mkD 1 22 .WORK,
    mkD 1 23 .REST, mkD 1 24 .REST, mkD 1 25 .ORDERING, mkD 1 26 .WORK, mkD 1 27 .WORK,
    mkD 1 28 .WORK, mkD 1 29 .WORK, mkD 1 30 .WORK, mkD 1 31 .WORK, mkD 2 1 .REST, mkD 2 2 .REST,
    mkD 2 3 .ORDERING, mkD 2 4 .WORK, mkD 2 5 .WORK, mkD 2 6 .REST, mkD 2 7 .REST,
    mkD 2 8 .ORDERING, mkD 2 9 .WORK, mkD 2 10 .WORK, mkD 2 11 .REST, mkD 2 12 .REST,
    mkD 2 13 .ORDERING, mkD 2 14 .WORK, mkD 2 15 .WORK, mkD 2 16 .WORK, mkD 2 17 .WORK,
    mkD 2 18 .WORK, mkD 2 19 .WORK, mkD 2 20 .REST, mkD 2 21 .REST, mkD 2 22 .ORDERING,
    mkD 2 23 .WORK, mkD 2 24 .WORK, mkD 2 25 .WORK, mkD 2 26 .WORK, mkD 2 27 .WORK,
    mkD 2 28 .WORK, mkD 3 1 .REST, mkD 3 2 .REST, mkD 3 3 .ORDERING, mkD 3 4 .WORK, mkD 3 5 .WORK,
    mkD 3 6 .REST, mkD 3 7 .REST, mkD 3 8 .ORDERING, mkD 3 9 .WORK, mkD 3 10 .WORK,
    mkD 3 11 .REST, mkD 3 12 .REST, mkD 3 13 .ORDERING, mkD 3 14 .WORK, mkD 3 15 .WORK,
    mkD 3 16 .WORK, mkD 3 17 .WORK, mkD 3 18 .REST, mkD 3 19 .REST, mkD 3 20 .ORDERING,
    mkD 3 21 .WORK, mkD 3 22 .WORK, mkD 3 23 .WORK, mkD 3 24 .WORK, mkD 3 25 .WORK,
    mkD 3 26 .WORK, mkD 3 27 .REST, mkD 3 28 .REST, mkD 3 29 .ORDERING, mkD 3 30 .WORK,
    mkD 3 31 .WORK, mkD 4 1 .WORK, mkD 4 2 .WORK, mkD 4 3 .WORK, mkD 4 4 .WORK, mkD 4 5 .REST,
    mkD 4 6 .REST, mkD 4 7 .ORDERING, mkD 4 8 .WORK, mkD 4 9 .WORK, mkD 4 10 .REST,
    mkD 4 11 .REST, mkD 4 12 .ORDERING, mkD 4 13 .WORK, mkD 4 14 .WORK, mkD 4 15 .REST,
    mkD 4 16 .REST, mkD 4 17 .ORDERING, mkD 4 18 .WORK, mkD 4 19 .WORK, mkD 4 20 .WORK,
    mkD 4 21 .WORK, mkD 4 22 .WORK, mkD 4 23 .WORK, mkD 4 24 .REST, mkD 4 25 .REST,
    mkD 4 26 .ORDERING, mkD 4 27 .WORK, mkD 4 28 .WORK, mkD 4 29 .WORK, mkD 4 30 .WORK,
    mkD 5 1 .WORK, mkD 5 2 .WORK, mkD 5 3 .REST, mkD 5 4 .REST, mkD 5 5 .ORDERING, mkD 5 6 .WORK,
    mkD 5 7 .WORK, mkD 5 8 .REST, mkD 5 9 .REST, mkD 5 10 .ORDERING, mkD 5 11 .WORK,
    mkD 5 12 .WORK, mkD 5 13 .REST, mkD 5 14 .REST, mkD 5 15 .ORDERING, mkD 5 16 .WORK,
    mkD 5 17 .WORK, mkD 5 18 .WORK, mkD 5 19 .WORK, mkD 5 20 .REST, mkD 5 21 .REST,
    mkD 5 22 .ORDERING, mkD 5 23 .WORK, mkD 5 24 .WORK, mkD 5 25 .WORK, mkD 5 26 .WORK,
    mkD 5 27 .WORK, mkD 5 28 .WORK, mkD 5 29 .REST, mkD 5 30 .REST, mkD 5 31 .ORDERING,
    mkD 6 1 .WORK, mkD 6 2 .WORK, mkD 6 3 .WORK, mkD 6 4 .WORK, mkD 6 5 .WORK, mkD 6 6 .WORK,
    mkD 6 7 .REST, mkD 6 8 .REST, mkD 6 9 .ORDERING, mkD 6 10 .WORK, mkD 6 11 .WORK,
    mkD 6 12 .REST, mkD 6 13 .REST, mkD 6 14 .ORDERING, mkD 6 15 .WORK, mkD 6 16 .WORK,
    mkD 6 17 .REST, mkD 6 18 .REST, mkD 6 19 .ORDERING, mkD 6 20 .WORK, mkD 6 21 .WORK,
    mkD 6 22 .WORK, mkD 6 23 .WORK, mkD 6 24 .WORK, mkD 6 25 .WORK, mkD 6 26 .REST,
    mkD 6 27 .REST, mkD 6 28 .ORDERING, mkD 6 29 .WORK, mkD 6 30 .WORK, mkD 7 1 .WORK,
    mkD 7 2 .WORK, mkD 7 3 .WORK, mkD 7 4 .WORK, mkD 7 5 .REST, mkD 7 6 .REST, mkD 7 7 .ORDERING,
    mkD 7 8 .WORK, mkD 7 9 .WORK, mkD 7 10 .REST, mkD 7 11 .REST, mkD 7 12 .ORDERING,
    mkD 7 13 .WORK, mkD 7 14 .WORK, mkD 7 15 .REST, mkD 7 16 .REST, mkD 7 17 .ORDERING,
    mkD 7 18 .WORK, mkD 7 19 .WORK, mkD 7 20 .WORK, mkD 7 21 .WORK, mkD 7 22 .WORK,
    mkD 7 23 .WORK, mkD 7 24 .REST, mkD 7 25 .REST, mkD 7 26 .ORDERING, mkD 7 27 .WORK,
    mkD 7 28 .WORK, mkD 7 29 .WORK, mkD 7 30 .WORK, mkD 7 31 .WORK, mkD 8 1 .WORK, mkD 8 2 .REST,
    mkD 8 3 .REST, mkD 8 4 .ORDERING, mkD 8 5 .WORK, mkD 8 6 .WORK, mkD 8 7 .REST, mkD 8 8 .REST,
    mkD 8 9 .ORDERING, mkD 8 10 .WORK, mkD 8 11 .WORK, mkD 8 12 .REST, mkD 8 13 .REST,
    mkD 8 14 .ORDERING, mkD 8 15 .WORK, mkD 8 16 .WORK, mkD 8 17 .WORK, mkD 8 18 .WORK,
    mkD 8 19 .REST, mkD 8 20 .REST, mkD 8 21 .ORDERING, mkD 8 22 .WORK, mkD 8 23 .WORK,
    mkD 8 24 .WORK, mkD 8 25 .WORK, mkD 8 26 .WORK, mkD 8 27 .WORK, mkD 8 28 .REST,
    mkD 8 29 .REST, mkD 8 30 .ORDERING, mkD 8 31 .WORK, mkD 9 1 .WORK, mkD 9 2 .WORK,
    mkD 9 3 .WORK, mkD 9 4 .WORK, mkD 9 5 .WORK, mkD 9 6 .REST, mkD 9 7 .REST, mkD 9 8 .ORDERING,
    mkD 9 9 .WORK, mkD 9 10 .WORK, mkD 9 11 .REST, mkD 9 12 .REST, mkD 9 13 .ORDERING,
    mkD 9 14 .WORK, mkD 9 15 .WORK, mkD 9 16 .REST, mkD 9 17 .REST, mkD 9 18 .ORDERING,
    mkD 9 19 .WORK, mkD 9 20 .WORK, mkD 9 21 .WORK, mkD 9 22 .WORK, mkD 9 23 .WORK,
    mkD 9 24 .WORK, mkD 9 25 .REST, mkD 9 26 .REST, mkD 9 27 .ORDERING, mkD 9 28 .WORK,
    mkD 9 29 .WORK, mkD 9 30 .WORK, mkD 10 1 .WORK, mkD 10 2 .WORK, mkD 10 3 .WORK,
    mkD 10 4 .REST, mkD 10 5 .REST, mkD 10 6 .ORDERING, mkD 10 7 .WORK, mkD 10 8 .WORK,
    mkD 10 9 .REST, mkD 10 10 .REST, mkD 10 11 .ORDERING, mkD 10 12 .WORK, mkD 10 13 .WORK,
    mkD 10 14 .REST, mkD 10 15 .REST, mkD 10 16 .ORDERING, mkD 10 17 .WORK, mkD 10 18 .WORK,
    mkD 10 19 .WORK, mkD 10 20 .WORK, mkD 10 21 .WORK, mkD 10 22 .WORK],
  [42, 41, 40, 39, 38, 37, 36, 35, 34, 33, 32, 31, 30, 29, 28, 27, 26, 25, 24, 23, 22, 21, 20, 19, 18, 17, 16, 15, 14, 13, 12, 11, 10, 9, 8, 7, 6, 5, 4, 3, 2, 1], [10, 9, 8, 7, 6, 5, 4, 3, 2, 1]⟩

/-- Builder state of the witness run before iteration 43. -/
def bst43 : ScheduleState := ⟨⟨2025, 10, 25⟩,
  [mkD 1 1 .WORK, mkD 1 2 .WORK, mkD 1 3 .WORK, mkD 1 4 .REST, mkD 1 5 .REST, mkD 1 6 .ORDERING,
    mkD 1 8 .WORK, mkD 1 9 .WORK, mkD 1 10 .REST, mkD 1 11 .REST, mkD 1 12 .ORDERING,
    mkD 1 13 .WORK, mkD 1 14 .WORK, mkD 1 15 .REST, mkD 1 16 .REST, mkD 1 17 .ORDERING,
    mkD 1 18 .WORK, mkD 1 19 .WORK, mkD 1 20 .WORK, mkD 1 21 .WORK, mkD 1 22 .WORK,
    mkD 1 23 .REST, mkD 1 24 .REST, mkD 1 25 .ORDERING, mkD 1 26 .WORK, mkD 1 27 .WORK,
    mkD 1 28 .WORK, mkD 1 29 .WORK, mkD 1 30 .WORK, mkD 1 31 .WORK, mkD 2 1 .REST, mkD 2 2 .REST,
    mkD 2 3 .ORDERING, mkD 2 4 .WORK, mkD 2 5 .WORK, mkD 2 6 .REST, mkD 2 7 .REST,
    mkD 2 8 .ORDERING, mkD 2 9 .WORK, mkD 2 10 .WORK, mkD 2 11 .REST, mkD 2 12 .REST,
    mkD 2 13 .ORDERING, mkD 2 14 .WORK, mkD 2 15 .WORK, mkD 2 16 .WORK, mkD 2 17 .WORK,
    mkD 2 18 .WORK, mkD 2 19 .WORK, mkD 2 20 .REST, mkD 2 21 .REST, mkD 2 22 .ORDERING,
    mkD 2 23 .WORK, mkD 2 24 .WORK, mkD 2 25 .WORK, mkD 2 26 .WORK, mkD 2 27 .WORK,
    mkD 2 28 .WORK, mkD 3 1 .REST, mkD 3 2 .REST, mkD 3 3 .ORDERING, mkD 3 4 .WORK, mkD 3 5 .WORK,
    mkD 3 6 .REST, mkD 3 7 .REST, mkD 3 8 .ORDERING, mkD 3 9 .WORK, mkD 3 10 .WORK,
    mkD 3 11 .REST, mkD 3 12 .REST, mkD 3 13 .ORDERING, mkD 3 14 .WORK, mkD 3 15 .WORK,
    mkD 3 16 .WORK, mkD 3 17 .WORK, mkD 3 18 .REST, mkD 3 19 .REST, mkD 3 20 .ORDERING,
    mkD 3 21 .WORK, mkD 3 22 .WORK, mkD 3 23 .WORK, mkD 3 24 .WORK, mkD 3 25 .WORK,
    mkD 3 26 .WORK, mkD 3 27 .REST, mkD 3 28 .REST, mkD 3 29 .ORDERING, mkD 3 30 .WORK,
    mkD 3 31 .WORK, mkD 4 1 .WORK, mkD 4 2 .WORK, mkD 4 3 .WORK, mkD 4 4 .WORK, mkD 4 5 .REST,
    mkD 4 6 .REST, mkD 4 7 .ORDERING, mkD 4 8 .WORK, mkD 4 9 .WORK, mkD 4 10 .REST,
    mkD 4 11 .REST, mkD 4 12 .ORDERING, mkD 4 13 .WORK, mkD 4 14 .WORK, mkD 4 15 .REST,
    mkD 4 16 .REST, mkD 4 17 .ORDERING, mkD 4 18 .WORK, mkD 4 19 .WORK, mkD 4 20 .WORK,
    mkD 4 21 .WORK, mkD 4 22 .WORK, mkD 4 23 .WORK, mkD 4 24 .REST, mkD 4 25 .REST,
    mkD 4 26 .ORDERING, mkD 4 27 .WORK, mkD 4 28 .WORK, mkD 4 29 .WORK, mkD 4 30 .WORK,
    mkD 5 1 .WORK, mkD 5 2 .WORK, mkD 5 3 .REST, mkD 5 4 .REST, mkD 5 5 .ORDERING, mkD 5 6 .WORK,
    mkD 5 7 .WORK, mkD 5 8 .REST, mkD 5 9 .REST, mkD 5 10 .ORDERING, mkD 5 11 .WORK,
    mkD 5 12 .WORK, mkD 5 13 .REST, mkD 5 14 .REST, mkD 5 15 .ORDERING, mkD 5 16 .WORK,
    mkD 5 17 .WORK, mkD 5 18 .WORK, mkD 5 19 .WORK, mkD 5 20 .REST, mkD 5 21 .REST,
    mkD 5 22 .ORDERING, mkD 5 23 .WORK, mkD 5 24 .WORK, mkD 5 25 .WORK, mkD 5 26 .WORK,
    mkD 5 27 .WORK, mkD 5 28 .WORK, mkD 5 29 .REST, mkD 5 30 .REST, mkD 5 31 .ORDERING,
    mkD 6 1 .WORK, mkD 6 2 .WORK, mkD 6 3 .WORK, mkD 6 4 .WORK, mkD 6 5 .WORK, mkD 6 6 .WORK,
    mkD 6 7 .REST, mkD 6 8 .REST, mkD 6 9 .ORDERING, mkD 6 10 .WORK, mkD 6 11 .WORK,
    mkD 6 12 .REST, mkD 6 13 .REST, mkD 6 14 .ORDERING, mkD 6 15 .WORK, mkD 6 16 .WORK,
    mkD 6 17 .REST, mkD 6 18 .REST, mkD 6 19 .ORDERING, mkD 6 20 .WORK, mkD 6 21 .WORK,
    mkD 6 22 .WORK, mkD 6 23 .WORK, mkD 6 24 .WORK, mkD 6 25 .WORK, mkD 6 26 .REST,
    mkD 6 27 .REST, mkD 6 28 .ORDERING, mkD 6 29 .WORK, mkD 6 30 .WORK, mkD 7 1 .WORK,
    mkD 7 2 .WORK, mkD 7 3 .WORK, mkD 7 4 .WORK, mkD 7 5 .REST, mkD 7 6 .REST, mkD 7 7 .ORDERING,
    mkD 7 8 .WORK, mkD 7 9 .WORK, mkD 7 10 .REST, mkD 7 11 .REST, mkD 7 12 .ORDERING,
    mkD 7 13 .WORK, mkD 7 14 .WORK, mkD 7 15 .REST, mkD 7 16 .REST, mkD 7 17 .ORDERING,
    mkD 7 18 .WORK, mkD 7 19 .WORK, mkD 7 20 .WORK, mkD 7 21 .WORK, mkD 7 22 .WORK,
    mkD 7 23 .WORK, mkD 7 24 .REST, mkD 7 25 .REST, mkD 7 26 .ORDERING, mkD 7 27 .WORK,
    mkD 7 28 .WORK, mkD 7 29 .WORK, mkD 7 30 .WORK, mkD 7 31 .WORK, mkD 8 1 .WORK, mkD 8 2 .REST,
    mkD 8 3 .REST, mkD 8 4 .ORDERING, mkD 8 5 .WORK, mkD 8 6 .WORK, mkD 8 7 .REST, mkD 8 8 .REST,
    mkD 8 9 .ORDERING, mkD 8 10 .WORK, mkD 8 11 .WORK, mkD 8 12 .REST, mkD 8 13 .REST,
    mkD 8 14 .ORDERING, mkD 8 15 .WORK, mkD 8 16 .WORK, mkD 8 17 .WORK, mkD 8 18 .WORK,
    mkD 8 19 .REST, mkD 8 20 .REST, mkD 8 21 .ORDERING, mkD 8 22 .WORK, mkD 8 23 .WORK,
    mkD 8 24 .WORK, mkD 8 25 .WORK, mkD 8 26 .WORK, mkD 8 27 .WORK, mkD 8 28 .REST,
    mkD 8 29 .REST, mkD 8 30 .ORDERING, mkD 8 31 .WORK, mkD 9 1 .WORK, mkD 9 2 .WORK,
    mkD 9 3 .WORK, mkD 9 4 .WORK, mkD 9 5 .WORK, mkD 9 6 .REST, mkD 9 7 .REST, mkD 9 8 .ORDERING,
    mkD 9 9 .WORK, mkD 9 10 .WORK, mkD 9 11 .REST, mkD 9 12 .REST, mkD 9 13 .ORDERING,
    mkD 9 14 .WORK, mkD 9 15 .WORK, mkD 9 16 .REST, mkD 9 17 .REST, mkD 9 18 .ORDERING,
    mkD 9 19 .WORK, mkD 9 20 .WORK, mkD 9 21 .WORK, mkD 9 22 .WORK, mkD 9 23 .WORK,
    mkD 9 24 .WORK, mkD 9 25 .REST, mkD 9 26 .REST, mkD 9 27 .ORDERING, mkD 9 28 .WORK,
    mkD 9 29 .WORK, mkD 9 30 .WORK, mkD 10 1 .WORK, mkD 10 2 .WORK, mkD 10 3 .WORK,
    mkD 10 4 .REST, mkD 10 5 .REST, mkD 10 6 .ORDERING, mkD 10 7 .WORK, mkD 10 8 .WORK,
    mkD 10 9 .REST, mkD 10 10 .REST, mkD 10 11 .ORDERING, mkD 10 12 .WORK, mkD 10 13 .WORK,
    mkD 10 14 .REST, mkD 10 15 .REST, mkD 10 16 .ORDERING, mkD 10 17 .WORK, mkD 10 18 .WORK,
    mkD 10 19 .WORK, mkD 10 20 .WORK, mkD 10 21 .WORK, mkD 10 22 .WORK, mkD 10 23 .REST,
    mkD 10 24 .REST],
  [43, 42, 41, 40, 39, 38, 37, 36, 35, 34, 33, 32, 31, 30, 29, 28, 27, 26, 25, 24, 23, 22, 21, 20, 19, 18, 17, 16, 15, 14, 13, 12, 11, 10, 9, 8, 7, 6, 5, 4, 3, 2, 1], [10, 9, 8, 7, 6, 5, 4, 3, 2, 1]⟩

/-- Builder state of iteration 43 after its work block. -/
def bmid43 : ScheduleState := ⟨⟨2025, 11, 1⟩,
  [mkD 1 1 .WORK, mkD 1 2 .WORK, mkD 1 3 .WORK, mkD 1 4 .REST, mkD 1 5 .REST, mkD 1 6 .ORDERING,
    mkD 1 8 .WORK, mkD 1 9 .WORK, mkD 1 10 .REST, mkD 1 11 .REST, mkD 1 12 .ORDERING,
    mkD 1 13 .WORK, mkD 1 14 .WORK, mkD 1 15 .REST, mkD 1 16 .REST, mkD 1 17 .ORDERING,
    mkD 1 18 .WORK, mkD 1 19 .WORK, mkD 1 20 .WORK, mkD 1 21 .WORK, mkD 1 22 .WORK,
    mkD 1 23 .REST, mkD 1 24 .REST, mkD 1 25 .ORDERING, mkD 1 26 .WORK, mkD 1 27 .WORK,
    mkD 1 28 .WORK, mkD 1 29 .WORK, mkD 1 30 .WORK, mkD 1 31 .WORK, mkD 2 1 .REST, mkD 2 2 .REST,
    mkD 2 3 .ORDERING, mkD 2 4 .WORK, mkD 2 5 .WORK, mkD 2 6 .REST, mkD 2 7 .REST,
    mkD 2 8 .ORDERING, mkD 2 9 .WORK, mkD 2 10 .WORK, mkD 2 11 .REST, mkD 2 12 .REST,
    mkD 2 13 .ORDERING, mkD 2 14 .WORK, mkD 2 15 .WORK, mkD 2 16 .WORK, mkD 2 17 .WORK,
    mkD 2 18 .WORK, mkD 2 19 .WORK, mkD 2 20 .REST, mkD 2 21 .REST, mkD 2 22 .ORDERING,
    mkD 2 23 .WORK, mkD 2 24 .WORK, mkD 2 25 .WORK, mkD 2 26 .WORK, mkD 2 27 .WORK,
    mkD 2 28 .WORK, mkD 3 1 .REST, mkD 3 2 .REST, mkD 3 3 .ORDERING, mkD 3 4 .WORK, mkD 3 5 .WORK,
    mkD 3 6 .REST, mkD 3 7 .REST, mkD 3 8 .ORDERING, mkD 3 9 .WORK, mkD 3 10 .WORK,
    mkD 3 11 .REST, mkD 3 12 .REST, mkD 3 13 .ORDERING, mkD 3 14 .WORK, mkD 3 15 .WORK,
    mkD 3 16 .WORK, mkD 3 17 .WORK, mkD 3 18 .REST, mkD 3 19 .REST, mkD 3 20 .ORDERING,
    mkD 3 21 .WORK, mkD 3 22 .WORK, mkD 3 23 .WORK, mkD 3 24 .WORK, mkD 3 25 .WORK,
    mkD 3 26 .WORK, mkD 3 27 .REST, mkD 3 28 .REST, mkD 3 29 .ORDERING, mkD 3 30 .WORK,
    mkD 3 31 .WORK, mkD 4 1 .WORK, mkD 4 2 .WORK, mkD 4 3 .WORK, mkD 4 4 .WORK, mkD 4 5 .REST,
    mkD 4 6 .REST, mkD 4 7 .ORDERING, mkD 4 8 .WORK, mkD 4 9 .WORK, mkD 4 10 .REST,
    mkD 4 11 .REST, mkD 4 12 .ORDERING, mkD 4 13 .WORK, mkD 4 14 .WORK, mkD 4 15 .REST,
    mkD 4 16 .REST, mkD 4 17 .ORDERING, mkD 4 18 .WORK, mkD 4 19 .WORK, mkD 4 20 .WORK,
    mkD 4 21 .WORK, mkD 4 22 .WORK, mkD 4 23 .WORK, mkD 4 24 .REST, mkD 4 25 .REST,
    mkD 4 26 .ORDERING, mkD 4 27 .WORK, mkD 4 28 .WORK, mkD 4 29 .WORK, mkD 4 30 .WORK,
    mkD 5 1 .WORK, mkD 5 2 .WORK, mkD 5 3 .REST, mkD 5 4 .REST, mkD 5 5 .ORDERING, mkD 5 6 .WORK,
    mkD 5 7 .WORK, mkD 5 8 .REST, mkD 5 9 .REST, mkD 5 10 .ORDERING, mkD 5 11 .WORK,
    mkD 5 12 .WORK, mkD 5 13 .REST, mkD 5 14 .REST, mkD 5 15 .ORDERING, mkD 5 16 .WORK,
    mkD 5 17 .WORK, mkD 5 18 .WORK, mkD 5 19 .WORK, mkD 5 20 .REST, mkD 5 21 .REST,
    mkD 5 22 .ORDERING, mkD 5 23 .WORK, mkD 5 24 .WORK, mkD 5 25 .WORK, mkD 5 26 .WORK,
    mkD 5 27 .WORK, mkD 5 28 .WORK, mkD 5 29 .REST, mkD 5 30 .REST, mkD 5 31 .ORDERING,
    mkD 6 1 .WORK, mkD 6 2 .WORK, mkD 6 3 .WORK, mkD 6 4 .WORK, mkD 6 5 .WORK, mkD 6 6 .WORK,
    mkD 6 7 .REST, mkD 6 8 .REST, mkD 6 9 .ORDERING, mkD 6 10 .WORK, mkD 6 11 .WORK,
    mkD 6 12 .REST, mkD 6 13 .REST, mkD 6 14 .ORDERING, mkD 6 15 .WORK, mkD 6 16 .WORK,
    mkD 6 17 .REST, mkD 6 18 .REST, mkD 6 19 .ORDERING, mkD 6 20 .WORK, mkD 6 21 .WORK,
    mkD 6 22 .WORK, mkD 6 23 .WORK, mkD 6 24 .WORK, mkD 6 25 .WORK, mkD 6 26 .REST,
    mkD 6 27 .REST, mkD 6 28 .ORDERING, mkD 6 29 .WORK, mkD 6 30 .WORK, mkD 7 1 .WORK,
    mkD 7 2 .WORK, mkD 7 3 .WORK, mkD 7 4 .WORK, mkD 7 5 .REST, mkD 7 6 .REST, mkD 7 7 .ORDERING,
    mkD 7 8 .WORK, mkD 7 9 .WORK, mkD 7 10 .REST, mkD 7 11 .REST, mkD 7 12 .ORDERING,
    mkD 7 13 .WORK, mkD 7 14 .WORK, mkD 7 15 .REST, mkD 7 16 .REST, mkD 7 17 .ORDERING,
    mkD 7 18 .WORK, mkD 7 19 .WORK, mkD 7 20 .WORK, mkD 7 21 .WORK, mkD 7 22 .WORK,
    mkD 7 23 .WORK, mkD 7 24 .REST, mkD 7 25 .REST, mkD 7 26 .ORDERING, mkD 7 27 .WORK,
    mkD 7 28 .WORK, mkD 7 29 .WORK, mkD 7 30 .WORK, mkD 7 31 .WORK, mkD 8 1 .WORK, mkD 8 2 .REST,
    mkD 8 3 .REST, mkD 8 4 .ORDERING, mkD 8 5 .WORK, mkD 8 6 .WORK, mkD 8 7 .REST, mkD 8 8 .REST,
    mkD 8 9 .ORDERING, mkD 8 10 .WORK, mkD 8 11 .WORK, mkD 8 12 .REST, mkD 8 13 .REST,
    mkD 8 14 .ORDERING, mkD 8 15 .WORK, mkD 8 16 .WORK, mkD 8 17 .WORK, mkD 8 18 .WORK,
    mkD 8 19 .REST, mkD 8 20 .REST, mkD 8 21 .ORDERING, mkD 8 22 .WORK, mkD 8 23 .WORK,
    mkD 8 24 .WORK, mkD 8 25 .WORK, mkD 8 26 .WORK, mkD 8 27 .WORK, mkD 8 28 .REST,
    mkD 8 29 .REST, mkD 8 30 .ORDERING, mkD 8 31 .WORK, mkD 9 1 .WORK, mkD 9 2 .WORK,
    mkD 9 3 .WORK, mkD 9 4 .WORK, mkD 9 5 .WORK, mkD 9 6 .REST, mkD 9 7 .REST, mkD 9 8 .ORDERING,
    mkD 9 9 .WORK, mkD 9 10 .WORK, mkD 9 11 .REST, mkD 9 12 .REST, mkD 9 13 .ORDERING,
    mkD 9 14 .WORK, mkD 9 15 .WORK, mkD 9 16 .REST, mkD 9 17 .REST, mkD 9 18 .ORDERING,
    mkD 9 19 .WORK, mkD 9 20 .WORK, mkD 9 21 .WORK, mkD 9 22 .WORK, mkD 9 23 .WORK,
    mkD 9 24 .WORK, mkD 9 25 .REST, mkD 9 26 .REST, mkD 9 27 .ORDERING, mkD 9 28 .WORK,
    mkD 9 29 .WORK, mkD 9 30 .WORK, mkD 10 1 .WORK, mkD 10 2 .WORK, mkD 10 3 .WORK,
    mkD 10 4 .REST, mkD 10 5 .REST, mkD 10 6 .ORDERING, mkD 10 7 .WORK, mkD 10 8 .WORK,
    mkD 10 9 .REST, mkD 10 10 .REST, mkD 10 11 .ORDERING, mkD 10 12 .WORK, mkD 10 13 .WORK,
    mkD 10 14 .REST, mkD 10 15 .REST, mkD 10 16 .ORDERING, mkD 10 17 .WORK, mkD 10 18 .WORK,
    mkD 10 19 .WORK, mkD 10 20 .WORK, mkD 10 21 .WORK, mkD 10 22 .WORK, mkD 10 23 .REST,
    mkD 10 24 .REST, mkD 10 25 .ORDERING, mkD 10 26 .WORK, mkD 10 27 .WORK, mkD 10 28 .WORK,
    mkD 10 29 .WORK, mkD 10 30 .WORK, mkD 10 31 .WORK],
  [43, 42, 41, 40, 39, 38, 37, 36, 35, 34, 33, 32, 31, 30, 29, 28, 27, 26, 25, 24, 23, 22, 21, 20, 19, 18, 17, 16, 15, 14, 13, 12, 11, 10, 9, 8, 7, 6, 5, 4, 3, 2, 1], [10, 9, 8, 7, 6, 5, 4, 3, 2, 1]⟩

/-- Builder state of the witness run before iteration 44. -/
def bst44 : ScheduleState := ⟨⟨2025, 11, 3⟩,
  [mkD 1 1 .WORK, mkD 1 2 .WORK, mkD 1 3 .WORK, mkD 1 4 .REST, mkD 1 5 .REST, mkD 1 6 .ORDERING,
    mkD 1 8 .WORK, mkD 1 9 .WORK, mkD 1 10 .REST, mkD 1 11 .REST, mkD 1 12 .ORDERING,
    mkD 1 13 .WORK, mkD 1 14 .WORK, mkD 1 15 .REST, mkD 1 16 .REST, mkD 1 17 .ORDERING,
    mkD 1 18 .WORK, mkD 1 19 .WORK, mkD 1 20 .WORK, mkD 1 21 .WORK, mkD 1 22 .WORK,
    mkD 1 23 .REST, mkD 1 24 .REST, mkD 1 25 .ORDERING, mkD 1 26 .WORK, mkD 1 27 .WORK,
    mkD 1 28 .WORK, mkD 1 29 .WORK, mkD 1 30 .WORK, mkD 1 31 .WORK, mkD 2 1 .REST, mkD 2 2 .REST,
    mkD 2 3 .ORDERING, mkD 2 4 .WORK, mkD 2 5 .WORK, mkD 2 6 .REST, mkD 2 7 .REST,
    mkD 2 8 .ORDERING, mkD 2 9 .WORK, mkD 2 10 .WORK, mkD 2 11 .REST, mkD 2 12 .REST,
    mkD 2 13 .ORDERING, mkD 2 14 .WORK, mkD 2 15 .WORK, mkD 2 16 .WORK, mkD 2 17 .WORK,
    mkD 2 18 .WORK, mkD 2 19 .WORK, mkD 2 20 .REST, mkD 2 21 .REST, mkD 2 22 .ORDERING,
    mkD 2 23 .WORK, mkD 2 24 .WORK, mkD 2 25 .WORK, mkD 2 26 .WORK, mkD 2 27 .WORK,
    mkD 2 28 .WORK, mkD 3 1 .REST, mkD 3 2 .REST, mkD 3 3 .ORDERING, mkD 3 4 .WORK, mkD 3 5 .WORK,
    mkD 3 6 .REST, mkD 3 7 .REST, mkD 3 8 .ORDERING, mkD 3 9 .WORK, mkD 3 10 .WORK,
    mkD 3 11 .REST, mkD 3 12 .REST, mkD 3 13 .ORDERING, mkD 3 14 .WORK, mkD 3 15 .WORK,
    mkD 3 16 .WORK, mkD 3 17 .WORK, mkD 3 18 .REST, mkD 3 19 .REST, mkD 3 20 .ORDERING,
    mkD 3 21 .WORK, mkD 3 22 .WORK, mkD 3 23 .WORK, mkD 3 24 .WORK, mkD 3 25 .WORK,
    mkD 3 26 .WORK, mkD 3 27 .REST, mkD 3 28 .REST, mkD 3 29 .ORDERING, mkD 3 30 .WORK,
    mkD 3 31 .WORK, mkD 4 1 .WORK, mkD 4 2 .WORK, mkD 4 3 .WORK, mkD 4 4 .WORK, mkD 4 5 .REST,
    mkD 4 6 .REST, mkD 4 7 .ORDERING, mkD 4 8 .WORK, mkD 4 9 .WORK, mkD 4 10 .REST,
    mkD 4 11 .REST, mkD 4 12 .ORDERING, mkD 4 13 .WORK, mkD 4 14 .WORK, mkD 4 15 .REST,
    mkD 4 16 .REST, mkD 4 17 .ORDERING, mkD 4 18 .WORK, mkD 4 19 .WORK, mkD 4 20 .WORK,
    mkD 4 21 .WORK, mkD 4 22 .WORK, mkD 4 23 .WORK, mkD 4 24 .REST, mkD 4 25 .REST,
    mkD 4 26 .ORDERING, mkD 4 27 .WORK, mkD 4 28 .WORK, mkD 4 29 .WORK, mkD 4 30 .WORK,
    mkD 5 1 .WORK, mkD 5 2 .WORK, mkD 5 3 .REST, mkD 5 4 .REST, mkD 5 5 .ORDERING, mkD 5 6 .WORK,
    mkD 5 7 .WORK, mkD 5 8 .REST, mkD 5 9 .REST, mkD 5 10 .ORDERING, mkD 5 11 .WORK,
    mkD 5 12 .WORK, mkD 5 13 .REST, mkD 5 14 .REST, mkD 5 15 .ORDERING, mkD 5 16 .WORK,
    mkD 5 17 .WORK, mkD 5 18 .WORK, mkD 5 19 .WORK, mkD 5 20 .REST, mkD 5 21 .REST,
    mkD 5 22 .ORDERING, mkD 5 23 .WORK, mkD 5 24 .WORK, mkD 5 25 .WORK, mkD 5 26 .WORK,
    mkD 5 27 .WORK, mkD 5 28 .WORK, mkD 5 29 .REST, mkD 5 30 .REST, mkD 5 31 .ORDERING,
    mkD 6 1 .WORK, mkD 6 2 .WORK, mkD 6 3 .WORK, mkD 6 4 .WORK, mkD 6 5 .WORK, mkD 6 6 .WORK,
    mkD 6 7 .REST, mkD 6 8 .REST, mkD 6 9 .ORDERING, mkD 6 10 .WORK, mkD 6 11 .WORK,
    mkD 6 12 .REST, mkD 6 13 .REST, mkD 6 14 .ORDERING, mkD 6 15 .WORK, mkD 6 16 .WORK,
    mkD 6 17 .REST, mkD 6 18 .REST, mkD 6 19 .ORDERING, mkD 6 20 .WORK, mkD 6 21 .WORK,
    mkD 6 22 .WORK, mkD 6 23 .WORK, mkD 6 24 .WORK, mkD 6 25 .WORK, mkD 6 26 .REST,
    mkD 6 27 .REST, mkD 6 28 .ORDERING, mkD 6 29 .WORK, mkD 6 30 .WORK, mkD 7 1 .WORK,
    mkD 7 2 .WORK, mkD 7 3 .WORK, mkD 7 4 .WORK, mkD 7 5 .REST, mkD 7 6 .REST, mkD 7 7 .ORDERING,
    mkD 7 8 .WORK, mkD 7 9 .WORK, mkD 7 10 .REST, mkD 7 11 .REST, mkD 7 12 .ORDERING,
    mkD 7 13 .WORK, mkD 7 14 .WORK, mkD 7 15 .REST, mkD 7 16 .REST, mkD 7 17 .ORDERING,
    mkD 7 18 .WORK, mkD 7 19 .WORK, mkD 7 20 .WORK, mkD 7 21 .WORK, mkD 7 22 .WORK,
    mkD 7 23 .WORK, mkD 7 24 .REST, mkD 7 25 .REST, mkD 7 26 .ORDERING, mkD 7 27 .WORK,
    mkD 7 28 .WORK, mkD 7 29 .WORK, mkD 7 30 .WORK, mkD 7 31 .WORK, mkD 8 1 .WORK, mkD 8 2 .REST,
    mkD 8 3 .REST, mkD 8 4 .ORDERING, mkD 8 5 .WORK, mkD 8 6 .WORK, mkD 8 7 .REST, mkD 8 8 .REST,
    mkD 8 9 .ORDERING, mkD 8 10 .WORK, mkD 8 11 .WORK, mkD 8 12 .REST, mkD 8 13 .REST,
    mkD 8 14 .ORDERING, mkD 8 15 .WORK, mkD 8 16 .WORK, mkD 8 17 .WORK, mkD 8 18 .WORK,
    mkD 8 19 .REST, mkD 8 20 .REST, mkD 8 21 .ORDERING, mkD 8 22 .WORK, mkD 8 23 .WORK,
    mkD 8 24 .WORK, mkD 8 25 .WORK, mkD 8 26 .WORK, mkD 8 27 .WORK, mkD 8 28 .REST,
    mkD 8 29 .REST, mkD 8 30 .ORDERING, mkD 8 31 .WORK, mkD 9 1 .WORK, mkD 9 2 .WORK,
    mkD 9 3 .WORK, mkD 9 4 .WORK, mkD 9 5 .WORK, mkD 9 6 .REST, mkD 9 7 .REST, mkD 9 8 .ORDERING,
    mkD 9 9 .WORK, mkD 9 10 .WORK, mkD 9 11 .REST, mkD 9 12 .REST, mkD 9 13 .ORDERING,
    mkD 9 14 .WORK, mkD 9 15 .WORK, mkD 9 16 .REST, mkD 9 17 .REST, mkD 9 18 .ORDERING,
    mkD 9 19 .WORK, mkD 9 20 .WORK, mkD 9 21 .WORK, mkD 9 22 .WORK, mkD 9 23 .WORK,
    mkD 9 24 .WORK, mkD 9 25 .REST, mkD 9 26 .REST, mkD 9 27 .ORDERING, mkD 9 28 .WORK,
    mkD 9 29 .WORK, mkD 9 30 .WORK, mkD 10 1 .WORK, mkD 10 2 .WORK, mkD 10 3 .WORK,
    mkD 10 4 .REST, mkD 10 5 .REST, mkD 10 6 .ORDERING, mkD 10 7 .WORK, mkD 10 8 .WORK,
    mkD 10 9 .REST, mkD 10 10 .REST, mkD 10 11 .ORDERING, mkD 10 12 .WORK, mkD 10 13 .WORK,
    mkD 10 14 .REST, mkD 10 15 .REST, mkD 10 16 .ORDERING, mkD 10 17 .WORK, mkD 10 18 .WORK,
    mkD 10 19 .WORK, mkD 10 20 .WORK, mkD 10 21 .WORK, mkD 10 22 .WORK, mkD 10 23 .REST,
    mkD 10 24 .REST, mkD 10 25 .ORDERING, mkD 10 26 .WORK, mkD 10 27 .WORK, mkD 10 28 .WORK,
    mkD 10 29 .WORK, mkD 10 30 .WORK, mkD 10 31 .WORK, mkD 11 1 .REST, mkD 11 2 .REST],
  [44, 43, 42, 41, 40, 39, 38, 37, 36, 35, 34, 33, 32, 31, 30, 29, 28, 27, 26, 25, 24, 23, 22, 21, 20, 19, 18, 17, 16, 15, 14, 13, 12, 11, 10, 9, 8, 7, 6, 5, 4, 3, 2, 1], [11, 10, 9, 8, 7, 6, 5, 4, 3, 2, 1]⟩

/-- Builder state of iteration 44 after its work block. -/
def bmid44 : ScheduleState := ⟨⟨2025, 11, 6⟩,
  [mkD 1 1 .WORK, mkD 1 2 .WORK, mkD 1 3 .WORK, mkD 1 4 .REST, mkD 1 5 .REST, mkD 1 6 .ORDERING,
    mkD 1 8 .WORK, mkD 1 9 .WORK, mkD 1 10 .REST, mkD 1 11 .REST, mkD 1 12 .ORDERING,
    mkD 1 13 .WORK, mkD 1 14 .WORK, mkD 1 15 .REST, mkD 1 16 .REST, mkD 1 17 .ORDERING,
    mkD 1 18 .WORK, mkD 1 19 .WORK, mkD 1 20 .WORK, mkD 1 21 .WORK, mkD 1 22 .WORK,
    mkD 1 23 .REST, mkD 1 24 .REST, mkD 1 25 .ORDERING, mkD 1 26 .WORK, mkD 1 27 .WORK,
    mkD 1 28 .WORK, mkD 1 29 .WORK, mkD 1 30 .WORK, mkD 1 31 .WORK, mkD 2 1 .REST, mkD 2 2 .REST,
    mkD 2 3 .ORDERING, mkD 2 4 .WORK, mkD 2 5 .WORK, mkD 2 6 .REST, mkD 2 7 .REST,
    mkD 2 8 .ORDERING, mkD 2 9 .WORK, mkD 2 10 .WORK, mkD 2 11 .REST, mkD 2 12 .REST,
    mkD 2 13 .ORDERING, mkD 2 14 .WORK, mkD 2 15 .WORK, mkD 2 16 .WORK, mkD 2 17 .WORK,
    mkD 2 18 .WORK, mkD 2 19 .WORK, mkD 2 20 .REST, mkD 2 21 .REST, mkD 2 22 .ORDERING,
    mkD 2 23 .WORK, mkD 2 24 .WORK, mkD 2 25 .WORK, mkD 2 26 .WORK, mkD 2 27 .WORK,
    mkD 2 28 .WORK, mkD 3 1 .REST, mkD 3 2 .REST, mkD 3 3 .ORDERING, mkD 3 4 .WORK, mkD 3 5 .WORK,
    mkD 3 6 .REST, mkD 3 7 .REST, mkD 3 8 .ORDERING, mkD 3 9 .WORK, mkD 3 10 .WORK,
    mkD 3 11 .REST, mkD 3 12 .REST, mkD 3 13 .ORDERING, mkD 3 14 .WORK, mkD 3 15 .WORK,
    mkD 3 16 .WORK, mkD 3 17 .WORK, mkD 3 18 .REST, mkD 3 19 .REST, mkD 3 20 .ORDERING,
    mkD 3 21 .WORK, mkD 3 22 .WORK, mkD 3 23 .WORK, mkD 3 24 .WORK, mkD 3 25 .WORK,
    mkD 3 26 .WORK, mkD 3 27 .REST, mkD 3 28 .REST, mkD 3 29 .ORDERING, mkD 3 30 .WORK,
    mkD 3 31 .WORK, mkD 4 1 .WORK, mkD 4 2 .WORK, mkD 4 3 .WORK, mkD 4 4 .WORK, mkD 4 5 .REST,
    mkD 4 6 .REST, mkD 4 7 .ORDERING, mkD 4 8 .WORK, mkD 4 9 .WORK, mkD 4 10 .REST,
    mkD 4 11 .REST, mkD 4 12 .ORDERING, mkD 4 13 .WORK, mkD 4 14 .WORK, mkD 4 15 .REST,
    mkD 4 16 .REST, mkD 4 17 .ORDERING, mkD 4 18 .WORK, mkD 4 19 .WORK, mkD 4 20 .WORK,
    mkD 4 21 .WORK, mkD 4 22 .WORK, mkD 4 23 .WORK, mkD 4 24 .REST, mkD 4 25 .REST,
    mkD 4 26 .ORDERING, mkD 4 27 .WORK, mkD 4 28 .WORK, mkD 4 29 .WORK, mkD 4 30 .WORK,
    mkD 5 1 .WORK, mkD 5 2 .WORK, mkD 5 3 .REST, mkD 5 4 .REST, mkD 5 5 .ORDERING, mkD 5 6 .WORK,
    mkD 5 7 .WORK, mkD 5 8 .REST, mkD 5 9 .REST, mkD 5 10 .ORDERING, mkD 5 11 .WORK,
    mkD 5 12 .WORK, mkD 5 13 .REST, mkD 5 14 .REST, mkD 5 15 .ORDERING, mkD 5 16 .WORK,
    mkD 5 17 .WORK, mkD 5 18 .WORK, mkD 5 19 .WORK, mkD 5 20 .REST, mkD 5 21 .REST,
    mkD 5 22 .ORDERING, mkD 5 23 .WORK, mkD 5 24 .WORK, mkD 5 25 .WORK, mkD 5 26 .WORK,
    mkD 5 27 .WORK, mkD 5 28 .WORK, mkD 5 29 .REST, mkD 5 30 .REST, mkD 5 31 .ORDERING,
    mkD 6 1 .WORK, mkD 6 2 .WORK, mkD 6 3 .WORK, mkD 6 4 .WORK, mkD 6 5 .WORK, mkD 6 6 .WORK,
    mkD 6 7 .REST, mkD 6 8 .REST, mkD 6 9 .ORDERING, mkD 6 10 .WORK, mkD 6 11 .WORK,
    mkD 6 12 .REST, mkD 6 13 .REST, mkD 6 14 .ORDERING, mkD 6 15 .WORK, mkD 6 16 .WORK,
    mkD 6 17 .REST, mkD 6 18 .REST, mkD 6 19 .ORDERING, mkD 6 20 .WORK, mkD 6 21 .WORK,
    mkD 6 22 .WORK, mkD 6 23 .WORK, mkD 6 24 .WORK, mkD 6 25 .WORK, mkD 6 26 .REST,
    mkD 6 27 .REST, mkD 6 28 .ORDERING, mkD 6 29 .WORK, mkD 6 30 .WORK, mkD 7 1 .WORK,
    mkD 7 2 .WORK, mkD 7 3 .WORK, mkD 7 4 .WORK, mkD 7 5 .REST, mkD 7 6 .REST, mkD 7 7 .ORDERING,
    mkD 7 8 .WORK, mkD 7 9 .WORK, mkD 7 10 .REST, mkD 7 11 .REST, mkD 7 12 .ORDERING,
    mkD 7 13 .WORK, mkD 7 14 .WORK, mkD 7 15 .REST, mkD 7 16 .REST, mkD 7 17 .ORDERING,
    mkD 7 18 .WORK, mkD 7 19 .WORK, mkD 7 20 .WORK, mkD 7 21 .WORK, mkD 7 22 .WORK,
    mkD 7 23 .WORK, mkD 7 24 .REST, mkD 7 25 .REST, mkD 7 26 .ORDERING, mkD 7 27 .WORK,
    mkD 7 28 .WORK, mkD 7 29 .WORK, mkD 7 30 .WORK, mkD 7 31 .WORK, mkD 8 1 .WORK, mkD 8 2 .REST,
    mkD 8 3 .REST, mkD 8 4 .ORDERING, mkD 8 5 .WORK, mkD 8 6 .WORK, mkD 8 7 .REST, mkD 8 8 .REST,
    mkD 8 9 .ORDERING, mkD 8 10 .WORK, mkD 8 11 .WORK, mkD 8 12 .REST, mkD 8 13 .REST,
    mkD 8 14 .ORDERING, mkD 8 15 .WORK, mkD 8 16 .WORK, mkD 8 17 .WORK, mkD 8 18 .WORK,
    mkD 8 19 .REST, mkD 8 20 .REST, mkD 8 21 .ORDERING, mkD 8 22 .WORK, mkD 8 23 .WORK,
    mkD 8 24 .WORK, mkD 8 25 .WORK, mkD 8 26 .WORK, mkD 8 27 .WORK, mkD 8 28 .REST,
    mkD 8 29 .REST, mkD 8 30 .ORDERING, mkD 8 31 .WORK, mkD 9 1 .WORK, mkD 9 2 .WORK,
    mkD 9 3 .WORK, mkD 9 4 .WORK, mkD 9 5 .WORK, mkD 9 6 .REST, mkD 9 7 .REST, mkD 9 8 .ORDERING,
    mkD 9 9 .WORK, mkD 9 10 .WORK, mkD 9 11 .REST, mkD 9 12 .REST, mkD 9 13 .ORDERING,
    mkD 9 14 .WORK, mkD 9 15 .WORK, mkD 9 16 .REST, mkD 9 17 .REST, mkD 9 18 .ORDERING,
    mkD 9 19 .WORK, mkD 9 20 .WORK, mkD 9 21 .WORK, mkD 9 22 .WORK, mkD 9 23 .WORK,
    mkD 9 24 .WORK, mkD 9 25 .REST, mkD 9 26 .REST, mkD 9 27 .ORDERING, mkD 9 28 .WORK,
    mkD 9 29 .WORK, mkD 9 30 .WORK, mkD 10 1 .WORK, mkD 10 2 .WORK, mkD 10 3 .WORK,
    mkD 10 4 .REST, mkD 10 5 .REST, mkD 10 6 .ORDERING, mkD 10 7 .WORK, mkD 10 8 .WORK,
    mkD 10 9 .REST, mkD 10 10 .REST, mkD 10 11 .ORDERING, mkD 10 12 .WORK, mkD 10 13 .WORK,
    mkD 10 14 .REST, mkD 10 15 .REST, mkD 10 16 .ORDERING, mkD 10 17 .WORK, mkD 10 18 .WORK,
    mkD 10 19 .WORK, mkD 10 20 .WORK, mkD 10 21 .WORK, mkD 10 22 .WORK, mkD 10 23 .REST,
    mkD 10 24 .REST, mkD 10 25 .ORDERING, mkD 10 26 .WORK, mkD 10 27 .WORK, mkD 10 28 .WORK,
    mkD 10 29 .WORK, mkD 10 30 .WORK, mkD 10 31 .WORK, mkD 11 1 .REST, mkD 11 2 .REST,
    mkD 11 3 .ORDERING, mkD 11 4 .WORK, mkD 11 5 .WORK],
  [44, 43, 42, 41, 40, 39, 38, 37, 36, 35, 34, 33, 32, 31, 30, 29, 28, 27, 26, 25, 24, 23, 22, 21, 20, 19, 18, 17, 16, 15, 14, 13, 12, 11, 10, 9, 8, 7, 6, 5, 4, 3, 2, 1], [11, 10, 9, 8, 7, 6, 5, 4, 3, 2, 1]⟩

/-- Builder state of the witness run before iteration 45. -/
def bst45 : ScheduleState := ⟨⟨2025, 11, 8⟩,
  [mkD 1 1 .WORK, mkD 1 2 .WORK, mkD 1 3 .WORK, mkD 1 4 .REST, mkD 1 5 .REST, mkD 1 6 .ORDERING,
    mkD 1 8 .WORK, mkD 1 9 .WORK, mkD 1 10 .REST, mkD 1 11 .REST, mkD 1 12 .ORDERING,
    mkD 1 13 .WORK, mkD 1 14 .WORK, mkD 1 15 .REST, mkD 1 16 .REST, mkD 1 17 .ORDERING,
    mkD 1 18 .WORK, mkD 1 19 .WORK, mkD 1 20 .WORK, mkD 1 21 .WORK, mkD 1 22 .WORK,
    mkD 1 23 .REST, mkD 1 24 .REST, mkD 1 25 .ORDERING, mkD 1 26 .WORK, mkD 1 27 .WORK,
    mkD 1 28 .WORK, mkD 1 29 .WORK, mkD 1 30 .WORK, mkD 1 31 .WORK, mkD 2 1 .REST, mkD 2 2 .REST,
    mkD 2 3 .ORDERING, mkD 2 4 .WORK, mkD 2 5 .WORK, mkD 2 6 .REST, mkD 2 7 .REST,
    mkD 2 8 .ORDERING, mkD 2 9 .WORK, mkD 2 10 .WORK, mkD 2 11 .REST, mkD 2 12 .REST,
    mkD 2 13 .ORDERING, mkD 2 14 .WORK, mkD 2 15 .WORK, mkD 2 16 .WORK, mkD 2 17 .WORK,
    mkD 2 18 .WORK, mkD 2 19 .WORK, mkD 2 20 .REST, mkD 2 21 .REST, mkD 2 22 .ORDERING,
    mkD 2 23 .WORK, mkD 2 24 .WORK, mkD 2 25 .WORK, mkD 2 26 .WORK, mkD 2 27 .WORK,
    mkD 2 28 .WORK, mkD 3 1 .REST, mkD 3 2 .REST, mkD 3 3 .ORDERING, mkD 3 4 .WORK, mkD 3 5 .WORK,
    mkD 3 6 .REST, mkD 3 7 .REST, mkD 3 8 .ORDERING, mkD 3 9 .WORK, mkD 3 10 .WORK,
    mkD 3 11 .REST, mkD 3 12 .REST, mkD 3 13 .ORDERING, mkD 3 14 .WORK, mkD 3 15 .WORK,
    mkD 3 16 .WORK, mkD 3 17 .WORK, mkD 3 18 .REST, mkD 3 19 .REST, mkD 3 20 .ORDERING,
    mkD 3 21 .WORK, mkD 3 22 .WORK, mkD 3 23 .WORK, mkD 3 24 .WORK, mkD 3 25 .WORK,
    mkD 3 26 .WORK, mkD 3 27 .REST, mkD 3 28 .REST, mkD 3 29 .ORDERING, mkD 3 30 .WORK,
    mkD 3 31 .WORK, mkD 4 1 .WORK, mkD 4 2 .WORK, mkD 4 3 .WORK, mkD 4 4 .WORK, mkD 4 5 .REST,
    mkD 4 6 .REST, mkD 4 7 .ORDERING, mkD 4 8 .WORK, mkD 4 9 .WORK, mkD 4 10 .REST,
    mkD 4 11 .REST, mkD 4 12 .ORDERING, mkD 4 13 .WORK, mkD 4 14 .WORK, mkD 4 15 .REST,
    mkD 4 16 .REST, mkD 4 17 .ORDERING, mkD 4 18 .WORK, mkD 4 19 .WORK, mkD 4 20 .WORK,
    mkD 4 21 .WORK, mkD 4 22 .WORK, mkD 4 23 .WORK, mkD 4 24 .REST, mkD 4 25 .REST,
    mkD 4 26 .ORDERING, mkD 4 27 .WORK, mkD 4 28 .WORK, mkD 4 29 .WORK, mkD 4 30 .WORK,
    mkD 5 1 .WORK, mkD 5 2 .WORK, mkD 5 3 .REST, mkD 5 4 .REST, mkD 5 5 .ORDERING, mkD 5 6 .WORK,
    mkD 5 7 .WORK, mkD 5 8 .REST, mkD 5 9 .REST, mkD 5 10 .ORDERING, mkD 5 11 .WORK,
    mkD 5 12 .WORK, mkD 5 13 .REST, mkD 5 14 .REST, mkD 5 15 .ORDERING, mkD 5 16 .WORK,
    mkD 5 17 .WORK, mkD 5 18 .WORK, mkD 5 19 .WORK, mkD 5 20 .REST, mkD 5 21 .REST,
    mkD 5 22 .ORDERING, mkD 5 23 .WORK, mkD 5 24 .WORK, mkD 5 25 .WORK, mkD 5 26 .WORK,
    mkD 5 27 .WORK, mkD 5 28 .WORK, mkD 5 29 .REST, mkD 5 30 .REST, mkD 5 31 .ORDERING,
    mkD 6 1 .WORK, mkD 6 2 .WORK, mkD 6 3 .WORK, mkD 6 4 .WORK, mkD 6 5 .WORK, mkD 6 6 .WORK,
    mkD 6 7 .REST, mkD 6 8 .REST, mkD 6 9 .ORDERING, mkD 6 10 .WORK, mkD 6 11 .WORK,
    mkD 6 12 .REST, mkD 6 13 .REST, mkD 6 14 .ORDERING, mkD 6 15 .WORK, mkD 6 16 .WORK,
    mkD 6 17 .REST, mkD 6 18 .REST, mkD 6 19 .ORDERING, mkD 6 20 .WORK, mkD 6 21 .WORK,
    mkD 6 22 .WORK, mkD 6 23 .WORK, mkD 6 24 .WORK, mkD 6 25 .WORK, mkD 6 26 .REST,
    mkD 6 27 .REST, mkD 6 28 .ORDERING, mkD 6 29 .WORK, mkD 6 30 .WORK, mkD 7 1 .WORK,
    mkD 7 2 .WORK, mkD 7 3 .WORK, mkD 7 4 .WORK, mkD 7 5 .REST, mkD 7 6 .REST, mkD 7 7 .ORDERING,
    mkD 7 8 .WORK, mkD 7 9 .WORK, mkD 7 10 .REST, mkD 7 11 .REST, mkD 7 12 .ORDERING,
    mkD 7 13 .WORK, mkD 7 14 .WORK, mkD 7 15 .REST, mkD 7 16 .REST, mkD 7 17 .ORDERING,
    mkD 7 18 .WORK, mkD 7 19 .WORK, mkD 7 20 .WORK, mkD 7 21 .WORK, mkD 7 22 .WORK,
    mkD 7 23 .WORK, mkD 7 24 .REST, mkD 7 25 .REST, mkD 7 26 .ORDERING, mkD 7 27 .WORK,
    mkD 7 28 .WORK, mkD 7 29 .WORK, mkD 7 30 .WORK, mkD 7 31 .WORK, mkD 8 1 .WORK, mkD 8 2 .REST,
    mkD 8 3 .REST, mkD 8 4 .ORDERING, mkD 8 5 .WORK, mkD 8 6 .WORK, mkD 8 7 .REST, mkD 8 8 .REST,
    mkD 8 9 .ORDERING, mkD 8 10 .WORK, mkD 8 11 .WORK, mkD 8 12 .REST, mkD 8 13 .REST,
    mkD 8 14 .ORDERING, mkD 8 15 .WORK, mkD 8 16 .WORK, mkD 8 17 .WORK, mkD 8 18 .WORK,
    mkD 8 19 .REST, mkD 8 20 .REST, mkD 8 21 .ORDERING, mkD 8 22 .WORK, mkD 8 23 .WORK,
    mkD 8 24 .WORK, mkD 8 25 .WORK, mkD 8 26 .WORK, mkD 8 27 .WORK, mkD 8 28 .REST,
    mkD 8 29 .REST, mkD 8 30 .ORDERING, mkD 8 31 .WORK, mkD 9 1 .WORK, mkD 9 2 .WORK,
    mkD 9 3 .WORK, mkD 9 4 .WORK, mkD 9 5 .WORK, mkD 9 6 .REST, mkD 9 7 .REST, mkD 9 8 .ORDERING,
    mkD 9 9 .WORK, mkD 9 10 .WORK, mkD 9 11 .REST, mkD 9 12 .REST, mkD 9 13 .ORDERING,
    mkD 9 14 .WORK, mkD 9 15 .WORK, mkD 9 16 .REST, mkD 9 17 .REST, mkD 9 18 .ORDERING,
    mkD 9 19 .WORK, mkD 9 20 .WORK, mkD 9 21 .WORK, mkD 9 22 .WORK, mkD 9 23 .WORK,
    mkD 9 24 .WORK, mkD 9 25 .REST, mkD 9 26 .REST, mkD 9 27 .ORDERING, mkD 9 28 .WORK,
    mkD 9 29 .WORK, mkD 9 30 .WORK, mkD 10 1 .WORK, mkD 10 2 .WORK, mkD 10 3 .WORK,
    mkD 10 4 .REST, mkD 10 5 .REST, mkD 10 6 .ORDERING, mkD 10 7 .WORK, mkD 10 8 .WORK,
    mkD 10 9 .REST, mkD 10 10 .REST, mkD 10 11 .ORDERING, mkD 10 12 .WORK, mkD 10 13 .WORK,
    mkD 10 14 .REST, mkD 10 15 .REST, mkD 10 16 .ORDERING, mkD 10 17 .WORK, mkD 10 18 .WORK,
    mkD 10 19 .WORK, mkD 10 20 .WORK, mkD 10 21 .WORK, mkD 10 22 .WORK, mkD 10 23 .REST,
    mkD 10 24 .REST, mkD 10 25 .ORDERING, mkD 10 26 .WORK, mkD 10 27 .WORK, mkD 10 28 .WORK,
    mkD 10 29 .WORK, mkD 10 30 .WORK, mkD 10 31 .WORK, mkD 11 1 .REST, mkD 11 2 .REST,
    mkD 11 3 .ORDERING, mkD 11 4 .WORK, mkD 11 5 .WORK, mkD 11 6 .REST, mkD 11 7 .REST],
  [45, 44, 43, 42, 41, 40, 39, 38, 37, 36, 35, 34, 33, 32, 31, 30, 29, 28, 27, 26, 25, 24, 23, 22, 21, 20, 19, 18, 17, 16, 15, 14, 13, 12, 11, 10, 9, 8, 7, 6, 5, 4, 3, 2, 1], [11, 10, 9, 8, 7, 6, 5, 4, 3, 2, 1]⟩

/-- Builder state of iteration 45 after its work block. -/
def bmid45 : ScheduleState := ⟨⟨2025, 11, 11⟩,
  [mkD 1 1 .WORK, mkD 1 2 .WORK, mkD 1 3 .WORK, mkD 1 4 .REST, mkD 1 5 .REST, mkD 1 6 .ORDERING,
    mkD 1 8 .WORK, mkD 1 9 .WORK, mkD 1 10 .REST, mkD 1 11 .REST, mkD 1 12 .ORDERING,
    mkD 1 13 .WORK, mkD 1 14 .WORK, mkD 1 15 .REST, mkD 1 16 .REST, mkD 1 17 .ORDERING,
    mkD 1 18 .WORK, mkD 1 19 .WORK, mkD 1 20 .WORK, mkD 1 21 .WORK, mkD 1 22 .WORK,
    mkD 1 23 .REST, mkD 1 24 .REST, mkD 1 25 .ORDERING, mkD 1 26 .WORK, mkD 1 27 .WORK,
    mkD 1 28 .WORK, mkD 1 29 .WORK, mkD 1 30 .WORK, mkD 1 31 .WORK, mkD 2 1 .REST, mkD 2 2 .REST,
    mkD 2 3 .ORDERING, mkD 2 4 .WORK, mkD 2 5 .WORK, mkD 2 6 .REST, mkD 2 7 .REST,
    mkD 2 8 .ORDERING, mkD 2 9 .WORK, mkD 2 10 .WORK, mkD 2 11 .REST, mkD 2 12 .REST,
    mkD 2 13 .ORDERING, mkD 2 14 .WORK, mkD 2 15 .WORK, mkD 2 16 .WORK, mkD 2 17 .WORK,
    mkD 2 18 .WORK, mkD 2 19 .WORK, mkD 2 20 .REST, mkD 2 21 .REST, mkD 2 22 .ORDERING,
    mkD 2 23 .WORK, mkD 2 24 .WORK, mkD 2 25 .WORK, mkD 2 26 .WORK, mkD 2 27 .WORK,
    mkD 2 28 .WORK, mkD 3 1 .REST, mkD 3 2 .REST, mkD 3 3 .ORDERING, mkD 3 4 .WORK, mkD 3 5 .WORK,
    mkD 3 6 .REST, mkD 3 7 .REST, mkD 3 8 .ORDERING, mkD 3 9 .WORK, mkD 3 10 .WORK,
    mkD 3 11 .REST, mkD 3 12 .REST, mkD 3 13 .ORDERING, mkD 3 14 .WORK, mkD 3 15 .WORK,
    mkD 3 16 .WORK, mkD 3 17 .WORK, mkD 3 18 .REST, mkD 3 19 .REST, mkD 3 20 .ORDERING,
    mkD 3 21 .WORK, mkD 3 22 .WORK, mkD 3 23 .WORK, mkD 3 24 .WORK, mkD 3 25 .WORK,
    mkD 3 26 .WORK, mkD 3 27 .REST, mkD 3 28 .REST, mkD 3 29 .ORDERING, mkD 3 30 .WORK,
    mkD 3 31 .WORK, mkD 4 1 .WORK, mkD 4 2 .WORK, mkD 4 3 .WORK, mkD 4 4 .WORK, mkD 4 5 .REST,
    mkD 4 6 .REST, mkD 4 7 .ORDERING, mkD 4 8 .WORK, mkD 4 9 .WORK, mkD 4 10 .REST,
    mkD 4 11 .REST, mkD 4 12 .ORDERING, mkD 4 13 .WORK, mkD 4 14 .WORK, mkD 4 15 .REST,
    mkD 4 16 .REST, mkD 4 17 .ORDERING, mkD 4 18 .WORK, mkD 4 19 .WORK, mkD 4 20 .WORK,
    mkD 4 21 .WORK, mkD 4 22 .WORK, mkD 4 23 .WORK, mkD 4 24 .REST, mkD 4 25 .REST,
    mkD 4 26 .ORDERING, mkD 4 27 .WORK, mkD 4 28 .WORK, mkD 4 29 .WORK, mkD 4 30 .WORK,
    mkD 5 1 .WORK, mkD 5 2 .WORK, mkD 5 3 .REST, mkD 5 4 .REST, mkD 5 5 .ORDERING, mkD 5 6 .WORK,
    mkD 5 7 .WORK, mkD 5 8 .REST, mkD 5 9 .REST, mkD 5 10 .ORDERING, mkD 5 11 .WORK,
    mkD 5 12 .WORK, mkD 5 13 .REST, mkD 5 14 .REST, mkD 5 15 .ORDERING, mkD 5 16 .WORK,
    mkD 5 17 .WORK, mkD 5 18 .WORK, mkD 5 19 .WORK, mkD 5 20 .REST, mkD 5 21 .REST,
    mkD 5 22 .ORDERING, mkD 5 23 .WORK, mkD 5 24 .WORK, mkD 5 25 .WORK, mkD 5 26 .WORK,
    mkD 5 27 .WORK, mkD 5 28 .WORK, mkD 5 29 .REST, mkD 5 30 .REST, mkD 5 31 .ORDERING,
    mkD 6 1 .WORK, mkD 6 2 .WORK, mkD 6 3 .WORK, mkD 6 4 .WORK, mkD 6 5 .WORK, mkD 6 6 .WORK,
    mkD 6 7 .REST, mkD 6 8 .REST, mkD 6 9 .ORDERING, mkD 6 10 .WORK, mkD 6 11 .WORK,
    mkD 6 12 .REST, mkD 6 13 .REST, mkD 6 14 .ORDERING, mkD 6 15 .WORK, mkD 6 16 .WORK,
    mkD 6 17 .REST, mkD 6 18 .REST, mkD 6 19 .ORDERING, mkD 6 20 .WORK, mkD 6 21 .WORK,
    mkD 6 22 .WORK, mkD 6 23 .WORK, mkD 6 24 .WORK, mkD 6 25 .WORK, mkD 6 26 .REST,
    mkD 6 27 .REST, mkD 6 28 .ORDERING, mkD 6 29 .WORK, mkD 6 30 .WORK, mkD 7 1 .WORK,
    mkD 7 2 .WORK, mkD 7 3 .WORK, mkD 7 4 .WORK, mkD 7 5 .REST, mkD 7 6 .REST, mkD 7 7 .ORDERING,
    mkD 7 8 .WORK, mkD 7 9 .WORK, mkD 7 10 .REST, mkD 7 11 .REST, mkD 7 12 .ORDERING,
    mkD 7 13 .WORK, mkD 7 14 .WORK, mkD 7 15 .REST, mkD 7 16 .REST, mkD 7 17 .ORDERING,
    mkD 7 18 .WORK, mkD 7 19 .WORK, mkD 7 20 .WORK, mkD 7 21 .WORK, mkD 7 22 .WORK,
    mkD 7 23 .WORK, mkD 7 24 .REST, mkD 7 25 .REST, mkD 7 26 .ORDERING, mkD 7 27 .WORK,
    mkD 7 28 .WORK, mkD 7 29 .WORK, mkD 7 30 .WORK, mkD 7 31 .WORK, mkD 8 1 .WORK, mkD 8 2 .REST,
    mkD 8 3 .REST, mkD 8 4 .ORDERING, mkD 8 5 .WORK, mkD 8 6 .WORK, mkD 8 7 .REST, mkD 8 8 .REST,
    mkD 8 9 .ORDERING, mkD 8 10 .WORK, mkD 8 11 .WORK, mkD 8 12 .REST, mkD 8 13 .REST,
    mkD 8 14 .ORDERING, mkD 8 15 .WORK, mkD 8 16 .WORK, mkD 8 17 .WORK, mkD 8 18 .WORK,
    mkD 8 19 .REST, mkD 8 20 .REST, mkD 8 21 .ORDERING, mkD 8 22 .WORK, mkD 8 23 .WORK,
    mkD 8 24 .WORK, mkD 8 25 .WORK, mkD 8 26 .WORK, mkD 8 27 .WORK, mkD 8 28 .REST,
    mkD 8 29 .REST, mkD 8 30 .ORDERING, mkD 8 31 .WORK, mkD 9 1 .WORK, mkD 9 2 .WORK,
    mkD 9 3 .WORK, mkD 9 4 .WORK, mkD 9 5 .WORK, mkD 9 6 .REST, mkD 9 7 .REST, mkD 9 8 .ORDERING,
    mkD 9 9 .WORK, mkD 9 10 .WORK, mkD 9 11 .REST, mkD 9 12 .REST, mkD 9 13 .ORDERING,
    mkD 9 14 .WORK, mkD 9 15 .WORK, mkD 9 16 .REST, mkD 9 17 .REST, mkD 9 18 .ORDERING,
    mkD 9 19 .WORK, mkD 9 20 .WORK, mkD 9 21 .WORK, mkD 9 22 .WORK, mkD 9 23 .WORK,
    mkD 9 24 .WORK, mkD 9 25 .REST, mkD 9 26 .REST, mkD 9 27 .ORDERING, mkD 9 28 .WORK,
    mkD 9 29 .WORK, mkD 9 30 .WORK, mkD 10 1 .WORK, mkD 10 2 .WORK, mkD 10 3 .WORK,
    mkD 10 4 .REST, mkD 10 5 .REST, mkD 10 6 .ORDERING, mkD 10 7 .WORK, mkD 10 8 .WORK,
    mkD 10 9 .REST, mkD 10 10 .REST, mkD 10 11 .ORDERING, mkD 10 12 .WORK, mkD 10 13 .WORK,
    mkD 10 14 .REST, mkD 10 15 .REST, mkD 10 16 .ORDERING, mkD 10 17 .WORK, mkD 10 18 .WORK,
    mkD 10 19 .WORK, mkD 10 20 .WORK, mkD 10 21 .WORK, mkD 10 22 .WORK, mkD 10 23 .REST,
    mkD 10 24 .REST, mkD 10 25 .ORDERING, mkD 10 26 .WORK, mkD 10 27 .WORK, mkD 10 28 .WORK,
    mkD 10 29 .WORK, mkD 10 30 .WORK, mkD 10 31 .WORK, mkD 11 1 .REST, mkD 11 2 .REST,
    mkD 11 3 .ORDERING, mkD 11 4 .WORK, mkD 11 5 .WORK, mkD 11 6 .REST, mkD 11 7 .REST,
    mkD 11 8 .ORDERING, mkD 11 9 .WORK, mkD 11 10 .WORK],
  [45, 44, 43, 42, 41, 40, 39, 38, 37, 36, 35, 34, 33, 32, 31, 30, 29, 28, 27, 26, 25, 24, 23, 22, 21, 20, 19, 18, 17, 16, 15, 14, 13, 12, 11, 10, 9, 8, 7, 6, 5, 4, 3, 2, 1], [11, 10, 9, 8, 7, 6, 5, 4, 3, 2, 1]⟩

/-- Builder state of the witness run before iteration 46. -/
def bst46 : ScheduleState := ⟨⟨2025, 11, 13⟩,
  [mkD 1 1 .WORK, mkD 1 2 .WORK, mkD 1 3 .WORK, mkD 1 4 .REST, mkD 1 5 .REST, mkD 1 6 .ORDERING,
    mkD 1 8 .WORK, mkD 1 9 .WORK, mkD 1 10 .REST, mkD 1 11 .REST, mkD 1 12 .ORDERING,
    mkD 1 13 .WORK, mkD 1 14 .WORK, mkD 1 15 .REST, mkD 1 16 .REST, mkD 1 17 .ORDERING,
    mkD 1 18 .WORK, mkD 1 19 .WORK, mkD 1 20 .WORK, mkD 1 21 .WORK, mkD 1 22 .WORK,
    mkD 1 23 .REST, mkD 1 24 .REST, mkD 1 25 .ORDERING, mkD 1 26 .WORK, mkD 1 27 .WORK,
    mkD 1 28 .WORK, mkD 1 29 .WORK, mkD 1 30 .WORK, mkD 1 31 .WORK, mkD 2 1 .REST, mkD 2 2 .REST,
    mkD 2 3 .ORDERING, mkD 2 4 .WORK, mkD 2 5 .WORK, mkD 2 6 .REST, mkD 2 7 .REST,
    mkD 2 8 .ORDERING, mkD 2 9 .WORK, mkD 2 10 .WORK, mkD 2 11 .REST, mkD 2 12 .REST,
    mkD 2 13 .ORDERING, mkD 2 14 .WORK, mkD 2 15 .WORK, mkD 2 16 .WORK, mkD 2 17 .WORK,
    mkD 2 18 .WORK, mkD 2 19 .WORK, mkD 2 20 .REST, mkD 2 21 .REST, mkD 2 22 .ORDERING,
    mkD 2 23 .WORK, mkD 2 24 .WORK, mkD 2 25 .WORK, mkD 2 26 .WORK, mkD 2 27 .WORK,
    mkD 2 28 .WORK, mkD 3 1 .REST, mkD 3 2 .REST, mkD 3 3 .ORDERING, mkD 3 4 .WORK, mkD 3 5 .WORK,
    mkD 3 6 .REST, mkD 3 7 .REST, mkD 3 8 .ORDERING, mkD 3 9 .WORK, mkD 3 10 .WORK,
    mkD 3 11 .REST, mkD 3 12 .REST, mkD 3 13 .ORDERING, mkD 3 14 .WORK, mkD 3 15 .WORK,
    mkD 3 16 .WORK, mkD 3 17 .WORK, mkD 3 18 .REST, mkD 3 19 .REST, mkD 3 20 .ORDERING,
    mkD 3 21 .WORK, mkD 3 22 .WORK, mkD 3 23 .WORK, mkD 3 24 .WORK, mkD 3 25 .WORK,
    mkD 3 26 .WORK, mkD 3 27 .REST, mkD 3 28 .REST, mkD 3 29 .ORDERING, mkD 3 30 .WORK,
    mkD 3 31 .WORK, mkD 4 1 .WORK, mkD 4 2 .WORK, mkD 4 3 .WORK, mkD 4 4 .WORK, mkD 4 5 .REST,
    mkD 4 6 .REST, mkD 4 7 .ORDERING, mkD 4 8 .WORK, mkD 4 9 .WORK, mkD 4 10 .REST,
    mkD 4 11 .REST, mkD 4 12 .ORDERING, mkD 4 13 .WORK, mkD 4 14 .WORK, mkD 4 15 .REST,
    mkD 4 16 .REST, mkD 4 17 .ORDERING, mkD 4 18 .WORK, mkD 4 19 .WORK, mkD 4 20 .WORK,
    mkD 4 21 .WORK, mkD 4 22 .WORK, mkD 4 23 .WORK, mkD 4 24 .REST, mkD 4 25 .REST,
    mkD 4 26 .ORDERING, mkD 4 27 .WORK, mkD 4 28 .WORK, mkD 4 29 .WORK, mkD 4 30 .WORK,
    mkD 5 1 .WORK, mkD 5 2 .WORK, mkD 5 3 .REST, mkD 5 4 .REST, mkD 5 5 .ORDERING, mkD 5 6 .WORK,
    mkD 5 7 .WORK, mkD 5 8 .REST, mkD 5 9 .REST, mkD 5 10 .ORDERING, mkD 5 11 .WORK,
    mkD 5 12 .WORK, mkD 5 13 .REST, mkD 5 14 .REST, mkD 5 15 .ORDERING, mkD 5 16 .WORK,
    mkD 5 17 .WORK, mkD 5 18 .WORK, mkD 5 19 .WORK, mkD 5 20 .REST, mkD 5 21 .REST,
    mkD 5 22 .ORDERING, mkD 5 23 .WORK, mkD 5 24 .WORK, mkD 5 25 .WORK, mkD 5 26 .WORK,
    mkD 5 27 .WORK, mkD 5 28 .WORK, mkD 5 29 .REST, mkD 5 30 .REST, mkD 5 31 .ORDERING,
    mkD 6 1 .WORK, mkD 6 2 .WORK, mkD 6 3 .WORK, mkD 6 4 .WORK, mkD 6 5 .WORK, mkD 6 6 .WORK,
    mkD 6 7 .REST, mkD 6 8 .REST, mkD 6 9 .ORDERING, mkD 6 10 .WORK, mkD 6 11 .WORK,
    mkD 6 12 .REST, mkD 6 13 .REST, mkD 6 14 .ORDERING, mkD 6 15 .WORK, mkD 6 16 .WORK,
    mkD 6 17 .REST, mkD 6 18 .REST, mkD 6 19 .ORDERING, mkD 6 20 .WORK, mkD 6 21 .WORK,
    mkD 6 22 .WORK, mkD 6 23 .WORK, mkD 6 24 .WORK, mkD 6 25 .WORK, mkD 6 26 .REST,
    mkD 6 27 .REST, mkD 6 28 .ORDERING, mkD 6 29 .WORK, mkD 6 30 .WORK, mkD 7 1 .WORK,
    mkD 7 2 .WORK, mkD 7 3 .WORK, mkD 7 4 .WORK, mkD 7 5 .REST, mkD 7 6 .REST, mkD 7 7 .ORDERING,
    mkD 7 8 .WORK, mkD 7 9 .WORK, mkD 7 10 .REST, mkD 7 11 .REST, mkD 7 12 .ORDERING,
    mkD 7 13 .WORK, mkD 7 14 .WORK, mkD 7 15 .REST, mkD 7 16 .REST, mkD 7 17 .ORDERING,
    mkD 7 18 .WORK, mkD 7 19 .WORK, mkD 7 20 .WORK, mkD 7 21 .WORK, mkD 7 22 .WORK,
    mkD 7 23 .WORK, mkD 7 24 .REST, mkD 7 25 .REST, mkD 7 26 .ORDERING, mkD 7 27 .WORK,
    mkD 7 28 .WORK, mkD 7 29 .WORK, mkD 7 30 .WORK, mkD 7 31 .WORK, mkD 8 1 .WORK, mkD 8 2 .REST,
    mkD 8 3 .REST, mkD 8 4 .ORDERING, mkD 8 5 .WORK, mkD 8 6 .WORK, mkD 8 7 .REST, mkD 8 8 .REST,
    mkD 8 9 .ORDERING, mkD 8 10 .WORK, mkD 8 11 .WORK, mkD 8 12 .REST, mkD 8 13 .REST,
    mkD 8 14 .ORDERING, mkD 8 15 .WORK, mkD 8 16 .WORK, mkD 8 17 .WORK, mkD 8 18 .WORK,
    mkD 8 19 .REST, mkD 8 20 .REST, mkD 8 21 .ORDERING, mkD 8 22 .WORK, mkD 8 23 .WORK,
    mkD 8 24 .WORK, mkD 8 25 .WORK, mkD 8 26 .WORK, mkD 8 27 .WORK, mkD 8 28 .REST,
    mkD 8 29 .REST, mkD 8 30 .ORDERING, mkD 8 31 .WORK, mkD 9 1 .WORK, mkD 9 2 .WORK,
    mkD 9 3 .WORK, mkD 9 4 .WORK, mkD 9 5 .WORK, mkD 9 6 .REST, mkD 9 7 .REST, mkD 9 8 .ORDERING,
    mkD 9 9 .WORK, mkD 9 10 .WORK, mkD 9 11 .REST, mkD 9 12 .REST, mkD 9 13 .ORDERING,
    mkD 9 14 .WORK, mkD 9 15 .WORK, mkD 9 16 .REST, mkD 9 17 .REST, mkD 9 18 .ORDERING,
    mkD 9 19 .WORK, mkD 9 20 .WORK, mkD 9 21 .WORK, mkD 9 22 .WORK, mkD 9 23 .WORK,
    mkD 9 24 .WORK, mkD 9 25 .REST, mkD 9 26 .REST, mkD 9 27 .ORDERING, mkD 9 28 .WORK,
    mkD 9 29 .WORK, mkD 9 30 .WORK, mkD 10 1 .WORK, mkD 10 2 .WORK, mkD 10 3 .WORK,
    mkD 10 4 .REST, mkD 10 5 .REST, mkD 10 6 .ORDERING, mkD 10 7 .WORK, mkD 10 8 .WORK,
    mkD 10 9 .REST, mkD 10 10 .REST, mkD 10 11 .ORDERING, mkD 10 12 .WORK, mkD 10 13 .WORK,
    mkD 10 14 .REST, mkD 10 15 .REST, mkD 10 16 .ORDERING, mkD 10 17 .WORK, mkD 10 18 .WORK,
    mkD 10 19 .WORK, mkD 10 20 .WORK, mkD 10 21 .WORK, mkD 10 22 .WORK, mkD 10 23 .REST,
    mkD 10 24 .REST, mkD 10 25 .ORDERING, mkD 10 26 .WORK, mkD 10 27 .WORK, mkD 10 28 .WORK,
    mkD 10 29 .WORK, mkD 10 30 .WORK, mkD 10 31 .WORK, mkD 11 1 .REST, mkD 11 2 .REST,
    mkD 11 3 .ORDERING, mkD 11 4 .WORK, mkD 11 5 .WORK, mkD 11 6 .REST, mkD 11 7 .REST,
    mkD 11 8 .ORDERING, mkD 11 9 .WORK, mkD 11 10 .WORK, mkD 11 11 .REST, mkD 11 12 .REST],
  [46, 45, 44, 43, 42, 41, 40, 39, 38, 37, 36, 35, 34, 33, 32, 31, 30, 29, 28, 27, 26, 25, 24, 23, 22, 21, 20, 19, 18, 17, 16, 15, 14, 13, 12, 11, 10, 9, 8, 7, 6, 5, 4, 3, 2, 1], [11, 10, 9, 8, 7, 6, 5, 4, 3, 2, 1]⟩

/-- Builder state of iteration 46 after its work block. -/
def bmid46 : ScheduleState := ⟨⟨2025, 11, 18⟩,
  [mkD 1 1 .WORK, mkD 1 2 .WORK, mkD 1 3 .WORK, mkD 1 4 .REST, mkD 1 5 .REST, mkD 1 6 .ORDERING,
    mkD 1 8 .WORK, mkD 1 9 .WORK, mkD 1 10 .REST, mkD 1 11 .REST, mkD 1 12 .ORDERING,
    mkD 1 13 .WORK, mkD 1 14 .WORK, mkD 1 15 .REST, mkD 1 16 .REST, mkD 1 17 .ORDERING,
    mkD 1 18 .WORK, mkD 1 19 .WORK, mkD 1 20 .WORK, mkD 1 21 .WORK, mkD 1 22 .WORK,
    mkD 1 23 .REST, mkD 1 24 .REST, mkD 1 25 .ORDERING, mkD 1 26 .WORK, mkD 1 27 .WORK,
    mkD 1 28 .WORK, mkD 1 29 .WORK, mkD 1 30 .WORK, mkD 1 31 .WORK, mkD 2 1 .REST, mkD 2 2 .REST,
    mkD 2 3 .ORDERING, mkD 2 4 .WORK, mkD 2 5 .WORK, mkD 2 6 .REST, mkD 2 7 .REST,
    mkD 2 8 .ORDERING, mkD 2 9 .WORK, mkD 2 10 .WORK, mkD 2 11 .REST, mkD 2 12 .REST,
    mkD 2 13 .ORDERING, mkD 2 14 .WORK, mkD 2 15 .WORK, mkD 2 16 .WORK, mkD 2 17 .WORK,
    mkD 2 18 .WORK, mkD 2 19 .WORK, mkD 2 20 .REST, mkD 2 21 .REST, mkD 2 22 .ORDERING,
    mkD 2 23 .WORK, mkD 2 24 .WORK, mkD 2 25 .WORK, mkD 2 26 .WORK, mkD 2 27 .WORK,
    mkD 2 28 .WORK, mkD 3 1 .REST, mkD 3 2 .REST, mkD 3 3 .ORDERING, mkD 3 4 .WORK, mkD 3 5 .WORK,
    mkD 3 6 .REST, mkD 3 7 .REST, mkD 3 8 .ORDERING, mkD 3 9 .WORK, mkD 3 10 .WORK,
    mkD 3 11 .REST, mkD 3 12 .REST, mkD 3 13 .ORDERING, mkD 3 14 .WORK, mkD 3 15 .WORK,
    mkD 3 16 .WORK, mkD 3 17 .WORK, mkD 3 18 .REST, mkD 3 19 .REST, mkD 3 20 .ORDERING,
    mkD 3 21 .WORK, mkD 3 22 .WORK, mkD 3 23 .WORK, mkD 3 24 .WORK, mkD 3 25 .WORK,
    mkD 3 26 .WORK, mkD 3 27 .REST, mkD 3 28 .REST, mkD 3 29 .ORDERING, mkD 3 30 .WORK,
    mkD 3 31 .WORK, mkD 4 1 .WORK, mkD 4 2 .WORK, mkD 4 3 .WORK, mkD 4 4 .WORK, mkD 4 5 .REST,
    mkD 4 6 .REST, mkD 4 7 .ORDERING, mkD 4 8 .WORK, mkD 4 9 .WORK, mkD 4 10 .REST,
    mkD 4 11 .REST, mkD 4 12 .ORDERING, mkD 4 13 .WORK, mkD 4 14 .WORK, mkD 4 15 .REST,
    mkD 4 16 .REST, mkD 4 17 .ORDERING, mkD 4 18 .WORK, mkD 4 19 .WORK, mkD 4 20 .WORK,
    mkD 4 21 .WORK, mkD 4 22 .WORK, mkD 4 23 .WORK, mkD 4 24 .REST, mkD 4 25 .REST,
    mkD 4 26 .ORDERING, mkD 4 27 .WORK, mkD 4 28 .WORK, mkD 4 29 .WORK, mkD 4 30 .WORK,
    mkD 5 1 .WORK, mkD 5 2 .WORK, mkD 5 3 .REST, mkD 5 4 .REST, mkD 5 5 .ORDERING, mkD 5 6 .WORK,
    mkD 5 7 .WORK, mkD 5 8 .REST, mkD 5 9 .REST, mkD 5 10 .ORDERING, mkD 5 11 .WORK,
    mkD 5 12 .WORK, mkD 5 13 .REST, mkD 5 14 .REST, mkD 5 15 .ORDERING, mkD 5 16 .WORK,
    mkD 5 17 .WORK, mkD 5 18 .WORK, mkD 5 19 .WORK, mkD 5 20 .REST, mkD 5 21 .REST,
    mkD 5 22 .ORDERING, mkD 5 23 .WORK, mkD 5 24 .WORK, mkD 5 25 .WORK, mkD 5 26 .WORK,
    mkD 5 27 .WORK, mkD 5 28 .WORK, mkD 5 29 .REST, mkD 5 30 .REST, mkD 5 31 .ORDERING,
    mkD 6 1 .WORK, mkD 6 2 .WORK, mkD 6 3 .WORK, mkD 6 4 .WORK, mkD 6 5 .WORK, mkD 6 6 .WORK,
    mkD 6 7 .REST, mkD 6 8 .REST, mkD 6 9 .ORDERING, mkD 6 10 .WORK, mkD 6 11 .WORK,
    mkD 6 12 .REST, mkD 6 13 .REST, mkD 6 14 .ORDERING, mkD 6 15 .WORK, mkD 6 16 .WORK,
    mkD 6 17 .REST, mkD 6 18 .REST, mkD 6 19 .ORDERING, mkD 6 20 .WORK, mkD 6 21 .WORK,
    mkD 6 22 .WORK, mkD 6 23 .WORK, mkD 6 24 .WORK, mkD 6 25 .WORK, mkD 6 26 .REST,
    mkD 6 27 .REST, mkD 6 28 .ORDERING, mkD 6 29 .WORK, mkD 6 30 .WORK, mkD 7 1 .WORK,
    mkD 7 2 .WORK, mkD 7 3 .WORK, mkD 7 4 .WORK, mkD 7 5 .REST, mkD 7 6 .REST, mkD 7 7 .ORDERING,
    mkD 7 8 .WORK, mkD 7 9 .WORK, mkD 7 10 .REST, mkD 7 11 .REST, mkD 7 12 .ORDERING,
    mkD 7 13 .WORK, mkD 7 14 .WORK, mkD 7 15 .REST, mkD 7 16 .REST, mkD 7 17 .ORDERING,
    mkD 7 18 .WORK, mkD 7 19 .WORK, mkD 7 20 .WORK, mkD 7 21 .WORK, mkD 7 22 .WORK,
    mkD 7 23 .WORK, mkD 7 24 .REST, mkD 7 25 .REST, mkD 7 26 .ORDERING, mkD 7 27 .WORK,
    mkD 7 28 .WORK, mkD 7 29 .WORK, mkD 7 30 .WORK, mkD 7 31 .WORK, mkD 8 1 .WORK, mkD 8 2 .REST,
    mkD 8 3 .REST, mkD 8 4 .ORDERING, mkD 8 5 .WORK, mkD 8 6 .WORK, mkD 8 7 .REST, mkD 8 8 .REST,
    mkD 8 9 .ORDERING, mkD 8 10 .WORK, mkD 8 11 .WORK, mkD 8 12 .REST, mkD 8 13 .REST,
    mkD 8 14 .ORDERING, mkD 8 15 .WORK, mkD 8 16 .WORK, mkD 8 17 .WORK, mkD 8 18 .WORK,
    mkD 8 19 .REST, mkD 8 20 .REST, mkD 8 21 .ORDERING, mkD 8 22 .WORK, mkD 8 23 .WORK,
    mkD 8 24 .WORK, mkD 8 25 .WORK, mkD 8 26 .WORK, mkD 8 27 .WORK, mkD 8 28 .REST,
    mkD 8 29 .REST, mkD 8 30 .ORDERING, mkD 8 31 .WORK, mkD 9 1 .WORK, mkD 9 2 .WORK,
    mkD 9 3 .WORK, mkD 9 4 .WORK, mkD 9 5 .WORK, mkD 9 6 .REST, mkD 9 7 .REST, mkD 9 8 .ORDERING,
    mkD 9 9 .WORK, mkD 9 10 .WORK, mkD 9 11 .REST, mkD 9 12 .REST, mkD 9 13 .ORDERING,
    mkD 9 14 .WORK, mkD 9 15 .WORK, mkD 9 16 .REST, mkD 9 17 .REST, mkD 9 18 .ORDERING,
    mkD 9 19 .WORK, mkD 9 20 .WORK, mkD 9 21 .WORK, mkD 9 22 .WORK, mkD 9 23 .WORK,
    mkD 9 24 .WORK, mkD 9 25 .REST, mkD 9 26 .REST, mkD 9 27 .ORDERING, mkD 9 28 .WORK,
    mkD 9 29 .WORK, mkD 9 30 .WORK, mkD 10 1 .WORK, mkD 10 2 .WORK, mkD 10 3 .WORK,
    mkD 10 4 .REST, mkD 10 5 .REST, mkD 10 6 .ORDERING, mkD 10 7 .WORK, mkD 10 8 .WORK,
    mkD 10 9 .REST, mkD 10 10 .REST, mkD 10 11 .ORDERING, mkD 10 12 .WORK, mkD 10 13 .WORK,
    mkD 10 14 .REST, mkD 10 15 .REST, mkD 10 16 .ORDERING, mkD 10 17 .WORK, mkD 10 18 .WORK,
    mkD 10 19 .WORK, mkD 10 20 .WORK, mkD 10 21 .WORK, mkD 10 22 .WORK, mkD 10 23 .REST,
    mkD 10 24 .REST, mkD 10 25 .ORDERING, mkD 10 26 .WORK, mkD 10 27 .WORK, mkD 10 28 .WORK,
    mkD 10 29 .WORK, mkD 10 30 .WORK, mkD 10 31 .WORK, mkD 11 1 .REST, mkD 11 2 .REST,
    mkD 11 3 .ORDERING, mkD 11 4 .WORK, mkD 11 5 .WORK, mkD 11 6 .REST, mkD 11 7 .REST,
    mkD 11 8 .ORDERING, mkD 11 9 .WORK, mkD 11 10 .WORK, mkD 11 11 .REST, mkD 11 12 .REST,
    mkD 11 13 .ORDERING, mkD 11 14 .WORK, mkD 11 15 .WORK, mkD 11 16 .WORK, mkD 11 17 .WORK],
  [46, 45, 44, 43, 42, 41, 40, 39, 38, 37, 36, 35, 34, 33, 32, 31, 30, 29, 28, 27, 26, 25, 24, 23, 22, 21, 20, 19, 18, 17, 16, 15, 14, 13, 12, 11, 10, 9, 8, 7, 6, 5, 4, 3, 2, 1], [11, 10, 9, 8, 7, 6, 5, 4, 3, 2, 1]⟩

/-- Builder state of the witness run before iteration 47. -/
def bst47 : ScheduleState := ⟨⟨2025, 11, 20⟩,
  [mkD 1 1 .WORK, mkD 1 2 .WORK, mkD 1 3 .WORK, mkD 1 4 .REST, mkD 1 5 .REST, mkD 1 6 .ORDERING,
    mkD 1 8 .WORK, mkD 1 9 .WORK, mkD 1 10 .REST, mkD 1 11 .REST, mkD 1 12 .ORDERING,
    mkD 1 13 .WORK, mkD 1 14 .WORK, mkD 1 15 .REST, mkD 1 16 .REST, mkD 1 17 .ORDERING,
    mkD 1 18 .WORK, mkD 1 19 .WORK, mkD 1 20 .WORK, mkD 1 21 .WORK, mkD 1 22 .WORK,
    mkD 1 23 .REST, mkD 1 24 .REST, mkD 1 25 .ORDERING, mkD 1 26 .WORK, mkD 1 27 .WORK,
    mkD 1 28 .WORK, mkD 1 29 .WORK, mkD 1 30 .WORK, mkD 1 31 .WORK, mkD 2 1 .REST, mkD 2 2 .REST,
    mkD 2 3 .ORDERING, mkD 2 4 .WORK, mkD 2 5 .WORK, mkD 2 6 .REST, mkD 2 7 .REST,
    mkD 2 8 .ORDERING, mkD 2 9 .WORK, mkD 2 10 .WORK, mkD 2 11 .REST, mkD 2 12 .REST,
    mkD 2 13 .ORDERING, mkD 2 14 .WORK, mkD 2 15 .WORK, mkD 2 16 .WORK, mkD 2 17 .WORK,
    mkD 2 18 .WORK, mkD 2 19 .WORK, mkD 2 20 .REST, mkD 2 21 .REST, mkD 2 22 .ORDERING,
    mkD 2 23 .WORK, mkD 2 24 .WORK, mkD 2 25 .WORK, mkD 2 26 .WORK, mkD 2 27 .WORK,
    mkD 2 28 .WORK, mkD 3 1 .REST, mkD 3 2 .REST, mkD 3 3 .ORDERING, mkD 3 4 .WORK, mkD 3 5 .WORK,
    mkD 3 6 .REST, mkD 3 7 .REST, mkD 3 8 .ORDERING, mkD 3 9 .WORK, mkD 3 10 .WORK,
    mkD 3 11 .REST, mkD 3 12 .REST, mkD 3 13 .ORDERING, mkD 3 14 .WORK, mkD 3 15 .WORK,
    mkD 3 16 .WORK, mkD 3 17 .WORK, mkD 3 18 .REST, mkD 3 19 .REST, mkD 3 20 .ORDERING,
    mkD 3 21 .WORK, mkD 3 22 .WORK, mkD 3 23 .WORK, mkD 3 24 .WORK, mkD 3 25 .WORK,
    mkD 3 26 .WORK, mkD 3 27 .REST, mkD 3 28 .REST, mkD 3 29 .ORDERING, mkD 3 30 .WORK,
    mkD 3 31 .WORK, mkD 4 1 .WORK, mkD 4 2 .WORK, mkD 4 3 .WORK, mkD 4 4 .WORK, mkD 4 5 .REST,
    mkD 4 6 .REST, mkD 4 7 .ORDERING, mkD 4 8 .WORK, mkD 4 9 .WORK, mkD 4 10 .REST,
    mkD 4 11 .REST, mkD 4 12 .ORDERING, mkD 4 13 .WORK, mkD 4 14 .WORK, mkD 4 15 .REST,
    mkD 4 16 .REST, mkD 4 17 .ORDERING, mkD 4 18 .WORK, mkD 4 19 .WORK, mkD 4 20 .WORK,
    mkD 4 21 .WORK, mkD 4 22 .WORK, mkD 4 23 .WORK, mkD 4 24 .REST, mkD 4 25 .REST,
    mkD 4 26 .ORDERING, mkD 4 27 .WORK, mkD 4 28 .WORK, mkD 4 29 .WORK, mkD 4 30 .WORK,
    mkD 5 1 .WORK, mkD 5 2 .WORK, mkD 5 3 .REST, mkD 5 4 .REST, mkD 5 5 .ORDERING, mkD 5 6 .WORK,
    mkD 5 7 .WORK, mkD 5 8 .REST, mkD 5 9 .REST, mkD 5 10 .ORDERING, mkD 5 11 .WORK,
    mkD 5 12 .WORK, mkD 5 13 .REST, mkD 5 14 .REST, mkD 5 15 .ORDERING, mkD 5 16 .WORK,
    mkD 5 17 .WORK, mkD 5 18 .WORK, mkD 5 19 .WORK, mkD 5 20 .REST, mkD 5 21 .REST,
    mkD 5 22 .ORDERING, mkD 5 23 .WORK, mkD 5 24 .WORK, mkD 5 25 .WORK, mkD 5 26 .WORK,
    mkD 5 27 .WORK, mkD 5 28 .WORK, mkD 5 29 .REST, mkD 5 30 .REST, mkD 5 31 .ORDERING,
    mkD 6 1 .WORK, mkD 6 2 .WORK, mkD 6 3 .WORK, mkD 6 4 .WORK, mkD 6 5 .WORK, mkD 6 6 .WORK,
    mkD 6 7 .REST, mkD 6 8 .REST, mkD 6 9 .ORDERING, mkD 6 10 .WORK, mkD 6 11 .WORK,
    mkD 6 12 .REST, mkD 6 13 .REST, mkD 6 14 .ORDERING, mkD 6 15 .WORK, mkD 6 16 .WORK,
    mkD 6 17 .REST, mkD 6 18 .REST, mkD 6 19 .ORDERING, mkD 6 20 .WORK, mkD 6 21 .WORK,
    mkD 6 22 .WORK, mkD 6 23 .WORK, mkD 6 24 .WORK, mkD 6 25 .WORK, mkD 6 26 .REST,
    mkD 6 27 .REST, mkD 6 28 .ORDERING, mkD 6 29 .WORK, mkD 6 30 .WORK, mkD 7 1 .WORK,
    mkD 7 2 .WORK, mkD 7 3 .WORK, mkD 7 4 .WORK, mkD 7 5 .REST, mkD 7 6 .REST, mkD 7 7 .ORDERING,
    mkD 7 8 .WORK, mkD 7 9 .WORK, mkD 7 10 .REST, mkD 7 11 .REST, mkD 7 12 .ORDERING,
    mkD 7 13 .WORK, mkD 7 14 .WORK, mkD 7 15 .REST, mkD 7 16 .REST, mkD 7 17 .ORDERING,
    mkD 7 18 .WORK, mkD 7 19 .WORK, mkD 7 20 .WORK, mkD 7 21 .WORK, mkD 7 22 .WORK,
    mkD 7 23 .WORK, mkD 7 24 .REST, mkD 7 25 .REST, mkD 7 26 .ORDERING, mkD 7 27 .WORK,
    mkD 7 28 .WORK, mkD 7 29 .WORK, mkD 7 30 .WORK, mkD 7 31 .WORK, mkD 8 1 .WORK, mkD 8 2 .REST,
    mkD 8 3 .REST, mkD 8 4 .ORDERING, mkD 8 5 .WORK, mkD 8 6 .WORK, mkD 8 7 .REST, mkD 8 8 .REST,
    mkD 8 9 .ORDERING, mkD 8 10 .WORK, mkD 8 11 .WORK, mkD 8 12 .REST, mkD 8 13 .REST,
    mkD 8 14 .ORDERING, mkD 8 15 .WORK, mkD 8 16 .WORK, mkD 8 17 .WORK, mkD 8 18 .WORK,
    mkD 8 19 .REST, mkD 8 20 .REST, mkD 8 21 .ORDERING, mkD 8 22 .WORK, mkD 8 23 .WORK,
    mkD 8 24 .WORK, mkD 8 25 .WORK, mkD 8 26 .WORK, mkD 8 27 .WORK, mkD 8 28 .REST,
    mkD 8 29 .REST, mkD 8 30 .ORDERING, mkD 8 31 .WORK, mkD 9 1 .WORK, mkD 9 2 .WORK,
    mkD 9 3 .WORK, mkD 9 4 .WORK, mkD 9 5 .WORK, mkD 9 6 .REST, mkD 9 7 .REST, mkD 9 8 .ORDERING,
    mkD 9 9 .WORK, mkD 9 10 .WORK, mkD 9 11 .REST, mkD 9 12 .REST, mkD 9 13 .ORDERING,
    mkD 9 14 .WORK, mkD 9 15 .WORK, mkD 9 16 .REST, mkD 9 17 .REST, mkD 9 18 .ORDERING,
    mkD 9 19 .WORK, mkD 9 20 .WORK, mkD 9 21 .WORK, mkD 9 22 .WORK, mkD 9 23 .WORK,
    mkD 9 24 .WORK, mkD 9 25 .REST, mkD 9 26 .REST, mkD 9 27 .ORDERING, mkD 9 28 .WORK,
    mkD 9 29 .WORK, mkD 9 30 .WORK, mkD 10 1 .WORK, mkD 10 2 .WORK, mkD 10 3 .WORK,
    mkD 10 4 .REST, mkD 10 5 .REST, mkD 10 6 .ORDERING, mkD 10 7 .WORK, mkD 10 8 .WORK,
    mkD 10 9 .REST, mkD 10 10 .REST, mkD 10 11 .ORDERING, mkD 10 12 .WORK, mkD 10 13 .WORK,
    mkD 10 14 .REST, mkD 10 15 .REST, mkD 10 16 .ORDERING, mkD 10 17 .WORK, mkD 10 18 .WORK,
    mkD 10 19 .WORK, mkD 10 20 .WORK, mkD 10 21 .WORK, mkD 10 22 .WORK, mkD 10 23 .REST,
    mkD 10 24 .REST, mkD 10 25 .ORDERING, mkD 10 26 .WORK, mkD 10 27 .WORK, mkD 10 28 .WORK,
    mkD 10 29 .WORK, mkD 10 30 .WORK, mkD 10 31 .WORK, mkD 11 1 .REST, mkD 11 2 .REST,
    mkD 11 3 .ORDERING, mkD 11 4 .WORK, mkD 11 5 .WORK, mkD 11 6 .REST, mkD 11 7 .REST,
    mkD 11 8 .ORDERING, mkD 11 9 .WORK, mkD 11 10 .WORK, mkD 11 11 .REST, mkD 11 12 .REST,
    mkD 11 13 .ORDERING, mkD 11 14 .WORK, mkD 11 15 .WORK, mkD 11 16 .WORK, mkD 11 17 .WORK,
    mkD 11 18 .REST, mkD 11 19 .REST],
  [47, 46, 45, 44, 43, 42, 41, 40, 39, 38, 37, 36, 35, 34, 33, 32, 31, 30, 29, 28, 27, 26, 25, 24, 23, 22, 21, 20, 19, 18, 17, 16, 15, 14, 13, 12, 11, 10, 9, 8, 7, 6, 5, 4, 3, 2, 1], [11, 10, 9, 8, 7, 6, 5, 4, 3, 2, 1]⟩

/-- Builder state of iteration 47 after its work block. -/
def bmid47 : ScheduleState := ⟨⟨2025, 11, 27⟩,
  [mkD 1 1 .WORK, mkD 1 2 .WORK, mkD 1 3 .WORK, mkD 1 4 .REST, mkD 1 5 .REST, mkD 1 6 .ORDERING,
    mkD 1 8 .WORK, mkD 1 9 .WORK, mkD 1 10 .REST, mkD 1 11 .REST, mkD 1 12 .ORDERING,
    mkD 1 13 .WORK, mkD 1 14 .WORK, mkD 1 15 .REST, mkD 1 16 .REST, mkD 1 17 .ORDERING,
    mkD 1 18 .WORK, mkD 1 19 .WORK, mkD 1 20 .WORK, mkD 1 21 .WORK, mkD 1 22 .WORK,
    mkD 1 23 .REST, mkD 1 24 .REST, mkD 1 25 .ORDERING, mkD 1 26 .WORK, mkD 1 27 .WORK,
    mkD 1 28 .WORK, mkD 1 29 .WORK, mkD 1 30 .WORK, mkD 1 31 .WORK, mkD 2 1 .REST, mkD 2 2 .REST,
    mkD 2 3 .ORDERING, mkD 2 4 .WORK, mkD 2 5 .WORK, mkD 2 6 .REST, mkD 2 7 .REST,
    mkD 2 8 .ORDERING, mkD 2 9 .WORK, mkD 2 10 .WORK, mkD 2 11 .REST, mkD 2 12 .REST,
    mkD 2 13 .ORDERING, mkD 2 14 .WORK, mkD 2 15 .WORK, mkD 2 16 .WORK, mkD 2 17 .WORK,
    mkD 2 18 .WORK, mkD 2 19 .WORK, mkD 2 20 .REST, mkD 2 21 .REST, mkD 2 22 .ORDERING,
    mkD 2 23 .WORK, mkD 2 24 .WORK, mkD 2 25 .WORK, mkD 2 26 .WORK, mkD 2 27 .WORK,
    mkD 2 28 .WORK, mkD 3 1 .REST, mkD 3 2 .REST, mkD 3 3 .ORDERING, mkD 3 4 .WORK, mkD 3 5 .WORK,
    mkD 3 6 .REST, mkD 3 7 .REST, mkD 3 8 .ORDERING, mkD 3 9 .WORK, mkD 3 10 .WORK,
    mkD 3 11 .REST, mkD 3 12 .REST, mkD 3 13 .ORDERING, mkD 3 14 .WORK, mkD 3 15 .WORK,
    mkD 3 16 .WORK, mkD 3 17 .WORK, mkD 3 18 .REST, mkD 3 19 .REST, mkD 3 20 .ORDERING,
    mkD 3 21 .WORK, mkD 3 22 .WORK, mkD 3 23 .WORK, mkD 3 24 .WORK, mkD 3 25 .WORK,
    mkD 3 26 .WORK, mkD 3 27 .REST, mkD 3 28 .REST, mkD 3 29 .ORDERING, mkD 3 30 .WORK,
    mkD 3 31 .WORK, mkD 4 1 .WORK, mkD 4 2 .WORK, mkD 4 3 .WORK, mkD 4 4 .WORK, mkD 4 5 .REST,
    mkD 4 6 .REST, mkD 4 7 .ORDERING, mkD 4 8 .WORK, mkD 4 9 .WORK, mkD 4 10 .REST,
    mkD 4 11 .REST, mkD 4 12 .ORDERING, mkD 4 13 .WORK, mkD 4 14 .WORK, mkD 4 15 .REST,
    mkD 4 16 .REST, mkD 4 17 .ORDERING, mkD 4 18 .WORK, mkD 4 19 .WORK, mkD 4 20 .WORK,
    mkD 4 21 .WORK, mkD 4 22 .WORK, mkD 4 23 .WORK, mkD 4 24 .REST, mkD 4 25 .REST,
    mkD 4 26 .ORDERING, mkD 4 27 .WORK, mkD 4 28 .WORK, mkD 4 29 .WORK, mkD 4 30 .WORK,
    mkD 5 1 .WORK, mkD 5 2 .WORK, mkD 5 3 .REST, mkD 5 4 .REST, mkD 5 5 .ORDERING, mkD 5 6 .WORK,
    mkD 5 7 .WORK, mkD 5 8 .REST, mkD 5 9 .REST, mkD 5 10 .ORDERING, mkD 5 11 .WORK,
    mkD 5 12 .WORK, mkD 5 13 .REST, mkD 5 14 .REST, mkD 5 15 .ORDERING, mkD 5 16 .WORK,
    mkD 5 17 .WORK, mkD 5 18 .WORK, mkD 5 19 .WORK, mkD 5 20 .REST, mkD 5 21 .REST,
    mkD 5 22 .ORDERING, mkD 5 23 .WORK, mkD 5 24 .WORK, mkD 5 25 .WORK, mkD 5 26 .WORK,
    mkD 5 27 .WORK, mkD 5 28 .WORK, mkD 5 29 .REST, mkD 5 30 .REST, mkD 5 31 .ORDERING,
    mkD 6 1 .WORK, mkD 6 2 .WORK, mkD 6 3 .WORK, mkD 6 4 .WORK, mkD 6 5 .WORK, mkD 6 6 .WORK,
    mkD 6 7 .REST, mkD 6 8 .REST, mkD 6 9 .ORDERING, mkD 6 10 .WORK, mkD 6 11 .WORK,
    mkD 6 12 .REST, mkD 6 13 .REST, mkD 6 14 .ORDERING, mkD 6 15 .WORK, mkD 6 16 .WORK,
    mkD 6 17 .REST, mkD 6 18 .REST, mkD 6 19 .ORDERING, mkD 6 20 .WORK, mkD 6 21 .WORK,
    mkD 6 22 .WORK, mkD 6 23 .WORK, mkD 6 24 .WORK, mkD 6 25 .WORK, mkD 6 26 .REST,
    mkD 6 27 .REST, mkD 6 28 .ORDERING, mkD 6 29 .WORK, mkD 6 30 .WORK, mkD 7 1 .WORK,
    mkD 7 2 .WORK, mkD 7 3 .WORK, mkD 7 4 .WORK, mkD 7 5 .REST, mkD 7 6 .REST, mkD 7 7 .ORDERING,
    mkD 7 8 .WORK, mkD 7 9 .WORK, mkD 7 10 .REST, mkD 7 11 .REST, mkD 7 12 .ORDERING,
    mkD 7 13 .WORK, mkD 7 14 .WORK, mkD 7 15 .REST, mkD 7 16 .REST, mkD 7 17 .ORDERING,
    mkD 7 18 .WORK, mkD 7 19 .WORK, mkD 7 20 .WORK, mkD 7 21 .WORK, mkD 7 22 .WORK,
    mkD 7 23 .WORK, mkD 7 24 .REST, mkD 7 25 .REST, mkD 7 26 .ORDERING, mkD 7 27 .WORK,
    mkD 7 28 .WORK, mkD 7 29 .WORK, mkD 7 30 .WORK, mkD 7 31 .WORK, mkD 8 1 .WORK, mkD 8 2 .REST,
    mkD 8 3 .REST, mkD 8 4 .ORDERING, mkD 8 5 .WORK, mkD 8 6 .WORK, mkD 8 7 .REST, mkD 8 8 .REST,
    mkD 8 9 .ORDERING, mkD 8 10 .WORK, mkD 8 11 .WORK, mkD 8 12 .REST, mkD 8 13 .REST,
    mkD 8 14 .ORDERING, mkD 8 15 .WORK, mkD 8 16 .WORK, mkD 8 17 .WORK, mkD 8 18 .WORK,
    mkD 8 19 .REST, mkD 8 20 .REST, mkD 8 21 .ORDERING, mkD 8 22 .WORK, mkD 8 23 .WORK,
    mkD 8 24 .WORK, mkD 8 25 .WORK, mkD 8 26 .WORK, mkD 8 27 .WORK, mkD 8 28 .REST,
    mkD 8 29 .REST, mkD 8 30 .ORDERING, mkD 8 31 .WORK, mkD 9 1 .WORK, mkD 9 2 .WORK,
    mkD 9 3 .WORK, mkD 9 4 .WORK, mkD 9 5 .WORK, mkD 9 6 .REST, mkD 9 7 .REST, mkD 9 8 .ORDERING,
    mkD 9 9 .WORK, mkD 9 10 .WORK, mkD 9 11 .REST, mkD 9 12 .REST, mkD 9 13 .ORDERING,
    mkD 9 14 .WORK, mkD 9 15 .WORK, mkD 9 16 .REST, mkD 9 17 .REST, mkD 9 18 .ORDERING,
    mkD 9 19 .WORK, mkD 9 20 .WORK, mkD 9 21 .WORK, mkD 9 22 .WORK, mkD 9 23 .WORK,
    mkD 9 24 .WORK, mkD 9 25 .REST, mkD 9 26 .REST, mkD 9 27 .ORDERING, mkD 9 28 .WORK,
    mkD 9 29 .WORK, mkD 9 30 .WORK, mkD 10 1 .WORK, mkD 10 2 .WORK, mkD 10 3 .WORK,
    mkD 10 4 .REST, mkD 10 5 .REST, mkD 10 6 .ORDERING, mkD 10 7 .WORK, mkD 10 8 .WORK,
    mkD 10 9 .REST, mkD 10 10 .REST, mkD 10 11 .ORDERING, mkD 10 12 .WORK, mkD 10 13 .WORK,
    mkD 10 14 .REST, mkD 10 15 .REST, mkD 10 16 .ORDERING, mkD 10 17 .WORK, mkD 10 18 .WORK,
    mkD 10 19 .WORK, mkD 10 20 .WORK, mkD 10 21 .WORK, mkD 10 22 .WORK, mkD 10 23 .REST,
    mkD 10 24 .REST, mkD 10 25 .ORDERING, mkD 10 26 .WORK, mkD 10 27 .WORK, mkD 10 28 .WORK,
    mkD 10 29 .WORK, mkD 10 30 .WORK, mkD 10 31 .WORK, mkD 11 1 .REST, mkD 11 2 .REST,
    mkD 11 3 .ORDERING, mkD 11 4 .WORK, mkD 11 5 .WORK, mkD 11 6 .REST, mkD 11 7 .REST,
    mkD 11 8 .ORDERING, mkD 11 9 .WORK, mkD 11 10 .WORK, mkD 11 11 .REST, mkD 11 12 .REST,
    mkD 11 13 .ORDERING, mkD 11 14 .WORK, mkD 11 15 .WORK, mkD 11 16 .WORK, mkD 11 17 .WORK,
    mkD 11 18 .REST, mkD 11 19 .REST, mkD 11 20 .ORDERING, mkD 11 21 .WORK, mkD 11 22 .WORK,
    mkD 11 23 .WORK, mkD 11 24 .WORK, mkD 11 25 .WORK, mkD 11 26 .WORK],
  [47, 46, 45, 44, 43, 42, 41, 40, 39, 38, 37, 36, 35, 34, 33, 32, 31, 30, 29, 28, 27, 26, 25, 24, 23, 22, 21, 20, 19, 18, 17, 16, 15, 14, 13, 12, 11, 10, 9, 8, 7, 6, 5, 4, 3, 2, 1], [11, 10, 9, 8, 7, 6, 5, 4, 3, 2, 1]⟩

/-- Builder state of the witness run before iteration 48. -/
def bst48 : ScheduleState := ⟨⟨2025, 11, 29⟩,
  [mkD 1 1 .WORK, mkD 1 2 .WORK, mkD 1 3 .WORK, mkD 1 4 .REST, mkD 1 5 .REST, mkD 1 6 .ORDERING,
    mkD 1 8 .WORK, mkD 1 9 .WORK, mkD 1 10 .REST, mkD 1 11 .REST, mkD 1 12 .ORDERING,
    mkD 1 13 .WORK, mkD 1 14 .WORK, mkD 1 15 .REST, mkD 1 16 .REST, mkD 1 17 .ORDERING,
    mkD 1 18 .WORK, mkD 1 19 .WORK, mkD 1 20 .WORK, mkD 1 21 .WORK, mkD 1 22 .WORK,
    mkD 1 23 .REST, mkD 1 24 .REST, mkD 1 25 .ORDERING, mkD 1 26 .WORK, mkD 1 27 .WORK,
    mkD 1 28 .WORK, mkD 1 29 .WORK, mkD 1 30 .WORK, mkD 1 31 .WORK, mkD 2 1 .REST, mkD 2 2 .REST,
    mkD 2 3 .ORDERING, mkD 2 4 .WORK, mkD 2 5 .WORK, mkD 2 6 .REST, mkD 2 7 .REST,
    mkD 2 8 .ORDERING, mkD 2 9 .WORK, mkD 2 10 .WORK, mkD 2 11 .REST, mkD 2 12 .REST,
    mkD 2 13 .ORDERING, mkD 2 14 .WORK, mkD 2 15 .WORK, mkD 2 16 .WORK, mkD 2 17 .WORK,
    mkD 2 18 .WORK, mkD 2 19 .WORK, mkD 2 20 .REST, mkD 2 21 .REST, mkD 2 22 .ORDERING,
    mkD 2 23 .WORK, mkD 2 24 .WORK, mkD 2 25 .WORK, mkD 2 26 .WORK, mkD 2 27 .WORK,
    mkD 2 28 .WORK, mkD 3 1 .REST, mkD 3 2 .REST, mkD 3 3 .ORDERING, mkD 3 4 .WORK, mkD 3 5 .WORK,
    mkD 3 6 .REST, mkD 3 7 .REST, mkD 3 8 .ORDERING, mkD 3 9 .WORK, mkD 3 10 .WORK,
    mkD 3 11 .REST, mkD 3 12 .REST, mkD 3 13 .ORDERING, mkD 3 14 .WORK, mkD 3 15 .WORK,
    mkD 3 16 .WORK, mkD 3 17 .WORK, mkD 3 18 .REST, mkD 3 19 .REST, mkD 3 20 .ORDERING,
    mkD 3 21 .WORK, mkD 3 22 .WORK, mkD 3 23 .WORK, mkD 3 24 .WORK, mkD 3 25 .WORK,
    mkD 3 26 .WORK, mkD 3 27 .REST, mkD 3 28 .REST, mkD 3 29 .ORDERING, mkD 3 30 .WORK,
    mkD 3 31 .WORK, mkD 4 1 .WORK, mkD 4 2 .WORK, mkD 4 3 .WORK, mkD 4 4 .WORK, mkD 4 5 .REST,
    mkD 4 6 .REST, mkD 4 7 .ORDERING, mkD 4 8 .WORK, mkD 4 9 .WORK, mkD 4 10 .REST,
    mkD 4 11 .REST, mkD 4 12 .ORDERING, mkD 4 13 .WORK, mkD 4 14 .WORK, mkD 4 15 .REST,
    mkD 4 16 .REST, mkD 4 17 .ORDERING, mkD 4 18 .WORK, mkD 4 19 .WORK, mkD 4 20 .WORK,
    mkD 4 21 .WORK, mkD 4 22 .WORK, mkD 4 23 .WORK, mkD 4 24 .REST, mkD 4 25 .REST,
    mkD 4 26 .ORDERING, mkD 4 27 .WORK, mkD 4 28 .WORK, mkD 4 29 .WORK, mkD 4 30 .WORK,
    mkD 5 1 .WORK, mkD 5 2 .WORK, mkD 5 3 .REST, mkD 5 4 .REST, mkD 5 5 .ORDERING, mkD 5 6 .WORK,
    mkD 5 7 .WORK, mkD 5 8 .REST, mkD 5 9 .REST, mkD 5 10 .ORDERING, mkD 5 11 .WORK,
    mkD 5 12 .WORK, mkD 5 13 .REST, mkD 5 14 .REST, mkD 5 15 .ORDERING, mkD 5 16 .WORK,
    mkD 5 17 .WORK, mkD 5 18 .WORK, mkD 5 19 .WORK, mkD 5 20 .REST, mkD 5 21 .REST,
    mkD 5 22 .ORDERING, mkD 5 23 .WORK, mkD 5 24 .WORK, mkD 5 25 .WORK, mkD 5 26 .WORK,
    mkD 5 27 .WORK, mkD 5 28 .WORK, mkD 5 29 .REST, mkD 5 30 .REST, mkD 5 31 .ORDERING,
    mkD 6 1 .WORK, mkD 6 2 .WORK, mkD 6 3 .WORK, mkD 6 4 .WORK, mkD 6 5 .WORK, mkD 6 6 .WORK,
    mkD 6 7 .REST, mkD 6 8 .REST, mkD 6 9 .ORDERING, mkD 6 10 .WORK, mkD 6 11 .WORK,
    mkD 6 12 .REST, mkD 6 13 .REST, mkD 6 14 .ORDERING, mkD 6 15 .WORK, mkD 6 16 .WORK,
    mkD 6 17 .REST, mkD 6 18 .REST, mkD 6 19 .ORDERING, mkD 6 20 .WORK, mkD 6 21 .WORK,
    mkD 6 22 .WORK, mkD 6 23 .WORK, mkD 6 24 .WORK, mkD 6 25 .WORK, mkD 6 26 .REST,
    mkD 6 27 .REST, mkD 6 28 .ORDERING, mkD 6 29 .WORK, mkD 6 30 .WORK, mkD 7 1 .WORK,
    mkD 7 2 .WORK, mkD 7 3 .WORK, mkD 7 4 .WORK, mkD 7 5 .REST, mkD 7 6 .REST, mkD 7 7 .ORDERING,
    mkD 7 8 .WORK, mkD 7 9 .WORK, mkD 7 10 .REST, mkD 7 11 .REST, mkD 7 12 .ORDERING,
    mkD 7 13 .WORK, mkD 7 14 .WORK, mkD 7 15 .REST, mkD 7 16 .REST, mkD 7 17 .ORDERING,
    mkD 7 18 .WORK, mkD 7 19 .WORK, mkD 7 20 .WORK, mkD 7 21 .WORK, mkD 7 22 .WORK,
    mkD 7 23 .WORK, mkD 7 24 .REST, mkD 7 25 .REST, mkD 7 26 .ORDERING, mkD 7 27 .WORK,
    mkD 7 28 .WORK, mkD 7 29 .WORK, mkD 7 30 .WORK, mkD 7 31 .WORK, mkD 8 1 .WORK, mkD 8 2 .REST,
    mkD 8 3 .REST, mkD 8 4 .ORDERING, mkD 8 5 .WORK, mkD 8 6 .WORK, mkD 8 7 .REST, mkD 8 8 .REST,
    mkD 8 9 .ORDERING, mkD 8 10 .WORK, mkD 8 11 .WORK, mkD 8 12 .REST, mkD 8 13 .REST,
    mkD 8 14 .ORDERING, mkD 8 15 .WORK, mkD 8 16 .WORK, mkD 8 17 .WORK, mkD 8 18 .WORK,
    mkD 8 19 .REST, mkD 8 20 .REST, mkD 8 21 .ORDERING, mkD 8 22 .WORK, mkD 8 23 .WORK,
    mkD 8 24 .WORK, mkD 8 25 .WORK, mkD 8 26 .WORK, mkD 8 27 .WORK, mkD 8 28 .REST,
    mkD 8 29 .REST, mkD 8 30 .ORDERING, mkD 8 31 .WORK, mkD 9 1 .WORK, mkD 9 2 .WORK,
    mkD 9 3 .WORK, mkD 9 4 .WORK, mkD 9 5 .WORK, mkD 9 6 .REST, mkD 9 7 .REST, mkD 9 8 .ORDERING,
    mkD 9 9 .WORK, mkD 9 10 .WORK, mkD 9 11 .REST, mkD 9 12 .REST, mkD 9 13 .ORDERING,
    mkD 9 14 .WORK, mkD 9 15 .WORK, mkD 9 16 .REST, mkD 9 17 .REST, mkD 9 18 .ORDERING,
    mkD 9 19 .WORK, mkD 9 20 .WORK, mkD 9 21 .WORK, mkD 9 22 .WORK, mkD 9 23 .WORK,
    mkD 9 24 .WORK, mkD 9 25 .REST, mkD 9 26 .REST, mkD 9 27 .ORDERING, mkD 9 28 .WORK,
    mkD 9 29 .WORK, mkD 9 30 .WORK, mkD 10 1 .WORK, mkD 10 2 .WORK, mkD 10 3 .WORK,
    mkD 10 4 .REST, mkD 10 5 .REST, mkD 10 6 .ORDERING, mkD 10 7 .WORK, mkD 10 8 .WORK,
    mkD 10 9 .REST, mkD 10 10 .REST, mkD 10 11 .ORDERING, mkD 10 12 .WORK, mkD 10 13 .WORK,
    mkD 10 14 .REST, mkD 10 15 .REST, mkD 10 16 .ORDERING, mkD 10 17 .WORK, mkD 10 18 .WORK,
    mkD 10 19 .WORK, mkD 10 20 .WORK, mkD 10 21 .WORK, mkD 10 22 .WORK, mkD 10 23 .REST,
    mkD 10 24 .REST, mkD 10 25 .ORDERING, mkD 10 26 .WORK, mkD 10 27 .WORK, mkD 10 28 .WORK,
    mkD 10 29 .WORK, mkD 10 30 .WORK, mkD 10 31 .WORK, mkD 11 1 .REST, mkD 11 2 .REST,
    mkD 11 3 .ORDERING, mkD 11 4 .WORK, mkD 11 5 .WORK, mkD 11 6 .REST, mkD 11 7 .REST,
    mkD 11 8 .ORDERING, mkD 11 9 .WORK, mkD 11 10 .WORK, mkD 11 11 .REST, mkD 11 12 .REST,
    mkD 11 13 .ORDERING, mkD 11 14 .WORK, mkD 11 15 .WORK, mkD 11 16 .WORK, mkD 11 17 .WORK,
    mkD 11 18 .REST, mkD 11 19 .REST, mkD 11 20 .ORDERING, mkD 11 21 .WORK, mkD 11 22 .WORK,
    mkD 11 23 .WORK, mkD 11 24 .WORK, mkD 11 25 .WORK, mkD 11 26 .WORK, mkD 11 27 .REST,
    mkD 11 28 .REST],
  [48, 47, 46, 45, 44, 43, 42, 41, 40, 39, 38, 37, 36, 35, 34, 33, 32, 31, 30, 29, 28, 27, 26, 25, 24, 23, 22, 21, 20, 19, 18, 17, 16, 15, 14, 13, 12, 11, 10, 9, 8, 7, 6, 5, 4, 3, 2, 1], [11, 10, 9, 8, 7, 6, 5, 4, 3, 2, 1]⟩

/-- Builder state of iteration 48 after its work block. -/
def bmid48 : ScheduleState := ⟨⟨2025, 12, 6⟩,
  [mkD 1 1 .WORK, mkD 1 2 .WORK, mkD 1 3 .WORK, mkD 1 4 .REST, mkD 1 5 .REST, mkD 1 6 .ORDERING,
    mkD 1 8 .WORK, mkD 1 9 .WORK, mkD 1 10 .REST, mkD 1 11 .REST, mkD 1 12 .ORDERING,
    mkD 1 13 .WORK, mkD 1 14 .WORK, mkD 1 15 .REST, mkD 1 16 .REST, mkD 1 17 .ORDERING,
    mkD 1 18 .WORK, mkD 1 19 .WORK, mkD 1 20 .WORK, mkD 1 21 .WORK, mkD 1 22 .WORK,
    mkD 1 23 .REST, mkD 1 24 .REST, mkD 1 25 .ORDERING, mkD 1 26 .WORK, mkD 1 27 .WORK,
    mkD 1 28 .WORK, mkD 1 29 .WORK, mkD 1 30 .WORK, mkD 1 31 .WORK, mkD 2 1 .REST, mkD 2 2 .REST,
    mkD 2 3 .ORDERING, mkD 2 4 .WORK, mkD 2 5 .WORK, mkD 2 6 .REST, mkD 2 7 .REST,
    mkD 2 8 .ORDERING, mkD 2 9 .WORK, mkD 2 10 .WORK, mkD 2 11 .REST, mkD 2 12 .REST,
    mkD 2 13 .ORDERING, mkD 2 14 .WORK, mkD 2 15 .WORK, mkD 2 16 .WORK, mkD 2 17 .WORK,
    mkD 2 18 .WORK, mkD 2 19 .WORK, mkD 2 20 .REST, mkD 2 21 .REST, mkD 2 22 .ORDERING,
    mkD 2 23 .WORK, mkD 2 24 .WORK, mkD 2 25 .WORK, mkD 2 26 .WORK, mkD 2 27 .WORK,
    mkD 2 28 .WORK, mkD 3 1 .REST, mkD 3 2 .REST, mkD 3 3 .ORDERING, mkD 3 4 .WORK, mkD 3 5 .WORK,
    mkD 3 6 .REST, mkD 3 7 .REST, mkD 3 8 .ORDERING, mkD 3 9 .WORK, mkD 3 10 .WORK,
    mkD 3 11 .REST, mkD 3 12 .REST, mkD 3 13 .ORDERING, mkD 3 14 .WORK, mkD 3 15 .WORK,
    mkD 3 16 .WORK, mkD 3 17 .WORK, mkD 3 18 .REST, mkD 3 19 .REST, mkD 3 20 .ORDERING,
    mkD 3 21 .WORK, mkD 3 22 .WORK, mkD 3 23 .WORK, mkD 3 24 .WORK, mkD 3 25 .WORK,
    mkD 3 26 .WORK, mkD 3 27 .REST, mkD 3 28 .REST, mkD 3 29 .ORDERING, mkD 3 30 .WORK,
    mkD 3 31 .WORK, mkD 4 1 .WORK, mkD 4 2 .WORK, mkD 4 3 .WORK, mkD 4 4 .WORK, mkD 4 5 .REST,
    mkD 4 6 .REST, mkD 4 7 .ORDERING, mkD 4 8 .WORK, mkD 4 9 .WORK, mkD 4 10 .REST,
    mkD 4 11 .REST, mkD 4 12 .ORDERING, mkD 4 13 .WORK, mkD 4 14 .WORK, mkD 4 15 .REST,
    mkD 4 16 .REST, mkD 4 17 .ORDERING, mkD 4 18 .WORK, mkD 4 19 .WORK, mkD 4 20 .WORK,
    mkD 4 21 .WORK, mkD 4 22 .WORK, mkD 4 23 .WORK, mkD 4 24 .REST, mkD 4 25 .REST,
    mkD 4 26 .ORDERING, mkD 4 27 .WORK, mkD 4 28 .WORK, mkD 4 29 .WORK, mkD 4 30 .WORK,
    mkD 5 1 .WORK, mkD 5 2 .WORK, mkD 5 3 .REST, mkD 5 4 .REST, mkD 5 5 .ORDERING, mkD 5 6 .WORK,
    mkD 5 7 .WORK, mkD 5 8 .REST, mkD 5 9 .REST, mkD 5 10 .ORDERING, mkD 5 11 .WORK,
    mkD 5 12 .WORK, mkD 5 13 .REST, mkD 5 14 .REST, mkD 5 15 .ORDERING, mkD 5 16 .WORK,
    mkD 5 17 .WORK, mkD 5 18 .WORK, mkD 5 19 .WORK, mkD 5 20 .REST, mkD 5 21 .REST,
    mkD 5 22 .ORDERING, mkD 5 23 .WORK, mkD 5 24 .WORK, mkD 5 25 .WORK, mkD 5 26 .WORK,
    mkD 5 27 .WORK, mkD 5 28 .WORK, mkD 5 29 .REST, mkD 5 30 .REST, mkD 5 31 .ORDERING,
    mkD 6 1 .WORK, mkD 6 2 .WORK, mkD 6 3 .WORK, mkD 6 4 .WORK, mkD 6 5 .WORK, mkD 6 6 .WORK,
    mkD 6 7 .REST, mkD 6 8 .REST, mkD 6 9 .ORDERING, mkD 6 10 .WORK, mkD 6 11 .WORK,
    mkD 6 12 .REST, mkD 6 13 .REST, mkD 6 14 .ORDERING, mkD 6 15 .WORK, mkD 6 16 .WORK,
    mkD 6 17 .REST, mkD 6 18 .REST, mkD 6 19 .ORDERING, mkD 6 20 .WORK, mkD 6 21 .WORK,
    mkD 6 22 .WORK, mkD 6 23 .WORK, mkD 6 24 .WORK, mkD 6 25 .WORK, mkD 6 26 .REST,
    mkD 6 27 .REST, mkD 6 28 .ORDERING, mkD 6 29 .WORK, mkD 6 30 .WORK, mkD 7 1 .WORK,
    mkD 7 2 .WORK, mkD 7 3 .WORK, mkD 7 4 .WORK, mkD 7 5 .REST, mkD 7 6 .REST, mkD 7 7 .ORDERING,
    mkD 7 8 .WORK, mkD 7 9 .WORK, mkD 7 10 .REST, mkD 7 11 .REST, mkD 7 12 .ORDERING,
    mkD 7 13 .WORK, mkD 7 14 .WORK, mkD 7 15 .REST, mkD 7 16 .REST, mkD 7 17 .ORDERING,
    mkD 7 18 .WORK, mkD 7 19 .WORK, mkD 7 20 .WORK, mkD 7 21 .WORK, mkD 7 22 .WORK,
    mkD 7 23 .WORK, mkD 7 24 .REST, mkD 7 25 .REST, mkD 7 26 .ORDERING, mkD 7 27 .WORK,
    mkD 7 28 .WORK, mkD 7 29 .WORK, mkD 7 30 .WORK, mkD 7 31 .WORK, mkD 8 1 .WORK, mkD 8 2 .REST,
    mkD 8 3 .REST, mkD 8 4 .ORDERING, mkD 8 5 .WORK, mkD 8 6 .WORK, mkD 8 7 .REST, mkD 8 8 .REST,
    mkD 8 9 .ORDERING, mkD 8 10 .WORK, mkD 8 11 .WORK, mkD 8 12 .REST, mkD 8 13 .REST,
    mkD 8 14 .ORDERING, mkD 8 15 .WORK, mkD 8 16 .WORK, mkD 8 17 .WORK, mkD 8 18 .WORK,
    mkD 8 19 .REST, mkD 8 20 .REST, mkD 8 21 .ORDERING, mkD 8 22 .WORK, mkD 8 23 .WORK,
    mkD 8 24 .WORK, mkD 8 25 .WORK, mkD 8 26 .WORK, mkD 8 27 .WORK, mkD 8 28 .REST,
    mkD 8 29 .REST, mkD 8 30 .ORDERING, mkD 8 31 .WORK, mkD 9 1 .WORK, mkD 9 2 .WORK,
    mkD 9 3 .WORK, mkD 9 4 .WORK, mkD 9 5 .WORK, mkD 9 6 .REST, mkD 9 7 .REST, mkD 9 8 .ORDERING,
    mkD 9 9 .WORK, mkD 9 10 .WORK, mkD 9 11 .REST, mkD 9 12 .REST, mkD 9 13 .ORDERING,
    mkD 9 14 .WORK, mkD 9 15 .WORK, mkD 9 16 .REST, mkD 9 17 .REST, mkD 9 18 .ORDERING,
    mkD 9 19 .WORK, mkD 9 20 .WORK, mkD 9 21 .WORK, mkD 9 22 .WORK, mkD 9 23 .WORK,
    mkD 9 24 .WORK, mkD 9 25 .REST, mkD 9 26 .REST, mkD 9 27 .ORDERING, mkD 9 28 .WORK,
    mkD 9 29 .WORK, mkD 9 30 .WORK, mkD 10 1 .WORK, mkD 10 2 .WORK, mkD 10 3 .WORK,
    mkD 10 4 .REST, mkD 10 5 .REST, mkD 10 6 .ORDERING, mkD 10 7 .WORK, mkD 10 8 .WORK,
    mkD 10 9 .REST, mkD 10 10 .REST, mkD 10 11 .ORDERING, mkD 10 12 .WORK, mkD 10 13 .WORK,
    mkD 10 14 .REST, mkD 10 15 .REST, mkD 10 16 .ORDERING, mkD 10 17 .WORK, mkD 10 18 .WORK,
    mkD 10 19 .WORK, mkD 10 20 .WORK, mkD 10 21 .WORK, mkD 10 22 .WORK, mkD 10 23 .REST,
    mkD 10 24 .REST, mkD 10 25 .ORDERING, mkD 10 26 .WORK, mkD 10 27 .WORK, mkD 10 28 .WORK,
    mkD 10 29 .WORK, mkD 10 30 .WORK, mkD 10 31 .WORK, mkD 11 1 .REST, mkD 11 2 .REST,
    mkD 11 3 .ORDERING, mkD 11 4 .WORK, mkD 11 5 .WORK, mkD 11 6 .REST, mkD 11 7 .REST,
    mkD 11 8 .ORDERING, mkD 11 9 .WORK, mkD 11 10 .WORK, mkD 11 11 .REST, mkD 11 12 .REST,
    mkD 11 13 .ORDERING, mkD 11 14 .WORK, mkD 11 15 .WORK, mkD 11 16 .WORK, mkD 11 17 .WORK,
    mkD 11 18 .REST, mkD 11 19 .REST, mkD 11 20 .ORDERING, mkD 11 21 .WORK, mkD 11 22 .WORK,
    mkD 11 23 .WORK, mkD 11 24 .WORK, mkD 11 25 .WORK, mkD 11 26 .WORK, mkD 11 27 .REST,
    mkD 11 28 .REST, mkD 11 29 .ORDERING, mkD 11 30 .WORK, mkD 12 1 .WORK, mkD 12 2 .WORK,
    mkD 12 3 .WORK, mkD 12 4 .WORK, mkD 12 5 .WORK],
  [48, 47, 46, 45, 44, 43, 42, 41, 40, 39, 38, 37, 36, 35, 34, 33, 32, 31, 30, 29, 28, 27, 26, 25, 24, 23, 22, 21, 20, 19, 18, 17, 16, 15, 14, 13, 12, 11, 10, 9, 8, 7, 6, 5, 4, 3, 2, 1], [11, 10, 9, 8, 7, 6, 5, 4, 3, 2, 1]⟩

/-- Builder state of the witness run before iteration 49. -/
def bst49 : ScheduleState := ⟨⟨2025, 12, 8⟩,
  [mkD 1 1 .WORK, mkD 1 2 .WORK, mkD 1 3 .WORK, mkD 1 4 .REST, mkD 1 5 .REST, mkD 1 6 .ORDERING,
    mkD 1 8 .WORK, mkD 1 9 .WORK, mkD 1 10 .REST, mkD 1 11 .REST, mkD 1 12 .ORDERING,
    mkD 1 13 .WORK, mkD 1 14 .WORK, mkD 1 15 .REST, mkD 1 16 .REST, mkD 1 17 .ORDERING,
    mkD 1 18 .WORK, mkD 1 19 .WORK, mkD 1 20 .WORK, mkD 1 21 .WORK, mkD 1 22 .WORK,
    mkD 1 23 .REST, mkD 1 24 .REST, mkD 1 25 .ORDERING, mkD 1 26 .WORK, mkD 1 27 .WORK,
    mkD 1 28 .WORK, mkD 1 29 .WORK, mkD 1 30 .WORK, mkD 1 31 .WORK, mkD 2 1 .REST, mkD 2 2 .REST,
    mkD 2 3 .ORDERING, mkD 2 4 .WORK, mkD 2 5 .WORK, mkD 2 6 .REST, mkD 2 7 .REST,
    mkD 2 8 .ORDERING, mkD 2 9 .WORK, mkD 2 10 .WORK, mkD 2 11 .REST, mkD 2 12 .REST,
    mkD 2 13 .ORDERING, mkD 2 14 .WORK, mkD 2 15 .WORK, mkD 2 16 .WORK, mkD 2 17 .WORK,
    mkD 2 18 .WORK, mkD 2 19 .WORK, mkD 2 20 .REST, mkD 2 21 .REST, mkD 2 22 .ORDERING,
    mkD 2 23 .WORK, mkD 2 24 .WORK, mkD 2 25 .WORK, mkD 2 26 .WORK, mkD 2 27 .WORK,
    mkD 2 28 .WORK, mkD 3 1 .REST, mkD 3 2 .REST, mkD 3 3 .ORDERING, mkD 3 4 .WORK, mkD 3 5 .WORK,
    mkD 3 6 .REST, mkD 3 7 .REST, mkD 3 8 .ORDERING, mkD 3 9 .WORK, mkD 3 10 .WORK,
    mkD 3 11 .REST, mkD 3 12 .REST, mkD 3 13 .ORDERING, mkD 3 14 .WORK, mkD 3 15 .WORK,
    mkD 3 16 .WORK, mkD 3 17 .WORK, mkD 3 18 .REST, mkD 3 19 .REST, mkD 3 20 .ORDERING,
    mkD 3 21 .WORK, mkD 3 22 .WORK, mkD 3 23 .WORK, mkD 3 24 .WORK, mkD 3 25 .WORK,
    mkD 3 26 .WORK, mkD 3 27 .REST, mkD 3 28 .REST, mkD 3 29 .ORDERING, mkD 3 30 .WORK,
    mkD 3 31 .WORK, mkD 4 1 .WORK, mkD 4 2 .WORK, mkD 4 3 .WORK, mkD 4 4 .WORK, mkD 4 5 .REST,
    mkD 4 6 .REST, mkD 4 7 .ORDERING, mkD 4 8 .WORK, mkD 4 9 .WORK, mkD 4 10 .REST,
    mkD 4 11 .REST, mkD 4 12 .ORDERING, mkD 4 13 .WORK, mkD 4 14 .WORK, mkD 4 15 .REST,
    mkD 4 16 .REST, mkD 4 17 .ORDERING, mkD 4 18 .WORK, mkD 4 19 .WORK, mkD 4 20 .WORK,
    mkD 4 21 .WORK, mkD 4 22 .WORK, mkD 4 23 .WORK, mkD 4 24 .REST, mkD 4 25 .REST,
    mkD 4 26 .ORDERING, mkD 4 27 .WORK, mkD 4 28 .WORK, mkD 4 29 .WORK, mkD 4 30 .WORK,
    mkD 5 1 .WORK, mkD 5 2 .WORK, mkD 5 3 .REST, mkD 5 4 .REST, mkD 5 5 .ORDERING, mkD 5 6 .WORK,
    mkD 5 7 .WORK, mkD 5 8 .REST, mkD 5 9 .REST, mkD 5 10 .ORDERING, mkD 5 11 .WORK,
    mkD 5 12 .WORK, mkD 5 13 .REST, mkD 5 14 .REST, mkD 5 15 .ORDERING, mkD 5 16 .WORK,
    mkD 5 17 .WORK, mkD 5 18 .WORK, mkD 5 19 .WORK, mkD 5 20 .REST, mkD 5 21 .REST,
    mkD 5 22 .ORDERING, mkD 5 23 .WORK, mkD 5 24 .WORK, mkD 5 25 .WORK, mkD 5 26 .WORK,
    mkD 5 27 .WORK, mkD 5 28 .WORK, mkD 5 29 .REST, mkD 5 30 .REST, mkD 5 31 .ORDERING,
    mkD 6 1 .WORK, mkD 6 2 .WORK, mkD 6 3 .WORK, mkD 6 4 .WORK, mkD 6 5 .WORK, mkD 6 6 .WORK,
    mkD 6 7 .REST, mkD 6 8 .REST, mkD 6 9 .ORDERING, mkD 6 10 .WORK, mkD 6 11 .WORK,
    mkD 6 12 .REST, mkD 6 13 .REST, mkD 6 14 .ORDERING, mkD 6 15 .WORK, mkD 6 16 .WORK,
    mkD 6 17 .REST, mkD 6 18 .REST, mkD 6 19 .ORDERING, mkD 6 20 .WORK, mkD 6 21 .WORK,
    mkD 6 22 .WORK, mkD 6 23 .WORK, mkD 6 24 .WORK, mkD 6 25 .WORK, mkD 6 26 .REST,
    mkD 6 27 .REST, mkD 6 28 .ORDERING, mkD 6 29 .WORK, mkD 6 30 .WORK, mkD 7 1 .WORK,
    mkD 7 2 .WORK, mkD 7 3 .WORK, mkD 7 4 .WORK, mkD 7 5 .REST, mkD 7 6 .REST, mkD 7 7 .ORDERING,
    mkD 7 8 .WORK, mkD 7 9 .WORK, mkD 7 10 .REST, mkD 7 11 .REST, mkD 7 12 .ORDERING,
    mkD 7 13 .WORK, mkD 7 14 .WORK, mkD 7 15 .REST, mkD 7 16 .REST, mkD 7 17 .ORDERING,
    mkD 7 18 .WORK, mkD 7 19 .WORK, mkD 7 20 .WORK, mkD 7 21 .WORK, mkD 7 22 .WORK,
    mkD 7 23 .WORK, mkD 7 24 .REST, mkD 7 25 .REST, mkD 7 26 .ORDERING, mkD 7 27 .WORK,
    mkD 7 28 .WORK, mkD 7 29 .WORK, mkD 7 30 .WORK, mkD 7 31 .WORK, mkD 8 1 .WORK, mkD 8 2 .REST,
    mkD 8 3 .REST, mkD 8 4 .ORDERING, mkD 8 5 .WORK, mkD 8 6 .WORK, mkD 8 7 .REST, mkD 8 8 .REST,
    mkD 8 9 .ORDERING, mkD 8 10 .WORK, mkD 8 11 .WORK, mkD 8 12 .REST, mkD 8 13 .REST,
    mkD 8 14 .ORDERING, mkD 8 15 .WORK, mkD 8 16 .WORK, mkD 8 17 .WORK, mkD 8 18 .WORK,
    mkD 8 19 .REST, mkD 8 20 .REST, mkD 8 21 .ORDERING, mkD 8 22 .WORK, mkD 8 23 .WORK,
    mkD 8 24 .WORK, mkD 8 25 .WORK, mkD 8 26 .WORK, mkD 8 27 .WORK, mkD 8 28 .REST,
    mkD 8 29 .REST, mkD 8 30 .ORDERING, mkD 8 31 .WORK, mkD 9 1 .WORK, mkD 9 2 .WORK,
    mkD 9 3 .WORK, mkD 9 4 .WORK, mkD 9 5 .WORK, mkD 9 6 .REST, mkD 9 7 .REST, mkD 9 8 .ORDERING,
    mkD 9 9 .WORK, mkD 9 10 .WORK, mkD 9 11 .REST, mkD 9 12 .REST, mkD 9 13 .ORDERING,
    mkD 9 14 .WORK, mkD 9 15 .WORK, mkD 9 16 .REST, mkD 9 17 .REST, mkD 9 18 .ORDERING,
    mkD 9 19 .WORK, mkD 9 20 .WORK, mkD 9 21 .WORK, mkD 9 22 .WORK, mkD 9 23 .WORK,
    mkD 9 24 .WORK, mkD 9 25 .REST, mkD 9 26 .REST, mkD 9 27 .ORDERING, mkD 9 28 .WORK,
    mkD 9 29 .WORK, mkD 9 30 .WORK, mkD 10 1 .WORK, mkD 10 2 .WORK, mkD 10 3 .WORK,
    mkD 10 4 .REST, mkD 10 5 .REST, mkD 10 6 .ORDERING, mkD 10 7 .WORK, mkD 10 8 .WORK,
    mkD 10 9 .REST, mkD 10 10 .REST, mkD 10 11 .ORDERING, mkD 10 12 .WORK, mkD 10 13 .WORK,
    mkD 10 14 .REST, mkD 10 15 .REST, mkD 10 16 .ORDERING, mkD 10 17 .WORK, mkD 10 18 .WORK,
    mkD 10 19 .WORK, mkD 10 20 .WORK, mkD 10 21 .WORK, mkD 10 22 .WORK, mkD 10 23 .REST,
    mkD 10 24 .REST, mkD 10 25 .ORDERING, mkD 10 26 .WORK, mkD 10 27 .WORK, mkD 10 28 .WORK,
    mkD 10 29 .WORK, mkD 10 30 .WORK, mkD 10 31 .WORK, mkD 11 1 .REST, mkD 11 2 .REST,
    mkD 11 3 .ORDERING, mkD 11 4 .WORK, mkD 11 5 .WORK, mkD 11 6 .REST, mkD 11 7 .REST,
    mkD 11 8 .ORDERING, mkD 11 9 .WORK, mkD 11 10 .WORK, mkD 11 11 .REST, mkD 11 12 .REST,
    mkD 11 13 .ORDERING, mkD 11 14 .WORK, mkD 11 15 .WORK, mkD 11 16 .WORK, mkD 11 17 .WORK,
    mkD 11 18 .REST, mkD 11 19 .REST, mkD 11 20 .ORDERING, mkD 11 21 .WORK, mkD 11 22 .WORK,
    mkD 11 23 .WORK, mkD 11 24 .WORK, mkD 11 25 .WORK, mkD 11 26 .WORK, mkD 11 27 .REST,
    mkD 11 28 .REST, mkD 11 29 .ORDERING, mkD 11 30 .WORK, mkD 12 1 .WORK, mkD 12 2 .WORK,
    mkD 12 3 .WORK, mkD 12 4 .WORK, mkD 12 5 .WORK, mkD 12 6 .REST, mkD 12 7 .REST],
  [49, 48, 47, 46, 45, 44, 43, 42, 41, 40, 39, 38, 37, 36, 35, 34, 33, 32, 31, 30, 29, 28, 27, 26, 25, 24, 23, 22, 21, 20, 19, 18, 17, 16, 15, 14, 13, 12, 11, 10, 9, 8, 7, 6, 5, 4, 3, 2, 1], [12, 11, 10, 9, 8, 7, 6, 5, 4, 3, 2, 1]⟩

/-- Builder state of iteration 49 after its work block. -/
def bmid49 : ScheduleState := ⟨⟨2025, 12, 11⟩,
  [mkD 1 1 .WORK, mkD 1 2 .WORK, mkD 1 3 .WORK, mkD 1 4 .REST, mkD 1 5 .REST, mkD 1 6 .ORDERING,
    mkD 1 8 .WORK, mkD 1 9 .WORK, mkD 1 10 .REST, mkD 1 11 .REST, mkD 1 12 .ORDERING,
    mkD 1 13 .WORK, mkD 1 14 .WORK, mkD 1 15 .REST, mkD 1 16 .REST, mkD 1 17 .ORDERING,
    mkD 1 18 .WORK, mkD 1 19 .WORK, mkD 1 20 .WORK, mkD 1 21 .WORK, mkD 1 22 .WORK,
    mkD 1 23 .REST, mkD 1 24 .REST, mkD 1 25 .ORDERING, mkD 1 26 .WORK, mkD 1 27 .WORK,
    mkD 1 28 .WORK, mkD 1 29 .WORK, mkD 1 30 .WORK, mkD 1 31 .WORK, mkD 2 1 .REST, mkD 2 2 .REST,
    mkD 2 3 .ORDERING, mkD 2 4 .WORK, mkD 2 5 .WORK, mkD 2 6 .REST, mkD 2 7 .REST,
    mkD 2 8 .ORDERING, mkD 2 9 .WORK, mkD 2 10 .WORK, mkD 2 11 .REST, mkD 2 12 .REST,
    mkD 2 13 .ORDERING, mkD 2 14 .WORK, mkD 2 15 .WORK, mkD 2 16 .WORK, mkD 2 17 .WORK,
    mkD 2 18 .WORK, mkD 2 19 .WORK, mkD 2 20 .REST, mkD 2 21 .REST, mkD 2 22 .ORDERING,
    mkD 2 23 .WORK, mkD 2 24 .WORK, mkD 2 25 .WORK, mkD 2 26 .WORK, mkD 2 27 .WORK,
    mkD 2 28 .WORK, mkD 3 1 .REST, mkD 3 2 .REST, mkD 3 3 .ORDERING, mkD 3 4 .WORK, mkD 3 5 .WORK,
    mkD 3 6 .REST, mkD 3 7 .REST, mkD 3 8 .ORDERING, mkD 3 9 .WORK, mkD 3 10 .WORK,
    mkD 3 11 .REST, mkD 3 12 .REST, mkD 3 13 .ORDERING, mkD 3 14 .WORK, mkD 3 15 .WORK,
    mkD 3 16 .WORK, mkD 3 17 .WORK, mkD 3 18 .REST, mkD 3 19 .REST, mkD 3 20 .ORDERING,
    mkD 3 21 .WORK, mkD 3 22 .WORK, mkD 3 23 .WORK, mkD 3 24 .WORK, mkD 3 25 .WORK,
    mkD 3 26 .WORK, mkD 3 27 .REST, mkD 3 28 .REST, mkD 3 29 .ORDERING, mkD 3 30 .WORK,
    mkD 3 31 .WORK, mkD 4 1 .WORK, mkD 4 2 .WORK, mkD 4 3 .WORK, mkD 4 4 .WORK, mkD 4 5 .REST,
    mkD 4 6 .REST, mkD 4 7 .ORDERING, mkD 4 8 .WORK, mkD 4 9 .WORK, mkD 4 10 .REST,
    mkD 4 11 .REST, mkD 4 12 .ORDERING, mkD 4 13 .WORK, mkD 4 14 .WORK, mkD 4 15 .REST,
    mkD 4 16 .REST, mkD 4 17 .ORDERING, mkD 4 18 .WORK, mkD 4 19 .WORK, mkD 4 20 .WORK,
    mkD 4 21 .WORK, mkD 4 22 .WORK, mkD 4 23 .WORK, mkD 4 24 .REST, mkD 4 25 .REST,
    mkD 4 26 .ORDERING, mkD 4 27 .WORK, mkD 4 28 .WORK, mkD 4 29 .WORK, mkD 4 30 .WORK,
    mkD 5 1 .WORK, mkD 5 2 .WORK, mkD 5 3 .REST, mkD 5 4 .REST, mkD 5 5 .ORDERING, mkD 5 6 .WORK,
    mkD 5 7 .WORK, mkD 5 8 .REST, mkD 5 9 .REST, mkD 5 10 .ORDERING, mkD 5 11 .WORK,
    mkD 5 12 .WORK, mkD 5 13 .REST, mkD 5 14 .REST, mkD 5 15 .ORDERING, mkD 5 16 .WORK,
    mkD 5 17 .WORK, mkD 5 18 .WORK, mkD 5 19 .WORK, mkD 5 20 .REST, mkD 5 21 .REST,
    mkD 5 22 .ORDERING, mkD 5 23 .WORK, mkD 5 24 .WORK, mkD 5 25 .WORK, mkD 5 26 .WORK,
    mkD 5 27 .WORK, mkD 5 28 .WORK, mkD 5 29 .REST, mkD 5 30 .REST, mkD 5 31 .ORDERING,
    mkD 6 1 .WORK, mkD 6 2 .WORK, mkD 6 3 .WORK, mkD 6 4 .WORK, mkD 6 5 .WORK, mkD 6 6 .WORK,
    mkD 6 7 .REST, mkD 6 8 .REST, mkD 6 9 .ORDERING, mkD 6 10 .WORK, mkD 6 11 .WORK,
    mkD 6 12 .REST, mkD 6 13 .REST, mkD 6 14 .ORDERING, mkD 6 15 .WORK, mkD 6 16 .WORK,
    mkD 6 17 .REST, mkD 6 18 .REST, mkD 6 19 .ORDERING, mkD 6 20 .WORK, mkD 6 21 .WORK,
    mkD 6 22 .WORK, mkD 6 23 .WORK, mkD 6 24 .WORK, mkD 6 25 .WORK, mkD 6 26 .REST,
    mkD 6 27 .REST, mkD 6 28 .ORDERING, mkD 6 29 .WORK, mkD 6 30 .WORK, mkD 7 1 .WORK,
    mkD 7 2 .WORK, mkD 7 3 .WORK, mkD 7 4 .WORK, mkD 7 5 .REST, mkD 7 6 .REST, mkD 7 7 .ORDERING,
    mkD 7 8 .WORK, mkD 7 9 .WORK, mkD 7 10 .REST, mkD 7 11 .REST, mkD 7 12 .ORDERING,
    mkD 7 13 .WORK, mkD 7 14 .WORK, mkD 7 15 .REST, mkD 7 16 .REST, mkD 7 17 .ORDERING,
    mkD 7 18 .WORK, mkD 7 19 .WORK, mkD 7 20 .WORK, mkD 7 21 .WORK, mkD 7 22 .WORK,
    mkD 7 23 .WORK, mkD 7 24 .REST, mkD 7 25 .REST, mkD 7 26 .ORDERING, mkD 7 27 .WORK,
    mkD 7 28 .WORK, mkD 7 29 .WORK, mkD 7 30 .WORK, mkD 7 31 .WORK, mkD 8 1 .WORK, mkD 8 2 .REST,
    mkD 8 3 .REST, mkD 8 4 .ORDERING, mkD 8 5 .WORK, mkD 8 6 .WORK, mkD 8 7 .REST, mkD 8 8 .REST,
    mkD 8 9 .ORDERING, mkD 8 10 .WORK, mkD 8 11 .WORK, mkD 8 12 .REST, mkD 8 13 .REST,
    mkD 8 14 .ORDERING, mkD 8 15 .WORK, mkD 8 16 .WORK, mkD 8 17 .WORK, mkD 8 18 .WORK,
    mkD 8 19 .REST, mkD 8 20 .REST, mkD 8 21 .ORDERING, mkD 8 22 .WORK, mkD 8 23 .WORK,
    mkD 8 24 .WORK, mkD 8 25 .WORK, mkD 8 26 .WORK, mkD 8 27 .WORK, mkD 8 28 .REST,
    mkD 8 29 .REST, mkD 8 30 .ORDERING, mkD 8 31 .WORK, mkD 9 1 .WORK, mkD 9 2 .WORK,
    mkD 9 3 .WORK, mkD 9 4 .WORK, mkD 9 5 .WORK, mkD 9 6 .REST, mkD 9 7 .REST, mkD 9 8 .ORDERING,
    mkD 9 9 .WORK, mkD 9 10 .WORK, mkD 9 11 .REST, mkD 9 12 .REST, mkD 9 13 .ORDERING,
    mkD 9 14 .WORK, mkD 9 15 .WORK, mkD 9 16 .REST, mkD 9 17 .REST, mkD 9 18 .ORDERING,
    mkD 9 19 .WORK, mkD 9 20 .WORK, mkD 9 21 .WORK, mkD 9 22 .WORK, mkD 9 23 .WORK,
    mkD 9 24 .WORK, mkD 9 25 .REST, mkD 9 26 .REST, mkD 9 27 .ORDERING, mkD 9 28 .WORK,
    mkD 9 29 .WORK, mkD 9 30 .WORK, mkD 10 1 .WORK, mkD 10 2 .WORK, mkD 10 3 .WORK,
    mkD 10 4 .REST, mkD 10 5 .REST, mkD 10 6 .ORDERING, mkD 10 7 .WORK, mkD 10 8 .WORK,
    mkD 10 9 .REST, mkD 10 10 .REST, mkD 10 11 .ORDERING, mkD 10 12 .WORK, mkD 10 13 .WORK,
    mkD 10 14 .REST, mkD 10 15 .REST, mkD 10 16 .ORDERING, mkD 10 17 .WORK, mkD 10 18 .WORK,
    mkD 10 19 .WORK, mkD 10 20 .WORK, mkD 10 21 .WORK, mkD 10 22 .WORK, mkD 10 23 .REST,
    mkD 10 24 .REST, mkD 10 25 .ORDERING, mkD 10 26 .WORK, mkD 10 27 .WORK, mkD 10 28 .WORK,
    mkD 10 29 .WORK, mkD 10 30 .WORK, mkD 10 31 .WORK, mkD 11 1 .REST, mkD 11 2 .REST,
    mkD 11 3 .ORDERING, mkD 11 4 .WORK, mkD 11 5 .WORK, mkD 11 6 .REST, mkD 11 7 .REST,
    mkD 11 8 .ORDERING, mkD 11 9 .WORK, mkD 11 10 .WORK, mkD 11 11 .REST, mkD 11 12 .REST,
    mkD 11 13 .ORDERING, mkD 11 14 .WORK, mkD 11 15 .WORK, mkD 11 16 .WORK, mkD 11 17 .WORK,
    mkD 11 18 .REST, mkD 11 19 .REST, mkD 11 20 .ORDERING, mkD 11 21 .WORK, mkD 11 22 .WORK,
    mkD 11 23 .WORK, mkD 11 24 .WORK, mkD 11 25 .WORK, mkD 11 26 .WORK, mkD 11 27 .REST,
    mkD 11 28 .REST, mkD 11 29 .ORDERING, mkD 11 30 .WORK, mkD 12 1 .WORK, mkD 12 2 .WORK,
    mkD 12 3 .WORK, mkD 12 4 .WORK, mkD 12 5 .WORK, mkD 12 6 .REST, mkD 12 7 .REST,
    mkD 12 8 .ORDERING, mkD 12 9 .WORK, mkD 12 10 .WORK],
  [49, 48, 47, 46, 45, 44, 43, 42, 41, 40, 39, 38, 37, 36, 35, 34, 33, 32, 31, 30, 29, 28, 27, 26, 25, 24, 23, 22, 21, 20, 19, 18, 17, 16, 15, 14, 13, 12, 11, 10, 9, 8, 7, 6, 5, 4, 3, 2, 1], [12, 11, 10, 9, 8, 7, 6, 5, 4, 3, 2, 1]⟩

/-- Builder state of the witness run before iteration 50. -/
def bst50 : ScheduleState := ⟨⟨2025, 12, 13⟩,
  [mkD 1 1 .WORK, mkD 1 2 .WORK, mkD 1 3 .WORK, mkD 1 4 .REST, mkD 1 5 .REST, mkD 1 6 .ORDERING,
    mkD 1 8 .WORK, mkD 1 9 .WORK, mkD 1 10 .REST, mkD 1 11 .REST, mkD 1 12 .ORDERING,
    mkD 1 13 .WORK, mkD 1 14 .WORK, mkD 1 15 .REST, mkD 1 16 .REST, mkD 1 17 .ORDERING,
    mkD 1 18 .WORK, mkD 1 19 .WORK, mkD 1 20 .WORK, mkD 1 21 .WORK, mkD 1 22 .WORK,
    mkD 1 23 .REST, mkD 1 24 .REST, mkD 1 25 .ORDERING, mkD 1 26 .WORK, mkD 1 27 .WORK,
    mkD 1 28 .WORK, mkD 1 29 .WORK, mkD 1 30 .WORK, mkD 1 31 .WORK, mkD 2 1 .REST, mkD 2 2 .REST,
    mkD 2 3 .ORDERING, mkD 2 4 .WORK, mkD 2 5 .WORK, mkD 2 6 .REST, mkD 2 7 .REST,
    mkD 2 8 .ORDERING, mkD 2 9 .WORK, mkD 2 10 .WORK, mkD 2 11 .REST, mkD 2 12 .REST,
    mkD 2 13 .ORDERING, mkD 2 14 .WORK, mkD 2 15 .WORK, mkD 2 16 .WORK, mkD 2 17 .WORK,
    mkD 2 18 .WORK, mkD 2 19 .WORK, mkD 2 20 .REST, mkD 2 21 .REST, mkD 2 22 .ORDERING,
    mkD 2 23 .WORK, mkD 2 24 .WORK, mkD 2 25 .WORK, mkD 2 26 .WORK, mkD 2 27 .WORK,
    mkD 2 28 .WORK, mkD 3 1 .REST, mkD 3 2 .REST, mkD 3 3 .ORDERING, mkD 3 4 .WORK, mkD 3 5 .WORK,
    mkD 3 6 .REST, mkD 3 7 .REST, mkD 3 8 .ORDERING, mkD 3 9 .WORK, mkD 3 10 .WORK,
    mkD 3 11 .REST, mkD 3 12 .REST, mkD 3 13 .ORDERING, mkD 3 14 .WORK, mkD 3 15 .WORK,
    mkD 3 16 .WORK, mkD 3 17 .WORK, mkD 3 18 .REST, mkD 3 19 .REST, mkD 3 20 .ORDERING,
    mkD 3 21 .WORK, mkD 3 22 .WORK, mkD 3 23 .WORK, mkD 3 24 .WORK, mkD 3 25 .WORK,
    mkD 3 26 .WORK, mkD 3 27 .REST, mkD 3 28 .REST, mkD 3 29 .ORDERING, mkD 3 30 .WORK,
    mkD 3 31 .WORK, mkD 4 1 .WORK, mkD 4 2 .WORK, mkD 4 3 .WORK, mkD 4 4 .WORK, mkD 4 5 .REST,
    mkD 4 6 .REST, mkD 4 7 .ORDERING, mkD 4 8 .WORK, mkD 4 9 .WORK, mkD 4 10 .REST,
    mkD 4 11 .REST, mkD 4 12 .ORDERING, mkD 4 13 .WORK, mkD 4 14 .WORK, mkD 4 15 .REST,
    mkD 4 16 .REST, mkD 4 17 .ORDERING, mkD 4 18 .WORK, mkD 4 19 .WORK, mkD 4 20 .WORK,
    mkD 4 21 .WORK, mkD 4 22 .WORK, mkD 4 23 .WORK, mkD 4 24 .REST, mkD 4 25 .REST,
    mkD 4 26 .ORDERING, mkD 4 27 .WORK, mkD 4 28 .WORK, mkD 4 29 .WORK, mkD 4 30 .WORK,
    mkD 5 1 .WORK, mkD 5 2 .WORK, mkD 5 3 .REST, mkD 5 4 .REST, mkD 5 5 .ORDERING, mkD 5 6 .WORK,
    mkD 5 7 .WORK, mkD 5 8 .REST, mkD 5 9 .REST, mkD 5 10 .ORDERING, mkD 5 11 .WORK,
    mkD 5 12 .WORK, mkD 5 13 .REST, mkD 5 14 .REST, mkD 5 15 .ORDERING, mkD 5 16 .WORK,
    mkD 5 17 .WORK, mkD 5 18 .WORK, mkD 5 19 .WORK, mkD 5 20 .REST, mkD 5 21 .REST,
    mkD 5 22 .ORDERING, mkD 5 23 .WORK, mkD 5 24 .WORK, mkD 5 25 .WORK, mkD 5 26 .WORK,
    mkD 5 27 .WORK, mkD 5 28 .WORK, mkD 5 29 .REST, mkD 5 30 .REST, mkD 5 31 .ORDERING,
    mkD 6 1 .WORK, mkD 6 2 .WORK, mkD 6 3 .WORK, mkD 6 4 .WORK, mkD 6 5 .WORK, mkD 6 6 .WORK,
    mkD 6 7 .REST, mkD 6 8 .REST, mkD 6 9 .ORDERING, mkD 6 10 .WORK, mkD 6 11 .WORK,
    mkD 6 12 .REST, mkD 6 13 .REST, mkD 6 14 .ORDERING, mkD 6 15 .WORK, mkD 6 16 .WORK,
    mkD 6 17 .REST, mkD 6 18 .REST, mkD 6 19 .ORDERING, mkD 6 20 .WORK, mkD 6 21 .WORK,
    mkD 6 22 .WORK, mkD 6 23 .WORK, mkD 6 24 .WORK, mkD 6 25 .WORK, mkD 6 26 .REST,
    mkD 6 27 .REST, mkD 6 28 .ORDERING, mkD 6 29 .WORK, mkD 6 30 .WORK, mkD 7 1 .WORK,
    mkD 7 2 .WORK, mkD 7 3 .WORK, mkD 7 4 .WORK, mkD 7 5 .REST, mkD 7 6 .REST, mkD 7 7 .ORDERING,
    mkD 7 8 .WORK, mkD 7 9 .WORK, mkD 7 10 .REST, mkD 7 11 .REST, mkD 7 12 .ORDERING,
    mkD 7 13 .WORK, mkD 7 14 .WORK, mkD 7 15 .REST, mkD 7 16 .REST, mkD 7 17 .ORDERING,
    mkD 7 18 .WORK, mkD 7 19 .WORK, mkD 7 20 .WORK, mkD 7 21 .WORK, mkD 7 22 .WORK,
    mkD 7 23 .WORK, mkD 7 24 .REST, mkD 7 25 .REST, mkD 7 26 .ORDERING, mkD 7 27 .WORK,
    mkD 7 28 .WORK, mkD 7 29 .WORK, mkD 7 30 .WORK, mkD 7 31 .WORK, mkD 8 1 .WORK, mkD 8 2 .REST,
    mkD 8 3 .REST, mkD 8 4 .ORDERING, mkD 8 5 .WORK, mkD 8 6 .WORK, mkD 8 7 .REST, mkD 8 8 .REST,
    mkD 8 9 .ORDERING, mkD 8 10 .WORK, mkD 8 11 .WORK, mkD 8 12 .REST, mkD 8 13 .REST,
    mkD 8 14 .ORDERING, mkD 8 15 .WORK, mkD 8 16 .WORK, mkD 8 17 .WORK, mkD 8 18 .WORK,
    mkD 8 19 .REST, mkD 8 20 .REST, mkD 8 21 .ORDERING, mkD 8 22 .WORK, mkD 8 23 .WORK,
    mkD 8 24 .WORK, mkD 8 25 .WORK, mkD 8 26 .WORK, mkD 8 27 .WORK, mkD 8 28 .REST,
    mkD 8 29 .REST, mkD 8 30 .ORDERING, mkD 8 31 .WORK, mkD 9 1 .WORK, mkD 9 2 .WORK,
    mkD 9 3 .WORK, mkD 9 4 .WORK, mkD 9 5 .WORK, mkD 9 6 .REST, mkD 9 7 .REST, mkD 9 8 .ORDERING,
    mkD 9 9 .WORK, mkD 9 10 .WORK, mkD 9 11 .REST, mkD 9 12 .REST, mkD 9 13 .ORDERING,
    mkD 9 14 .WORK, mkD 9 15 .WORK, mkD 9 16 .REST, mkD 9 17 .REST, mkD 9 18 .ORDERING,
    mkD 9 19 .WORK, mkD 9 20 .WORK, mkD 9 21 .WORK, mkD 9 22 .WORK, mkD 9 23 .WORK,
    mkD 9 24 .WORK, mkD 9 25 .REST, mkD 9 26 .REST, mkD 9 27 .ORDERING, mkD 9 28 .WORK,
    mkD 9 29 .WORK, mkD 9 30 .WORK, mkD 10 1 .WORK, mkD 10 2 .WORK, mkD 10 3 .WORK,
    mkD 10 4 .REST, mkD 10 5 .REST, mkD 10 6 .ORDERING, mkD 10 7 .WORK, mkD 10 8 .WORK,
    mkD 10 9 .REST, mkD 10 10 .REST, mkD 10 11 .ORDERING, mkD 10 12 .WORK, mkD 10 13 .WORK,
    mkD 10 14 .REST, mkD 10 15 .REST, mkD 10 16 .ORDERING, mkD 10 17 .WORK, mkD 10 18 .WORK,
    mkD 10 19 .WORK, mkD 10 20 .WORK, mkD 10 21 .WORK, mkD 10 22 .WORK, mkD 10 23 .REST,
    mkD 10 24 .REST, mkD 10 25 .ORDERING, mkD 10 26 .WORK, mkD 10 27 .WORK, mkD 10 28 .WORK,
    mkD 10 29 .WORK, mkD 10 30 .WORK, mkD 10 31 .WORK, mkD 11 1 .REST, mkD 11 2 .REST,
    mkD 11 3 .ORDERING, mkD 11 4 .WORK, mkD 11 5 .WORK, mkD 11 6 .REST, mkD 11 7 .REST,
    mkD 11 8 .ORDERING, mkD 11 9 .WORK, mkD 11 10 .WORK, mkD 11 11 .REST, mkD 11 12 .REST,
    mkD 11 13 .ORDERING, mkD 11 14 .WORK, mkD 11 15 .WORK, mkD 11 16 .WORK, mkD 11 17 .WORK,
    mkD 11 18 .REST, mkD 11 19 .REST, mkD 11 20 .ORDERING, mkD 11 21 .WORK, mkD 11 22 .WORK,
    mkD 11 23 .WORK, mkD 11 24 .WORK, mkD 11 25 .WORK, mkD 11 26 .WORK, mkD 11 27 .REST,
    mkD 11 28 .REST, mkD 11 29 .ORDERING, mkD 11 30 .WORK, mkD 12 1 .WORK, mkD 12 2 .WORK,
    mkD 12 3 .WORK, mkD 12 4 .WORK, mkD 12 5 .WORK, mkD 12 6 .REST, mkD 12 7 .REST,
    mkD 12 8 .ORDERING, mkD 12 9 .WORK, mkD 12 10 .WORK, mkD 12 11 .REST, mkD 12 12 .REST],
  [50, 49, 48, 47, 46, 45, 44, 43, 42, 41, 40, 39, 38, 37, 36, 35, 34, 33, 32, 31, 30, 29, 28, 27, 26, 25, 24, 23, 22, 21, 20, 19, 18, 17, 16, 15, 14, 13, 12, 11, 10, 9, 8, 7, 6, 5, 4, 3, 2, 1], [12, 11, 10, 9, 8, 7, 6, 5, 4, 3, 2, 1]⟩

/-- Builder state of iteration 50 after its work block. -/
def bmid50 : ScheduleState := ⟨⟨2025, 12, 16⟩,
  [mkD 1 1 .WORK, mkD 1 2 .WORK, mkD 1 3 .WORK, mkD 1 4 .REST, mkD 1 5 .REST, mkD 1 6 .ORDERING,
    mkD 1 8 .WORK, mkD 1 9 .WORK, mkD 1 10 .REST, mkD 1 11 .REST, mkD 1 12 .ORDERING,
    mkD 1 13 .WORK, mkD 1 14 .WORK, mkD 1 15 .REST, mkD 1 16 .REST, mkD 1 17 .ORDERING,
    mkD 1 18 .WORK, mkD 1 19 .WORK, mkD 1 20 .WORK, mkD 1 21 .WORK, mkD 1 22 .WORK,
    mkD 1 23 .REST, mkD 1 24 .REST, mkD 1 25 .ORDERING, mkD 1 26 .WORK, mkD 1 27 .WORK,
    mkD 1 28 .WORK, mkD 1 29 .WORK, mkD 1 30 .WORK, mkD 1 31 .WORK, mkD 2 1 .REST, mkD 2 2 .REST,
    mkD 2 3 .ORDERING, mkD 2 4 .WORK, mkD 2 5 .WORK, mkD 2 6 .REST, mkD 2 7 .REST,
    mkD 2 8 .ORDERING, mkD 2 9 .WORK, mkD 2 10 .WORK, mkD 2 11 .REST, mkD 2 12 .REST,
    mkD 2 13 .ORDERING, mkD 2 14 .WORK, mkD 2 15 .WORK, mkD 2 16 .WORK, mkD 2 17 .WORK,
    mkD 2 18 .WORK, mkD 2 19 .WORK, mkD 2 20 .REST, mkD 2 21 .REST, mkD 2 22 .ORDERING,
    mkD 2 23 .WORK, mkD 2 24 .WORK, mkD 2 25 .WORK, mkD 2 26 .WORK, mkD 2 27 .WORK,
    mkD 2 28 .WORK, mkD 3 1 .REST, mkD 3 2 .REST, mkD 3 3 .ORDERING, mkD 3 4 .WORK, mkD 3 5 .WORK,
    mkD 3 6 .REST, mkD 3 7 .REST, mkD 3 8 .ORDERING, mkD 3 9 .WORK, mkD 3 10 .WORK,
    mkD 3 11 .REST, mkD 3 12 .REST, mkD 3 13 .ORDERING, mkD 3 14 .WORK, mkD 3 15 .WORK,
    mkD 3 16 .WORK, mkD 3 17 .WORK, mkD 3 18 .REST, mkD 3 19 .REST, mkD 3 20 .ORDERING,
    mkD 3 21 .WORK, mkD 3 22 .WORK, mkD 3 23 .WORK, mkD 3 24 .WORK, mkD 3 25 .WORK,
    mkD 3 26 .WORK, mkD 3 27 .REST, mkD 3 28 .REST, mkD 3 29 .ORDERING, mkD 3 30 .WORK,
    mkD 3 31 .WORK, mkD 4 1 .WORK, mkD 4 2 .WORK, mkD 4 3 .WORK, mkD 4 4 .WORK, mkD 4 5 .REST,
    mkD 4 6 .REST, mkD 4 7 .ORDERING, mkD 4 8 .WORK, mkD 4 9 .WORK, mkD 4 10 .REST,
    mkD 4 11 .REST, mkD 4 12 .ORDERING, mkD 4 13 .WORK, mkD 4 14 .WORK, mkD 4 15 .REST,
    mkD 4 16 .REST, mkD 4 17 .ORDERING, mkD 4 18 .WORK, mkD 4 19 .WORK, mkD 4 20 .WORK,
    mkD 4 21 .WORK, mkD 4 22 .WORK, mkD 4 23 .WORK, mkD 4 24 .REST, mkD 4 25 .REST,
    mkD 4 26 .ORDERING, mkD 4 27 .WORK, mkD 4 28 .WORK, mkD 4 29 .WORK, mkD 4 30 .WORK,
    mkD 5 1 .WORK, mkD 5 2 .WORK, mkD 5 3 .REST, mkD 5 4 .REST, mkD 5 5 .ORDERING, mkD 5 6 .WORK,
    mkD 5 7 .WORK, mkD 5 8 .REST, mkD 5 9 .REST, mkD 5 10 .ORDERING, mkD 5 11 .WORK,
    mkD 5 12 .WORK, mkD 5 13 .REST, mkD 5 14 .REST, mkD 5 15 .ORDERING, mkD 5 16 .WORK,
    mkD 5 17 .WORK, mkD 5 18 .WORK, mkD 5 19 .WORK, mkD 5 20 .REST, mkD 5 21 .REST,
    mkD 5 22 .ORDERING, mkD 5 23 .WORK, mkD 5 24 .WORK, mkD 5 25 .WORK, mkD 5 26 .WORK,
    mkD 5 27 .WORK, mkD 5 28 .WORK, mkD 5 29 .REST, mkD 5 30 .REST, mkD 5 31 .ORDERING,
    mkD 6 1 .WORK, mkD 6 2 .WORK, mkD 6 3 .WORK, mkD 6 4 .WORK, mkD 6 5 .WORK, mkD 6 6 .WORK,
    mkD 6 7 .REST, mkD 6 8 .REST, mkD 6 9 .ORDERING, mkD 6 10 .WORK, mkD 6 11 .WORK,
    mkD 6 12 .REST, mkD 6 13 .REST, mkD 6 14 .ORDERING, mkD 6 15 .WORK, mkD 6 16 .WORK,
    mkD 6 17 .REST, mkD 6 18 .REST, mkD 6 19 .ORDERING, mkD 6 20 .WORK, mkD 6 21 .WORK,
    mkD 6 22 .WORK, mkD 6 23 .WORK, mkD 6 24 .WORK, mkD 6 25 .WORK, mkD 6 26 .REST,
    mkD 6 27 .REST, mkD 6 28 .ORDERING, mkD 6 29 .WORK, mkD 6 30 .WORK, mkD 7 1 .WORK,
    mkD 7 2 .WORK, mkD 7 3 .WORK, mkD 7 4 .WORK, mkD 7 5 .REST, mkD 7 6 .REST, mkD 7 7 .ORDERING,
    mkD 7 8 .WORK, mkD 7 9 .WORK, mkD 7 10 .REST, mkD 7 11 .REST, mkD 7 12 .ORDERING,
    mkD 7 13 .WORK, mkD 7 14 .WORK, mkD 7 15 .REST, mkD 7 16 .REST, mkD 7 17 .ORDERING,
    mkD 7 18 .WORK, mkD 7 19 .WORK, mkD 7 20 .WORK, mkD 7 21 .WORK, mkD 7 22 .WORK,
    mkD 7 23 .WORK, mkD 7 24 .REST, mkD 7 25 .REST, mkD 7 26 .ORDERING, mkD 7 27 .WORK,
    mkD 7 28 .WORK, mkD 7 29 .WORK, mkD 7 30 .WORK, mkD 7 31 .WORK, mkD 8 1 .WORK, mkD 8 2 .REST,
    mkD 8 3 .REST, mkD 8 4 .ORDERING, mkD 8 5 .WORK, mkD 8 6 .WORK, mkD 8 7 .REST, mkD 8 8 .REST,
    mkD 8 9 .ORDERING, mkD 8 10 .WORK, mkD 8 11 .WORK, mkD 8 12 .REST, mkD 8 13 .REST,
    mkD 8 14 .ORDERING, mkD 8 15 .WORK, mkD 8 16 .WORK, mkD 8 17 .WORK, mkD 8 18 .WORK,
    mkD 8 19 .REST, mkD 8 20 .REST, mkD 8 21 .ORDERING, mkD 8 22 .WORK, mkD 8 23 .WORK,
    mkD 8 24 .WORK, mkD 8 25 .WORK, mkD 8 26 .WORK, mkD 8 27 .WORK, mkD 8 28 .REST,
    mkD 8 29 .REST, mkD 8 30 .ORDERING, mkD 8 31 .WORK, mkD 9 1 .WORK, mkD 9 2 .WORK,
    mkD 9 3 .WORK, mkD 9 4 .WORK, mkD 9 5 .WORK, mkD 9 6 .REST, mkD 9 7 .REST, mkD 9 8 .ORDERING,
    mkD 9 9 .WORK, mkD 9 10 .WORK, mkD 9 11 .REST, mkD 9 12 .REST, mkD 9 13 .ORDERING,
    mkD 9 14 .WORK, mkD 9 15 .WORK, mkD 9 16 .REST, mkD 9 17 .REST, mkD 9 18 .ORDERING,
    mkD 9 19 .WORK, mkD 9 20 .WORK, mkD 9 21 .WORK, mkD 9 22 .WORK, mkD 9 23 .WORK,
    mkD 9 24 .WORK, mkD 9 25 .REST, mkD 9 26 .REST, mkD 9 27 .ORDERING, mkD 9 28 .WORK,
    mkD 9 29 .WORK, mkD 9 30 .WORK, mkD 10 1 .WORK, mkD 10 2 .WORK, mkD 10 3 .WORK,
    mkD 10 4 .REST, mkD 10 5 .REST, mkD 10 6 .ORDERING, mkD 10 7 .WORK, mkD 10 8 .WORK,
    mkD 10 9 .REST, mkD 10 10 .REST, mkD 10 11 .ORDERING, mkD 10 12 .WORK, mkD 10 13 .WORK,
    mkD 10 14 .REST, mkD 10 15 .REST, mkD 10 16 .ORDERING, mkD 10 17 .WORK, mkD 10 18 .WORK,
    mkD 10 19 .WORK, mkD 10 20 .WORK, mkD 10 21 .WORK, mkD 10 22 .WORK, mkD 10 23 .REST,
    mkD 10 24 .REST, mkD 10 25 .ORDERING, mkD 10 26 .WORK, mkD 10 27 .WORK, mkD 10 28 .WORK,
    mkD 10 29 .WORK, mkD 10 30 .WORK, mkD 10 31 .WORK, mkD 11 1 .REST, mkD 11 2 .REST,
    mkD 11 3 .ORDERING, mkD 11 4 .WORK, mkD 11 5 .WORK, mkD 11 6 .REST, mkD 11 7 .REST,
    mkD 11 8 .ORDERING, mkD 11 9 .WORK, mkD 11 10 .WORK, mkD 11 11 .REST, mkD 11 12 .REST,
    mkD 11 13 .ORDERING, mkD 11 14 .WORK, mkD 11 15 .WORK, mkD 11 16 .WORK, mkD 11 17 .WORK,
    mkD 11 18 .REST, mkD 11 19 .REST, mkD 11 20 .ORDERING, mkD 11 21 .WORK, mkD 11 22 .WORK,
    mkD 11 23 .WORK, mkD 11 24 .WORK, mkD 11 25 .WORK, mkD 11 26 .WORK, mkD 11 27 .REST,
    mkD 11 28 .REST, mkD 11 29 .ORDERING, mkD 11 30 .WORK, mkD 12 1 .WORK, mkD 12 2 .WORK,
    mkD 12 3 .WORK, mkD 12 4 .WORK, mkD 12 5 .WORK, mkD 12 6 .REST, mkD 12 7 .REST,
    mkD 12 8 .ORDERING, mkD 12 9 .WORK, mkD 12 10 .WORK, mkD 12 11 .REST, mkD 12 12 .REST,
    mkD 12 13 .ORDERING, mkD 12 14 .WORK, mkD 12 15 .WORK],
  [50, 49, 48, 47, 46, 45, 44, 43, 42, 41, 40, 39, 38, 37, 36, 35, 34, 33, 32, 31, 30, 29, 28, 27, 26, 25, 24, 23, 22, 21, 20, 19, 18, 17, 16, 15, 14, 13, 12, 11, 10, 9, 8, 7, 6, 5, 4, 3, 2, 1], [12, 11, 10, 9, 8, 7, 6, 5, 4, 3, 2, 1]⟩

/-- Builder state of the witness run before iteration 51. -/
def bst51 : ScheduleState := ⟨⟨2025, 12, 18⟩,
  [mkD 1 1 .WORK, mkD 1 2 .WORK, mkD 1 3 .WORK, mkD 1 4 .REST, mkD 1 5 .REST, mkD 1 6 .ORDERING,
    mkD 1 8 .WORK, mkD 1 9 .WORK, mkD 1 10 .REST, mkD 1 11 .REST, mkD 1 12 .ORDERING,
    mkD 1 13 .WORK, mkD 1 14 .WORK, mkD 1 15 .REST, mkD 1 16 .REST, mkD 1 17 .ORDERING,
    mkD 1 18 .WORK, mkD 1 19 .WORK, mkD 1 20 .WORK, mkD 1 21 .WORK, mkD 1 22 .WORK,
    mkD 1 23 .REST, mkD 1 24 .REST, mkD 1 25 .ORDERING, mkD 1 26 .WORK, mkD 1 27 .WORK,
    mkD 1 28 .WORK, mkD 1 29 .WORK, mkD 1 30 .WORK, mkD 1 31 .WORK, mkD 2 1 .REST, mkD 2 2 .REST,
    mkD 2 3 .ORDERING, mkD 2 4 .WORK, mkD 2 5 .WORK, mkD 2 6 .REST, mkD 2 7 .REST,
    mkD 2 8 .ORDERING, mkD 2 9 .WORK, mkD 2 10 .WORK, mkD 2 11 .REST, mkD 2 12 .REST,
    mkD 2 13 .ORDERING, mkD 2 14 .WORK, mkD 2 15 .WORK, mkD 2 16 .WORK, mkD 2 17 .WORK,
    mkD 2 18 .WORK, mkD 2 19 .WORK, mkD 2 20 .REST, mkD 2 21 .REST, mkD 2 22 .ORDERING,
    mkD 2 23 .WORK, mkD 2 24 .WORK, mkD 2 25 .WORK, mkD 2 26 .WORK, mkD 2 27 .WORK,
    mkD 2 28 .WORK, mkD 3 1 .REST, mkD 3 2 .REST, mkD 3 3 .ORDERING, mkD 3 4 .WORK, mkD 3 5 .WORK,
    mkD 3 6 .REST, mkD 3 7 .REST, mkD 3 8 .ORDERING, mkD 3 9 .WORK, mkD 3 10 .WORK,
    mkD 3 11 .REST, mkD 3 12 .REST, mkD 3 13 .ORDERING, mkD 3 14 .WORK, mkD 3 15 .WORK,
    mkD 3 16 .WORK, mkD 3 17 .WORK, mkD 3 18 .REST, mkD 3 19 .REST, mkD 3 20 .ORDERING,
    mkD 3 21 .WORK, mkD 3 22 .WORK, mkD 3 23 .WORK, mkD 3 24 .WORK, mkD 3 25 .WORK,
    mkD 3 26 .WORK, mkD 3 27 .REST, mkD 3 28 .REST, mkD 3 29 .ORDERING, mkD 3 30 .WORK,
    mkD 3 31 .WORK, mkD 4 1 .WORK, mkD 4 2 .WORK, mkD 4 3 .WORK, mkD 4 4 .WORK, mkD 4 5 .REST,
    mkD 4 6 .REST, mkD 4 7 .ORDERING, mkD 4 8 .WORK, mkD 4 9 .WORK, mkD 4 10 .REST,
    mkD 4 11 .REST, mkD 4 12 .ORDERING, mkD 4 13 .WORK, mkD 4 14 .WORK, mkD 4 15 .REST,
    mkD 4 16 .REST, mkD 4 17 .ORDERING, mkD 4 18 .WORK, mkD 4 19 .WORK, mkD 4 20 .WORK,
    mkD 4 21 .WORK, mkD 4 22 .WORK, mkD 4 23 .WORK, mkD 4 24 .REST, mkD 4 25 .REST,
    mkD 4 26 .ORDERING, mkD 4 27 .WORK, mkD 4 28 .WORK, mkD 4 29 .WORK, mkD 4 30 .WORK,
    mkD 5 1 .WORK, mkD 5 2 .WORK, mkD 5 3 .REST, mkD 5 4 .REST, mkD 5 5 .ORDERING, mkD 5 6 .WORK,
    mkD 5 7 .WORK, mkD 5 8 .REST, mkD 5 9 .REST, mkD 5 10 .ORDERING, mkD 5 11 .WORK,
    mkD 5 12 .WORK, mkD 5 13 .REST, mkD 5 14 .REST, mkD 5 15 .ORDERING, mkD 5 16 .WORK,
    mkD 5 17 .WORK, mkD 5 18 .WORK, mkD 5 19 .WORK, mkD 5 20 .REST, mkD 5 21 .REST,
    mkD 5 22 .ORDERING, mkD 5 23 .WORK, mkD 5 24 .WORK, mkD 5 25 .WORK, mkD 5 26 .WORK,
    mkD 5 27 .WORK, mkD 5 28 .WORK, mkD 5 29 .REST, mkD 5 30 .REST, mkD 5 31 .ORDERING,
    mkD 6 1 .WORK, mkD 6 2 .WORK, mkD 6 3 .WORK, mkD 6 4 .WORK, mkD 6 5 .WORK, mkD 6 6 .WORK,
    mkD 6 7 .REST, mkD 6 8 .REST, mkD 6 9 .ORDERING, mkD 6 10 .WORK, mkD 6 11 .WORK,
    mkD 6 12 .REST, mkD 6 13 .REST, mkD 6 14 .ORDERING, mkD 6 15 .WORK, mkD 6 16 .WORK,
    mkD 6 17 .REST, mkD 6 18 .REST, mkD 6 19 .ORDERING, mkD 6 20 .WORK, mkD 6 21 .WORK,
    mkD 6 22 .WORK, mkD 6 23 .WORK, mkD 6 24 .WORK, mkD 6 25 .WORK, mkD 6 26 .REST,
    mkD 6 27 .REST, mkD 6 28 .ORDERING, mkD 6 29 .WORK, mkD 6 30 .WORK, mkD 7 1 .WORK,
    mkD 7 2 .WORK, mkD 7 3 .WORK, mkD 7 4 .WORK, mkD 7 5 .REST, mkD 7 6 .REST, mkD 7 7 .ORDERING,
    mkD 7 8 .WORK, mkD 7 9 .WORK, mkD 7 10 .REST, mkD 7 11 .REST, mkD 7 12 .ORDERING,
    mkD 7 13 .WORK, mkD 7 14 .WORK, mkD 7 15 .REST, mkD 7 16 .REST, mkD 7 17 .ORDERING,
    mkD 7 18 .WORK, mkD 7 19 .WORK, mkD 7 20 .WORK, mkD 7 21 .WORK, mkD 7 22 .WORK,
    mkD 7 23 .WORK, mkD 7 24 .REST, mkD 7 25 .REST, mkD 7 26 .ORDERING, mkD 7 27 .WORK,
    mkD 7 28 .WORK, mkD 7 29 .WORK, mkD 7 30 .WORK, mkD 7 31 .WORK, mkD 8 1 .WORK, mkD 8 2 .REST,
    mkD 8 3 .REST, mkD 8 4 .ORDERING, mkD 8 5 .WORK, mkD 8 6 .WORK, mkD 8 7 .REST, mkD 8 8 .REST,
    mkD 8 9 .ORDERING, mkD 8 10 .WORK, mkD 8 11 .WORK, mkD 8 12 .REST, mkD 8 13 .REST,
    mkD 8 14 .ORDERING, mkD 8 15 .WORK, mkD 8 16 .WORK, mkD 8 17 .WORK, mkD 8 18 .WORK,
    mkD 8 19 .REST, mkD 8 20 .REST, mkD 8 21 .ORDERING, mkD 8 22 .WORK, mkD 8 23 .WORK,
    mkD 8 24 .WORK, mkD 8 25 .WORK, mkD 8 26 .WORK, mkD 8 27 .WORK, mkD 8 28 .REST,
    mkD 8 29 .REST, mkD 8 30 .ORDERING, mkD 8 31 .WORK, mkD 9 1 .WORK, mkD 9 2 .WORK,
    mkD 9 3 .WORK, mkD 9 4 .WORK, mkD 9 5 .WORK, mkD 9 6 .REST, mkD 9 7 .REST, mkD 9 8 .ORDERING,
    mkD 9 9 .WORK, mkD 9 10 .WORK, mkD 9 11 .REST, mkD 9 12 .REST, mkD 9 13 .ORDERING,
    mkD 9 14 .WORK, mkD 9 15 .WORK, mkD 9 16 .REST, mkD 9 17 .REST, mkD 9 18 .ORDERING,
    mkD 9 19 .WORK, mkD 9 20 .WORK, mkD 9 21 .WORK, mkD 9 22 .WORK, mkD 9 23 .WORK,
    mkD 9 24 .WORK, mkD 9 25 .REST, mkD 9 26 .REST, mkD 9 27 .ORDERING, mkD 9 28 .WORK,
    mkD 9 29 .WORK, mkD 9 30 .WORK, mkD 10 1 .WORK, mkD 10 2 .WORK, mkD 10 3 .WORK,
    mkD 10 4 .REST, mkD 10 5 .REST, mkD 10 6 .ORDERING, mkD 10 7 .WORK, mkD 10 8 .WORK,
    mkD 10 9 .REST, mkD 10 10 .REST, mkD 10 11 .ORDERING, mkD 10 12 .WORK, mkD 10 13 .WORK,
    mkD 10 14 .REST, mkD 10 15 .REST, mkD 10 16 .ORDERING, mkD 10 17 .WORK, mkD 10 18 .WORK,
    mkD 10 19 .WORK, mkD 10 20 .WORK, mkD 10 21 .WORK, mkD 10 22 .WORK, mkD 10 23 .REST,
    mkD 10 24 .REST, mkD 10 25 .ORDERING, mkD 10 26 .WORK, mkD 10 27 .WORK, mkD 10 28 .WORK,
    mkD 10 29 .WORK, mkD 10 30 .WORK, mkD 10 31 .WORK, mkD 11 1 .REST, mkD 11 2 .REST,
    mkD 11 3 .ORDERING, mkD 11 4 .WORK, mkD 11 5 .WORK, mkD 11 6 .REST, mkD 11 7 .REST,
    mkD 11 8 .ORDERING, mkD 11 9 .WORK, mkD 11 10 .WORK, mkD 11 11 .REST, mkD 11 12 .REST,
    mkD 11 13 .ORDERING, mkD 11 14 .WORK, mkD 11 15 .WORK, mkD 11 16 .WORK, mkD 11 17 .WORK,
    mkD 11 18 .REST, mkD 11 19 .REST, mkD 11 20 .ORDERING, mkD 11 21 .WORK, mkD 11 22 .WORK,
    mkD 11 23 .WORK, mkD 11 24 .WORK, mkD 11 25 .WORK, mkD 11 26 .WORK, mkD 11 27 .REST,
    mkD 11 28 .REST, mkD 11 29 .ORDERING, mkD 11 30 .WORK, mkD 12 1 .WORK, mkD 12 2 .WORK,
    mkD 12 3 .WORK, mkD 12 4 .WORK, mkD 12 5 .WORK, mkD 12 6 .REST, mkD 12 7 .REST,
    mkD 12 8 .ORDERING, mkD 12 9 .WORK, mkD 12 10 .WORK, mkD 12 11 .REST, mkD 12 12 .REST,
    mkD 12 13 .ORDERING, mkD 12 14 .WORK, mkD 12 15 .WORK, mkD 12 16 .REST, mkD 12 17 .REST],
  [51, 50, 49, 48, 47, 46, 45, 44, 43, 42, 41, 40, 39, 38, 37, 36, 35, 34, 33, 32, 31, 30, 29, 28, 27, 26, 25, 24, 23, 22, 21, 20, 19, 18, 17, 16, 15, 14, 13, 12, 11, 10, 9, 8, 7, 6, 5, 4, 3, 2, 1], [12, 11, 10, 9, 8, 7, 6, 5, 4, 3, 2, 1]⟩

/-- Builder state of iteration 51 after its work block. -/
def bmid51 : ScheduleState := ⟨⟨2025, 12, 22⟩,
  [mkD 1 1 .WORK, mkD 1 2 .WORK, mkD 1 3 .WORK, mkD 1 4 .REST, mkD 1 5 .REST, mkD 1 6 .ORDERING,
    mkD 1 8 .WORK, mkD 1 9 .WORK, mkD 1 10 .REST, mkD 1 11 .REST, mkD 1 12 .ORDERING,
    mkD 1 13 .WORK, mkD 1 14 .WORK, mkD 1 15 .REST, mkD 1 16 .REST, mkD 1 17 .ORDERING,
    mkD 1 18 .WORK, mkD 1 19 .WORK, mkD 1 20 .WORK, mkD 1 21 .WORK, mkD 1 22 .WORK,
    mkD 1 23 .REST, mkD 1 24 .REST, mkD 1 25 .ORDERING, mkD 1 26 .WORK, mkD 1 27 .WORK,
    mkD 1 28 .WORK, mkD 1 29 .WORK, mkD 1 30 .WORK, mkD 1 31 .WORK, mkD 2 1 .REST, mkD 2 2 .REST,
    mkD 2 3 .ORDERING, mkD 2 4 .WORK, mkD 2 5 .WORK, mkD 2 6 .REST, mkD 2 7 .REST,
    mkD 2 8 .ORDERING, mkD 2 9 .WORK, mkD 2 10 .WORK, mkD 2 11 .REST, mkD 2 12 .REST,
    mkD 2 13 .ORDERING, mkD 2 14 .WORK, mkD 2 15 .WORK, mkD 2 16 .WORK, mkD 2 17 .WORK,
    mkD 2 18 .WORK, mkD 2 19 .WORK, mkD 2 20 .REST, mkD 2 21 .REST, mkD 2 22 .ORDERING,
    mkD 2 23 .WORK, mkD 2 24 .WORK, mkD 2 25 .WORK, mkD 2 26 .WORK, mkD 2 27 .WORK,
    mkD 2 28 .WORK, mkD 3 1 .REST, mkD 3 2 .REST, mkD 3 3 .ORDERING, mkD 3 4 .WORK, mkD 3 5 .WORK,
    mkD 3 6 .REST, mkD 3 7 .REST, mkD 3 8 .ORDERING, mkD 3 9 .WORK, mkD 3 10 .WORK,
    mkD 3 11 .REST, mkD 3 12 .REST, mkD 3 13 .ORDERING, mkD 3 14 .WORK, mkD 3 15 .WORK,
    mkD 3 16 .WORK, mkD 3 17 .WORK, mkD 3 18 .REST, mkD 3 19 .REST, mkD 3 20 .ORDERING,
    mkD 3 21 .WORK, mkD 3 22 .WORK, mkD 3 23 .WORK, mkD 3 24 .WORK, mkD 3 25 .WORK,
    mkD 3 26 .WORK, mkD 3 27 .REST, mkD 3 28 .REST, mkD 3 29 .ORDERING, mkD 3 30 .WORK,
    mkD 3 31 .WORK, mkD 4 1 .WORK, mkD 4 2 .WORK, mkD 4 3 .WORK, mkD 4 4 .WORK, mkD 4 5 .REST,
    mkD 4 6 .REST, mkD 4 7 .ORDERING, mkD 4 8 .WORK, mkD 4 9 .WORK, mkD 4 10 .REST,
    mkD 4 11 .REST, mkD 4 12 .ORDERING, mkD 4 13 .WORK, mkD 4 14 .WORK, mkD 4 15 .REST,
    mkD 4 16 .REST, mkD 4 17 .ORDERING, mkD 4 18 .WORK, mkD 4 19 .WORK, mkD 4 20 .WORK,
    mkD 4 21 .WORK, mkD 4 22 .WORK, mkD 4 23 .WORK, mkD 4 24 .REST, mkD 4 25 .REST,
    mkD 4 26 .ORDERING, mkD 4 27 .WORK, mkD 4 28 .WORK, mkD 4 29 .WORK, mkD 4 30 .WORK,
    mkD 5 1 .WORK, mkD 5 2 .WORK, mkD 5 3 .REST, mkD 5 4 .REST, mkD 5 5 .ORDERING, mkD 5 6 .WORK,
    mkD 5 7 .WORK, mkD 5 8 .REST, mkD 5 9 .REST, mkD 5 10 .ORDERING, mkD 5 11 .WORK,
    mkD 5 12 .WORK, mkD 5 13 .REST, mkD 5 14 .REST, mkD 5 15 .ORDERING, mkD 5 16 .WORK,
    mkD 5 17 .WORK, mkD 5 18 .WORK, mkD 5 19 .WORK, mkD 5 20 .REST, mkD 5 21 .REST,
    mkD 5 22 .ORDERING, mkD 5 23 .WORK, mkD 5 24 .WORK, mkD 5 25 .WORK, mkD 5 26 .WORK,
    mkD 5 27 .WORK, mkD 5 28 .WORK, mkD 5 29 .REST, mkD 5 30 .REST, mkD 5 31 .ORDERING,
    mkD 6 1 .WORK, mkD 6 2 .WORK, mkD 6 3 .WORK, mkD 6 4 .WORK, mkD 6 5 .WORK, mkD 6 6 .WORK,
    mkD 6 7 .REST, mkD 6 8 .REST, mkD 6 9 .ORDERING, mkD 6 10 .WORK, mkD 6 11 .WORK,
    mkD 6 12 .REST, mkD 6 13 .REST, mkD 6 14 .ORDERING, mkD 6 15 .WORK, mkD 6 16 .WORK,
    mkD 6 17 .REST, mkD 6 18 .REST, mkD 6 19 .ORDERING, mkD 6 20 .WORK, mkD 6 21 .WORK,
    mkD 6 22 .WORK, mkD 6 23 .WORK, mkD 6 24 .WORK, mkD 6 25 .WORK, mkD 6 26 .REST,
    mkD 6 27 .REST, mkD 6 28 .ORDERING, mkD 6 29 .WORK, mkD 6 30 .WORK, mkD 7 1 .WORK,
    mkD 7 2 .WORK, mkD 7 3 .WORK, mkD 7 4 .WORK, mkD 7 5 .REST, mkD 7 6 .REST, mkD 7 7 .ORDERING,
    mkD 7 8 .WORK, mkD 7 9 .WORK, mkD 7 10 .REST, mkD 7 11 .REST, mkD 7 12 .ORDERING,
    mkD 7 13 .WORK, mkD 7 14 .WORK, mkD 7 15 .REST, mkD 7 16 .REST, mkD 7 17 .ORDERING,
    mkD 7 18 .WORK, mkD 7 19 .WORK, mkD 7 20 .WORK, mkD 7 21 .WORK, mkD 7 22 .WORK,
    mkD 7 23 .WORK, mkD 7 24 .REST, mkD 7 25 .REST, mkD 7 26 .ORDERING, mkD 7 27 .WORK,
    mkD 7 28 .WORK, mkD 7 29 .WORK, mkD 7 30 .WORK, mkD 7 31 .WORK, mkD 8 1 .WORK, mkD 8 2 .REST,
    mkD 8 3 .REST, mkD 8 4 .ORDERING, mkD 8 5 .WORK, mkD 8 6 .WORK, mkD 8 7 .REST, mkD 8 8 .REST,
    mkD 8 9 .ORDERING, mkD 8 10 .WORK, mkD 8 11 .WORK, mkD 8 12 .REST, mkD 8 13 .REST,
    mkD 8 14 .ORDERING, mkD 8 15 .WORK, mkD 8 16 .WORK, mkD 8 17 .WORK, mkD 8 18 .WORK,
    mkD 8 19 .REST, mkD 8 20 .REST, mkD 8 21 .ORDERING, mkD 8 22 .WORK, mkD 8 23 .WORK,
    mkD 8 24 .WORK, mkD 8 25 .WORK, mkD 8 26 .WORK, mkD 8 27 .WORK, mkD 8 28 .REST,
    mkD 8 29 .REST, mkD 8 30 .ORDERING, mkD 8 31 .WORK, mkD 9 1 .WORK, mkD 9 2 .WORK,
    mkD 9 3 .WORK, mkD 9 4 .WORK, mkD 9 5 .WORK, mkD 9 6 .REST, mkD 9 7 .REST, mkD 9 8 .ORDERING,
    mkD 9 9 .WORK, mkD 9 10 .WORK, mkD 9 11 .REST, mkD 9 12 .REST, mkD 9 13 .ORDERING,
    mkD 9 14 .WORK, mkD 9 15 .WORK, mkD 9 16 .REST, mkD 9 17 .REST, mkD 9 18 .ORDERING,
    mkD 9 19 .WORK, mkD 9 20 .WORK, mkD 9 21 .WORK, mkD 9 22 .WORK, mkD 9 23 .WORK,
    mkD 9 24 .WORK, mkD 9 25 .REST, mkD 9 26 .REST, mkD 9 27 .ORDERING, mkD 9 28 .WORK,
    mkD 9 29 .WORK, mkD 9 30 .WORK, mkD 10 1 .WORK, mkD 10 2 .WORK, mkD 10 3 .WORK,
    mkD 10 4 .REST, mkD 10 5 .REST, mkD 10 6 .ORDERING, mkD 10 7 .WORK, mkD 10 8 .WORK,
    mkD 10 9 .REST, mkD 10 10 .REST, mkD 10 11 .ORDERING, mkD 10 12 .WORK, mkD 10 13 .WORK,
    mkD 10 14 .REST, mkD 10 15 .REST, mkD 10 16 .ORDERING, mkD 10 17 .WORK, mkD 10 18 .WORK,
    mkD 10 19 .WORK, mkD 10 20 .WORK, mkD 10 21 .WORK, mkD 10 22 .WORK, mkD 10 23 .REST,
    mkD 10 24 .REST, mkD 10 25 .ORDERING, mkD 10 26 .WORK, mkD 10 27 .WORK, mkD 10 28 .WORK,
    mkD 10 29 .WORK, mkD 10 30 .WORK, mkD 10 31 .WORK, mkD 11 1 .REST, mkD 11 2 .REST,
    mkD 11 3 .ORDERING, mkD 11 4 .WORK, mkD 11 5 .WORK, mkD 11 6 .REST, mkD 11 7 .REST,
    mkD 11 8 .ORDERING, mkD 11 9 .WORK, mkD 11 10 .WORK, mkD 11 11 .REST, mkD 11 12 .REST,
    mkD 11 13 .ORDERING, mkD 11 14 .WORK, mkD 11 15 .WORK, mkD 11 16 .WORK, mkD 11 17 .WORK,
    mkD 11 18 .REST, mkD 11 19 .REST, mkD 11 20 .ORDERING, mkD 11 21 .WORK, mkD 11 22 .WORK,
    mkD 11 23 .WORK, mkD 11 24 .WORK, mkD 11 25 .WORK, mkD 11 26 .WORK, mkD 11 27 .REST,
    mkD 11 28 .REST, mkD 11 29 .ORDERING, mkD 11 30 .WORK, mkD 12 1 .WORK, mkD 12 2 .WORK,
    mkD 12 3 .WORK, mkD 12 4 .WORK, mkD 12 5 .WORK, mkD 12 6 .REST, mkD 12 7 .REST,
    mkD 12 8 .ORDERING, mkD 12 9 .WORK, mkD 12 10 .WORK, mkD 12 11 .REST, mkD 12 12 .REST,
    mkD 12 13 .ORDERING, mkD 12 14 .WORK, mkD 12 15 .WORK, mkD 12 16 .REST, mkD 12 17 .REST,
    mkD 12 18 .ORDERING, mkD 12 19 .WORK, mkD 12 20 .WORK, mkD 12 21 .WORK],
  [51, 50, 49, 48, 47, 46, 45, 44, 43, 42, 41, 40, 39, 38, 37, 36, 35, 34, 33, 32, 31, 30, 29, 28, 27, 26, 25, 24, 23, 22, 21, 20, 19, 18, 17, 16, 15, 14, 13, 12, 11, 10, 9, 8, 7, 6, 5, 4, 3, 2, 1], [12, 11, 10, 9, 8, 7, 6, 5, 4, 3, 2, 1]⟩

/-- Builder state of the witness run before iteration 52. -/
def bst52 : ScheduleState := ⟨⟨2025, 12, 24⟩,
  [mkD 1 1 .WORK, mkD 1 2 .WORK, mkD 1 3 .WORK, mkD 1 4 .REST, mkD 1 5 .REST, mkD 1 6 .ORDERING,
    mkD 1 8 .WORK, mkD 1 9 .WORK, mkD 1 10 .REST, mkD 1 11 .REST, mkD 1 12 .ORDERING,
    mkD 1 13 .WORK, mkD 1 14 .WORK, mkD 1 15 .REST, mkD 1 16 .REST, mkD 1 17 .ORDERING,
    mkD 1 18 .WORK, mkD 1 19 .WORK, mkD 1 20 .WORK, mkD 1 21 .WORK, mkD 1 22 .WORK,
    mkD 1 23 .REST, mkD 1 24 .REST, mkD 1 25 .ORDERING, mkD 1 26 .WORK, mkD 1 27 .WORK,
    mkD 1 28 .WORK, mkD 1 29 .WORK, mkD 1 30 .WORK, mkD 1 31 .WORK, mkD 2 1 .REST, mkD 2 2 .REST,
    mkD 2 3 .ORDERING, mkD 2 4 .WORK, mkD 2 5 .WORK, mkD 2 6 .REST, mkD 2 7 .REST,
    mkD 2 8 .ORDERING, mkD 2 9 .WORK, mkD 2 10 .WORK, mkD 2 11 .REST, mkD 2 12 .REST,
    mkD 2 13 .ORDERING, mkD 2 14 .WORK, mkD 2 15 .WORK, mkD 2 16 .WORK, mkD 2 17 .WORK,
    mkD 2 18 .WORK, mkD 2 19 .WORK, mkD 2 20 .REST, mkD 2 21 .REST, mkD 2 22 .ORDERING,
    mkD 2 23 .WORK, mkD 2 24 .WORK, mkD 2 25 .WORK, mkD 2 26 .WORK, mkD 2 27 .WORK,
    mkD 2 28 .WORK, mkD 3 1 .REST, mkD 3 2 .REST, mkD 3 3 .ORDERING, mkD 3 4 .WORK, mkD 3 5 .WORK,
    mkD 3 6 .REST, mkD 3 7 .REST, mkD 3 8 .ORDERING, mkD 3 9 .WORK, mkD 3 10 .WORK,
    mkD 3 11 .REST, mkD 3 12 .REST, mkD 3 13 .ORDERING, mkD 3 14 .WORK, mkD 3 15 .WORK,
    mkD 3 16 .WORK, mkD 3 17 .WORK, mkD 3 18 .REST, mkD 3 19 .REST, mkD 3 20 .ORDERING,
    mkD 3 21 .WORK, mkD 3 22 .WORK, mkD 3 23 .WORK, mkD 3 24 .WORK, mkD 3 25 .WORK,
    mkD 3 26 .WORK, mkD 3 27 .REST, mkD 3 28 .REST, mkD 3 29 .ORDERING, mkD 3 30 .WORK,
    mkD 3 31 .WORK, mkD 4 1 .WORK, mkD 4 2 .WORK, mkD 4 3 .WORK, mkD 4 4 .WORK, mkD 4 5 .REST,
    mkD 4 6 .REST, mkD 4 7 .ORDERING, mkD 4 8 .WORK, mkD 4 9 .WORK, mkD 4 10 .REST,
    mkD 4 11 .REST, mkD 4 12 .ORDERING, mkD 4 13 .WORK, mkD 4 14 .WORK, mkD 4 15 .REST,
    mkD 4 16 .REST, mkD 4 17 .ORDERING, mkD 4 18 .WORK, mkD 4 19 .WORK, mkD 4 20 .WORK,
    mkD 4 21 .WORK, mkD 4 22 .WORK, mkD 4 23 .WORK, mkD 4 24 .REST, mkD 4 25 .REST,
    mkD 4 26 .ORDERING, mkD 4 27 .WORK, mkD 4 28 .WORK, mkD 4 29 .WORK, mkD 4 30 .WORK,
    mkD 5 1 .WORK, mkD 5 2 .WORK, mkD 5 3 .REST, mkD 5 4 .REST, mkD 5 5 .ORDERING, mkD 5 6 .WORK,
    mkD 5 7 .WORK, mkD 5 8 .REST, mkD 5 9 .REST, mkD 5 10 .ORDERING, mkD 5 11 .WORK,
    mkD 5 12 .WORK, mkD 5 13 .REST, mkD 5 14 .REST, mkD 5 15 .ORDERING, mkD 5 16 .WORK,
    mkD 5 17 .WORK, mkD 5 18 .WORK, mkD 5 19 .WORK, mkD 5 20 .REST, mkD 5 21 .REST,
    mkD 5 22 .ORDERING, mkD 5 23 .WORK, mkD 5 24 .WORK, mkD 5 25 .WORK, mkD 5 26 .WORK,
    mkD 5 27 .WORK, mkD 5 28 .WORK, mkD 5 29 .REST, mkD 5 30 .REST, mkD 5 31 .ORDERING,
    mkD 6 1 .WORK, mkD 6 2 .WORK, mkD 6 3 .WORK, mkD 6 4 .WORK, mkD 6 5 .WORK, mkD 6 6 .WORK,
    mkD 6 7 .REST, mkD 6 8 .REST, mkD 6 9 .ORDERING, mkD 6 10 .WORK, mkD 6 11 .WORK,
    mkD 6 12 .REST, mkD 6 13 .REST, mkD 6 14 .ORDERING, mkD 6 15 .WORK, mkD 6 16 .WORK,
    mkD 6 17 .REST, mkD 6 18 .REST, mkD 6 19 .ORDERING, mkD 6 20 .WORK, mkD 6 21 .WORK,
    mkD 6 22 .WORK, mkD 6 23 .WORK, mkD 6 24 .WORK, mkD 6 25 .WORK, mkD 6 26 .REST,
    mkD 6 27 .REST, mkD 6 28 .ORDERING, mkD 6 29 .WORK, mkD 6 30 .WORK, mkD 7 1 .WORK,
    mkD 7 2 .WORK, mkD 7 3 .WORK, mkD 7 4 .WORK, mkD 7 5 .REST, mkD 7 6 .REST, mkD 7 7 .ORDERING,
    mkD 7 8 .WORK, mkD 7 9 .WORK, mkD 7 10 .REST, mkD 7 11 .REST, mkD 7 12 .ORDERING,
    mkD 7 13 .WORK, mkD 7 14 .WORK, mkD 7 15 .REST, mkD 7 16 .REST, mkD 7 17 .ORDERING,
    mkD 7 18 .WORK, mkD 7 19 .WORK, mkD 7 20 .WORK, mkD 7 21 .WORK, mkD 7 22 .WORK,
    mkD 7 23 .WORK, mkD 7 24 .REST, mkD 7 25 .REST, mkD 7 26 .ORDERING, mkD 7 27 .WORK,
    mkD 7 28 .WORK, mkD 7 29 .WORK, mkD 7 30 .WORK, mkD 7 31 .WORK, mkD 8 1 .WORK, mkD 8 2 .REST,
    mkD 8 3 .REST, mkD 8 4 .ORDERING, mkD 8 5 .WORK, mkD 8 6 .WORK, mkD 8 7 .REST, mkD 8 8 .REST,
    mkD 8 9 .ORDERING, mkD 8 10 .WORK, mkD 8 11 .WORK, mkD 8 12 .REST, mkD 8 13 .REST,
    mkD 8 14 .ORDERING, mkD 8 15 .WORK, mkD 8 16 .WORK, mkD 8 17 .WORK, mkD 8 18 .WORK,
    mkD 8 19 .REST, mkD 8 20 .REST, mkD 8 21 .ORDERING, mkD 8 22 .WORK, mkD 8 23 .WORK,
    mkD 8 24 .WORK, mkD 8 25 .WORK, mkD 8 26 .WORK, mkD 8 27 .WORK, mkD 8 28 .REST,
    mkD 8 29 .REST, mkD 8 30 .ORDERING, mkD 8 31 .WORK, mkD 9 1 .WORK, mkD 9 2 .WORK,
    mkD 9 3 .WORK, mkD 9 4 .WORK, mkD 9 5 .WORK, mkD 9 6 .REST, mkD 9 7 .REST, mkD 9 8 .ORDERING,
    mkD 9 9 .WORK, mkD 9 10 .WORK, mkD 9 11 .REST, mkD 9 12 .REST, mkD 9 13 .ORDERING,
    mkD 9 14 .WORK, mkD 9 15 .WORK, mkD 9 16 .REST, mkD 9 17 .REST, mkD 9 18 .ORDERING,
    mkD 9 19 .WORK, mkD 9 20 .WORK, mkD 9 21 .WORK, mkD 9 22 .WORK, mkD 9 23 .WORK,
    mkD 9 24 .WORK, mkD 9 25 .REST, mkD 9 26 .REST, mkD 9 27 .ORDERING, mkD 9 28 .WORK,
    mkD 9 29 .WORK, mkD 9 30 .WORK, mkD 10 1 .WORK, mkD 10 2 .WORK, mkD 10 3 .WORK,
    mkD 10 4 .REST, mkD 10 5 .REST, mkD 10 6 .ORDERING, mkD 10 7 .WORK, mkD 10 8 .WORK,
    mkD 10 9 .REST, mkD 10 10 .REST, mkD 10 11 .ORDERING, mkD 10 12 .WORK, mkD 10 13 .WORK,
    mkD 10 14 .REST, mkD 10 15 .REST, mkD 10 16 .ORDERING, mkD 10 17 .WORK, mkD 10 18 .WORK,
    mkD 10 19 .WORK, mkD 10 20 .WORK, mkD 10 21 .WORK, mkD 10 22 .WORK, mkD 10 23 .REST,
    mkD 10 24 .REST, mkD 10 25 .ORDERING, mkD 10 26 .WORK, mkD 10 27 .WORK, mkD 10 28 .WORK,
    mkD 10 29 .WORK, mkD 10 30 .WORK, mkD 10 31 .WORK, mkD 11 1 .REST, mkD 11 2 .REST,
    mkD 11 3 .ORDERING, mkD 11 4 .WORK, mkD 11 5 .WORK, mkD 11 6 .REST, mkD 11 7 .REST,
    mkD 11 8 .ORDERING, mkD 11 9 .WORK, mkD 11 10 .WORK, mkD 11 11 .REST, mkD 11 12 .REST,
    mkD 11 13 .ORDERING, mkD 11 14 .WORK, mkD 11 15 .WORK, mkD 11 16 .WORK, mkD 11 17 .WORK,
    mkD 11 18 .REST, mkD 11 19 .REST, mkD 11 20 .ORDERING, mkD 11 21 .WORK, mkD 11 22 .WORK,
    mkD 11 23 .WORK, mkD 11 24 .WORK, mkD 11 25 .WORK, mkD 11 26 .WORK, mkD 11 27 .REST,
    mkD 11 28 .REST, mkD 11 29 .ORDERING, mkD 11 30 .WORK, mkD 12 1 .WORK, mkD 12 2 .WORK,
    mkD 12 3 .WORK, mkD 12 4 .WORK, mkD 12 5 .WORK, mkD 12 6 .REST, mkD 12 7 .REST,
    mkD 12 8 .ORDERING, mkD 12 9 .WORK, mkD 12 10 .WORK, mkD 12 11 .REST, mkD 12 12 .REST,
    mkD 12 13 .ORDERING, mkD 12 14 .WORK, mkD 12 15 .WORK, mkD 12 16 .REST, mkD 12 17 .REST,
    mkD 12 18 .ORDERING, mkD 12 19 .WORK, mkD 12 20 .WORK, mkD 12 21 .WORK, mkD 12 22 .REST,
    mkD 12 23 .REST],
  [52, 51, 50, 49, 48, 47, 46, 45, 44, 43, 42, 41, 40, 39, 38, 37, 36, 35, 34, 33, 32, 31, 30, 29, 28, 27, 26, 25, 24, 23, 22, 21, 20, 19, 18, 17, 16, 15, 14, 13, 12, 11, 10, 9, 8, 7, 6, 5, 4, 3, 2, 1], [12, 11, 10, 9, 8, 7, 6, 5, 4, 3, 2, 1]⟩

/-- Builder state of iteration 52 after its work block. -/
def bmid52 : ScheduleState := ⟨⟨2025, 12, 30⟩,
  [mkD 1 1 .WORK, mkD 1 2 .WORK, mkD 1 3 .WORK, mkD 1 4 .REST, mkD 1 5 .REST, mkD 1 6 .ORDERING,
    mkD 1 8 .WORK, mkD 1 9 .WORK, mkD 1 10 .REST, mkD 1 11 .REST, mkD 1 12 .ORDERING,
    mkD 1 13 .WORK, mkD 1 14 .WORK, mkD 1 15 .REST, mkD 1 16 .REST, mkD 1 17 .ORDERING,
    mkD 1 18 .WORK, mkD 1 19 .WORK, mkD 1 20 .WORK, mkD 1 21 .WORK, mkD 1 22 .WORK,
    mkD 1 23 .REST, mkD 1 24 .REST, mkD 1 25 .ORDERING, mkD 1 26 .WORK, mkD 1 27 .WORK,
    mkD 1 28 .WORK, mkD 1 29 .WORK, mkD 1 30 .WORK, mkD 1 31 .WORK, mkD 2 1 .REST, mkD 2 2 .REST,
    mkD 2 3 .ORDERING, mkD 2 4 .WORK, mkD 2 5 .WORK, mkD 2 6 .REST, mkD 2 7 .REST,
    mkD 2 8 .ORDERING, mkD 2 9 .WORK, mkD 2 10 .WORK, mkD 2 11 .REST, mkD 2 12 .REST,
    mkD 2 13 .ORDERING, mkD 2 14 .WORK, mkD 2 15 .WORK, mkD 2 16 .WORK, mkD 2 17 .WORK,
    mkD 2 18 .WORK, mkD 2 19 .WORK, mkD 2 20 .REST, mkD 2 21 .REST, mkD 2 22 .ORDERING,
    mkD 2 23 .WORK, mkD 2 24 .WORK, mkD 2 25 .WORK, mkD 2 26 .WORK, mkD 2 27 .WORK,
    mkD 2 28 .WORK, mkD 3 1 .REST, mkD 3 2 .REST, mkD 3 3 .ORDERING, mkD 3 4 .WORK, mkD 3 5 .WORK,
    mkD 3 6 .REST, mkD 3 7 .REST, mkD 3 8 .ORDERING, mkD 3 9 .WORK, mkD 3 10 .WORK,
    mkD 3 11 .REST, mkD 3 12 .REST, mkD 3 13 .ORDERING, mkD 3 14 .WORK, mkD 3 15 .WORK,
    mkD 3 16 .WORK, mkD 3 17 .WORK, mkD 3 18 .REST, mkD 3 19 .REST, mkD 3 20 .ORDERING,
    mkD 3 21 .WORK, mkD 3 22 .WORK, mkD 3 23 .WORK, mkD 3 24 .WORK, mkD 3 25 .WORK,
    mkD 3 26 .WORK, mkD 3 27 .REST, mkD 3 28 .REST, mkD 3 29 .ORDERING, mkD 3 30 .WORK,
    mkD 3 31 .WORK, mkD 4 1 .WORK, mkD 4 2 .WORK, mkD 4 3 .WORK, mkD 4 4 .WORK, mkD 4 5 .REST,
    mkD 4 6 .REST, mkD 4 7 .ORDERING, mkD 4 8 .WORK, mkD 4 9 .WORK, mkD 4 10 .REST,
    mkD 4 11 .REST, mkD 4 12 .ORDERING, mkD 4 13 .WORK, mkD 4 14 .WORK, mkD 4 15 .REST,
    mkD 4 16 .REST, mkD 4 17 .ORDERING, mkD 4 18 .WORK, mkD 4 19 .WORK, mkD 4 20 .WORK,
    mkD 4 21 .WORK, mkD 4 22 .WORK, mkD 4 23 .WORK, mkD 4 24 .REST, mkD 4 25 .REST,
    mkD 4 26 .ORDERING, mkD 4 27 .WORK, mkD 4 28 .WORK, mkD 4 29 .WORK, mkD 4 30 .WORK,
    mkD 5 1 .WORK, mkD 5 2 .WORK, mkD 5 3 .REST, mkD 5 4 .REST, mkD 5 5 .ORDERING, mkD 5 6 .WORK,
    mkD 5 7 .WORK, mkD 5 8 .REST, mkD 5 9 .REST, mkD 5 10 .ORDERING, mkD 5 11 .WORK,
    mkD 5 12 .WORK, mkD 5 13 .REST, mkD 5 14 .REST, mkD 5 15 .ORDERING, mkD 5 16 .WORK,
    mkD 5 17 .WORK, mkD 5 18 .WORK, mkD 5 19 .WORK, mkD 5 20 .REST, mkD 5 21 .REST,
    mkD 5 22 .ORDERING, mkD 5 23 .WORK, mkD 5 24 .WORK, mkD 5 25 .WORK, mkD 5 26 .WORK,
    mkD 5 27 .WORK, mkD 5 28 .WORK, mkD 5 29 .REST, mkD 5 30 .REST, mkD 5 31 .ORDERING,
    mkD 6 1 .WORK, mkD 6 2 .WORK, mkD 6 3 .WORK, mkD 6 4 .WORK, mkD 6 5 .WORK, mkD 6 6 .WORK,
    mkD 6 7 .REST, mkD 6 8 .REST, mkD 6 9 .ORDERING, mkD 6 10 .WORK, mkD 6 11 .WORK,
    mkD 6 12 .REST, mkD 6 13 .REST, mkD 6 14 .ORDERING, mkD 6 15 .WORK, mkD 6 16 .WORK,
    mkD 6 17 .REST, mkD 6 18 .REST, mkD 6 19 .ORDERING, mkD 6 20 .WORK, mkD 6 21 .WORK,
    mkD 6 22 .WORK, mkD 6 23 .WORK, mkD 6 24 .WORK, mkD 6 25 .WORK, mkD 6 26 .REST,
    mkD 6 27 .REST, mkD 6 28 .ORDERING, mkD 6 29 .WORK, mkD 6 30 .WORK, mkD 7 1 .WORK,
    mkD 7 2 .WORK, mkD 7 3 .WORK, mkD 7 4 .WORK, mkD 7 5 .REST, mkD 7 6 .REST, mkD 7 7 .ORDERING,
    mkD 7 8 .WORK, mkD 7 9 .WORK, mkD 7 10 .REST, mkD 7 11 .REST, mkD 7 12 .ORDERING,
    mkD 7 13 .WORK, mkD 7 14 .WORK, mkD 7 15 .REST, mkD 7 16 .REST, mkD 7 17 .ORDERING,
    mkD 7 18 .WORK, mkD 7 19 .WORK, mkD 7 20 .WORK, mkD 7 21 .WORK, mkD 7 22 .WORK,
    mkD 7 23 .WORK, mkD 7 24 .REST, mkD 7 25 .REST, mkD 7 26 .ORDERING, mkD 7 27 .WORK,
    mkD 7 28 .WORK, mkD 7 29 .WORK, mkD 7 30 .WORK, mkD 7 31 .WORK, mkD 8 1 .WORK, mkD 8 2 .REST,
    mkD 8 3 .REST, mkD 8 4 .ORDERING, mkD 8 5 .WORK, mkD 8 6 .WORK, mkD 8 7 .REST, mkD 8 8 .REST,
    mkD 8 9 .ORDERING, mkD 8 10 .WORK, mkD 8 11 .WORK, mkD 8 12 .REST, mkD 8 13 .REST,
    mkD 8 14 .ORDERING, mkD 8 15 .WORK, mkD 8 16 .WORK, mkD 8 17 .WORK, mkD 8 18 .WORK,
    mkD 8 19 .REST, mkD 8 20 .REST, mkD 8 21 .ORDERING, mkD 8 22 .WORK, mkD 8 23 .WORK,
    mkD 8 24 .WORK, mkD 8 25 .WORK, mkD 8 26 .WORK, mkD 8 27 .WORK, mkD 8 28 .REST,
    mkD 8 29 .REST, mkD 8 30 .ORDERING, mkD 8 31 .WORK, mkD 9 1 .WORK, mkD 9 2 .WORK,
    mkD 9 3 .WORK, mkD 9 4 .WORK, mkD 9 5 .WORK, mkD 9 6 .REST, mkD 9 7 .REST, mkD 9 8 .ORDERING,
    mkD 9 9 .WORK, mkD 9 10 .WORK, mkD 9 11 .REST, mkD 9 12 .REST, mkD 9 13 .ORDERING,
    mkD 9 14 .WORK, mkD 9 15 .WORK, mkD 9 16 .REST, mkD 9 17 .REST, mkD 9 18 .ORDERING,
    mkD 9 19 .WORK, mkD 9 20 .WORK, mkD 9 21 .WORK, mkD 9 22 .WORK, mkD 9 23 .WORK,
    mkD 9 24 .WORK, mkD 9 25 .REST, mkD 9 26 .REST, mkD 9 27 .ORDERING, mkD 9 28 .WORK,
    mkD 9 29 .WORK, mkD 9 30 .WORK, mkD 10 1 .WORK, mkD 10 2 .WORK, mkD 10 3 .WORK,
    mkD 10 4 .REST, mkD 10 5 .REST, mkD 10 6 .ORDERING, mkD 10 7 .WORK, mkD 10 8 .WORK,
    mkD 10 9 .REST, mkD 10 10 .REST, mkD 10 11 .ORDERING, mkD 10 12 .WORK, mkD 10 13 .WORK,
    mkD 10 14 .REST, mkD 10 15 .REST, mkD 10 16 .ORDERING, mkD 10 17 .WORK, mkD 10 18 .WORK,
    mkD 10 19 .WORK, mkD 10 20 .WORK, mkD 10 21 .WORK, mkD 10 22 .WORK, mkD 10 23 .REST,
    mkD 10 24 .REST, mkD 10 25 .ORDERING, mkD 10 26 .WORK, mkD 10 27 .WORK, mkD 10 28 .WORK,
    mkD 10 29 .WORK, mkD 10 30 .WORK, mkD 10 31 .WORK, mkD 11 1 .REST, mkD 11 2 .REST,
    mkD 11 3 .ORDERING, mkD 11 4 .WORK, mkD 11 5 .WORK, mkD 11 6 .REST, mkD 11 7 .REST,
    mkD 11 8 .ORDERING, mkD 11 9 .WORK, mkD 11 10 .WORK, mkD 11 11 .REST, mkD 11 12 .REST,
    mkD 11 13 .ORDERING, mkD 11 14 .WORK, mkD 11 15 .WORK, mkD 11 16 .WORK, mkD 11 17 .WORK,
    mkD 11 18 .REST, mkD 11 19 .REST, mkD 11 20 .ORDERING, mkD 11 21 .WORK, mkD 11 22 .WORK,
    mkD 11 23 .WORK, mkD 11 24 .WORK, mkD 11 25 .WORK, mkD 11 26 .WORK, mkD 11 27 .REST,
    mkD 11 28 .REST, mkD 11 29 .ORDERING, mkD 11 30 .WORK, mkD 12 1 .WORK, mkD 12 2 .WORK,
    mkD 12 3 .WORK, mkD 12 4 .WORK, mkD 12 5 .WORK, mkD 12 6 .REST, mkD 12 7 .REST,
    mkD 12 8 .ORDERING, mkD 12 9 .WORK, mkD 12 10 .WORK, mkD 12 11 .REST, mkD 12 12 .REST,
    mkD 12 13 .ORDERING, mkD 12 14 .WORK, mkD 12 15 .WORK, mkD 12 16 .REST, mkD 12 17 .REST,
    mkD 12 18 .ORDERING, mkD 12 19 .WORK, mkD 12 20 .WORK, mkD 12 21 .WORK, mkD 12 22 .REST,
    mkD 12 23 .REST, mkD 12 24 .ORDERING, mkD 12 25 .WORK, mkD 12 26 .WORK, mkD 12 27 .WORK,
    mkD 12 28 .WORK, mkD 12 29 .WORK],
  [52, 51, 50, 49, 48, 47, 46, 45, 44, 43, 42, 41, 40, 39, 38, 37, 36, 35, 34, 33, 32, 31, 30, 29, 28, 27, 26, 25, 24, 23, 22, 21, 20, 19, 18, 17, 16, 15, 14, 13, 12, 11, 10, 9, 8, 7, 6, 5, 4, 3, 2, 1], [12, 11, 10, 9, 8, 7, 6, 5, 4, 3, 2, 1]⟩

/-- Builder state of the witness run before iteration 53. -/
def bst53 : ScheduleState := ⟨⟨2026, 1, 1⟩,
  [mkD 1 1 .WORK, mkD 1 2 .WORK, mkD 1 3 .WORK, mkD 1 4 .REST, mkD 1 5 .REST, mkD 1 6 .ORDERING,
    mkD 1 8 .WORK, mkD 1 9 .WORK, mkD 1 10 .REST, mkD 1 11 .REST, mkD 1 12 .ORDERING,
    mkD 1 13 .WORK, mkD 1 14 .WORK, mkD 1 15 .REST, mkD 1 16 .REST, mkD 1 17 .ORDERING,
    mkD 1 18 .WORK, mkD 1 19 .WORK, mkD 1 20 .WORK, mkD 1 21 .WORK, mkD 1 22 .WORK,
    mkD 1 23 .REST, mkD 1 24 .REST, mkD 1 25 .ORDERING, mkD 1 26 .WORK, mkD 1 27 .WORK,
    mkD 1 28 .WORK, mkD 1 29 .WORK, mkD 1 30 .WORK, mkD 1 31 .WORK, mkD 2 1 .REST, mkD 2 2 .REST,
    mkD 2 3 .ORDERING, mkD 2 4 .WORK, mkD 2 5 .WORK, mkD 2 6 .REST, mkD 2 7 .REST,
    mkD 2 8 .ORDERING, mkD 2 9 .WORK, mkD 2 10 .WORK, mkD 2 11 .REST, mkD 2 12 .REST,
    mkD 2 13 .ORDERING, mkD 2 14 .WORK, mkD 2 15 .WORK, mkD 2 16 .WORK, mkD 2 17 .WORK,
    mkD 2 18 .WORK, mkD 2 19 .WORK, mkD 2 20 .REST, mkD 2 21 .REST, mkD 2 22 .ORDERING,
    mkD 2 23 .WORK, mkD 2 24 .WORK, mkD 2 25 .WORK, mkD 2 26 .WORK, mkD 2 27 .WORK,
    mkD 2 28 .WORK, mkD 3 1 .REST, mkD 3 2 .REST, mkD 3 3 .ORDERING, mkD 3 4 .WORK, mkD 3 5 .WORK,
    mkD 3 6 .REST, mkD 3 7 .REST, mkD 3 8 .ORDERING, mkD 3 9 .WORK, mkD 3 10 .WORK,
    mkD 3 11 .REST, mkD 3 12 .REST, mkD 3 13 .ORDERING, mkD 3 14 .WORK, mkD 3 15 .WORK,
    mkD 3 16 .WORK, mkD 3 17 .WORK, mkD 3 18 .REST, mkD 3 19 .REST, mkD 3 20 .ORDERING,
    mkD 3 21 .WORK, mkD 3 22 .WORK, mkD 3 23 .WORK, mkD 3 24 .WORK, mkD 3 25 .WORK,
    mkD 3 26 .WORK, mkD 3 27 .REST, mkD 3 28 .REST, mkD 3 29 .ORDERING, mkD 3 30 .WORK,
    mkD 3 31 .WORK, mkD 4 1 .WORK, mkD 4 2 .WORK, mkD 4 3 .WORK, mkD 4 4 .WORK, mkD 4 5 .REST,
    mkD 4 6 .REST, mkD 4 7 .ORDERING, mkD 4 8 .WORK, mkD 4 9 .WORK, mkD 4 10 .REST,
    mkD 4 11 .REST, mkD 4 12 .ORDERING, mkD 4 13 .WORK, mkD 4 14 .WORK, mkD 4 15 .REST,
    mkD 4 16 .REST, mkD 4 17 .ORDERING, mkD 4 18 .WORK, mkD 4 19 .WORK, mkD 4 20 .WORK,
    mkD 4 21 .WORK, mkD 4 22 .WORK, mkD 4 23 .WORK, mkD 4 24 .REST, mkD 4 25 .REST,
    mkD 4 26 .ORDERING, mkD 4 27 .WORK, mkD 4 28 .WORK, mkD 4 29 .WORK, mkD 4 30 .WORK,
    mkD 5 1 .WORK, mkD 5 2 .WORK, mkD 5 3 .REST, mkD 5 4 .REST, mkD 5 5 .ORDERING, mkD 5 6 .WORK,
    mkD 5 7 .WORK, mkD 5 8 .REST, mkD 5 9 .REST, mkD 5 10 .ORDERING, mkD 5 11 .WORK,
    mkD 5 12 .WORK, mkD 5 13 .REST, mkD 5 14 .REST, mkD 5 15 .ORDERING, mkD 5 16 .WORK,
    mkD 5 17 .WORK, mkD 5 18 .WORK, mkD 5 19 .WORK, mkD 5 20 .REST, mkD 5 21 .REST,
    mkD 5 22 .ORDERING, mkD 5 23 .WORK, mkD 5 24 .WORK, mkD 5 25 .WORK, mkD 5 26 .WORK,
    mkD 5 27 .WORK, mkD 5 28 .WORK, mkD 5 29 .REST, mkD 5 30 .REST, mkD 5 31 .ORDERING,
    mkD 6 1 .WORK, mkD 6 2 .WORK, mkD 6 3 .WORK, mkD 6 4 .WORK, mkD 6 5 .WORK, mkD 6 6 .WORK,
    mkD 6 7 .REST, mkD 6 8 .REST, mkD 6 9 .ORDERING, mkD 6 10 .WORK, mkD 6 11 .WORK,
    mkD 6 12 .REST, mkD 6 13 .REST, mkD 6 14 .ORDERING, mkD 6 15 .WORK, mkD 6 16 .WORK,
    mkD 6 17 .REST, mkD 6 18 .REST, mkD 6 19 .ORDERING, mkD 6 20 .WORK, mkD 6 21 .WORK,
    mkD 6 22 .WORK, mkD 6 23 .WORK, mkD 6 24 .WORK, mkD 6 25 .WORK, mkD 6 26 .REST,
    mkD 6 27 .REST, mkD 6 28 .ORDERING, mkD 6 29 .WORK, mkD 6 30 .WORK, mkD 7 1 .WORK,
    mkD 7 2 .WORK, mkD 7 3 .WORK, mkD 7 4 .WORK, mkD 7 5 .REST, mkD 7 6 .REST, mkD 7 7 .ORDERING,
    mkD 7 8 .WORK, mkD 7 9 .WORK, mkD 7 10 .REST, mkD 7 11 .REST, mkD 7 12 .ORDERING,
    mkD 7 13 .WORK, mkD 7 14 .WORK, mkD 7 15 .REST, mkD 7 16 .REST, mkD 7 17 .ORDERING,
    mkD 7 18 .WORK, mkD 7 19 .WORK, mkD 7 20 .WORK, mkD 7 21 .WORK, mkD 7 22 .WORK,
    mkD 7 23 .WORK, mkD 7 24 .REST, mkD 7 25 .REST, mkD 7 26 .ORDERING, mkD 7 27 .WORK,
    mkD 7 28 .WORK, mkD 7 29 .WORK, mkD 7 30 .WORK, mkD 7 31 .WORK, mkD 8 1 .WORK, mkD 8 2 .REST,
    mkD 8 3 .REST, mkD 8 4 .ORDERING, mkD 8 5 .WORK, mkD 8 6 .WORK, mkD 8 7 .REST, mkD 8 8 .REST,
    mkD 8 9 .ORDERING, mkD 8 10 .WORK, mkD 8 11 .WORK, mkD 8 12 .REST, mkD 8 13 .REST,
    mkD 8 14 .ORDERING, mkD 8 15 .WORK, mkD 8 16 .WORK, mkD 8 17 .WORK, mkD 8 18 .WORK,
    mkD 8 19 .REST, mkD 8 20 .REST, mkD 8 21 .ORDERING, mkD 8 22 .WORK, mkD 8 23 .WORK,
    mkD 8 24 .WORK, mkD 8 25 .WORK, mkD 8 26 .WORK, mkD 8 27 .WORK, mkD 8 28 .REST,
    mkD 8 29 .REST, mkD 8 30 .ORDERING, mkD 8 31 .WORK, mkD 9 1 .WORK, mkD 9 2 .WORK,
    mkD 9 3 .WORK, mkD 9 4 .WORK, mkD 9 5 .WORK, mkD 9 6 .REST, mkD 9 7 .REST, mkD 9 8 .ORDERING,
    mkD 9 9 .WORK, mkD 9 10 .WORK, mkD 9 11 .REST, mkD 9 12 .REST, mkD 9 13 .ORDERING,
    mkD 9 14 .WORK, mkD 9 15 .WORK, mkD 9 16 .REST, mkD 9 17 .REST, mkD 9 18 .ORDERING,
    mkD 9 19 .WORK, mkD 9 20 .WORK, mkD 9 21 .WORK, mkD 9 22 .WORK, mkD 9 23 .WORK,
    mkD 9 24 .WORK, mkD 9 25 .REST, mkD 9 26 .REST, mkD 9 27 .ORDERING, mkD 9 28 .WORK,
    mkD 9 29 .WORK, mkD 9 30 .WORK, mkD 10 1 .WORK, mkD 10 2 .WORK, mkD 10 3 .WORK,
    mkD 10 4 .REST, mkD 10 5 .REST, mkD 10 6 .ORDERING, mkD 10 7 .WORK, mkD 10 8 .WORK,
    mkD 10 9 .REST, mkD 10 10 .REST, mkD 10 11 .ORDERING, mkD 10 12 .WORK, mkD 10 13 .WORK,
    mkD 10 14 .REST, mkD 10 15 .REST, mkD 10 16 .ORDERING, mkD 10 17 .WORK, mkD 10 18 .WORK,
    mkD 10 19 .WORK, mkD 10 20 .WORK, mkD 10 21 .WORK, mkD 10 22 .WORK, mkD 10 23 .REST,
    mkD 10 24 .REST, mkD 10 25 .ORDERING, mkD 10 26 .WORK, mkD 10 27 .WORK, mkD 10 28 .WORK,
    mkD 10 29 .WORK, mkD 10 30 .WORK, mkD 10 31 .WORK, mkD 11 1 .REST, mkD 11 2 .REST,
    mkD 11 3 .ORDERING, mkD 11 4 .WORK, mkD 11 5 .WORK, mkD 11 6 .REST, mkD 11 7 .REST,
    mkD 11 8 .ORDERING, mkD 11 9 .WORK, mkD 11 10 .WORK, mkD 11 11 .REST, mkD 11 12 .REST,
    mkD 11 13 .ORDERING, mkD 11 14 .WORK, mkD 11 15 .WORK, mkD 11 16 .WORK, mkD 11 17 .WORK,
    mkD 11 18 .REST, mkD 11 19 .REST, mkD 11 20 .ORDERING, mkD 11 21 .WORK, mkD 11 22 .WORK,
    mkD 11 23 .WORK, mkD 11 24 .WORK, mkD 11 25 .WORK, mkD 11 26 .WORK, mkD 11 27 .REST,
    mkD 11 28 .REST, mkD 11 29 .ORDERING, mkD 11 30 .WORK, mkD 12 1 .WORK, mkD 12 2 .WORK,
    mkD 12 3 .WORK, mkD 12 4 .WORK, mkD 12 5 .WORK, mkD 12 6 .REST, mkD 12 7 .REST,
    mkD 12 8 .ORDERING, mkD 12 9 .WORK, mkD 12 10 .WORK, mkD 12 11 .REST, mkD 12 12 .REST,
    mkD 12 13 .ORDERING, mkD 12 14 .WORK, mkD 12 15 .WORK, mkD 12 16 .REST, mkD 12 17 .REST,
    mkD 12 18 .ORDERING, mkD 12 19 .WORK, mkD 12 20 .WORK, mkD 12 21 .WORK, mkD 12 22 .REST,
    mkD 12 23 .REST, mkD 12 24 .ORDERING, mkD 12 25 .WORK, mkD 12 26 .WORK, mkD 12 27 .WORK,
    mkD 12 28 .WORK, mkD 12 29 .WORK, mkD 12 30 .REST, mkD 12 31 .REST],
  [52, 51, 50, 49, 48, 47, 46, 45, 44, 43, 42, 41, 40, 39, 38, 37, 36, 35, 34, 33, 32, 31, 30, 29, 28, 27, 26, 25, 24, 23, 22, 21, 20, 19, 18, 17, 16, 15, 14, 13, 12, 11, 10, 9, 8, 7, 6, 5, 4, 3, 2, 1], [12, 11, 10, 9, 8, 7, 6, 5, 4, 3, 2, 1]⟩

/-! ## Claim-side definitions

Predicates phrased after the claims' wording, to be compared with what
the code computes. -/

/-- Is the outcome Python's `ValidationError` (validator found errors on a
builder output)? -/
def isValidationFailed : Except GenError Calendar → Bool
  | .error (.validationFailed _) => true
  | _ => false

/-- Claim-side count for C4: adjacent entries that are a Saturday `REST`
day followed by a next-day Sunday `REST` day. -/
def countFreeWeekendsStrict : List Day → Nat
  | d1 :: d2 :: rest =>
    (if d1.date.weekday == 5 && d2.date.weekday == 6 &&
        d1.day_type == DayType.REST && d2.day_type == DayType.REST &&
        d2.date == d1.date.next then 1 else 0) +
    countFreeWeekendsStrict (d2 :: rest)
  | _ => 0

/-- Claim-side view for C6: the maximal runs of consecutive dates after
deduplicating and sorting the input (the classifier's own grouping). -/
def blocksOf (holidays : List Date) : List (List Date) :=
  group_consecutive_holidays (sortDates holidays.eraseDups)

/-- Claim-side view for C6: whether a run is offending and with which
error — a Sunday–Monday pair, or any length other than 1 or 2. -/
def offenseOf (b : List Date) : Option GenError :=
  match b with
  | [_] => none
  | [d1, d2] =>
    if d1.weekday == 6 && d2.weekday == 0 then some (.sundayMondayHoliday d1 d2)
    else none
  | _ => some (.holidayBlockTooLarge b.length)

/-- Claim-side view for C6: the classification of one non-offending run. -/
def classifyBlock (b : List Date) : HolidayMap :=
  match b with
  | [d] => [(d, DayType.HOLIDAY)]
  | [d1, d2] => [(d1, DayType.WORKING_HOLIDAY), (d2, DayType.HOLIDAY)]
  | _ => []

/-- Claim-side view for C6: the error of the earliest offending run. -/
def firstOffense (blocks : List (List Date)) : Option GenError :=
  blocks.findSome? offenseOf

/-! # Theorems -/

/-- Every month of a real date has at least one day. -/
theorem monthLen_pos (y m : Nat) (h1 : 1 ≤ m) (h2 : m ≤ 12) : 1 ≤ monthLen y m := by
  interval_cases m <;> cases hL : isLeap y <;> simp [monthLen, hL]

/-- The month-offset table steps by the month length. -/
theorem daysBeforeMonth_succ (y m : Nat) (h1 : 1 ≤ m) (h2 : m ≤ 11) :
    daysBeforeMonth y (m + 1) = daysBeforeMonth y m + monthLen y m := by
  interval_cases m <;> cases hL : isLeap y <;>
    simp [daysBeforeMonth, monthLen, hL] <;> omega

/-- The month-offset table exhausts the year at December 31. -/
theorem daysBeforeMonth_last (y : Nat) :
    daysBeforeMonth y 12 + monthLen y 12 = daysInYear y := by
  cases hL : isLeap y <;> simp [daysBeforeMonth, monthLen, daysInYear, hL]

/-- The leap-year test, as a proposition. -/
theorem isLeap_iff (y : Nat) :
    (isLeap y = true) ↔ (y % 4 = 0 ∧ (y % 100 ≠ 0 ∨ y % 400 = 0)) := by
  unfold isLeap
  simp [Bool.and_eq_true, Bool.or_eq_true, beq_iff_eq, bne_iff_ne]

set_option maxHeartbeats 1000000 in
/-- The year-offset table steps by the year length. -/
theorem daysBeforeYear_succ (y : Nat) (hy : 1 ≤ y) :
    daysBeforeYear (y + 1) = daysBeforeYear y + daysInYear y := by
  unfold daysBeforeYear daysInYear
  by_cases hL : isLeap y = true
  · rw [if_pos hL]
    obtain ⟨h4, h2⟩ := (isLeap_iff y).mp hL
    rcases h2 with h100 | h400
    · omega
    · have h100' : y % 100 = 0 := by omega
      omega
  · rw [if_neg hL]
    by_cases h4 : y % 4 = 0
    · by_cases h100 : y % 100 = 0
      · by_cases h400 : y % 400 = 0
        · exact absurd ((isLeap_iff y).mpr ⟨h4, Or.inr h400⟩) hL
        · omega
      · exact absurd ((isLeap_iff y).mpr ⟨h4, Or.inl h100⟩) hL
    · have h100 : y % 100 ≠ 0 := fun hc => h4 (by omega)
      have h400 : y % 400 ≠ 0 := fun hc => h4 (by omega)
      omega

/-- The year-offset table is monotone. -/
theorem daysBeforeYear_mono {y y' : Nat} (h : y ≤ y') :
    daysBeforeYear y ≤ daysBeforeYear y' := by
  induction y' with
  | zero =>
    have : y = 0 := by omega
    subst this
    exact le_rfl
  | succ k ih =>
    rcases Nat.lt_or_ge y (k + 1) with hlt | hge
    · have hyk : y ≤ k := by omega
      rcases Nat.eq_zero_or_pos k with rfl | hk
      · have : y = 0 := by omega
        subst this
        simp [daysBeforeYear]
      · calc daysBeforeYear y ≤ daysBeforeYear k := ih hyk
          _ ≤ daysBeforeYear (k + 1) := by rw [daysBeforeYear_succ k hk]; omega
    · have : y = k + 1 := by omega
      subst this
      exact le_rfl

/-- A valid date's ordinal within its year lies in `[1, daysInYear]`. -/
theorem dayOfYear_le_daysInYear (d : Date) (h : d.Valid) :
    d.dayOfYear ≤ daysInYear d.year := by
  obtain ⟨y, m, dd⟩ := d
  obtain ⟨h1, h2, h3, h4, h5⟩ := h
  simp only [Date.dayOfYear] at *
  interval_cases m <;> cases hL : isLeap y <;>
    simp [daysBeforeMonth, monthLen, daysInYear, hL] at h5 ⊢ <;> omega

/-- A valid date's Rata Die number lies inside its year's range. -/
theorem toRD_year_bounds (d : Date) (h : d.Valid) :
    daysBeforeYear d.year < d.toRD ∧
    d.toRD ≤ daysBeforeYear d.year + daysInYear d.year := by
  have hle := dayOfYear_le_daysInYear d h
  obtain ⟨h1, h2, h3, h4, h5⟩ := h
  unfold Date.toRD
  unfold Date.dayOfYear at hle
  omega

/-- `next` preserves validity. -/
theorem Date.next_valid (d : Date) (h : d.Valid) : d.next.Valid := by
  obtain ⟨y, m, dd⟩ := d
  obtain ⟨h1, h2, h3, h4, h5⟩ := h
  replace h1 : 1 ≤ y := h1
  replace h2 : 1 ≤ m := h2
  replace h3 : m ≤ 12 := h3
  replace h4 : 1 ≤ dd := h4
  replace h5 : dd ≤ monthLen y m := h5
  show Date.Valid (if dd < monthLen y m then (⟨y, m, dd + 1⟩ : Date)
    else if m < 12 then (⟨y, m + 1, 1⟩ : Date) else (⟨y + 1, 1, 1⟩ : Date))
  by_cases hlt : dd < monthLen y m
  · rw [if_pos hlt]
    exact ⟨h1, h2, h3, show 1 ≤ dd + 1 by omega, show dd + 1 ≤ monthLen y m by omega⟩
  · rw [if_neg hlt]
    by_cases hm : m < 12
    · rw [if_pos hm]
      exact ⟨h1, show 1 ≤ m + 1 by omega, show m + 1 ≤ 12 by omega, le_rfl,
        monthLen_pos y (m + 1) (by omega) (by omega)⟩
    · rw [if_neg hm]
      exact ⟨show 1 ≤ y + 1 by omega, le_rfl, show (1 : Nat) ≤ 12 by omega, le_rfl,
        show (1 : Nat) ≤ 31 by omega⟩

/-- `next` adds one to the Rata Die number on valid dates. -/
theorem Date.toRD_next (d : Date) (h : d.Valid) : d.next.toRD = d.toRD + 1 := by
  obtain ⟨y, m, dd⟩ := d
  obtain ⟨h1, h2, h3, h4, h5⟩ := h
  replace h1 : 1 ≤ y := h1
  replace h2 : 1 ≤ m := h2
  replace h3 : m ≤ 12 := h3
  replace h4 : 1 ≤ dd := h4
  replace h5 : dd ≤ monthLen y m := h5
  show (if dd < monthLen y m then (⟨y, m, dd + 1⟩ : Date)
    else if m < 12 then (⟨y, m + 1, 1⟩ : Date) else (⟨y + 1, 1, 1⟩ : Date)).toRD =
    daysBeforeYear y + daysBeforeMonth y m + dd + 1
  by_cases hlt : dd < monthLen y m
  · rw [if_pos hlt]
    show daysBeforeYear y + daysBeforeMonth y m + (dd + 1) = _
    omega
  · rw [if_neg hlt]
    have hdd : dd = monthLen y m := by omega
    by_cases hm : m < 12
    · rw [if_pos hm]
      show daysBeforeYear y + daysBeforeMonth y (m + 1) + 1 = _
      have hstep := daysBeforeMonth_succ y m (by omega) (by omega)
      omega
    · rw [if_neg hm]
      have hm12 : m = 12 := by omega
      subst hm12
      show daysBeforeYear (y + 1) + daysBeforeMonth (y + 1) 1 + 1 = _
      have hlast := daysBeforeMonth_last y
      have hsucc := daysBeforeYear_succ y h1
      have h0 : daysBeforeMonth (y + 1) 1 = 0 := rfl
      unfold daysInYear at hlast hsucc
      by_cases hL : isLeap y = true <;> simp [hL] at hlast hsucc <;> omega

/-- A valid date whose Rata Die number lies in year `y`'s range has year
field `y`. -/
theorem year_of_rd (d : Date) (y : Nat) (h : d.Valid) (hy : 1 ≤ y)
    (h1 : daysBeforeYear y < d.toRD) (h2 : d.toRD ≤ daysBeforeYear (y + 1)) :
    d.year = y := by
  obtain ⟨hb1, hb2⟩ := toRD_year_bounds d h
  have hvy : 1 ≤ d.year := h.1
  by_contra hne
  rcases Nat.lt_or_ge d.year y with hlt | hge
  · have hstep := daysBeforeYear_succ d.year hvy
    have hmono := daysBeforeYear_mono (show d.year + 1 ≤ y by omega)
    omega
  · have hmono := daysBeforeYear_mono (show y + 1 ≤ d.year by omega)
    omega

/-- Conversely, a valid date of year `y` has its Rata Die number in the
year's range. -/
theorem rd_of_year (d : Date) (y : Nat) (h : d.Valid) (hy : d.year = y) :
    daysBeforeYear y < d.toRD ∧ d.toRD ≤ daysBeforeYear (y + 1) := by
  obtain ⟨hb1, hb2⟩ := toRD_year_bounds d h
  have hvy : 1 ≤ d.year := h.1
  have hstep := daysBeforeYear_succ d.year hvy
  subst hy
  omega

/-- Length of a filter is monotone in pointwise implication. -/
theorem filter_length_mono {α : Type} (l : List α) (p q : α → Bool)
    (h : ∀ a, q a = true → p a = true) :
    (l.filter q).length ≤ (l.filter p).length := by
  induction l with
  | nil => simp
  | cons a as ih =>
    by_cases hq : q a = true
    · simp [List.filter_cons, hq, h a hq]
      omega
    · have hq' : q a = false := Bool.eq_false_iff.mpr hq
      by_cases hp : p a = true <;>
        simp [List.filter_cons, hq', hp] <;> omega

/-- A filter loses length strictly at any member where the stronger
predicate fails. -/
theorem filter_length_lt {α : Type} (l : List α) (p q : α → Bool)
    (h : ∀ a, q a = true → p a = true) (x : α) (hx : x ∈ l)
    (hpx : p x = true) (hqx : q x = false) :
    (l.filter q).length < (l.filter p).length := by
  induction l with
  | nil => simp at hx
  | cons a as ih =>
    rcases List.mem_cons.mp hx with rfl | hx'
    · have hmono := filter_length_mono as p q h
      simp [List.filter_cons, hpx, hqx]
      omega
    · have hlt := ih hx'
      by_cases hq : q a = true
      · simp [List.filter_cons, hq, h a hq]
        omega
      · have hq' : q a = false := Bool.eq_false_iff.mpr hq
        by_cases hp : p a = true <;>
          simp [List.filter_cons, hq', hp] <;> omega

/-- `eraseDups.loop` length spec: the result never exceeds input plus
accumulator, with equality exactly on duplicate-free input disjoint from
the accumulator. -/
theorem eraseDupsLoop_length_spec (as : List Date) : ∀ bs : List Date,
    (List.eraseDups.loop as bs).length ≤ bs.length + as.length ∧
    ((List.eraseDups.loop as bs).length = bs.length + as.length ↔
      as.Nodup ∧ ∀ a ∈ as, a ∉ bs) := by
  induction as with
  | nil => intro bs; simp [List.eraseDups.loop]
  | cons a as ih =>
    intro bs
    by_cases hmem : a ∈ bs
    · have hstep : List.eraseDups.loop (a :: as) bs = List.eraseDups.loop as bs := by
        simp [List.eraseDups.loop, hmem]
      rw [hstep]
      obtain ⟨h1, _⟩ := ih bs
      simp only [List.length_cons]
      refine ⟨by omega, ?_⟩
      constructor
      · intro heq; exact absurd heq (by omega)
      · rintro ⟨-, hall⟩
        exact absurd hmem (hall a (by simp))
    · have hstep : List.eraseDups.loop (a :: as) bs = List.eraseDups.loop as (a :: bs) := by
        simp [List.eraseDups.loop, hmem]
      rw [hstep]
      obtain ⟨h1, h2⟩ := ih (a :: bs)
      simp only [List.length_cons] at h1 h2 ⊢
      refine ⟨by omega, ?_⟩
      rw [show bs.length + (as.length + 1) = bs.length + 1 + as.length by omega, h2]
      constructor
      · rintro ⟨hnd, hall⟩
        have ha_as : a ∉ as := fun hx => (hall a hx) (by simp)
        refine ⟨by simp [List.nodup_cons, ha_as, hnd], ?_⟩
        intro x hx
        rcases List.mem_cons.mp hx with rfl | hx'
        · exact hmem
        · exact fun hxbs => (hall x hx') (by simp [hxbs])
      · rintro ⟨hnd, hall⟩
        obtain ⟨hna, hnd'⟩ := List.nodup_cons.mp hnd
        refine ⟨hnd', fun x hx hxbs => ?_⟩
        rcases List.mem_cons.mp hxbs with rfl | hxbs'
        · exact hna hx
        · exact (hall x (by simp [hx])) hxbs'

/-- Duplicate-freedom is measured exactly by `eraseDups` preserving the
length, which is how `generate_calendar` tests it. -/
theorem eraseDups_length_eq_iff_nodup (l : List Date) :
    l.eraseDups.length = l.length ↔ l.Nodup := by
  have h := (eraseDupsLoop_length_spec l []).2
  unfold List.eraseDups
  simpa using h

/-- C7: with the random source modelled as a pure function of the seed,
two invocations of `generate_calendar(year, holidays, seed=s)` with the
same seed return identical results — same calendar or same failure. -/
theorem c7_deterministic_same_seed (year : Int) (holidays : List Date)
    (s1 s2 : Nat) (h : s1 = s2) :
    generate_calendar_seeded year holidays s1 = generate_calendar_seeded year holidays s2 := by
  rw [h]

/-- Witness for C7 at year 2025, no holidays, seed 42. -/
theorem c7_deterministic_same_seed_witness :
    generate_calendar_seeded 2025 [] 42 = generate_calendar_seeded 2025 [] 42 :=
  c7_deterministic_same_seed 2025 [] 42 42 rfl

/-- C10: constructing `Calendar(year, days)` raises `ValueError` exactly
when `days` is empty (that error first) or some day has a different year;
any other day list — missing, duplicated or out-of-order dates — is
accepted unchanged. -/
theorem c10_calendar_construction (y : Nat) (days : List Day) :
    ((∃ e, mkCalendar y days = .error e) ↔ days = [] ∨ ∃ d ∈ days, d.date.year ≠ y) ∧
    (mkCalendar y days = .error .calendarEmpty ↔ days = []) ∧
    (∀ c, mkCalendar y days = .ok c → c = ⟨y, days⟩) := by
  unfold mkCalendar
  by_cases hempty : days.isEmpty
  · rw [List.isEmpty_iff] at hempty
    subst hempty
    simp
  · rw [List.isEmpty_iff] at hempty
    by_cases hall : days.all (fun d => d.date.year == y)
    · rw [List.all_eq_true] at hall
      have hnone : ¬ ∃ d ∈ days, d.date.year ≠ y := by
        rintro ⟨d, hd, hne⟩
        exact hne (by simpa using hall d hd)
      simp [hempty, List.all_eq_true, hnone]
    · have hsome : ∃ d ∈ days, d.date.year ≠ y := by
        by_contra hno
        push_neg at hno
        exact hall (List.all_eq_true.mpr (fun d hd => by simp [hno d hd]))
      have hallf : (days.all fun d => d.date.year == y) = false :=
        Bool.eq_false_iff.mpr hall
      have hemptyf : days.isEmpty = false := by
        simpa [List.isEmpty_iff] using hempty
      simp [hemptyf, hallf, hempty, hsome]

/-- Witness for C10: an out-of-order, duplicated day list of the right
year is accepted unchanged, and the empty list gives the empty-days
error. -/
theorem c10_calendar_construction_witness :
    mkCalendar 2025 [mkD 5 10 .WORK, mkD 1 1 .REST, mkD 5 10 .WORK] =
      .ok ⟨2025, [mkD 5 10 .WORK, mkD 1 1 .REST, mkD 5 10 .WORK]⟩ ∧
    mkCalendar 2025 ([] : List Day) = .error .calendarEmpty := by
  constructor
  · have h := c10_calendar_construction 2025 [mkD 5 10 .WORK, mkD 1 1 .REST, mkD 5 10 .WORK]
    cases hr : mkCalendar 2025 [mkD 5 10 .WORK, mkD 1 1 .REST, mkD 5 10 .WORK] with
    | ok c => rw [h.2.2 c hr]
    | error e =>
      exfalso
      rcases h.1.mp ⟨e, hr⟩ with h' | ⟨d, hd, hne⟩
      · simp at h'
      · simp at hd
        rcases hd with rfl | rfl | rfl <;> exact hne rfl
  · exact (c10_calendar_construction 2025 []).2.1.mpr rfl

/-- C8: `generate_calendar` fails before any building exactly on the three
input checks — year below 1 (`Invalid year`), a holiday outside the target
year, a duplicate holiday (`Duplicate holidays found`) — in that order;
with year ≥ 1 and in-year duplicate-free holidays all three checks pass
and the classifier/builder pipeline runs. -/
theorem c8_input_validation (year : Int) (holidays : List Date) (rng : Rng) :
    (year < 1 → generate_calendar year holidays rng = .error (.invalidYear year)) ∧
    (1 ≤ year → (∃ h ∈ holidays, h.year ≠ year.toNat) →
      generate_calendar year holidays rng = .error .holidaysWrongYear) ∧
    (1 ≤ year → (∀ h ∈ holidays, h.year = year.toNat) → ¬ holidays.Nodup →
      generate_calendar year holidays rng = .error .duplicateHolidays) ∧
    (1 ≤ year → (∀ h ∈ holidays, h.year = year.toNat) → holidays.Nodup →
      generate_calendar year holidays rng = generate_pipeline year.toNat holidays rng) := by
  unfold generate_calendar
  refine ⟨fun hy => by simp [hy], ?_, ?_, ?_⟩
  · rintro hy ⟨h0, hmem, hne⟩
    have hy' : ¬ year < 1 := by omega
    have hne' : holidays ≠ [] := by rintro rfl; simp at hmem
    have hallf : (holidays.all fun h => h.year == year.toNat) = false := by
      refine Bool.eq_false_iff.mpr (fun hall => ?_)
      exact hne (by simpa using List.all_eq_true.mp hall h0 hmem)
    simp [hy', hallf, List.isEmpty_iff, hne']
  · rintro hy hall hdup
    have hy' : ¬ year < 1 := by omega
    have hallt : (holidays.all fun h => h.year == year.toNat) = true :=
      List.all_eq_true.mpr (fun h hmem => by simp [hall h hmem])
    have hlen : holidays.length ≠ holidays.eraseDups.length := fun he =>
      hdup ((eraseDups_length_eq_iff_nodup holidays).mp he.symm)
    simp [hy', hallt, hlen]
  · rintro hy hall hnd
    have hy' : ¬ year < 1 := by omega
    have hallt : (holidays.all fun h => h.year == year.toNat) = true :=
      List.all_eq_true.mpr (fun h hmem => by simp [hall h hmem])
    have hlen : holidays.length = holidays.eraseDups.length :=
      ((eraseDups_length_eq_iff_nodup holidays).mpr hnd).symm
    simp [hy', hallt, hlen]

/-- Witness for C8: each branch at a concrete input. -/
theorem c8_input_validation_witness :
    generate_calendar 0 [] zeroRng = .error (.invalidYear 0) ∧
    generate_calendar 2025 [⟨2024, 1, 1⟩] zeroRng = .error .holidaysWrongYear ∧
    generate_calendar 2025 [⟨2025, 1, 1⟩, ⟨2025, 1, 1⟩] zeroRng = .error .duplicateHolidays ∧
    generate_calendar 2025 [⟨2025, 3, 4⟩] zeroRng = generate_pipeline 2025 [⟨2025, 3, 4⟩] zeroRng := by
  refine ⟨(c8_input_validation 0 [] zeroRng).1 (by decide),
    (c8_input_validation 2025 [⟨2024, 1, 1⟩] zeroRng).2.1 (by decide)
      ⟨⟨2024, 1, 1⟩, by simp, by decide⟩,
    (c8_input_validation 2025 [⟨2025, 1, 1⟩, ⟨2025, 1, 1⟩] zeroRng).2.2.1 (by decide)
      (by decide) (by decide),
    (c8_input_validation 2025 [⟨2025, 3, 4⟩] zeroRng).2.2.2 (by decide)
      (by decide) (by decide)⟩

/-! ## The witness run, stepped

The run `generate_calendar 2025 [holidayJan7] witnessRng` is evaluated
one build-loop iteration at a time, then fed through the wrapper and the
validator rule by rule. -/

/-- One-step unfolding of the outer build loop at positive fuel. -/
theorem build_loop_succ (f : Nat) (year : Nat) (hm : HolidayMap)
    (s : ScheduleState) (rng : Rng) :
    build_loop (f + 1) year hm s rng =
      if s.current_date.year == year then
        if hmContains hm s.current_date then
          build_loop f year hm (place_holiday s hm) rng
        else
          match place_work_block s hm rng with
          | .error e => .error e
          | .ok (s2, rng2) =>
            if s2.current_date.year == year then
              match place_rest_block s2 hm with
              | .error e => .error e
              | .ok s3 => build_loop f year hm s3 rng2
            else build_loop f year hm s2 rng2
      else .ok s.days_so_far := rfl

/-- Dropping the consumed head renormalises a replayed stream. -/
theorem rngOfList_shift (a : Nat) (l : List Nat) :
    (fun n => rngOfList (a :: l) (n + 1)) = rngOfList l :=
  funext fun n => rfl

set_option maxRecDepth 4000 in
set_option maxHeartbeats 1000000 in
/-- Iteration 0 of the witness run: one work block and its rest block. -/
theorem buildStep0 : build_loop 367 2025 hmJan7 bst0 (rngOfList [0, 0, 0, 3, 4, 0, 0, 3, 4, 0, 0, 1, 3, 4, 0, 0, 3, 4, 0, 0, 1, 3, 4, 0, 0, 3, 4, 0, 0, 3, 4, 0, 0, 1, 3, 4, 0, 0, 3, 4, 0, 0, 3, 4, 0, 0, 1, 3, 4, 0, 0, 0, 2]) =
    build_loop 366 2025 hmJan7 bst1 (rngOfList [0, 0, 3, 4, 0, 0, 3, 4, 0, 0, 1, 3, 4, 0, 0, 3, 4, 0, 0, 1, 3, 4, 0, 0, 3, 4, 0, 0, 3, 4, 0, 0, 1, 3, 4, 0, 0, 3, 4, 0, 0, 3, 4, 0, 0, 1, 3, 4, 0, 0, 0, 2]) := by
  have hpw : place_work_block bst0 hmJan7 (rngOfList [0, 0, 0, 3, 4, 0, 0, 3, 4, 0, 0, 1, 3, 4, 0, 0, 3, 4, 0, 0, 1, 3, 4, 0, 0, 3, 4, 0, 0, 3, 4, 0, 0, 1, 3, 4, 0, 0, 3, 4, 0, 0, 3, 4, 0, 0, 1, 3, 4, 0, 0, 0, 2]) =
      Except.ok ((bmid0 : ScheduleState), fun n => rngOfList [0, 0, 0, 3, 4, 0, 0, 3, 4, 0, 0, 1, 3, 4, 0, 0, 3, 4, 0, 0, 1, 3, 4, 0, 0, 3, 4, 0, 0, 3, 4, 0, 0, 1, 3, 4, 0, 0, 3, 4, 0, 0, 3, 4, 0, 0, 1, 3, 4, 0, 0, 0, 2] (n + 1)) := rfl
  have hpr : place_rest_block bmid0 hmJan7 = Except.ok bst1 := rfl
  rw [show (367 : Nat) = 366 + 1 from rfl, build_loop_succ,
    if_pos (show ((bst0.current_date.year == 2025) = true) from rfl),
    show hmContains hmJan7 bst0.current_date = false from rfl,
    if_neg Bool.false_ne_true, hpw]
  show (if bmid0.current_date.year == 2025 then
      (match place_rest_block bmid0 hmJan7 with
       | Except.error e => (Except.error e : Except GenError (List Day))
       | Except.ok s3 => build_loop 366 2025 hmJan7 s3 (fun n => rngOfList [0, 0, 0, 3, 4, 0, 0, 3, 4, 0, 0, 1, 3, 4, 0, 0, 3, 4, 0, 0, 1, 3, 4, 0, 0, 3, 4, 0, 0, 3, 4, 0, 0, 1, 3, 4, 0, 0, 3, 4, 0, 0, 3, 4, 0, 0, 1, 3, 4, 0, 0, 0, 2] (n + 1)))
    else build_loop 366 2025 hmJan7 bmid0 (fun n => rngOfList [0, 0, 0, 3, 4, 0, 0, 3, 4, 0, 0, 1, 3, 4, 0, 0, 3, 4, 0, 0, 1, 3, 4, 0, 0, 3, 4, 0, 0, 3, 4, 0, 0, 1, 3, 4, 0, 0, 3, 4, 0, 0, 3, 4, 0, 0, 1, 3, 4, 0, 0, 0, 2] (n + 1)))
    = build_loop 366 2025 hmJan7 bst1 (rngOfList [0, 0, 3, 4, 0, 0, 3, 4, 0, 0, 1, 3, 4, 0, 0, 3, 4, 0, 0, 1, 3, 4, 0, 0, 3, 4, 0, 0, 3, 4, 0, 0, 1, 3, 4, 0, 0, 3, 4, 0, 0, 3, 4, 0, 0, 1, 3, 4, 0, 0, 0, 2])
  rw [if_pos (show ((bmid0.current_date.year == 2025) = true) from rfl), hpr]
  show build_loop 366 2025 hmJan7 bst1 (fun n => rngOfList [0, 0, 0, 3, 4, 0, 0, 3, 4, 0, 0, 1, 3, 4, 0, 0, 3, 4, 0, 0, 1, 3, 4, 0, 0, 3, 4, 0, 0, 3, 4, 0, 0, 1, 3, 4, 0, 0, 3, 4, 0, 0, 3, 4, 0, 0, 1, 3, 4, 0, 0, 0, 2] (n + 1)) =
    build_loop 366 2025 hmJan7 bst1 (rngOfList [0, 0, 3, 4, 0, 0, 3, 4, 0, 0, 1, 3, 4, 0, 0, 3, 4, 0, 0, 1, 3, 4, 0, 0, 3, 4, 0, 0, 3, 4, 0, 0, 1, 3, 4, 0, 0, 3, 4, 0, 0, 3, 4, 0, 0, 1, 3, 4, 0, 0, 0, 2])
  rw [rngOfList_shift]

set_option maxRecDepth 4000 in
set_option maxHeartbeats 1000000 in
/-- Iteration 1 of the witness run: one work block and its rest block. -/
theorem buildStep1 : build_loop 366 2025 hmJan7 bst1 (rngOfList [0, 0, 3, 4, 0, 0, 3, 4, 0, 0, 1, 3, 4, 0, 0, 3, 4, 0, 0, 1, 3, 4, 0, 0, 3, 4, 0, 0, 3, 4, 0, 0, 1, 3, 4, 0, 0, 3, 4, 0, 0, 3, 4, 0, 0, 1, 3, 4, 0, 0, 0, 2]) =
    build_loop 365 2025 hmJan7 bst2 (rngOfList [0, 3, 4, 0, 0, 3, 4, 0, 0, 1, 3, 4, 0, 0, 3, 4, 0, 0, 1, 3, 4, 0, 0, 3, 4, 0, 0, 3, 4, 0, 0, 1, 3, 4, 0, 0, 3, 4, 0, 0, 3, 4, 0, 0, 1, 3, 4, 0, 0, 0, 2]) := by
  have hpw : place_work_block bst1 hmJan7 (rngOfList [0, 0, 3, 4, 0, 0, 3, 4, 0, 0, 1, 3, 4, 0, 0, 3, 4, 0, 0, 1, 3, 4, 0, 0, 3, 4, 0, 0, 3, 4, 0, 0, 1, 3, 4, 0, 0, 3, 4, 0, 0, 3, 4, 0, 0, 1, 3, 4, 0, 0, 0, 2]) =
      Except.ok ((bmid1 : ScheduleState), fun n => rngOfList [0, 0, 3, 4, 0, 0, 3, 4, 0, 0, 1, 3, 4, 0, 0, 3, 4, 0, 0, 1, 3, 4, 0, 0, 3, 4, 0, 0, 3, 4, 0, 0, 1, 3, 4, 0, 0, 3, 4, 0, 0, 3, 4, 0, 0, 1, 3, 4, 0, 0, 0, 2] (n + 1)) := rfl
  have hpr : place_rest_block bmid1 hmJan7 = Except.ok bst2 := rfl
  rw [show (366 : Nat) = 365 + 1 from rfl, build_loop_succ,
    if_pos (show ((bst1.current_date.year == 2025) = true) from rfl),
    show hmContains hmJan7 bst1.current_date = false from rfl,
    if_neg Bool.false_ne_true, hpw]
  show (if bmid1.current_date.year == 2025 then
      (match place_rest_block bmid1 hmJan7 with
       | Except.error e => (Except.error e : Except GenError (List Day))
       | Except.ok s3 => build_loop 365 2025 hmJan7 s3 (fun n => rngOfList [0, 0, 3, 4, 0, 0, 3, 4, 0, 0, 1, 3, 4, 0, 0, 3, 4, 0, 0, 1, 3, 4, 0, 0, 3, 4, 0, 0, 3, 4, 0, 0, 1, 3, 4, 0, 0, 3, 4, 0, 0, 3, 4, 0, 0, 1, 3, 4, 0, 0, 0, 2] (n + 1)))
    else build_loop 365 2025 hmJan7 bmid1 (fun n => rngOfList [0, 0, 3, 4, 0, 0, 3, 4, 0, 0, 1, 3, 4, 0, 0, 3, 4, 0, 0, 1, 3, 4, 0, 0, 3, 4, 0, 0, 3, 4, 0, 0, 1, 3, 4, 0, 0, 3, 4, 0, 0, 3, 4, 0, 0, 1, 3, 4, 0, 0, 0, 2] (n + 1)))
    = build_loop 365 2025 hmJan7 bst2 (rngOfList [0, 3, 4, 0, 0, 3, 4, 0, 0, 1, 3, 4, 0, 0, 3, 4, 0, 0, 1, 3, 4, 0, 0, 3, 4, 0, 0, 3, 4, 0, 0, 1, 3, 4, 0, 0, 3, 4, 0, 0, 3, 4, 0, 0, 1, 3, 4, 0, 0, 0, 2])
  rw [if_pos (show ((bmid1.current_date.year == 2025) = true) from rfl), hpr]
  show build_loop 365 2025 hmJan7 bst2 (fun n => rngOfList [0, 0, 3, 4, 0, 0, 3, 4, 0, 0, 1, 3, 4, 0, 0, 3, 4, 0, 0, 1, 3, 4, 0, 0, 3, 4, 0, 0, 3, 4, 0, 0, 1, 3, 4, 0, 0, 3, 4, 0, 0, 3, 4, 0, 0, 1, 3, 4, 0, 0, 0, 2] (n + 1)) =
    build_loop 365 2025 hmJan7 bst2 (rngOfList [0, 3, 4, 0, 0, 3, 4, 0, 0, 1, 3, 4, 0, 0, 3, 4, 0, 0, 1, 3, 4, 0, 0, 3, 4, 0, 0, 3, 4, 0, 0, 1, 3, 4, 0, 0, 3, 4, 0, 0, 3, 4, 0, 0, 1, 3, 4, 0, 0, 0, 2])
  rw [rngOfList_shift]

set_option maxRecDepth 4000 in
set_option maxHeartbeats 1000000 in
/-- Iteration 2 of the witness run: one work block and its rest block. -/
theorem buildStep2 : build_loop 365 2025 hmJan7 bst2 (rngOfList [0, 3, 4, 0, 0, 3, 4, 0, 0, 1, 3, 4, 0, 0, 3, 4, 0, 0, 1, 3, 4, 0, 0, 3, 4, 0, 0, 3, 4, 0, 0, 1, 3, 4, 0, 0, 3, 4, 0, 0, 3, 4, 0, 0, 1, 3, 4, 0, 0, 0, 2]) =
    build_loop 364 2025 hmJan7 bst3 (rngOfList [3, 4, 0, 0, 3, 4, 0, 0, 1, 3, 4, 0, 0, 3, 4, 0, 0, 1, 3, 4, 0, 0, 3, 4, 0, 0, 3, 4, 0, 0, 1, 3, 4, 0, 0, 3, 4, 0, 0, 3, 4, 0, 0, 1, 3, 4, 0, 0, 0, 2]) := by
  have hpw : place_work_block bst2 hmJan7 (rngOfList [0, 3, 4, 0, 0, 3, 4, 0, 0, 1, 3, 4, 0, 0, 3, 4, 0, 0, 1, 3, 4, 0, 0, 3, 4, 0, 0, 3, 4, 0, 0, 1, 3, 4, 0, 0, 3, 4, 0, 0, 3, 4, 0, 0, 1, 3, 4, 0, 0, 0, 2]) =
      Except.ok ((bmid2 : ScheduleState), fun n => rngOfList [0, 3, 4, 0, 0, 3, 4, 0, 0, 1, 3, 4, 0, 0, 3, 4, 0, 0, 1, 3, 4, 0, 0, 3, 4, 0, 0, 3, 4, 0, 0, 1, 3, 4, 0, 0, 3, 4, 0, 0, 3, 4, 0, 0, 1, 3, 4, 0, 0, 0, 2] (n + 1)) := rfl
  have hpr : place_rest_block bmid2 hmJan7 = Except.ok bst3 := rfl
  rw [show (365 : Nat) = 364 + 1 from rfl, build_loop_succ,
    if_pos (show ((bst2.current_date.year == 2025) = true) from rfl),
    show hmContains hmJan7 bst2.current_date = false from rfl,
    if_neg Bool.false_ne_true, hpw]
  show (if bmid2.current_date.year == 2025 then
      (match place_rest_block bmid2 hmJan7 with
       | Except.error e => (Except.error e : Except GenError (List Day))
       | Except.ok s3 => build_loop 364 2025 hmJan7 s3 (fun n => rngOfList [0, 3, 4, 0, 0, 3, 4, 0, 0, 1, 3, 4, 0, 0, 3, 4, 0, 0, 1, 3, 4, 0, 0, 3, 4, 0, 0, 3, 4, 0, 0, 1, 3, 4, 0, 0, 3, 4, 0, 0, 3, 4, 0, 0, 1, 3, 4, 0, 0, 0, 2] (n + 1)))
    else build_loop 364 2025 hmJan7 bmid2 (fun n => rngOfList [0, 3, 4, 0, 0, 3, 4, 0, 0, 1, 3, 4, 0, 0, 3, 4, 0, 0, 1, 3, 4, 0, 0, 3, 4, 0, 0, 3, 4, 0, 0, 1, 3, 4, 0, 0, 3, 4, 0, 0, 3, 4, 0, 0, 1, 3, 4, 0, 0, 0, 2] (n + 1)))
    = build_loop 364 2025 hmJan7 bst3 (rngOfList [3, 4, 0, 0, 3, 4, 0, 0, 1, 3, 4, 0, 0, 3, 4, 0, 0, 1, 3, 4, 0, 0, 3, 4, 0, 0, 3, 4, 0, 0, 1, 3, 4, 0, 0, 3, 4, 0, 0, 3, 4, 0, 0, 1, 3, 4, 0, 0, 0, 2])
  rw [if_pos (show ((bmid2.current_date.year == 2025) = true) from rfl), hpr]
  show build_loop 364 2025 hmJan7 bst3 (fun n => rngOfList [0, 3, 4, 0, 0, 3, 4, 0, 0, 1, 3, 4, 0, 0, 3, 4, 0, 0, 1, 3, 4, 0, 0, 3, 4, 0, 0, 3, 4, 0, 0, 1, 3, 4, 0, 0, 3, 4, 0, 0, 3, 4, 0, 0, 1, 3, 4, 0, 0, 0, 2] (n + 1)) =
    build_loop 364 2025 hmJan7 bst3 (rngOfList [3, 4, 0, 0, 3, 4, 0, 0, 1, 3, 4, 0, 0, 3, 4, 0, 0, 1, 3, 4, 0, 0, 3, 4, 0, 0, 3, 4, 0, 0, 1, 3, 4, 0, 0, 3, 4, 0, 0, 3, 4, 0, 0, 1, 3, 4, 0, 0, 0, 2])
  rw [rngOfList_shift]

set_option maxRecDepth 4000 in
set_option maxHeartbeats 1000000 in
/-- Iteration 3 of the witness run: one work block and its rest block. -/
theorem buildStep3 : build_loop 364 2025 hmJan7 bst3 (rngOfList [3, 4, 0, 0, 3, 4, 0, 0, 1, 3, 4, 0, 0, 3, 4, 0, 0, 1, 3, 4, 0, 0, 3, 4, 0, 0, 3, 4, 0, 0, 1, 3, 4, 0, 0, 3, 4, 0, 0, 3, 4, 0, 0, 1, 3, 4, 0, 0, 0, 2]) =
    build_loop 363 2025 hmJan7 bst4 (rngOfList [4, 0, 0, 3, 4, 0, 0, 1, 3, 4, 0, 0, 3, 4, 0, 0, 1, 3, 4, 0, 0, 3, 4, 0, 0, 3, 4, 0, 0, 1, 3, 4, 0, 0, 3, 4, 0, 0, 3, 4, 0, 0, 1, 3, 4, 0, 0, 0, 2]) := by
  have hpw : place_work_block bst3 hmJan7 (rngOfList [3, 4, 0, 0, 3, 4, 0, 0, 1, 3, 4, 0, 0, 3, 4, 0, 0, 1, 3, 4, 0, 0, 3, 4, 0, 0, 3, 4, 0, 0, 1, 3, 4, 0, 0, 3, 4, 0, 0, 3, 4, 0, 0, 1, 3, 4, 0, 0, 0, 2]) =
      Except.ok ((bmid3 : ScheduleState), fun n => rngOfList [3, 4, 0, 0, 3, 4, 0, 0, 1, 3, 4, 0, 0, 3, 4, 0, 0, 1, 3, 4, 0, 0, 3, 4, 0, 0, 3, 4, 0, 0, 1, 3, 4, 0, 0, 3, 4, 0, 0, 3, 4, 0, 0, 1, 3, 4, 0, 0, 0, 2] (n + 1)) := rfl
  have hpr : place_rest_block bmid3 hmJan7 = Except.ok bst4 := rfl
  rw [show (364 : Nat) = 363 + 1 from rfl, build_loop_succ,
    if_pos (show ((bst3.current_date.year == 2025) = true) from rfl),
    show hmContains hmJan7 bst3.current_date = false from rfl,
    if_neg Bool.false_ne_true, hpw]
  show (if bmid3.current_date.year == 2025 then
      (match place_rest_block bmid3 hmJan7 with
       | Except.error e => (Except.error e : Except GenError (List Day))
       | Except.ok s3 => build_loop 363 2025 hmJan7 s3 (fun n => rngOfList [3, 4, 0, 0, 3, 4, 0, 0, 1, 3, 4, 0, 0, 3, 4, 0, 0, 1, 3, 4, 0, 0, 3, 4, 0, 0, 3, 4, 0, 0, 1, 3, 4, 0, 0, 3, 4, 0, 0, 3, 4, 0, 0, 1, 3, 4, 0, 0, 0, 2] (n + 1)))
    else build_loop 363 2025 hmJan7 bmid3 (fun n => rngOfList [3, 4, 0, 0, 3, 4, 0, 0, 1, 3, 4, 0, 0, 3, 4, 0, 0, 1, 3, 4, 0, 0, 3, 4, 0, 0, 3, 4, 0, 0, 1, 3, 4, 0, 0, 3, 4, 0, 0, 3, 4, 0, 0, 1, 3, 4, 0, 0, 0, 2] (n + 1)))
    = build_loop 363 2025 hmJan7 bst4 (rngOfList [4, 0, 0, 3, 4, 0, 0, 1, 3, 4, 0, 0, 3, 4, 0, 0, 1, 3, 4, 0, 0, 3, 4, 0, 0, 3, 4, 0, 0, 1, 3, 4, 0, 0, 3, 4, 0, 0, 3, 4, 0, 0, 1, 3, 4, 0, 0, 0, 2])
  rw [if_pos (show ((bmid3.current_date.year == 2025) = true) from rfl), hpr]
  show build_loop 363 2025 hmJan7 bst4 (fun n => rngOfList [3, 4, 0, 0, 3, 4, 0, 0, 1, 3, 4, 0, 0, 3, 4, 0, 0, 1, 3, 4, 0, 0, 3, 4, 0, 0, 3, 4, 0, 0, 1, 3, 4, 0, 0, 3, 4, 0, 0, 3, 4, 0, 0, 1, 3, 4, 0, 0, 0, 2] (n + 1)) =
    build_loop 363 2025 hmJan7 bst4 (rngOfList [4, 0, 0, 3, 4, 0, 0, 1, 3, 4, 0, 0, 3, 4, 0, 0, 1, 3, 4, 0, 0, 3, 4, 0, 0, 3, 4, 0, 0, 1, 3, 4, 0, 0, 3, 4, 0, 0, 3, 4, 0, 0, 1, 3, 4, 0, 0, 0, 2])
  rw [rngOfList_shift]

set_option maxRecDepth 4000 in
set_option maxHeartbeats 1000000 in
/-- Iteration 4 of the witness run: one work block and its rest block. -/
theorem buildStep4 : build_loop 363 2025 hmJan7 bst4 (rngOfList [4, 0, 0, 3, 4, 0, 0, 1, 3, 4, 0, 0, 3, 4, 0, 0, 1, 3, 4, 0, 0, 3, 4, 0, 0, 3, 4, 0, 0, 1, 3, 4, 0, 0, 3, 4, 0, 0, 3, 4, 0, 0, 1, 3, 4, 0, 0, 0, 2]) =
    build_loop 362 2025 hmJan7 bst5 (rngOfList [0, 0, 3, 4, 0, 0, 1, 3, 4, 0, 0, 3, 4, 0, 0, 1, 3, 4, 0, 0, 3, 4, 0, 0, 3, 4, 0, 0, 1, 3, 4, 0, 0, 3, 4, 0, 0, 3, 4, 0, 0, 1, 3, 4, 0, 0, 0, 2]) := by
  have hpw : place_work_block bst4 hmJan7 (rngOfList [4, 0, 0, 3, 4, 0, 0, 1, 3, 4, 0, 0, 3, 4, 0, 0, 1, 3, 4, 0, 0, 3, 4, 0, 0, 3, 4, 0, 0, 1, 3, 4, 0, 0, 3, 4, 0, 0, 3, 4, 0, 0, 1, 3, 4, 0, 0, 0, 2]) =
      Except.ok ((bmid4 : ScheduleState), fun n => rngOfList [4, 0, 0, 3, 4, 0, 0, 1, 3, 4, 0, 0, 3, 4, 0, 0, 1, 3, 4, 0, 0, 3, 4, 0, 0, 3, 4, 0, 0, 1, 3, 4, 0, 0, 3, 4, 0, 0, 3, 4, 0, 0, 1, 3, 4, 0, 0, 0, 2] (n + 1)) := rfl
  have hpr : place_rest_block bmid4 hmJan7 = Except.ok bst5 := rfl
  rw [show (363 : Nat) = 362 + 1 from rfl, build_loop_succ,
    if_pos (show ((bst4.current_date.year == 2025) = true) from rfl),
    show hmContains hmJan7 bst4.current_date = false from rfl,
    if_neg Bool.false_ne_true, hpw]
  show (if bmid4.current_date.year == 2025 then
      (match place_rest_block bmid4 hmJan7 with
       | Except.error e => (Except.error e : Except GenError (List Day))
       | Except.ok s3 => build_loop 362 2025 hmJan7 s3 (fun n => rngOfList [4, 0, 0, 3, 4, 0, 0, 1, 3, 4, 0, 0, 3, 4, 0, 0, 1, 3, 4, 0, 0, 3, 4, 0, 0, 3, 4, 0, 0, 1, 3, 4, 0, 0, 3, 4, 0, 0, 3, 4, 0, 0, 1, 3, 4, 0, 0, 0, 2] (n + 1)))
    else build_loop 362 2025 hmJan7 bmid4 (fun n => rngOfList [4, 0, 0, 3, 4, 0, 0, 1, 3, 4, 0, 0, 3, 4, 0, 0, 1, 3, 4, 0, 0, 3, 4, 0, 0, 3, 4, 0, 0, 1, 3, 4, 0, 0, 3, 4, 0, 0, 3, 4, 0, 0, 1, 3, 4, 0, 0, 0, 2] (n + 1)))
    = build_loop 362 2025 hmJan7 bst5 (rngOfList [0, 0, 3, 4, 0, 0, 1, 3, 4, 0, 0, 3, 4, 0, 0, 1, 3, 4, 0, 0, 3, 4, 0, 0, 3, 4, 0, 0, 1, 3, 4, 0, 0, 3, 4, 0, 0, 3, 4, 0, 0, 1, 3, 4, 0, 0, 0, 2])
  rw [if_pos (show ((bmid4.current_date.year == 2025) = true) from rfl), hpr]
  show build_loop 362 2025 hmJan7 bst5 (fun n => rngOfList [4, 0, 0, 3, 4, 0, 0, 1, 3, 4, 0, 0, 3, 4, 0, 0, 1, 3, 4, 0, 0, 3, 4, 0, 0, 3, 4, 0, 0, 1, 3, 4, 0, 0, 3, 4, 0, 0, 3, 4, 0, 0, 1, 3, 4, 0, 0, 0, 2] (n + 1)) =
    build_loop 362 2025 hmJan7 bst5 (rngOfList [0, 0, 3, 4, 0, 0, 1, 3, 4, 0, 0, 3, 4, 0, 0, 1, 3, 4, 0, 0, 3, 4, 0, 0, 3, 4, 0, 0, 1, 3, 4, 0, 0, 3, 4, 0, 0, 3, 4, 0, 0, 1, 3, 4, 0, 0, 0, 2])
  rw [rngOfList_shift]

set_option maxRecDepth 4000 in
set_option maxHeartbeats 1000000 in
/-- Iteration 5 of the witness run: one work block and its rest block. -/
theorem buildStep5 : build_loop 362 2025 hmJan7 bst5 (rngOfList [0, 0, 3, 4, 0, 0, 1, 3, 4, 0, 0, 3, 4, 0, 0, 1, 3, 4, 0, 0, 3, 4, 0, 0, 3, 4, 0, 0, 1, 3, 4, 0, 0, 3, 4, 0, 0, 3, 4, 0, 0, 1, 3, 4, 0, 0, 0, 2]) =
    build_loop 361 2025 hmJan7 bst6 (rngOfList [0, 3, 4, 0, 0, 1, 3, 4, 0, 0, 3, 4, 0, 0, 1, 3, 4, 0, 0, 3, 4, 0, 0, 3, 4, 0, 0, 1, 3, 4, 0, 0, 3, 4, 0, 0, 3, 4, 0, 0, 1, 3, 4, 0, 0, 0, 2]) := by
  have hpw : place_work_block bst5 hmJan7 (rngOfList [0, 0, 3, 4, 0, 0, 1, 3, 4, 0, 0, 3, 4, 0, 0, 1, 3, 4, 0, 0, 3, 4, 0, 0, 3, 4, 0, 0, 1, 3, 4, 0, 0, 3, 4, 0, 0, 3, 4, 0, 0, 1, 3, 4, 0, 0, 0, 2]) =
      Except.ok ((bmid5 : ScheduleState), fun n => rngOfList [0, 0, 3, 4, 0, 0, 1, 3, 4, 0, 0, 3, 4, 0, 0, 1, 3, 4, 0, 0, 3, 4, 0, 0, 3, 4, 0, 0, 1, 3, 4, 0, 0, 3, 4, 0, 0, 3, 4, 0, 0, 1, 3, 4, 0, 0, 0, 2] (n + 1)) := rfl
  have hpr : place_rest_block bmid5 hmJan7 = Except.ok bst6 := rfl
  rw [show (362 : Nat) = 361 + 1 from rfl, build_loop_succ,
    if_pos (show ((bst5.current_date.year == 2025) = true) from rfl),
    show hmContains hmJan7 bst5.current_date = false from rfl,
    if_neg Bool.false_ne_true, hpw]
  show (if bmid5.current_date.year == 2025 then
      (match place_rest_block bmid5 hmJan7 with
       | Except.error e => (Except.error e : Except GenError (List Day))
       | Except.ok s3 => build_loop 361 2025 hmJan7 s3 (fun n => rngOfList [0, 0, 3, 4, 0, 0, 1, 3, 4, 0, 0, 3, 4, 0, 0, 1, 3, 4, 0, 0, 3, 4, 0, 0, 3, 4, 0, 0, 1, 3, 4, 0, 0, 3, 4, 0, 0, 3, 4, 0, 0, 1, 3, 4, 0, 0, 0, 2] (n + 1)))
    else build_loop 361 2025 hmJan7 bmid5 (fun n => rngOfList [0, 0, 3, 4, 0, 0, 1, 3, 4, 0, 0, 3, 4, 0, 0, 1, 3, 4, 0, 0, 3, 4, 0, 0, 3, 4, 0, 0, 1, 3, 4, 0, 0, 3, 4, 0, 0, 3, 4, 0, 0, 1, 3, 4, 0, 0, 0, 2] (n + 1)))
    = build_loop 361 2025 hmJan7 bst6 (rngOfList [0, 3, 4, 0, 0, 1, 3, 4, 0, 0, 3, 4, 0, 0, 1, 3, 4, 0, 0, 3, 4, 0, 0, 3, 4, 0, 0, 1, 3, 4, 0, 0, 3, 4, 0, 0, 3, 4, 0, 0, 1, 3, 4, 0, 0, 0, 2])
  rw [if_pos (show ((bmid5.current_date.year == 2025) = true) from rfl), hpr]
  show build_loop 361 2025 hmJan7 bst6 (fun n => rngOfList [0, 0, 3, 4, 0, 0, 1, 3, 4, 0, 0, 3, 4, 0, 0, 1, 3, 4, 0, 0, 3, 4, 0, 0, 3, 4, 0, 0, 1, 3, 4, 0, 0, 3, 4, 0, 0, 3, 4, 0, 0, 1, 3, 4, 0, 0, 0, 2] (n + 1)) =
    build_loop 361 2025 hmJan7 bst6 (rngOfList [0, 3, 4, 0, 0, 1, 3, 4, 0, 0, 3, 4, 0, 0, 1, 3, 4, 0, 0, 3, 4, 0, 0, 3, 4, 0, 0, 1, 3, 4, 0, 0, 3, 4, 0, 0, 3, 4, 0, 0, 1, 3, 4, 0, 0, 0, 2])
  rw [rngOfList_shift]

set_option maxRecDepth 4000 in
set_option maxHeartbeats 1000000 in
/-- Iteration 6 of the witness run: one work block and its rest block. -/
theorem buildStep6 : build_loop 361 2025 hmJan7 bst6 (rngOfList [0, 3, 4, 0, 0, 1, 3, 4, 0, 0, 3, 4, 0, 0, 1, 3, 4, 0, 0, 3, 4, 0, 0, 3, 4, 0, 0, 1, 3, 4, 0, 0, 3, 4, 0, 0, 3, 4, 0, 0, 1, 3, 4, 0, 0, 0, 2]) =
    build_loop 360 2025 hmJan7 bst7 (rngOfList [3, 4, 0, 0, 1, 3, 4, 0, 0, 3, 4, 0, 0, 1, 3, 4, 0, 0, 3, 4, 0, 0, 3, 4, 0, 0, 1, 3, 4, 0, 0, 3, 4, 0, 0, 3, 4, 0, 0, 1, 3, 4, 0, 0, 0, 2]) := by
  have hpw : place_work_block bst6 hmJan7 (rngOfList [0, 3, 4, 0, 0, 1, 3, 4, 0, 0, 3, 4, 0, 0, 1, 3, 4, 0, 0, 3, 4, 0, 0, 3, 4, 0, 0, 1, 3, 4, 0, 0, 3, 4, 0, 0, 3, 4, 0, 0, 1, 3, 4, 0, 0, 0, 2]) =
      Except.ok ((bmid6 : ScheduleState), fun n => rngOfList [0, 3, 4, 0, 0, 1, 3, 4, 0, 0, 3, 4, 0, 0, 1, 3, 4, 0, 0, 3, 4, 0, 0, 3, 4, 0, 0, 1, 3, 4, 0, 0, 3, 4, 0, 0, 3, 4, 0, 0, 1, 3, 4, 0, 0, 0, 2] (n + 1)) := rfl
  have hpr : place_rest_block bmid6 hmJan7 = Except.ok bst7 := rfl
  rw [show (361 : Nat) = 360 + 1 from rfl, build_loop_succ,
    if_pos (show ((bst6.current_date.year == 2025) = true) from rfl),
    show hmContains hmJan7 bst6.current_date = false from rfl,
    if_neg Bool.false_ne_true, hpw]
  show (if bmid6.current_date.year == 2025 then
      (match place_rest_block bmid6 hmJan7 with
       | Except.error e => (Except.error e : Except GenError (List Day))
       | Except.ok s3 => build_loop 360 2025 hmJan7 s3 (fun n => rngOfList [0, 3, 4, 0, 0, 1, 3, 4, 0, 0, 3, 4, 0, 0, 1, 3, 4, 0, 0, 3, 4, 0, 0, 3, 4, 0, 0, 1, 3, 4, 0, 0, 3, 4, 0, 0, 3, 4, 0, 0, 1, 3, 4, 0, 0, 0, 2] (n + 1)))
    else build_loop 360 2025 hmJan7 bmid6 (fun n => rngOfList [0, 3, 4, 0, 0, 1, 3, 4, 0, 0, 3, 4, 0, 0, 1, 3, 4, 0, 0, 3, 4, 0, 0, 3, 4, 0, 0, 1, 3, 4, 0, 0, 3, 4, 0, 0, 3, 4, 0, 0, 1, 3, 4, 0, 0, 0, 2] (n + 1)))
    = build_loop 360 2025 hmJan7 bst7 (rngOfList [3, 4, 0, 0, 1, 3, 4, 0, 0, 3, 4, 0, 0, 1, 3, 4, 0, 0, 3, 4, 0, 0, 3, 4, 0, 0, 1, 3, 4, 0, 0, 3, 4, 0, 0, 3, 4, 0, 0, 1, 3, 4, 0, 0, 0, 2])
  rw [if_pos (show ((bmid6.current_date.year == 2025) = true) from rfl), hpr]
  show build_loop 360 2025 hmJan7 bst7 (fun n => rngOfList [0, 3, 4, 0, 0, 1, 3, 4, 0, 0, 3, 4, 0, 0, 1, 3, 4, 0, 0, 3, 4, 0, 0, 3, 4, 0, 0, 1, 3, 4, 0, 0, 3, 4, 0, 0, 3, 4, 0, 0, 1, 3, 4, 0, 0, 0, 2] (n + 1)) =
    build_loop 360 2025 hmJan7 bst7 (rngOfList [3, 4, 0, 0, 1, 3, 4, 0, 0, 3, 4, 0, 0, 1, 3, 4, 0, 0, 3, 4, 0, 0, 3, 4, 0, 0, 1, 3, 4, 0, 0, 3, 4, 0, 0, 3, 4, 0, 0, 1, 3, 4, 0, 0, 0, 2])
  rw [rngOfList_shift]

set_option maxRecDepth 4000 in
set_option maxHeartbeats 1000000 in
/-- Iteration 7 of the witness run: one work block and its rest block. -/
theorem buildStep7 : build_loop 360 2025 hmJan7 bst7 (rngOfList [3, 4, 0, 0, 1, 3, 4, 0, 0, 3, 4, 0, 0, 1, 3, 4, 0, 0, 3, 4, 0, 0, 3, 4, 0, 0, 1, 3, 4, 0, 0, 3, 4, 0, 0, 3, 4, 0, 0, 1, 3, 4, 0, 0, 0, 2]) =
    build_loop 359 2025 hmJan7 bst8 (rngOfList [4, 0, 0, 1, 3, 4, 0, 0, 3, 4, 0, 0, 1, 3, 4, 0, 0, 3, 4, 0, 0, 3, 4, 0, 0, 1, 3, 4, 0, 0, 3, 4, 0, 0, 3, 4, 0, 0, 1, 3, 4, 0, 0, 0, 2]) := by
  have hpw : place_work_block bst7 hmJan7 (rngOfList [3, 4, 0, 0, 1, 3, 4, 0, 0, 3, 4, 0, 0, 1, 3, 4, 0, 0, 3, 4, 0, 0, 3, 4, 0, 0, 1, 3, 4, 0, 0, 3, 4, 0, 0, 3, 4, 0, 0, 1, 3, 4, 0, 0, 0, 2]) =
      Except.ok ((bmid7 : ScheduleState), fun n => rngOfList [3, 4, 0, 0, 1, 3, 4, 0, 0, 3, 4, 0, 0, 1, 3, 4, 0, 0, 3, 4, 0, 0, 3, 4, 0, 0, 1, 3, 4, 0, 0, 3, 4, 0, 0, 3, 4, 0, 0, 1, 3, 4, 0, 0, 0, 2] (n + 1)) := rfl
  have hpr : place_rest_block bmid7 hmJan7 = Except.ok bst8 := rfl
  rw [show (360 : Nat) = 359 + 1 from rfl, build_loop_succ,
    if_pos (show ((bst7.current_date.year == 2025) = true) from rfl),
    show hmContains hmJan7 bst7.current_date = false from rfl,
    if_neg Bool.false_ne_true, hpw]
  show (if bmid7.current_date.year == 2025 then
      (match place_rest_block bmid7 hmJan7 with
       | Except.error e => (Except.error e : Except GenError (List Day))
       | Except.ok s3 => build_loop 359 2025 hmJan7 s3 (fun n => rngOfList [3, 4, 0, 0, 1, 3, 4, 0, 0, 3, 4, 0, 0, 1, 3, 4, 0, 0, 3, 4, 0, 0, 3, 4, 0, 0, 1, 3, 4, 0, 0, 3, 4, 0, 0, 3, 4, 0, 0, 1, 3, 4, 0, 0, 0, 2] (n + 1)))
    else build_loop 359 2025 hmJan7 bmid7 (fun n => rngOfList [3, 4, 0, 0, 1, 3, 4, 0, 0, 3, 4, 0, 0, 1, 3, 4, 0, 0, 3, 4, 0, 0, 3, 4, 0, 0, 1, 3, 4, 0, 0, 3, 4, 0, 0, 3, 4, 0, 0, 1, 3, 4, 0, 0, 0, 2] (n + 1)))
    = build_loop 359 2025 hmJan7 bst8 (rngOfList [4, 0, 0, 1, 3, 4, 0, 0, 3, 4, 0, 0, 1, 3, 4, 0, 0, 3, 4, 0, 0, 3, 4, 0, 0, 1, 3, 4, 0, 0, 3, 4, 0, 0, 3, 4, 0, 0, 1, 3, 4, 0, 0, 0, 2])
  rw [if_pos (show ((bmid7.current_date.year == 2025) = true) from rfl), hpr]
  show build_loop 359 2025 hmJan7 bst8 (fun n => rngOfList [3, 4, 0, 0, 1, 3, 4, 0, 0, 3, 4, 0, 0, 1, 3, 4, 0, 0, 3, 4, 0, 0, 3, 4, 0, 0, 1, 3, 4, 0, 0, 3, 4, 0, 0, 3, 4, 0, 0, 1, 3, 4, 0, 0, 0, 2] (n + 1)) =
    build_loop 359 2025 hmJan7 bst8 (rngOfList [4, 0, 0, 1, 3, 4, 0, 0, 3, 4, 0, 0, 1, 3, 4, 0, 0, 3, 4, 0, 0, 3, 4, 0, 0, 1, 3, 4, 0, 0, 3, 4, 0, 0, 3, 4, 0, 0, 1, 3, 4, 0, 0, 0, 2])
  rw [rngOfList_shift]

set_option maxRecDepth 4000 in
set_option maxHeartbeats 1000000 in
/-- Iteration 8 of the witness run: one work block and its rest block. -/
theorem buildStep8 : build_loop 359 2025 hmJan7 bst8 (rngOfList [4, 0, 0, 1, 3, 4, 0, 0, 3, 4, 0, 0, 1, 3, 4, 0, 0, 3, 4, 0, 0, 3, 4, 0, 0, 1, 3, 4, 0, 0, 3, 4, 0, 0, 3, 4, 0, 0, 1, 3, 4, 0, 0, 0, 2]) =
    build_loop 358 2025 hmJan7 bst9 (rngOfList [0, 0, 1, 3, 4, 0, 0, 3, 4, 0, 0, 1, 3, 4, 0, 0, 3, 4, 0, 0, 3, 4, 0, 0, 1, 3, 4, 0, 0, 3, 4, 0, 0, 3, 4, 0, 0, 1, 3, 4, 0, 0, 0, 2]) := by
  have hpw : place_work_block bst8 hmJan7 (rngOfList [4, 0, 0, 1, 3, 4, 0, 0, 3, 4, 0, 0, 1, 3, 4, 0, 0, 3, 4, 0, 0, 3, 4, 0, 0, 1, 3, 4, 0, 0, 3, 4, 0, 0, 3, 4, 0, 0, 1, 3, 4, 0, 0, 0, 2]) =
      Except.ok ((bmid8 : ScheduleState), fun n => rngOfList [4, 0, 0, 1, 3, 4, 0, 0, 3, 4, 0, 0, 1, 3, 4, 0, 0, 3, 4, 0, 0, 3, 4, 0, 0, 1, 3, 4, 0, 0, 3, 4, 0, 0, 3, 4, 0, 0, 1, 3, 4, 0, 0, 0, 2] (n + 1)) := rfl
  have hpr : place_rest_block bmid8 hmJan7 = Except.ok bst9 := rfl
  rw [show (359 : Nat) = 358 + 1 from rfl, build_loop_succ,
    if_pos (show ((bst8.current_date.year == 2025) = true) from rfl),
    show hmContains hmJan7 bst8.current_date = false from rfl,
    if_neg Bool.false_ne_true, hpw]
  show (if bmid8.current_date.year == 2025 then
      (match place_rest_block bmid8 hmJan7 with
       | Except.error e => (Except.error e : Except GenError (List Day))
       | Except.ok s3 => build_loop 358 2025 hmJan7 s3 (fun n => rngOfList [4, 0, 0, 1, 3, 4, 0, 0, 3, 4, 0, 0, 1, 3, 4, 0, 0, 3, 4, 0, 0, 3, 4, 0, 0, 1, 3, 4, 0, 0, 3, 4, 0, 0, 3, 4, 0, 0, 1, 3, 4, 0, 0, 0, 2] (n + 1)))
    else build_loop 358 2025 hmJan7 bmid8 (fun n => rngOfList [4, 0, 0, 1, 3, 4, 0, 0, 3, 4, 0, 0, 1, 3, 4, 0, 0, 3, 4, 0, 0, 3, 4, 0, 0, 1, 3, 4, 0, 0, 3, 4, 0, 0, 3, 4, 0, 0, 1, 3, 4, 0, 0, 0, 2] (n + 1)))
    = build_loop 358 2025 hmJan7 bst9 (rngOfList [0, 0, 1, 3, 4, 0, 0, 3, 4, 0, 0, 1, 3, 4, 0, 0, 3, 4, 0, 0, 3, 4, 0, 0, 1, 3, 4, 0, 0, 3, 4, 0, 0, 3, 4, 0, 0, 1, 3, 4, 0, 0, 0, 2])
  rw [if_pos (show ((bmid8.current_date.year == 2025) = true) from rfl), hpr]
  show build_loop 358 2025 hmJan7 bst9 (fun n => rngOfList [4, 0, 0, 1, 3, 4, 0, 0, 3, 4, 0, 0, 1, 3, 4, 0, 0, 3, 4, 0, 0, 3, 4, 0, 0, 1, 3, 4, 0, 0, 3, 4, 0, 0, 3, 4, 0, 0, 1, 3, 4, 0, 0, 0, 2] (n + 1)) =
    build_loop 358 2025 hmJan7 bst9 (rngOfList [0, 0, 1, 3, 4, 0, 0, 3, 4, 0, 0, 1, 3, 4, 0, 0, 3, 4, 0, 0, 3, 4, 0, 0, 1, 3, 4, 0, 0, 3, 4, 0, 0, 3, 4, 0, 0, 1, 3, 4, 0, 0, 0, 2])
  rw [rngOfList_shift]

set_option maxRecDepth 4000 in
set_option maxHeartbeats 1000000 in
/-- Iteration 9 of the witness run: one work block and its rest block. -/
theorem buildStep9 : build_loop 358 2025 hmJan7 bst9 (rngOfList [0, 0, 1, 3, 4, 0, 0, 3, 4, 0, 0, 1, 3, 4, 0, 0, 3, 4, 0, 0, 3, 4, 0, 0, 1, 3, 4, 0, 0, 3, 4, 0, 0, 3, 4, 0, 0, 1, 3, 4, 0, 0, 0, 2]) =
    build_loop 357 2025 hmJan7 bst10 (rngOfList [0, 1, 3, 4, 0, 0, 3, 4, 0, 0, 1, 3, 4, 0, 0, 3, 4, 0, 0, 3, 4, 0, 0, 1, 3, 4, 0, 0, 3, 4, 0, 0, 3, 4, 0, 0, 1, 3, 4, 0, 0, 0, 2]) := by
  have hpw : place_work_block bst9 hmJan7 (rngOfList [0, 0, 1, 3, 4, 0, 0, 3, 4, 0, 0, 1, 3, 4, 0, 0, 3, 4, 0, 0, 3, 4, 0, 0, 1, 3, 4, 0, 0, 3, 4, 0, 0, 3, 4, 0, 0, 1, 3, 4, 0, 0, 0, 2]) =
      Except.ok ((bmid9 : ScheduleState), fun n => rngOfList [0, 0, 1, 3, 4, 0, 0, 3, 4, 0, 0, 1, 3, 4, 0, 0, 3, 4, 0, 0, 3, 4, 0, 0, 1, 3, 4, 0, 0, 3, 4, 0, 0, 3, 4, 0, 0, 1, 3, 4, 0, 0, 0, 2] (n + 1)) := rfl
  have hpr : place_rest_block bmid9 hmJan7 = Except.ok bst10 := rfl
  rw [show (358 : Nat) = 357 + 1 from rfl, build_loop_succ,
    if_pos (show ((bst9.current_date.year == 2025) = true) from rfl),
    show hmContains hmJan7 bst9.current_date = false from rfl,
    if_neg Bool.false_ne_true, hpw]
  show (if bmid9.current_date.year == 2025 then
      (match place_rest_block bmid9 hmJan7 with
       | Except.error e => (Except.error e : Except GenError (List Day))
       | Except.ok s3 => build_loop 357 2025 hmJan7 s3 (fun n => rngOfList [0, 0, 1, 3, 4, 0, 0, 3, 4, 0, 0, 1, 3, 4, 0, 0, 3, 4, 0, 0, 3, 4, 0, 0, 1, 3, 4, 0, 0, 3, 4, 0, 0, 3, 4, 0, 0, 1, 3, 4, 0, 0, 0, 2] (n + 1)))
    else build_loop 357 2025 hmJan7 bmid9 (fun n => rngOfList [0, 0, 1, 3, 4, 0, 0, 3, 4, 0, 0, 1, 3, 4, 0, 0, 3, 4, 0, 0, 3, 4, 0, 0, 1, 3, 4, 0, 0, 3, 4, 0, 0, 3, 4, 0, 0, 1, 3, 4, 0, 0, 0, 2] (n + 1)))
    = build_loop 357 2025 hmJan7 bst10 (rngOfList [0, 1, 3, 4, 0, 0, 3, 4, 0, 0, 1, 3, 4, 0, 0, 3, 4, 0, 0, 3, 4, 0, 0, 1, 3, 4, 0, 0, 3, 4, 0, 0, 3, 4, 0, 0, 1, 3, 4, 0, 0, 0, 2])
  rw [if_pos (show ((bmid9.current_date.year == 2025) = true) from rfl), hpr]
  show build_loop 357 2025 hmJan7 bst10 (fun n => rngOfList [0, 0, 1, 3, 4, 0, 0, 3, 4, 0, 0, 1, 3, 4, 0, 0, 3, 4, 0, 0, 3, 4, 0, 0, 1, 3, 4, 0, 0, 3, 4, 0, 0, 3, 4, 0, 0, 1, 3, 4, 0, 0, 0, 2] (n + 1)) =
    build_loop 357 2025 hmJan7 bst10 (rngOfList [0, 1, 3, 4, 0, 0, 3, 4, 0, 0, 1, 3, 4, 0, 0, 3, 4, 0, 0, 3, 4, 0, 0, 1, 3, 4, 0, 0, 3, 4, 0, 0, 3, 4, 0, 0, 1, 3, 4, 0, 0, 0, 2])
  rw [rngOfList_shift]

set_option maxRecDepth 4000 in
set_option maxHeartbeats 1000000 in
/-- Iteration 10 of the witness run: one work block and its rest block. -/
theorem buildStep10 : build_loop 357 2025 hmJan7 bst10 (rngOfList [0, 1, 3, 4, 0, 0, 3, 4, 0, 0, 1, 3, 4, 0, 0, 3, 4, 0, 0, 3, 4, 0, 0, 1, 3, 4, 0, 0, 3, 4, 0, 0, 3, 4, 0, 0, 1, 3, 4, 0, 0, 0, 2]) =
    build_loop 356 2025 hmJan7 bst11 (rngOfList [1, 3, 4, 0, 0, 3, 4, 0, 0, 1, 3, 4, 0, 0, 3, 4, 0, 0, 3, 4, 0, 0, 1, 3, 4, 0, 0, 3, 4, 0, 0, 3, 4, 0, 0, 1, 3, 4, 0, 0, 0, 2]) := by
  have hpw : place_work_block bst10 hmJan7 (rngOfList [0, 1, 3, 4, 0, 0, 3, 4, 0, 0, 1, 3, 4, 0, 0, 3, 4, 0, 0, 3, 4, 0, 0, 1, 3, 4, 0, 0, 3, 4, 0, 0, 3, 4, 0, 0, 1, 3, 4, 0, 0, 0, 2]) =
      Except.ok ((bmid10 : ScheduleState), fun n => rngOfList [0, 1, 3, 4, 0, 0, 3, 4, 0, 0, 1, 3, 4, 0, 0, 3, 4, 0, 0, 3, 4, 0, 0, 1, 3, 4, 0, 0, 3, 4, 0, 0, 3, 4, 0, 0, 1, 3, 4, 0, 0, 0, 2] (n + 1)) := rfl
  have hpr : place_rest_block bmid10 hmJan7 = Except.ok bst11 := rfl
  rw [show (357 : Nat) = 356 + 1 from rfl, build_loop_succ,
    if_pos (show ((bst10.current_date.year == 2025) = true) from rfl),
    show hmContains hmJan7 bst10.current_date = false from rfl,
    if_neg Bool.false_ne_true, hpw]
  show (if bmid10.current_date.year == 2025 then
      (match place_rest_block bmid10 hmJan7 with
       | Except.error e => (Except.error e : Except GenError (List Day))
       | Except.ok s3 => build_loop 356 2025 hmJan7 s3 (fun n => rngOfList [0, 1, 3, 4, 0, 0, 3, 4, 0, 0, 1, 3, 4, 0, 0, 3, 4, 0, 0, 3, 4, 0, 0, 1, 3, 4, 0, 0, 3, 4, 0, 0, 3, 4, 0, 0, 1, 3, 4, 0, 0, 0, 2] (n + 1)))
    else build_loop 356 2025 hmJan7 bmid10 (fun n => rngOfList [0, 1, 3, 4, 0, 0, 3, 4, 0, 0, 1, 3, 4, 0, 0, 3, 4, 0, 0, 3, 4, 0, 0, 1, 3, 4, 0, 0, 3, 4, 0, 0, 3, 4, 0, 0, 1, 3, 4, 0, 0, 0, 2] (n + 1)))
    = build_loop 356 2025 hmJan7 bst11 (rngOfList [1, 3, 4, 0, 0, 3, 4, 0, 0, 1, 3, 4, 0, 0, 3, 4, 0, 0, 3, 4, 0, 0, 1, 3, 4, 0, 0, 3, 4, 0, 0, 3, 4, 0, 0, 1, 3, 4, 0, 0, 0, 2])
  rw [if_pos (show ((bmid10.current_date.year == 2025) = true) from rfl), hpr]
  show build_loop 356 2025 hmJan7 bst11 (fun n => rngOfList [0, 1, 3, 4, 0, 0, 3, 4, 0, 0, 1, 3, 4, 0, 0, 3, 4, 0, 0, 3, 4, 0, 0, 1, 3, 4, 0, 0, 3, 4, 0, 0, 3, 4, 0, 0, 1, 3, 4, 0, 0, 0, 2] (n + 1)) =
    build_loop 356 2025 hmJan7 bst11 (rngOfList [1, 3, 4, 0, 0, 3, 4, 0, 0, 1, 3, 4, 0, 0, 3, 4, 0, 0, 3, 4, 0, 0, 1, 3, 4, 0, 0, 3, 4, 0, 0, 3, 4, 0, 0, 1, 3, 4, 0, 0, 0, 2])
  rw [rngOfList_shift]

set_option maxRecDepth 4000 in
set_option maxHeartbeats 1000000 in
/-- Iteration 11 of the witness run: one work block and its rest block. -/
theorem buildStep11 : build_loop 356 2025 hmJan7 bst11 (rngOfList [1, 3, 4, 0, 0, 3, 4, 0, 0, 1, 3, 4, 0, 0, 3, 4, 0, 0, 3, 4, 0, 0, 1, 3, 4, 0, 0, 3, 4, 0, 0, 3, 4, 0, 0, 1, 3, 4, 0, 0, 0, 2]) =
    build_loop 355 2025 hmJan7 bst12 (rngOfList [3, 4, 0, 0, 3, 4, 0, 0, 1, 3, 4, 0, 0, 3, 4, 0, 0, 3, 4, 0, 0, 1, 3, 4, 0, 0, 3, 4, 0, 0, 3, 4, 0, 0, 1, 3, 4, 0, 0, 0, 2]) := by
  have hpw : place_work_block bst11 hmJan7 (rngOfList [1, 3, 4, 0, 0, 3, 4, 0, 0, 1, 3, 4, 0, 0, 3, 4, 0, 0, 3, 4, 0, 0, 1, 3, 4, 0, 0, 3, 4, 0, 0, 3, 4, 0, 0, 1, 3, 4, 0, 0, 0, 2]) =
      Except.ok ((bmid11 : ScheduleState), fun n => rngOfList [1, 3, 4, 0, 0, 3, 4, 0, 0, 1, 3, 4, 0, 0, 3, 4, 0, 0, 3, 4, 0, 0, 1, 3, 4, 0, 0, 3, 4, 0, 0, 3, 4, 0, 0, 1, 3, 4, 0, 0, 0, 2] (n + 1)) := rfl
  have hpr : place_rest_block bmid11 hmJan7 = Except.ok bst12 := rfl
  rw [show (356 : Nat) = 355 + 1 from rfl, build_loop_succ,
    if_pos (show ((bst11.current_date.year == 2025) = true) from rfl),
    show hmContains hmJan7 bst11.current_date = false from rfl,
    if_neg Bool.false_ne_true, hpw]
  show (if bmid11.current_date.year == 2025 then
      (match place_rest_block bmid11 hmJan7 with
       | Except.error e => (Except.error e : Except GenError (List Day))
       | Except.ok s3 => build_loop 355 2025 hmJan7 s3 (fun n => rngOfList [1, 3, 4, 0, 0, 3, 4, 0, 0, 1, 3, 4, 0, 0, 3, 4, 0, 0, 3, 4, 0, 0, 1, 3, 4, 0, 0, 3, 4, 0, 0, 3, 4, 0, 0, 1, 3, 4, 0, 0, 0, 2] (n + 1)))
    else build_loop 355 2025 hmJan7 bmid11 (fun n => rngOfList [1, 3, 4, 0, 0, 3, 4, 0, 0, 1, 3, 4, 0, 0, 3, 4, 0, 0, 3, 4, 0, 0, 1, 3, 4, 0, 0, 3, 4, 0, 0, 3, 4, 0, 0, 1, 3, 4, 0, 0, 0, 2] (n + 1)))
    = build_loop 355 2025 hmJan7 bst12 (rngOfList [3, 4, 0, 0, 3, 4, 0, 0, 1, 3, 4, 0, 0, 3, 4, 0, 0, 3, 4, 0, 0, 1, 3, 4, 0, 0, 3, 4, 0, 0, 3, 4, 0, 0, 1, 3, 4, 0, 0, 0, 2])
  rw [if_pos (show ((bmid11.current_date.year == 2025) = true) from rfl), hpr]
  show build_loop 355 2025 hmJan7 bst12 (fun n => rngOfList [1, 3, 4, 0, 0, 3, 4, 0, 0, 1, 3, 4, 0, 0, 3, 4, 0, 0, 3, 4, 0, 0, 1, 3, 4, 0, 0, 3, 4, 0, 0, 3, 4, 0, 0, 1, 3, 4, 0, 0, 0, 2] (n + 1)) =
    build_loop 355 2025 hmJan7 bst12 (rngOfList [3, 4, 0, 0, 3, 4, 0, 0, 1, 3, 4, 0, 0, 3, 4, 0, 0, 3, 4, 0, 0, 1, 3, 4, 0, 0, 3, 4, 0, 0, 3, 4, 0, 0, 1, 3, 4, 0, 0, 0, 2])
  rw [rngOfList_shift]

set_option maxRecDepth 4000 in
set_option maxHeartbeats 1000000 in
/-- Iteration 12 of the witness run: one work block and its rest block. -/
theorem buildStep12 : build_loop 355 2025 hmJan7 bst12 (rngOfList [3, 4, 0, 0, 3, 4, 0, 0, 1, 3, 4, 0, 0, 3, 4, 0, 0, 3, 4, 0, 0, 1, 3, 4, 0, 0, 3, 4, 0, 0, 3, 4, 0, 0, 1, 3, 4, 0, 0, 0, 2]) =
    build_loop 354 2025 hmJan7 bst13 (rngOfList [4, 0, 0, 3, 4, 0, 0, 1, 3, 4, 0, 0, 3, 4, 0, 0, 3, 4, 0, 0, 1, 3, 4, 0, 0, 3, 4, 0, 0, 3, 4, 0, 0, 1, 3, 4, 0, 0, 0, 2]) := by
  have hpw : place_work_block bst12 hmJan7 (rngOfList [3, 4, 0, 0, 3, 4, 0, 0, 1, 3, 4, 0, 0, 3, 4, 0, 0, 3, 4, 0, 0, 1, 3, 4, 0, 0, 3, 4, 0, 0, 3, 4, 0, 0, 1, 3, 4, 0, 0, 0, 2]) =
      Except.ok ((bmid12 : ScheduleState), fun n => rngOfList [3, 4, 0, 0, 3, 4, 0, 0, 1, 3, 4, 0, 0, 3, 4, 0, 0, 3, 4, 0, 0, 1, 3, 4, 0, 0, 3, 4, 0, 0, 3, 4, 0, 0, 1, 3, 4, 0, 0, 0, 2] (n + 1)) := rfl
  have hpr : place_rest_block bmid12 hmJan7 = Except.ok bst13 := rfl
  rw [show (355 : Nat) = 354 + 1 from rfl, build_loop_succ,
    if_pos (show ((bst12.current_date.year == 2025) = true) from rfl),
    show hmContains hmJan7 bst12.current_date = false from rfl,
    if_neg Bool.false_ne_true, hpw]
  show (if bmid12.current_date.year == 2025 then
      (match place_rest_block bmid12 hmJan7 with
       | Except.error e => (Except.error e : Except GenError (List Day))
       | Except.ok s3 => build_loop 354 2025 hmJan7 s3 (fun n => rngOfList [3, 4, 0, 0, 3, 4, 0, 0, 1, 3, 4, 0, 0, 3, 4, 0, 0, 3, 4, 0, 0, 1, 3, 4, 0, 0, 3, 4, 0, 0, 3, 4, 0, 0, 1, 3, 4, 0, 0, 0, 2] (n + 1)))
    else build_loop 354 2025 hmJan7 bmid12 (fun n => rngOfList [3, 4, 0, 0, 3, 4, 0, 0, 1, 3, 4, 0, 0, 3, 4, 0, 0, 3, 4, 0, 0, 1, 3, 4, 0, 0, 3, 4, 0, 0, 3, 4, 0, 0, 1, 3, 4, 0, 0, 0, 2] (n + 1)))
    = build_loop 354 2025 hmJan7 bst13 (rngOfList [4, 0, 0, 3, 4, 0, 0, 1, 3, 4, 0, 0, 3, 4, 0, 0, 3, 4, 0, 0, 1, 3, 4, 0, 0, 3, 4, 0, 0, 3, 4, 0, 0, 1, 3, 4, 0, 0, 0, 2])
  rw [if_pos (show ((bmid12.current_date.year == 2025) = true) from rfl), hpr]
  show build_loop 354 2025 hmJan7 bst13 (fun n => rngOfList [3, 4, 0, 0, 3, 4, 0, 0, 1, 3, 4, 0, 0, 3, 4, 0, 0, 3, 4, 0, 0, 1, 3, 4, 0, 0, 3, 4, 0, 0, 3, 4, 0, 0, 1, 3, 4, 0, 0, 0, 2] (n + 1)) =
    build_loop 354 2025 hmJan7 bst13 (rngOfList [4, 0, 0, 3, 4, 0, 0, 1, 3, 4, 0, 0, 3, 4, 0, 0, 3, 4, 0, 0, 1, 3, 4, 0, 0, 3, 4, 0, 0, 3, 4, 0, 0, 1, 3, 4, 0, 0, 0, 2])
  rw [rngOfList_shift]

set_option maxRecDepth 4000 in
set_option maxHeartbeats 1000000 in
/-- Iteration 13 of the witness run: one work block and its rest block. -/
theorem buildStep13 : build_loop 354 2025 hmJan7 bst13 (rngOfList [4, 0, 0, 3, 4, 0, 0, 1, 3, 4, 0, 0, 3, 4, 0, 0, 3, 4, 0, 0, 1, 3, 4, 0, 0, 3, 4, 0, 0, 3, 4, 0, 0, 1, 3, 4, 0, 0, 0, 2]) =
    build_loop 353 2025 hmJan7 bst14 (rngOfList [0, 0, 3, 4, 0, 0, 1, 3, 4, 0, 0, 3, 4, 0, 0, 3, 4, 0, 0, 1, 3, 4, 0, 0, 3, 4, 0, 0, 3, 4, 0, 0, 1, 3, 4, 0, 0, 0, 2]) := by
  have hpw : place_work_block bst13 hmJan7 (rngOfList [4, 0, 0, 3, 4, 0, 0, 1, 3, 4, 0, 0, 3, 4, 0, 0, 3, 4, 0, 0, 1, 3, 4, 0, 0, 3, 4, 0, 0, 3, 4, 0, 0, 1, 3, 4, 0, 0, 0, 2]) =
      Except.ok ((bmid13 : ScheduleState), fun n => rngOfList [4, 0, 0, 3, 4, 0, 0, 1, 3, 4, 0, 0, 3, 4, 0, 0, 3, 4, 0, 0, 1, 3, 4, 0, 0, 3, 4, 0, 0, 3, 4, 0, 0, 1, 3, 4, 0, 0, 0, 2] (n + 1)) := rfl
  have hpr : place_rest_block bmid13 hmJan7 = Except.ok bst14 := rfl
  rw [show (354 : Nat) = 353 + 1 from rfl, build_loop_succ,
    if_pos (show ((bst13.current_date.year == 2025) = true) from rfl),
    show hmContains hmJan7 bst13.current_date = false from rfl,
    if_neg Bool.false_ne_true, hpw]
  show (if bmid13.current_date.year == 2025 then
      (match place_rest_block bmid13 hmJan7 with
       | Except.error e => (Except.error e : Except GenError (List Day))
       | Except.ok s3 => build_loop 353 2025 hmJan7 s3 (fun n => rngOfList [4, 0, 0, 3, 4, 0, 0, 1, 3, 4, 0, 0, 3, 4, 0, 0, 3, 4, 0, 0, 1, 3, 4, 0, 0, 3, 4, 0, 0, 3, 4, 0, 0, 1, 3, 4, 0, 0, 0, 2] (n + 1)))
    else build_loop 353 2025 hmJan7 bmid13 (fun n => rngOfList [4, 0, 0, 3, 4, 0, 0, 1, 3, 4, 0, 0, 3, 4, 0, 0, 3, 4, 0, 0, 1, 3, 4, 0, 0, 3, 4, 0, 0, 3, 4, 0, 0, 1, 3, 4, 0, 0, 0, 2] (n + 1)))
    = build_loop 353 2025 hmJan7 bst14 (rngOfList [0, 0, 3, 4, 0, 0, 1, 3, 4, 0, 0, 3, 4, 0, 0, 3, 4, 0, 0, 1, 3, 4, 0, 0, 3, 4, 0, 0, 3, 4, 0, 0, 1, 3, 4, 0, 0, 0, 2])
  rw [if_pos (show ((bmid13.current_date.year == 2025) = true) from rfl), hpr]
  show build_loop 353 2025 hmJan7 bst14 (fun n => rngOfList [4, 0, 0, 3, 4, 0, 0, 1, 3, 4, 0, 0, 3, 4, 0, 0, 3, 4, 0, 0, 1, 3, 4, 0, 0, 3, 4, 0, 0, 3, 4, 0, 0, 1, 3, 4, 0, 0, 0, 2] (n + 1)) =
    build_loop 353 2025 hmJan7 bst14 (rngOfList [0, 0, 3, 4, 0, 0, 1, 3, 4, 0, 0, 3, 4, 0, 0, 3, 4, 0, 0, 1, 3, 4, 0, 0, 3, 4, 0, 0, 3, 4, 0, 0, 1, 3, 4, 0, 0, 0, 2])
  rw [rngOfList_shift]

set_option maxRecDepth 4000 in
set_option maxHeartbeats 1000000 in
/-- Iteration 14 of the witness run: one work block and its rest block. -/
theorem buildStep14 : build_loop 353 2025 hmJan7 bst14 (rngOfList [0, 0, 3, 4, 0, 0, 1, 3, 4, 0, 0, 3, 4, 0, 0, 3, 4, 0, 0, 1, 3, 4, 0, 0, 3, 4, 0, 0, 3, 4, 0, 0, 1, 3, 4, 0, 0, 0, 2]) =
    build_loop 352 2025 hmJan7 bst15 (rngOfList [0, 3, 4, 0, 0, 1, 3, 4, 0, 0, 3, 4, 0, 0, 3, 4, 0, 0, 1, 3, 4, 0, 0, 3, 4, 0, 0, 3, 4, 0, 0, 1, 3, 4, 0, 0, 0, 2]) := by
  have hpw : place_work_block bst14 hmJan7 (rngOfList [0, 0, 3, 4, 0, 0, 1, 3, 4, 0, 0, 3, 4, 0, 0, 3, 4, 0, 0, 1, 3, 4, 0, 0, 3, 4, 0, 0, 3, 4, 0, 0, 1, 3, 4, 0, 0, 0, 2]) =
      Except.ok ((bmid14 : ScheduleState), fun n => rngOfList [0, 0, 3, 4, 0, 0, 1, 3, 4, 0, 0, 3, 4, 0, 0, 3, 4, 0, 0, 1, 3, 4, 0, 0, 3, 4, 0, 0, 3, 4, 0, 0, 1, 3, 4, 0, 0, 0, 2] (n + 1)) := rfl
  have hpr : place_rest_block bmid14 hmJan7 = Except.ok bst15 := rfl
  rw [show (353 : Nat) = 352 + 1 from rfl, build_loop_succ,
    if_pos (show ((bst14.current_date.year == 2025) = true) from rfl),
    show hmContains hmJan7 bst14.current_date = false from rfl,
    if_neg Bool.false_ne_true, hpw]
  show (if bmid14.current_date.year == 2025 then
      (match place_rest_block bmid14 hmJan7 with
       | Except.error e => (Except.error e : Except GenError (List Day))
       | Except.ok s3 => build_loop 352 2025 hmJan7 s3 (fun n => rngOfList [0, 0, 3, 4, 0, 0, 1, 3, 4, 0, 0, 3, 4, 0, 0, 3, 4, 0, 0, 1, 3, 4, 0, 0, 3, 4, 0, 0, 3, 4, 0, 0, 1, 3, 4, 0, 0, 0, 2] (n + 1)))
    else build_loop 352 2025 hmJan7 bmid14 (fun n => rngOfList [0, 0, 3, 4, 0, 0, 1, 3, 4, 0, 0, 3, 4, 0, 0, 3, 4, 0, 0, 1, 3, 4, 0, 0, 3, 4, 0, 0, 3, 4, 0, 0, 1, 3, 4, 0, 0, 0, 2] (n + 1)))
    = build_loop 352 2025 hmJan7 bst15 (rngOfList [0, 3, 4, 0, 0, 1, 3, 4, 0, 0, 3, 4, 0, 0, 3, 4, 0, 0, 1, 3, 4, 0, 0, 3, 4, 0, 0, 3, 4, 0, 0, 1, 3, 4, 0, 0, 0, 2])
  rw [if_pos (show ((bmid14.current_date.year == 2025) = true) from rfl), hpr]
  show build_loop 352 2025 hmJan7 bst15 (fun n => rngOfList [0, 0, 3, 4, 0, 0, 1, 3, 4, 0, 0, 3, 4, 0, 0, 3, 4, 0, 0, 1, 3, 4, 0, 0, 3, 4, 0, 0, 3, 4, 0, 0, 1, 3, 4, 0, 0, 0, 2] (n + 1)) =
    build_loop 352 2025 hmJan7 bst15 (rngOfList [0, 3, 4, 0, 0, 1, 3, 4, 0, 0, 3, 4, 0, 0, 3, 4, 0, 0, 1, 3, 4, 0, 0, 3, 4, 0, 0, 3, 4, 0, 0, 1, 3, 4, 0, 0, 0, 2])
  rw [rngOfList_shift]

set_option maxRecDepth 4000 in
set_option maxHeartbeats 1000000 in
/-- Iteration 15 of the witness run: one work block and its rest block. -/
theorem buildStep15 : build_loop 352 2025 hmJan7 bst15 (rngOfList [0, 3, 4, 0, 0, 1, 3, 4, 0, 0, 3, 4, 0, 0, 3, 4, 0, 0, 1, 3, 4, 0, 0, 3, 4, 0, 0, 3, 4, 0, 0, 1, 3, 4, 0, 0, 0, 2]) =
    build_loop 351 2025 hmJan7 bst16 (rngOfList [3, 4, 0, 0, 1, 3, 4, 0, 0, 3, 4, 0, 0, 3, 4, 0, 0, 1, 3, 4, 0, 0, 3, 4, 0, 0, 3, 4, 0, 0, 1, 3, 4, 0, 0, 0, 2]) := by
  have hpw : place_work_block bst15 hmJan7 (rngOfList [0, 3, 4, 0, 0, 1, 3, 4, 0, 0, 3, 4, 0, 0, 3, 4, 0, 0, 1, 3, 4, 0, 0, 3, 4, 0, 0, 3, 4, 0, 0, 1, 3, 4, 0, 0, 0, 2]) =
      Except.ok ((bmid15 : ScheduleState), fun n => rngOfList [0, 3, 4, 0, 0, 1, 3, 4, 0, 0, 3, 4, 0, 0, 3, 4, 0, 0, 1, 3, 4, 0, 0, 3, 4, 0, 0, 3, 4, 0, 0, 1, 3, 4, 0, 0, 0, 2] (n + 1)) := rfl
  have hpr : place_rest_block bmid15 hmJan7 = Except.ok bst16 := rfl
  rw [show (352 : Nat) = 351 + 1 from rfl, build_loop_succ,
    if_pos (show ((bst15.current_date.year == 2025) = true) from rfl),
    show hmContains hmJan7 bst15.current_date = false from rfl,
    if_neg Bool.false_ne_true, hpw]
  show (if bmid15.current_date.year == 2025 then
      (match place_rest_block bmid15 hmJan7 with
       | Except.error e => (Except.error e : Except GenError (List Day))
       | Except.ok s3 => build_loop 351 2025 hmJan7 s3 (fun n => rngOfList [0, 3, 4, 0, 0, 1, 3, 4, 0, 0, 3, 4, 0, 0, 3, 4, 0, 0, 1, 3, 4, 0, 0, 3, 4, 0, 0, 3, 4, 0, 0, 1, 3, 4, 0, 0, 0, 2] (n + 1)))
    else build_loop 351 2025 hmJan7 bmid15 (fun n => rngOfList [0, 3, 4, 0, 0, 1, 3, 4, 0, 0, 3, 4, 0, 0, 3, 4, 0, 0, 1, 3, 4, 0, 0, 3, 4, 0, 0, 3, 4, 0, 0, 1, 3, 4, 0, 0, 0, 2] (n + 1)))
    = build_loop 351 2025 hmJan7 bst16 (rngOfList [3, 4, 0, 0, 1, 3, 4, 0, 0, 3, 4, 0, 0, 3, 4, 0, 0, 1, 3, 4, 0, 0, 3, 4, 0, 0, 3, 4, 0, 0, 1, 3, 4, 0, 0, 0, 2])
  rw [if_pos (show ((bmid15.current_date.year == 2025) = true) from rfl), hpr]
  show build_loop 351 2025 hmJan7 bst16 (fun n => rngOfList [0, 3, 4, 0, 0, 1, 3, 4, 0, 0, 3, 4, 0, 0, 3, 4, 0, 0, 1, 3, 4, 0, 0, 3, 4, 0, 0, 3, 4, 0, 0, 1, 3, 4, 0, 0, 0, 2] (n + 1)) =
    build_loop 351 2025 hmJan7 bst16 (rngOfList [3, 4, 0, 0, 1, 3, 4, 0, 0, 3, 4, 0, 0, 3, 4, 0, 0, 1, 3, 4, 0, 0, 3, 4, 0, 0, 3, 4, 0, 0, 1, 3, 4, 0, 0, 0, 2])
  rw [rngOfList_shift]

set_option maxRecDepth 4000 in
set_option maxHeartbeats 1000000 in
/-- Iteration 16 of the witness run: one work block and its rest block. -/
theorem buildStep16 : build_loop 351 2025 hmJan7 bst16 (rngOfList [3, 4, 0, 0, 1, 3, 4, 0, 0, 3, 4, 0, 0, 3, 4, 0, 0, 1, 3, 4, 0, 0, 3, 4, 0, 0, 3, 4, 0, 0, 1, 3, 4, 0, 0, 0, 2]) =
    build_loop 350 2025 hmJan7 bst17 (rngOfList [4, 0, 0, 1, 3, 4, 0, 0, 3, 4, 0, 0, 3, 4, 0, 0, 1, 3, 4, 0, 0, 3, 4, 0, 0, 3, 4, 0, 0, 1, 3, 4, 0, 0, 0, 2]) := by
  have hpw : place_work_block bst16 hmJan7 (rngOfList [3, 4, 0, 0, 1, 3, 4, 0, 0, 3, 4, 0, 0, 3, 4, 0, 0, 1, 3, 4, 0, 0, 3, 4, 0, 0, 3, 4, 0, 0, 1, 3, 4, 0, 0, 0, 2]) =
      Except.ok ((bmid16 : ScheduleState), fun n => rngOfList [3, 4, 0, 0, 1, 3, 4, 0, 0, 3, 4, 0, 0, 3, 4, 0, 0, 1, 3, 4, 0, 0, 3, 4, 0, 0, 3, 4, 0, 0, 1, 3, 4, 0, 0, 0, 2] (n + 1)) := rfl
  have hpr : place_rest_block bmid16 hmJan7 = Except.ok bst17 := rfl
  rw [show (351 : Nat) = 350 + 1 from rfl, build_loop_succ,
    if_pos (show ((bst16.current_date.year == 2025) = true) from rfl),
    show hmContains hmJan7 bst16.current_date = false from rfl,
    if_neg Bool.false_ne_true, hpw]
  show (if bmid16.current_date.year == 2025 then
      (match place_rest_block bmid16 hmJan7 with
       | Except.error e => (Except.error e : Except GenError (List Day))
       | Except.ok s3 => build_loop 350 2025 hmJan7 s3 (fun n => rngOfList [3, 4, 0, 0, 1, 3, 4, 0, 0, 3, 4, 0, 0, 3, 4, 0, 0, 1, 3, 4, 0, 0, 3, 4, 0, 0, 3, 4, 0, 0, 1, 3, 4, 0, 0, 0, 2] (n + 1)))
    else build_loop 350 2025 hmJan7 bmid16 (fun n => rngOfList [3, 4, 0, 0, 1, 3, 4, 0, 0, 3, 4, 0, 0, 3, 4, 0, 0, 1, 3, 4, 0, 0, 3, 4, 0, 0, 3, 4, 0, 0, 1, 3, 4, 0, 0, 0, 2] (n + 1)))
    = build_loop 350 2025 hmJan7 bst17 (rngOfList [4, 0, 0, 1, 3, 4, 0, 0, 3, 4, 0, 0, 3, 4, 0, 0, 1, 3, 4, 0, 0, 3, 4, 0, 0, 3, 4, 0, 0, 1, 3, 4, 0, 0, 0, 2])
  rw [if_pos (show ((bmid16.current_date.year == 2025) = true) from rfl), hpr]
  show build_loop 350 2025 hmJan7 bst17 (fun n => rngOfList [3, 4, 0, 0, 1, 3, 4, 0, 0, 3, 4, 0, 0, 3, 4, 0, 0, 1, 3, 4, 0, 0, 3, 4, 0, 0, 3, 4, 0, 0, 1, 3, 4, 0, 0, 0, 2] (n + 1)) =
    build_loop 350 2025 hmJan7 bst17 (rngOfList [4, 0, 0, 1, 3, 4, 0, 0, 3, 4, 0, 0, 3, 4, 0, 0, 1, 3, 4, 0, 0, 3, 4, 0, 0, 3, 4, 0, 0, 1, 3, 4, 0, 0, 0, 2])
  rw [rngOfList_shift]

set_option maxRecDepth 4000 in
set_option maxHeartbeats 1000000 in
/-- Iteration 17 of the witness run: one work block and its rest block. -/
theorem buildStep17 : build_loop 350 2025 hmJan7 bst17 (rngOfList [4, 0, 0, 1, 3, 4, 0, 0, 3, 4, 0, 0, 3, 4, 0, 0, 1, 3, 4, 0, 0, 3, 4, 0, 0, 3, 4, 0, 0, 1, 3, 4, 0, 0, 0, 2]) =
    build_loop 349 2025 hmJan7 bst18 (rngOfList [0, 0, 1, 3, 4, 0, 0, 3, 4, 0, 0, 3, 4, 0, 0, 1, 3, 4, 0, 0, 3, 4, 0, 0, 3, 4, 0, 0, 1, 3, 4, 0, 0, 0, 2]) := by
  have hpw : place_work_block bst17 hmJan7 (rngOfList [4, 0, 0, 1, 3, 4, 0, 0, 3, 4, 0, 0, 3, 4, 0, 0, 1, 3, 4, 0, 0, 3, 4, 0, 0, 3, 4, 0, 0, 1, 3, 4, 0, 0, 0, 2]) =
      Except.ok ((bmid17 : ScheduleState), fun n => rngOfList [4, 0, 0, 1, 3, 4, 0, 0, 3, 4, 0, 0, 3, 4, 0, 0, 1, 3, 4, 0, 0, 3, 4, 0, 0, 3, 4, 0, 0, 1, 3, 4, 0, 0, 0, 2] (n + 1)) := rfl
  have hpr : place_rest_block bmid17 hmJan7 = Except.ok bst18 := rfl
  rw [show (350 : Nat) = 349 + 1 from rfl, build_loop_succ,
    if_pos (show ((bst17.current_date.year == 2025) = true) from rfl),
    show hmContains hmJan7 bst17.current_date = false from rfl,
    if_neg Bool.false_ne_true, hpw]
  show (if bmid17.current_date.year == 2025 then
      (match place_rest_block bmid17 hmJan7 with
       | Except.error e => (Except.error e : Except GenError (List Day))
       | Except.ok s3 => build_loop 349 2025 hmJan7 s3 (fun n => rngOfList [4, 0, 0, 1, 3, 4, 0, 0, 3, 4, 0, 0, 3, 4, 0, 0, 1, 3, 4, 0, 0, 3, 4, 0, 0, 3, 4, 0, 0, 1, 3, 4, 0, 0, 0, 2] (n + 1)))
    else build_loop 349 2025 hmJan7 bmid17 (fun n => rngOfList [4, 0, 0, 1, 3, 4, 0, 0, 3, 4, 0, 0, 3, 4, 0, 0, 1, 3, 4, 0, 0, 3, 4, 0, 0, 3, 4, 0, 0, 1, 3, 4, 0, 0, 0, 2] (n + 1)))
    = build_loop 349 2025 hmJan7 bst18 (rngOfList [0, 0, 1, 3, 4, 0, 0, 3, 4, 0, 0, 3, 4, 0, 0, 1, 3, 4, 0, 0, 3, 4, 0, 0, 3, 4, 0, 0, 1, 3, 4, 0, 0, 0, 2])
  rw [if_pos (show ((bmid17.current_date.year == 2025) = true) from rfl), hpr]
  show build_loop 349 2025 hmJan7 bst18 (fun n => rngOfList [4, 0, 0, 1, 3, 4, 0, 0, 3, 4, 0, 0, 3, 4, 0, 0, 1, 3, 4, 0, 0, 3, 4, 0, 0, 3, 4, 0, 0, 1, 3, 4, 0, 0, 0, 2] (n + 1)) =
    build_loop 349 2025 hmJan7 bst18 (rngOfList [0, 0, 1, 3, 4, 0, 0, 3, 4, 0, 0, 3, 4, 0, 0, 1, 3, 4, 0, 0, 3, 4, 0, 0, 3, 4, 0, 0, 1, 3, 4, 0, 0, 0, 2])
  rw [rngOfList_shift]

set_option maxRecDepth 4000 in
set_option maxHeartbeats 1000000 in
/-- Iteration 18 of the witness run: one work block and its rest block. -/
theorem buildStep18 : build_loop 349 2025 hmJan7 bst18 (rngOfList [0, 0, 1, 3, 4, 0, 0, 3, 4, 0, 0, 3, 4, 0, 0, 1, 3, 4, 0, 0, 3, 4, 0, 0, 3, 4, 0, 0, 1, 3, 4, 0, 0, 0, 2]) =
    build_loop 348 2025 hmJan7 bst19 (rngOfList [0, 1, 3, 4, 0, 0, 3, 4, 0, 0, 3, 4, 0, 0, 1, 3, 4, 0, 0, 3, 4, 0, 0, 3, 4, 0, 0, 1, 3, 4, 0, 0, 0, 2]) := by
  have hpw : place_work_block bst18 hmJan7 (rngOfList [0, 0, 1, 3, 4, 0, 0, 3, 4, 0, 0, 3, 4, 0, 0, 1, 3, 4, 0, 0, 3, 4, 0, 0, 3, 4, 0, 0, 1, 3, 4, 0, 0, 0, 2]) =
      Except.ok ((bmid18 : ScheduleState), fun n => rngOfList [0, 0, 1, 3, 4, 0, 0, 3, 4, 0, 0, 3, 4, 0, 0, 1, 3, 4, 0, 0, 3, 4, 0, 0, 3, 4, 0, 0, 1, 3, 4, 0, 0, 0, 2] (n + 1)) := rfl
  have hpr : place_rest_block bmid18 hmJan7 = Except.ok bst19 := rfl
  rw [show (349 : Nat) = 348 + 1 from rfl, build_loop_succ,
    if_pos (show ((bst18.current_date.year == 2025) = true) from rfl),
    show hmContains hmJan7 bst18.current_date = false from rfl,
    if_neg Bool.false_ne_true, hpw]
  show (if bmid18.current_date.year == 2025 then
      (match place_rest_block bmid18 hmJan7 with
       | Except.error e => (Except.error e : Except GenError (List Day))
       | Except.ok s3 => build_loop 348 2025 hmJan7 s3 (fun n => rngOfList [0, 0, 1, 3, 4, 0, 0, 3, 4, 0, 0, 3, 4, 0, 0, 1, 3, 4, 0, 0, 3, 4, 0, 0, 3, 4, 0, 0, 1, 3, 4, 0, 0, 0, 2] (n + 1)))
    else build_loop 348 2025 hmJan7 bmid18 (fun n => rngOfList [0, 0, 1, 3, 4, 0, 0, 3, 4, 0, 0, 3, 4, 0, 0, 1, 3, 4, 0, 0, 3, 4, 0, 0, 3, 4, 0, 0, 1, 3, 4, 0, 0, 0, 2] (n + 1)))
    = build_loop 348 2025 hmJan7 bst19 (rngOfList [0, 1, 3, 4, 0, 0, 3, 4, 0, 0, 3, 4, 0, 0, 1, 3, 4, 0, 0, 3, 4, 0, 0, 3, 4, 0, 0, 1, 3, 4, 0, 0, 0, 2])
  rw [if_pos (show ((bmid18.current_date.year == 2025) = true) from rfl), hpr]
  show build_loop 348 2025 hmJan7 bst19 (fun n => rngOfList [0, 0, 1, 3, 4, 0, 0, 3, 4, 0, 0, 3, 4, 0, 0, 1, 3, 4, 0, 0, 3, 4, 0, 0, 3, 4, 0, 0, 1, 3, 4, 0, 0, 0, 2] (n + 1)) =
    build_loop 348 2025 hmJan7 bst19 (rngOfList [0, 1, 3, 4, 0, 0, 3, 4, 0, 0, 3, 4, 0, 0, 1, 3, 4, 0, 0, 3, 4, 0, 0, 3, 4, 0, 0, 1, 3, 4, 0, 0, 0, 2])
  rw [rngOfList_shift]

set_option maxRecDepth 4000 in
set_option maxHeartbeats 1000000 in
/-- Iteration 19 of the witness run: one work block and its rest block. -/
theorem buildStep19 : build_loop 348 2025 hmJan7 bst19 (rngOfList [0, 1, 3, 4, 0, 0, 3, 4, 0, 0, 3, 4, 0, 0, 1, 3, 4, 0, 0, 3, 4, 0, 0, 3, 4, 0, 0, 1, 3, 4, 0, 0, 0, 2]) =
    build_loop 347 2025 hmJan7 bst20 (rngOfList [1, 3, 4, 0, 0, 3, 4, 0, 0, 3, 4, 0, 0, 1, 3, 4, 0, 0, 3, 4, 0, 0, 3, 4, 0, 0, 1, 3, 4, 0, 0, 0, 2]) := by
  have hpw : place_work_block bst19 hmJan7 (rngOfList [0, 1, 3, 4, 0, 0, 3, 4, 0, 0, 3, 4, 0, 0, 1, 3, 4, 0, 0, 3, 4, 0, 0, 3, 4, 0, 0, 1, 3, 4, 0, 0, 0, 2]) =
      Except.ok ((bmid19 : ScheduleState), fun n => rngOfList [0, 1, 3, 4, 0, 0, 3, 4, 0, 0, 3, 4, 0, 0, 1, 3, 4, 0, 0, 3, 4, 0, 0, 3, 4, 0, 0, 1, 3, 4, 0, 0, 0, 2] (n + 1)) := rfl
  have hpr : place_rest_block bmid19 hmJan7 = Except.ok bst20 := rfl
  rw [show (348 : Nat) = 347 + 1 from rfl, build_loop_succ,
    if_pos (show ((bst19.current_date.year == 2025) = true) from rfl),
    show hmContains hmJan7 bst19.current_date = false from rfl,
    if_neg Bool.false_ne_true, hpw]
  show (if bmid19.current_date.year == 2025 then
      (match place_rest_block bmid19 hmJan7 with
       | Except.error e => (Except.error e : Except GenError (List Day))
       | Except.ok s3 => build_loop 347 2025 hmJan7 s3 (fun n => rngOfList [0, 1, 3, 4, 0, 0, 3, 4, 0, 0, 3, 4, 0, 0, 1, 3, 4, 0, 0, 3, 4, 0, 0, 3, 4, 0, 0, 1, 3, 4, 0, 0, 0, 2] (n + 1)))
    else build_loop 347 2025 hmJan7 bmid19 (fun n => rngOfList [0, 1, 3, 4, 0, 0, 3, 4, 0, 0, 3, 4, 0, 0, 1, 3, 4, 0, 0, 3, 4, 0, 0, 3, 4, 0, 0, 1, 3, 4, 0, 0, 0, 2] (n + 1)))
    = build_loop 347 2025 hmJan7 bst20 (rngOfList [1, 3, 4, 0, 0, 3, 4, 0, 0, 3, 4, 0, 0, 1, 3, 4, 0, 0, 3, 4, 0, 0, 3, 4, 0, 0, 1, 3, 4, 0, 0, 0, 2])
  rw [if_pos (show ((bmid19.current_date.year == 2025) = true) from rfl), hpr]
  show build_loop 347 2025 hmJan7 bst20 (fun n => rngOfList [0, 1, 3, 4, 0, 0, 3, 4, 0, 0, 3, 4, 0, 0, 1, 3, 4, 0, 0, 3, 4, 0, 0, 3, 4, 0, 0, 1, 3, 4, 0, 0, 0, 2] (n + 1)) =
    build_loop 347 2025 hmJan7 bst20 (rngOfList [1, 3, 4, 0, 0, 3, 4, 0, 0, 3, 4, 0, 0, 1, 3, 4, 0, 0, 3, 4, 0, 0, 3, 4, 0, 0, 1, 3, 4, 0, 0, 0, 2])
  rw [rngOfList_shift]

set_option maxRecDepth 4000 in
set_option maxHeartbeats 1000000 in
/-- Iteration 20 of the witness run: one work block and its rest block. -/
theorem buildStep20 : build_loop 347 2025 hmJan7 bst20 (rngOfList [1, 3, 4, 0, 0, 3, 4, 0, 0, 3, 4, 0, 0, 1, 3, 4, 0, 0, 3, 4, 0, 0, 3, 4, 0, 0, 1, 3, 4, 0, 0, 0, 2]) =
    build_loop 346 2025 hmJan7 bst21 (rngOfList [3, 4, 0, 0, 3, 4, 0, 0, 3, 4, 0, 0, 1, 3, 4, 0, 0, 3, 4, 0, 0, 3, 4, 0, 0, 1, 3, 4, 0, 0, 0, 2]) := by
  have hpw : place_work_block bst20 hmJan7 (rngOfList [1, 3, 4, 0, 0, 3, 4, 0, 0, 3, 4, 0, 0, 1, 3, 4, 0, 0, 3, 4, 0, 0, 3, 4, 0, 0, 1, 3, 4, 0, 0, 0, 2]) =
      Except.ok ((bmid20 : ScheduleState), fun n => rngOfList [1, 3, 4, 0, 0, 3, 4, 0, 0, 3, 4, 0, 0, 1, 3, 4, 0, 0, 3, 4, 0, 0, 3, 4, 0, 0, 1, 3, 4, 0, 0, 0, 2] (n + 1)) := rfl
  have hpr : place_rest_block bmid20 hmJan7 = Except.ok bst21 := rfl
  rw [show (347 : Nat) = 346 + 1 from rfl, build_loop_succ,
    if_pos (show ((bst20.current_date.year == 2025) = true) from rfl),
    show hmContains hmJan7 bst20.current_date = false from rfl,
    if_neg Bool.false_ne_true, hpw]
  show (if bmid20.current_date.year == 2025 then
      (match place_rest_block bmid20 hmJan7 with
       | Except.error e => (Except.error e : Except GenError (List Day))
       | Except.ok s3 => build_loop 346 2025 hmJan7 s3 (fun n => rngOfList [1, 3, 4, 0, 0, 3, 4, 0, 0, 3, 4, 0, 0, 1, 3, 4, 0, 0, 3, 4, 0, 0, 3, 4, 0, 0, 1, 3, 4, 0, 0, 0, 2] (n + 1)))
    else build_loop 346 2025 hmJan7 bmid20 (fun n => rngOfList [1, 3, 4, 0, 0, 3, 4, 0, 0, 3, 4, 0, 0, 1, 3, 4, 0, 0, 3, 4, 0, 0, 3, 4, 0, 0, 1, 3, 4, 0, 0, 0, 2] (n + 1)))
    = build_loop 346 2025 hmJan7 bst21 (rngOfList [3, 4, 0, 0, 3, 4, 0, 0, 3, 4, 0, 0, 1, 3, 4, 0, 0, 3, 4, 0, 0, 3, 4, 0, 0, 1, 3, 4, 0, 0, 0, 2])
  rw [if_pos (show ((bmid20.current_date.year == 2025) = true) from rfl), hpr]
  show build_loop 346 2025 hmJan7 bst21 (fun n => rngOfList [1, 3, 4, 0, 0, 3, 4, 0, 0, 3, 4, 0, 0, 1, 3, 4, 0, 0, 3, 4, 0, 0, 3, 4, 0, 0, 1, 3, 4, 0, 0, 0, 2] (n + 1)) =
    build_loop 346 2025 hmJan7 bst21 (rngOfList [3, 4, 0, 0, 3, 4, 0, 0, 3, 4, 0, 0, 1, 3, 4, 0, 0, 3, 4, 0, 0, 3, 4, 0, 0, 1, 3, 4, 0, 0, 0, 2])
  rw [rngOfList_shift]

set_option maxRecDepth 4000 in
set_option maxHeartbeats 1000000 in
/-- Iteration 21 of the witness run: one work block and its rest block. -/
theorem buildStep21 : build_loop 346 2025 hmJan7 bst21 (rngOfList [3, 4, 0, 0, 3, 4, 0, 0, 3, 4, 0, 0, 1, 3, 4, 0, 0, 3, 4, 0, 0, 3, 4, 0, 0, 1, 3, 4, 0, 0, 0, 2]) =
    build_loop 345 2025 hmJan7 bst22 (rngOfList [4, 0, 0, 3, 4, 0, 0, 3, 4, 0, 0, 1, 3, 4, 0, 0, 3, 4, 0, 0, 3, 4, 0, 0, 1, 3, 4, 0, 0, 0, 2]) := by
  have hpw : place_work_block bst21 hmJan7 (rngOfList [3, 4, 0, 0, 3, 4, 0, 0, 3, 4, 0, 0, 1, 3, 4, 0, 0, 3, 4, 0, 0, 3, 4, 0, 0, 1, 3, 4, 0, 0, 0, 2]) =
      Except.ok ((bmid21 : ScheduleState), fun n => rngOfList [3, 4, 0, 0, 3, 4, 0, 0, 3, 4, 0, 0, 1, 3, 4, 0, 0, 3, 4, 0, 0, 3, 4, 0, 0, 1, 3, 4, 0, 0, 0, 2] (n + 1)) := rfl
  have hpr : place_rest_block bmid21 hmJan7 = Except.ok bst22 := rfl
  rw [show (346 : Nat) = 345 + 1 from rfl, build_loop_succ,
    if_pos (show ((bst21.current_date.year == 2025) = true) from rfl),
    show hmContains hmJan7 bst21.current_date = false from rfl,
    if_neg Bool.false_ne_true, hpw]
  show (if bmid21.current_date.year == 2025 then
      (match place_rest_block bmid21 hmJan7 with
       | Except.error e => (Except.error e : Except GenError (List Day))
       | Except.ok s3 => build_loop 345 2025 hmJan7 s3 (fun n => rngOfList [3, 4, 0, 0, 3, 4, 0, 0, 3, 4, 0, 0, 1, 3, 4, 0, 0, 3, 4, 0, 0, 3, 4, 0, 0, 1, 3, 4, 0, 0, 0, 2] (n + 1)))
    else build_loop 345 2025 hmJan7 bmid21 (fun n => rngOfList [3, 4, 0, 0, 3, 4, 0, 0, 3, 4, 0, 0, 1, 3, 4, 0, 0, 3, 4, 0, 0, 3, 4, 0, 0, 1, 3, 4, 0, 0, 0, 2] (n + 1)))
    = build_loop 345 2025 hmJan7 bst22 (rngOfList [4, 0, 0, 3, 4, 0, 0, 3, 4, 0, 0, 1, 3, 4, 0, 0, 3, 4, 0, 0, 3, 4, 0, 0, 1, 3, 4, 0, 0, 0, 2])
  rw [if_pos (show ((bmid21.current_date.year == 2025) = true) from rfl), hpr]
  show build_loop 345 2025 hmJan7 bst22 (fun n => rngOfList [3, 4, 0, 0, 3, 4, 0, 0, 3, 4, 0, 0, 1, 3, 4, 0, 0, 3, 4, 0, 0, 3, 4, 0, 0, 1, 3, 4, 0, 0, 0, 2] (n + 1)) =
    build_loop 345 2025 hmJan7 bst22 (rngOfList [4, 0, 0, 3, 4, 0, 0, 3, 4, 0, 0, 1, 3, 4, 0, 0, 3, 4, 0, 0, 3, 4, 0, 0, 1, 3, 4, 0, 0, 0, 2])
  rw [rngOfList_shift]

set_option maxRecDepth 4000 in
set_option maxHeartbeats 1000000 in
/-- Iteration 22 of the witness run: one work block and its rest block. -/
theorem buildStep22 : build_loop 345 2025 hmJan7 bst22 (rngOfList [4, 0, 0, 3, 4, 0, 0, 3, 4, 0, 0, 1, 3, 4, 0, 0, 3, 4, 0, 0, 3, 4, 0, 0, 1, 3, 4, 0, 0, 0, 2]) =
    build_loop 344 2025 hmJan7 bst23 (rngOfList [0, 0, 3, 4, 0, 0, 3, 4, 0, 0, 1, 3, 4, 0, 0, 3, 4, 0, 0, 3, 4, 0, 0, 1, 3, 4, 0, 0, 0, 2]) := by
  have hpw : place_work_block bst22 hmJan7 (rngOfList [4, 0, 0, 3, 4, 0, 0, 3, 4, 0, 0, 1, 3, 4, 0, 0, 3, 4, 0, 0, 3, 4, 0, 0, 1, 3, 4, 0, 0, 0, 2]) =
      Except.ok ((bmid22 : ScheduleState), fun n => rngOfList [4, 0, 0, 3, 4, 0, 0, 3, 4, 0, 0, 1, 3, 4, 0, 0, 3, 4, 0, 0, 3, 4, 0, 0, 1, 3, 4, 0, 0, 0, 2] (n + 1)) := rfl
  have hpr : place_rest_block bmid22 hmJan7 = Except.ok bst23 := rfl
  rw [show (345 : Nat) = 344 + 1 from rfl, build_loop_succ,
    if_pos (show ((bst22.current_date.year == 2025) = true) from rfl),
    show hmContains hmJan7 bst22.current_date = false from rfl,
    if_neg Bool.false_ne_true, hpw]
  show (if bmid22.current_date.year == 2025 then
      (match place_rest_block bmid22 hmJan7 with
       | Except.error e => (Except.error e : Except GenError (List Day))
       | Except.ok s3 => build_loop 344 2025 hmJan7 s3 (fun n => rngOfList [4, 0, 0, 3, 4, 0, 0, 3, 4, 0, 0, 1, 3, 4, 0, 0, 3, 4, 0, 0, 3, 4, 0, 0, 1, 3, 4, 0, 0, 0, 2] (n + 1)))
    else build_loop 344 2025 hmJan7 bmid22 (fun n => rngOfList [4, 0, 0, 3, 4, 0, 0, 3, 4, 0, 0, 1, 3, 4, 0, 0, 3, 4, 0, 0, 3, 4, 0, 0, 1, 3, 4, 0, 0, 0, 2] (n + 1)))
    = build_loop 344 2025 hmJan7 bst23 (rngOfList [0, 0, 3, 4, 0, 0, 3, 4, 0, 0, 1, 3, 4, 0, 0, 3, 4, 0, 0, 3, 4, 0, 0, 1, 3, 4, 0, 0, 0, 2])
  rw [if_pos (show ((bmid22.current_date.year == 2025) = true) from rfl), hpr]
  show build_loop 344 2025 hmJan7 bst23 (fun n => rngOfList [4, 0, 0, 3, 4, 0, 0, 3, 4, 0, 0, 1, 3, 4, 0, 0, 3, 4, 0, 0, 3, 4, 0, 0, 1, 3, 4, 0, 0, 0, 2] (n + 1)) =
    build_loop 344 2025 hmJan7 bst23 (rngOfList [0, 0, 3, 4, 0, 0, 3, 4, 0, 0, 1, 3, 4, 0, 0, 3, 4, 0, 0, 3, 4, 0, 0, 1, 3, 4, 0, 0, 0, 2])
  rw [rngOfList_shift]

set_option maxRecDepth 4000 in
set_option maxHeartbeats 1000000 in
/-- Iteration 23 of the witness run: one work block and its rest block. -/
theorem buildStep23 : build_loop 344 2025 hmJan7 bst23 (rngOfList [0, 0, 3, 4, 0, 0, 3, 4, 0, 0, 1, 3, 4, 0, 0, 3, 4, 0, 0, 3, 4, 0, 0, 1, 3, 4, 0, 0, 0, 2]) =
    build_loop 343 2025 hmJan7 bst24 (rngOfList [0, 3, 4, 0, 0, 3, 4, 0, 0, 1, 3, 4, 0, 0, 3, 4, 0, 0, 3, 4, 0, 0, 1, 3, 4, 0, 0, 0, 2]) := by
  have hpw : place_work_block bst23 hmJan7 (rngOfList [0, 0, 3, 4, 0, 0, 3, 4, 0, 0, 1, 3, 4, 0, 0, 3, 4, 0, 0, 3, 4, 0, 0, 1, 3, 4, 0, 0, 0, 2]) =
      Except.ok ((bmid23 : ScheduleState), fun n => rngOfList [0, 0, 3, 4, 0, 0, 3, 4, 0, 0, 1, 3, 4, 0, 0, 3, 4, 0, 0, 3, 4, 0, 0, 1, 3, 4, 0, 0, 0, 2] (n + 1)) := rfl
  have hpr : place_rest_block bmid23 hmJan7 = Except.ok bst24 := rfl
  rw [show (344 : Nat) = 343 + 1 from rfl, build_loop_succ,
    if_pos (show ((bst23.current_date.year == 2025) = true) from rfl),
    show hmContains hmJan7 bst23.current_date = false from rfl,
    if_neg Bool.false_ne_true, hpw]
  show (if bmid23.current_date.year == 2025 then
      (match place_rest_block bmid23 hmJan7 with
       | Except.error e => (Except.error e : Except GenError (List Day))
       | Except.ok s3 => build_loop 343 2025 hmJan7 s3 (fun n => rngOfList [0, 0, 3, 4, 0, 0, 3, 4, 0, 0, 1, 3, 4, 0, 0, 3, 4, 0, 0, 3, 4, 0, 0, 1, 3, 4, 0, 0, 0, 2] (n + 1)))
    else build_loop 343 2025 hmJan7 bmid23 (fun n => rngOfList [0, 0, 3, 4, 0, 0, 3, 4, 0, 0, 1, 3, 4, 0, 0, 3, 4, 0, 0, 3, 4, 0, 0, 1, 3, 4, 0, 0, 0, 2] (n + 1)))
    = build_loop 343 2025 hmJan7 bst24 (rngOfList [0, 3, 4, 0, 0, 3, 4, 0, 0, 1, 3, 4, 0, 0, 3, 4, 0, 0, 3, 4, 0, 0, 1, 3, 4, 0, 0, 0, 2])
  rw [if_pos (show ((bmid23.current_date.year == 2025) = true) from rfl), hpr]
  show build_loop 343 2025 hmJan7 bst24 (fun n => rngOfList [0, 0, 3, 4, 0, 0, 3, 4, 0, 0, 1, 3, 4, 0, 0, 3, 4, 0, 0, 3, 4, 0, 0, 1, 3, 4, 0, 0, 0, 2] (n + 1)) =
    build_loop 343 2025 hmJan7 bst24 (rngOfList [0, 3, 4, 0, 0, 3, 4, 0, 0, 1, 3, 4, 0, 0, 3, 4, 0, 0, 3, 4, 0, 0, 1, 3, 4, 0, 0, 0, 2])
  rw [rngOfList_shift]

set_option maxRecDepth 4000 in
set_option maxHeartbeats 1000000 in
/-- Iteration 24 of the witness run: one work block and its rest block. -/
theorem buildStep24 : build_loop 343 2025 hmJan7 bst24 (rngOfList [0, 3, 4, 0, 0, 3, 4, 0, 0, 1, 3, 4, 0, 0, 3, 4, 0, 0, 3, 4, 0, 0, 1, 3, 4, 0, 0, 0, 2]) =
    build_loop 342 2025 hmJan7 bst25 (rngOfList [3, 4, 0, 0, 3, 4, 0, 0, 1, 3, 4, 0, 0, 3, 4, 0, 0, 3, 4, 0, 0, 1, 3, 4, 0, 0, 0, 2]) := by
  have hpw : place_work_block bst24 hmJan7 (rngOfList [0, 3, 4, 0, 0, 3, 4, 0, 0, 1, 3, 4, 0, 0, 3, 4, 0, 0, 3, 4, 0, 0, 1, 3, 4, 0, 0, 0, 2]) =
      Except.ok ((bmid24 : ScheduleState), fun n => rngOfList [0, 3, 4, 0, 0, 3, 4, 0, 0, 1, 3, 4, 0, 0, 3, 4, 0, 0, 3, 4, 0, 0, 1, 3, 4, 0, 0, 0, 2] (n + 1)) := rfl
  have hpr : place_rest_block bmid24 hmJan7 = Except.ok bst25 := rfl
  rw [show (343 : Nat) = 342 + 1 from rfl, build_loop_succ,
    if_pos (show ((bst24.current_date.year == 2025) = true) from rfl),
    show hmContains hmJan7 bst24.current_date = false from rfl,
    if_neg Bool.false_ne_true, hpw]
  show (if bmid24.current_date.year == 2025 then
      (match place_rest_block bmid24 hmJan7 with
       | Except.error e => (Except.error e : Except GenError (List Day))
       | Except.ok s3 => build_loop 342 2025 hmJan7 s3 (fun n => rngOfList [0, 3, 4, 0, 0, 3, 4, 0, 0, 1, 3, 4, 0, 0, 3, 4, 0, 0, 3, 4, 0, 0, 1, 3, 4, 0, 0, 0, 2] (n + 1)))
    else build_loop 342 2025 hmJan7 bmid24 (fun n => rngOfList [0, 3, 4, 0, 0, 3, 4, 0, 0, 1, 3, 4, 0, 0, 3, 4, 0, 0, 3, 4, 0, 0, 1, 3, 4, 0, 0, 0, 2] (n + 1)))
    = build_loop 342 2025 hmJan7 bst25 (rngOfList [3, 4, 0, 0, 3, 4, 0, 0, 1, 3, 4, 0, 0, 3, 4, 0, 0, 3, 4, 0, 0, 1, 3, 4, 0, 0, 0, 2])
  rw [if_pos (show ((bmid24.current_date.year == 2025) = true) from rfl), hpr]
  show build_loop 342 2025 hmJan7 bst25 (fun n => rngOfList [0, 3, 4, 0, 0, 3, 4, 0, 0, 1, 3, 4, 0, 0, 3, 4, 0, 0, 3, 4, 0, 0, 1, 3, 4, 0, 0, 0, 2] (n + 1)) =
    build_loop 342 2025 hmJan7 bst25 (rngOfList [3, 4, 0, 0, 3, 4, 0, 0, 1, 3, 4, 0, 0, 3, 4, 0, 0, 3, 4, 0, 0, 1, 3, 4, 0, 0, 0, 2])
  rw [rngOfList_shift]

set_option maxRecDepth 4000 in
set_option maxHeartbeats 1000000 in
/-- Iteration 25 of the witness run: one work block and its rest block. -/
theorem buildStep25 : build_loop 342 2025 hmJan7 bst25 (rngOfList [3, 4, 0, 0, 3, 4, 0, 0, 1, 3, 4, 0, 0, 3, 4, 0, 0, 3, 4, 0, 0, 1, 3, 4, 0, 0, 0, 2]) =
    build_loop 341 2025 hmJan7 bst26 (rngOfList [4, 0, 0, 3, 4, 0, 0, 1, 3, 4, 0, 0, 3, 4, 0, 0, 3, 4, 0, 0, 1, 3, 4, 0, 0, 0, 2]) := by
  have hpw : place_work_block bst25 hmJan7 (rngOfList [3, 4, 0, 0, 3, 4, 0, 0, 1, 3, 4, 0, 0, 3, 4, 0, 0, 3, 4, 0, 0, 1, 3, 4, 0, 0, 0, 2]) =
      Except.ok ((bmid25 : ScheduleState), fun n => rngOfList [3, 4, 0, 0, 3, 4, 0, 0, 1, 3, 4, 0, 0, 3, 4, 0, 0, 3, 4, 0, 0, 1, 3, 4, 0, 0, 0, 2] (n + 1)) := rfl
  have hpr : place_rest_block bmid25 hmJan7 = Except.ok bst26 := rfl
  rw [show (342 : Nat) = 341 + 1 from rfl, build_loop_succ,
    if_pos (show ((bst25.current_date.year == 2025) = true) from rfl),
    show hmContains hmJan7 bst25.current_date = false from rfl,
    if_neg Bool.false_ne_true, hpw]
  show (if bmid25.current_date.year == 2025 then
      (match place_rest_block bmid25 hmJan7 with
       | Except.error e => (Except.error e : Except GenError (List Day))
       | Except.ok s3 => build_loop 341 2025 hmJan7 s3 (fun n => rngOfList [3, 4, 0, 0, 3, 4, 0, 0, 1, 3, 4, 0, 0, 3, 4, 0, 0, 3, 4, 0, 0, 1, 3, 4, 0, 0, 0, 2] (n + 1)))
    else build_loop 341 2025 hmJan7 bmid25 (fun n => rngOfList [3, 4, 0, 0, 3, 4, 0, 0, 1, 3, 4, 0, 0, 3, 4, 0, 0, 3, 4, 0, 0, 1, 3, 4, 0, 0, 0, 2] (n + 1)))
    = build_loop 341 2025 hmJan7 bst26 (rngOfList [4, 0, 0, 3, 4, 0, 0, 1, 3, 4, 0, 0, 3, 4, 0, 0, 3, 4, 0, 0, 1, 3, 4, 0, 0, 0, 2])
  rw [if_pos (show ((bmid25.current_date.year == 2025) = true) from rfl), hpr]
  show build_loop 341 2025 hmJan7 bst26 (fun n => rngOfList [3, 4, 0, 0, 3, 4, 0, 0, 1, 3, 4, 0, 0, 3, 4, 0, 0, 3, 4, 0, 0, 1, 3, 4, 0, 0, 0, 2] (n + 1)) =
    build_loop 341 2025 hmJan7 bst26 (rngOfList [4, 0, 0, 3, 4, 0, 0, 1, 3, 4, 0, 0, 3, 4, 0, 0, 3, 4, 0, 0, 1, 3, 4, 0, 0, 0, 2])
  rw [rngOfList_shift]

set_option maxRecDepth 4000 in
set_option maxHeartbeats 1000000 in
/-- Iteration 26 of the witness run: one work block and its rest block. -/
theorem buildStep26 : build_loop 341 2025 hmJan7 bst26 (rngOfList [4, 0, 0, 3, 4, 0, 0, 1, 3, 4, 0, 0, 3, 4, 0, 0, 3, 4, 0, 0, 1, 3, 4, 0, 0, 0, 2]) =
    build_loop 340 2025 hmJan7 bst27 (rngOfList [0, 0, 3, 4, 0, 0, 1, 3, 4, 0, 0, 3, 4, 0, 0, 3, 4, 0, 0, 1, 3, 4, 0, 0, 0, 2]) := by
  have hpw : place_work_block bst26 hmJan7 (rngOfList [4, 0, 0, 3, 4, 0, 0, 1, 3, 4, 0, 0, 3, 4, 0, 0, 3, 4, 0, 0, 1, 3, 4, 0, 0, 0, 2]) =
      Except.ok ((bmid26 : ScheduleState), fun n => rngOfList [4, 0, 0, 3, 4, 0, 0, 1, 3, 4, 0, 0, 3, 4, 0, 0, 3, 4, 0, 0, 1, 3, 4, 0, 0, 0, 2] (n + 1)) := rfl
  have hpr : place_rest_block bmid26 hmJan7 = Except.ok bst27 := rfl
  rw [show (341 : Nat) = 340 + 1 from rfl, build_loop_succ,
    if_pos (show ((bst26.current_date.year == 2025) = true) from rfl),
    show hmContains hmJan7 bst26.current_date = false from rfl,
    if_neg Bool.false_ne_true, hpw]
  show (if bmid26.current_date.year == 2025 then
      (match place_rest_block bmid26 hmJan7 with
       | Except.error e => (Except.error e : Except GenError (List Day))
       | Except.ok s3 => build_loop 340 2025 hmJan7 s3 (fun n => rngOfList [4, 0, 0, 3, 4, 0, 0, 1, 3, 4, 0, 0, 3, 4, 0, 0, 3, 4, 0, 0, 1, 3, 4, 0, 0, 0, 2] (n + 1)))
    else build_loop 340 2025 hmJan7 bmid26 (fun n => rngOfList [4, 0, 0, 3, 4, 0, 0, 1, 3, 4, 0, 0, 3, 4, 0, 0, 3, 4, 0, 0, 1, 3, 4, 0, 0, 0, 2] (n + 1)))
    = build_loop 340 2025 hmJan7 bst27 (rngOfList [0, 0, 3, 4, 0, 0, 1, 3, 4, 0, 0, 3, 4, 0, 0, 3, 4, 0, 0, 1, 3, 4, 0, 0, 0, 2])
  rw [if_pos (show ((bmid26.current_date.year == 2025) = true) from rfl), hpr]
  show build_loop 340 2025 hmJan7 bst27 (fun n => rngOfList [4, 0, 0, 3, 4, 0, 0, 1, 3, 4, 0, 0, 3, 4, 0, 0, 3, 4, 0, 0, 1, 3, 4, 0, 0, 0, 2] (n + 1)) =
    build_loop 340 2025 hmJan7 bst27 (rngOfList [0, 0, 3, 4, 0, 0, 1, 3, 4, 0, 0, 3, 4, 0, 0, 3, 4, 0, 0, 1, 3, 4, 0, 0, 0, 2])
  rw [rngOfList_shift]

set_option maxRecDepth 4000 in
set_option maxHeartbeats 1000000 in
/-- Iteration 27 of the witness run: one work block and its rest block. -/
theorem buildStep27 : build_loop 340 2025 hmJan7 bst27 (rngOfList [0, 0, 3, 4, 0, 0, 1, 3, 4, 0, 0, 3, 4, 0, 0, 3, 4, 0, 0, 1, 3, 4, 0, 0, 0, 2]) =
    build_loop 339 2025 hmJan7 bst28 (rngOfList [0, 3, 4, 0, 0, 1, 3, 4, 0, 0, 3, 4, 0, 0, 3, 4, 0, 0, 1, 3, 4, 0, 0, 0, 2]) := by
  have hpw : place_work_block bst27 hmJan7 (rngOfList [0, 0, 3, 4, 0, 0, 1, 3, 4, 0, 0, 3, 4, 0, 0, 3, 4, 0, 0, 1, 3, 4, 0, 0, 0, 2]) =
      Except.ok ((bmid27 : ScheduleState), fun n => rngOfList [0, 0, 3, 4, 0, 0, 1, 3, 4, 0, 0, 3, 4, 0, 0, 3, 4, 0, 0, 1, 3, 4, 0, 0, 0, 2] (n + 1)) := rfl
  have hpr : place_rest_block bmid27 hmJan7 = Except.ok bst28 := rfl
  rw [show (340 : Nat) = 339 + 1 from rfl, build_loop_succ,
    if_pos (show ((bst27.current_date.year == 2025) = true) from rfl),
    show hmContains hmJan7 bst27.current_date = false from rfl,
    if_neg Bool.false_ne_true, hpw]
  show (if bmid27.current_date.year == 2025 then
      (match place_rest_block bmid27 hmJan7 with
       | Except.error e => (Except.error e : Except GenError (List Day))
       | Except.ok s3 => build_loop 339 2025 hmJan7 s3 (fun n => rngOfList [0, 0, 3, 4, 0, 0, 1, 3, 4, 0, 0, 3, 4, 0, 0, 3, 4, 0, 0, 1, 3, 4, 0, 0, 0, 2] (n + 1)))
    else build_loop 339 2025 hmJan7 bmid27 (fun n => rngOfList [0, 0, 3, 4, 0, 0, 1, 3, 4, 0, 0, 3, 4, 0, 0, 3, 4, 0, 0, 1, 3, 4, 0, 0, 0, 2] (n + 1)))
    = build_loop 339 2025 hmJan7 bst28 (rngOfList [0, 3, 4, 0, 0, 1, 3, 4, 0, 0, 3, 4, 0, 0, 3, 4, 0, 0, 1, 3, 4, 0, 0, 0, 2])
  rw [if_pos (show ((bmid27.current_date.year == 2025) = true) from rfl), hpr]
  show build_loop 339 2025 hmJan7 bst28 (fun n => rngOfList [0, 0, 3, 4, 0, 0, 1, 3, 4, 0, 0, 3, 4, 0, 0, 3, 4, 0, 0, 1, 3, 4, 0, 0, 0, 2] (n + 1)) =
    build_loop 339 2025 hmJan7 bst28 (rngOfList [0, 3, 4, 0, 0, 1, 3, 4, 0, 0, 3, 4, 0, 0, 3, 4, 0, 0, 1, 3, 4, 0, 0, 0, 2])
  rw [rngOfList_shift]

set_option maxRecDepth 4000 in
set_option maxHeartbeats 1000000 in
/-- Iteration 28 of the witness run: one work block and its rest block. -/
theorem buildStep28 : build_loop 339 2025 hmJan7 bst28 (rngOfList [0, 3, 4, 0, 0, 1, 3, 4, 0, 0, 3, 4, 0, 0, 3, 4, 0, 0, 1, 3, 4, 0, 0, 0, 2]) =
    build_loop 338 2025 hmJan7 bst29 (rngOfList [3, 4, 0, 0, 1, 3, 4, 0, 0, 3, 4, 0, 0, 3, 4, 0, 0, 1, 3, 4, 0, 0, 0, 2]) := by
  have hpw : place_work_block bst28 hmJan7 (rngOfList [0, 3, 4, 0, 0, 1, 3, 4, 0, 0, 3, 4, 0, 0, 3, 4, 0, 0, 1, 3, 4, 0, 0, 0, 2]) =
      Except.ok ((bmid28 : ScheduleState), fun n => rngOfList [0, 3, 4, 0, 0, 1, 3, 4, 0, 0, 3, 4, 0, 0, 3, 4, 0, 0, 1, 3, 4, 0, 0, 0, 2] (n + 1)) := rfl
  have hpr : place_rest_block bmid28 hmJan7 = Except.ok bst29 := rfl
  rw [show (339 : Nat) = 338 + 1 from rfl, build_loop_succ,
    if_pos (show ((bst28.current_date.year == 2025) = true) from rfl),
    show hmContains hmJan7 bst28.current_date = false from rfl,
    if_neg Bool.false_ne_true, hpw]
  show (if bmid28.current_date.year == 2025 then
      (match place_rest_block bmid28 hmJan7 with
       | Except.error e => (Except.error e : Except GenError (List Day))
       | Except.ok s3 => build_loop 338 2025 hmJan7 s3 (fun n => rngOfList [0, 3, 4, 0, 0, 1, 3, 4, 0, 0, 3, 4, 0, 0, 3, 4, 0, 0, 1, 3, 4, 0, 0, 0, 2] (n + 1)))
    else build_loop 338 2025 hmJan7 bmid28 (fun n => rngOfList [0, 3, 4, 0, 0, 1, 3, 4, 0, 0, 3, 4, 0, 0, 3, 4, 0, 0, 1, 3, 4, 0, 0, 0, 2] (n + 1)))
    = build_loop 338 2025 hmJan7 bst29 (rngOfList [3, 4, 0, 0, 1, 3, 4, 0, 0, 3, 4, 0, 0, 3, 4, 0, 0, 1, 3, 4, 0, 0, 0, 2])
  rw [if_pos (show ((bmid28.current_date.year == 2025) = true) from rfl), hpr]
  show build_loop 338 2025 hmJan7 bst29 (fun n => rngOfList [0, 3, 4, 0, 0, 1, 3, 4, 0, 0, 3, 4, 0, 0, 3, 4, 0, 0, 1, 3, 4, 0, 0, 0, 2] (n + 1)) =
    build_loop 338 2025 hmJan7 bst29 (rngOfList [3, 4, 0, 0, 1, 3, 4, 0, 0, 3, 4, 0, 0, 3, 4, 0, 0, 1, 3, 4, 0, 0, 0, 2])
  rw [rngOfList_shift]

set_option maxRecDepth 4000 in
set_option maxHeartbeats 1000000 in
/-- Iteration 29 of the witness run: one work block and its rest block. -/
theorem buildStep29 : build_loop 338 2025 hmJan7 bst29 (rngOfList [3, 4, 0, 0, 1, 3, 4, 0, 0, 3, 4, 0, 0, 3, 4, 0, 0, 1, 3, 4, 0, 0, 0, 2]) =
    build_loop 337 2025 hmJan7 bst30 (rngOfList [4, 0, 0, 1, 3, 4, 0, 0, 3, 4, 0, 0, 3, 4, 0, 0, 1, 3, 4, 0, 0, 0, 2]) := by
  have hpw : place_work_block bst29 hmJan7 (rngOfList [3, 4, 0, 0, 1, 3, 4, 0, 0, 3, 4, 0, 0, 3, 4, 0, 0, 1, 3, 4, 0, 0, 0, 2]) =
      Except.ok ((bmid29 : ScheduleState), fun n => rngOfList [3, 4, 0, 0, 1, 3, 4, 0, 0, 3, 4, 0, 0, 3, 4, 0, 0, 1, 3, 4, 0, 0, 0, 2] (n + 1)) := rfl
  have hpr : place_rest_block bmid29 hmJan7 = Except.ok bst30 := rfl
  rw [show (338 : Nat) = 337 + 1 from rfl, build_loop_succ,
    if_pos (show ((bst29.current_date.year == 2025) = true) from rfl),
    show hmContains hmJan7 bst29.current_date = false from rfl,
    if_neg Bool.false_ne_true, hpw]
  show (if bmid29.current_date.year == 2025 then
      (match place_rest_block bmid29 hmJan7 with
       | Except.error e => (Except.error e : Except GenError (List Day))
       | Except.ok s3 => build_loop 337 2025 hmJan7 s3 (fun n => rngOfList [3, 4, 0, 0, 1, 3, 4, 0, 0, 3, 4, 0, 0, 3, 4, 0, 0, 1, 3, 4, 0, 0, 0, 2] (n + 1)))
    else build_loop 337 2025 hmJan7 bmid29 (fun n => rngOfList [3, 4, 0, 0, 1, 3, 4, 0, 0, 3, 4, 0, 0, 3, 4, 0, 0, 1, 3, 4, 0, 0, 0, 2] (n + 1)))
    = build_loop 337 2025 hmJan7 bst30 (rngOfList [4, 0, 0, 1, 3, 4, 0, 0, 3, 4, 0, 0, 3, 4, 0, 0, 1, 3, 4, 0, 0, 0, 2])
  rw [if_pos (show ((bmid29.current_date.year == 2025) = true) from rfl), hpr]
  show build_loop 337 2025 hmJan7 bst30 (fun n => rngOfList [3, 4, 0, 0, 1, 3, 4, 0, 0, 3, 4, 0, 0, 3, 4, 0, 0, 1, 3, 4, 0, 0, 0, 2] (n + 1)) =
    build_loop 337 2025 hmJan7 bst30 (rngOfList [4, 0, 0, 1, 3, 4, 0, 0, 3, 4, 0, 0, 3, 4, 0, 0, 1, 3, 4, 0, 0, 0, 2])
  rw [rngOfList_shift]

set_option maxRecDepth 4000 in
set_option maxHeartbeats 1000000 in
/-- Iteration 30 of the witness run: one work block and its rest block. -/
theorem buildStep30 : build_loop 337 2025 hmJan7 bst30 (rngOfList [4, 0, 0, 1, 3, 4, 0, 0, 3, 4, 0, 0, 3, 4, 0, 0, 1, 3, 4, 0, 0, 0, 2]) =
    build_loop 336 2025 hmJan7 bst31 (rngOfList [0, 0, 1, 3, 4, 0, 0, 3, 4, 0, 0, 3, 4, 0, 0, 1, 3, 4, 0, 0, 0, 2]) := by
  have hpw : place_work_block bst30 hmJan7 (rngOfList [4, 0, 0, 1, 3, 4, 0, 0, 3, 4, 0, 0, 3, 4, 0, 0, 1, 3, 4, 0, 0, 0, 2]) =
      Except.ok ((bmid30 : ScheduleState), fun n => rngOfList [4, 0, 0, 1, 3, 4, 0, 0, 3, 4, 0, 0, 3, 4, 0, 0, 1, 3, 4, 0, 0, 0, 2] (n + 1)) := rfl
  have hpr : place_rest_block bmid30 hmJan7 = Except.ok bst31 := rfl
  rw [show (337 : Nat) = 336 + 1 from rfl, build_loop_succ,
    if_pos (show ((bst30.current_date.year == 2025) = true) from rfl),
    show hmContains hmJan7 bst30.current_date = false from rfl,
    if_neg Bool.false_ne_true, hpw]
  show (if bmid30.current_date.year == 2025 then
      (match place_rest_block bmid30 hmJan7 with
       | Except.error e => (Except.error e : Except GenError (List Day))
       | Except.ok s3 => build_loop 336 2025 hmJan7 s3 (fun n => rngOfList [4, 0, 0, 1, 3, 4, 0, 0, 3, 4, 0, 0, 3, 4, 0, 0, 1, 3, 4, 0, 0, 0, 2] (n + 1)))
    else build_loop 336 2025 hmJan7 bmid30 (fun n => rngOfList [4, 0, 0, 1, 3, 4, 0, 0, 3, 4, 0, 0, 3, 4, 0, 0, 1, 3, 4, 0, 0, 0, 2] (n + 1)))
    = build_loop 336 2025 hmJan7 bst31 (rngOfList [0, 0, 1, 3, 4, 0, 0, 3, 4, 0, 0, 3, 4, 0, 0, 1, 3, 4, 0, 0, 0, 2])
  rw [if_pos (show ((bmid30.current_date.year == 2025) = true) from rfl), hpr]
  show build_loop 336 2025 hmJan7 bst31 (fun n => rngOfList [4, 0, 0, 1, 3, 4, 0, 0, 3, 4, 0, 0, 3, 4, 0, 0, 1, 3, 4, 0, 0, 0, 2] (n + 1)) =
    build_loop 336 2025 hmJan7 bst31 (rngOfList [0, 0, 1, 3, 4, 0, 0, 3, 4, 0, 0, 3, 4, 0, 0, 1, 3, 4, 0, 0, 0, 2])
  rw [rngOfList_shift]

set_option maxRecDepth 4000 in
set_option maxHeartbeats 1000000 in
/-- Iteration 31 of the witness run: one work block and its rest block. -/
theorem buildStep31 : build_loop 336 2025 hmJan7 bst31 (rngOfList [0, 0, 1, 3, 4, 0, 0, 3, 4, 0, 0, 3, 4, 0, 0, 1, 3, 4, 0, 0, 0, 2]) =
    build_loop 335 2025 hmJan7 bst32 (rngOfList [0, 1, 3, 4, 0, 0, 3, 4, 0, 0, 3, 4, 0, 0, 1, 3, 4, 0, 0, 0, 2]) := by
  have hpw : place_work_block bst31 hmJan7 (rngOfList [0, 0, 1, 3, 4, 0, 0, 3, 4, 0, 0, 3, 4, 0, 0, 1, 3, 4, 0, 0, 0, 2]) =
      Except.ok ((bmid31 : ScheduleState), fun n => rngOfList [0, 0, 1, 3, 4, 0, 0, 3, 4, 0, 0, 3, 4, 0, 0, 1, 3, 4, 0, 0, 0, 2] (n + 1)) := rfl
  have hpr : place_rest_block bmid31 hmJan7 = Except.ok bst32 := rfl
  rw [show (336 : Nat) = 335 + 1 from rfl, build_loop_succ,
    if_pos (show ((bst31.current_date.year == 2025) = true) from rfl),
    show hmContains hmJan7 bst31.current_date = false from rfl,
    if_neg Bool.false_ne_true, hpw]
  show (if bmid31.current_date.year == 2025 then
      (match place_rest_block bmid31 hmJan7 with
       | Except.error e => (Except.error e : Except GenError (List Day))
       | Except.ok s3 => build_loop 335 2025 hmJan7 s3 (fun n => rngOfList [0, 0, 1, 3, 4, 0, 0, 3, 4, 0, 0, 3, 4, 0, 0, 1, 3, 4, 0, 0, 0, 2] (n + 1)))
    else build_loop 335 2025 hmJan7 bmid31 (fun n => rngOfList [0, 0, 1, 3, 4, 0, 0, 3, 4, 0, 0, 3, 4, 0, 0, 1, 3, 4, 0, 0, 0, 2] (n + 1)))
    = build_loop 335 2025 hmJan7 bst32 (rngOfList [0, 1, 3, 4, 0, 0, 3, 4, 0, 0, 3, 4, 0, 0, 1, 3, 4, 0, 0, 0, 2])
  rw [if_pos (show ((bmid31.current_date.year == 2025) = true) from rfl), hpr]
  show build_loop 335 2025 hmJan7 bst32 (fun n => rngOfList [0, 0, 1, 3, 4, 0, 0, 3, 4, 0, 0, 3, 4, 0, 0, 1, 3, 4, 0, 0, 0, 2] (n + 1)) =
    build_loop 335 2025 hmJan7 bst32 (rngOfList [0, 1, 3, 4, 0, 0, 3, 4, 0, 0, 3, 4, 0, 0, 1, 3, 4, 0, 0, 0, 2])
  rw [rngOfList_shift]

set_option maxRecDepth 4000 in
set_option maxHeartbeats 1000000 in
/-- Iteration 32 of the witness run: one work block and its rest block. -/
theorem buildStep32 : build_loop 335 2025 hmJan7 bst32 (rngOfList [0, 1, 3, 4, 0, 0, 3, 4, 0, 0, 3, 4, 0, 0, 1, 3, 4, 0, 0, 0, 2]) =
    build_loop 334 2025 hmJan7 bst33 (rngOfList [1, 3, 4, 0, 0, 3, 4, 0, 0, 3, 4, 0, 0, 1, 3, 4, 0, 0, 0, 2]) := by
  have hpw : place_work_block bst32 hmJan7 (rngOfList [0, 1, 3, 4, 0, 0, 3, 4, 0, 0, 3, 4, 0, 0, 1, 3, 4, 0, 0, 0, 2]) =
      Except.ok ((bmid32 : ScheduleState), fun n => rngOfList [0, 1, 3, 4, 0, 0, 3, 4, 0, 0, 3, 4, 0, 0, 1, 3, 4, 0, 0, 0, 2] (n + 1)) := rfl
  have hpr : place_rest_block bmid32 hmJan7 = Except.ok bst33 := rfl
  rw [show (335 : Nat) = 334 + 1 from rfl, build_loop_succ,
    if_pos (show ((bst32.current_date.year == 2025) = true) from rfl),
    show hmContains hmJan7 bst32.current_date = false from rfl,
    if_neg Bool.false_ne_true, hpw]
  show (if bmid32.current_date.year == 2025 then
      (match place_rest_block bmid32 hmJan7 with
       | Except.error e => (Except.error e : Except GenError (List Day))
       | Except.ok s3 => build_loop 334 2025 hmJan7 s3 (fun n => rngOfList [0, 1, 3, 4, 0, 0, 3, 4, 0, 0, 3, 4, 0, 0, 1, 3, 4, 0, 0, 0, 2] (n + 1)))
    else build_loop 334 2025 hmJan7 bmid32 (fun n => rngOfList [0, 1, 3, 4, 0, 0, 3, 4, 0, 0, 3, 4, 0, 0, 1, 3, 4, 0, 0, 0, 2] (n + 1)))
    = build_loop 334 2025 hmJan7 bst33 (rngOfList [1, 3, 4, 0, 0, 3, 4, 0, 0, 3, 4, 0, 0, 1, 3, 4, 0, 0, 0, 2])
  rw [if_pos (show ((bmid32.current_date.year == 2025) = true) from rfl), hpr]
  show build_loop 334 2025 hmJan7 bst33 (fun n => rngOfList [0, 1, 3, 4, 0, 0, 3, 4, 0, 0, 3, 4, 0, 0, 1, 3, 4, 0, 0, 0, 2] (n + 1)) =
    build_loop 334 2025 hmJan7 bst33 (rngOfList [1, 3, 4, 0, 0, 3, 4, 0, 0, 3, 4, 0, 0, 1, 3, 4, 0, 0, 0, 2])
  rw [rngOfList_shift]

set_option maxRecDepth 4000 in
set_option maxHeartbeats 1000000 in
/-- Iteration 33 of the witness run: one work block and its rest block. -/
theorem buildStep33 : build_loop 334 2025 hmJan7 bst33 (rngOfList [1, 3, 4, 0, 0, 3, 4, 0, 0, 3, 4, 0, 0, 1, 3, 4, 0, 0, 0, 2]) =
    build_loop 333 2025 hmJan7 bst34 (rngOfList [3, 4, 0, 0, 3, 4, 0, 0, 3, 4, 0, 0, 1, 3, 4, 0, 0, 0, 2]) := by
  have hpw : place_work_block bst33 hmJan7 (rngOfList [1, 3, 4, 0, 0, 3, 4, 0, 0, 3, 4, 0, 0, 1, 3, 4, 0, 0, 0, 2]) =
      Except.ok ((bmid33 : ScheduleState), fun n => rngOfList [1, 3, 4, 0, 0, 3, 4, 0, 0, 3, 4, 0, 0, 1, 3, 4, 0, 0, 0, 2] (n + 1)) := rfl
  have hpr : place_rest_block bmid33 hmJan7 = Except.ok bst34 := rfl
  rw [show (334 : Nat) = 333 + 1 from rfl, build_loop_succ,
    if_pos (show ((bst33.current_date.year == 2025) = true) from rfl),
    show hmContains hmJan7 bst33.current_date = false from rfl,
    if_neg Bool.false_ne_true, hpw]
  show (if bmid33.current_date.year == 2025 then
      (match place_rest_block bmid33 hmJan7 with
       | Except.error e => (Except.error e : Except GenError (List Day))
       | Except.ok s3 => build_loop 333 2025 hmJan7 s3 (fun n => rngOfList [1, 3, 4, 0, 0, 3, 4, 0, 0, 3, 4, 0, 0, 1, 3, 4, 0, 0, 0, 2] (n + 1)))
    else build_loop 333 2025 hmJan7 bmid33 (fun n => rngOfList [1, 3, 4, 0, 0, 3, 4, 0, 0, 3, 4, 0, 0, 1, 3, 4, 0, 0, 0, 2] (n + 1)))
    = build_loop 333 2025 hmJan7 bst34 (rngOfList [3, 4, 0, 0, 3, 4, 0, 0, 3, 4, 0, 0, 1, 3, 4, 0, 0, 0, 2])
  rw [if_pos (show ((bmid33.current_date.year == 2025) = true) from rfl), hpr]
  show build_loop 333 2025 hmJan7 bst34 (fun n => rngOfList [1, 3, 4, 0, 0, 3, 4, 0, 0, 3, 4, 0, 0, 1, 3, 4, 0, 0, 0, 2] (n + 1)) =
    build_loop 333 2025 hmJan7 bst34 (rngOfList [3, 4, 0, 0, 3, 4, 0, 0, 3, 4, 0, 0, 1, 3, 4, 0, 0, 0, 2])
  rw [rngOfList_shift]

set_option maxRecDepth 4000 in
set_option maxHeartbeats 1000000 in
/-- Iteration 34 of the witness run: one work block and its rest block. -/
theorem buildStep34 : build_loop 333 2025 hmJan7 bst34 (rngOfList [3, 4, 0, 0, 3, 4, 0, 0, 3, 4, 0, 0, 1, 3, 4, 0, 0, 0, 2]) =
    build_loop 332 2025 hmJan7 bst35 (rngOfList [4, 0, 0, 3, 4, 0, 0, 3, 4, 0, 0, 1, 3, 4, 0, 0, 0, 2]) := by
  have hpw : place_work_block bst34 hmJan7 (rngOfList [3, 4, 0, 0, 3, 4, 0, 0, 3, 4, 0, 0, 1, 3, 4, 0, 0, 0, 2]) =
      Except.ok ((bmid34 : ScheduleState), fun n => rngOfList [3, 4, 0, 0, 3, 4, 0, 0, 3, 4, 0, 0, 1, 3, 4, 0, 0, 0, 2] (n + 1)) := rfl
  have hpr : place_rest_block bmid34 hmJan7 = Except.ok bst35 := rfl
  rw [show (333 : Nat) = 332 + 1 from rfl, build_loop_succ,
    if_pos (show ((bst34.current_date.year == 2025) = true) from rfl),
    show hmContains hmJan7 bst34.current_date = false from rfl,
    if_neg Bool.false_ne_true, hpw]
  show (if bmid34.current_date.year == 2025 then
      (match place_rest_block bmid34 hmJan7 with
       | Except.error e => (Except.error e : Except GenError (List Day))
       | Except.ok s3 => build_loop 332 2025 hmJan7 s3 (fun n => rngOfList [3, 4, 0, 0, 3, 4, 0, 0, 3, 4, 0, 0, 1, 3, 4, 0, 0, 0, 2] (n + 1)))
    else build_loop 332 2025 hmJan7 bmid34 (fun n => rngOfList [3, 4, 0, 0, 3, 4, 0, 0, 3, 4, 0, 0, 1, 3, 4, 0, 0, 0, 2] (n + 1)))
    = build_loop 332 2025 hmJan7 bst35 (rngOfList [4, 0, 0, 3, 4, 0, 0, 3, 4, 0, 0, 1, 3, 4, 0, 0, 0, 2])
  rw [if_pos (show ((bmid34.current_date.year == 2025) = true) from rfl), hpr]
  show build_loop 332 2025 hmJan7 bst35 (fun n => rngOfList [3, 4, 0, 0, 3, 4, 0, 0, 3, 4, 0, 0, 1, 3, 4, 0, 0, 0, 2] (n + 1)) =
    build_loop 332 2025 hmJan7 bst35 (rngOfList [4, 0, 0, 3, 4, 0, 0, 3, 4, 0, 0, 1, 3, 4, 0, 0, 0, 2])
  rw [rngOfList_shift]

set_option maxRecDepth 4000 in
set_option maxHeartbeats 1000000 in
/-- Iteration 35 of the witness run: one work block and its rest block. -/
theorem buildStep35 : build_loop 332 2025 hmJan7 bst35 (rngOfList [4, 0, 0, 3, 4, 0, 0, 3, 4, 0, 0, 1, 3, 4, 0, 0, 0, 2]) =
    build_loop 331 2025 hmJan7 bst36 (rngOfList [0, 0, 3, 4, 0, 0, 3, 4, 0, 0, 1, 3, 4, 0, 0, 0, 2]) := by
  have hpw : place_work_block bst35 hmJan7 (rngOfList [4, 0, 0, 3, 4, 0, 0, 3, 4, 0, 0, 1, 3, 4, 0, 0, 0, 2]) =
      Except.ok ((bmid35 : ScheduleState), fun n => rngOfList [4, 0, 0, 3, 4, 0, 0, 3, 4, 0, 0, 1, 3, 4, 0, 0, 0, 2] (n + 1)) := rfl
  have hpr : place_rest_block bmid35 hmJan7 = Except.ok bst36 := rfl
  rw [show (332 : Nat) = 331 + 1 from rfl, build_loop_succ,
    if_pos (show ((bst35.current_date.year == 2025) = true) from rfl),
    show hmContains hmJan7 bst35.current_date = false from rfl,
    if_neg Bool.false_ne_true, hpw]
  show (if bmid35.current_date.year == 2025 then
      (match place_rest_block bmid35 hmJan7 with
       | Except.error e => (Except.error e : Except GenError (List Day))
       | Except.ok s3 => build_loop 331 2025 hmJan7 s3 (fun n => rngOfList [4, 0, 0, 3, 4, 0, 0, 3, 4, 0, 0, 1, 3, 4, 0, 0, 0, 2] (n + 1)))
    else build_loop 331 2025 hmJan7 bmid35 (fun n => rngOfList [4, 0, 0, 3, 4, 0, 0, 3, 4, 0, 0, 1, 3, 4, 0, 0, 0, 2] (n + 1)))
    = build_loop 331 2025 hmJan7 bst36 (rngOfList [0, 0, 3, 4, 0, 0, 3, 4, 0, 0, 1, 3, 4, 0, 0, 0, 2])
  rw [if_pos (show ((bmid35.current_date.year == 2025) = true) from rfl), hpr]
  show build_loop 331 2025 hmJan7 bst36 (fun n => rngOfList [4, 0, 0, 3, 4, 0, 0, 3, 4, 0, 0, 1, 3, 4, 0, 0, 0, 2] (n + 1)) =
    build_loop 331 2025 hmJan7 bst36 (rngOfList [0, 0, 3, 4, 0, 0, 3, 4, 0, 0, 1, 3, 4, 0, 0, 0, 2])
  rw [rngOfList_shift]

set_option maxRecDepth 4000 in
set_option maxHeartbeats 1000000 in
/-- Iteration 36 of the witness run: one work block and its rest block. -/
theorem buildStep36 : build_loop 331 2025 hmJan7 bst36 (rngOfList [0, 0, 3, 4, 0, 0, 3, 4, 0, 0, 1, 3, 4, 0, 0, 0, 2]) =
    build_loop 330 2025 hmJan7 bst37 (rngOfList [0, 3, 4, 0, 0, 3, 4, 0, 0, 1, 3, 4, 0, 0, 0, 2]) := by
  have hpw : place_work_block bst36 hmJan7 (rngOfList [0, 0, 3, 4, 0, 0, 3, 4, 0, 0, 1, 3, 4, 0, 0, 0, 2]) =
      Except.ok ((bmid36 : ScheduleState), fun n => rngOfList [0, 0, 3, 4, 0, 0, 3, 4, 0, 0, 1, 3, 4, 0, 0, 0, 2] (n + 1)) := rfl
  have hpr : place_rest_block bmid36 hmJan7 = Except.ok bst37 := rfl
  rw [show (331 : Nat) = 330 + 1 from rfl, build_loop_succ,
    if_pos (show ((bst36.current_date.year == 2025) = true) from rfl),
    show hmContains hmJan7 bst36.current_date = false from rfl,
    if_neg Bool.false_ne_true, hpw]
  show (if bmid36.current_date.year == 2025 then
      (match place_rest_block bmid36 hmJan7 with
       | Except.error e => (Except.error e : Except GenError (List Day))
       | Except.ok s3 => build_loop 330 2025 hmJan7 s3 (fun n => rngOfList [0, 0, 3, 4, 0, 0, 3, 4, 0, 0, 1, 3, 4, 0, 0, 0, 2] (n + 1)))
    else build_loop 330 2025 hmJan7 bmid36 (fun n => rngOfList [0, 0, 3, 4, 0, 0, 3, 4, 0, 0, 1, 3, 4, 0, 0, 0, 2] (n + 1)))
    = build_loop 330 2025 hmJan7 bst37 (rngOfList [0, 3, 4, 0, 0, 3, 4, 0, 0, 1, 3, 4, 0, 0, 0, 2])
  rw [if_pos (show ((bmid36.current_date.year == 2025) = true) from rfl), hpr]
  show build_loop 330 2025 hmJan7 bst37 (fun n => rngOfList [0, 0, 3, 4, 0, 0, 3, 4, 0, 0, 1, 3, 4, 0, 0, 0, 2] (n + 1)) =
    build_loop 330 2025 hmJan7 bst37 (rngOfList [0, 3, 4, 0, 0, 3, 4, 0, 0, 1, 3, 4, 0, 0, 0, 2])
  rw [rngOfList_shift]

set_option maxRecDepth 4000 in
set_option maxHeartbeats 1000000 in
/-- Iteration 37 of the witness run: one work block and its rest block. -/
theorem buildStep37 : build_loop 330 2025 hmJan7 bst37 (rngOfList [0, 3, 4, 0, 0, 3, 4, 0, 0, 1, 3, 4, 0, 0, 0, 2]) =
    build_loop 329 2025 hmJan7 bst38 (rngOfList [3, 4, 0, 0, 3, 4, 0, 0, 1, 3, 4, 0, 0, 0, 2]) := by
  have hpw : place_work_block bst37 hmJan7 (rngOfList [0, 3, 4, 0, 0, 3, 4, 0, 0, 1, 3, 4, 0, 0, 0, 2]) =
      Except.ok ((bmid37 : ScheduleState), fun n => rngOfList [0, 3, 4, 0, 0, 3, 4, 0, 0, 1, 3, 4, 0, 0, 0, 2] (n + 1)) := rfl
  have hpr : place_rest_block bmid37 hmJan7 = Except.ok bst38 := rfl
  rw [show (330 : Nat) = 329 + 1 from rfl, build_loop_succ,
    if_pos (show ((bst37.current_date.year == 2025) = true) from rfl),
    show hmContains hmJan7 bst37.current_date = false from rfl,
    if_neg Bool.false_ne_true, hpw]
  show (if bmid37.current_date.year == 2025 then
      (match place_rest_block bmid37 hmJan7 with
       | Except.error e => (Except.error e : Except GenError (List Day))
       | Except.ok s3 => build_loop 329 2025 hmJan7 s3 (fun n => rngOfList [0, 3, 4, 0, 0, 3, 4, 0, 0, 1, 3, 4, 0, 0, 0, 2] (n + 1)))
    else build_loop 329 2025 hmJan7 bmid37 (fun n => rngOfList [0, 3, 4, 0, 0, 3, 4, 0, 0, 1, 3, 4, 0, 0, 0, 2] (n + 1)))
    = build_loop 329 2025 hmJan7 bst38 (rngOfList [3, 4, 0, 0, 3, 4, 0, 0, 1, 3, 4, 0, 0, 0, 2])
  rw [if_pos (show ((bmid37.current_date.year == 2025) = true) from rfl), hpr]
  show build_loop 329 2025 hmJan7 bst38 (fun n => rngOfList [0, 3, 4, 0, 0, 3, 4, 0, 0, 1, 3, 4, 0, 0, 0, 2] (n + 1)) =
    build_loop 329 2025 hmJan7 bst38 (rngOfList [3, 4, 0, 0, 3, 4, 0, 0, 1, 3, 4, 0, 0, 0, 2])
  rw [rngOfList_shift]

set_option maxRecDepth 4000 in
set_option maxHeartbeats 1000000 in
/-- Iteration 38 of the witness run: one work block and its rest block. -/
theorem buildStep38 : build_loop 329 2025 hmJan7 bst38 (rngOfList [3, 4, 0, 0, 3, 4, 0, 0, 1, 3, 4, 0, 0, 0, 2]) =
    build_loop 328 2025 hmJan7 bst39 (rngOfList [4, 0, 0, 3, 4, 0, 0, 1, 3, 4, 0, 0, 0, 2]) := by
  have hpw : place_work_block bst38 hmJan7 (rngOfList [3, 4, 0, 0, 3, 4, 0, 0, 1, 3, 4, 0, 0, 0, 2]) =
      Except.ok ((bmid38 : ScheduleState), fun n => rngOfList [3, 4, 0, 0, 3, 4, 0, 0, 1, 3, 4, 0, 0, 0, 2] (n + 1)) := rfl
  have hpr : place_rest_block bmid38 hmJan7 = Except.ok bst39 := rfl
  rw [show (329 : Nat) = 328 + 1 from rfl, build_loop_succ,
    if_pos (show ((bst38.current_date.year == 2025) = true) from rfl),
    show hmContains hmJan7 bst38.current_date = false from rfl,
    if_neg Bool.false_ne_true, hpw]
  show (if bmid38.current_date.year == 2025 then
      (match place_rest_block bmid38 hmJan7 with
       | Except.error e => (Except.error e : Except GenError (List Day))
       | Except.ok s3 => build_loop 328 2025 hmJan7 s3 (fun n => rngOfList [3, 4, 0, 0, 3, 4, 0, 0, 1, 3, 4, 0, 0, 0, 2] (n + 1)))
    else build_loop 328 2025 hmJan7 bmid38 (fun n => rngOfList [3, 4, 0, 0, 3, 4, 0, 0, 1, 3, 4, 0, 0, 0, 2] (n + 1)))
    = build_loop 328 2025 hmJan7 bst39 (rngOfList [4, 0, 0, 3, 4, 0, 0, 1, 3, 4, 0, 0, 0, 2])
  rw [if_pos (show ((bmid38.current_date.year == 2025) = true) from rfl), hpr]
  show build_loop 328 2025 hmJan7 bst39 (fun n => rngOfList [3, 4, 0, 0, 3, 4, 0, 0, 1, 3, 4, 0, 0, 0, 2] (n + 1)) =
    build_loop 328 2025 hmJan7 bst39 (rngOfList [4, 0, 0, 3, 4, 0, 0, 1, 3, 4, 0, 0, 0, 2])
  rw [rngOfList_shift]

set_option maxRecDepth 4000 in
set_option maxHeartbeats 1000000 in
/-- Iteration 39 of the witness run: one work block and its rest block. -/
theorem buildStep39 : build_loop 328 2025 hmJan7 bst39 (rngOfList [4, 0, 0, 3, 4, 0, 0, 1, 3, 4, 0, 0, 0, 2]) =
    build_loop 327 2025 hmJan7 bst40 (rngOfList [0, 0, 3, 4, 0, 0, 1, 3, 4, 0, 0, 0, 2]) := by
  have hpw : place_work_block bst39 hmJan7 (rngOfList [4, 0, 0, 3, 4, 0, 0, 1, 3, 4, 0, 0, 0, 2]) =
      Except.ok ((bmid39 : ScheduleState), fun n => rngOfList [4, 0, 0, 3, 4, 0, 0, 1, 3, 4, 0, 0, 0, 2] (n + 1)) := rfl
  have hpr : place_rest_block bmid39 hmJan7 = Except.ok bst40 := rfl
  rw [show (328 : Nat) = 327 + 1 from rfl, build_loop_succ,
    if_pos (show ((bst39.current_date.year == 2025) = true) from rfl),
    show hmContains hmJan7 bst39.current_date = false from rfl,
    if_neg Bool.false_ne_true, hpw]
  show (if bmid39.current_date.year == 2025 then
      (match place_rest_block bmid39 hmJan7 with
       | Except.error e => (Except.error e : Except GenError (List Day))
       | Except.ok s3 => build_loop 327 2025 hmJan7 s3 (fun n => rngOfList [4, 0, 0, 3, 4, 0, 0, 1, 3, 4, 0, 0, 0, 2] (n + 1)))
    else build_loop 327 2025 hmJan7 bmid39 (fun n => rngOfList [4, 0, 0, 3, 4, 0, 0, 1, 3, 4, 0, 0, 0, 2] (n + 1)))
    = build_loop 327 2025 hmJan7 bst40 (rngOfList [0, 0, 3, 4, 0, 0, 1, 3, 4, 0, 0, 0, 2])
  rw [if_pos (show ((bmid39.current_date.year == 2025) = true) from rfl), hpr]
  show build_loop 327 2025 hmJan7 bst40 (fun n => rngOfList [4, 0, 0, 3, 4, 0, 0, 1, 3, 4, 0, 0, 0, 2] (n + 1)) =
    build_loop 327 2025 hmJan7 bst40 (rngOfList [0, 0, 3, 4, 0, 0, 1, 3, 4, 0, 0, 0, 2])
  rw [rngOfList_shift]

set_option maxRecDepth 4000 in
set_option maxHeartbeats 1000000 in
/-- Iteration 40 of the witness run: one work block and its rest block. -/
theorem buildStep40 : build_loop 327 2025 hmJan7 bst40 (rngOfList [0, 0, 3, 4, 0, 0, 1, 3, 4, 0, 0, 0, 2]) =
    build_loop 326 2025 hmJan7 bst41 (rngOfList [0, 3, 4, 0, 0, 1, 3, 4, 0, 0, 0, 2]) := by
  have hpw : place_work_block bst40 hmJan7 (rngOfList [0, 0, 3, 4, 0, 0, 1, 3, 4, 0, 0, 0, 2]) =
      Except.ok ((bmid40 : ScheduleState), fun n => rngOfList [0, 0, 3, 4, 0, 0, 1, 3, 4, 0, 0, 0, 2] (n + 1)) := rfl
  have hpr : place_rest_block bmid40 hmJan7 = Except.ok bst41 := rfl
  rw [show (327 : Nat) = 326 + 1 from rfl, build_loop_succ,
    if_pos (show ((bst40.current_date.year == 2025) = true) from rfl),
    show hmContains hmJan7 bst40.current_date = false from rfl,
    if_neg Bool.false_ne_true, hpw]
  show (if bmid40.current_date.year == 2025 then
      (match place_rest_block bmid40 hmJan7 with
       | Except.error e => (Except.error e : Except GenError (List Day))
       | Except.ok s3 => build_loop 326 2025 hmJan7 s3 (fun n => rngOfList [0, 0, 3, 4, 0, 0, 1, 3, 4, 0, 0, 0, 2] (n + 1)))
    else build_loop 326 2025 hmJan7 bmid40 (fun n => rngOfList [0, 0, 3, 4, 0, 0, 1, 3, 4, 0, 0, 0, 2] (n + 1)))
    = build_loop 326 2025 hmJan7 bst41 (rngOfList [0, 3, 4, 0, 0, 1, 3, 4, 0, 0, 0, 2])
  rw [if_pos (show ((bmid40.current_date.year == 2025) = true) from rfl), hpr]
  show build_loop 326 2025 hmJan7 bst41 (fun n => rngOfList [0, 0, 3, 4, 0, 0, 1, 3, 4, 0, 0, 0, 2] (n + 1)) =
    build_loop 326 2025 hmJan7 bst41 (rngOfList [0, 3, 4, 0, 0, 1, 3, 4, 0, 0, 0, 2])
  rw [rngOfList_shift]

set_option maxRecDepth 4000 in
set_option maxHeartbeats 1000000 in
/-- Iteration 41 of the witness run: one work block and its rest block. -/
theorem buildStep41 : build_loop 326 2025 hmJan7 bst41 (rngOfList [0, 3, 4, 0, 0, 1, 3, 4, 0, 0, 0, 2]) =
    build_loop 325 2025 hmJan7 bst42 (rngOfList [3, 4, 0, 0, 1, 3, 4, 0, 0, 0, 2]) := by
  have hpw : place_work_block bst41 hmJan7 (rngOfList [0, 3, 4, 0, 0, 1, 3, 4, 0, 0, 0, 2]) =
      Except.ok ((bmid41 : ScheduleState), fun n => rngOfList [0, 3, 4, 0, 0, 1, 3, 4, 0, 0, 0, 2] (n + 1)) := rfl
  have hpr : place_rest_block bmid41 hmJan7 = Except.ok bst42 := rfl
  rw [show (326 : Nat) = 325 + 1 from rfl, build_loop_succ,
    if_pos (show ((bst41.current_date.year == 2025) = true) from rfl),
    show hmContains hmJan7 bst41.current_date = false from rfl,
    if_neg Bool.false_ne_true, hpw]
  show (if bmid41.current_date.year == 2025 then
      (match place_rest_block bmid41 hmJan7 with
       | Except.error e => (Except.error e : Except GenError (List Day))
       | Except.ok s3 => build_loop 325 2025 hmJan7 s3 (fun n => rngOfList [0, 3, 4, 0, 0, 1, 3, 4, 0, 0, 0, 2] (n + 1)))
    else build_loop 325 2025 hmJan7 bmid41 (fun n => rngOfList [0, 3, 4, 0, 0, 1, 3, 4, 0, 0, 0, 2] (n + 1)))
    = build_loop 325 2025 hmJan7 bst42 (rngOfList [3, 4, 0, 0, 1, 3, 4, 0, 0, 0, 2])
  rw [if_pos (show ((bmid41.current_date.year == 2025) = true) from rfl), hpr]
  show build_loop 325 2025 hmJan7 bst42 (fun n => rngOfList [0, 3, 4, 0, 0, 1, 3, 4, 0, 0, 0, 2] (n + 1)) =
    build_loop 325 2025 hmJan7 bst42 (rngOfList [3, 4, 0, 0, 1, 3, 4, 0, 0, 0, 2])
  rw [rngOfList_shift]

set_option maxRecDepth 4000 in
set_option maxHeartbeats 1000000 in
/-- Iteration 42 of the witness run: one work block and its rest block. -/
theorem buildStep42 : build_loop 325 2025 hmJan7 bst42 (rngOfList [3, 4, 0, 0, 1, 3, 4, 0, 0, 0, 2]) =
    build_loop 324 2025 hmJan7 bst43 (rngOfList [4, 0, 0, 1, 3, 4, 0, 0, 0, 2]) := by
  have hpw : place_work_block bst42 hmJan7 (rngOfList [3, 4, 0, 0, 1, 3, 4, 0, 0, 0, 2]) =
      Except.ok ((bmid42 : ScheduleState), fun n => rngOfList [3, 4, 0, 0, 1, 3, 4, 0, 0, 0, 2] (n + 1)) := rfl
  have hpr : place_rest_block bmid42 hmJan7 = Except.ok bst43 := rfl
  rw [show (325 : Nat) = 324 + 1 from rfl, build_loop_succ,
    if_pos (show ((bst42.current_date.year == 2025) = true) from rfl),
    show hmContains hmJan7 bst42.current_date = false from rfl,
    if_neg Bool.false_ne_true, hpw]
  show (if bmid42.current_date.year == 2025 then
      (match place_rest_block bmid42 hmJan7 with
       | Except.error e => (Except.error e : Except GenError (List Day))
       | Except.ok s3 => build_loop 324 2025 hmJan7 s3 (fun n => rngOfList [3, 4, 0, 0, 1, 3, 4, 0, 0, 0, 2] (n + 1)))
    else build_loop 324 2025 hmJan7 bmid42 (fun n => rngOfList [3, 4, 0, 0, 1, 3, 4, 0, 0, 0, 2] (n + 1)))
    = build_loop 324 2025 hmJan7 bst43 (rngOfList [4, 0, 0, 1, 3, 4, 0, 0, 0, 2])
  rw [if_pos (show ((bmid42.current_date.year == 2025) = true) from rfl), hpr]
  show build_loop 324 2025 hmJan7 bst43 (fun n => rngOfList [3, 4, 0, 0, 1, 3, 4, 0, 0, 0, 2] (n + 1)) =
    build_loop 324 2025 hmJan7 bst43 (rngOfList [4, 0, 0, 1, 3, 4, 0, 0, 0, 2])
  rw [rngOfList_shift]

set_option maxRecDepth 4000 in
set_option maxHeartbeats 1000000 in
/-- Iteration 43 of the witness run: one work block and its rest block. -/
theorem buildStep43 : build_loop 324 2025 hmJan7 bst43 (rngOfList [4, 0, 0, 1, 3, 4, 0, 0, 0, 2]) =
    build_loop 323 2025 hmJan7 bst44 (rngOfList [0, 0, 1, 3, 4, 0, 0, 0, 2]) := by
  have hpw : place_work_block bst43 hmJan7 (rngOfList [4, 0, 0, 1, 3, 4, 0, 0, 0, 2]) =
      Except.ok ((bmid43 : ScheduleState), fun n => rngOfList [4, 0, 0, 1, 3, 4, 0, 0, 0, 2] (n + 1)) := rfl
  have hpr : place_rest_block bmid43 hmJan7 = Except.ok bst44 := rfl
  rw [show (324 : Nat) = 323 + 1 from rfl, build_loop_succ,
    if_pos (show ((bst43.current_date.year == 2025) = true) from rfl),
    show hmContains hmJan7 bst43.current_date = false from rfl,
    if_neg Bool.false_ne_true, hpw]
  show (if bmid43.current_date.year == 2025 then
      (match place_rest_block bmid43 hmJan7 with
       | Except.error e => (Except.error e : Except GenError (List Day))
       | Except.ok s3 => build_loop 323 2025 hmJan7 s3 (fun n => rngOfList [4, 0, 0, 1, 3, 4, 0, 0, 0, 2] (n + 1)))
    else build_loop 323 2025 hmJan7 bmid43 (fun n => rngOfList [4, 0, 0, 1, 3, 4, 0, 0, 0, 2] (n + 1)))
    = build_loop 323 2025 hmJan7 bst44 (rngOfList [0, 0, 1, 3, 4, 0, 0, 0, 2])
  rw [if_pos (show ((bmid43.current_date.year == 2025) = true) from rfl), hpr]
  show build_loop 323 2025 hmJan7 bst44 (fun n => rngOfList [4, 0, 0, 1, 3, 4, 0, 0, 0, 2] (n + 1)) =
    build_loop 323 2025 hmJan7 bst44 (rngOfList [0, 0, 1, 3, 4, 0, 0, 0, 2])
  rw [rngOfList_shift]

set_option maxRecDepth 4000 in
set_option maxHeartbeats 1000000 in
/-- Iteration 44 of the witness run: one work block and its rest block. -/
theorem buildStep44 : build_loop 323 2025 hmJan7 bst44 (rngOfList [0, 0, 1, 3, 4, 0, 0, 0, 2]) =
    build_loop 322 2025 hmJan7 bst45 (rngOfList [0, 1, 3, 4, 0, 0, 0, 2]) := by
  have hpw : place_work_block bst44 hmJan7 (rngOfList [0, 0, 1, 3, 4, 0, 0, 0, 2]) =
      Except.ok ((bmid44 : ScheduleState), fun n => rngOfList [0, 0, 1, 3, 4, 0, 0, 0, 2] (n + 1)) := rfl
  have hpr : place_rest_block bmid44 hmJan7 = Except.ok bst45 := rfl
  rw [show (323 : Nat) = 322 + 1 from rfl, build_loop_succ,
    if_pos (show ((bst44.current_date.year == 2025) = true) from rfl),
    show hmContains hmJan7 bst44.current_date = false from rfl,
    if_neg Bool.false_ne_true, hpw]
  show (if bmid44.current_date.year == 2025 then
      (match place_rest_block bmid44 hmJan7 with
       | Except.error e => (Except.error e : Except GenError (List Day))
       | Except.ok s3 => build_loop 322 2025 hmJan7 s3 (fun n => rngOfList [0, 0, 1, 3, 4, 0, 0, 0, 2] (n + 1)))
    else build_loop 322 2025 hmJan7 bmid44 (fun n => rngOfList [0, 0, 1, 3, 4, 0, 0, 0, 2] (n + 1)))
    = build_loop 322 2025 hmJan7 bst45 (rngOfList [0, 1, 3, 4, 0, 0, 0, 2])
  rw [if_pos (show ((bmid44.current_date.year == 2025) = true) from rfl), hpr]
  show build_loop 322 2025 hmJan7 bst45 (fun n => rngOfList [0, 0, 1, 3, 4, 0, 0, 0, 2] (n + 1)) =
    build_loop 322 2025 hmJan7 bst45 (rngOfList [0, 1, 3, 4, 0, 0, 0, 2])
  rw [rngOfList_shift]

set_option maxRecDepth 4000 in
set_option maxHeartbeats 1000000 in
/-- Iteration 45 of the witness run: one work block and its rest block. -/
theorem buildStep45 : build_loop 322 2025 hmJan7 bst45 (rngOfList [0, 1, 3, 4, 0, 0, 0, 2]) =
    build_loop 321 2025 hmJan7 bst46 (rngOfList [1, 3, 4, 0, 0, 0, 2]) := by
  have hpw : place_work_block bst45 hmJan7 (rngOfList [0, 1, 3, 4, 0, 0, 0, 2]) =
      Except.ok ((bmid45 : ScheduleState), fun n => rngOfList [0, 1, 3, 4, 0, 0, 0, 2] (n + 1)) := rfl
  have hpr : place_rest_block bmid45 hmJan7 = Except.ok bst46 := rfl
  rw [show (322 : Nat) = 321 + 1 from rfl, build_loop_succ,
    if_pos (show ((bst45.current_date.year == 2025) = true) from rfl),
    show hmContains hmJan7 bst45.current_date = false from rfl,
    if_neg Bool.false_ne_true, hpw]
  show (if bmid45.current_date.year == 2025 then
      (match place_rest_block bmid45 hmJan7 with
       | Except.error e => (Except.error e : Except GenError (List Day))
       | Except.ok s3 => build_loop 321 2025 hmJan7 s3 (fun n => rngOfList [0, 1, 3, 4, 0, 0, 0, 2] (n + 1)))
    else build_loop 321 2025 hmJan7 bmid45 (fun n => rngOfList [0, 1, 3, 4, 0, 0, 0, 2] (n + 1)))
    = build_loop 321 2025 hmJan7 bst46 (rngOfList [1, 3, 4, 0, 0, 0, 2])
  rw [if_pos (show ((bmid45.current_date.year == 2025) = true) from rfl), hpr]
  show build_loop 321 2025 hmJan7 bst46 (fun n => rngOfList [0, 1, 3, 4, 0, 0, 0, 2] (n + 1)) =
    build_loop 321 2025 hmJan7 bst46 (rngOfList [1, 3, 4, 0, 0, 0, 2])
  rw [rngOfList_shift]

set_option maxRecDepth 4000 in
set_option maxHeartbeats 1000000 in
/-- Iteration 46 of the witness run: one work block and its rest block. -/
theorem buildStep46 : build_loop 321 2025 hmJan7 bst46 (rngOfList [1, 3, 4, 0, 0, 0, 2]) =
    build_loop 320 2025 hmJan7 bst47 (rngOfList [3, 4, 0, 0, 0, 2]) := by
  have hpw : place_work_block bst46 hmJan7 (rngOfList [1, 3, 4, 0, 0, 0, 2]) =
      Except.ok ((bmid46 : ScheduleState), fun n => rngOfList [1, 3, 4, 0, 0, 0, 2] (n + 1)) := rfl
  have hpr : place_rest_block bmid46 hmJan7 = Except.ok bst47 := rfl
  rw [show (321 : Nat) = 320 + 1 from rfl, build_loop_succ,
    if_pos (show ((bst46.current_date.year == 2025) = true) from rfl),
    show hmContains hmJan7 bst46.current_date = false from rfl,
    if_neg Bool.false_ne_true, hpw]
  show (if bmid46.current_date.year == 2025 then
      (match place_rest_block bmid46 hmJan7 with
       | Except.error e => (Except.error e : Except GenError (List Day))
       | Except.ok s3 => build_loop 320 2025 hmJan7 s3 (fun n => rngOfList [1, 3, 4, 0, 0, 0, 2] (n + 1)))
    else build_loop 320 2025 hmJan7 bmid46 (fun n => rngOfList [1, 3, 4, 0, 0, 0, 2] (n + 1)))
    = build_loop 320 2025 hmJan7 bst47 (rngOfList [3, 4, 0, 0, 0, 2])
  rw [if_pos (show ((bmid46.current_date.year == 2025) = true) from rfl), hpr]
  show build_loop 320 2025 hmJan7 bst47 (fun n => rngOfList [1, 3, 4, 0, 0, 0, 2] (n + 1)) =
    build_loop 320 2025 hmJan7 bst47 (rngOfList [3, 4, 0, 0, 0, 2])
  rw [rngOfList_shift]

set_option maxRecDepth 4000 in
set_option maxHeartbeats 1000000 in
/-- Iteration 47 of the witness run: one work block and its rest block. -/
theorem buildStep47 : build_loop 320 2025 hmJan7 bst47 (rngOfList [3, 4, 0, 0, 0, 2]) =
    build_loop 319 2025 hmJan7 bst48 (rngOfList [4, 0, 0, 0, 2]) := by
  have hpw : place_work_block bst47 hmJan7 (rngOfList [3, 4, 0, 0, 0, 2]) =
      Except.ok ((bmid47 : ScheduleState), fun n => rngOfList [3, 4, 0, 0, 0, 2] (n + 1)) := rfl
  have hpr : place_rest_block bmid47 hmJan7 = Except.ok bst48 := rfl
  rw [show (320 : Nat) = 319 + 1 from rfl, build_loop_succ,
    if_pos (show ((bst47.current_date.year == 2025) = true) from rfl),
    show hmContains hmJan7 bst47.current_date = false from rfl,
    if_neg Bool.false_ne_true, hpw]
  show (if bmid47.current_date.year == 2025 then
      (match place_rest_block bmid47 hmJan7 with
       | Except.error e => (Except.error e : Except GenError (List Day))
       | Except.ok s3 => build_loop 319 2025 hmJan7 s3 (fun n => rngOfList [3, 4, 0, 0, 0, 2] (n + 1)))
    else build_loop 319 2025 hmJan7 bmid47 (fun n => rngOfList [3, 4, 0, 0, 0, 2] (n + 1)))
    = build_loop 319 2025 hmJan7 bst48 (rngOfList [4, 0, 0, 0, 2])
  rw [if_pos (show ((bmid47.current_date.year == 2025) = true) from rfl), hpr]
  show build_loop 319 2025 hmJan7 bst48 (fun n => rngOfList [3, 4, 0, 0, 0, 2] (n + 1)) =
    build_loop 319 2025 hmJan7 bst48 (rngOfList [4, 0, 0, 0, 2])
  rw [rngOfList_shift]

set_option maxRecDepth 4000 in
set_option maxHeartbeats 1000000 in
/-- Iteration 48 of the witness run: one work block and its rest block. -/
theorem buildStep48 : build_loop 319 2025 hmJan7 bst48 (rngOfList [4, 0, 0, 0, 2]) =
    build_loop 318 2025 hmJan7 bst49 (rngOfList [0, 0, 0, 2]) := by
  have hpw : place_work_block bst48 hmJan7 (rngOfList [4, 0, 0, 0, 2]) =
      Except.ok ((bmid48 : ScheduleState), fun n => rngOfList [4, 0, 0, 0, 2] (n + 1)) := rfl
  have hpr : place_rest_block bmid48 hmJan7 = Except.ok bst49 := rfl
  rw [show (319 : Nat) = 318 + 1 from rfl, build_loop_succ,
    if_pos (show ((bst48.current_date.year == 2025) = true) from rfl),
    show hmContains hmJan7 bst48.current_date = false from rfl,
    if_neg Bool.false_ne_true, hpw]
  show (if bmid48.current_date.year == 2025 then
      (match place_rest_block bmid48 hmJan7 with
       | Except.error e => (Except.error e : Except GenError (List Day))
       | Except.ok s3 => build_loop 318 2025 hmJan7 s3 (fun n => rngOfList [4, 0, 0, 0, 2] (n + 1)))
    else build_loop 318 2025 hmJan7 bmid48 (fun n => rngOfList [4, 0, 0, 0, 2] (n + 1)))
    = build_loop 318 2025 hmJan7 bst49 (rngOfList [0, 0, 0, 2])
  rw [if_pos (show ((bmid48.current_date.year == 2025) = true) from rfl), hpr]
  show build_loop 318 2025 hmJan7 bst49 (fun n => rngOfList [4, 0, 0, 0, 2] (n + 1)) =
    build_loop 318 2025 hmJan7 bst49 (rngOfList [0, 0, 0, 2])
  rw [rngOfList_shift]

set_option maxRecDepth 4000 in
set_option maxHeartbeats 1000000 in
/-- Iteration 49 of the witness run: one work block and its rest block. -/
theorem buildStep49 : build_loop 318 2025 hmJan7 bst49 (rngOfList [0, 0, 0, 2]) =
    build_loop 317 2025 hmJan7 bst50 (rngOfList [0, 0, 2]) := by
  have hpw : place_work_block bst49 hmJan7 (rngOfList [0, 0, 0, 2]) =
      Except.ok ((bmid49 : ScheduleState), fun n => rngOfList [0, 0, 0, 2] (n + 1)) := rfl
  have hpr : place_rest_block bmid49 hmJan7 = Except.ok bst50 := rfl
  rw [show (318 : Nat) = 317 + 1 from rfl, build_loop_succ,
    if_pos (show ((bst49.current_date.year == 2025) = true) from rfl),
    show hmContains hmJan7 bst49.current_date = false from rfl,
    if_neg Bool.false_ne_true, hpw]
  show (if bmid49.current_date.year == 2025 then
      (match place_rest_block bmid49 hmJan7 with
       | Except.error e => (Except.error e : Except GenError (List Day))
       | Except.ok s3 => build_loop 317 2025 hmJan7 s3 (fun n => rngOfList [0, 0, 0, 2] (n + 1)))
    else build_loop 317 2025 hmJan7 bmid49 (fun n => rngOfList [0, 0, 0, 2] (n + 1)))
    = build_loop 317 2025 hmJan7 bst50 (rngOfList [0, 0, 2])
  rw [if_pos (show ((bmid49.current_date.year == 2025) = true) from rfl), hpr]
  show build_loop 317 2025 hmJan7 bst50 (fun n => rngOfList [0, 0, 0, 2] (n + 1)) =
    build_loop 317 2025 hmJan7 bst50 (rngOfList [0, 0, 2])
  rw [rngOfList_shift]

set_option maxRecDepth 4000 in
set_option maxHeartbeats 1000000 in
/-- Iteration 50 of the witness run: one work block and its rest block. -/
theorem buildStep50 : build_loop 317 2025 hmJan7 bst50 (rngOfList [0, 0, 2]) =
    build_loop 316 2025 hmJan7 bst51 (rngOfList [0, 2]) := by
  have hpw : place_work_block bst50 hmJan7 (rngOfList [0, 0, 2]) =
      Except.ok ((bmid50 : ScheduleState), fun n => rngOfList [0, 0, 2] (n + 1)) := rfl
  have hpr : place_rest_block bmid50 hmJan7 = Except.ok bst51 := rfl
  rw [show (317 : Nat) = 316 + 1 from rfl, build_loop_succ,
    if_pos (show ((bst50.current_date.year == 2025) = true) from rfl),
    show hmContains hmJan7 bst50.current_date = false from rfl,
    if_neg Bool.false_ne_true, hpw]
  show (if bmid50.current_date.year == 2025 then
      (match place_rest_block bmid50 hmJan7 with
       | Except.error e => (Except.error e : Except GenError (List Day))
       | Except.ok s3 => build_loop 316 2025 hmJan7 s3 (fun n => rngOfList [0, 0, 2] (n + 1)))
    else build_loop 316 2025 hmJan7 bmid50 (fun n => rngOfList [0, 0, 2] (n + 1)))
    = build_loop 316 2025 hmJan7 bst51 (rngOfList [0, 2])
  rw [if_pos (show ((bmid50.current_date.year == 2025) = true) from rfl), hpr]
  show build_loop 316 2025 hmJan7 bst51 (fun n => rngOfList [0, 0, 2] (n + 1)) =
    build_loop 316 2025 hmJan7 bst51 (rngOfList [0, 2])
  rw [rngOfList_shift]

set_option maxRecDepth 4000 in
set_option maxHeartbeats 1000000 in
/-- Iteration 51 of the witness run: one work block and its rest block. -/
theorem buildStep51 : build_loop 316 2025 hmJan7 bst51 (rngOfList [0, 2]) =
    build_loop 315 2025 hmJan7 bst52 (rngOfList [2]) := by
  have hpw : place_work_block bst51 hmJan7 (rngOfList [0, 2]) =
      Except.ok ((bmid51 : ScheduleState), fun n => rngOfList [0, 2] (n + 1)) := rfl
  have hpr : place_rest_block bmid51 hmJan7 = Except.ok bst52 := rfl
  rw [show (316 : Nat) = 315 + 1 from rfl, build_loop_succ,
    if_pos (show ((bst51.current_date.year == 2025) = true) from rfl),
    show hmContains hmJan7 bst51.current_date = false from rfl,
    if_neg Bool.false_ne_true, hpw]
  show (if bmid51.current_date.year == 2025 then
      (match place_rest_block bmid51 hmJan7 with
       | Except.error e => (Except.error e : Except GenError (List Day))
       | Except.ok s3 => build_loop 315 2025 hmJan7 s3 (fun n => rngOfList [0, 2] (n + 1)))
    else build_loop 315 2025 hmJan7 bmid51 (fun n => rngOfList [0, 2] (n + 1)))
    = build_loop 315 2025 hmJan7 bst52 (rngOfList [2])
  rw [if_pos (show ((bmid51.current_date.year == 2025) = true) from rfl), hpr]
  show build_loop 315 2025 hmJan7 bst52 (fun n => rngOfList [0, 2] (n + 1)) =
    build_loop 315 2025 hmJan7 bst52 (rngOfList [2])
  rw [rngOfList_shift]

set_option maxRecDepth 4000 in
set_option maxHeartbeats 1000000 in
/-- Iteration 52 of the witness run: one work block and its rest block. -/
theorem buildStep52 : build_loop 315 2025 hmJan7 bst52 (rngOfList [2]) =
    build_loop 314 2025 hmJan7 bst53 (rngOfList []) := by
  have hpw : place_work_block bst52 hmJan7 (rngOfList [2]) =
      Except.ok ((bmid52 : ScheduleState), fun n => rngOfList [2] (n + 1)) := rfl
  have hpr : place_rest_block bmid52 hmJan7 = Except.ok bst53 := rfl
  rw [show (315 : Nat) = 314 + 1 from rfl, build_loop_succ,
    if_pos (show ((bst52.current_date.year == 2025) = true) from rfl),
    show hmContains hmJan7 bst52.current_date = false from rfl,
    if_neg Bool.false_ne_true, hpw]
  show (if bmid52.current_date.year == 2025 then
      (match place_rest_block bmid52 hmJan7 with
       | Except.error e => (Except.error e : Except GenError (List Day))
       | Except.ok s3 => build_loop 314 2025 hmJan7 s3 (fun n => rngOfList [2] (n + 1)))
    else build_loop 314 2025 hmJan7 bmid52 (fun n => rngOfList [2] (n + 1)))
    = build_loop 314 2025 hmJan7 bst53 (rngOfList [])
  rw [if_pos (show ((bmid52.current_date.year == 2025) = true) from rfl), hpr]
  show build_loop 314 2025 hmJan7 bst53 (fun n => rngOfList [2] (n + 1)) =
    build_loop 314 2025 hmJan7 bst53 (rngOfList [])
  rw [rngOfList_shift]

set_option maxRecDepth 4000 in
set_option maxHeartbeats 1000000 in
/-- The build loop exits at the year boundary with the witness run's days. -/
theorem buildFinal : build_loop 314 2025 hmJan7 bst53 (rngOfList []) =
    Except.ok cal2025h.days := by
  rw [show (314 : Nat) = 313 + 1 from rfl, build_loop_succ,
    show (bst53.current_date.year == 2025) = false from rfl, if_neg Bool.false_ne_true]
  rfl

set_option maxHeartbeats 1000000 in
/-- The schedule builder on the witness input returns exactly the days of
`cal2025h`, by stepping the loop one iteration at a time. -/
theorem hbuild : build_schedule 2025 hmJan7 witnessRng = Except.ok cal2025h.days := by
  have h0 : build_schedule 2025 hmJan7 witnessRng =
      build_loop 367 2025 hmJan7 bst0 (rngOfList [0, 0, 0, 3, 4, 0, 0, 3, 4, 0, 0, 1, 3, 4, 0, 0, 3, 4, 0, 0, 1, 3, 4, 0, 0, 3, 4, 0, 0, 3, 4, 0, 0, 1, 3, 4, 0, 0, 3, 4, 0, 0, 3, 4, 0, 0, 1, 3, 4, 0, 0, 0, 2]) := rfl
  rw [h0, buildStep0, buildStep1, buildStep2, buildStep3, buildStep4, buildStep5,
    buildStep6, buildStep7, buildStep8, buildStep9, buildStep10, buildStep11,
    buildStep12, buildStep13, buildStep14, buildStep15, buildStep16, buildStep17,
    buildStep18, buildStep19, buildStep20, buildStep21, buildStep22, buildStep23,
    buildStep24, buildStep25, buildStep26, buildStep27, buildStep28, buildStep29,
    buildStep30, buildStep31, buildStep32, buildStep33, buildStep34, buildStep35,
    buildStep36, buildStep37, buildStep38, buildStep39, buildStep40, buildStep41,
    buildStep42, buildStep43, buildStep44, buildStep45, buildStep46, buildStep47,
    buildStep48, buildStep49, buildStep50, buildStep51, buildStep52, buildFinal]

/-- REQ1 holds on the witness calendar. -/
theorem cal2025h_rule1 : validate_holiday_pairing cal2025h = [] := by decide!

/-- REQ2 holds on the witness calendar. -/
theorem cal2025h_rule2 : validate_rest_blocks cal2025h = [] := by decide!

/-- REQ3 holds on the witness calendar. -/
theorem cal2025h_rule3 : validate_ordering_placement cal2025h = [] := by decide!

/-- REQ4 holds on the witness calendar. -/
theorem cal2025h_rule4 : validate_work_block_lengths cal2025h = [] := by decide!

/-- REQ5 holds on the witness calendar. -/
theorem cal2025h_rule5 : validate_monthly_weekends cal2025h = [] := by decide!

/-- REQ7 holds on the witness calendar. -/
theorem cal2025h_rule7 : validate_no_sunday_monday_rest cal2025h = [] := by decide!

set_option maxRecDepth 4000 in
set_option maxHeartbeats 4000000 in
/-- Every ISO week of 2025 has exactly one rest block in the witness
calendar, checked week by week. -/
theorem cal2025h_week_count : ∀ w, 1 ≤ w → w ≤ 52 →
    countWeekRestBlocks cal2025h (get_week_dates 2025 w) = 1 := by
  intro w h1 h2
  interval_cases w <;> decide!

/-- REQ6 holds on the witness calendar. -/
theorem cal2025h_rule6 : validate_weekly_rest cal2025h = [] := by
  unfold validate_weekly_rest
  rw [show get_all_iso_weeks cal2025h.year = List.range' 1 52 from rfl,
    List.filterMap_eq_nil_iff]
  intro w hw
  rw [List.mem_range'_1] at hw
  have hc := cal2025h_week_count w hw.1 (by omega)
  show (if countWeekRestBlocks cal2025h (get_week_dates 2025 w) != 1 then
      some (Violation.weekRestCount w
        (countWeekRestBlocks cal2025h (get_week_dates 2025 w))) else none) = none
  rw [hc]
  rfl

/-- A calendar with no rule violations passes `validate_calendar`. -/
theorem validate_calendar_eq (c : Calendar) (h : validation_errors c = []) :
    validate_calendar c = Except.ok () := by
  unfold validate_calendar
  rw [h]
  rfl

/-- The validator accepts the witness calendar. -/
theorem cal2025h_validate : validate_calendar cal2025h = Except.ok () := by
  refine validate_calendar_eq cal2025h ?_
  unfold validation_errors
  rw [cal2025h_rule1, cal2025h_rule2, cal2025h_rule3, cal2025h_rule4,
    cal2025h_rule5, cal2025h_rule6, cal2025h_rule7]
  rfl

/-- Wrapping the witness days reproduces the witness calendar. -/
theorem cal2025h_mk : mkCalendar 2025 cal2025h.days = Except.ok cal2025h := by decide!

/-- On the witness input the wrapper's three checks pass, for any stream:
the generator reduces to the pipeline. -/
theorem generate_calendar_pipeline_jan7 (rng : Rng) :
    generate_calendar (2025 : Int) [holidayJan7] rng =
      generate_pipeline 2025 [holidayJan7] rng := rfl

/-- The pipeline assembled from the outcome of each of its four stages. -/
theorem generate_pipeline_eq (y : Nat) (hols : List Date) (rng : Rng)
    (hm : HolidayMap) (days : List Day) (c : Calendar)
    (h1 : process_holidays hols = Except.ok hm)
    (h2 : build_schedule y hm rng = Except.ok days)
    (h3 : mkCalendar y days = Except.ok c)
    (h4 : validate_calendar c = Except.ok ()) :
    generate_pipeline y hols rng = Except.ok c := by
  unfold generate_pipeline
  rw [h1]
  show (match build_schedule y hm rng with
    | Except.error e => (Except.error e : Except GenError Calendar)
    | Except.ok days2 =>
      match mkCalendar y days2 with
      | Except.error e => Except.error e
      | Except.ok calendar =>
        match validate_calendar calendar with
        | Except.error e => Except.error e
        | Except.ok _ => Except.ok calendar) = Except.ok c
  rw [h2]
  show (match mkCalendar y days with
    | Except.error e => (Except.error e : Except GenError Calendar)
    | Except.ok calendar =>
      match validate_calendar calendar with
      | Except.error e => Except.error e
      | Except.ok _ => Except.ok calendar) = Except.ok c
  rw [h3]
  show (match validate_calendar c with
    | Except.error e => (Except.error e : Except GenError Calendar)
    | Except.ok _ => Except.ok c) = Except.ok c
  rw [h4]

/-- The full generator on the witness input returns the witness calendar. -/
theorem generate_jan7_run :
    generate_calendar 2025 [holidayJan7] witnessRng = Except.ok cal2025h := by
  rw [generate_calendar_pipeline_jan7 witnessRng]
  exact generate_pipeline_eq 2025 [holidayJan7] witnessRng hmJan7 cal2025h.days
    cal2025h rfl hbuild cal2025h_mk cal2025h_validate

/-- C1 fails on the code: the legal input year 2025 with the single
Saturday holiday 2025-01-04 — accepted by input validation and by the
classifier — makes building fail immediately with `No valid work length`
at January 1, for every random source: a work length of 3 would start the
rest block on the holiday itself, and lengths 4 through 7 push the rest
start into ISO week 2 while week 1 still needs its rest. -/
theorem c1_builder_fails_on_legal_input :
    ∀ rng : Rng, generate_calendar 2025 [⟨2025, 1, 4⟩] rng =
      .error (.noValidWorkLength ⟨2025, 1, 1⟩) :=
  fun _ => rfl

/-- C2 fails on the code: for the legal input year 2025 with the single
holiday 2025-01-07 there is a random source for which `generate_calendar`
returns a calendar of 364 days (the year has 365) in which the date
2025-01-07 never appears — the work block starting 2025-01-06 skips the
holiday without emitting it and no later iteration places it. -/
theorem c2_returned_calendar_misses_a_date :
    generate_calendar 2025 [holidayJan7] witnessRng = Except.ok cal2025h ∧
    cal2025h.days.length = 364 ∧ daysInYear 2025 = 365 ∧
    cal2025h.days.all (fun d => d.date != holidayJan7) = true :=
  ⟨generate_jan7_run, by decide!, by decide!, by decide!⟩

/-- C6's double iff fails on the code: with a Sunday–Monday pair in
January and a 3-day run in March, some run has length ≥ 3 yet
`process_holidays` does not fail with `Holiday block too large` — the
earlier offending run wins and it fails with the Sunday–Monday error. -/
theorem c6_error_choice_counterexample :
    process_holidays [⟨2025, 1, 5⟩, ⟨2025, 1, 6⟩, ⟨2025, 3, 1⟩, ⟨2025, 3, 2⟩, ⟨2025, 3, 3⟩] =
      .error (.sundayMondayHoliday ⟨2025, 1, 5⟩ ⟨2025, 1, 6⟩) ∧
    (∃ b ∈ blocksOf [⟨2025, 1, 5⟩, ⟨2025, 1, 6⟩, ⟨2025, 3, 1⟩, ⟨2025, 3, 2⟩, ⟨2025, 3, 3⟩],
      3 ≤ b.length) := by
  decide

/-- Every run the grouping produces is nonempty. -/
theorem groupConsecutiveFrom_ne_nil (rest : List Date) : ∀ (last : Date)
    (curRev : List Date), curRev ≠ [] →
    ∀ b ∈ groupConsecutiveFrom last curRev rest, b ≠ [] := by
  induction rest with
  | nil =>
    intro last curRev hcur b hb
    simp only [groupConsecutiveFrom, List.mem_singleton] at hb
    subst hb
    simpa using hcur
  | cons h t ih =>
    intro last curRev hcur b hb
    unfold groupConsecutiveFrom at hb
    by_cases hd : Date.diff h last == 1
    · rw [if_pos hd] at hb
      exact ih h (h :: curRev) (by simp) b hb
    · rw [if_neg hd] at hb
      rcases List.mem_cons.mp hb with rfl | hb'
      · simpa using hcur
      · exact ih h [h] (by simp) b hb'

/-- Runs of `group_consecutive_holidays` are nonempty. -/
theorem group_consecutive_holidays_ne_nil (l : List Date) :
    ∀ b ∈ group_consecutive_holidays l, b ≠ [] := by
  cases l with
  | nil => intro b hb; simp [group_consecutive_holidays] at hb
  | cons h t =>
    intro b hb
    exact groupConsecutiveFrom_ne_nil t h [h] (by simp) b hb

/-- The per-run loop of `process_holidays` raises the error of the first
offending run and otherwise returns the concatenated classifications. -/
theorem processBlocks_characterization : ∀ blocks : List (List Date),
    processBlocks blocks =
      match blocks.findSome? offenseOf with
      | some e => .error e
      | none => .ok ((blocks.map classifyBlock).join) := by
  intro blocks
  induction blocks with
  | nil => simp [processBlocks, List.findSome?]
  | cons b bs ih =>
    match b with
    | [] => simp [processBlocks, List.findSome?, offenseOf]
    | [d] =>
      simp only [processBlocks, ih, List.findSome?, offenseOf]
      cases hfs : bs.findSome? offenseOf with
      | none => simp [classifyBlock]
      | some e => simp
    | [d1, d2] =>
      by_cases hsm : (d1.weekday == 6 && d2.weekday == 0)
      · simp [processBlocks, List.findSome?, offenseOf, hsm]
      · simp only [processBlocks, ih, List.findSome?, offenseOf, hsm,
          Bool.false_eq_true, if_false]
        cases hfs : bs.findSome? offenseOf with
        | none => simp [classifyBlock]
        | some e => simp
    | d1 :: d2 :: d3 :: rest =>
      simp [processBlocks, List.findSome?, offenseOf]

/-- C6, amended: `process_holidays` fails exactly when some run offends
(length ≥ 3, or a Sunday–Monday pair), raising the error of the earliest
offending run; on success every length-1 run maps to `HOLIDAY` and every
length-2 run to `WORKING_HOLIDAY` then `HOLIDAY`. -/
theorem c6_process_holidays_characterization (holidays : List Date) :
    (process_holidays holidays =
      match firstOffense (blocksOf holidays) with
      | some e => .error e
      | none => .ok (((blocksOf holidays).map classifyBlock).join)) ∧
    ((∃ e, process_holidays holidays = .error e) ↔
      ∃ b ∈ blocksOf holidays, 3 ≤ b.length ∨
        ∃ d1 d2, b = [d1, d2] ∧ d1.weekday = 6 ∧ d2.weekday = 0) ∧
    (∀ m, process_holidays holidays = .ok m →
      ∀ b ∈ blocksOf holidays,
        (∀ d, b = [d] → (d, DayType.HOLIDAY) ∈ m) ∧
        (∀ d1 d2, b = [d1, d2] →
          (d1, DayType.WORKING_HOLIDAY) ∈ m ∧ (d2, DayType.HOLIDAY) ∈ m)) := by
  have hmain : process_holidays holidays =
      match firstOffense (blocksOf holidays) with
      | some e => .error e
      | none => .ok (((blocksOf holidays).map classifyBlock).join) := by
    unfold process_holidays firstOffense blocksOf
    by_cases he : holidays.isEmpty
    · have : holidays = [] := List.isEmpty_iff.mp he
      subst this
      rfl
    · rw [if_neg (by simp [he])]
      exact processBlocks_characterization _
  have hoff : ∀ b ∈ blocksOf holidays,
      (offenseOf b ≠ none ↔ 3 ≤ b.length ∨
        ∃ d1 d2, b = [d1, d2] ∧ d1.weekday = 6 ∧ d2.weekday = 0) := by
    intro b hb
    have hbne : b ≠ [] := group_consecutive_holidays_ne_nil _ b hb
    match b with
    | [] => exact absurd rfl hbne
    | [d] => simp [offenseOf]
    | [d1, d2] =>
      by_cases hsm : (d1.weekday == 6 && d2.weekday == 0)
      · have hc : d1.weekday = 6 ∧ d2.weekday = 0 := by
          have := hsm
          simp only [Bool.and_eq_true, beq_iff_eq] at this
          exact this
        have hsome : offenseOf [d1, d2] = some (.sundayMondayHoliday d1 d2) := by
          simp [offenseOf, hsm]
        rw [hsome]
        constructor
        · intro _
          exact Or.inr ⟨d1, d2, rfl, hc.1, hc.2⟩
        · intro _
          simp
      · have hne : ¬(d1.weekday = 6 ∧ d2.weekday = 0) := by
          intro hc
          exact hsm (by simp [hc.1, hc.2])
        have hnone : offenseOf [d1, d2] = none := by
          simp [offenseOf, hsm]
        rw [hnone]
        constructor
        · intro hcon
          exact absurd rfl hcon
        · rintro (h3 | ⟨x, y, hxy, hwx, hwy⟩)
          · simp at h3
          · simp only [List.cons.injEq, and_true] at hxy
            obtain ⟨rfl, rfl⟩ := hxy
            exact absurd ⟨hwx, hwy⟩ hne
    | d1 :: d2 :: d3 :: rest => simp [offenseOf]
  refine ⟨hmain, ?_, ?_⟩
  · rw [hmain]
    cases hfs : (blocksOf holidays).findSome? offenseOf with
    | none =>
      simp only [firstOffense, hfs]
      constructor
      · rintro ⟨e, he⟩; simp at he
      · rintro ⟨b, hb, hcond⟩
        have : offenseOf b = none := by
          by_cases h' : offenseOf b = none
          · exact h'
          · rw [List.findSome?_eq_none] at hfs
            exact absurd (hfs b hb) (by simpa using h')
        exact absurd hcond (by rw [← hoff b hb]; simp [this])
    | some e =>
      simp only [firstOffense, hfs]
      constructor
      · rintro -
        obtain ⟨b, hb, hob⟩ := List.exists_of_findSome?_eq_some hfs
        exact ⟨b, hb, (hoff b hb).mp (by simp [hob])⟩
      · rintro -
        exact ⟨e, rfl⟩
  · intro m hok b hb
    rw [hmain] at hok
    cases hfs : (blocksOf holidays).findSome? offenseOf with
    | some e => simp [firstOffense, hfs] at hok
    | none =>
      simp only [firstOffense, hfs] at hok
      have hm : m = ((blocksOf holidays).map classifyBlock).join := by
        simpa using hok.symm
      subst hm
      constructor
      · rintro d rfl
        exact List.mem_join.mpr ⟨classifyBlock [d], List.mem_map_of_mem _ hb, by
          simp [classifyBlock]⟩
      · rintro d1 d2 rfl
        constructor
        · exact List.mem_join.mpr ⟨classifyBlock [d1, d2], List.mem_map_of_mem _ hb, by
            simp [classifyBlock]⟩
        · exact List.mem_join.mpr ⟨classifyBlock [d1, d2], List.mem_map_of_mem _ hb, by
            simp [classifyBlock]⟩

/-- `mkCalendar` succeeds only on nonempty in-year day lists, which it
returns unchanged. -/
theorem mkCalendar_ok_facts (y : Nat) (days : List Day) (c : Calendar)
    (h : mkCalendar y days = .ok c) :
    c.year = y ∧ c.days = days ∧ days ≠ [] ∧ ∀ d ∈ days, d.date.year = y := by
  unfold mkCalendar at h
  by_cases he : days.isEmpty
  · simp [he] at h
  · by_cases ha : (days.all fun d => d.date.year == y)
    · simp only [he, ha, Bool.not_true, Bool.false_eq_true, if_false, Bool.not_false,
        if_true] at h
      have hc : c = ⟨y, days⟩ := by
        by_cases h' : days.isEmpty = true
        · exact absurd h' he
        · simpa [h'] using h.symm
      subst hc
      refine ⟨rfl, rfl, by simpa [List.isEmpty_iff] using he, fun d hd => ?_⟩
      simpa using List.all_eq_true.mp ha d hd
    · simp [he, ha] at h

/-- `validate_calendar` returns normally only with an empty error list. -/
theorem validate_calendar_ok (c : Calendar) (u : Unit)
    (h : validate_calendar c = .ok u) : validation_errors c = [] := by
  unfold validate_calendar at h
  by_cases hi : (validation_errors c).isEmpty
  · exact List.isEmpty_iff.mp hi
  · simp [hi] at h

/-- Everything the success of the post-check pipeline guarantees. -/
theorem generate_pipeline_ok_facts (y : Nat) (hols : List Date) (rng : Rng)
    (cal : Calendar) (h : generate_pipeline y hols rng = .ok cal) :
    cal.year = y ∧ (∀ d ∈ cal.days, d.date.year = y) ∧ cal.days ≠ [] ∧
    validation_errors cal = [] ∧
    ∃ hm, process_holidays hols = .ok hm ∧ build_schedule y hm rng = .ok cal.days := by
  unfold generate_pipeline at h
  split at h
  · simp at h
  · rename_i hm hph
    split at h
    · simp at h
    · rename_i days hb
      split at h
      · simp at h
      · rename_i c0 hmk
        split at h
        · simp at h
        · rename_i u hv
          have hc0 : c0 = cal := by simpa using h
          subst hc0
          obtain ⟨hy, hd, hne, hall⟩ := mkCalendar_ok_facts y days c0 hmk
          subst hy
          refine ⟨rfl, ?_, ?_, validate_calendar_ok c0 u hv, hm, hph, ?_⟩
          · rw [hd]; exact hall
          · rw [hd]; exact hne
          · rw [hd]; exact hb

/-- Everything the success of `generate_calendar` guarantees. -/
theorem generate_ok_facts (year : Int) (hols : List Date) (rng : Rng)
    (cal : Calendar) (h : generate_calendar year hols rng = .ok cal) :
    1 ≤ year ∧ cal.year = year.toNat ∧ (∀ d ∈ cal.days, d.date.year = year.toNat) ∧
    cal.days ≠ [] ∧ validation_errors cal = [] ∧
    ∃ hm, process_holidays hols = .ok hm ∧
      build_schedule year.toNat hm rng = .ok cal.days := by
  unfold generate_calendar at h
  by_cases h1 : year < 1
  · simp [h1] at h
  · rw [if_neg h1] at h
    by_cases h2 : (!hols.isEmpty && !(hols.all fun hh => hh.year == year.toNat)) = true
    · simp [h2] at h
    · rw [Bool.not_eq_true] at h2
      simp only [h2, Bool.false_eq_true, if_false] at h
      by_cases h3 : (hols.length != hols.eraseDups.length) = true
      · simp [h3] at h
      · rw [Bool.not_eq_true] at h3
        simp only [h3, Bool.false_eq_true, if_false] at h
        obtain ⟨ha, hb, hc, hd, he⟩ := generate_pipeline_ok_facts year.toNat hols rng cal h
        exact ⟨by omega, ha, hb, hc, hd, he⟩

/-- An empty aggregated error list means every single rule passed. -/
theorem validation_rules_empty (cal : Calendar)
    (h : validation_errors cal = []) :
    validate_holiday_pairing cal = [] ∧ validate_rest_blocks cal = [] ∧
    validate_ordering_placement cal = [] ∧ validate_work_block_lengths cal = [] ∧
    validate_monthly_weekends cal = [] ∧ validate_weekly_rest cal = [] ∧
    validate_no_sunday_monday_rest cal = [] := by
  unfold validation_errors at h
  simp only [List.append_eq_nil] at h
  tauto

/-- C3: whenever `generate_calendar` returns a calendar, every ISO week of
the target year — enumerated with the Jan-1/Dec-31 boundary rules, its
dates filtered to the year — contains exactly one 2-day REST block. -/
theorem c3_weekly_rest_exactly_one (year : Int) (hols : List Date) (rng : Rng)
    (cal : Calendar) (h : generate_calendar year hols rng = .ok cal) :
    ∀ w ∈ get_all_iso_weeks year.toNat,
      countWeekRestBlocks cal (get_week_dates year.toNat w) = 1 := by
  obtain ⟨-, hyear, -, -, herrs, -⟩ := generate_ok_facts year hols rng cal h
  have h6 := (validation_rules_empty cal herrs).2.2.2.2.2.1
  unfold validate_weekly_rest at h6
  rw [hyear] at h6
  intro w hw
  have hnone := List.filterMap_eq_nil_iff.mp h6 w hw
  by_contra hne
  simp [hne] at hnone

set_option maxHeartbeats 2000000 in
/-- Witness for C3: the successful 2025 run with holiday Jan 7, ISO
week 30. -/
theorem c3_weekly_rest_exactly_one_witness :
    countWeekRestBlocks cal2025h (get_week_dates (2025 : Int).toNat 30) = 1 := by
  have hgen : generate_calendar 2025 [holidayJan7] witnessRng = Except.ok cal2025h :=
    generate_jan7_run
  have hmem : 30 ∈ get_all_iso_weeks (2025 : Int).toNat := by decide
  exact c3_weekly_rest_exactly_one 2025 [holidayJan7] witnessRng cal2025h hgen 30 hmem

/-- From an empty REQ2 rule output, every computed rest block has length
exactly 2. -/
theorem rest_blocks_all_two (cal : Calendar)
    (h2 : validate_rest_blocks cal = []) :
    ∀ b ∈ cal.get_rest_blocks, b.length = 2 := by
  unfold validate_rest_blocks at h2
  intro b hb
  have := List.filterMap_eq_nil_iff.mp h2 b hb
  by_contra hne
  simp [hne] at this

/-- A run of `p`-days at the front of the scan joins the accumulator into
one block of `blocksByAux` when the next entry (if any) breaks the run. -/
theorem blocksByAux_run_mem (p : Day → Bool) :
    ∀ (run post cur : List Day),
      (∀ d ∈ run, p d = true) →
      (∀ a, post.head? = some a → p a = false) →
      cur.reverse ++ run ≠ [] →
      (cur.reverse ++ run) ∈ blocksByAux p cur (run ++ post) := by
  intro run
  induction run with
  | nil =>
    intro post cur _ hpost hne
    simp only [List.append_nil] at hne ⊢
    have hcur : cur ≠ [] := fun hq => hne (by simp [hq])
    have hcurE : cur.isEmpty = false := by simp [List.isEmpty_iff, hcur]
    cases post with
    | nil => simp [blocksByAux, hcurE]
    | cons q qs =>
      have hq : p q = false := hpost q rfl
      simp [blocksByAux, hq, hcurE]
  | cons r rs ih =>
    intro post cur hall hpost hne
    have hr : p r = true := hall r (by simp)
    have hstep : blocksByAux p cur ((r :: rs) ++ post) = blocksByAux p (r :: cur) (rs ++ post) := by
      simp [blocksByAux, hr]
    rw [hstep]
    have hmem := ih post (r :: cur) (fun d hd => hall d (by simp [hd])) hpost (by simp)
    simpa using hmem

/-- A maximal `p`-run inside the day list is one of the blocks that
`blocksByAux` returns. -/
theorem blocksByAux_mem_of_split (p : Day → Bool) (run post : List Day)
    (hrun : run ≠ []) (hall : ∀ d ∈ run, p d = true)
    (hpost : ∀ a, post.head? = some a → p a = false) :
    ∀ (pre : List Day) (cur : List Day),
      (∀ a, pre.getLast? = some a → p a = false) →
      (pre = [] → cur = []) →
      run ∈ blocksByAux p cur (pre ++ run ++ post) := by
  intro pre
  induction pre with
  | nil =>
    intro cur _ hcur
    obtain rfl := hcur rfl
    have := blocksByAux_run_mem p run post [] hall hpost (by simpa using hrun)
    simpa using this
  | cons a pre' ih =>
    intro cur hlast _
    cases hpre' : pre' with
    | nil =>
      subst hpre'
      have hpa : p a = false := hlast a rfl
      cases cur with
      | nil =>
        have hmem := blocksByAux_run_mem p run post [] hall hpost (by simpa using hrun)
        have hstep : blocksByAux p [] ((a :: []) ++ run ++ post) =
            blocksByAux p [] (run ++ post) := by
          simp [blocksByAux, hpa]
        rw [hstep]
        simpa using hmem
      | cons c0 cs =>
        have hmem := blocksByAux_run_mem p run post [] hall hpost (by simpa using hrun)
        have hstep : blocksByAux p (c0 :: cs) ((a :: []) ++ run ++ post) =
            (c0 :: cs).reverse :: blocksByAux p [] (run ++ post) := by
          simp [blocksByAux, hpa]
        rw [hstep]
        exact List.mem_cons_of_mem _ (by simpa using hmem)
    | cons b pre'' =>
      subst hpre'
      have hlast' : ∀ x, (b :: pre'').getLast? = some x → p x = false := by
        intro x hx
        exact hlast x (by rw [List.getLast?_cons_cons]; exact hx)
      by_cases hpa : p a
      · have hstep : blocksByAux p cur ((a :: b :: pre'') ++ run ++ post) =
            blocksByAux p (a :: cur) ((b :: pre'') ++ run ++ post) := by
          simp [blocksByAux, hpa]
        rw [hstep]
        exact ih (a :: cur) hlast' (by simp)
      · have hpaf : p a = false := Bool.eq_false_iff.mpr hpa
        cases cur with
        | nil =>
          have hstep : blocksByAux p [] ((a :: b :: pre'') ++ run ++ post) =
              blocksByAux p [] ((b :: pre'') ++ run ++ post) := by
            simp [blocksByAux, hpaf]
          rw [hstep]
          exact ih [] hlast' (by simp)
        | cons c0 cs =>
          have hstep : blocksByAux p (c0 :: cs) ((a :: b :: pre'') ++ run ++ post) =
              (c0 :: cs).reverse :: blocksByAux p [] ((b :: pre'') ++ run ++ post) := by
            simp [blocksByAux, hpaf]
          rw [hstep]
          exact List.mem_cons_of_mem _ (ih [] hlast' (by simp))

/-- C5: whenever `generate_calendar` returns a calendar, every maximal run
of consecutive `REST` entries in its day sequence (holiday kinds excluded)
has length exactly 2 — in particular a rest block begun at the final date
of the year, which would be cut to one day, never survives validation. -/
theorem c5_maximal_rest_run_length (year : Int) (hols : List Date) (rng : Rng)
    (cal : Calendar) (pre run post : List Day)
    (h : generate_calendar year hols rng = .ok cal)
    (hdecomp : cal.days = pre ++ run ++ post)
    (hne : run ≠ [])
    (hall : run.all (fun d => d.day_type == DayType.REST) = true)
    (hpre : pre.getLast?.all (fun a => a.day_type != DayType.REST) = true)
    (hpost : post.head?.all (fun a => a.day_type != DayType.REST) = true) :
    run.length = 2 := by
  obtain ⟨-, -, -, -, herrs, -⟩ := generate_ok_facts year hols rng cal h
  have h2 := (validation_rules_empty cal herrs).2.1
  have hmem : run ∈ cal.get_rest_blocks := by
    unfold Calendar.get_rest_blocks
    rw [hdecomp]
    refine blocksByAux_mem_of_split _ run post hne ?_ ?_ pre [] ?_ (fun _ => rfl)
    · exact List.all_eq_true.mp hall
    · intro a ha
      cases hh : post.head? with
      | none => rw [hh] at ha; cases ha
      | some x =>
        rw [hh] at ha
        obtain rfl : x = a := by injection ha
        have := hpost
        rw [hh, Option.all_some] at this
        simpa using this
    · intro a ha
      have := hpre
      rw [ha, Option.all_some] at this
      simpa using this
  exact rest_blocks_all_two cal h2 run hmem

/-- One-step unfolding of the simulate loop at positive fuel. -/
theorem simulate_loop_succ (f : Nat) (current : Date) (placed len : Nat)
    (hm : HolidayMap) :
    simulate_work_placement_loop (f + 1) current placed len hm =
      if placed < len then
        simulate_work_placement_loop f current.next
          (if hmContains hm current then placed else placed + 1) len hm
      else .ok current := rfl

/-- One-step unfolding of the work-block emit loop at positive fuel. -/
theorem place_work_block_loop_succ (f : Nat) (sy : Nat) (hm : HolidayMap)
    (wl : Nat) (fl : Bool) (current : Date) (placed : Nat) (acc : List Day) :
    place_work_block_loop (f + 1) sy hm wl fl current placed acc =
      if placed < wl && current.year == sy then
        if hmContains hm current then
          place_work_block_loop f sy hm wl fl current.next placed acc
        else
          place_work_block_loop f sy hm wl fl current.next (placed + 1)
            (acc ++ [⟨current,
              if placed == 0 && fl then DayType.ORDERING else DayType.WORK⟩])
      else .ok (current, acc) := rfl

/-- Positive holiday-map membership yields an entry at the same Rata Die
number. -/
theorem hmContains_exists_rd (hm : HolidayMap) (d : Date)
    (h : hmContains hm d = true) : ∃ p ∈ hm, p.1.toRD = d.toRD := by
  unfold hmContains at h
  rw [List.any_eq_true] at h
  obtain ⟨p, hp, hpd⟩ := h
  rw [beq_iff_eq] at hpd
  exact ⟨p, hp, by rw [hpd]⟩

/-- Fuel strictly above the simulate-loop measure (remaining work days plus
holidays not yet passed) guarantees a result. -/
theorem simulate_loop_ok : ∀ (fuel : Nat) (current : Date) (placed len : Nat)
    (hm : HolidayMap), current.Valid →
    (len - placed) +
      (hm.filter (fun p => decide (current.toRD ≤ p.1.toRD))).length < fuel →
    ∃ d, simulate_work_placement_loop fuel current placed len hm = .ok d := by
  intro fuel
  induction fuel with
  | zero =>
    intro current placed len hm _ hlt
    exact absurd hlt (by omega)
  | succ f ih =>
    intro current placed len hm hv hlt
    rw [simulate_loop_succ]
    by_cases hpl : placed < len
    · rw [if_pos hpl]
      have hnextv := Date.next_valid current hv
      have hrd := Date.toRD_next current hv
      have hmono : (hm.filter (fun p => decide (current.next.toRD ≤ p.1.toRD))).length ≤
          (hm.filter (fun p => decide (current.toRD ≤ p.1.toRD))).length := by
        apply filter_length_mono
        intro a ha
        rw [decide_eq_true_eq] at ha ⊢
        omega
      cases hc : hmContains hm current with
      | true =>
        rw [if_pos rfl]
        obtain ⟨p, hp, hprd⟩ := hmContains_exists_rd hm current hc
        have hstrict : (hm.filter (fun q => decide (current.next.toRD ≤ q.1.toRD))).length <
            (hm.filter (fun q => decide (current.toRD ≤ q.1.toRD))).length := by
          apply filter_length_lt _ _ _ ?_ p hp
          · rw [decide_eq_true_eq]
            omega
          · rw [decide_eq_false_iff_not]
            omega
          · intro a ha
            rw [decide_eq_true_eq] at ha ⊢
            omega
        exact ih current.next placed len hm hnextv (by omega)
      | false =>
        rw [if_neg Bool.false_ne_true]
        exact ih current.next (placed + 1) len hm hnextv (by omega)
    · rw [if_neg hpl]
      exact ⟨current, rfl⟩

/-- The simulate fuel bound is always sufficient. -/
theorem simulate_work_placement_ok (start : Date) (len : Nat) (hm : HolidayMap)
    (hv : start.Valid) : ∃ d, simulate_work_placement start len hm = .ok d := by
  unfold simulate_work_placement
  apply simulate_loop_ok (simulateFuel len hm) start 0 len hm hv
  have hle : (hm.filter (fun p => decide (start.toRD ≤ p.1.toRD))).length ≤ hm.length :=
    List.length_filter_le _ _
  unfold simulateFuel
  omega

/-- Work-length feasibility always reaches a verdict on a valid start. -/
theorem is_valid_work_length_ok (s : ScheduleState) (start : Date) (len : Nat)
    (hm : HolidayMap) (hv : start.Valid) :
    ∃ b, is_valid_work_length s start len hm = .ok b := by
  unfold is_valid_work_length
  by_cases h1 : s.current_work_streak + len > 7
  · rw [if_pos h1]
    exact ⟨false, rfl⟩
  · rw [if_neg h1]
    obtain ⟨d, hd⟩ := simulate_work_placement_ok start len hm hv
    rw [hd]
    cases hb : d.year != start.year with
    | true => exact ⟨false, by simp [hb]⟩
    | false =>
      cases hc : can_place_rest_at d hm with
      | false => exact ⟨false, by simp [hb, hc]⟩
      | true =>
        cases hw : needs_rest_this_week s start with
        | true => exact ⟨d.isoWeek == start.isoWeek, by simp [hb, hc, hw]⟩
        | false => exact ⟨true, by simp [hb, hc, hw]⟩

/-- Friday-landing always reaches a verdict on a valid start. -/
theorem lands_on_friday_ok (start : Date) (len : Nat) (hm : HolidayMap)
    (hv : start.Valid) : ∃ b, lands_on_friday start len hm = .ok b := by
  unfold lands_on_friday
  obtain ⟨d, hd⟩ := simulate_work_placement_ok start len hm hv
  rw [hd]
  exact ⟨d.weekday == 4, rfl⟩

/-- An effectful filter over a pointwise successful predicate succeeds with
a sublist of its input. -/
theorem filterEx_ok (p : Nat → Except GenError Bool) : ∀ l : List Nat,
    (∀ x ∈ l, ∃ b, p x = .ok b) →
    ∃ l2, filterEx p l = .ok l2 ∧ ∀ x ∈ l2, x ∈ l := by
  intro l
  induction l with
  | nil => exact fun _ => ⟨[], rfl, by simp⟩
  | cons a as ih =>
    intro hall
    obtain ⟨b, hb⟩ := hall a (by simp)
    obtain ⟨l2, hl2, hsub⟩ := ih (fun x hx => hall x (by simp [hx]))
    cases b with
    | true =>
      refine ⟨a :: l2, ?_, ?_⟩
      · unfold filterEx
        rw [hb, hl2]
        rfl
      · intro x hx
        rcases List.mem_cons.mp hx with rfl | h
        · exact List.mem_cons_self x as
        · exact List.mem_cons_of_mem a (hsub x h)
    | false =>
      refine ⟨l2, ?_, ?_⟩
      · unfold filterEx
        rw [hb, hl2]
        rfl
      · intro x hx
        exact List.mem_cons_of_mem a (hsub x hx)

/-- A positional default lookup below the length is a member. -/
theorem getD_mem_of_lt {l : List Nat} {n : Nat} (h : n < l.length) (d : Nat) :
    l.getD n d ∈ l := by
  induction l generalizing n with
  | nil => simp at h
  | cons a as ih =>
    cases n with
    | zero => simp [List.getD]
    | succ m =>
      have hm : m < as.length := by simpa using h
      simp only [List.getD_cons_succ]
      exact List.mem_cons_of_mem a (ih hm)

/-- A draw from a nonempty list is a member of it. -/
theorem rngChoice_mem (r : Rng) (l : List Nat) (h : l ≠ []) :
    (rngChoice r l).1 ∈ l := by
  show l.getD (r 0 % l.length) 0 ∈ l
  exact getD_mem_of_lt (Nat.mod_lt _ (List.length_pos.mpr h)) 0

/-- The length decision, expressed through the result of its validity
filter. -/
theorem decide_work_block_length_eq (s : ScheduleState) (cur : Date)
    (hm : HolidayMap) (rng : Rng) (vl : List Nat)
    (hvl : filterEx (fun len => is_valid_work_length s cur len hm)
      (List.range' 3 (min 7 (max_work_days_remaining s) + 1 - 3)) = .ok vl) :
    decide_work_block_length s cur hm rng =
      if vl.isEmpty then .error (.noValidWorkLength cur)
      else if needs_weekend_this_month s cur then
        match filterEx (fun len => lands_on_friday cur len hm) vl with
        | .error e => .error e
        | .ok fl =>
          if !fl.isEmpty then .ok (rngChoice rng fl)
          else .ok (rngChoice rng vl)
      else .ok (rngChoice rng vl) := by
  show (match filterEx (fun len => is_valid_work_length s cur len hm)
      (List.range' 3 (min 7 (max_work_days_remaining s) + 1 - 3)) with
    | Except.error e => (Except.error e : Except GenError (Nat × Rng))
    | Except.ok valid_lengths =>
      if valid_lengths.isEmpty then .error (.noValidWorkLength cur)
      else if needs_weekend_this_month s cur then
        match filterEx (fun len => lands_on_friday cur len hm) valid_lengths with
        | .error e => .error e
        | .ok friday_landing =>
          if !friday_landing.isEmpty then .ok (rngChoice rng friday_landing)
          else .ok (rngChoice rng valid_lengths)
      else .ok (rngChoice rng valid_lengths)) = _
  rw [hvl]

/-- The length decision on a valid cursor either returns a length of at
least 3 or fails with the no-valid-work-length error. -/
theorem decide_work_block_length_ok (s : ScheduleState) (cur : Date)
    (hm : HolidayMap) (rng : Rng) (hv : cur.Valid) :
    (∃ wl rng2, decide_work_block_length s cur hm rng = .ok (wl, rng2) ∧ 3 ≤ wl) ∨
    decide_work_block_length s cur hm rng = .error (.noValidWorkLength cur) := by
  obtain ⟨vl, hvl, hvsub⟩ := filterEx_ok (fun len => is_valid_work_length s cur len hm)
    (List.range' 3 (min 7 (max_work_days_remaining s) + 1 - 3))
    (fun x _ => is_valid_work_length_ok s cur x hm hv)
  have hmem3 : ∀ x ∈ vl, 3 ≤ x := fun x hx => by
    have h := List.mem_range'_1.mp (hvsub x hx)
    omega
  have heq := decide_work_block_length_eq s cur hm rng vl hvl
  cases hvle : vl.isEmpty with
  | true =>
    right
    rw [heq, if_pos hvle]
  | false =>
    left
    have hne : vl ≠ [] := by
      intro hh
      rw [hh] at hvle
      simp at hvle
    rw [heq, if_neg (by simp [hvle])]
    cases hw : needs_weekend_this_month s cur with
    | false =>
      refine ⟨(rngChoice rng vl).1, (rngChoice rng vl).2, ?_,
        hmem3 _ (rngChoice_mem rng vl hne)⟩
      rw [if_neg (by simp [hw])]
    | true =>
      rw [if_pos rfl]
      obtain ⟨fl, hfl, hfsub⟩ := filterEx_ok (fun len => lands_on_friday cur len hm) vl
        (fun x _ => lands_on_friday_ok cur x hm hv)
      rw [hfl]
      show ∃ wl rng2, (if !fl.isEmpty then (Except.ok (rngChoice rng fl) :
          Except GenError (Nat × Rng))
        else .ok (rngChoice rng vl)) = .ok (wl, rng2) ∧ 3 ≤ wl
      cases hfe : fl.isEmpty with
      | true =>
        refine ⟨(rngChoice rng vl).1, (rngChoice rng vl).2, ?_,
          hmem3 _ (rngChoice_mem rng vl hne)⟩
        rw [if_neg (by simp [hfe])]
      | false =>
        have hnef : fl ≠ [] := by
          intro hh
          rw [hh] at hfe
          simp at hfe
        refine ⟨(rngChoice rng fl).1, (rngChoice rng fl).2, ?_,
          hmem3 _ (hfsub _ (rngChoice_mem rng fl hnef))⟩
        rw [if_pos (by simp [hfe])]

/-- With enough fuel relative to the distance to the year boundary, the
work-block emit loop returns, on a valid cursor that only moves forward —
strictly when the entry condition holds. -/
theorem place_work_block_loop_ok : ∀ (fuel : Nat) (sy : Nat) (hm : HolidayMap)
    (wl : Nat) (fl : Bool) (current : Date) (placed : Nat) (acc : List Day),
    current.Valid → 1 ≤ fuel →
    (current.year = sy → daysBeforeYear (sy + 1) + 2 ≤ fuel + current.toRD) →
    ∃ cur2 acc2, place_work_block_loop fuel sy hm wl fl current placed acc =
        .ok (cur2, acc2) ∧ cur2.Valid ∧ current.toRD ≤ cur2.toRD ∧
      (placed < wl → current.year = sy → current.toRD < cur2.toRD) := by
  intro fuel
  induction fuel with
  | zero =>
    intro _ _ _ _ _ _ _ _ h1 _
    exact absurd h1 (by omega)
  | succ f ih =>
    intro sy hm wl fl current placed acc hv _ hinv
    rw [place_work_block_loop_succ]
    by_cases hc : placed < wl ∧ current.year = sy
    · have hcb : (decide (placed < wl) && (current.year == sy)) = true := by
        simp [hc.1, hc.2]
      rw [if_pos hcb]
      have hrdb := (rd_of_year current sy hv hc.2).2
      have hnextv := Date.next_valid current hv
      have hrdn := Date.toRD_next current hv
      have hbound := hinv hc.2
      have hf1 : 1 ≤ f := by omega
      have hinv2 : current.next.year = sy →
          daysBeforeYear (sy + 1) + 2 ≤ f + current.next.toRD := by
        intro hy2
        have hrdb2 := (rd_of_year current.next sy hnextv hy2).2
        omega
      by_cases hh : hmContains hm current = true
      · rw [if_pos hh]
        obtain ⟨c2, a2, heq, hv2, hle, _⟩ :=
          ih sy hm wl fl current.next placed acc hnextv hf1 hinv2
        exact ⟨c2, a2, heq, hv2, by omega, fun _ _ => by omega⟩
      · rw [if_neg hh]
        obtain ⟨c2, a2, heq, hv2, hle, _⟩ :=
          ih sy hm wl fl current.next (placed + 1)
            (acc ++ [⟨current,
              if placed == 0 && fl then DayType.ORDERING else DayType.WORK⟩])
            hnextv hf1 hinv2
        exact ⟨c2, a2, heq, hv2, by omega, fun _ _ => by omega⟩
    · have hcb : (decide (placed < wl) && (current.year == sy)) = false := by
        rcases Decidable.not_and_iff_or_not.mp hc with h1 | h2
        · simp [h1]
        · simp [h2]
      rw [if_neg (by rw [hcb]; exact Bool.false_ne_true)]
      exact ⟨current, acc, rfl, hv, le_rfl,
        fun h1 h2 => absurd ⟨h1, h2⟩ hc⟩

/-- Placing a work block on a valid cursor either strictly advances the
cursor, keeping it valid, or fails with the no-valid-work-length error. -/
theorem place_work_block_ok (s : ScheduleState) (hm : HolidayMap) (rng : Rng)
    (hv : s.current_date.Valid) :
    (∃ s2 rng2, place_work_block s hm rng = .ok (s2, rng2) ∧
      s2.current_date.Valid ∧ s.current_date.toRD < s2.current_date.toRD) ∨
    place_work_block s hm rng = .error (.noValidWorkLength s.current_date) := by
  rcases decide_work_block_length_ok s s.current_date hm rng hv with
    ⟨wl, rng2, hok, hwl3⟩ | herr
  · left
    have hy1 : 1 ≤ s.current_date.year := hv.1
    have hrd1 := (rd_of_year s.current_date s.current_date.year hv rfl).1
    have hsucc := daysBeforeYear_succ s.current_date.year hy1
    obtain ⟨c2, a2, heq, hv2, _, hstrict⟩ := place_work_block_loop_ok
      (daysInYear s.current_date.year + 2) s.current_date.year hm wl
      (match s.last_day with | some d => d.is_rest_day | none => false)
      s.current_date 0 [] hv (by omega) (fun _ => by omega)
    refine ⟨⟨c2, s.days_so_far ++ a2, s.weeks_with_rest, s.months_with_weekend⟩,
      rng2, ?_, hv2, hstrict (by omega) rfl⟩
    unfold place_work_block
    rw [hok]
    show (match place_work_block_loop (daysInYear s.current_date.year + 2)
        s.current_date.year hm wl
        (match s.last_day with | some d => d.is_rest_day | none => false)
        s.current_date 0 [] with
      | Except.error e => (Except.error e : Except GenError (ScheduleState × Rng))
      | Except.ok (current, new_days) =>
        Except.ok (⟨current, s.days_so_far ++ new_days, s.weeks_with_rest,
          s.months_with_weekend⟩, rng2)) = _
    rw [heq]
  · right
    unfold place_work_block
    rw [herr]

/-- Placing a rest block either fails with the cannot-place-rest error or
returns with the cursor moved exactly two days forward. -/
theorem place_rest_block_cases (s : ScheduleState) (hm : HolidayMap) :
    place_rest_block s hm = .error (.cannotPlaceRest s.current_date) ∨
    ∃ s3, place_rest_block s hm = .ok s3 ∧
      s3.current_date = s.current_date.next.next := by
  by_cases hc : can_place_rest_at s.current_date hm = true
  · right
    have hb : (!can_place_rest_at s.current_date hm) = false := by simp [hc]
    unfold place_rest_block
    simp only [hb]
    rw [if_neg Bool.false_ne_true]
    exact ⟨_, rfl, rfl⟩
  · left
    have hcf : can_place_rest_at s.current_date hm = false := Bool.eq_false_iff.mpr hc
    have hb : (!can_place_rest_at s.current_date hm) = true := by simp [hcf]
    unfold place_rest_block
    simp only [hb]
    rw [if_pos trivial]

/-- With fuel covering the distance to the year boundary, the outer build
loop never runs out of fuel on a valid cursor. -/
theorem build_loop_no_out_of_fuel : ∀ (fuel : Nat) (year : Nat) (hm : HolidayMap)
    (s : ScheduleState) (rng : Rng), s.current_date.Valid → 1 ≤ fuel →
    (s.current_date.year = year →
      daysBeforeYear (year + 1) + 2 ≤ fuel + s.current_date.toRD) →
    build_loop fuel year hm s rng ≠ .error .outOfFuel := by
  intro fuel
  induction fuel with
  | zero =>
    intro _ _ _ _ _ h1 _
    exact absurd h1 (by omega)
  | succ f ih =>
    intro year hm s rng hv _ hinv
    rw [build_loop_succ]
    by_cases hyy : s.current_date.year = year
    · rw [if_pos (by simp [hyy])]
      have hrdb := (rd_of_year s.current_date year hv hyy).2
      have hbound := hinv hyy
      have hf1 : 1 ≤ f := by omega
      by_cases hh : hmContains hm s.current_date = true
      · rw [if_pos hh]
        have hph : (place_holiday s hm).current_date = s.current_date.next := rfl
        apply ih year hm (place_holiday s hm) rng
        · rw [hph]
          exact Date.next_valid _ hv
        · exact hf1
        · intro hy2
          rw [hph] at hy2 ⊢
          have hv2 := Date.next_valid _ hv
          have hrd2 := Date.toRD_next _ hv
          omega
      · rw [if_neg hh]
        rcases place_work_block_ok s hm rng hv with
          ⟨s2, rng2, hok, hv2, hlt⟩ | herr
        · rw [hok]
          show (if s2.current_date.year == year then
              (match place_rest_block s2 hm with
               | .error e => .error e
               | .ok s3 => build_loop f year hm s3 rng2)
            else build_loop f year hm s2 rng2) ≠ .error .outOfFuel
          by_cases hy2 : s2.current_date.year = year
          · rw [if_pos (by simp [hy2])]
            rcases place_rest_block_cases s2 hm with herr2 | ⟨s3, hok3, hcd3⟩
            · rw [herr2]
              simp
            · rw [hok3]
              show build_loop f year hm s3 rng2 ≠ .error .outOfFuel
              have hv3 : s3.current_date.Valid := by
                rw [hcd3]
                exact Date.next_valid _ (Date.next_valid _ hv2)
              apply ih year hm s3 rng2 hv3 hf1
              intro _
              have hrd3 : s3.current_date.toRD = s2.current_date.toRD + 2 := by
                rw [hcd3, Date.toRD_next _ (Date.next_valid _ hv2),
                  Date.toRD_next _ hv2]
              omega
          · rw [if_neg (by simpa using hy2)]
            apply ih year hm s2 rng2 hv2 hf1
            intro hy2c
            exact absurd hy2c hy2
        · rw [herr]
          simp
    · rw [if_neg (by simpa using hyy)]
      simp

/-- January 1 of any year from 1 on is a constructible date. -/
theorem jan1_valid (y : Nat) (hy : 1 ≤ y) : (⟨y, 1, 1⟩ : Date).Valid := by
  refine ⟨hy, le_rfl, ?_, le_rfl, ?_⟩
  · show (1 : Nat) ≤ 12
    omega
  · show (1 : Nat) ≤ monthLen y 1
    exact monthLen_pos y 1 le_rfl (by omega)

/-- The fuel chosen by `build_schedule` is always sufficient. -/
theorem build_schedule_no_out_of_fuel (y : Nat) (hy : 1 ≤ y) (hm : HolidayMap)
    (rng : Rng) : build_schedule y hm rng ≠ .error .outOfFuel := by
  unfold build_schedule
  apply build_loop_no_out_of_fuel (daysInYear y + 2) y hm ⟨⟨y, 1, 1⟩, [], [], []⟩ rng
  · exact jan1_valid y hy
  · omega
  · intro _
    have hsucc := daysBeforeYear_succ y hy
    have htr : (⟨⟨y, 1, 1⟩, [], [], []⟩ : ScheduleState).current_date.toRD =
        daysBeforeYear y + daysBeforeMonth y 1 + 1 := rfl
    have hdbm : daysBeforeMonth y 1 = 0 := rfl
    omega

/-- C9: the schedule builder terminates — for every year from 1 on, every
holiday map and every random source, `build_schedule` never runs out of
fuel (each outer pass strictly advances the cursor), and the inner
work-placement scan always reaches a result from any valid start, for
every requested length. -/
theorem c9_termination :
    (∀ y : Nat, 1 ≤ y → ∀ (hm : HolidayMap) (rng : Rng),
      build_schedule y hm rng ≠ .error .outOfFuel) ∧
    (∀ (start : Date) (len : Nat) (hm : HolidayMap), start.Valid →
      ∃ d, simulate_work_placement start len hm = .ok d) :=
  ⟨fun y hy hm rng => build_schedule_no_out_of_fuel y hy hm rng,
   fun start len hm hv => simulate_work_placement_ok start len hm hv⟩

/-- Witness for C9 at year 2025, the empty holiday map and the constant-0
stream. -/
theorem c9_termination_witness :
    build_schedule 2025 [] zeroRng ≠ .error .outOfFuel ∧
    ∃ d, simulate_work_placement ⟨2025, 1, 1⟩ 3 [] = .ok d :=
  ⟨c9_termination.1 2025 (by decide) [] zeroRng,
   c9_termination.2 ⟨2025, 1, 1⟩ 3 [] (by decide)⟩

/-- The month-offset table is monotone over the months of a year. -/
theorem daysBeforeMonth_mono (y : Nat) : ∀ m m2 : Nat, 1 ≤ m → m ≤ m2 → m2 ≤ 12 →
    daysBeforeMonth y m ≤ daysBeforeMonth y m2 := by
  intro m m2
  induction m2 with
  | zero => intro h1 h2 _; exact absurd (le_trans h1 h2) (by decide)
  | succ k ih =>
    intro h1 h2 h3
    rcases Nat.eq_or_lt_of_le h2 with heq | hlt
    · rw [heq]
    · have hstep := daysBeforeMonth_succ y k (by omega) (by omega)
      have hless := ih h1 (by omega) (by omega)
      have hpos := monthLen_pos y k (by omega) (by omega)
      omega

/-- Within a year, any day of an earlier month has a strictly smaller
ordinal day number. -/
theorem doy_lt_of_month_lt (y m1 d1 m2 d2 : Nat) (h1m : 1 ≤ m1) (hlt : m1 < m2)
    (h2m : m2 ≤ 12) (hd1 : d1 ≤ monthLen y m1) (hd2 : 1 ≤ d2) :
    daysBeforeMonth y m1 + d1 < daysBeforeMonth y m2 + d2 := by
  have hstep := daysBeforeMonth_succ y m1 h1m (by omega)
  have hmono := daysBeforeMonth_mono y (m1 + 1) m2 (by omega) (by omega) h2m
  omega

/-- Rata Die numbering is injective on constructible dates. -/
theorem Date.toRD_inj (a b : Date) (ha : a.Valid) (hb : b.Valid)
    (h : a.toRD = b.toRD) : a = b := by
  have hy : b.year = a.year := by
    have hra := rd_of_year a a.year ha rfl
    exact year_of_rd b a.year hb ha.1 (by omega) (by omega)
  have hta : a.toRD = daysBeforeYear a.year + daysBeforeMonth a.year a.month + a.day := rfl
  have htb : b.toRD = daysBeforeYear b.year + daysBeforeMonth b.year b.month + b.day := rfl
  rw [hy] at htb
  have hbday : b.day ≤ monthLen a.year b.month := by rw [← hy]; exact hb.2.2.2.2
  have hdoy : daysBeforeMonth a.year a.month + a.day =
      daysBeforeMonth a.year b.month + b.day := by omega
  have hmm : a.month = b.month := by
    by_contra hne
    rcases Nat.lt_or_ge a.month b.month with hlt | hge
    · have := doy_lt_of_month_lt a.year a.month a.day b.month b.day ha.2.1 hlt hb.2.2.1
        ha.2.2.2.2 hb.2.2.2.1
      omega
    · have hlt2 : b.month < a.month := by omega
      have := doy_lt_of_month_lt a.year b.month b.day a.month a.day hb.2.1 hlt2 ha.2.2.1
        hbday ha.2.2.2.1
      omega
  have hdd : a.day = b.day := by
    rw [hmm] at hdoy
    omega
  calc a = ⟨a.year, a.month, a.day⟩ := rfl
    _ = ⟨b.year, b.month, b.day⟩ := by rw [hy, hmm, hdd]
    _ = b := rfl

/-- Within one year, Rata Die order bounds month order. -/
theorem toRD_month_le (a b : Date) (ha : a.Valid) (hb : b.Valid)
    (hy : a.year = b.year) (h : a.toRD ≤ b.toRD) : a.month ≤ b.month := by
  by_contra hgt
  have hlt : b.month < a.month := by omega
  have hbday : b.day ≤ monthLen a.year b.month := by rw [hy]; exact hb.2.2.2.2
  have := doy_lt_of_month_lt a.year b.month b.day a.month a.day hb.2.1 hlt ha.2.2.1
    hbday ha.2.2.2.1
  have hta : a.toRD = daysBeforeYear a.year + daysBeforeMonth a.year a.month + a.day := rfl
  have htb : b.toRD = daysBeforeYear b.year + daysBeforeMonth b.year b.month + b.day := rfl
  rw [← hy] at htb
  omega

/-- Lexicographic order implies Rata Die order on constructible dates. -/
theorem lexLt_toRD (a b : Date) (ha : a.Valid) (hb : b.Valid)
    (h : a.lexLt b = true) : a.toRD < b.toRD := by
  unfold Date.lexLt at h
  simp only [Bool.or_eq_true, Bool.and_eq_true, decide_eq_true_eq, beq_iff_eq] at h
  have hta : a.toRD = daysBeforeYear a.year + daysBeforeMonth a.year a.month + a.day := rfl
  have htb : b.toRD = daysBeforeYear b.year + daysBeforeMonth b.year b.month + b.day := rfl
  rcases h with h | ⟨hy, h⟩
  · have h1 := (rd_of_year a a.year ha rfl).2
    have h2 := (rd_of_year b b.year hb rfl).1
    have h3 := daysBeforeYear_mono (show a.year + 1 ≤ b.year by omega)
    omega
  · rcases h with h | ⟨hmm, h⟩
    · have := doy_lt_of_month_lt a.year a.month a.day b.month b.day ha.2.1 h hb.2.2.1
        ha.2.2.2.2 hb.2.2.2.1
      rw [← hy] at htb
      omega
    · rw [← hy, ← hmm] at htb
      omega

/-- Lexicographic order on dates is total. -/
theorem lexLt_total (a b : Date) : a.lexLt b = true ∨ b.lexLt a = true ∨ a = b := by
  unfold Date.lexLt
  simp only [Bool.or_eq_true, Bool.and_eq_true, decide_eq_true_eq, beq_iff_eq]
  rcases Nat.lt_trichotomy a.year b.year with h | h | h
  · exact Or.inl (Or.inl h)
  · rcases Nat.lt_trichotomy a.month b.month with h2 | h2 | h2
    · exact Or.inl (Or.inr ⟨h, Or.inl h2⟩)
    · rcases Nat.lt_trichotomy a.day b.day with h3 | h3 | h3
      · exact Or.inl (Or.inr ⟨h, Or.inr ⟨h2, h3⟩⟩)
      · refine Or.inr (Or.inr ?_)
        calc a = ⟨a.year, a.month, a.day⟩ := rfl
          _ = ⟨b.year, b.month, b.day⟩ := by rw [h, h2, h3]
          _ = b := rfl
      · exact Or.inr (Or.inl (Or.inr ⟨h.symm, Or.inr ⟨h2.symm, h3⟩⟩))
    · exact Or.inr (Or.inl (Or.inr ⟨h.symm, Or.inl h2⟩))
  · exact Or.inr (Or.inl (Or.inl h))

/-- Lexicographic order on dates is transitive. -/
theorem lexLt_trans {a b c : Date} (h1 : a.lexLt b = true) (h2 : b.lexLt c = true) :
    a.lexLt c = true := by
  unfold Date.lexLt at h1 h2 ⊢
  simp only [Bool.or_eq_true, Bool.and_eq_true, decide_eq_true_eq, beq_iff_eq] at h1 h2 ⊢
  rcases h1 with h1 | ⟨hy1, h1⟩ <;> rcases h2 with h2 | ⟨hy2, h2⟩
  · exact Or.inl (by omega)
  · exact Or.inl (by omega)
  · exact Or.inl (by omega)
  · refine Or.inr ⟨by omega, ?_⟩
    rcases h1 with h1 | ⟨hm1, h1⟩ <;> rcases h2 with h2 | ⟨hm2, h2⟩
    · exact Or.inl (by omega)
    · exact Or.inl (by omega)
    · exact Or.inl (by omega)
    · exact Or.inr ⟨by omega, by omega⟩

/-- Sorted insertion permutes to plain insertion. -/
theorem insertSorted_perm (d : Date) : ∀ l : List Date,
    List.Perm (insertSorted d l) (d :: l) := by
  intro l
  induction l with
  | nil => exact List.Perm.refl _
  | cons a as ih =>
    unfold insertSorted
    by_cases h : d.lexLt a = true
    · rw [if_pos h]
    · rw [if_neg h]
      exact List.Perm.trans (List.Perm.cons a ih) (List.Perm.swap d a as)

/-- `sorted` permutes its input. -/
theorem sortDates_perm : ∀ l : List Date, List.Perm (sortDates l) l := by
  intro l
  induction l with
  | nil => exact List.Perm.refl _
  | cons a as ih =>
    show List.Perm (insertSorted a (sortDates as)) (a :: as)
    exact List.Perm.trans (insertSorted_perm a (sortDates as)) (List.Perm.cons a ih)

/-- Sorted insertion preserves non-strict lexicographic sortedness. -/
theorem insertSorted_pairwise (d : Date) : ∀ l : List Date,
    List.Pairwise (fun a b => a.lexLt b = true ∨ a = b) l →
    List.Pairwise (fun a b => a.lexLt b = true ∨ a = b) (insertSorted d l) := by
  intro l
  induction l with
  | nil => intro _; simp [insertSorted]
  | cons a as ih =>
    intro hp
    obtain ⟨hall, hpas⟩ := List.pairwise_cons.mp hp
    unfold insertSorted
    by_cases h : d.lexLt a = true
    · rw [if_pos h]
      refine List.pairwise_cons.mpr ⟨?_, hp⟩
      intro b hb
      rcases List.mem_cons.mp hb with rfl | hb2
      · exact Or.inl h
      · rcases hall b hb2 with hab | rfl
        · exact Or.inl (lexLt_trans h hab)
        · exact Or.inl h
    · rw [if_neg h]
      refine List.pairwise_cons.mpr ⟨?_, ih hpas⟩
      intro b hb
      have hb2 := (List.Perm.mem_iff (insertSorted_perm d as)).mp hb
      rcases List.mem_cons.mp hb2 with rfl | hb3
      · rcases lexLt_total a b with h1 | h1 | h1
        · exact Or.inl h1
        · exact absurd h1 h
        · exact Or.inr h1
      · exact hall b hb3

/-- `sorted` output is non-strictly sorted lexicographically. -/
theorem sortDates_pairwise : ∀ l : List Date,
    List.Pairwise (fun a b => a.lexLt b = true ∨ a = b) (sortDates l) := by
  intro l
  induction l with
  | nil => exact List.Pairwise.nil
  | cons a as ih =>
    show List.Pairwise (fun a b => a.lexLt b = true ∨ a = b) (insertSorted a (sortDates as))
    exact insertSorted_pairwise a (sortDates as) ih

/-- The dedup loop keeps its accumulator duplicate-free. -/
theorem eraseDupsLoop_nodup : ∀ (as bs : List Date), bs.Nodup →
    (List.eraseDups.loop as bs).Nodup := by
  intro as
  induction as with
  | nil =>
    intro bs h
    show (bs.reverse).Nodup
    exact List.nodup_reverse.mpr h
  | cons a as ih =>
    intro bs hbs
    by_cases hmem : a ∈ bs
    · rw [show List.eraseDups.loop (a :: as) bs = List.eraseDups.loop as bs from by
        simp [List.eraseDups.loop, hmem]]
      exact ih bs hbs
    · rw [show List.eraseDups.loop (a :: as) bs = List.eraseDups.loop as (a :: bs) from by
        simp [List.eraseDups.loop, hmem]]
      exact ih (a :: bs) (List.nodup_cons.mpr ⟨hmem, hbs⟩)

/-- Deduplication returns a duplicate-free list. -/
theorem eraseDups_nodup (l : List Date) : l.eraseDups.Nodup :=
  eraseDupsLoop_nodup l [] List.nodup_nil

/-- Members of the dedup loop come from the accumulator or the input. -/
theorem eraseDupsLoop_mem : ∀ (as bs : List Date) (x : Date),
    x ∈ List.eraseDups.loop as bs → x ∈ bs ∨ x ∈ as := by
  intro as
  induction as with
  | nil =>
    intro bs x h
    replace h : x ∈ bs.reverse := h
    exact Or.inl (List.mem_reverse.mp h)
  | cons a as ih =>
    intro bs x h
    by_cases hmem : a ∈ bs
    · rw [show List.eraseDups.loop (a :: as) bs = List.eraseDups.loop as bs from by
        simp [List.eraseDups.loop, hmem]] at h
      rcases ih bs x h with h1 | h1
      · exact Or.inl h1
      · exact Or.inr (List.mem_cons_of_mem a h1)
    · rw [show List.eraseDups.loop (a :: as) bs = List.eraseDups.loop as (a :: bs) from by
        simp [List.eraseDups.loop, hmem]] at h
      rcases ih (a :: bs) x h with h1 | h1
      · rcases List.mem_cons.mp h1 with rfl | h2
        · exact Or.inr (List.mem_cons_self x as)
        · exact Or.inl h2
      · exact Or.inr (List.mem_cons_of_mem a h1)

/-- Members of a deduplicated list come from the input. -/
theorem eraseDups_mem (l : List Date) (x : Date) (h : x ∈ l.eraseDups) : x ∈ l := by
  rcases eraseDupsLoop_mem l [] x h with h1 | h1
  · simp at h1
  · exact h1

/-- A deduplicated, sorted holiday list of constructible dates is strictly
increasing in Rata Die order. -/
theorem sortDates_toRD_pairwise (l : List Date) (hnd : l.Nodup)
    (hval : ∀ x ∈ l, x.Valid) :
    List.Pairwise (fun a b => a.toRD < b.toRD) (sortDates l) := by
  have hperm := sortDates_perm l
  have hnd2 : (sortDates l).Nodup := (List.Perm.nodup_iff hperm).mpr hnd
  have hpws := sortDates_pairwise l
  have hand := List.Pairwise.and hpws hnd2
  refine List.Pairwise.imp_of_mem ?_ hand
  intro a b ha hb hab
  obtain ⟨hle, hne⟩ := hab
  rcases hle with hlex | heq
  · exact lexLt_toRD a b (hval a (hperm.mem_iff.mp ha)) (hval b (hperm.mem_iff.mp hb)) hlex
  · exact absurd heq hne

/-- Step equations of the grouping loop. -/
theorem groupFrom_nil (last : Date) (curRev : List Date) :
    groupConsecutiveFrom last curRev [] = [curRev.reverse] := rfl

/-- Step equation of the grouping loop on a nonempty tail. -/
theorem groupFrom_cons (last : Date) (curRev : List Date) (h : Date) (t : List Date) :
    groupConsecutiveFrom last curRev (h :: t) =
      if Date.diff h last == 1 then groupConsecutiveFrom h (h :: curRev) t
      else curRev.reverse :: groupConsecutiveFrom h [h] t := rfl

/-- Elements of grouped blocks come from the current block or the tail. -/
theorem groupConsecutiveFrom_subset : ∀ (t : List Date) (last : Date)
    (curRev : List Date) (b : List Date), b ∈ groupConsecutiveFrom last curRev t →
    ∀ x ∈ b, x ∈ curRev ∨ x ∈ t := by
  intro t
  induction t with
  | nil =>
    intro last curRev b hb x hx
    rw [groupFrom_nil] at hb
    rw [List.mem_singleton] at hb
    subst hb
    exact Or.inl (List.mem_reverse.mp hx)
  | cons h t ih =>
    intro last curRev b hb x hx
    rw [groupFrom_cons] at hb
    by_cases hd : (Date.diff h last == 1) = true
    · rw [if_pos hd] at hb
      rcases ih h (h :: curRev) b hb x hx with hcur | ht
      · rcases List.mem_cons.mp hcur with rfl | h2
        · exact Or.inr (List.mem_cons_self x t)
        · exact Or.inl h2
      · exact Or.inr (List.mem_cons_of_mem h ht)
    · rw [if_neg hd] at hb
      rcases List.mem_cons.mp hb with rfl | hb2
      · exact Or.inl (List.mem_reverse.mp hx)
      · rcases ih h [h] b hb2 x hx with hcur | ht
        · rw [List.mem_singleton] at hcur
          subst hcur
          exact Or.inr (List.mem_cons_self x t)
        · exact Or.inr (List.mem_cons_of_mem h ht)

/-- Elements of the grouping's blocks are elements of the input list. -/
theorem group_consecutive_subset (l : List Date) (b : List Date)
    (hb : b ∈ group_consecutive_holidays l) (x : Date) (hx : x ∈ b) : x ∈ l := by
  cases l with
  | nil => simp [group_consecutive_holidays] at hb
  | cons h t =>
    rcases groupConsecutiveFrom_subset t h [h] b hb x hx with h1 | h1
    · rw [List.mem_singleton] at h1
      subst h1
      exact List.mem_cons_self x t
    · exact List.mem_cons_of_mem h h1

/-- A running block of three or more survives into some emitted block. -/
theorem groupFrom_big_block : ∀ (t : List Date) (last : Date) (curRev : List Date),
    3 ≤ curRev.length → ∃ b ∈ groupConsecutiveFrom last curRev t, 3 ≤ b.length := by
  intro t
  induction t with
  | nil =>
    intro last curRev h
    rw [groupFrom_nil]
    exact ⟨curRev.reverse, List.mem_singleton.mpr rfl, by simpa using h⟩
  | cons h t ih =>
    intro last curRev hlen
    rw [groupFrom_cons]
    by_cases hd : (Date.diff h last == 1) = true
    · rw [if_pos hd]
      exact ih h (h :: curRev) (by simp only [List.length_cons]; omega)
    · rw [if_neg hd]
      exact ⟨curRev.reverse, List.mem_cons_self _ _, by simpa using hlen⟩

/-- Three dates adjacent in the input and consecutive by one day end up in
a single block of length at least three. -/
theorem groupFrom_triple : ∀ (u : List Date) (a b c : Date) (v : List Date)
    (last : Date) (curRev : List Date), Date.diff b a = 1 → Date.diff c b = 1 →
    ∃ blk ∈ groupConsecutiveFrom last curRev (u ++ a :: b :: c :: v), 3 ≤ blk.length := by
  intro u
  induction u with
  | nil =>
    intro a b c v last curRev hba hcb
    have hba2 : (Date.diff b a == 1) = true := by simp [hba]
    have hcb2 : (Date.diff c b == 1) = true := by simp [hcb]
    show ∃ blk ∈ groupConsecutiveFrom last curRev (a :: b :: c :: v), 3 ≤ blk.length
    rw [groupFrom_cons]
    by_cases hd : (Date.diff a last == 1) = true
    · rw [if_pos hd, groupFrom_cons, if_pos hba2, groupFrom_cons, if_pos hcb2]
      exact groupFrom_big_block v c (c :: b :: a :: curRev)
        (by simp only [List.length_cons]; omega)
    · rw [if_neg hd, groupFrom_cons, if_pos hba2, groupFrom_cons, if_pos hcb2]
      obtain ⟨blk, hmem, h3⟩ := groupFrom_big_block v c (c :: b :: [a])
        (by simp only [List.length_cons]; omega)
      exact ⟨blk, List.mem_cons_of_mem _ hmem, h3⟩
  | cons d u2 ih =>
    intro a b c v last curRev hba hcb
    show ∃ blk ∈ groupConsecutiveFrom last curRev (d :: (u2 ++ a :: b :: c :: v)), 3 ≤ blk.length
    rw [groupFrom_cons]
    by_cases hd : (Date.diff d last == 1) = true
    · rw [if_pos hd]
      exact ih a b c v d (d :: curRev) hba hcb
    · rw [if_neg hd]
      obtain ⟨blk, hmem, h3⟩ := ih a b c v d [d] hba hcb
      exact ⟨blk, List.mem_cons_of_mem _ hmem, h3⟩

/-- In a strictly increasing list, three members at consecutive Rata Die
numbers occupy adjacent positions. -/
theorem sorted_triple : ∀ (L : List Date),
    List.Pairwise (fun a b => a.toRD < b.toRD) L →
    ∀ x y z : Date, x ∈ L → y ∈ L → z ∈ L →
    x.toRD + 1 = y.toRD → y.toRD + 1 = z.toRD →
    ∃ u v, L = u ++ x :: y :: z :: v := by
  intro L
  induction L with
  | nil => intro _ x y z hx; simp at hx
  | cons h t ih =>
    intro hpw x y z hx hy hz hxy hyz
    obtain ⟨hh, hpt⟩ := List.pairwise_cons.mp hpw
    rcases List.mem_cons.mp hx with heqx | hx2
    · subst heqx
      rcases List.mem_cons.mp hy with heqy | hy2
      · subst heqy
        omega
      · cases t with
        | nil => simp at hy2
        | cons h2 t2 =>
          obtain ⟨hh2, hpt2⟩ := List.pairwise_cons.mp hpt
          rcases List.mem_cons.mp hy2 with heqy2 | hy3
          · subst heqy2
            rcases List.mem_cons.mp hz with heqz | hz2
            · subst heqz
              omega
            · rcases List.mem_cons.mp hz2 with heqz2 | hz3
              · subst heqz2
                omega
              · cases t2 with
                | nil => simp at hz3
                | cons h3 t3 =>
                  obtain ⟨hh3, hpt3⟩ := List.pairwise_cons.mp hpt2
                  rcases List.mem_cons.mp hz3 with heqz3 | hz4
                  · subst heqz3
                    exact ⟨[], t3, rfl⟩
                  · have hq1 := hh3 z hz4
                    have hq2 := hh2 h3 (List.mem_cons_self h3 t3)
                    omega
          · have hq1 := hh2 y hy3
            have hq2 := hh h2 (List.mem_cons_self h2 t2)
            omega
    · have hhx := hh x hx2
      rcases List.mem_cons.mp hy with heqy | hy2
      · subst heqy
        omega
      · rcases List.mem_cons.mp hz with heqz | hz2
        · subst heqz
          omega
        · obtain ⟨u, v, huv⟩ := ih hpt x y z hx2 hy2 hz2 hxy hyz
          exact ⟨h :: u, v, by rw [huv]; rfl⟩

/-- Keys of a classified block are dates of the block. -/
theorem classifyBlock_key (b : List Date) (p : Date × DayType)
    (h : p ∈ classifyBlock b) : p.1 ∈ b := by
  match b with
  | [] =>
    rw [show classifyBlock [] = [] from rfl] at h
    simp at h
  | [d] =>
    rw [show classifyBlock [d] = [(d, DayType.HOLIDAY)] from rfl] at h
    rw [List.mem_singleton] at h
    subst h
    exact List.mem_singleton.mpr rfl
  | [d1, d2] =>
    rw [show classifyBlock [d1, d2] =
      [(d1, DayType.WORKING_HOLIDAY), (d2, DayType.HOLIDAY)] from rfl] at h
    rcases List.mem_cons.mp h with rfl | h2
    · exact List.mem_cons_self d1 [d2]
    · rw [List.mem_singleton] at h2
      subst h2
      exact List.mem_cons_of_mem d1 (List.mem_singleton.mpr rfl)
  | d1 :: d2 :: d3 :: rest =>
    rw [show classifyBlock (d1 :: d2 :: d3 :: rest) = [] from rfl] at h
    simp at h

/-- Blocks of length at least three always offend. -/
theorem offenseOf_of_big (b : List Date) (h : 3 ≤ b.length) :
    offenseOf b = some (.holidayBlockTooLarge b.length) := by
  match b with
  | [] => simp at h
  | [d] => simp at h
  | [d1, d2] => simp at h
  | d1 :: d2 :: d3 :: rest => rfl

/-- An empty `findSome?` means the function returns `none` everywhere. -/
theorem findSomeNone {α β : Type} (f : α → Option β) : ∀ l : List α,
    l.findSome? f = none → ∀ x ∈ l, f x = none := by
  intro l
  induction l with
  | nil => intro _ x hx; simp at hx
  | cons a as ih =>
    intro h x hx
    rw [List.findSome?_cons] at h
    cases hfa : f a with
    | some b => rw [hfa] at h; simp at h
    | none =>
      rw [hfa] at h
      rcases List.mem_cons.mp hx with rfl | hx2
      · exact hfa
      · exact ih h x hx2

/-- A successfully classified holiday map never holds three keys at
consecutive dates: the grouping would have formed a block of length three
and the classifier would have rejected it. -/
theorem hm_no_triple (hols : List Date) (hm : HolidayMap)
    (hok : process_holidays hols = .ok hm) (hval : ∀ h ∈ hols, h.Valid)
    (x : Date) (hxv : x.Valid)
    (h1 : hmContains hm x = true) (h2 : hmContains hm x.next = true)
    (h3 : hmContains hm x.next.next = true) : False := by
  unfold process_holidays at hok
  by_cases he : hols.isEmpty
  · rw [if_pos he] at hok
    injection hok with hok2
    rw [← hok2] at h1
    simp [hmContains] at h1
  · rw [if_neg he] at hok
    have hchar := processBlocks_characterization
      (group_consecutive_holidays (sortDates hols.eraseDups))
    cases hfs : (group_consecutive_holidays (sortDates hols.eraseDups)).findSome? offenseOf with
    | some e =>
      rw [hfs] at hchar
      rw [hchar] at hok
      exact absurd hok (by simp)
    | none =>
      rw [hfs] at hchar
      rw [hchar] at hok
      injection hok with hok2
      have hkey : ∀ d : Date, hmContains hm d = true → d ∈ sortDates hols.eraseDups := by
        intro d hd
        unfold hmContains at hd
        rw [List.any_eq_true] at hd
        obtain ⟨p, hp, hpd⟩ := hd
        rw [beq_iff_eq] at hpd
        rw [← hok2] at hp
        rw [List.mem_join] at hp
        obtain ⟨bl, hbl, hpbl⟩ := hp
        rw [List.mem_map] at hbl
        obtain ⟨b, hb, rfl⟩ := hbl
        have hkb := classifyBlock_key b p hpbl
        rw [hpd] at hkb
        exact group_consecutive_subset _ b hb d hkb
      have hx1 := hkey x h1
      have hx2 := hkey x.next h2
      have hx3 := hkey x.next.next h3
      have hLval : ∀ zz ∈ hols.eraseDups, zz.Valid :=
        fun zz hz => hval zz (eraseDups_mem hols zz hz)
      have hsorted := sortDates_toRD_pairwise hols.eraseDups (eraseDups_nodup hols) hLval
      have hv1 := Date.next_valid x hxv
      have ht1 := Date.toRD_next x hxv
      have ht2 := Date.toRD_next x.next hv1
      obtain ⟨u, v, huv⟩ := sorted_triple (sortDates hols.eraseDups) hsorted
        x x.next x.next.next hx1 hx2 hx3 (by omega) (by omega)
      have hd1 : Date.diff x.next x = 1 := by
        unfold Date.diff
        omega
      have hd2 : Date.diff x.next.next x.next = 1 := by
        unfold Date.diff
        omega
      have hbig : ∃ blk ∈ group_consecutive_holidays (sortDates hols.eraseDups),
          3 ≤ blk.length := by
        rw [huv]
        cases u with
        | nil =>
          show ∃ blk ∈ groupConsecutiveFrom x [x] (x.next :: x.next.next :: v), 3 ≤ blk.length
          have hba2 : (Date.diff x.next x == 1) = true := by simp [hd1]
          have hcb2 : (Date.diff x.next.next x.next == 1) = true := by simp [hd2]
          rw [groupFrom_cons, if_pos hba2, groupFrom_cons, if_pos hcb2]
          exact groupFrom_big_block v x.next.next (x.next.next :: x.next :: [x])
            (by simp only [List.length_cons]; omega)
        | cons d u2 =>
          show ∃ blk ∈ groupConsecutiveFrom d [d] (u2 ++ x :: x.next :: x.next.next :: v),
            3 ≤ blk.length
          exact groupFrom_triple u2 x x.next x.next.next v d [d] hd1 hd2
      obtain ⟨blk, hblk, h3len⟩ := hbig
      have hoff := offenseOf_of_big blk h3len
      have hnone := findSomeNone offenseOf _ hfs blk hblk
      rw [hoff] at hnone
      simp at hnone

/-- Order and coverage facts for the work-block emit loop: it extends the
accumulator with valid dates strictly below the final cursor, in strictly
increasing order, and emits every non-holiday date it passes. -/
theorem place_work_block_loop_cover : ∀ (fuel : Nat) (sy : Nat) (hm : HolidayMap)
    (wl : Nat) (fl : Bool) (current : Date) (placed : Nat) (acc : List Day)
    (cur2 : Date) (acc2 : List Day),
    place_work_block_loop fuel sy hm wl fl current placed acc = .ok (cur2, acc2) →
    current.Valid →
    ∃ newacc, acc2 = acc ++ newacc ∧
      (∀ day ∈ newacc, day.date.Valid ∧ current.toRD ≤ day.date.toRD ∧
        day.date.toRD < cur2.toRD) ∧
      List.Pairwise (fun a b => a.date.toRD < b.date.toRD) newacc ∧
      current.toRD ≤ cur2.toRD ∧ cur2.Valid ∧
      (∀ d : Date, d.Valid → current.toRD ≤ d.toRD → d.toRD < cur2.toRD →
        hmContains hm d = false → ∃ day ∈ newacc, day.date = d) := by
  intro fuel
  induction fuel with
  | zero =>
    intro sy hm wl fl current placed acc cur2 acc2 heq _
    exact absurd heq (by simp [place_work_block_loop])
  | succ f ih =>
    intro sy hm wl fl current placed acc cur2 acc2 heq hv
    rw [place_work_block_loop_succ] at heq
    by_cases hc : (decide (placed < wl) && (current.year == sy)) = true
    · rw [if_pos hc] at heq
      have hnextv := Date.next_valid current hv
      have hrdn := Date.toRD_next current hv
      by_cases hh : hmContains hm current = true
      · rw [if_pos hh] at heq
        obtain ⟨newacc, hq1, hq2, hq3, hq4, hq5, hq6⟩ :=
          ih sy hm wl fl current.next placed acc cur2 acc2 heq hnextv
        refine ⟨newacc, hq1, ?_, hq3, by omega, hq5, ?_⟩
        · intro day hd
          obtain ⟨a1, a2, a3⟩ := hq2 day hd
          exact ⟨a1, by omega, a3⟩
        · intro d hdv hdl hdr hdf
          rcases Nat.eq_or_lt_of_le hdl with heqd | hlt
          · have hde : d = current := Date.toRD_inj d current hdv hv heqd.symm
            rw [hde] at hdf
            rw [hdf] at hh
            exact absurd hh (by simp)
          · exact hq6 d hdv (by omega) hdr hdf
      · rw [if_neg hh] at heq
        obtain ⟨newacc, hq1, hq2, hq3, hq4, hq5, hq6⟩ :=
          ih sy hm wl fl current.next (placed + 1)
            (acc ++ [⟨current,
              if placed == 0 && fl then DayType.ORDERING else DayType.WORK⟩])
            cur2 acc2 heq hnextv
        refine ⟨⟨current,
            if placed == 0 && fl then DayType.ORDERING else DayType.WORK⟩ :: newacc,
          ?_, ?_, ?_, by omega, hq5, ?_⟩
        · rw [hq1, List.append_assoc]
          rfl
        · intro day hd
          rcases List.mem_cons.mp hd with rfl | hd2
          · refine ⟨hv, le_rfl, ?_⟩
            show current.toRD < cur2.toRD
            omega
          · obtain ⟨a1, a2, a3⟩ := hq2 day hd2
            exact ⟨a1, by omega, a3⟩
        · refine List.pairwise_cons.mpr ⟨?_, hq3⟩
          intro b hb
          obtain ⟨-, a2, -⟩ := hq2 b hb
          show current.toRD < b.date.toRD
          omega
        · intro d hdv hdl hdr hdf
          rcases Nat.eq_or_lt_of_le hdl with heqd | hlt
          · have hde : d = current := Date.toRD_inj d current hdv hv heqd.symm
            refine ⟨_, List.mem_cons_self _ _, ?_⟩
            rw [hde]
          · obtain ⟨day, hmem, hdd⟩ := hq6 d hdv (by omega) hdr hdf
            exact ⟨day, List.mem_cons_of_mem _ hmem, hdd⟩
    · rw [if_neg hc] at heq
      injection heq with hpair
      injection hpair with hcur hacc
      subst hcur
      subst hacc
      refine ⟨[], by simp, by simp, List.Pairwise.nil, le_rfl, hv, ?_⟩
      intro d _ hdl hdr _
      exact absurd (Nat.lt_of_le_of_lt hdl hdr) (by omega)

/-- Order and coverage facts for `place_work_block`. -/
theorem place_work_block_cover (s : ScheduleState) (hm : HolidayMap) (rng : Rng)
    (s2 : ScheduleState) (rng2 : Rng)
    (heq : place_work_block s hm rng = .ok (s2, rng2)) (hv : s.current_date.Valid) :
    ∃ newacc, s2.days_so_far = s.days_so_far ++ newacc ∧
      (∀ day ∈ newacc, day.date.Valid ∧ s.current_date.toRD ≤ day.date.toRD ∧
        day.date.toRD < s2.current_date.toRD) ∧
      List.Pairwise (fun a b => a.date.toRD < b.date.toRD) newacc ∧
      s.current_date.toRD ≤ s2.current_date.toRD ∧ s2.current_date.Valid ∧
      (∀ d : Date, d.Valid → s.current_date.toRD ≤ d.toRD →
        d.toRD < s2.current_date.toRD → hmContains hm d = false →
        ∃ day ∈ newacc, day.date = d) := by
  unfold place_work_block at heq
  cases hdec : decide_work_block_length s s.current_date hm rng with
  | error e =>
    rw [hdec] at heq
    exact absurd heq (by simp)
  | ok pr =>
    obtain ⟨wl, rng3⟩ := pr
    rw [hdec] at heq
    replace heq : (match place_work_block_loop (daysInYear s.current_date.year + 2)
        s.current_date.year hm wl
        (match s.last_day with | some d => d.is_rest_day | none => false)
        s.current_date 0 [] with
      | Except.error e => (Except.error e : Except GenError (ScheduleState × Rng))
      | Except.ok (current, new_days) =>
        Except.ok (⟨current, s.days_so_far ++ new_days, s.weeks_with_rest,
          s.months_with_weekend⟩, rng3)) = .ok (s2, rng2) := heq
    cases hloop : place_work_block_loop (daysInYear s.current_date.year + 2)
        s.current_date.year hm wl
        (match s.last_day with | some d => d.is_rest_day | none => false)
        s.current_date 0 [] with
    | error e =>
      rw [hloop] at heq
      exact absurd heq (by simp)
    | ok pr2 =>
      obtain ⟨cur2, acc2⟩ := pr2
      rw [hloop] at heq
      replace heq : Except.ok ((⟨cur2, s.days_so_far ++ acc2, s.weeks_with_rest,
          s.months_with_weekend⟩ : ScheduleState), rng3) =
        (.ok (s2, rng2) : Except GenError (ScheduleState × Rng)) := heq
      injection heq with hpair
      injection hpair with hs2 hrng
      have hcd : s2.current_date = cur2 := by rw [← hs2]
      have hdays : s2.days_so_far = s.days_so_far ++ acc2 := by rw [← hs2]
      obtain ⟨newacc, hacc, h2, h3, h4, h5, h6⟩ :=
        place_work_block_loop_cover _ _ _ _ _ _ _ _ _ _ hloop hv
      have hacc2 : acc2 = newacc := by simpa using hacc
      refine ⟨newacc, by rw [hdays, hacc2], ?_, h3, ?_, ?_, ?_⟩
      · intro day hd
        obtain ⟨a1, a2, a3⟩ := h2 day hd
        refine ⟨a1, a2, ?_⟩
        rw [hcd]
        exact a3
      · rw [hcd]
        exact h4
      · rw [hcd]
        exact h5
      · intro d hdv hdl hdr hdf
        rw [hcd] at hdr
        exact h6 d hdv hdl hdr hdf

/-- Structure of a successful `place_rest_block`: the cursor moves two days
forward and one or two `REST` days are appended, the second exactly when it
stays inside the year. -/
theorem place_rest_block_cover (s : ScheduleState) (hm : HolidayMap)
    (s3 : ScheduleState) (heq : place_rest_block s hm = .ok s3) :
    s3.current_date = s.current_date.next.next ∧
    ((s.current_date.next.year = s.current_date.year ∧
      s3.days_so_far = s.days_so_far ++
        [⟨s.current_date, DayType.REST⟩, ⟨s.current_date.next, DayType.REST⟩]) ∨
     (s.current_date.next.year ≠ s.current_date.year ∧
      s3.days_so_far = s.days_so_far ++ [⟨s.current_date, DayType.REST⟩])) := by
  unfold place_rest_block at heq
  by_cases hc : can_place_rest_at s.current_date hm = true
  · have hb : (!can_place_rest_at s.current_date hm) = false := by simp [hc]
    simp only [hb] at heq
    rw [if_neg (by simp)] at heq
    replace heq : Except.ok (⟨s.current_date.next.next,
        s.days_so_far ++ (if s.current_date.next.year == s.current_date.year then
          [⟨s.current_date, DayType.REST⟩, ⟨s.current_date.next, DayType.REST⟩]
        else [⟨s.current_date, DayType.REST⟩]),
        insertNat s.weeks_with_rest s.current_date.isoWeek,
        if s.current_date.weekday == 5 then
          insertNat s.months_with_weekend s.current_date.month
        else s.months_with_weekend⟩ : ScheduleState) =
      (.ok s3 : Except GenError ScheduleState) := heq
    injection heq with hs3
    refine ⟨by rw [← hs3], ?_⟩
    by_cases hy : (s.current_date.next.year == s.current_date.year) = true
    · left
      refine ⟨by simpa using hy, ?_⟩
      rw [← hs3]
      show s.days_so_far ++ (if s.current_date.next.year == s.current_date.year then
          [⟨s.current_date, DayType.REST⟩, ⟨s.current_date.next, DayType.REST⟩]
        else [⟨s.current_date, DayType.REST⟩]) = _
      rw [if_pos hy]
    · right
      refine ⟨by simpa using hy, ?_⟩
      rw [← hs3]
      show s.days_so_far ++ (if s.current_date.next.year == s.current_date.year then
          [⟨s.current_date, DayType.REST⟩, ⟨s.current_date.next, DayType.REST⟩]
        else [⟨s.current_date, DayType.REST⟩]) = _
      rw [if_neg hy]
  · have hcf : can_place_rest_at s.current_date hm = false := Bool.eq_false_iff.mpr hc
    have hb : (!can_place_rest_at s.current_date hm) = true := by simp [hcf]
    simp only [hb] at heq
    rw [if_pos (by trivial)] at heq
    exact absurd heq (by simp)

/-- Order and coverage invariants of the outer build loop: a successful run
yields valid days in strictly increasing date order containing every
non-holiday date of the year. -/
theorem build_loop_cover : ∀ (fuel year : Nat) (hm : HolidayMap) (s : ScheduleState)
    (rng : Rng) (days : List Day),
    build_loop fuel year hm s rng = .ok days →
    s.current_date.Valid →
    daysBeforeYear year < s.current_date.toRD →
    (∀ day ∈ s.days_so_far, day.date.Valid ∧ day.date.toRD < s.current_date.toRD) →
    List.Pairwise (fun a b => a.date.toRD < b.date.toRD) s.days_so_far →
    (∀ d : Date, d.Valid → d.year = year → d.toRD < s.current_date.toRD →
      hmContains hm d = false → ∃ day ∈ s.days_so_far, day.date = d) →
    (∀ day ∈ days, day.date.Valid) ∧
    List.Pairwise (fun a b => a.date.toRD < b.date.toRD) days ∧
    (∀ d : Date, d.Valid → d.year = year → hmContains hm d = false →
      ∃ day ∈ days, day.date = d) := by
  intro fuel
  induction fuel with
  | zero =>
    intro year hm s rng days heq
    exact absurd heq (by simp [build_loop])
  | succ f ih =>
    intro year hm s rng days heq hv hlow hall hpws hcov
    rw [build_loop_succ] at heq
    by_cases hyy : (s.current_date.year == year) = true
    · rw [if_pos hyy] at heq
      have hyy2 : s.current_date.year = year := by simpa using hyy
      have hrdn := Date.toRD_next s.current_date hv
      have hnextv := Date.next_valid s.current_date hv
      by_cases hh : hmContains hm s.current_date = true
      · rw [if_pos hh] at heq
        refine ih year hm (place_holiday s hm) rng days heq hnextv ?_ ?_ ?_ ?_
        · show daysBeforeYear year < s.current_date.next.toRD
          omega
        · intro day hd
          replace hd : day ∈ s.days_so_far ++
              [⟨s.current_date, (hmGet? hm s.current_date).getD DayType.HOLIDAY⟩] := hd
          rcases List.mem_append.mp hd with hd1 | hd2
          · obtain ⟨a1, a2⟩ := hall day hd1
            refine ⟨a1, ?_⟩
            show day.date.toRD < s.current_date.next.toRD
            omega
          · rw [List.mem_singleton] at hd2
            subst hd2
            refine ⟨hv, ?_⟩
            show s.current_date.toRD < s.current_date.next.toRD
            omega
        · show List.Pairwise (fun a b => a.date.toRD < b.date.toRD) (s.days_so_far ++
            [⟨s.current_date, (hmGet? hm s.current_date).getD DayType.HOLIDAY⟩])
          rw [List.pairwise_append]
          refine ⟨hpws, by simp, ?_⟩
          intro xx hx yy hyy3
          rw [List.mem_singleton] at hyy3
          subst hyy3
          show xx.date.toRD < s.current_date.toRD
          exact (hall xx hx).2
        · intro d hdv hdy hdl hdf
          replace hdl : d.toRD < s.current_date.next.toRD := hdl
          rcases Nat.lt_or_ge d.toRD s.current_date.toRD with hlt | hge
          · obtain ⟨day, hmem, hdd⟩ := hcov d hdv hdy hlt hdf
            exact ⟨day, List.mem_append_left _ hmem, hdd⟩
          · have hde : d = s.current_date := Date.toRD_inj d s.current_date hdv hv (by omega)
            subst hde
            refine ⟨⟨s.current_date, (hmGet? hm s.current_date).getD DayType.HOLIDAY⟩, ?_, rfl⟩
            exact List.mem_append_right _ (List.mem_singleton.mpr rfl)
      · rw [if_neg hh] at heq
        cases hpwb : place_work_block s hm rng with
        | error e =>
          rw [hpwb] at heq
          exact absurd heq (by simp)
        | ok pr =>
          obtain ⟨s2, rng2⟩ := pr
          rw [hpwb] at heq
          replace heq : (if s2.current_date.year == year then
              (match place_rest_block s2 hm with
               | Except.error e => (Except.error e : Except GenError (List Day))
               | Except.ok s3 => build_loop f year hm s3 rng2)
            else build_loop f year hm s2 rng2) = .ok days := heq
          obtain ⟨newacc, hdays2, hprops, hpw3, hle2, hv2, hcov2⟩ :=
            place_work_block_cover s hm rng s2 rng2 hpwb hv
          have hall2 : ∀ day ∈ s2.days_so_far,
              day.date.Valid ∧ day.date.toRD < s2.current_date.toRD := by
            intro day hd
            rw [hdays2] at hd
            rcases List.mem_append.mp hd with hd1 | hd2
            · obtain ⟨a1, a2⟩ := hall day hd1
              exact ⟨a1, by omega⟩
            · obtain ⟨a1, a2, a3⟩ := hprops day hd2
              exact ⟨a1, a3⟩
          have hpw2 : List.Pairwise (fun a b => a.date.toRD < b.date.toRD)
              s2.days_so_far := by
            rw [hdays2, List.pairwise_append]
            refine ⟨hpws, hpw3, ?_⟩
            intro xx hx yy hyy3
            obtain ⟨-, a2, -⟩ := hprops yy hyy3
            have := (hall xx hx).2
            omega
          have hcov2' : ∀ d : Date, d.Valid → d.year = year →
              d.toRD < s2.current_date.toRD → hmContains hm d = false →
              ∃ day ∈ s2.days_so_far, day.date = d := by
            intro d hdv hdy hdl hdf
            rcases Nat.lt_or_ge d.toRD s.current_date.toRD with hlt | hge
            · obtain ⟨day, hmem, hdd⟩ := hcov d hdv hdy hlt hdf
              exact ⟨day, by rw [hdays2]; exact List.mem_append_left _ hmem, hdd⟩
            · obtain ⟨day, hmem, hdd⟩ := hcov2 d hdv hge hdl hdf
              exact ⟨day, by rw [hdays2]; exact List.mem_append_right _ hmem, hdd⟩
          have hlow2 : daysBeforeYear year < s2.current_date.toRD := by omega
          by_cases hy2 : (s2.current_date.year == year) = true
          · rw [if_pos hy2] at heq
            cases hrb : place_rest_block s2 hm with
            | error e =>
              rw [hrb] at heq
              exact absurd heq (by simp)
            | ok s3 =>
              rw [hrb] at heq
              obtain ⟨hcd3, hrest⟩ := place_rest_block_cover s2 hm s3 hrb
              have hv2n := Date.next_valid _ hv2
              have hv3 : s3.current_date.Valid := by
                rw [hcd3]
                exact Date.next_valid _ hv2n
              have hrdn1 := Date.toRD_next _ hv2
              have hrdn2 := Date.toRD_next _ hv2n
              have hrd3 : s3.current_date.toRD = s2.current_date.toRD + 2 := by
                rw [hcd3]
                omega
              refine ih year hm s3 rng2 days heq hv3 (by omega) ?_ ?_ ?_
              · intro day hd
                rcases hrest with ⟨hsame, hdays3⟩ | ⟨hdiff, hdays3⟩
                · rw [hdays3] at hd
                  rcases List.mem_append.mp hd with hd1 | hd2
                  · obtain ⟨a1, a2⟩ := hall2 day hd1
                    exact ⟨a1, by omega⟩
                  · rcases List.mem_cons.mp hd2 with rfl | hd3
                    · refine ⟨hv2, ?_⟩
                      show s2.current_date.toRD < s3.current_date.toRD
                      omega
                    · rw [List.mem_singleton] at hd3
                      subst hd3
                      refine ⟨hv2n, ?_⟩
                      show s2.current_date.next.toRD < s3.current_date.toRD
                      omega
                · rw [hdays3] at hd
                  rcases List.mem_append.mp hd with hd1 | hd2
                  · obtain ⟨a1, a2⟩ := hall2 day hd1
                    exact ⟨a1, by omega⟩
                  · rw [List.mem_singleton] at hd2
                    subst hd2
                    refine ⟨hv2, ?_⟩
                    show s2.current_date.toRD < s3.current_date.toRD
                    omega
              · rcases hrest with ⟨hsame, hdays3⟩ | ⟨hdiff, hdays3⟩
                · rw [hdays3, List.pairwise_append]
                  refine ⟨hpw2, ?_, ?_⟩
                  · refine List.pairwise_cons.mpr ⟨?_, by simp⟩
                    intro b hb
                    rw [List.mem_singleton] at hb
                    subst hb
                    show s2.current_date.toRD < s2.current_date.next.toRD
                    omega
                  · intro xx hx yy hyy3
                    have hx2 := (hall2 xx hx).2
                    rcases List.mem_cons.mp hyy3 with rfl | h2
                    · show xx.date.toRD < s2.current_date.toRD
                      exact hx2
                    · rw [List.mem_singleton] at h2
                      subst h2
                      show xx.date.toRD < s2.current_date.next.toRD
                      omega
                · rw [hdays3, List.pairwise_append]
                  refine ⟨hpw2, by simp, ?_⟩
                  intro xx hx yy hyy3
                  rw [List.mem_singleton] at hyy3
                  subst hyy3
                  show xx.date.toRD < s2.current_date.toRD
                  exact (hall2 xx hx).2
              · intro d hdv hdy hdl hdf
                rw [hrd3] at hdl
                rcases Nat.lt_or_ge d.toRD s2.current_date.toRD with hlt | hge
                · obtain ⟨day, hmem, hdd⟩ := hcov2' d hdv hdy hlt hdf
                  rcases hrest with ⟨hsame, hdays3⟩ | ⟨hdiff, hdays3⟩ <;>
                    exact ⟨day, by rw [hdays3]; exact List.mem_append_left _ hmem, hdd⟩
                · rcases Nat.eq_or_lt_of_le hge with heq2 | hlt2
                  · have hde : d = s2.current_date :=
                      Date.toRD_inj d s2.current_date hdv hv2 heq2.symm
                    subst hde
                    rcases hrest with ⟨hsame, hdays3⟩ | ⟨hdiff, hdays3⟩
                    · refine ⟨⟨s2.current_date, DayType.REST⟩, ?_, rfl⟩
                      rw [hdays3]
                      exact List.mem_append_right _ (List.mem_cons_self _ _)
                    · refine ⟨⟨s2.current_date, DayType.REST⟩, ?_, rfl⟩
                      rw [hdays3]
                      exact List.mem_append_right _ (List.mem_singleton.mpr rfl)
                  · have hdrd : d.toRD = s2.current_date.next.toRD := by omega
                    have hde : d = s2.current_date.next :=
                      Date.toRD_inj _ _ hdv hv2n hdrd
                    subst hde
                    rcases hrest with ⟨hsame, hdays3⟩ | ⟨hdiff, hdays3⟩
                    · refine ⟨⟨s2.current_date.next, DayType.REST⟩, ?_, rfl⟩
                      rw [hdays3]
                      exact List.mem_append_right _
                        (List.mem_cons_of_mem _ (List.mem_singleton.mpr rfl))
                    · have hy2' : s2.current_date.year = year := by simpa using hy2
                      rw [hy2'] at hdiff
                      exact absurd hdy hdiff
          · rw [if_neg hy2] at heq
            exact ih year hm s2 rng2 days heq hv2 hlow2 hall2 hpw2 hcov2'
    · rw [if_neg hyy] at heq
      replace heq : Except.ok s.days_so_far = (.ok days : Except GenError (List Day)) := heq
      injection heq with h1
      subst h1
      refine ⟨fun day hd => (hall day hd).1, hpws, ?_⟩
      intro d hdv hdy hdf
      have hcy : ¬ s.current_date.year = year := by simpa using hyy
      have hcv1 : 1 ≤ s.current_date.year := hv.1
      rcases Nat.lt_or_ge s.current_date.year year with hlt | hge
      · have hb1 := (rd_of_year s.current_date _ hv rfl).2
        have hmono := daysBeforeYear_mono (show s.current_date.year + 1 ≤ year by omega)
        exact absurd hlow (by omega)
      · have hgt : year < s.current_date.year := by omega
        have hb1 := (rd_of_year s.current_date _ hv rfl).1
        have hmono := daysBeforeYear_mono (show year + 1 ≤ s.current_date.year by omega)
        have hb2 := (rd_of_year d year hdv hdy).2
        exact hcov d hdv hdy (by omega) hdf

/-- Order and coverage facts of `build_schedule`: the returned day list is
valid, strictly increasing by date, and contains every non-holiday date of
the year. -/
theorem build_schedule_cover (y : Nat) (hy : 1 ≤ y) (hm : HolidayMap) (rng : Rng)
    (days : List Day) (heq : build_schedule y hm rng = .ok days) :
    (∀ day ∈ days, day.date.Valid) ∧
    List.Pairwise (fun a b => a.date.toRD < b.date.toRD) days ∧
    (∀ d : Date, d.Valid → d.year = y → hmContains hm d = false →
      ∃ day ∈ days, day.date = d) := by
  unfold build_schedule at heq
  refine build_loop_cover _ y hm _ rng days heq (jan1_valid y hy) ?_ ?_ ?_ ?_
  · show daysBeforeYear y < (⟨y, 1, 1⟩ : Date).toRD
    have htr : (⟨y, 1, 1⟩ : Date).toRD =
        daysBeforeYear y + daysBeforeMonth y 1 + 1 := rfl
    omega
  · intro day hd
    exact absurd hd (List.not_mem_nil day)
  · exact List.Pairwise.nil
  · intro d hdv hdy hdl _
    have hb := (rd_of_year d y hdv hdy).1
    have htr : (⟨y, 1, 1⟩ : Date).toRD =
        daysBeforeYear y + daysBeforeMonth y 1 + 1 := rfl
    have hdbm : daysBeforeMonth y 1 = 0 := rfl
    replace hdl : d.toRD < (⟨y, 1, 1⟩ : Date).toRD := hdl
    exact absurd hdl (by omega)

/-- In a strictly increasing list, nothing sits between two adjacent
entries. -/
theorem adjacent_no_between (l u v : List Day) (a b : Day)
    (hpw : List.Pairwise (fun x y => x.date.toRD < y.date.toRD) l)
    (hsplit : l = u ++ a :: b :: v) (z : Day) (hz : z ∈ l)
    (h1 : a.date.toRD < z.date.toRD) (h2 : z.date.toRD < b.date.toRD) : False := by
  subst hsplit
  rw [List.pairwise_append] at hpw
  obtain ⟨hu, hrest, hcross⟩ := hpw
  obtain ⟨hae, hpw2⟩ := List.pairwise_cons.mp hrest
  obtain ⟨hbe, -⟩ := List.pairwise_cons.mp hpw2
  rcases List.mem_append.mp hz with hzu | hzc
  · have := hcross z hzu a (List.mem_cons_self a (b :: v))
    omega
  · rcases List.mem_cons.mp hzc with rfl | hzc2
    · omega
    · rcases List.mem_cons.mp hzc2 with rfl | hzv
      · omega
      · have := hbe z hzv
        omega

/-- If every Saturday–Sunday adjacent pair of a list is a next-day pair,
the strict free-weekend count agrees with the validator's count. -/
theorem countFreeWeekends_strict_eq : ∀ (l : List Day),
    (∀ (u : List Day) (a b : Day) (v : List Day), l = u ++ a :: b :: v →
      a.date.weekday = 5 → b.date.weekday = 6 → b.date = a.date.next) →
    countFreeWeekendsStrict l = countFreeWeekends l := by
  intro l
  induction l with
  | nil => intro _; rfl
  | cons d1 rest ih =>
    intro hadj
    cases rest with
    | nil => rfl
    | cons d2 rest2 =>
      have htail := ih (fun u a b v hsp ha hb =>
        hadj (d1 :: u) a b v (by rw [hsp]; rfl) ha hb)
      show (if d1.date.weekday == 5 && d2.date.weekday == 6 &&
          d1.day_type == DayType.REST && d2.day_type == DayType.REST &&
          d2.date == d1.date.next then 1 else 0) + countFreeWeekendsStrict (d2 :: rest2) =
        (if d1.date.weekday == 5 && d2.date.weekday == 6 &&
          d1.day_type == DayType.REST && d2.day_type == DayType.REST then 1 else 0) +
        countFreeWeekends (d2 :: rest2)
      rw [htail]
      by_cases h56 : d1.date.weekday = 5 ∧ d2.date.weekday = 6
      · have hnext := hadj [] d1 d2 rest2 rfl h56.1 h56.2
        have hb : (d2.date == d1.date.next) = true := by simp [hnext]
        simp only [hb, Bool.and_true]
      · rcases not_and_or.mp h56 with h5 | h6
        · have hf : (d1.date.weekday == 5) = false := by simp [h5]
          simp [hf]
        · have hf : (d2.date.weekday == 6) = false := by simp [h6]
          simp [hf]

/-- On a generated calendar's month slice, a Saturday entry adjacent to a
Sunday entry is followed by it on the very next date: a wider gap would
need seven consecutive missing dates, which only dropped holidays could
explain — and the classifier admits no three consecutive holiday dates. -/
theorem month_pair_next (cal : Calendar) (hm : HolidayMap) (hols : List Date)
    (y : Nat)
    (hvaldays : ∀ day ∈ cal.days, day.date.Valid)
    (hyear : ∀ day ∈ cal.days, day.date.year = y)
    (hpw : List.Pairwise (fun a b => a.date.toRD < b.date.toRD) cal.days)
    (hcov : ∀ d : Date, d.Valid → d.year = y → hmContains hm d = false →
      ∃ day ∈ cal.days, day.date = d)
    (hok : process_holidays hols = .ok hm) (hvhols : ∀ h ∈ hols, h.Valid)
    (m : Nat) (u : List Day) (a b : Day) (v : List Day)
    (hsplit : cal.get_month_days m = u ++ a :: b :: v)
    (ha5 : a.date.weekday = 5) (hb6 : b.date.weekday = 6) :
    b.date = a.date.next := by
  have hma : a ∈ cal.get_month_days m := by
    rw [hsplit]
    simp
  have hmb : b ∈ cal.get_month_days m := by
    rw [hsplit]
    simp
  unfold Calendar.get_month_days at hma hmb hsplit
  have hma2 := List.mem_filter.mp hma
  have hmb2 := List.mem_filter.mp hmb
  have hav := hvaldays a hma2.1
  have hbv := hvaldays b hmb2.1
  have hay := hyear a hma2.1
  have hby := hyear b hmb2.1
  have ham : a.date.month = m := by simpa using hma2.2
  have hbm : b.date.month = m := by simpa using hmb2.2
  have hpwf : List.Pairwise (fun x y => x.date.toRD < y.date.toRD)
      (cal.days.filter (fun d => d.date.month == m)) :=
    List.Pairwise.sublist (List.filter_sublist _) hpw
  have hab : a.date.toRD < b.date.toRD := by
    have hpwf2 := hpwf
    rw [hsplit, List.pairwise_append] at hpwf2
    exact (List.pairwise_cons.mp hpwf2.2.1).1 b (List.mem_cons_self b v)
  by_cases hnext : b.date.toRD = a.date.toRD + 1
  · have hnx := Date.toRD_next a.date hav
    exact Date.toRD_inj b.date a.date.next hbv (Date.next_valid _ hav) (by omega)
  · have hw1 : (a.date.toRD + 6) % 7 = 5 := ha5
    have hw2 : (b.date.toRD + 6) % 7 = 6 := hb6
    have hgap : a.date.toRD + 8 ≤ b.date.toRD := by omega
    have hx1v := Date.next_valid a.date hav
    have hx2v := Date.next_valid _ hx1v
    have hx3v := Date.next_valid _ hx2v
    have ht1 := Date.toRD_next a.date hav
    have ht2 := Date.toRD_next _ hx1v
    have ht3 := Date.toRD_next _ hx2v
    have h1y : 1 ≤ y := by
      have := hav.1
      omega
    have hrda := rd_of_year a.date y hav hay
    have hrdb := rd_of_year b.date y hbv hby
    have hy1 : a.date.next.year = y := year_of_rd _ y hx1v h1y (by omega) (by omega)
    have hy2 : a.date.next.next.year = y := year_of_rd _ y hx2v h1y (by omega) (by omega)
    have hy3 : a.date.next.next.next.year = y :=
      year_of_rd _ y hx3v h1y (by omega) (by omega)
    have habsent : ∀ x : Date, x.Valid → x.year = y → a.date.toRD < x.toRD →
        x.toRD < b.date.toRD → hmContains hm x = true := by
      intro x hxv hxy hxl hxr
      by_contra hfree
      have hfree2 : hmContains hm x = false := Bool.eq_false_iff.mpr hfree
      obtain ⟨day, hdmem, hddate⟩ := hcov x hxv hxy hfree2
      have hxma : m ≤ x.month := by
        have := toRD_month_le a.date x hav hxv (by rw [hay, hxy]) (by omega)
        omega
      have hxmb : x.month ≤ m := by
        have := toRD_month_le x b.date hxv hbv (by rw [hxy, hby]) (by omega)
        omega
      have hxm : x.month = m := by omega
      have hdayf : day ∈ cal.days.filter (fun d => d.date.month == m) := by
        rw [List.mem_filter]
        refine ⟨hdmem, ?_⟩
        rw [hddate, hxm]
        simp
      exact adjacent_no_between _ u v a b hpwf hsplit day hdayf
        (by rw [hddate]; omega) (by rw [hddate]; omega)
    have hc1 := habsent a.date.next hx1v hy1 (by omega) (by omega)
    have hc2 := habsent a.date.next.next hx2v hy2 (by omega) (by omega)
    have hc3 := habsent a.date.next.next.next hx3v hy3 (by omega) (by omega)
    exact (hm_no_triple hols hm hok hvhols a.date.next hx1v hc1 hc2 hc3).elim

/-- C4: whenever `generate_calendar` returns a calendar for a list of
constructible holiday dates, every month 1..12 contains exactly one
adjacent pair of a Saturday `REST` day followed by a next-day Sunday
`REST` day. -/
theorem c4_monthly_weekend (year : Int) (hols : List Date) (rng : Rng)
    (cal : Calendar) (hvhols : ∀ h ∈ hols, h.Valid)
    (h : generate_calendar year hols rng = .ok cal) :
    ∀ m, 1 ≤ m → m ≤ 12 → countFreeWeekendsStrict (cal.get_month_days m) = 1 := by
  obtain ⟨hy1, hyear, hdyears, hne, herrs, hm, hph, hbs⟩ :=
    generate_ok_facts year hols rng cal h
  have h5 := (validation_rules_empty cal herrs).2.2.2.2.1
  have hyn : 1 ≤ year.toNat := by omega
  obtain ⟨hvdays, hpw, hcov⟩ := build_schedule_cover year.toNat hyn hm rng cal.days hbs
  intro m hm1 hm2
  unfold validate_monthly_weekends at h5
  have hmem : m ∈ List.range' 1 12 := List.mem_range'_1.mpr ⟨hm1, by omega⟩
  have hnone := List.filterMap_eq_nil_iff.mp h5 m hmem
  have hweak : countFreeWeekends (cal.get_month_days m) = 1 := by
    by_contra hne2
    simp [hne2] at hnone
  have hadj : ∀ (u : List Day) (a b : Day) (v : List Day),
      cal.get_month_days m = u ++ a :: b :: v → a.date.weekday = 5 →
      b.date.weekday = 6 → b.date = a.date.next := by
    intro u a b v hsp ha hb
    exact month_pair_next cal hm hols year.toNat hvdays hdyears hpw hcov hph hvhols
      m u a b v hsp ha hb
  rw [countFreeWeekends_strict_eq (cal.get_month_days m) hadj]
  exact hweak

set_option maxHeartbeats 2000000 in
/-- Witness for C4: January of the successful 2025 run with holiday
Jan 7. -/
theorem c4_monthly_weekend_witness :
    countFreeWeekendsStrict (cal2025h.get_month_days 1) = 1 := by
  have hgen : generate_calendar 2025 [holidayJan7] witnessRng = Except.ok cal2025h :=
    generate_jan7_run
  exact c4_monthly_weekend 2025 [holidayJan7] witnessRng cal2025h (by decide) hgen 1
    (by decide) (by decide)

set_option maxHeartbeats 2000000 in
/-- Witness for C5: the rest block 2025-01-04/05 of the successful run
with holiday Jan 7. -/
theorem c5_maximal_rest_run_length_witness :
    ((cal2025h.days.drop 3).take 2).length = 2 := by
  have hgen : generate_calendar 2025 [holidayJan7] witnessRng = Except.ok cal2025h :=
    generate_jan7_run
  have hdecomp : cal2025h.days =
      cal2025h.days.take 3 ++ ((cal2025h.days.drop 3).take 2 ++ cal2025h.days.drop 5) := by
    rw [show cal2025h.days.drop 5 = ((cal2025h.days.drop 3).drop 2) by
      rw [List.drop_drop]]
    rw [List.take_append_drop, List.take_append_drop]
  have hne : ((cal2025h.days.drop 3).take 2) ≠ [] := by decide
  have hall : ((cal2025h.days.drop 3).take 2).all
      (fun d => d.day_type == DayType.REST) = true := by decide
  have hpre : (cal2025h.days.take 3).getLast?.all
      (fun a => a.day_type != DayType.REST) = true := by decide
  have hpost : (cal2025h.days.drop 5).head?.all
      (fun a => a.day_type != DayType.REST) = true := by decide
  exact c5_maximal_rest_run_length 2025 [holidayJan7] witnessRng cal2025h
    (cal2025h.days.take 3) ((cal2025h.days.drop 3).take 2) (cal2025h.days.drop 5)
    hgen (by rw [← List.append_assoc] at hdecomp; exact hdecomp)
    hne hall hpre hpost

end Calendario
